import Mathlib

/-!
# Non-bonded pair kernels: a shallow embedding

Exact-arithmetic (rational) model of the two generated kernels
`nb_kernel_ElecNone_VdwLJSh_GeomP1P1_{VF,F}_avx_128_fma_double` and
`nb_kernel_ElecRF_VdwLJ_GeomW3P1_{VF,F}_sse2_double`.

* a `__m128d` register is a pair of rationals (lane 0 = low, lane 1 = high);
* C arrays are total functions `Int → ℚ` / `Int → Int` addressed by flat offset;
* the mutable outputs (`f`, `fshift`, the energy-group arrays, the flop counter)
  are threaded explicitly through `KState`.
-/

namespace Gromacs

/-! ## Two-lane registers and the intrinsics used by the kernels -/

/-- Two-lane register `__m128d`: `lo` is lane 0, `hi` is lane 1. -/
structure M128d where
  lo : ℚ
  hi : ℚ
deriving DecidableEq

/-- Result of a lane-wise comparison: an all-ones / all-zeros pattern per lane. -/
structure Mask where
  lo : Bool
  hi : Bool
deriving DecidableEq

def _mm_set1_pd (a : ℚ) : M128d := ⟨a, a⟩

def _mm_setzero_pd : M128d := ⟨0, 0⟩

def _mm_load_sd (a : ℚ) : M128d := ⟨a, 0⟩

def _mm_add_pd (a b : M128d) : M128d := ⟨a.lo + b.lo, a.hi + b.hi⟩

def _mm_sub_pd (a b : M128d) : M128d := ⟨a.lo - b.lo, a.hi - b.hi⟩

def _mm_mul_pd (a b : M128d) : M128d := ⟨a.lo * b.lo, a.hi * b.hi⟩

/-- Fused multiply-add `a*b + c`. -/
def _mm_macc_pd (a b c : M128d) : M128d := ⟨a.lo * b.lo + c.lo, a.hi * b.hi + c.hi⟩

/-- Fused negated multiply-add `-(a*b) + c`. -/
def _mm_nmacc_pd (a b c : M128d) : M128d := ⟨-(a.lo * b.lo) + c.lo, -(a.hi * b.hi) + c.hi⟩

/-- Fused multiply-subtract `a*b - c`. -/
def _mm_msub_pd (a b c : M128d) : M128d := ⟨a.lo * b.lo - c.lo, a.hi * b.hi - c.hi⟩

/-- Lane-wise strict `<`. -/
def _mm_cmplt_pd (a b : M128d) : Mask := ⟨decide (a.lo < b.lo), decide (a.hi < b.hi)⟩

/-- Bitwise and of a value with a comparison mask: the lane survives or becomes `+0.0`. -/
def _mm_and_pd (v : M128d) (m : Mask) : M128d :=
  ⟨if m.lo then v.lo else 0, if m.hi then v.hi else 0⟩

/-- Interleave the low lanes: `(a.lo, b.lo)`. -/
def _mm_unpacklo_pd (a b : M128d) : M128d := ⟨a.lo, b.lo⟩

/-- Horizontal add: `(a.lo + a.hi, b.lo + b.hi)`. -/
def _mm_hadd_pd (a b : M128d) : M128d := ⟨a.lo + a.hi, b.lo + b.hi⟩

/-- Sign bits of the two lanes of a mask, as `_mm_movemask_pd` returns them. -/
def _mm_movemask_pd (m : Mask) : Int := (if m.lo then 1 else 0) + (if m.hi then 2 else 0)

/-! ## Data model -/

/-- Number of space dimensions. -/
def DIM : Int := 3

/-- Neighbour list `t_nblist` (the fields the kernels read). -/
structure t_nblist where
  nri : Int
  iinr : Int → Int
  jindex : Int → Int
  jjnr : Int → Int
  shift : Int → Int
  gid : Int → Int

/-- Interaction constants `fr->ic` (the fields the kernels read, plus `rcoulomb`). -/
structure interaction_const_t where
  rvdw : ℚ
  rcoulomb : ℚ
  sh_invrc6 : ℚ
  epsfac : ℚ
  k_rf : ℚ
  c_rf : ℚ

/-- Force record `t_forcerec`, read-only part. -/
structure t_forcerec where
  shift_vec : Int → ℚ
  ntype : Int
  nbfp : Int → ℚ
  ic : interaction_const_t

/-- Per-atom data `t_mdatoms`. -/
structure t_mdatoms where
  typeA : Int → Int
  chargeA : Int → ℚ

/-- Flop-counter slots written by the four kernels (`eNR_NBKERNEL_*`). -/
inductive eNR where
  | NBKERNEL_VDW_VF
  | NBKERNEL_VDW_F
  | NBKERNEL_ELEC_VDW_W3_VF
  | NBKERNEL_ELEC_VDW_W3_F
deriving DecidableEq

/-- Caller-owned outputs of a kernel call: `ff`, `fr->fshift`,
`kernel_data->energygrp_elec`, `kernel_data->energygrp_vdw`, `nrnb->n`. -/
structure KState where
  f : Int → ℚ
  fshift : Int → ℚ
  energygrp_elec : Int → ℚ
  energygrp_vdw : Int → ℚ
  nrnb : eNR → Int

/-- Store `v` at flat offset `p`. -/
def store (a : Int → ℚ) (p : Int) (v : ℚ) : Int → ℚ := fun k => if k = p then v else a k

/-- The counter macro `inc_nrnb(nrnb, enr, inc)`: `nrnb->n[enr] += inc`. -/
def inc_nrnb (nrnb : eNR → Int) (enr : eNR) (inc : Int) : eNR → Int :=
  fun e => if e = enr then nrnb e + inc else nrnb e

/-! ## Kernel utilities

The generated kernels call small helpers from the kernel-utility headers
(`kernelutil_x86_avx_128_fma_double.h`, `kernelutil_x86_sse2_double.h`); they are
modelled here lane by lane. -/

/-- Three registers holding the x, y and z components of a coordinate or force. -/
structure Rvec2 where
  x : M128d
  y : M128d
  z : M128d

/-- Modelled from the spec: `gmx_mm_any_lt` of the kernel-utility header (not among
the source files): the branch form of the cutoff test, true when some lane has `a < b`. -/
def gmx_mm_any_lt (a b : M128d) : Bool := _mm_movemask_pd (_mm_cmplt_pd a b) != 0

/-- Modelled from the spec: `gmx_mm_calc_rsq_pd` of the kernel-utility header:
squared length of the displacement, per lane. -/
def gmx_mm_calc_rsq_pd (dx dy dz : M128d) : M128d :=
  _mm_add_pd (_mm_add_pd (_mm_mul_pd dx dx) (_mm_mul_pd dy dy)) (_mm_mul_pd dz dz)

/-- Modelled from the spec: `avx128fma_inv_d` of the kernel-utility header: the
reciprocal `1/x` per lane (`rinvsq = 1/r²`), exact here; the value at `x = 0`
(coincident particles, undefined for the kernel) is Lean's `1/0 = 0`. -/
def avx128fma_inv_d (a : M128d) : M128d := ⟨1 / a.lo, 1 / a.hi⟩

/-- Modelled from the spec: `gmx_mm_load_shift_and_1rvec_broadcast_pd`: the outer
particle's coordinates plus the shift vector, broadcast to both lanes. -/
def gmx_mm_load_shift_and_1rvec_broadcast_pd (shiftvec : Int → ℚ) (xyz_shift : Int)
    (x : Int → ℚ) (xyz : Int) : Rvec2 :=
  { x := _mm_set1_pd (x xyz + shiftvec xyz_shift)
    y := _mm_set1_pd (x (xyz + 1) + shiftvec (xyz_shift + 1))
    z := _mm_set1_pd (x (xyz + 2) + shiftvec (xyz_shift + 2)) }

/-- Modelled from the spec: `gmx_mm_load_1rvec_2ptr_swizzle_pd`: the coordinates of two
partners, A in lane 0 and B in lane 1. -/
def gmx_mm_load_1rvec_2ptr_swizzle_pd (x : Int → ℚ) (ptrA ptrB : Int) : Rvec2 :=
  { x := ⟨x ptrA, x ptrB⟩
    y := ⟨x (ptrA + 1), x (ptrB + 1)⟩
    z := ⟨x (ptrA + 2), x (ptrB + 2)⟩ }

/-- Modelled from the spec: `gmx_mm_load_1rvec_1ptr_swizzle_pd`: the coordinates of one
partner in lane 0 (`_mm_load_sd`), lane 1 zero-filled. -/
def gmx_mm_load_1rvec_1ptr_swizzle_pd (x : Int → ℚ) (ptrA : Int) : Rvec2 :=
  { x := _mm_load_sd (x ptrA)
    y := _mm_load_sd (x (ptrA + 1))
    z := _mm_load_sd (x (ptrA + 2)) }

/-- The `c6` and `c12` registers loaded from the pair-parameter table. -/
structure C6C12 where
  c6 : M128d
  c12 : M128d

/-- Modelled from the spec: `gmx_mm_load_2pair_swizzle_pd`: `(c6, c12)` of two type
pairs, the first in lane 0 and the second in lane 1. -/
def gmx_mm_load_2pair_swizzle_pd (vdwparam : Int → ℚ) (p1 p2 : Int) : C6C12 :=
  { c6 := ⟨vdwparam p1, vdwparam p2⟩
    c12 := ⟨vdwparam (p1 + 1), vdwparam (p2 + 1)⟩ }

/-- Modelled from the spec: `gmx_mm_load_1pair_swizzle_pd`: `(c6, c12)` of one type pair
in lane 0, lane 1 zero-filled. -/
def gmx_mm_load_1pair_swizzle_pd (vdwparam : Int → ℚ) (p1 : Int) : C6C12 :=
  { c6 := _mm_load_sd (vdwparam p1)
    c12 := _mm_load_sd (vdwparam (p1 + 1)) }

/-- Modelled from the spec: `gmx_mm_load_2real_swizzle_pd`: two scalars, one per lane. -/
def gmx_mm_load_2real_swizzle_pd (a b : ℚ) : M128d := ⟨a, b⟩

/-- Modelled from the spec: `gmx_mm_decrement_1rvec_2ptr_swizzle_pd`: subtract lane 0 of
`(x1, y1, z1)` from the force of partner A and lane 1 from the force of partner B.
Both forces are loaded before either is stored (A is stored first, B second), as in
the header. -/
def gmx_mm_decrement_1rvec_2ptr_swizzle_pd (f : Int → ℚ) (ptrA ptrB : Int)
    (x1 y1 z1 : M128d) : Int → ℚ :=
  let tAx := f ptrA - x1.lo
  let tAy := f (ptrA + 1) - y1.lo
  let tAz := f (ptrA + 2) - z1.lo
  let tBx := f ptrB - x1.hi
  let tBy := f (ptrB + 1) - y1.hi
  let tBz := f (ptrB + 2) - z1.hi
  store (store (store (store (store (store f ptrA tAx) (ptrA + 1) tAy) (ptrA + 2) tAz)
    ptrB tBx) (ptrB + 1) tBy) (ptrB + 2) tBz

/-- Modelled from the spec: `gmx_mm_decrement_1rvec_1ptr_swizzle_pd`: subtract lane 0 of
`(x1, y1, z1)` from the force of partner A. -/
def gmx_mm_decrement_1rvec_1ptr_swizzle_pd (f : Int → ℚ) (ptrA : Int)
    (x1 y1 z1 : M128d) : Int → ℚ :=
  let tAx := f ptrA - x1.lo
  let tAy := f (ptrA + 1) - y1.lo
  let tAz := f (ptrA + 2) - z1.lo
  store (store (store f ptrA tAx) (ptrA + 1) tAy) (ptrA + 2) tAz

/-- Add the three scalars `(vx, vy, vz)` to the entries `p, p+1, p+2` of `a`. -/
def incr3 (a : Int → ℚ) (p : Int) (vx vy vz : ℚ) : Int → ℚ :=
  let tx := a p + vx
  let ty := a (p + 1) + vy
  let tz := a (p + 2) + vz
  store (store (store a p tx) (p + 1) ty) (p + 2) tz

/-- Force array and shift-force table after an outer-particle update. -/
structure FUpd where
  f : Int → ℚ
  fshift : Int → ℚ

/-- Modelled from the spec: `gmx_mm_update_iforce_1atom_swizzle_pd`: reduce the two lanes
of the outer accumulator (`_mm_hadd_pd`) and add the result to the outer particle's
force and to the shift-force slot. -/
def gmx_mm_update_iforce_1atom_swizzle_pd (fix1 fiy1 fiz1 : M128d)
    (f : Int → ℚ) (fptr : Int) (fshift : Int → ℚ) (fshiftptr : Int) : FUpd :=
  let fxy := _mm_hadd_pd fix1 fiy1
  let fzz := _mm_hadd_pd fiz1 fiz1
  { f := incr3 f fptr fxy.lo fxy.hi fzz.lo
    fshift := incr3 fshift fshiftptr fxy.lo fxy.hi fzz.lo }

/-- Modelled from the spec: `gmx_mm_update_iforce_3atom_swizzle_pd`: reduce the lanes of
the three site accumulators, add each to its site's force (`fptr + 0..8`) and add the
sum of the three to the shift-force slot. -/
def gmx_mm_update_iforce_3atom_swizzle_pd (fix1 fiy1 fiz1 fix2 fiy2 fiz2 fix3 fiy3 fiz3 : M128d)
    (f : Int → ℚ) (fptr : Int) (fshift : Int → ℚ) (fshiftptr : Int) : FUpd :=
  let s1xy := _mm_hadd_pd fix1 fiy1
  let s1z2x := _mm_hadd_pd fiz1 fix2
  let s2yz := _mm_hadd_pd fiy2 fiz2
  let s3xy := _mm_hadd_pd fix3 fiy3
  let s3z := _mm_hadd_pd fiz3 fiz3
  { f := incr3 (incr3 (incr3 f fptr s1xy.lo s1xy.hi s1z2x.lo)
      (fptr + 3) s1z2x.hi s2yz.lo s2yz.hi) (fptr + 6) s3xy.lo s3xy.hi s3z.lo
    fshift := incr3 fshift fshiftptr (s1xy.lo + s3xy.lo + s1z2x.hi)
      (s1xy.hi + s3xy.hi + s2yz.lo) (s1z2x.lo + s3z.lo + s2yz.hi) }

/-- Modelled from the spec: `gmx_mm_update_1pot_pd`: reduce the two lanes of a potential
sum and add the result to the energy-group accumulator `ptrA`. -/
def gmx_mm_update_1pot_pd (pot1 : M128d) (e : Int → ℚ) (ptrA : Int) : Int → ℚ :=
  let p := _mm_hadd_pd pot1 pot1
  store e ptrA (p.lo + e ptrA)

/-! ## Loop skeletons -/

/-- The counting loop `for (i = i0; i < n; i++) body`. -/
def forLoop {σ : Type} (n : Int) (body : Int → σ → σ) (i : Int) (s : σ) : σ :=
  if h : i < n then forLoop n body (i + 1) (body i s) else s
termination_by (n - i).toNat
decreasing_by omega

/-- The unrolled partner loop `for (jidx = j0; jidx < j_index_end-1; jidx += 2) body`;
returns the final `jidx` together with the state. -/
def jLoop2 {σ : Type} (j_index_end : Int) (body : Int → σ → σ) (jidx : Int) (s : σ) :
    Int × σ :=
  if h : jidx < j_index_end - 1 then jLoop2 j_index_end body (jidx + 2) (body jidx s)
  else (jidx, s)
termination_by (j_index_end - 1 - jidx).toNat
decreasing_by omega

/-- The inner loop shared by all four kernels: full two-lane blocks while
`jidx < j_index_end-1`, then the remainder block `if (jidx < j_index_end)`. -/
def innerLoop {σ : Type} (block2 block1 : Int → σ → σ) (j_index_start j_index_end : Int)
    (s : σ) : σ :=
  let r := jLoop2 j_index_end block2 j_index_start s
  if r.1 < j_index_end then block1 r.1 r.2 else r.2

/-! ## `nb_kernel_ElecNone_VdwLJSh_GeomP1P1_{VF,F}_avx_128_fma_double` -/

/-- Variables of the LJSh-P1P1 kernels that live across the inner loop of one outer
entry: the shared force array and the outer accumulators. -/
structure LJShInner where
  f : Int → ℚ
  fix0 : M128d
  fiy0 : M128d
  fiz0 : M128d
  vvdwsum : M128d

/-- Unmasked potential and force scalar of one Lennard-Jones evaluation. -/
structure LJTerms where
  vvdw : M128d
  fvdw : M128d

/-- The section "LENNARD-JONES DISPERSION/REPULSION" of the VF kernel (source lines
192-197, repeated at 259-264): the cutoff-shifted potential `vvdw` and the force
scalar `fvdw`, before the cutoff mask is applied. -/
def ljsh_VF_lennard_jones (c6_00 c12_00 rinvsq00 sh_vdw_invrcut6 : M128d) : LJTerms :=
  let one_sixth := _mm_set1_pd (1 / 6)
  let one_twelfth := _mm_set1_pd (1 / 12)
  let rinvsix := _mm_mul_pd (_mm_mul_pd rinvsq00 rinvsq00) rinvsq00
  let vvdw6 := _mm_mul_pd c6_00 rinvsix
  let vvdw12 := _mm_mul_pd c12_00 (_mm_mul_pd rinvsix rinvsix)
  let vvdw := _mm_msub_pd
    (_mm_nmacc_pd c12_00 (_mm_mul_pd sh_vdw_invrcut6 sh_vdw_invrcut6) vvdw12) one_twelfth
    (_mm_mul_pd (_mm_nmacc_pd c6_00 sh_vdw_invrcut6 vvdw6) one_sixth)
  let fvdw := _mm_mul_pd (_mm_sub_pd vvdw12 vvdw6) rinvsq00
  { vvdw := vvdw, fvdw := fvdw }

/-- The section "LENNARD-JONES DISPERSION/REPULSION" of the F kernel (source lines
456-457, repeated at 515-516): the force scalar `fvdw` before the cutoff mask. -/
def ljsh_F_lennard_jones (c6_00 c12_00 rinvsq00 : M128d) : M128d :=
  let rinvsix := _mm_mul_pd (_mm_mul_pd rinvsq00 rinvsq00) rinvsq00
  _mm_mul_pd (_mm_msub_pd c12_00 rinvsix c6_00) (_mm_mul_pd rinvsix rinvsq00)

/-- Body of the full two-lane block of the VF kernel (source lines 155-221). -/
def ljsh_VF_block2 (nlist : t_nblist) (x : Int → ℚ) (vdwtype : Int → Int)
    (vdwparam : Int → ℚ) (rcutoff2 sh_vdw_invrcut6 : M128d) (ix0 iy0 iz0 : M128d)
    (vdwioffset0 : Int) (jidx : Int) (s : LJShInner) : LJShInner :=
  let jnrA := nlist.jjnr jidx
  let jnrB := nlist.jjnr (jidx + 1)
  let j_coord_offsetA := DIM * jnrA
  let j_coord_offsetB := DIM * jnrB
  let j0 := gmx_mm_load_1rvec_2ptr_swizzle_pd x j_coord_offsetA j_coord_offsetB
  let dx00 := _mm_sub_pd ix0 j0.x
  let dy00 := _mm_sub_pd iy0 j0.y
  let dz00 := _mm_sub_pd iz0 j0.z
  let rsq00 := gmx_mm_calc_rsq_pd dx00 dy00 dz00
  let rinvsq00 := avx128fma_inv_d rsq00
  let vdwjidx0A := 2 * vdwtype (jnrA + 0)
  let vdwjidx0B := 2 * vdwtype (jnrB + 0)
  if gmx_mm_any_lt rsq00 rcutoff2 then
    let c := gmx_mm_load_2pair_swizzle_pd vdwparam (vdwioffset0 + vdwjidx0A)
      (vdwioffset0 + vdwjidx0B)
    let lj := ljsh_VF_lennard_jones c.c6 c.c12 rinvsq00 sh_vdw_invrcut6
    let vvdw := lj.vvdw
    let fvdw := lj.fvdw
    let cutoff_mask := _mm_cmplt_pd rsq00 rcutoff2
    let vvdw := _mm_and_pd vvdw cutoff_mask
    let vvdwsum := _mm_add_pd s.vvdwsum vvdw
    let fscal := fvdw
    let fscal := _mm_and_pd fscal cutoff_mask
    { f := gmx_mm_decrement_1rvec_2ptr_swizzle_pd s.f j_coord_offsetA j_coord_offsetB
        (_mm_mul_pd dx00 fscal) (_mm_mul_pd dy00 fscal) (_mm_mul_pd dz00 fscal)
      fix0 := _mm_macc_pd dx00 fscal s.fix0
      fiy0 := _mm_macc_pd dy00 fscal s.fiy0
      fiz0 := _mm_macc_pd dz00 fscal s.fiz0
      vvdwsum := vvdwsum }
  else s

/-- Body of the remainder block of the VF kernel (source lines 227-291). -/
def ljsh_VF_block1 (nlist : t_nblist) (x : Int → ℚ) (vdwtype : Int → Int)
    (vdwparam : Int → ℚ) (rcutoff2 sh_vdw_invrcut6 : M128d) (ix0 iy0 iz0 : M128d)
    (vdwioffset0 : Int) (jidx : Int) (s : LJShInner) : LJShInner :=
  let jnrA := nlist.jjnr jidx
  let j_coord_offsetA := DIM * jnrA
  let j0 := gmx_mm_load_1rvec_1ptr_swizzle_pd x j_coord_offsetA
  let dx00 := _mm_sub_pd ix0 j0.x
  let dy00 := _mm_sub_pd iy0 j0.y
  let dz00 := _mm_sub_pd iz0 j0.z
  let rsq00 := gmx_mm_calc_rsq_pd dx00 dy00 dz00
  let rinvsq00 := avx128fma_inv_d rsq00
  let vdwjidx0A := 2 * vdwtype (jnrA + 0)
  if gmx_mm_any_lt rsq00 rcutoff2 then
    let c := gmx_mm_load_1pair_swizzle_pd vdwparam (vdwioffset0 + vdwjidx0A)
    let lj := ljsh_VF_lennard_jones c.c6 c.c12 rinvsq00 sh_vdw_invrcut6
    let vvdw := lj.vvdw
    let fvdw := lj.fvdw
    let cutoff_mask := _mm_cmplt_pd rsq00 rcutoff2
    let vvdw := _mm_and_pd vvdw cutoff_mask
    let vvdw := _mm_unpacklo_pd vvdw _mm_setzero_pd
    let vvdwsum := _mm_add_pd s.vvdwsum vvdw
    let fscal := fvdw
    let fscal := _mm_and_pd fscal cutoff_mask
    let fscal := _mm_unpacklo_pd fscal _mm_setzero_pd
    { f := gmx_mm_decrement_1rvec_1ptr_swizzle_pd s.f j_coord_offsetA
        (_mm_mul_pd dx00 fscal) (_mm_mul_pd dy00 fscal) (_mm_mul_pd dz00 fscal)
      fix0 := _mm_macc_pd dx00 fscal s.fix0
      fiy0 := _mm_macc_pd dy00 fscal s.fiy0
      fiz0 := _mm_macc_pd dz00 fscal s.fiz0
      vvdwsum := vvdwsum }
  else s

/-- Body of the full two-lane block of the F kernel (source lines 419-477). -/
def ljsh_F_block2 (nlist : t_nblist) (x : Int → ℚ) (vdwtype : Int → Int)
    (vdwparam : Int → ℚ) (rcutoff2 : M128d) (ix0 iy0 iz0 : M128d)
    (vdwioffset0 : Int) (jidx : Int) (s : LJShInner) : LJShInner :=
  let jnrA := nlist.jjnr jidx
  let jnrB := nlist.jjnr (jidx + 1)
  let j_coord_offsetA := DIM * jnrA
  let j_coord_offsetB := DIM * jnrB
  let j0 := gmx_mm_load_1rvec_2ptr_swizzle_pd x j_coord_offsetA j_coord_offsetB
  let dx00 := _mm_sub_pd ix0 j0.x
  let dy00 := _mm_sub_pd iy0 j0.y
  let dz00 := _mm_sub_pd iz0 j0.z
  let rsq00 := gmx_mm_calc_rsq_pd dx00 dy00 dz00
  let rinvsq00 := avx128fma_inv_d rsq00
  let vdwjidx0A := 2 * vdwtype (jnrA + 0)
  let vdwjidx0B := 2 * vdwtype (jnrB + 0)
  if gmx_mm_any_lt rsq00 rcutoff2 then
    let c := gmx_mm_load_2pair_swizzle_pd vdwparam (vdwioffset0 + vdwjidx0A)
      (vdwioffset0 + vdwjidx0B)
    let fvdw := ljsh_F_lennard_jones c.c6 c.c12 rinvsq00
    let cutoff_mask := _mm_cmplt_pd rsq00 rcutoff2
    let fscal := fvdw
    let fscal := _mm_and_pd fscal cutoff_mask
    { s with
      f := gmx_mm_decrement_1rvec_2ptr_swizzle_pd s.f j_coord_offsetA j_coord_offsetB
        (_mm_mul_pd dx00 fscal) (_mm_mul_pd dy00 fscal) (_mm_mul_pd dz00 fscal)
      fix0 := _mm_macc_pd dx00 fscal s.fix0
      fiy0 := _mm_macc_pd dy00 fscal s.fiy0
      fiz0 := _mm_macc_pd dz00 fscal s.fiz0 }
  else s

/-- Body of the remainder block of the F kernel (source lines 483-538). -/
def ljsh_F_block1 (nlist : t_nblist) (x : Int → ℚ) (vdwtype : Int → Int)
    (vdwparam : Int → ℚ) (rcutoff2 : M128d) (ix0 iy0 iz0 : M128d)
    (vdwioffset0 : Int) (jidx : Int) (s : LJShInner) : LJShInner :=
  let jnrA := nlist.jjnr jidx
  let j_coord_offsetA := DIM * jnrA
  let j0 := gmx_mm_load_1rvec_1ptr_swizzle_pd x j_coord_offsetA
  let dx00 := _mm_sub_pd ix0 j0.x
  let dy00 := _mm_sub_pd iy0 j0.y
  let dz00 := _mm_sub_pd iz0 j0.z
  let rsq00 := gmx_mm_calc_rsq_pd dx00 dy00 dz00
  let rinvsq00 := avx128fma_inv_d rsq00
  let vdwjidx0A := 2 * vdwtype (jnrA + 0)
  if gmx_mm_any_lt rsq00 rcutoff2 then
    let c := gmx_mm_load_1pair_swizzle_pd vdwparam (vdwioffset0 + vdwjidx0A)
    let fvdw := ljsh_F_lennard_jones c.c6 c.c12 rinvsq00
    let cutoff_mask := _mm_cmplt_pd rsq00 rcutoff2
    let fscal := fvdw
    let fscal := _mm_and_pd fscal cutoff_mask
    let fscal := _mm_unpacklo_pd fscal _mm_setzero_pd
    { s with
      f := gmx_mm_decrement_1rvec_1ptr_swizzle_pd s.f j_coord_offsetA
        (_mm_mul_pd dx00 fscal) (_mm_mul_pd dy00 fscal) (_mm_mul_pd dz00 fscal)
      fix0 := _mm_macc_pd dx00 fscal s.fix0
      fiy0 := _mm_macc_pd dy00 fscal s.fiy0
      fiz0 := _mm_macc_pd dz00 fscal s.fiz0 }
  else s

/-- State carried by the outer loop: the caller-owned outputs and `inneriter`. -/
structure OuterSt where
  f : Int → ℚ
  fshift : Int → ℚ
  energygrp_elec : Int → ℚ
  energygrp_vdw : Int → ℚ
  inneriter : Int

/-- One iteration of the outer loop of the VF kernel (source lines 127-306). -/
def ljsh_VF_outer (nlist : t_nblist) (x : Int → ℚ) (shiftvec : Int → ℚ)
    (vdwtype : Int → Int) (vdwparam : Int → ℚ) (nvdwtype : Int)
    (rcutoff2 sh_vdw_invrcut6 : M128d) (iidx : Int) (o : OuterSt) : OuterSt :=
  let i_shift_offset := DIM * nlist.shift iidx
  let j_index_start := nlist.jindex iidx
  let j_index_end := nlist.jindex (iidx + 1)
  let inr := nlist.iinr iidx
  let i_coord_offset := DIM * inr
  let i0 := gmx_mm_load_shift_and_1rvec_broadcast_pd shiftvec i_shift_offset x i_coord_offset
  let vdwioffset0 := 2 * nvdwtype * vdwtype (inr + 0)
  let s0 : LJShInner :=
    { f := o.f, fix0 := _mm_setzero_pd, fiy0 := _mm_setzero_pd, fiz0 := _mm_setzero_pd,
      vvdwsum := _mm_setzero_pd }
  let s := innerLoop
    (ljsh_VF_block2 nlist x vdwtype vdwparam rcutoff2 sh_vdw_invrcut6 i0.x i0.y i0.z vdwioffset0)
    (ljsh_VF_block1 nlist x vdwtype vdwparam rcutoff2 sh_vdw_invrcut6 i0.x i0.y i0.z vdwioffset0)
    j_index_start j_index_end s0
  let u := gmx_mm_update_iforce_1atom_swizzle_pd s.fix0 s.fiy0 s.fiz0
    s.f i_coord_offset o.fshift i_shift_offset
  let ggid := nlist.gid iidx
  { f := u.f
    fshift := u.fshift
    energygrp_elec := o.energygrp_elec
    energygrp_vdw := gmx_mm_update_1pot_pd s.vvdwsum o.energygrp_vdw ggid
    inneriter := o.inneriter + (j_index_end - j_index_start) }

/-- One iteration of the outer loop of the F kernel (source lines 394-549). -/
def ljsh_F_outer (nlist : t_nblist) (x : Int → ℚ) (shiftvec : Int → ℚ)
    (vdwtype : Int → Int) (vdwparam : Int → ℚ) (nvdwtype : Int)
    (rcutoff2 : M128d) (iidx : Int) (o : OuterSt) : OuterSt :=
  let i_shift_offset := DIM * nlist.shift iidx
  let j_index_start := nlist.jindex iidx
  let j_index_end := nlist.jindex (iidx + 1)
  let inr := nlist.iinr iidx
  let i_coord_offset := DIM * inr
  let i0 := gmx_mm_load_shift_and_1rvec_broadcast_pd shiftvec i_shift_offset x i_coord_offset
  let vdwioffset0 := 2 * nvdwtype * vdwtype (inr + 0)
  let s0 : LJShInner :=
    { f := o.f, fix0 := _mm_setzero_pd, fiy0 := _mm_setzero_pd, fiz0 := _mm_setzero_pd,
      vvdwsum := _mm_setzero_pd }
  let s := innerLoop
    (ljsh_F_block2 nlist x vdwtype vdwparam rcutoff2 i0.x i0.y i0.z vdwioffset0)
    (ljsh_F_block1 nlist x vdwtype vdwparam rcutoff2 i0.x i0.y i0.z vdwioffset0)
    j_index_start j_index_end s0
  let u := gmx_mm_update_iforce_1atom_swizzle_pd s.fix0 s.fiy0 s.fiz0
    s.f i_coord_offset o.fshift i_shift_offset
  { f := u.f
    fshift := u.fshift
    energygrp_elec := o.energygrp_elec
    energygrp_vdw := o.energygrp_vdw
    inneriter := o.inneriter + (j_index_end - j_index_start) }

/-- The kernel `nb_kernel_ElecNone_VdwLJSh_GeomP1P1_VF_avx_128_fma_double`: `xx` is
read-only, the outputs `ff`, `fr->fshift`, `kernel_data->energygrp_*` and `nrnb` are
the fields of the state `st`. -/
def nb_kernel_ElecNone_VdwLJSh_GeomP1P1_VF_avx_128_fma_double (nlist : t_nblist)
    (xx : Int → ℚ) (fr : t_forcerec) (mdatoms : t_mdatoms) (st : KState) : KState :=
  let nri := nlist.nri
  let shiftvec := fr.shift_vec
  let nvdwtype := fr.ntype
  let vdwparam := fr.nbfp
  let vdwtype := mdatoms.typeA
  let rcutoff_scalar := fr.ic.rvdw
  let rcutoff := _mm_set1_pd rcutoff_scalar
  let rcutoff2 := _mm_mul_pd rcutoff rcutoff
  let sh_vdw_invrcut6 := _mm_set1_pd fr.ic.sh_invrc6
  let outeriter : Int := 0
  let o0 : OuterSt :=
    { f := st.f, fshift := st.fshift, energygrp_elec := st.energygrp_elec,
      energygrp_vdw := st.energygrp_vdw, inneriter := 0 }
  let o := forLoop nri
    (ljsh_VF_outer nlist xx shiftvec vdwtype vdwparam nvdwtype rcutoff2 sh_vdw_invrcut6) 0 o0
  let outeriter := outeriter + nri
  { f := o.f
    fshift := o.fshift
    energygrp_elec := o.energygrp_elec
    energygrp_vdw := o.energygrp_vdw
    nrnb := inc_nrnb st.nrnb eNR.NBKERNEL_VDW_VF (outeriter * 7 + o.inneriter * 44) }

/-- The kernel `nb_kernel_ElecNone_VdwLJSh_GeomP1P1_F_avx_128_fma_double`. -/
def nb_kernel_ElecNone_VdwLJSh_GeomP1P1_F_avx_128_fma_double (nlist : t_nblist)
    (xx : Int → ℚ) (fr : t_forcerec) (mdatoms : t_mdatoms) (st : KState) : KState :=
  let nri := nlist.nri
  let shiftvec := fr.shift_vec
  let nvdwtype := fr.ntype
  let vdwparam := fr.nbfp
  let vdwtype := mdatoms.typeA
  let rcutoff_scalar := fr.ic.rvdw
  let rcutoff := _mm_set1_pd rcutoff_scalar
  let rcutoff2 := _mm_mul_pd rcutoff rcutoff
  let outeriter : Int := 0
  let o0 : OuterSt :=
    { f := st.f, fshift := st.fshift, energygrp_elec := st.energygrp_elec,
      energygrp_vdw := st.energygrp_vdw, inneriter := 0 }
  let o := forLoop nri
    (ljsh_F_outer nlist xx shiftvec vdwtype vdwparam nvdwtype rcutoff2) 0 o0
  let outeriter := outeriter + nri
  { f := o.f
    fshift := o.fshift
    energygrp_elec := o.energygrp_elec
    energygrp_vdw := o.energygrp_vdw
    nrnb := inc_nrnb st.nrnb eNR.NBKERNEL_VDW_F (outeriter * 6 + o.inneriter * 33) }

/-! ## `nb_kernel_ElecRF_VdwLJ_GeomW3P1_{VF,F}_sse2_double` -/

/-- Modelled from the spec: `sse2_invsqrt_d` of the SSE2 math header (not among the
source files): `rinv = 1/r` from `rsq = r²`, per lane. Square roots are not rational,
so the scalar function `invsqrt` is a parameter of the kernels; the exactness
property `invsqrt q * invsqrt q * q = 1` is assumed only where a statement needs it. -/
def sse2_invsqrt_d (invsqrt : ℚ → ℚ) (a : M128d) : M128d := ⟨invsqrt a.lo, invsqrt a.hi⟩

/-- Shifted coordinates of the three water sites, broadcast to both lanes. -/
structure Rvec2x3 where
  s0 : Rvec2
  s1 : Rvec2
  s2 : Rvec2

/-- Modelled from the spec: `gmx_mm_load_shift_and_3rvec_broadcast_pd`: the coordinates
of the three sites `xyz + 0..8`, each plus the shift vector, broadcast to both lanes. -/
def gmx_mm_load_shift_and_3rvec_broadcast_pd (shiftvec : Int → ℚ) (xyz_shift : Int)
    (x : Int → ℚ) (xyz : Int) : Rvec2x3 :=
  { s0 := gmx_mm_load_shift_and_1rvec_broadcast_pd shiftvec xyz_shift x xyz
    s1 := gmx_mm_load_shift_and_1rvec_broadcast_pd shiftvec xyz_shift x (xyz + 3)
    s2 := gmx_mm_load_shift_and_1rvec_broadcast_pd shiftvec xyz_shift x (xyz + 6) }

/-- Variables of the RF-LJ-W3P1 kernels that live across the inner loop of one outer
entry: the shared force array, the accumulators of the three sites and the
potential sums. -/
structure RFInner where
  f : Int → ℚ
  fix0 : M128d
  fiy0 : M128d
  fiz0 : M128d
  fix1 : M128d
  fiy1 : M128d
  fiz1 : M128d
  fix2 : M128d
  fiy2 : M128d
  fiz2 : M128d
  velecsum : M128d
  vvdwsum : M128d

/-- Body of the full two-lane block of the VF kernel (source lines 174-319). -/
def rf_VF_block2 (invsqrt : ℚ → ℚ) (nlist : t_nblist) (x : Int → ℚ) (charge : Int → ℚ)
    (vdwtype : Int → Int) (vdwparam : Int → ℚ) (krf krf2 crf : M128d) (iq0 iq1 iq2 : M128d)
    (vdwioffset0 : Int) (ix0 iy0 iz0 ix1 iy1 iz1 ix2 iy2 iz2 : M128d) (jidx : Int)
    (s : RFInner) : RFInner :=
  let one_sixth := _mm_set1_pd (1 / 6)
  let one_twelfth := _mm_set1_pd (1 / 12)
  let jnrA := nlist.jjnr jidx
  let jnrB := nlist.jjnr (jidx + 1)
  let j_coord_offsetA := DIM * jnrA
  let j_coord_offsetB := DIM * jnrB
  let j0 := gmx_mm_load_1rvec_2ptr_swizzle_pd x j_coord_offsetA j_coord_offsetB
  let dx00 := _mm_sub_pd ix0 j0.x
  let dy00 := _mm_sub_pd iy0 j0.y
  let dz00 := _mm_sub_pd iz0 j0.z
  let dx10 := _mm_sub_pd ix1 j0.x
  let dy10 := _mm_sub_pd iy1 j0.y
  let dz10 := _mm_sub_pd iz1 j0.z
  let dx20 := _mm_sub_pd ix2 j0.x
  let dy20 := _mm_sub_pd iy2 j0.y
  let dz20 := _mm_sub_pd iz2 j0.z
  let rsq00 := gmx_mm_calc_rsq_pd dx00 dy00 dz00
  let rsq10 := gmx_mm_calc_rsq_pd dx10 dy10 dz10
  let rsq20 := gmx_mm_calc_rsq_pd dx20 dy20 dz20
  let rinv00 := sse2_invsqrt_d invsqrt rsq00
  let rinv10 := sse2_invsqrt_d invsqrt rsq10
  let rinv20 := sse2_invsqrt_d invsqrt rsq20
  let rinvsq00 := _mm_mul_pd rinv00 rinv00
  let rinvsq10 := _mm_mul_pd rinv10 rinv10
  let rinvsq20 := _mm_mul_pd rinv20 rinv20
  let jq0 := gmx_mm_load_2real_swizzle_pd (charge (jnrA + 0)) (charge (jnrB + 0))
  let vdwjidx0A := 2 * vdwtype (jnrA + 0)
  let vdwjidx0B := 2 * vdwtype (jnrB + 0)
  let fjx0 := _mm_setzero_pd
  let fjy0 := _mm_setzero_pd
  let fjz0 := _mm_setzero_pd
  let qq00 := _mm_mul_pd iq0 jq0
  let c := gmx_mm_load_2pair_swizzle_pd vdwparam (vdwioffset0 + vdwjidx0A)
    (vdwioffset0 + vdwjidx0B)
  let velec := _mm_mul_pd qq00 (_mm_sub_pd (_mm_add_pd rinv00 (_mm_mul_pd krf rsq00)) crf)
  let felec := _mm_mul_pd qq00 (_mm_sub_pd (_mm_mul_pd rinv00 rinvsq00) krf2)
  let rinvsix := _mm_mul_pd (_mm_mul_pd rinvsq00 rinvsq00) rinvsq00
  let vvdw6 := _mm_mul_pd c.c6 rinvsix
  let vvdw12 := _mm_mul_pd c.c12 (_mm_mul_pd rinvsix rinvsix)
  let vvdw := _mm_sub_pd (_mm_mul_pd vvdw12 one_twelfth) (_mm_mul_pd vvdw6 one_sixth)
  let fvdw := _mm_mul_pd (_mm_sub_pd vvdw12 vvdw6) rinvsq00
  let velecsum := _mm_add_pd s.velecsum velec
  let vvdwsum := _mm_add_pd s.vvdwsum vvdw
  let fscal := _mm_add_pd felec fvdw
  let tx := _mm_mul_pd fscal dx00
  let ty := _mm_mul_pd fscal dy00
  let tz := _mm_mul_pd fscal dz00
  let fix0 := _mm_add_pd s.fix0 tx
  let fiy0 := _mm_add_pd s.fiy0 ty
  let fiz0 := _mm_add_pd s.fiz0 tz
  let fjx0 := _mm_add_pd fjx0 tx
  let fjy0 := _mm_add_pd fjy0 ty
  let fjz0 := _mm_add_pd fjz0 tz
  let qq10 := _mm_mul_pd iq1 jq0
  let velec := _mm_mul_pd qq10 (_mm_sub_pd (_mm_add_pd rinv10 (_mm_mul_pd krf rsq10)) crf)
  let felec := _mm_mul_pd qq10 (_mm_sub_pd (_mm_mul_pd rinv10 rinvsq10) krf2)
  let velecsum := _mm_add_pd velecsum velec
  let fscal := felec
  let tx := _mm_mul_pd fscal dx10
  let ty := _mm_mul_pd fscal dy10
  let tz := _mm_mul_pd fscal dz10
  let fix1 := _mm_add_pd s.fix1 tx
  let fiy1 := _mm_add_pd s.fiy1 ty
  let fiz1 := _mm_add_pd s.fiz1 tz
  let fjx0 := _mm_add_pd fjx0 tx
  let fjy0 := _mm_add_pd fjy0 ty
  let fjz0 := _mm_add_pd fjz0 tz
  let qq20 := _mm_mul_pd iq2 jq0
  let velec := _mm_mul_pd qq20 (_mm_sub_pd (_mm_add_pd rinv20 (_mm_mul_pd krf rsq20)) crf)
  let felec := _mm_mul_pd qq20 (_mm_sub_pd (_mm_mul_pd rinv20 rinvsq20) krf2)
  let velecsum := _mm_add_pd velecsum velec
  let fscal := felec
  let tx := _mm_mul_pd fscal dx20
  let ty := _mm_mul_pd fscal dy20
  let tz := _mm_mul_pd fscal dz20
  let fix2 := _mm_add_pd s.fix2 tx
  let fiy2 := _mm_add_pd s.fiy2 ty
  let fiz2 := _mm_add_pd s.fiz2 tz
  let fjx0 := _mm_add_pd fjx0 tx
  let fjy0 := _mm_add_pd fjy0 ty
  let fjz0 := _mm_add_pd fjz0 tz
  { f := gmx_mm_decrement_1rvec_2ptr_swizzle_pd s.f j_coord_offsetA j_coord_offsetB fjx0 fjy0 fjz0
    fix0 := fix0
    fiy0 := fiy0
    fiz0 := fiz0
    fix1 := fix1
    fiy1 := fiy1
    fiz1 := fiz1
    fix2 := fix2
    fiy2 := fiy2
    fiz2 := fiz2
    velecsum := velecsum
    vvdwsum := vvdwsum }

/-- Body of the remainder block of the VF kernel (source lines 325-476). -/
def rf_VF_block1 (invsqrt : ℚ → ℚ) (nlist : t_nblist) (x : Int → ℚ) (charge : Int → ℚ)
    (vdwtype : Int → Int) (vdwparam : Int → ℚ) (krf krf2 crf : M128d) (iq0 iq1 iq2 : M128d)
    (vdwioffset0 : Int) (ix0 iy0 iz0 ix1 iy1 iz1 ix2 iy2 iz2 : M128d) (jidx : Int)
    (s : RFInner) : RFInner :=
  let one_sixth := _mm_set1_pd (1 / 6)
  let one_twelfth := _mm_set1_pd (1 / 12)
  let jnrA := nlist.jjnr jidx
  let j_coord_offsetA := DIM * jnrA
  let j0 := gmx_mm_load_1rvec_1ptr_swizzle_pd x j_coord_offsetA
  let dx00 := _mm_sub_pd ix0 j0.x
  let dy00 := _mm_sub_pd iy0 j0.y
  let dz00 := _mm_sub_pd iz0 j0.z
  let dx10 := _mm_sub_pd ix1 j0.x
  let dy10 := _mm_sub_pd iy1 j0.y
  let dz10 := _mm_sub_pd iz1 j0.z
  let dx20 := _mm_sub_pd ix2 j0.x
  let dy20 := _mm_sub_pd iy2 j0.y
  let dz20 := _mm_sub_pd iz2 j0.z
  let rsq00 := gmx_mm_calc_rsq_pd dx00 dy00 dz00
  let rsq10 := gmx_mm_calc_rsq_pd dx10 dy10 dz10
  let rsq20 := gmx_mm_calc_rsq_pd dx20 dy20 dz20
  let rinv00 := sse2_invsqrt_d invsqrt rsq00
  let rinv10 := sse2_invsqrt_d invsqrt rsq10
  let rinv20 := sse2_invsqrt_d invsqrt rsq20
  let rinvsq00 := _mm_mul_pd rinv00 rinv00
  let rinvsq10 := _mm_mul_pd rinv10 rinv10
  let rinvsq20 := _mm_mul_pd rinv20 rinv20
  let jq0 := _mm_load_sd (charge (jnrA + 0))
  let vdwjidx0A := 2 * vdwtype (jnrA + 0)
  let fjx0 := _mm_setzero_pd
  let fjy0 := _mm_setzero_pd
  let fjz0 := _mm_setzero_pd
  let qq00 := _mm_mul_pd iq0 jq0
  let c := gmx_mm_load_1pair_swizzle_pd vdwparam (vdwioffset0 + vdwjidx0A)
  let velec := _mm_mul_pd qq00 (_mm_sub_pd (_mm_add_pd rinv00 (_mm_mul_pd krf rsq00)) crf)
  let felec := _mm_mul_pd qq00 (_mm_sub_pd (_mm_mul_pd rinv00 rinvsq00) krf2)
  let rinvsix := _mm_mul_pd (_mm_mul_pd rinvsq00 rinvsq00) rinvsq00
  let vvdw6 := _mm_mul_pd c.c6 rinvsix
  let vvdw12 := _mm_mul_pd c.c12 (_mm_mul_pd rinvsix rinvsix)
  let vvdw := _mm_sub_pd (_mm_mul_pd vvdw12 one_twelfth) (_mm_mul_pd vvdw6 one_sixth)
  let fvdw := _mm_mul_pd (_mm_sub_pd vvdw12 vvdw6) rinvsq00
  let velec := _mm_unpacklo_pd velec _mm_setzero_pd
  let velecsum := _mm_add_pd s.velecsum velec
  let vvdw := _mm_unpacklo_pd vvdw _mm_setzero_pd
  let vvdwsum := _mm_add_pd s.vvdwsum vvdw
  let fscal := _mm_add_pd felec fvdw
  let fscal := _mm_unpacklo_pd fscal _mm_setzero_pd
  let tx := _mm_mul_pd fscal dx00
  let ty := _mm_mul_pd fscal dy00
  let tz := _mm_mul_pd fscal dz00
  let fix0 := _mm_add_pd s.fix0 tx
  let fiy0 := _mm_add_pd s.fiy0 ty
  let fiz0 := _mm_add_pd s.fiz0 tz
  let fjx0 := _mm_add_pd fjx0 tx
  let fjy0 := _mm_add_pd fjy0 ty
  let fjz0 := _mm_add_pd fjz0 tz
  let qq10 := _mm_mul_pd iq1 jq0
  let velec := _mm_mul_pd qq10 (_mm_sub_pd (_mm_add_pd rinv10 (_mm_mul_pd krf rsq10)) crf)
  let felec := _mm_mul_pd qq10 (_mm_sub_pd (_mm_mul_pd rinv10 rinvsq10) krf2)
  let velec := _mm_unpacklo_pd velec _mm_setzero_pd
  let velecsum := _mm_add_pd velecsum velec
  let fscal := felec
  let fscal := _mm_unpacklo_pd fscal _mm_setzero_pd
  let tx := _mm_mul_pd fscal dx10
  let ty := _mm_mul_pd fscal dy10
  let tz := _mm_mul_pd fscal dz10
  let fix1 := _mm_add_pd s.fix1 tx
  let fiy1 := _mm_add_pd s.fiy1 ty
  let fiz1 := _mm_add_pd s.fiz1 tz
  let fjx0 := _mm_add_pd fjx0 tx
  let fjy0 := _mm_add_pd fjy0 ty
  let fjz0 := _mm_add_pd fjz0 tz
  let qq20 := _mm_mul_pd iq2 jq0
  let velec := _mm_mul_pd qq20 (_mm_sub_pd (_mm_add_pd rinv20 (_mm_mul_pd krf rsq20)) crf)
  let felec := _mm_mul_pd qq20 (_mm_sub_pd (_mm_mul_pd rinv20 rinvsq20) krf2)
  let velec := _mm_unpacklo_pd velec _mm_setzero_pd
  let velecsum := _mm_add_pd velecsum velec
  let fscal := felec
  let fscal := _mm_unpacklo_pd fscal _mm_setzero_pd
  let tx := _mm_mul_pd fscal dx20
  let ty := _mm_mul_pd fscal dy20
  let tz := _mm_mul_pd fscal dz20
  let fix2 := _mm_add_pd s.fix2 tx
  let fiy2 := _mm_add_pd s.fiy2 ty
  let fiz2 := _mm_add_pd s.fiz2 tz
  let fjx0 := _mm_add_pd fjx0 tx
  let fjy0 := _mm_add_pd fjy0 ty
  let fjz0 := _mm_add_pd fjz0 tz
  { f := gmx_mm_decrement_1rvec_1ptr_swizzle_pd s.f j_coord_offsetA fjx0 fjy0 fjz0
    fix0 := fix0
    fiy0 := fiy0
    fiz0 := fiz0
    fix1 := fix1
    fiy1 := fiy1
    fiz1 := fiz1
    fix2 := fix2
    fiy2 := fiy2
    fiz2 := fiz2
    velecsum := velecsum
    vvdwsum := vvdwsum }

/-- Body of the full two-lane block of the F kernel (source lines 623-752). -/
def rf_F_block2 (invsqrt : ℚ → ℚ) (nlist : t_nblist) (x : Int → ℚ) (charge : Int → ℚ)
    (vdwtype : Int → Int) (vdwparam : Int → ℚ) (krf2 : M128d) (iq0 iq1 iq2 : M128d)
    (vdwioffset0 : Int) (ix0 iy0 iz0 ix1 iy1 iz1 ix2 iy2 iz2 : M128d) (jidx : Int)
    (s : RFInner) : RFInner :=
  let jnrA := nlist.jjnr jidx
  let jnrB := nlist.jjnr (jidx + 1)
  let j_coord_offsetA := DIM * jnrA
  let j_coord_offsetB := DIM * jnrB
  let j0 := gmx_mm_load_1rvec_2ptr_swizzle_pd x j_coord_offsetA j_coord_offsetB
  let dx00 := _mm_sub_pd ix0 j0.x
  let dy00 := _mm_sub_pd iy0 j0.y
  let dz00 := _mm_sub_pd iz0 j0.z
  let dx10 := _mm_sub_pd ix1 j0.x
  let dy10 := _mm_sub_pd iy1 j0.y
  let dz10 := _mm_sub_pd iz1 j0.z
  let dx20 := _mm_sub_pd ix2 j0.x
  let dy20 := _mm_sub_pd iy2 j0.y
  let dz20 := _mm_sub_pd iz2 j0.z
  let rsq00 := gmx_mm_calc_rsq_pd dx00 dy00 dz00
  let rsq10 := gmx_mm_calc_rsq_pd dx10 dy10 dz10
  let rsq20 := gmx_mm_calc_rsq_pd dx20 dy20 dz20
  let rinv00 := sse2_invsqrt_d invsqrt rsq00
  let rinv10 := sse2_invsqrt_d invsqrt rsq10
  let rinv20 := sse2_invsqrt_d invsqrt rsq20
  let rinvsq00 := _mm_mul_pd rinv00 rinv00
  let rinvsq10 := _mm_mul_pd rinv10 rinv10
  let rinvsq20 := _mm_mul_pd rinv20 rinv20
  let jq0 := gmx_mm_load_2real_swizzle_pd (charge (jnrA + 0)) (charge (jnrB + 0))
  let vdwjidx0A := 2 * vdwtype (jnrA + 0)
  let vdwjidx0B := 2 * vdwtype (jnrB + 0)
  let fjx0 := _mm_setzero_pd
  let fjy0 := _mm_setzero_pd
  let fjz0 := _mm_setzero_pd
  let qq00 := _mm_mul_pd iq0 jq0
  let c := gmx_mm_load_2pair_swizzle_pd vdwparam (vdwioffset0 + vdwjidx0A)
    (vdwioffset0 + vdwjidx0B)
  let felec := _mm_mul_pd qq00 (_mm_sub_pd (_mm_mul_pd rinv00 rinvsq00) krf2)
  let rinvsix := _mm_mul_pd (_mm_mul_pd rinvsq00 rinvsq00) rinvsq00
  let fvdw := _mm_mul_pd (_mm_sub_pd (_mm_mul_pd c.c12 rinvsix) c.c6)
    (_mm_mul_pd rinvsix rinvsq00)
  let fscal := _mm_add_pd felec fvdw
  let tx := _mm_mul_pd fscal dx00
  let ty := _mm_mul_pd fscal dy00
  let tz := _mm_mul_pd fscal dz00
  let fix0 := _mm_add_pd s.fix0 tx
  let fiy0 := _mm_add_pd s.fiy0 ty
  let fiz0 := _mm_add_pd s.fiz0 tz
  let fjx0 := _mm_add_pd fjx0 tx
  let fjy0 := _mm_add_pd fjy0 ty
  let fjz0 := _mm_add_pd fjz0 tz
  let qq10 := _mm_mul_pd iq1 jq0
  let felec := _mm_mul_pd qq10 (_mm_sub_pd (_mm_mul_pd rinv10 rinvsq10) krf2)
  let fscal := felec
  let tx := _mm_mul_pd fscal dx10
  let ty := _mm_mul_pd fscal dy10
  let tz := _mm_mul_pd fscal dz10
  let fix1 := _mm_add_pd s.fix1 tx
  let fiy1 := _mm_add_pd s.fiy1 ty
  let fiz1 := _mm_add_pd s.fiz1 tz
  let fjx0 := _mm_add_pd fjx0 tx
  let fjy0 := _mm_add_pd fjy0 ty
  let fjz0 := _mm_add_pd fjz0 tz
  let qq20 := _mm_mul_pd iq2 jq0
  let felec := _mm_mul_pd qq20 (_mm_sub_pd (_mm_mul_pd rinv20 rinvsq20) krf2)
  let fscal := felec
  let tx := _mm_mul_pd fscal dx20
  let ty := _mm_mul_pd fscal dy20
  let tz := _mm_mul_pd fscal dz20
  let fix2 := _mm_add_pd s.fix2 tx
  let fiy2 := _mm_add_pd s.fiy2 ty
  let fiz2 := _mm_add_pd s.fiz2 tz
  let fjx0 := _mm_add_pd fjx0 tx
  let fjy0 := _mm_add_pd fjy0 ty
  let fjz0 := _mm_add_pd fjz0 tz
  { f := gmx_mm_decrement_1rvec_2ptr_swizzle_pd s.f j_coord_offsetA j_coord_offsetB fjx0 fjy0 fjz0
    fix0 := fix0
    fiy0 := fiy0
    fiz0 := fiz0
    fix1 := fix1
    fiy1 := fiy1
    fiz1 := fiz1
    fix2 := fix2
    fiy2 := fiy2
    fiz2 := fiz2
    velecsum := s.velecsum
    vvdwsum := s.vvdwsum }

/-- Body of the remainder block of the F kernel (source lines 758-889). -/
def rf_F_block1 (invsqrt : ℚ → ℚ) (nlist : t_nblist) (x : Int → ℚ) (charge : Int → ℚ)
    (vdwtype : Int → Int) (vdwparam : Int → ℚ) (krf2 : M128d) (iq0 iq1 iq2 : M128d)
    (vdwioffset0 : Int) (ix0 iy0 iz0 ix1 iy1 iz1 ix2 iy2 iz2 : M128d) (jidx : Int)
    (s : RFInner) : RFInner :=
  let jnrA := nlist.jjnr jidx
  let j_coord_offsetA := DIM * jnrA
  let j0 := gmx_mm_load_1rvec_1ptr_swizzle_pd x j_coord_offsetA
  let dx00 := _mm_sub_pd ix0 j0.x
  let dy00 := _mm_sub_pd iy0 j0.y
  let dz00 := _mm_sub_pd iz0 j0.z
  let dx10 := _mm_sub_pd ix1 j0.x
  let dy10 := _mm_sub_pd iy1 j0.y
  let dz10 := _mm_sub_pd iz1 j0.z
  let dx20 := _mm_sub_pd ix2 j0.x
  let dy20 := _mm_sub_pd iy2 j0.y
  let dz20 := _mm_sub_pd iz2 j0.z
  let rsq00 := gmx_mm_calc_rsq_pd dx00 dy00 dz00
  let rsq10 := gmx_mm_calc_rsq_pd dx10 dy10 dz10
  let rsq20 := gmx_mm_calc_rsq_pd dx20 dy20 dz20
  let rinv00 := sse2_invsqrt_d invsqrt rsq00
  let rinv10 := sse2_invsqrt_d invsqrt rsq10
  let rinv20 := sse2_invsqrt_d invsqrt rsq20
  let rinvsq00 := _mm_mul_pd rinv00 rinv00
  let rinvsq10 := _mm_mul_pd rinv10 rinv10
  let rinvsq20 := _mm_mul_pd rinv20 rinv20
  let jq0 := _mm_load_sd (charge (jnrA + 0))
  let vdwjidx0A := 2 * vdwtype (jnrA + 0)
  let fjx0 := _mm_setzero_pd
  let fjy0 := _mm_setzero_pd
  let fjz0 := _mm_setzero_pd
  let qq00 := _mm_mul_pd iq0 jq0
  let c := gmx_mm_load_1pair_swizzle_pd vdwparam (vdwioffset0 + vdwjidx0A)
  let felec := _mm_mul_pd qq00 (_mm_sub_pd (_mm_mul_pd rinv00 rinvsq00) krf2)
  let rinvsix := _mm_mul_pd (_mm_mul_pd rinvsq00 rinvsq00) rinvsq00
  let fvdw := _mm_mul_pd (_mm_sub_pd (_mm_mul_pd c.c12 rinvsix) c.c6)
    (_mm_mul_pd rinvsix rinvsq00)
  let fscal := _mm_add_pd felec fvdw
  let fscal := _mm_unpacklo_pd fscal _mm_setzero_pd
  let tx := _mm_mul_pd fscal dx00
  let ty := _mm_mul_pd fscal dy00
  let tz := _mm_mul_pd fscal dz00
  let fix0 := _mm_add_pd s.fix0 tx
  let fiy0 := _mm_add_pd s.fiy0 ty
  let fiz0 := _mm_add_pd s.fiz0 tz
  let fjx0 := _mm_add_pd fjx0 tx
  let fjy0 := _mm_add_pd fjy0 ty
  let fjz0 := _mm_add_pd fjz0 tz
  let qq10 := _mm_mul_pd iq1 jq0
  let felec := _mm_mul_pd qq10 (_mm_sub_pd (_mm_mul_pd rinv10 rinvsq10) krf2)
  let fscal := felec
  let fscal := _mm_unpacklo_pd fscal _mm_setzero_pd
  let tx := _mm_mul_pd fscal dx10
  let ty := _mm_mul_pd fscal dy10
  let tz := _mm_mul_pd fscal dz10
  let fix1 := _mm_add_pd s.fix1 tx
  let fiy1 := _mm_add_pd s.fiy1 ty
  let fiz1 := _mm_add_pd s.fiz1 tz
  let fjx0 := _mm_add_pd fjx0 tx
  let fjy0 := _mm_add_pd fjy0 ty
  let fjz0 := _mm_add_pd fjz0 tz
  let qq20 := _mm_mul_pd iq2 jq0
  let felec := _mm_mul_pd qq20 (_mm_sub_pd (_mm_mul_pd rinv20 rinvsq20) krf2)
  let fscal := felec
  let fscal := _mm_unpacklo_pd fscal _mm_setzero_pd
  let tx := _mm_mul_pd fscal dx20
  let ty := _mm_mul_pd fscal dy20
  let tz := _mm_mul_pd fscal dz20
  let fix2 := _mm_add_pd s.fix2 tx
  let fiy2 := _mm_add_pd s.fiy2 ty
  let fiz2 := _mm_add_pd s.fiz2 tz
  let fjx0 := _mm_add_pd fjx0 tx
  let fjy0 := _mm_add_pd fjy0 ty
  let fjz0 := _mm_add_pd fjz0 tz
  { f := gmx_mm_decrement_1rvec_1ptr_swizzle_pd s.f j_coord_offsetA fjx0 fjy0 fjz0
    fix0 := fix0
    fiy0 := fiy0
    fiz0 := fiz0
    fix1 := fix1
    fiy1 := fiy1
    fiz1 := fiz1
    fix2 := fix2
    fiy2 := fiy2
    fiz2 := fiz2
    velecsum := s.velecsum
    vvdwsum := s.vvdwsum }

/-- One iteration of the outer loop of the VF kernel (source lines 140-492); the
water parameters `iq0, iq1, iq2, vdwioffset0` are set up before the loop. -/
def rf_VF_outer (invsqrt : ℚ → ℚ) (nlist : t_nblist) (x : Int → ℚ) (shiftvec : Int → ℚ)
    (charge : Int → ℚ) (vdwtype : Int → Int) (vdwparam : Int → ℚ) (krf krf2 crf : M128d)
    (iq0 iq1 iq2 : M128d) (vdwioffset0 : Int) (iidx : Int) (o : OuterSt) : OuterSt :=
  let i_shift_offset := DIM * nlist.shift iidx
  let j_index_start := nlist.jindex iidx
  let j_index_end := nlist.jindex (iidx + 1)
  let inr := nlist.iinr iidx
  let i_coord_offset := DIM * inr
  let i := gmx_mm_load_shift_and_3rvec_broadcast_pd shiftvec i_shift_offset x i_coord_offset
  let s0 : RFInner :=
    { f := o.f
      fix0 := _mm_setzero_pd, fiy0 := _mm_setzero_pd, fiz0 := _mm_setzero_pd
      fix1 := _mm_setzero_pd, fiy1 := _mm_setzero_pd, fiz1 := _mm_setzero_pd
      fix2 := _mm_setzero_pd, fiy2 := _mm_setzero_pd, fiz2 := _mm_setzero_pd
      velecsum := _mm_setzero_pd, vvdwsum := _mm_setzero_pd }
  let s := innerLoop
    (rf_VF_block2 invsqrt nlist x charge vdwtype vdwparam krf krf2 crf iq0 iq1 iq2 vdwioffset0
      i.s0.x i.s0.y i.s0.z i.s1.x i.s1.y i.s1.z i.s2.x i.s2.y i.s2.z)
    (rf_VF_block1 invsqrt nlist x charge vdwtype vdwparam krf krf2 crf iq0 iq1 iq2 vdwioffset0
      i.s0.x i.s0.y i.s0.z i.s1.x i.s1.y i.s1.z i.s2.x i.s2.y i.s2.z)
    j_index_start j_index_end s0
  let u := gmx_mm_update_iforce_3atom_swizzle_pd s.fix0 s.fiy0 s.fiz0 s.fix1 s.fiy1 s.fiz1
    s.fix2 s.fiy2 s.fiz2 s.f i_coord_offset o.fshift i_shift_offset
  let ggid := nlist.gid iidx
  { f := u.f
    fshift := u.fshift
    energygrp_elec := gmx_mm_update_1pot_pd s.velecsum o.energygrp_elec ggid
    energygrp_vdw := gmx_mm_update_1pot_pd s.vvdwsum o.energygrp_vdw ggid
    inneriter := o.inneriter + (j_index_end - j_index_start) }

/-- One iteration of the outer loop of the F kernel (source lines 593-900); the
water parameters `iq0, iq1, iq2, vdwioffset0` are set up before the loop. -/
def rf_F_outer (invsqrt : ℚ → ℚ) (nlist : t_nblist) (x : Int → ℚ) (shiftvec : Int → ℚ)
    (charge : Int → ℚ) (vdwtype : Int → Int) (vdwparam : Int → ℚ) (krf2 : M128d)
    (iq0 iq1 iq2 : M128d) (vdwioffset0 : Int) (iidx : Int) (o : OuterSt) : OuterSt :=
  let i_shift_offset := DIM * nlist.shift iidx
  let j_index_start := nlist.jindex iidx
  let j_index_end := nlist.jindex (iidx + 1)
  let inr := nlist.iinr iidx
  let i_coord_offset := DIM * inr
  let i := gmx_mm_load_shift_and_3rvec_broadcast_pd shiftvec i_shift_offset x i_coord_offset
  let s0 : RFInner :=
    { f := o.f
      fix0 := _mm_setzero_pd, fiy0 := _mm_setzero_pd, fiz0 := _mm_setzero_pd
      fix1 := _mm_setzero_pd, fiy1 := _mm_setzero_pd, fiz1 := _mm_setzero_pd
      fix2 := _mm_setzero_pd, fiy2 := _mm_setzero_pd, fiz2 := _mm_setzero_pd
      velecsum := _mm_setzero_pd, vvdwsum := _mm_setzero_pd }
  let s := innerLoop
    (rf_F_block2 invsqrt nlist x charge vdwtype vdwparam krf2 iq0 iq1 iq2 vdwioffset0
      i.s0.x i.s0.y i.s0.z i.s1.x i.s1.y i.s1.z i.s2.x i.s2.y i.s2.z)
    (rf_F_block1 invsqrt nlist x charge vdwtype vdwparam krf2 iq0 iq1 iq2 vdwioffset0
      i.s0.x i.s0.y i.s0.z i.s1.x i.s1.y i.s1.z i.s2.x i.s2.y i.s2.z)
    j_index_start j_index_end s0
  let u := gmx_mm_update_iforce_3atom_swizzle_pd s.fix0 s.fiy0 s.fiz0 s.fix1 s.fiy1 s.fiz1
    s.fix2 s.fiy2 s.fiz2 s.f i_coord_offset o.fshift i_shift_offset
  { f := u.f
    fshift := u.fshift
    energygrp_elec := o.energygrp_elec
    energygrp_vdw := o.energygrp_vdw
    inneriter := o.inneriter + (j_index_end - j_index_start) }

/-- The kernel `nb_kernel_ElecRF_VdwLJ_GeomW3P1_VF_sse2_double`; `invsqrt` is the
scalar function computed by `sse2_invsqrt_d`. -/
def nb_kernel_ElecRF_VdwLJ_GeomW3P1_VF_sse2_double (invsqrt : ℚ → ℚ) (nlist : t_nblist)
    (xx : Int → ℚ) (fr : t_forcerec) (mdatoms : t_mdatoms) (st : KState) : KState :=
  let nri := nlist.nri
  let shiftvec := fr.shift_vec
  let facel := _mm_set1_pd fr.ic.epsfac
  let charge := mdatoms.chargeA
  let krf := _mm_set1_pd fr.ic.k_rf
  let krf2 := _mm_set1_pd (fr.ic.k_rf * 2)
  let crf := _mm_set1_pd fr.ic.c_rf
  let nvdwtype := fr.ntype
  let vdwparam := fr.nbfp
  let vdwtype := mdatoms.typeA
  let inr := nlist.iinr 0
  let iq0 := _mm_mul_pd facel (_mm_set1_pd (charge (inr + 0)))
  let iq1 := _mm_mul_pd facel (_mm_set1_pd (charge (inr + 1)))
  let iq2 := _mm_mul_pd facel (_mm_set1_pd (charge (inr + 2)))
  let vdwioffset0 := 2 * nvdwtype * vdwtype (inr + 0)
  let outeriter : Int := 0
  let o0 : OuterSt :=
    { f := st.f, fshift := st.fshift, energygrp_elec := st.energygrp_elec,
      energygrp_vdw := st.energygrp_vdw, inneriter := 0 }
  let o := forLoop nri
    (rf_VF_outer invsqrt nlist xx shiftvec charge vdwtype vdwparam krf krf2 crf iq0 iq1 iq2
      vdwioffset0) 0 o0
  let outeriter := outeriter + nri
  { f := o.f
    fshift := o.fshift
    energygrp_elec := o.energygrp_elec
    energygrp_vdw := o.energygrp_vdw
    nrnb := inc_nrnb st.nrnb eNR.NBKERNEL_ELEC_VDW_W3_VF (outeriter * 20 + o.inneriter * 111) }

/-- The kernel `nb_kernel_ElecRF_VdwLJ_GeomW3P1_F_sse2_double`; `invsqrt` is the
scalar function computed by `sse2_invsqrt_d`. -/
def nb_kernel_ElecRF_VdwLJ_GeomW3P1_F_sse2_double (invsqrt : ℚ → ℚ) (nlist : t_nblist)
    (xx : Int → ℚ) (fr : t_forcerec) (mdatoms : t_mdatoms) (st : KState) : KState :=
  let nri := nlist.nri
  let shiftvec := fr.shift_vec
  let facel := _mm_set1_pd fr.ic.epsfac
  let charge := mdatoms.chargeA
  let krf2 := _mm_set1_pd (fr.ic.k_rf * 2)
  let nvdwtype := fr.ntype
  let vdwparam := fr.nbfp
  let vdwtype := mdatoms.typeA
  let inr := nlist.iinr 0
  let iq0 := _mm_mul_pd facel (_mm_set1_pd (charge (inr + 0)))
  let iq1 := _mm_mul_pd facel (_mm_set1_pd (charge (inr + 1)))
  let iq2 := _mm_mul_pd facel (_mm_set1_pd (charge (inr + 2)))
  let vdwioffset0 := 2 * nvdwtype * vdwtype (inr + 0)
  let outeriter : Int := 0
  let o0 : OuterSt :=
    { f := st.f, fshift := st.fshift, energygrp_elec := st.energygrp_elec,
      energygrp_vdw := st.energygrp_vdw, inneriter := 0 }
  let o := forLoop nri
    (rf_F_outer invsqrt nlist xx shiftvec charge vdwtype vdwparam krf2 iq0 iq1 iq2
      vdwioffset0) 0 o0
  let outeriter := outeriter + nri
  { f := o.f
    fshift := o.fshift
    energygrp_elec := o.energygrp_elec
    energygrp_vdw := o.energygrp_vdw
    nrnb := inc_nrnb st.nrnb eNR.NBKERNEL_ELEC_VDW_W3_F (outeriter * 18 + o.inneriter * 91) }

/-! ## Reference definitions written from the specification

These follow the words of the specification, not the source, and are what the
kernels are compared with. -/

/-- The specification's `rinvsix = 1/r⁶`, as a function of `rsq = r²`. -/
def spec_rinvsix (rsq : ℚ) : ℚ := 1 / rsq ^ 3

/-- The specification's cutoff-shifted Lennard-Jones potential
`c12/12·(rinvsix² − shift12) − c6/6·(rinvsix − shift6)`. -/
def spec_ljsh_potential (c6 c12 shift6 shift12 rsq : ℚ) : ℚ :=
  c12 / 12 * (spec_rinvsix rsq ^ 2 - shift12) - c6 / 6 * (spec_rinvsix rsq - shift6)

/-- The specification's Lennard-Jones force scalar `(c12·rinvsix − c6)·rinvsix/r²`. -/
def spec_lj_force_scalar (c6 c12 rsq : ℚ) : ℚ :=
  (c12 * spec_rinvsix rsq - c6) * spec_rinvsix rsq / rsq

/-- The specification's reaction-field force scalar `qq·(1/r³ − 2·k_rf)`. -/
def spec_rf_force_scalar (qq rinv k_rf : ℚ) : ℚ := qq * (rinv ^ 3 - 2 * k_rf)

/-- Subtract the three scalars `(vx, vy, vz)` from the entries `p, p+1, p+2` of `a`,
one after the other. -/
def decr3 (a : Int → ℚ) (p : Int) (vx vy vz : ℚ) : Int → ℚ :=
  let a1 := store a p (a p - vx)
  let a2 := store a1 (p + 1) (a1 (p + 1) - vy)
  store a2 (p + 2) (a2 (p + 2) - vz)

/-- Variables of the scalar (lane width 1) reference across the partner loop. -/
structure RefInner where
  f : Int → ℚ
  fix : ℚ
  fiy : ℚ
  fiz : ℚ
  vvdwsum : ℚ

/-- Scalar reference, one partner: displacement, squared distance, strict cutoff
test, then the specification's cutoff-shifted Lennard-Jones potential and force
scalar; the force goes to the outer accumulator with sign `+` and to the partner's
stored force with sign `−`. -/
def ref_ljsh_pair (nlist : t_nblist) (x : Int → ℚ) (vdwtype : Int → Int)
    (vdwparam : Int → ℚ) (rcutoff sh_invrc6 : ℚ) (ix iy iz : ℚ) (vdwioffset : Int)
    (jidx : Int) (s : RefInner) : RefInner :=
  let jnr := nlist.jjnr jidx
  let dx := ix - x (DIM * jnr)
  let dy := iy - x (DIM * jnr + 1)
  let dz := iz - x (DIM * jnr + 2)
  let rsq := dx * dx + dy * dy + dz * dz
  if rsq < rcutoff * rcutoff then
    let c6 := vdwparam (vdwioffset + 2 * vdwtype jnr)
    let c12 := vdwparam (vdwioffset + 2 * vdwtype jnr + 1)
    let vvdw := spec_ljsh_potential c6 c12 sh_invrc6 (sh_invrc6 ^ 2) rsq
    let fscal := spec_lj_force_scalar c6 c12 rsq
    { f := decr3 s.f (DIM * jnr) (fscal * dx) (fscal * dy) (fscal * dz)
      fix := s.fix + fscal * dx
      fiy := s.fiy + fscal * dy
      fiz := s.fiz + fscal * dz
      vvdwsum := s.vvdwsum + vvdw }
  else s

/-- Scalar reference, one outer entry: shift the outer coordinates once, zero the
accumulators, visit the partners `jindex[iidx] .. jindex[iidx+1]-1` one at a time in
list order, then add the accumulator to the outer particle's force and to the
shift-force slot, and the energy sum to the entry's energy group. -/
def ref_ljsh_outer (nlist : t_nblist) (x : Int → ℚ) (fr : t_forcerec)
    (mdatoms : t_mdatoms) (iidx : Int) (o : OuterSt) : OuterSt :=
  let inr := nlist.iinr iidx
  let is := DIM * nlist.shift iidx
  let ix := x (DIM * inr) + fr.shift_vec is
  let iy := x (DIM * inr + 1) + fr.shift_vec (is + 1)
  let iz := x (DIM * inr + 2) + fr.shift_vec (is + 2)
  let s0 : RefInner := { f := o.f, fix := 0, fiy := 0, fiz := 0, vvdwsum := 0 }
  let s := forLoop (nlist.jindex (iidx + 1))
    (ref_ljsh_pair nlist x mdatoms.typeA fr.nbfp fr.ic.rvdw fr.ic.sh_invrc6 ix iy iz
      (2 * fr.ntype * mdatoms.typeA inr))
    (nlist.jindex iidx) s0
  { f := incr3 s.f (DIM * inr) s.fix s.fiy s.fiz
    fshift := incr3 o.fshift is s.fix s.fiy s.fiz
    energygrp_elec := o.energygrp_elec
    energygrp_vdw := store o.energygrp_vdw (nlist.gid iidx)
      (o.energygrp_vdw (nlist.gid iidx) + s.vvdwsum)
    inneriter := o.inneriter + (nlist.jindex (iidx + 1) - nlist.jindex iidx) }

/-- Scalar reference for `nb_kernel_ElecNone_VdwLJSh_GeomP1P1_VF`: the outer entries
`0 .. nri-1` in order. -/
def ref_ljsh_VF (nlist : t_nblist) (xx : Int → ℚ) (fr : t_forcerec) (mdatoms : t_mdatoms)
    (st : KState) : OuterSt :=
  forLoop nlist.nri (ref_ljsh_outer nlist xx fr mdatoms) 0
    { f := st.f, fshift := st.fshift, energygrp_elec := st.energygrp_elec,
      energygrp_vdw := st.energygrp_vdw, inneriter := 0 }

/-- The neighbour list has pairwise distinct partner indices within each outer entry. -/
def PartnersDistinct (nlist : t_nblist) : Prop :=
  ∀ iidx : Int, 0 ≤ iidx → iidx < nlist.nri →
    ∀ a b : Int, nlist.jindex iidx ≤ a → a < b → b < nlist.jindex (iidx + 1) →
      nlist.jjnr a ≠ nlist.jjnr b

/-- Reading of the RF-LJ-W3P1 VF kernel in which every outer entry is evaluated with
the parameters of its own particles: the charges `charge[iinr[iidx]+s]`, `s = 0, 1, 2`
and the vdW type `vdwtype[iinr[iidx]]`. -/
def rf_VF_own_parameters (invsqrt : ℚ → ℚ) (nlist : t_nblist) (xx : Int → ℚ)
    (fr : t_forcerec) (mdatoms : t_mdatoms) (st : KState) : OuterSt :=
  forLoop nlist.nri
    (fun iidx o =>
      rf_VF_outer invsqrt nlist xx fr.shift_vec mdatoms.chargeA mdatoms.typeA fr.nbfp
        (_mm_set1_pd fr.ic.k_rf) (_mm_set1_pd (fr.ic.k_rf * 2)) (_mm_set1_pd fr.ic.c_rf)
        (_mm_set1_pd (fr.ic.epsfac * mdatoms.chargeA (nlist.iinr iidx + 0)))
        (_mm_set1_pd (fr.ic.epsfac * mdatoms.chargeA (nlist.iinr iidx + 1)))
        (_mm_set1_pd (fr.ic.epsfac * mdatoms.chargeA (nlist.iinr iidx + 2)))
        (2 * fr.ntype * mdatoms.typeA (nlist.iinr iidx)) iidx o)
    0
    { f := st.f, fshift := st.fshift, energygrp_elec := st.energygrp_elec,
      energygrp_vdw := st.energygrp_vdw, inneriter := 0 }

/-- Reading of the RF-LJ-W3P1 F kernel with every entry's own parameters. -/
def rf_F_own_parameters (invsqrt : ℚ → ℚ) (nlist : t_nblist) (xx : Int → ℚ)
    (fr : t_forcerec) (mdatoms : t_mdatoms) (st : KState) : OuterSt :=
  forLoop nlist.nri
    (fun iidx o =>
      rf_F_outer invsqrt nlist xx fr.shift_vec mdatoms.chargeA mdatoms.typeA fr.nbfp
        (_mm_set1_pd (fr.ic.k_rf * 2))
        (_mm_set1_pd (fr.ic.epsfac * mdatoms.chargeA (nlist.iinr iidx + 0)))
        (_mm_set1_pd (fr.ic.epsfac * mdatoms.chargeA (nlist.iinr iidx + 1)))
        (_mm_set1_pd (fr.ic.epsfac * mdatoms.chargeA (nlist.iinr iidx + 2)))
        (2 * fr.ntype * mdatoms.typeA (nlist.iinr iidx)) iidx o)
    0
    { f := st.f, fshift := st.fshift, energygrp_elec := st.energygrp_elec,
      energygrp_vdw := st.energygrp_vdw, inneriter := 0 }

/-- An inverse square root that is exact on the squared distances `1`, `4` and `9`
(used to run the RF kernels on concrete inputs). -/
def invsqrt_tab (q : ℚ) : ℚ :=
  if q = 1 then 1 else if q = 4 then 1 / 2 else if q = 9 then 1 / 3 else 0

/-! ## Vocabulary for stating the effect of one pair -/

/-- The vector `(vx, vy, vz)` placed at the flat offsets `p, p+1, p+2`, zero elsewhere. -/
def bump (p : Int) (vx vy vz : ℚ) (k : Int) : ℚ :=
  if k = p then vx else if k = p + 1 then vy else if k = p + 2 then vz else 0

/-- Squared distance between the point `(ix, iy, iz)` and the particle stored at the
flat offset `p` of `x`. -/
def lane_rsq (ix iy iz : ℚ) (x : Int → ℚ) (p : Int) : ℚ :=
  (ix - x p) * (ix - x p) + (iy - x (p + 1)) * (iy - x (p + 1))
    + (iz - x (p + 2)) * (iz - x (p + 2))

/-- Lennard-Jones force scalar of one lane after the strict cutoff mask. -/
def ljsh_lane_fscal (c6 c12 rsq rc2 : ℚ) : ℚ :=
  if rsq < rc2 then spec_lj_force_scalar c6 c12 rsq else 0

/-- Cutoff-shifted Lennard-Jones potential of one lane after the strict cutoff mask. -/
def ljsh_lane_vvdw (c6 c12 sh rsq rc2 : ℚ) : ℚ :=
  if rsq < rc2 then spec_ljsh_potential c6 c12 sh (sh ^ 2) rsq else 0

/-- Effect on the inner-loop variables of one pair handled in lane 0: the force
`(dx, dy, dz) * fscal` is subtracted from the partner stored at offset `p` and added
to lane 0 of the outer accumulators, `vvdw` is added to lane 0 of the potential sum. -/
def ljsh_lane0 (s : LJShInner) (p : Int) (dx dy dz fscal vvdw : ℚ) : LJShInner :=
  { f := fun k => s.f k - bump p (dx * fscal) (dy * fscal) (dz * fscal) k
    fix0 := ⟨s.fix0.lo + dx * fscal, s.fix0.hi⟩
    fiy0 := ⟨s.fiy0.lo + dy * fscal, s.fiy0.hi⟩
    fiz0 := ⟨s.fiz0.lo + dz * fscal, s.fiz0.hi⟩
    vvdwsum := ⟨s.vvdwsum.lo + vvdw, s.vvdwsum.hi⟩ }

/-- Effect on the inner-loop variables of one pair handled in lane 1. -/
def ljsh_lane1 (s : LJShInner) (p : Int) (dx dy dz fscal vvdw : ℚ) : LJShInner :=
  { f := fun k => s.f k - bump p (dx * fscal) (dy * fscal) (dz * fscal) k
    fix0 := ⟨s.fix0.lo, s.fix0.hi + dx * fscal⟩
    fiy0 := ⟨s.fiy0.lo, s.fiy0.hi + dy * fscal⟩
    fiz0 := ⟨s.fiz0.lo, s.fiz0.hi + dz * fscal⟩
    vvdwsum := ⟨s.vvdwsum.lo, s.vvdwsum.hi + vvdw⟩ }

/-- The two-lane state `s` and the scalar state `t` agree: same force array, and each
scalar accumulator is the sum of the two lanes. -/
def LaneRel (s : LJShInner) (t : RefInner) : Prop :=
  s.f = t.f ∧ s.fix0.lo + s.fix0.hi = t.fix ∧ s.fiy0.lo + s.fiy0.hi = t.fiy
    ∧ s.fiz0.lo + s.fiz0.hi = t.fiz ∧ s.vvdwsum.lo + s.vvdwsum.hi = t.vvdwsum

/-! ## A small concrete system

Particle 0 at the origin, particle 1 at `(1, 0, 0)`, particle 2 at `(0, 2, 0)`; one
vdW type with `c6 = 0`, `c12 = 1`; cutoff radius 2 with `sh_invrc6 = 1/2⁶`. -/

/-- Positions of the example system. -/
def ex_x : Int → ℚ := fun k => if k = 3 then 1 else if k = 7 then 2 else 0

/-- Force record of the example system. -/
def ex_fr : t_forcerec :=
  { shift_vec := fun _ => 0
    ntype := 1
    nbfp := fun k => if k = 1 then 1 else 0
    ic := { rvdw := 2, rcoulomb := 2, sh_invrc6 := 1 / 64, epsfac := 1, k_rf := 1 / 10,
            c_rf := 1 / 2 } }

/-- Atom data of the example system: a single type, unit charges. -/
def ex_mdatoms : t_mdatoms := { typeA := fun _ => 0, chargeA := fun _ => 1 }

/-- All outputs zero. -/
def ex_st : KState :=
  { f := fun _ => 0, fshift := fun _ => 0, energygrp_elec := fun _ => 0,
    energygrp_vdw := fun _ => 0, nrnb := fun _ => 0 }

/-- Neighbour list with the single pair `(0, 1)`. -/
def ex_nlist_pair : t_nblist :=
  { nri := 1, iinr := fun _ => 0, jindex := fun k => k, jjnr := fun _ => 1,
    shift := fun _ => 0, gid := fun _ => 0 }

/-- Neighbour list with one outer entry, particle 0, and the partners 1 and 2. -/
def ex_nlist_two : t_nblist :=
  { nri := 1, iinr := fun _ => 0, jindex := fun k => 2 * k, jjnr := fun k => k + 1,
    shift := fun _ => 0, gid := fun _ => 0 }

/-! ## A small concrete water system

A water with sites at `(1,0,0)`, `(2,0,0)`, `(3,0,0)` (particles 0, 1, 2) and a partner
particle 3 at the origin; only site 0 and the partner are charged (unit charges), the
Lennard-Jones coefficients are zero, and the cutoff radii are 1, equal to the distance
between site 0 and the partner. Particles 4, 5, 6 form a second, uncharged water. -/

/-- Positions of the water system. -/
def ex_rf_x : Int → ℚ := fun k => if k = 0 then 1 else if k = 3 then 2 else if k = 6 then 3 else 0

/-- Force record of the water system. -/
def ex_rf_fr : t_forcerec :=
  { shift_vec := fun _ => 0
    ntype := 1
    nbfp := fun _ => 0
    ic := { rvdw := 1, rcoulomb := 1, sh_invrc6 := 1, epsfac := 1, k_rf := 1 / 10,
            c_rf := 1 / 2 } }

/-- Atom data of the water system: unit charge on particles 0 and 3, none elsewhere. -/
def ex_rf_mdatoms : t_mdatoms :=
  { typeA := fun _ => 0, chargeA := fun k => if k = 0 then 1 else if k = 3 then 1 else 0 }

/-- Neighbour list with the single entry (water 0, partner 3). -/
def ex_rf_nlist : t_nblist :=
  { nri := 1, iinr := fun _ => 0, jindex := fun k => k, jjnr := fun _ => 3,
    shift := fun _ => 0, gid := fun _ => 0 }

/-- Neighbour list with two entries: the uncharged water 4 without partners, then the
water 0 with the partner 3. -/
def ex_rf_nlist2 : t_nblist :=
  { nri := 2, iinr := fun k => if k = 0 then 4 else 0,
    jindex := fun k => if k = 2 then 1 else 0,
    jjnr := fun _ => 3, shift := fun _ => 0, gid := fun _ => 0 }

/-! ## Loops of the kernels, further examples and reference definitions -/

/-- Neighbour list with one outer entry (particle 0) that has no partners. -/
def ex_nlist_empty : t_nblist :=
  { nri := 1, iinr := fun _ => 0, jindex := fun _ => 0, jjnr := fun _ => 1,
    shift := fun _ => 0, gid := fun _ => 0 }

/-- The outer-loop state at kernel entry: the caller's outputs and `inneriter = 0`. -/
def outer_init (st : KState) : OuterSt :=
  { f := st.f, fshift := st.fshift, energygrp_elec := st.energygrp_elec,
    energygrp_vdw := st.energygrp_vdw, inneriter := 0 }

/-- The outer loop of `nb_kernel_ElecNone_VdwLJSh_GeomP1P1_VF_avx_128_fma_double` with the
kernel's setup: the state after the outer entries `0 .. nri-1`. -/
def ljsh_VF_loop (nlist : t_nblist) (xx : Int → ℚ) (fr : t_forcerec) (mdatoms : t_mdatoms)
    (st : KState) : OuterSt :=
  forLoop nlist.nri
    (ljsh_VF_outer nlist xx fr.shift_vec mdatoms.typeA fr.nbfp fr.ntype
      (_mm_mul_pd (_mm_set1_pd fr.ic.rvdw) (_mm_set1_pd fr.ic.rvdw))
      (_mm_set1_pd fr.ic.sh_invrc6)) 0 (outer_init st)

/-- The outer loop of `nb_kernel_ElecNone_VdwLJSh_GeomP1P1_F_avx_128_fma_double` with the
kernel's setup. -/
def ljsh_F_loop (nlist : t_nblist) (xx : Int → ℚ) (fr : t_forcerec) (mdatoms : t_mdatoms)
    (st : KState) : OuterSt :=
  forLoop nlist.nri
    (ljsh_F_outer nlist xx fr.shift_vec mdatoms.typeA fr.nbfp fr.ntype
      (_mm_mul_pd (_mm_set1_pd fr.ic.rvdw) (_mm_set1_pd fr.ic.rvdw))) 0 (outer_init st)

/-- The outer loop of `nb_kernel_ElecRF_VdwLJ_GeomW3P1_VF_sse2_double` with the kernel's
setup (water parameters from `iinr[0]`). -/
def rf_VF_loop (invsqrt : ℚ → ℚ) (nlist : t_nblist) (xx : Int → ℚ) (fr : t_forcerec)
    (mdatoms : t_mdatoms) (st : KState) : OuterSt :=
  forLoop nlist.nri
    (rf_VF_outer invsqrt nlist xx fr.shift_vec mdatoms.chargeA mdatoms.typeA fr.nbfp
      (_mm_set1_pd fr.ic.k_rf) (_mm_set1_pd (fr.ic.k_rf * 2)) (_mm_set1_pd fr.ic.c_rf)
      (_mm_mul_pd (_mm_set1_pd fr.ic.epsfac) (_mm_set1_pd (mdatoms.chargeA (nlist.iinr 0 + 0))))
      (_mm_mul_pd (_mm_set1_pd fr.ic.epsfac) (_mm_set1_pd (mdatoms.chargeA (nlist.iinr 0 + 1))))
      (_mm_mul_pd (_mm_set1_pd fr.ic.epsfac) (_mm_set1_pd (mdatoms.chargeA (nlist.iinr 0 + 2))))
      (2 * fr.ntype * mdatoms.typeA (nlist.iinr 0 + 0))) 0 (outer_init st)

/-- The outer loop of `nb_kernel_ElecRF_VdwLJ_GeomW3P1_F_sse2_double` with the kernel's
setup (water parameters from `iinr[0]`). -/
def rf_F_loop (invsqrt : ℚ → ℚ) (nlist : t_nblist) (xx : Int → ℚ) (fr : t_forcerec)
    (mdatoms : t_mdatoms) (st : KState) : OuterSt :=
  forLoop nlist.nri
    (rf_F_outer invsqrt nlist xx fr.shift_vec mdatoms.chargeA mdatoms.typeA fr.nbfp
      (_mm_set1_pd (fr.ic.k_rf * 2))
      (_mm_mul_pd (_mm_set1_pd fr.ic.epsfac) (_mm_set1_pd (mdatoms.chargeA (nlist.iinr 0 + 0))))
      (_mm_mul_pd (_mm_set1_pd fr.ic.epsfac) (_mm_set1_pd (mdatoms.chargeA (nlist.iinr 0 + 1))))
      (_mm_mul_pd (_mm_set1_pd fr.ic.epsfac) (_mm_set1_pd (mdatoms.chargeA (nlist.iinr 0 + 2))))
      (2 * fr.ntype * mdatoms.typeA (nlist.iinr 0 + 0))) 0 (outer_init st)

/-- Branch-free reading of the full block of the VF kernel: the body of
`if (gmx_mm_any_lt(rsq00,rcutoff2))` is always executed, with the per-lane cutoff mask
applied to the potential and to the force scalar. -/
def ljsh_VF_block2_nobranch (nlist : t_nblist) (x : Int → ℚ) (vdwtype : Int → Int)
    (vdwparam : Int → ℚ) (rcutoff2 sh_vdw_invrcut6 : M128d) (ix0 iy0 iz0 : M128d)
    (vdwioffset0 : Int) (jidx : Int) (s : LJShInner) : LJShInner :=
  let jnrA := nlist.jjnr jidx
  let jnrB := nlist.jjnr (jidx + 1)
  let j_coord_offsetA := DIM * jnrA
  let j_coord_offsetB := DIM * jnrB
  let j0 := gmx_mm_load_1rvec_2ptr_swizzle_pd x j_coord_offsetA j_coord_offsetB
  let dx00 := _mm_sub_pd ix0 j0.x
  let dy00 := _mm_sub_pd iy0 j0.y
  let dz00 := _mm_sub_pd iz0 j0.z
  let rsq00 := gmx_mm_calc_rsq_pd dx00 dy00 dz00
  let rinvsq00 := avx128fma_inv_d rsq00
  let vdwjidx0A := 2 * vdwtype (jnrA + 0)
  let vdwjidx0B := 2 * vdwtype (jnrB + 0)
  let c := gmx_mm_load_2pair_swizzle_pd vdwparam (vdwioffset0 + vdwjidx0A)
    (vdwioffset0 + vdwjidx0B)
  let lj := ljsh_VF_lennard_jones c.c6 c.c12 rinvsq00 sh_vdw_invrcut6
  let vvdw := lj.vvdw
  let fvdw := lj.fvdw
  let cutoff_mask := _mm_cmplt_pd rsq00 rcutoff2
  let vvdw := _mm_and_pd vvdw cutoff_mask
  let vvdwsum := _mm_add_pd s.vvdwsum vvdw
  let fscal := fvdw
  let fscal := _mm_and_pd fscal cutoff_mask
  { f := gmx_mm_decrement_1rvec_2ptr_swizzle_pd s.f j_coord_offsetA j_coord_offsetB
      (_mm_mul_pd dx00 fscal) (_mm_mul_pd dy00 fscal) (_mm_mul_pd dz00 fscal)
    fix0 := _mm_macc_pd dx00 fscal s.fix0
    fiy0 := _mm_macc_pd dy00 fscal s.fiy0
    fiz0 := _mm_macc_pd dz00 fscal s.fiz0
    vvdwsum := vvdwsum }

/-- Branch-free reading of the remainder block of the VF kernel. -/
def ljsh_VF_block1_nobranch (nlist : t_nblist) (x : Int → ℚ) (vdwtype : Int → Int)
    (vdwparam : Int → ℚ) (rcutoff2 sh_vdw_invrcut6 : M128d) (ix0 iy0 iz0 : M128d)
    (vdwioffset0 : Int) (jidx : Int) (s : LJShInner) : LJShInner :=
  let jnrA := nlist.jjnr jidx
  let j_coord_offsetA := DIM * jnrA
  let j0 := gmx_mm_load_1rvec_1ptr_swizzle_pd x j_coord_offsetA
  let dx00 := _mm_sub_pd ix0 j0.x
  let dy00 := _mm_sub_pd iy0 j0.y
  let dz00 := _mm_sub_pd iz0 j0.z
  let rsq00 := gmx_mm_calc_rsq_pd dx00 dy00 dz00
  let rinvsq00 := avx128fma_inv_d rsq00
  let vdwjidx0A := 2 * vdwtype (jnrA + 0)
  let c := gmx_mm_load_1pair_swizzle_pd vdwparam (vdwioffset0 + vdwjidx0A)
  let lj := ljsh_VF_lennard_jones c.c6 c.c12 rinvsq00 sh_vdw_invrcut6
  let vvdw := lj.vvdw
  let fvdw := lj.fvdw
  let cutoff_mask := _mm_cmplt_pd rsq00 rcutoff2
  let vvdw := _mm_and_pd vvdw cutoff_mask
  let vvdw := _mm_unpacklo_pd vvdw _mm_setzero_pd
  let vvdwsum := _mm_add_pd s.vvdwsum vvdw
  let fscal := fvdw
  let fscal := _mm_and_pd fscal cutoff_mask
  let fscal := _mm_unpacklo_pd fscal _mm_setzero_pd
  { f := gmx_mm_decrement_1rvec_1ptr_swizzle_pd s.f j_coord_offsetA
      (_mm_mul_pd dx00 fscal) (_mm_mul_pd dy00 fscal) (_mm_mul_pd dz00 fscal)
    fix0 := _mm_macc_pd dx00 fscal s.fix0
    fiy0 := _mm_macc_pd dy00 fscal s.fiy0
    fiz0 := _mm_macc_pd dz00 fscal s.fiz0
    vvdwsum := vvdwsum }

/-- Branch-free reading of the full block of the F kernel. -/
def ljsh_F_block2_nobranch (nlist : t_nblist) (x : Int → ℚ) (vdwtype : Int → Int)
    (vdwparam : Int → ℚ) (rcutoff2 : M128d) (ix0 iy0 iz0 : M128d)
    (vdwioffset0 : Int) (jidx : Int) (s : LJShInner) : LJShInner :=
  let jnrA := nlist.jjnr jidx
  let jnrB := nlist.jjnr (jidx + 1)
  let j_coord_offsetA := DIM * jnrA
  let j_coord_offsetB := DIM * jnrB
  let j0 := gmx_mm_load_1rvec_2ptr_swizzle_pd x j_coord_offsetA j_coord_offsetB
  let dx00 := _mm_sub_pd ix0 j0.x
  let dy00 := _mm_sub_pd iy0 j0.y
  let dz00 := _mm_sub_pd iz0 j0.z
  let rsq00 := gmx_mm_calc_rsq_pd dx00 dy00 dz00
  let rinvsq00 := avx128fma_inv_d rsq00
  let vdwjidx0A := 2 * vdwtype (jnrA + 0)
  let vdwjidx0B := 2 * vdwtype (jnrB + 0)
  let c := gmx_mm_load_2pair_swizzle_pd vdwparam (vdwioffset0 + vdwjidx0A)
    (vdwioffset0 + vdwjidx0B)
  let fvdw := ljsh_F_lennard_jones c.c6 c.c12 rinvsq00
  let cutoff_mask := _mm_cmplt_pd rsq00 rcutoff2
  let fscal := fvdw
  let fscal := _mm_and_pd fscal cutoff_mask
  { s with
    f := gmx_mm_decrement_1rvec_2ptr_swizzle_pd s.f j_coord_offsetA j_coord_offsetB
      (_mm_mul_pd dx00 fscal) (_mm_mul_pd dy00 fscal) (_mm_mul_pd dz00 fscal)
    fix0 := _mm_macc_pd dx00 fscal s.fix0
    fiy0 := _mm_macc_pd dy00 fscal s.fiy0
    fiz0 := _mm_macc_pd dz00 fscal s.fiz0 }

/-- Branch-free reading of the remainder block of the F kernel. -/
def ljsh_F_block1_nobranch (nlist : t_nblist) (x : Int → ℚ) (vdwtype : Int → Int)
    (vdwparam : Int → ℚ) (rcutoff2 : M128d) (ix0 iy0 iz0 : M128d)
    (vdwioffset0 : Int) (jidx : Int) (s : LJShInner) : LJShInner :=
  let jnrA := nlist.jjnr jidx
  let j_coord_offsetA := DIM * jnrA
  let j0 := gmx_mm_load_1rvec_1ptr_swizzle_pd x j_coord_offsetA
  let dx00 := _mm_sub_pd ix0 j0.x
  let dy00 := _mm_sub_pd iy0 j0.y
  let dz00 := _mm_sub_pd iz0 j0.z
  let rsq00 := gmx_mm_calc_rsq_pd dx00 dy00 dz00
  let rinvsq00 := avx128fma_inv_d rsq00
  let vdwjidx0A := 2 * vdwtype (jnrA + 0)
  let c := gmx_mm_load_1pair_swizzle_pd vdwparam (vdwioffset0 + vdwjidx0A)
  let fvdw := ljsh_F_lennard_jones c.c6 c.c12 rinvsq00
  let cutoff_mask := _mm_cmplt_pd rsq00 rcutoff2
  let fscal := fvdw
  let fscal := _mm_and_pd fscal cutoff_mask
  let fscal := _mm_unpacklo_pd fscal _mm_setzero_pd
  { s with
    f := gmx_mm_decrement_1rvec_1ptr_swizzle_pd s.f j_coord_offsetA
      (_mm_mul_pd dx00 fscal) (_mm_mul_pd dy00 fscal) (_mm_mul_pd dz00 fscal)
    fix0 := _mm_macc_pd dx00 fscal s.fix0
    fiy0 := _mm_macc_pd dy00 fscal s.fiy0
    fiz0 := _mm_macc_pd dz00 fscal s.fiz0 }

/-- One iteration of the outer loop of the VF kernel with the branch-free blocks. -/
def ljsh_VF_outer_nobranch (nlist : t_nblist) (x : Int → ℚ) (shiftvec : Int → ℚ)
    (vdwtype : Int → Int) (vdwparam : Int → ℚ) (nvdwtype : Int)
    (rcutoff2 sh_vdw_invrcut6 : M128d) (iidx : Int) (o : OuterSt) : OuterSt :=
  let i_shift_offset := DIM * nlist.shift iidx
  let j_index_start := nlist.jindex iidx
  let j_index_end := nlist.jindex (iidx + 1)
  let inr := nlist.iinr iidx
  let i_coord_offset := DIM * inr
  let i0 := gmx_mm_load_shift_and_1rvec_broadcast_pd shiftvec i_shift_offset x i_coord_offset
  let vdwioffset0 := 2 * nvdwtype * vdwtype (inr + 0)
  let s0 : LJShInner :=
    { f := o.f, fix0 := _mm_setzero_pd, fiy0 := _mm_setzero_pd, fiz0 := _mm_setzero_pd,
      vvdwsum := _mm_setzero_pd }
  let s := innerLoop
    (ljsh_VF_block2_nobranch nlist x vdwtype vdwparam rcutoff2 sh_vdw_invrcut6 i0.x i0.y i0.z vdwioffset0)
    (ljsh_VF_block1_nobranch nlist x vdwtype vdwparam rcutoff2 sh_vdw_invrcut6 i0.x i0.y i0.z vdwioffset0)
    j_index_start j_index_end s0
  let u := gmx_mm_update_iforce_1atom_swizzle_pd s.fix0 s.fiy0 s.fiz0
    s.f i_coord_offset o.fshift i_shift_offset
  let ggid := nlist.gid iidx
  { f := u.f
    fshift := u.fshift
    energygrp_elec := o.energygrp_elec
    energygrp_vdw := gmx_mm_update_1pot_pd s.vvdwsum o.energygrp_vdw ggid
    inneriter := o.inneriter + (j_index_end - j_index_start) }

/-- One iteration of the outer loop of the F kernel with the branch-free blocks. -/
def ljsh_F_outer_nobranch (nlist : t_nblist) (x : Int → ℚ) (shiftvec : Int → ℚ)
    (vdwtype : Int → Int) (vdwparam : Int → ℚ) (nvdwtype : Int)
    (rcutoff2 : M128d) (iidx : Int) (o : OuterSt) : OuterSt :=
  let i_shift_offset := DIM * nlist.shift iidx
  let j_index_start := nlist.jindex iidx
  let j_index_end := nlist.jindex (iidx + 1)
  let inr := nlist.iinr iidx
  let i_coord_offset := DIM * inr
  let i0 := gmx_mm_load_shift_and_1rvec_broadcast_pd shiftvec i_shift_offset x i_coord_offset
  let vdwioffset0 := 2 * nvdwtype * vdwtype (inr + 0)
  let s0 : LJShInner :=
    { f := o.f, fix0 := _mm_setzero_pd, fiy0 := _mm_setzero_pd, fiz0 := _mm_setzero_pd,
      vvdwsum := _mm_setzero_pd }
  let s := innerLoop
    (ljsh_F_block2_nobranch nlist x vdwtype vdwparam rcutoff2 i0.x i0.y i0.z vdwioffset0)
    (ljsh_F_block1_nobranch nlist x vdwtype vdwparam rcutoff2 i0.x i0.y i0.z vdwioffset0)
    j_index_start j_index_end s0
  let u := gmx_mm_update_iforce_1atom_swizzle_pd s.fix0 s.fiy0 s.fiz0
    s.f i_coord_offset o.fshift i_shift_offset
  { f := u.f
    fshift := u.fshift
    energygrp_elec := o.energygrp_elec
    energygrp_vdw := o.energygrp_vdw
    inneriter := o.inneriter + (j_index_end - j_index_start) }

/-- The LJSh-P1P1 VF kernel with the branch `gmx_mm_any_lt` removed from both blocks. -/
def ljsh_VF_kernel_nobranch (nlist : t_nblist)
    (xx : Int → ℚ) (fr : t_forcerec) (mdatoms : t_mdatoms) (st : KState) : KState :=
  let nri := nlist.nri
  let shiftvec := fr.shift_vec
  let nvdwtype := fr.ntype
  let vdwparam := fr.nbfp
  let vdwtype := mdatoms.typeA
  let rcutoff_scalar := fr.ic.rvdw
  let rcutoff := _mm_set1_pd rcutoff_scalar
  let rcutoff2 := _mm_mul_pd rcutoff rcutoff
  let sh_vdw_invrcut6 := _mm_set1_pd fr.ic.sh_invrc6
  let outeriter : Int := 0
  let o0 : OuterSt :=
    { f := st.f, fshift := st.fshift, energygrp_elec := st.energygrp_elec,
      energygrp_vdw := st.energygrp_vdw, inneriter := 0 }
  let o := forLoop nri
    (ljsh_VF_outer_nobranch nlist xx shiftvec vdwtype vdwparam nvdwtype rcutoff2 sh_vdw_invrcut6) 0 o0
  let outeriter := outeriter + nri
  { f := o.f
    fshift := o.fshift
    energygrp_elec := o.energygrp_elec
    energygrp_vdw := o.energygrp_vdw
    nrnb := inc_nrnb st.nrnb eNR.NBKERNEL_VDW_VF (outeriter * 7 + o.inneriter * 44) }

/-- The LJSh-P1P1 F kernel with the branch `gmx_mm_any_lt` removed from both blocks. -/
def ljsh_F_kernel_nobranch (nlist : t_nblist)
    (xx : Int → ℚ) (fr : t_forcerec) (mdatoms : t_mdatoms) (st : KState) : KState :=
  let nri := nlist.nri
  let shiftvec := fr.shift_vec
  let nvdwtype := fr.ntype
  let vdwparam := fr.nbfp
  let vdwtype := mdatoms.typeA
  let rcutoff_scalar := fr.ic.rvdw
  let rcutoff := _mm_set1_pd rcutoff_scalar
  let rcutoff2 := _mm_mul_pd rcutoff rcutoff
  let outeriter : Int := 0
  let o0 : OuterSt :=
    { f := st.f, fshift := st.fshift, energygrp_elec := st.energygrp_elec,
      energygrp_vdw := st.energygrp_vdw, inneriter := 0 }
  let o := forLoop nri
    (ljsh_F_outer_nobranch nlist xx shiftvec vdwtype vdwparam nvdwtype rcutoff2) 0 o0
  let outeriter := outeriter + nri
  { f := o.f
    fshift := o.fshift
    energygrp_elec := o.energygrp_elec
    energygrp_vdw := o.energygrp_vdw
    nrnb := inc_nrnb st.nrnb eNR.NBKERNEL_VDW_F (outeriter * 6 + o.inneriter * 33) }

/-- The coordinate array in which the particle stored at flat offset `p` is displaced by
the vector `shiftvec[q .. q+2]`. -/
def shifted_x (x : Int → ℚ) (p : Int) (shiftvec : Int → ℚ) (q : Int) : Int → ℚ :=
  incr3 x p (shiftvec q) (shiftvec (q + 1)) (shiftvec (q + 2))

/-- The coordinate array in which the three water sites stored at the flat offsets
`p .. p+8` are displaced by the vector `shiftvec[q .. q+2]`. -/
def shifted_x3 (x : Int → ℚ) (p : Int) (shiftvec : Int → ℚ) (q : Int) : Int → ℚ :=
  shifted_x (shifted_x (shifted_x x p shiftvec q) (p + 3) shiftvec q) (p + 6) shiftvec q

/-- The specification's force scalar of a single-particle reaction-field plus
Lennard-Jones pair: the sum of the reaction-field and the Lennard-Jones force scalars. -/
def spec_rf_lj_force_scalar (qq c6 c12 rinv rsq k_rf : ℚ) : ℚ :=
  spec_rf_force_scalar qq rinv k_rf + spec_lj_force_scalar c6 c12 rsq

/-- Force record of the water system with two vdW types: the type pair `(1, 0)` has
`c6 = 0`, `c12 = 1`, every other pair has no Lennard-Jones interaction. -/
def ex_rf_fr2 : t_forcerec :=
  { ex_rf_fr with ntype := 2, nbfp := fun k => if k = 5 then 1 else 0 }

/-- Atom data of the water system in which site 1 (particle 1) has vdW type 1. -/
def ex_rf_mdatoms2 : t_mdatoms :=
  { ex_rf_mdatoms with typeA := fun k => if k = 1 then 1 else 0 }

/-- The sum of `g k` over the indices `a ≤ k < b` (zero when `b ≤ a`). -/
def sumRange (a b : Int) (g : Int → ℚ) : ℚ :=
  Finset.sum (Finset.range (b - a).toNat) (fun k => g (a + (k : Int)))

/-- The inner-loop variables of the LJSh-P1P1 kernels with `d` added to the force array. -/
def ljsh_add_f (d : Int → ℚ) (s : LJShInner) : LJShInner :=
  { s with f := fun k => s.f k + d k }

/-- The inner-loop variables of the RF-LJ-W3P1 kernels with `d` added to the force array. -/
def rf_add_f (d : Int → ℚ) (s : RFInner) : RFInner :=
  { s with f := fun k => s.f k + d k }

/-- The outer-loop state with `df`, `ds`, `de`, `dv` added to the force array, the
shift-force table and the two energy-group arrays. -/
def outer_add (df ds de dv : Int → ℚ) (o : OuterSt) : OuterSt :=
  { f := fun k => o.f k + df k
    fshift := fun k => o.fshift k + ds k
    energygrp_elec := fun k => o.energygrp_elec k + de k
    energygrp_vdw := fun k => o.energygrp_vdw k + dv k
    inneriter := o.inneriter }

/-- The caller's outputs with all four arrays zeroed (counters kept). -/
def zero_outputs (st : KState) : KState :=
  { f := fun _ => 0, fshift := fun _ => 0, energygrp_elec := fun _ => 0,
    energygrp_vdw := fun _ => 0, nrnb := st.nrnb }

/-- The sum over the particles `0 .. N-1` of the component `c` (0, 1 or 2) of the vector
array `a`, which stores particle `p` at the flat offsets `DIM*p .. DIM*p+2`. -/
def total (N : Nat) (c : Int) (a : Int → ℚ) : ℚ :=
  Finset.sum (Finset.range N) (fun p => a (DIM * (p : Int) + c))

/-- The inner-loop variables of the LJSh-P1P1 VF kernel after the partner loop of the
outer entry `iidx`, before the outer accumulators are written back: the part of
`ljsh_VF_outer` up to the end of the inner loop. -/
def ljsh_VF_inner (nlist : t_nblist) (x : Int → ℚ) (shiftvec : Int → ℚ)
    (vdwtype : Int → Int) (vdwparam : Int → ℚ) (nvdwtype : Int)
    (rcutoff2 sh_vdw_invrcut6 : M128d) (iidx : Int) (o : OuterSt) : LJShInner :=
  let i_shift_offset := DIM * nlist.shift iidx
  let j_index_start := nlist.jindex iidx
  let j_index_end := nlist.jindex (iidx + 1)
  let inr := nlist.iinr iidx
  let i_coord_offset := DIM * inr
  let i0 := gmx_mm_load_shift_and_1rvec_broadcast_pd shiftvec i_shift_offset x i_coord_offset
  let vdwioffset0 := 2 * nvdwtype * vdwtype (inr + 0)
  let s0 : LJShInner :=
    { f := o.f, fix0 := _mm_setzero_pd, fiy0 := _mm_setzero_pd, fiz0 := _mm_setzero_pd,
      vvdwsum := _mm_setzero_pd }
  innerLoop
    (ljsh_VF_block2 nlist x vdwtype vdwparam rcutoff2 sh_vdw_invrcut6 i0.x i0.y i0.z vdwioffset0)
    (ljsh_VF_block1 nlist x vdwtype vdwparam rcutoff2 sh_vdw_invrcut6 i0.x i0.y i0.z vdwioffset0)
    j_index_start j_index_end s0

/-- The inner-loop variables of the LJSh-P1P1 F kernel after the partner loop of the
outer entry `iidx`, before the outer accumulators are written back: the part of
`ljsh_F_outer` up to the end of the inner loop. -/
def ljsh_F_inner (nlist : t_nblist) (x : Int → ℚ) (shiftvec : Int → ℚ)
    (vdwtype : Int → Int) (vdwparam : Int → ℚ) (nvdwtype : Int)
    (rcutoff2 : M128d) (iidx : Int) (o : OuterSt) : LJShInner :=
  let i_shift_offset := DIM * nlist.shift iidx
  let j_index_start := nlist.jindex iidx
  let j_index_end := nlist.jindex (iidx + 1)
  let inr := nlist.iinr iidx
  let i_coord_offset := DIM * inr
  let i0 := gmx_mm_load_shift_and_1rvec_broadcast_pd shiftvec i_shift_offset x i_coord_offset
  let vdwioffset0 := 2 * nvdwtype * vdwtype (inr + 0)
  let s0 : LJShInner :=
    { f := o.f, fix0 := _mm_setzero_pd, fiy0 := _mm_setzero_pd, fiz0 := _mm_setzero_pd,
      vvdwsum := _mm_setzero_pd }
  innerLoop
    (ljsh_F_block2 nlist x vdwtype vdwparam rcutoff2 i0.x i0.y i0.z vdwioffset0)
    (ljsh_F_block1 nlist x vdwtype vdwparam rcutoff2 i0.x i0.y i0.z vdwioffset0)
    j_index_start j_index_end s0

/-- The inner-loop variables of the RF-LJ-W3P1 VF kernel after the partner loop of the
outer entry `iidx`, before the outer accumulators are written back: the part of
`rf_VF_outer` up to the end of the inner loop. -/
def rf_VF_inner (invsqrt : ℚ → ℚ) (nlist : t_nblist) (x : Int → ℚ) (shiftvec : Int → ℚ)
    (charge : Int → ℚ) (vdwtype : Int → Int) (vdwparam : Int → ℚ) (krf krf2 crf : M128d)
    (iq0 iq1 iq2 : M128d) (vdwioffset0 : Int) (iidx : Int) (o : OuterSt) : RFInner :=
  let i_shift_offset := DIM * nlist.shift iidx
  let j_index_start := nlist.jindex iidx
  let j_index_end := nlist.jindex (iidx + 1)
  let inr := nlist.iinr iidx
  let i_coord_offset := DIM * inr
  let i := gmx_mm_load_shift_and_3rvec_broadcast_pd shiftvec i_shift_offset x i_coord_offset
  let s0 : RFInner :=
    { f := o.f
      fix0 := _mm_setzero_pd, fiy0 := _mm_setzero_pd, fiz0 := _mm_setzero_pd
      fix1 := _mm_setzero_pd, fiy1 := _mm_setzero_pd, fiz1 := _mm_setzero_pd
      fix2 := _mm_setzero_pd, fiy2 := _mm_setzero_pd, fiz2 := _mm_setzero_pd
      velecsum := _mm_setzero_pd, vvdwsum := _mm_setzero_pd }
  innerLoop
    (rf_VF_block2 invsqrt nlist x charge vdwtype vdwparam krf krf2 crf iq0 iq1 iq2 vdwioffset0
      i.s0.x i.s0.y i.s0.z i.s1.x i.s1.y i.s1.z i.s2.x i.s2.y i.s2.z)
    (rf_VF_block1 invsqrt nlist x charge vdwtype vdwparam krf krf2 crf iq0 iq1 iq2 vdwioffset0
      i.s0.x i.s0.y i.s0.z i.s1.x i.s1.y i.s1.z i.s2.x i.s2.y i.s2.z)
    j_index_start j_index_end s0

/-- The inner-loop variables of the RF-LJ-W3P1 F kernel after the partner loop of the
outer entry `iidx`, before the outer accumulators are written back: the part of
`rf_F_outer` up to the end of the inner loop. -/
def rf_F_inner (invsqrt : ℚ → ℚ) (nlist : t_nblist) (x : Int → ℚ) (shiftvec : Int → ℚ)
    (charge : Int → ℚ) (vdwtype : Int → Int) (vdwparam : Int → ℚ) (krf2 : M128d)
    (iq0 iq1 iq2 : M128d) (vdwioffset0 : Int) (iidx : Int) (o : OuterSt) : RFInner :=
  let i_shift_offset := DIM * nlist.shift iidx
  let j_index_start := nlist.jindex iidx
  let j_index_end := nlist.jindex (iidx + 1)
  let inr := nlist.iinr iidx
  let i_coord_offset := DIM * inr
  let i := gmx_mm_load_shift_and_3rvec_broadcast_pd shiftvec i_shift_offset x i_coord_offset
  let s0 : RFInner :=
    { f := o.f
      fix0 := _mm_setzero_pd, fiy0 := _mm_setzero_pd, fiz0 := _mm_setzero_pd
      fix1 := _mm_setzero_pd, fiy1 := _mm_setzero_pd, fiz1 := _mm_setzero_pd
      fix2 := _mm_setzero_pd, fiy2 := _mm_setzero_pd, fiz2 := _mm_setzero_pd
      velecsum := _mm_setzero_pd, vvdwsum := _mm_setzero_pd }
  innerLoop
    (rf_F_block2 invsqrt nlist x charge vdwtype vdwparam krf2 iq0 iq1 iq2 vdwioffset0
      i.s0.x i.s0.y i.s0.z i.s1.x i.s1.y i.s1.z i.s2.x i.s2.y i.s2.z)
    (rf_F_block1 invsqrt nlist x charge vdwtype vdwparam krf2 iq0 iq1 iq2 vdwioffset0
      i.s0.x i.s0.y i.s0.z i.s1.x i.s1.y i.s1.z i.s2.x i.s2.y i.s2.z)
    j_index_start j_index_end s0

/-- Inner-loop variables of the LJSh-P1P1 kernels at the start of an outer entry, over
an all-zero force array. -/
def ex_ljsh_inner : LJShInner :=
  { f := fun _ => 0, fix0 := _mm_setzero_pd, fiy0 := _mm_setzero_pd, fiz0 := _mm_setzero_pd,
    vvdwsum := _mm_setzero_pd }

/-- Inner-loop variables of the RF-LJ-W3P1 kernels at the start of an outer entry, over
an all-zero force array. -/
def ex_rf_inner : RFInner :=
  { f := fun _ => 0
    fix0 := _mm_setzero_pd, fiy0 := _mm_setzero_pd, fiz0 := _mm_setzero_pd
    fix1 := _mm_setzero_pd, fiy1 := _mm_setzero_pd, fiz1 := _mm_setzero_pd
    fix2 := _mm_setzero_pd, fiy2 := _mm_setzero_pd, fiz2 := _mm_setzero_pd
    velecsum := _mm_setzero_pd, vvdwsum := _mm_setzero_pd }

/-- The example force record with the shift vector `(0, 1, 0)` in shift slot 0. -/
def ex_fr_shift : t_forcerec := { ex_fr with shift_vec := fun k => if k = 1 then 1 else 0 }

/-! ## Scalar SIMD utilities exercised by `simd/tests/scalar_util.cpp` -/

/-- Modelled from the spec: `transposeScatterIncrU<align>(base, offset, v0, v1, v2)` of the
scalar SIMD utility header, which is not among the sources; its behaviour is the one the
test `TEST(SimdScalarUtilTest, transposeScatterIncrU)` checks. The three values are added,
one after the other, to `base[align*offset[0] + 0..2]`; `offset` is the value `offset[0]`. -/
def transposeScatterIncrU (align : Int) (base : Int → ℚ) (offset : Int) (v0 v1 v2 : ℚ) :
    Int → ℚ :=
  let b1 := store base (align * offset) (base (align * offset) + v0)
  let b2 := store b1 (align * offset + 1) (b1 (align * offset + 1) + v1)
  store b2 (align * offset + 2) (b2 (align * offset + 2) + v2)

/-- Modelled from the spec: `transposeScatterDecrU<align>(base, offset, v0, v1, v2)` of the
scalar SIMD utility header, which is not among the sources; its behaviour is the one the
test `TEST(SimdScalarUtilTest, transposeScatterDecrU)` checks. The three values are
subtracted, one after the other, from `base[align*offset[0] + 0..2]`. -/
def transposeScatterDecrU (align : Int) (base : Int → ℚ) (offset : Int) (v0 v1 v2 : ℚ) :
    Int → ℚ :=
  let b1 := store base (align * offset) (base (align * offset) - v0)
  let b2 := store b1 (align * offset + 1) (b1 (align * offset + 1) - v1)
  store b2 (align * offset + 2) (b2 (align * offset + 2) - v2)

/-- Result of `reduceIncr4ReturnSum`: the updated memory and the returned sum. -/
structure Reduce4 where
  data : Int → ℚ
  sum : ℚ

/-- Modelled from the spec: `reduceIncr4ReturnSum(m, v0, v1, v2, v3)` of the scalar SIMD
utility header, which is not among the sources; its behaviour is the one the test
`TEST(SimdScalarUtilTest, reduceIncr4ReturnSum)` checks. The pointer `m` is the offset `m`
into the array `data`; `v_k` is added to `m[k]`, `k = 0..3`, and the sum of the four
values is returned. -/
def reduceIncr4ReturnSum (data : Int → ℚ) (m : Int) (v0 v1 v2 v3 : ℚ) : Reduce4 :=
  let d1 := store data m (data m + v0)
  let d2 := store d1 (m + 1) (d1 (m + 1) + v1)
  let d3 := store d2 (m + 2) (d2 (m + 2) + v2)
  let d4 := store d3 (m + 3) (d3 (m + 3) + v3)
  { data := d4, sum := v0 + v1 + v2 + v3 }

/-- The array `data` of the tests `transposeScatterIncrU` and `transposeScatterDecrU`:
`{10, 20, 30, 40, 50, 60, 70, 80, 90}` at the indices `0 .. 8`. -/
def test_scatter_data : Int → ℚ := fun k => 10 * (k + 1)

/-! ## `gmxana/binsearch.cpp` -/

/-- Store the integer `v` at index `p` of an integer array. -/
def storeInt (a : Int → Int) (p : Int) (v : Int) : Int → Int :=
  fun k => if k = p then v else a k

/-- The function `rangeArray(ar, size)`: `for (i = 0; i < size; i++) ar[i] = i;`. -/
def rangeArray (ar : Int → Int) (size : Int) : Int → Int :=
  forLoop size (fun i a => storeInt a i i) 0 ar

/-- The function `pswap(v1, v2)`: exchange two entries of the permutation array; the
pointers are the indices `v1`, `v2` into `perm`. -/
def pswap (perm : Int → Int) (v1 v2 : Int) : Int → Int :=
  let temp := perm v1
  let p1 := storeInt perm v1 (perm v2)
  storeInt p1 v2 temp

/-- The function `Swap(v1, v2)`: exchange two entries of the key array; the pointers are
the indices `v1`, `v2` into `arr`. -/
def Swap (arr : Int → ℚ) (v1 v2 : Int) : Int → ℚ :=
  let temp := arr v1
  let a1 := store arr v1 (arr v2)
  store a1 v2 temp

/-- The two arrays `insertionSort` works on. -/
structure SortState where
  arr : Int → ℚ
  perm : Int → Int

/-- The inner loop of `insertionSort`,
`while (j > startndx && out_of_order(arr[j-1], arr[j])) { Swap; pswap; j--; }`, where
`out_of_order a b` is `a > b` in the first copy of the loop and `a < b` in the second.
The test `j > startndx` comes first, so `arr[j-1]` is not read at `j = startndx`. -/
def insertWhile (out_of_order : ℚ → ℚ → Bool) (startndx : Int) (j : Int) (s : SortState) :
    SortState :=
  if h : j > startndx ∧ out_of_order (s.arr (j - 1)) (s.arr j) = true then
    insertWhile out_of_order startndx (j - 1)
      { arr := Swap s.arr j (j - 1), perm := pswap s.perm j (j - 1) }
  else s
termination_by (j - startndx).toNat
decreasing_by omega

/-- The function `insertionSort(arr, perm, startndx, endndx, direction)`. The loops
`for (i = startndx; i <= endndx; i++)` are counting loops up to `endndx + 1`; indices are
mathematical integers. -/
def insertionSort (arr : Int → ℚ) (perm : Int → Int) (startndx endndx direction : Int) :
    SortState :=
  let s0 : SortState := { arr := arr, perm := perm }
  let s1 :=
    if direction ≥ 0 then
      forLoop (endndx + 1) (fun i s => insertWhile (fun a b => decide (a > b)) startndx i s)
        startndx s0
    else s0
  if direction < 0 then
    forLoop (endndx + 1) (fun i s => insertWhile (fun a b => decide (a < b)) startndx i s)
      startndx s1
  else s1

/-- Adjacent entries of `arr` between `lo` and `hi` are in order: no pair
`arr[k], arr[k+1]` with `lo <= k < hi` is out of order. -/
def AdjSorted (out_of_order : ℚ → ℚ → Bool) (arr : Int → ℚ) (lo hi : Int) : Prop :=
  ∀ k : Int, lo ≤ k → k < hi → out_of_order (arr k) (arr (k + 1)) = false

/-- The array `s` is the array `s0` rearranged by a bijection of the indices that moves
only indices between `lo` and `hi`, and the permutation array followed the same moves. -/
def Rearranged (lo hi : Int) (s0 s : SortState) : Prop :=
  ∃ σ : Equiv.Perm Int, (∀ k : Int, k < lo ∨ hi < k → σ k = k)
    ∧ (∀ k : Int, s.arr k = s0.arr (σ k)) ∧ (∀ k : Int, s.perm k = s0.perm (σ k))

/-- Keys of the sorting example: `3, 1, 2, 0` at the indices `0 .. 3`, `9` elsewhere. -/
def ex_sort_arr : Int → ℚ :=
  fun k => if k = 0 then 3 else if k = 1 then 1 else if k = 2 then 2 else if k = 3 then 0 else 9

/-- Two inner-loop states of the LJSh-P1P1 kernels carry the same forces: the same shared
force array and the same outer accumulators (the potential sums may differ). -/
def LJShSameForces (s t : LJShInner) : Prop :=
  s.f = t.f ∧ s.fix0 = t.fix0 ∧ s.fiy0 = t.fiy0 ∧ s.fiz0 = t.fiz0

/-- Two inner-loop states of the RF-LJ-W3P1 kernels carry the same forces: the same
shared force array and the same accumulators of the three sites. -/
def RFSameForces (s t : RFInner) : Prop :=
  s.f = t.f ∧ s.fix0 = t.fix0 ∧ s.fiy0 = t.fiy0 ∧ s.fiz0 = t.fiz0
    ∧ s.fix1 = t.fix1 ∧ s.fiy1 = t.fiy1 ∧ s.fiz1 = t.fiz1
    ∧ s.fix2 = t.fix2 ∧ s.fiy2 = t.fiy2 ∧ s.fiz2 = t.fiz2

/-- Two outer-loop states carry the same force array and shift-force table. -/
def OuterSameForces (o p : OuterSt) : Prop :=
  o.f = p.f ∧ o.fshift = p.fshift

/-! ## Array accesses of the RF-LJ-W3P1 kernels

The kernels of the embedding read total functions; to speak about bounds, the array
accesses of `nb_kernel_ElecRF_VdwLJ_GeomW3P1_{VF,F}_sse2_double` are listed here in program
order, statement by statement, with the index values the code computes. -/

/-- The arrays the RF-LJ-W3P1 kernels index. -/
inductive Arr where
  | iinr
  | jindex
  | jjnr
  | shiftidx
  | gid
  | shiftvec
  | fshift
  | x
  | f
  | charge
  | vdwtype
  | vdwparam
  | energygrp_elec
  | energygrp_vdw
deriving DecidableEq

/-- One array access (read or write): the array and the element index. -/
structure Access where
  arr : Arr
  idx : Int
deriving DecidableEq

/-- Number of elements of each array, as the caller allocated them. -/
structure ArraySizes where
  size : Arr → Int

/-- The access is inside its array. -/
def InBounds (sz : ArraySizes) (a : Access) : Prop := 0 ≤ a.idx ∧ a.idx < sz.size a.arr

instance instDecidableInBounds (sz : ArraySizes) (a : Access) : Decidable (InBounds sz a) := by
  unfold InBounds
  exact inferInstance

/-- Every access of the list is inside its array. -/
def AllInBounds (sz : ArraySizes) (l : List Access) : Prop := ∀ a ∈ l, InBounds sz a

/-- Modelled from the spec: the elements touched by a kernel-utility helper (the header is
not among the sources) that loads or updates the three components of one vector at
`a + p`: `p`, `p+1`, `p+2`. The three-site helpers touch three such vectors, at `p`,
`p+3` and `p+6`; the pair loads touch `c6, c12` at `p`, `p+1`. -/
def rvec_accesses (a : Arr) (p : Int) : List Access := [⟨a, p⟩, ⟨a, p + 1⟩, ⟨a, p + 2⟩]

/-- Accesses of the section "Setup water-specific parameters" (VF: source lines 123-127,
F: 576-580), executed before the outer loop: `iinr[0]`, `charge[inr+0..2]`,
`vdwtype[inr+0]`. -/
def rf_setup_accesses (nlist : t_nblist) : List Access :=
  let inr := nlist.iinr 0
  [⟨Arr.iinr, 0⟩, ⟨Arr.charge, inr + 0⟩, ⟨Arr.charge, inr + 1⟩, ⟨Arr.charge, inr + 2⟩,
    ⟨Arr.vdwtype, inr + 0⟩]

/-- Accesses of the full two-lane block (VF: source lines 174-317, F: 623-750):
`jjnr[jidx]`, `jjnr[jidx+1]`, the coordinates of both partners, their charges and vdW
types, the `c6, c12` pair of each, and the force update of both. -/
def rf_block2_accesses (nlist : t_nblist) (vdwtype : Int → Int) (vdwioffset0 : Int)
    (jidx : Int) : List Access :=
  let jnrA := nlist.jjnr jidx
  let jnrB := nlist.jjnr (jidx + 1)
  let j_coord_offsetA := DIM * jnrA
  let j_coord_offsetB := DIM * jnrB
  let vdwjidx0A := 2 * vdwtype (jnrA + 0)
  let vdwjidx0B := 2 * vdwtype (jnrB + 0)
  [⟨Arr.jjnr, jidx⟩, ⟨Arr.jjnr, jidx + 1⟩]
    ++ rvec_accesses Arr.x j_coord_offsetA ++ rvec_accesses Arr.x j_coord_offsetB
    ++ [⟨Arr.charge, jnrA + 0⟩, ⟨Arr.charge, jnrB + 0⟩,
        ⟨Arr.vdwtype, jnrA + 0⟩, ⟨Arr.vdwtype, jnrB + 0⟩,
        ⟨Arr.vdwparam, vdwioffset0 + vdwjidx0A⟩, ⟨Arr.vdwparam, vdwioffset0 + vdwjidx0A + 1⟩,
        ⟨Arr.vdwparam, vdwioffset0 + vdwjidx0B⟩, ⟨Arr.vdwparam, vdwioffset0 + vdwjidx0B + 1⟩]
    ++ rvec_accesses Arr.f j_coord_offsetA ++ rvec_accesses Arr.f j_coord_offsetB

/-- Accesses of the remainder block (VF: source lines 325-474, F: 758-887): as the full
block, for partner A only. -/
def rf_block1_accesses (nlist : t_nblist) (vdwtype : Int → Int) (vdwioffset0 : Int)
    (jidx : Int) : List Access :=
  let jnrA := nlist.jjnr jidx
  let j_coord_offsetA := DIM * jnrA
  let vdwjidx0A := 2 * vdwtype (jnrA + 0)
  [⟨Arr.jjnr, jidx⟩]
    ++ rvec_accesses Arr.x j_coord_offsetA
    ++ [⟨Arr.charge, jnrA + 0⟩, ⟨Arr.vdwtype, jnrA + 0⟩,
        ⟨Arr.vdwparam, vdwioffset0 + vdwjidx0A⟩, ⟨Arr.vdwparam, vdwioffset0 + vdwjidx0A + 1⟩]
    ++ rvec_accesses Arr.f j_coord_offsetA

/-- Accesses of one outer iteration up to and including the write-back of the forces
(VF: source lines 141-482, F: 594-895), appended to the accesses so far. -/
def rf_outer_accesses (nlist : t_nblist) (vdwtype : Int → Int) (vdwioffset0 : Int)
    (iidx : Int) (acc : List Access) : List Access :=
  let i_shift_offset := DIM * nlist.shift iidx
  let j_index_start := nlist.jindex iidx
  let j_index_end := nlist.jindex (iidx + 1)
  let inr := nlist.iinr iidx
  let i_coord_offset := DIM * inr
  let acc := acc ++ [⟨Arr.shiftidx, iidx⟩, ⟨Arr.jindex, iidx⟩, ⟨Arr.jindex, iidx + 1⟩,
    ⟨Arr.iinr, iidx⟩]
  let acc := acc ++ rvec_accesses Arr.shiftvec i_shift_offset
    ++ rvec_accesses Arr.x i_coord_offset ++ rvec_accesses Arr.x (i_coord_offset + 3)
    ++ rvec_accesses Arr.x (i_coord_offset + 6)
  let acc := innerLoop
    (fun jidx a => a ++ rf_block2_accesses nlist vdwtype vdwioffset0 jidx)
    (fun jidx a => a ++ rf_block1_accesses nlist vdwtype vdwioffset0 jidx)
    j_index_start j_index_end acc
  acc ++ rvec_accesses Arr.f i_coord_offset ++ rvec_accesses Arr.f (i_coord_offset + 3)
    ++ rvec_accesses Arr.f (i_coord_offset + 6) ++ rvec_accesses Arr.fshift i_shift_offset

/-- Accesses of one outer iteration of the VF kernel: those of `rf_outer_accesses`, then
`gid[iidx]` and the two energy-group updates (source lines 484-487). -/
def rf_VF_outer_accesses (nlist : t_nblist) (vdwtype : Int → Int) (vdwioffset0 : Int)
    (iidx : Int) (acc : List Access) : List Access :=
  let ggid := nlist.gid iidx
  rf_outer_accesses nlist vdwtype vdwioffset0 iidx acc
    ++ [⟨Arr.gid, iidx⟩, ⟨Arr.energygrp_elec, ggid⟩, ⟨Arr.energygrp_vdw, ggid⟩]

/-- All array accesses of `nb_kernel_ElecRF_VdwLJ_GeomW3P1_VF_sse2_double`, in program
order. -/
def rf_VF_accesses (nlist : t_nblist) (fr : t_forcerec) (mdatoms : t_mdatoms) : List Access :=
  let nvdwtype := fr.ntype
  let vdwtype := mdatoms.typeA
  let inr := nlist.iinr 0
  let vdwioffset0 := 2 * nvdwtype * vdwtype (inr + 0)
  forLoop nlist.nri (rf_VF_outer_accesses nlist vdwtype vdwioffset0) 0
    (rf_setup_accesses nlist)

/-- All array accesses of `nb_kernel_ElecRF_VdwLJ_GeomW3P1_F_sse2_double`, in program
order. -/
def rf_F_accesses (nlist : t_nblist) (fr : t_forcerec) (mdatoms : t_mdatoms) : List Access :=
  let nvdwtype := fr.ntype
  let vdwtype := mdatoms.typeA
  let inr := nlist.iinr 0
  let vdwioffset0 := 2 * nvdwtype * vdwtype (inr + 0)
  forLoop nlist.nri (rf_outer_accesses nlist vdwtype vdwioffset0) 0
    (rf_setup_accesses nlist)

/-- The spec's preconditions for a kernel call on a system of `natoms` particles with
`nshifts` shift vectors and `ngroups` energy groups: the index arrays of the neighbour
list have `nri` (`jindex`: `nri + 1`) entries and `jjnr` has `jindex[nri]` entries, every
index named by the list is valid (outer waters with their three sites, partners, shift
and group indices), the partner ranges are ordered, and the particle and parameter
arrays cover the particles and their vdW types. -/
def ValidInput (nlist : t_nblist) (fr : t_forcerec) (mdatoms : t_mdatoms)
    (natoms nshifts ngroups : Int) (sz : ArraySizes) : Prop :=
  0 ≤ nlist.nri
  ∧ sz.size Arr.iinr = nlist.nri ∧ sz.size Arr.shiftidx = nlist.nri
  ∧ sz.size Arr.gid = nlist.nri ∧ sz.size Arr.jindex = nlist.nri + 1
  ∧ sz.size Arr.jjnr = nlist.jindex nlist.nri
  ∧ sz.size Arr.x = DIM * natoms ∧ sz.size Arr.f = DIM * natoms
  ∧ sz.size Arr.charge = natoms ∧ sz.size Arr.vdwtype = natoms
  ∧ sz.size Arr.shiftvec = DIM * nshifts ∧ sz.size Arr.fshift = DIM * nshifts
  ∧ sz.size Arr.vdwparam = 2 * fr.ntype * fr.ntype
  ∧ sz.size Arr.energygrp_elec = ngroups ∧ sz.size Arr.energygrp_vdw = ngroups
  ∧ 0 ≤ nlist.jindex 0
  ∧ (∀ iidx : Int, 0 ≤ iidx → iidx < nlist.nri →
      0 ≤ nlist.iinr iidx ∧ nlist.iinr iidx + 2 < natoms
      ∧ 0 ≤ nlist.shift iidx ∧ nlist.shift iidx < nshifts
      ∧ 0 ≤ nlist.gid iidx ∧ nlist.gid iidx < ngroups
      ∧ nlist.jindex iidx ≤ nlist.jindex (iidx + 1))
  ∧ (∀ jidx : Int, 0 ≤ jidx → jidx < nlist.jindex nlist.nri →
      0 ≤ nlist.jjnr jidx ∧ nlist.jjnr jidx < natoms)
  ∧ (∀ p : Int, 0 ≤ p → p < natoms → 0 ≤ mdatoms.typeA p ∧ mdatoms.typeA p < fr.ntype)

/-- The empty neighbour list: no outer entries, `jindex = {0}`. -/
def ex_nlist_none : t_nblist :=
  { nri := 0, iinr := fun _ => 0, jindex := fun _ => 0, jjnr := fun _ => 0,
    shift := fun _ => 0, gid := fun _ => 0 }

/-- Array sizes for the empty neighbour list on the water system (7 particles, one shift
vector, one energy group, one vdW type): `iinr`, `shift`, `gid` and `jjnr` have no
entries, `jindex` has one. -/
def ex_sizes_none : ArraySizes :=
  { size := fun a =>
      match a with
      | Arr.iinr => 0
      | Arr.jindex => 1
      | Arr.jjnr => 0
      | Arr.shiftidx => 0
      | Arr.gid => 0
      | Arr.shiftvec => 3
      | Arr.fshift => 3
      | Arr.x => 21
      | Arr.f => 21
      | Arr.charge => 7
      | Arr.vdwtype => 7
      | Arr.vdwparam => 2
      | Arr.energygrp_elec => 1
      | Arr.energygrp_vdw => 1 }

/-- Array sizes for the list `ex_rf_nlist` (water 0 with the partner 3) on the water
system. -/
def ex_sizes_rf : ArraySizes :=
  { size := fun a =>
      match a with
      | Arr.iinr => 1
      | Arr.jindex => 2
      | Arr.jjnr => 1
      | Arr.shiftidx => 1
      | Arr.gid => 1
      | Arr.shiftvec => 3
      | Arr.fshift => 3
      | Arr.x => 21
      | Arr.f => 21
      | Arr.charge => 7
      | Arr.vdwtype => 7
      | Arr.vdwparam => 2
      | Arr.energygrp_elec => 1
      | Arr.energygrp_vdw => 1 }

/-- Loop variables of `BinarySearch`, with the list of the zero-based indices at which
`array` has been read so far (in program order). -/
structure BSState where
  iMin : Int
  iMax : Int
  reads : List Int

/-- The loop of `BinarySearch`,
`while (iMax-iMin > 1) { iMid = (iMin+iMax)>>1; if (go_left(key, array[iMid-1])) iMax = iMid;
else iMin = iMid; }`, where `go_left key a` is `key < a` in the first copy of the loop
(`direction >= 0`) and `key > a` in the second. The shift is the arithmetic shift of a
signed integer; integers are mathematical integers. -/
def BinarySearch_loop (go_left : ℚ → ℚ → Bool) (array : Int → ℚ) (key : ℚ) (s : BSState) :
    BSState :=
  if h : s.iMax - s.iMin > 1 then
    let iMid := (s.iMin + s.iMax) >>> (1 : Nat)
    let reads := s.reads ++ [iMid - 1]
    if go_left key (array (iMid - 1)) then
      BinarySearch_loop go_left array key { iMin := s.iMin, iMax := iMid, reads := reads }
    else
      BinarySearch_loop go_left array key { iMin := iMid, iMax := s.iMax, reads := reads }
  else s
termination_by (s.iMax - s.iMin).toNat
decreasing_by
  all_goals simp_wf
  all_goals rw [Int.shiftRight_eq_div_pow]
  all_goals norm_num
  all_goals omega

/-- What a call of `BinarySearch` does: the value returned and the indices of `array`
read. -/
structure BSResult where
  ret : Int
  reads : List Int

/-- The function `BinarySearch(array, low, high, key, direction)`. -/
def BinarySearch (array : Int → ℚ) (low high : Int) (key : ℚ) (direction : Int) : BSResult :=
  let iMax := high + 2
  let iMin := low + 1
  if direction ≥ 0 then
    let s := BinarySearch_loop (fun key a => decide (key < a)) array key
      { iMin := iMin, iMax := iMax, reads := [] }
    { ret := s.iMin, reads := s.reads }
  else
    let s := BinarySearch_loop (fun key a => decide (key > a)) array key
      { iMin := iMin, iMax := iMax, reads := [] }
    { ret := s.iMin - 1, reads := s.reads }

/-- What a call of `LinearSearch` leaves behind: the value returned, the counter `*count`
and the array. -/
structure LSResult where
  ret : Int
  count : Int
  array : Int → ℚ

/-- The loop of the branch `direction >= 0` of `LinearSearch`, from the index `i` on, with
its early return:
`for (; i <= stopindx; i++) { (*count)++; if (array[i] > key) return i-1; }`, followed by
the final `return -1`. -/
def LinearSearch_up (array : Int → ℚ) (stopindx : Int) (key : ℚ) (i : Int) (count : Int) :
    LSResult :=
  if h : i ≤ stopindx then
    let count := count + 1
    if array i > key then { ret := i - 1, count := count, array := array }
    else LinearSearch_up array stopindx key (i + 1) count
  else { ret := -1, count := count, array := array }
termination_by (stopindx + 1 - i).toNat
decreasing_by omega

/-- The loop of the branch `direction < 0` of `LinearSearch`, from the index `i` down, with
its early return:
`for (; i >= startindx; i--) { (*count)++; if (array[i] > key) return i+1; }`, followed by
the final `return -1`. -/
def LinearSearch_down (array : Int → ℚ) (startindx : Int) (key : ℚ) (i : Int) (count : Int) :
    LSResult :=
  if h : i ≥ startindx then
    let count := count + 1
    if array i > key then { ret := i + 1, count := count, array := array }
    else LinearSearch_down array startindx key (i - 1) count
  else { ret := -1, count := count, array := array }
termination_by (i + 1 - startindx).toNat
decreasing_by omega

/-- The function `LinearSearch(array, startindx, stopindx, key, count, direction)`; `count`
is the value of `*count` before the call. -/
def LinearSearch (array : Int → ℚ) (startindx stopindx : Int) (key : ℚ) (count : Int)
    (direction : Int) : LSResult :=
  if direction ≥ 0 then LinearSearch_up array stopindx key startindx count
  else LinearSearch_down array startindx key stopindx count

/-- One iteration of the loop of `BinarySearch` (the loop body), see `BinarySearch_loop`. -/
def BinarySearch_step (go_left : ℚ → ℚ → Bool) (array : Int → ℚ) (key : ℚ) (s : BSState) :
    BSState :=
  let iMid := (s.iMin + s.iMax) >>> (1 : Nat)
  let reads := s.reads ++ [iMid - 1]
  if go_left key (array (iMid - 1)) then { iMin := s.iMin, iMax := iMid, reads := reads }
  else { iMin := iMid, iMax := s.iMax, reads := reads }

/-- A non-decreasing example array: `1, 3, 5, 7` at the indices `0 .. 3`, `100` elsewhere. -/
def ex_search_up : Int → ℚ :=
  fun k => if k = 0 then 1 else if k = 1 then 3 else if k = 2 then 5 else if k = 3 then 7
    else 100

/-- A non-increasing example array: `7, 5, 3, 1` at the indices `0 .. 3`, `-100` elsewhere. -/
def ex_search_down : Int → ℚ :=
  fun k => if k = 0 then 7 else if k = 1 then 5 else if k = 2 then 3 else if k = 3 then 1
    else -100

/-- Equal keys between `lo` and `hi` carry increasing entries of the permutation array:
for positions `k < l` with `arr[k] = arr[l]` we have `perm[k] < perm[l]`. -/
def StableOn (s : SortState) (lo hi : Int) : Prop :=
  ∀ k l : Int, lo ≤ k → k < l → l ≤ hi → s.arr k = s.arr l → s.perm k < s.perm l

/-- Keys with ties for the sorting example: `5` everywhere. -/
def ex_tie_arr : Int → ℚ := fun _ => 5

/-! ## `programs/mdrun/tests/multisimtest.cpp` -/

/-- The constant `baseTemperature` of `MultiSimTest::organizeMdpFile`. -/
def baseTemperature : ℚ := 298

/-- The value written for `gen-temp` by `MultiSimTest::organizeMdpFile` on the replica
`rank_`: `std::max(baseTemperature - 10 * rank_, realA(0))`. The values are whole numbers,
which the floating-point type holds exactly; they are taken as rationals. -/
def gen_temp (rank_ : Int) : ℚ :=
  max (baseTemperature - ((10 * rank_ : Int) : ℚ)) 0

/-! ## `gpu_utils/cudautils.hip.cpp`

Pointers are numbers, `NULL` is `0`; byte counts and sizes are mathematical integers. The
device runtime and the build configuration are a parameter `Device`; every call of the
runtime is recorded in a list. -/

/-- The enumeration `GpuApiCallBehavior`; `Other` stands for any value besides the two
enumerators, which the `switch` statements send to `default:`. -/
inductive GpuApiCallBehavior where
  | Sync : GpuApiCallBehavior
  | Async : GpuApiCallBehavior
  | Other : GpuApiCallBehavior
deriving DecidableEq

/-- The two copy directions used by the wrappers. -/
inductive hipMemcpyKind where
  | hipMemcpyDeviceToHost : hipMemcpyKind
  | hipMemcpyHostToDevice : hipMemcpyKind
deriving DecidableEq

/-- A call of the device runtime, with its arguments. -/
inductive DeviceCall where
  | hipMemcpy (dst src : Nat) (bytes : Int) (kind : hipMemcpyKind) : DeviceCall
  | hipMemcpyAsync (dst src : Nat) (bytes : Int) (kind : hipMemcpyKind) (s : Nat) : DeviceCall
  | hipFree (ptr : Nat) : DeviceCall
  | hipMalloc (bytes : Int) : DeviceCall
deriving DecidableEq

/-- Whether a runtime call is a copy. -/
def DeviceCall.isCopy : DeviceCall → Bool
  | DeviceCall.hipMemcpy _ _ _ _ => true
  | DeviceCall.hipMemcpyAsync _ _ _ _ _ => true
  | _ => false

/-- Whether a runtime call frees or allocates device memory. -/
def DeviceCall.isAlloc : DeviceCall → Bool
  | DeviceCall.hipFree _ => true
  | DeviceCall.hipMalloc _ => true
  | _ => false

/-- How a call of one of the wrappers ends: it returns a value, or the program is stopped
by a failed `GMX_ASSERT`, by the fatal error of `CU_RET_ERR`, or by the `throw;` of the
`default:` label (there is no exception to rethrow, so the program terminates). -/
inductive Outcome (α : Type) where
  | returned (v : α) : Outcome α
  | assertion_failed : Outcome α
  | fatal_error : Outcome α
  | terminated : Outcome α
deriving DecidableEq

/-- Forget the returned value, as a caller does that ignores it; a stop of the program
stays what it is. -/
def Outcome.discard {α : Type} : Outcome α → Outcome Unit
  | Outcome.returned _ => Outcome.returned ()
  | Outcome.assertion_failed => Outcome.assertion_failed
  | Outcome.fatal_error => Outcome.fatal_error
  | Outcome.terminated => Outcome.terminated

/-- What the wrappers take from outside this file: the build configuration
(`assertsEnabled` for `GMX_ASSERT`, `checkErrors` for `CU_RET_ERR`), the predicate
`isHostMemoryPinned`, the status of each runtime call (`true` is `hipSuccess`), the pointer
`hipMalloc` leaves in `*d_dest` (given the old pointer and the byte count), and the
function `over_alloc_large`. -/
structure Device where
  assertsEnabled : Bool
  checkErrors : Bool
  isHostMemoryPinned : Nat → Bool
  hipMemcpy : Nat → Nat → Int → hipMemcpyKind → Bool
  hipMemcpyAsync : Nat → Nat → Int → hipMemcpyKind → Nat → Bool
  hipFree : Nat → Bool
  hipMalloc : Nat → Int → Bool × Nat
  over_alloc_large : Int → Int

/-- Modelled from the spec: the macro `GMX_ASSERT(condition, msg)` is not among the
sources at hand. It stops the program when assertions are compiled in and the condition
is false, and does nothing otherwise; the value is whether execution continues. -/
def GMX_ASSERT (dev : Device) (condition : Bool) : Bool :=
  !dev.assertsEnabled || condition

/-- Modelled from the spec: the macro `CU_RET_ERR(status, msg)` is not among the sources
at hand. It ends the program with a fatal error when error checking is compiled in and
the status is not `hipSuccess`, and does nothing otherwise; the value is whether
execution continues. -/
def CU_RET_ERR (dev : Device) (status : Bool) : Bool :=
  !dev.checkErrors || status

/-- What a call of `cu_copy_D2H` or `cu_copy_H2D` leaves behind: how it ended and the
runtime calls it made. -/
structure CopyResult where
  outcome : Outcome Int
  calls : List DeviceCall
deriving DecidableEq

/-- The function `cu_copy_D2H(h_dest, d_src, bytes, transferKind, s)`. -/
def cu_copy_D2H (dev : Device) (h_dest d_src : Nat) (bytes : Int)
    (transferKind : GpuApiCallBehavior) (s : Nat) : CopyResult :=
  if h_dest = 0 ∨ d_src = 0 ∨ bytes = 0 then
    { outcome := Outcome.returned (-1), calls := [] }
  else
    match transferKind with
    | GpuApiCallBehavior.Async =>
      if GMX_ASSERT dev (dev.isHostMemoryPinned h_dest) then
        let stat :=
          dev.hipMemcpyAsync h_dest d_src bytes hipMemcpyKind.hipMemcpyDeviceToHost s
        let calls :=
          [DeviceCall.hipMemcpyAsync h_dest d_src bytes hipMemcpyKind.hipMemcpyDeviceToHost s]
        if CU_RET_ERR dev stat then { outcome := Outcome.returned 0, calls := calls }
        else { outcome := Outcome.fatal_error, calls := calls }
      else { outcome := Outcome.assertion_failed, calls := [] }
    | GpuApiCallBehavior.Sync =>
      let stat := dev.hipMemcpy h_dest d_src bytes hipMemcpyKind.hipMemcpyDeviceToHost
      let calls := [DeviceCall.hipMemcpy h_dest d_src bytes hipMemcpyKind.hipMemcpyDeviceToHost]
      if CU_RET_ERR dev stat then { outcome := Outcome.returned 0, calls := calls }
      else { outcome := Outcome.fatal_error, calls := calls }
    | GpuApiCallBehavior.Other => { outcome := Outcome.terminated, calls := [] }

/-- The function `cu_copy_D2H_sync(h_dest, d_src, bytes)`; the stream defaults to 0. -/
def cu_copy_D2H_sync (dev : Device) (h_dest d_src : Nat) (bytes : Int) : CopyResult :=
  cu_copy_D2H dev h_dest d_src bytes GpuApiCallBehavior.Sync 0

/-- The function `cu_copy_D2H_async(h_dest, d_src, bytes, s)`. -/
def cu_copy_D2H_async (dev : Device) (h_dest d_src : Nat) (bytes : Int) (s : Nat) :
    CopyResult :=
  cu_copy_D2H dev h_dest d_src bytes GpuApiCallBehavior.Async s

/-- The function `cu_copy_H2D(d_dest, h_src, bytes, transferKind, s)`. -/
def cu_copy_H2D (dev : Device) (d_dest h_src : Nat) (bytes : Int)
    (transferKind : GpuApiCallBehavior) (s : Nat) : CopyResult :=
  if d_dest = 0 ∨ h_src = 0 ∨ bytes = 0 then
    { outcome := Outcome.returned (-1), calls := [] }
  else
    match transferKind with
    | GpuApiCallBehavior.Async =>
      if GMX_ASSERT dev (dev.isHostMemoryPinned h_src) then
        let stat :=
          dev.hipMemcpyAsync d_dest h_src bytes hipMemcpyKind.hipMemcpyHostToDevice s
        let calls :=
          [DeviceCall.hipMemcpyAsync d_dest h_src bytes hipMemcpyKind.hipMemcpyHostToDevice s]
        if CU_RET_ERR dev stat then { outcome := Outcome.returned 0, calls := calls }
        else { outcome := Outcome.fatal_error, calls := calls }
      else { outcome := Outcome.assertion_failed, calls := [] }
    | GpuApiCallBehavior.Sync =>
      let stat := dev.hipMemcpy d_dest h_src bytes hipMemcpyKind.hipMemcpyHostToDevice
      let calls := [DeviceCall.hipMemcpy d_dest h_src bytes hipMemcpyKind.hipMemcpyHostToDevice]
      if CU_RET_ERR dev stat then { outcome := Outcome.returned 0, calls := calls }
      else { outcome := Outcome.fatal_error, calls := calls }
    | GpuApiCallBehavior.Other => { outcome := Outcome.terminated, calls := [] }

/-- The function `cu_copy_H2D_sync(d_dest, h_src, bytes)`; the stream defaults to 0. -/
def cu_copy_H2D_sync (dev : Device) (d_dest h_src : Nat) (bytes : Int) : CopyResult :=
  cu_copy_H2D dev d_dest h_src bytes GpuApiCallBehavior.Sync 0

/-- The function `cu_copy_H2D_async(d_dest, h_src, bytes, s)`. -/
def cu_copy_H2D_async (dev : Device) (d_dest h_src : Nat) (bytes : Int) (s : Nat) :
    CopyResult :=
  cu_copy_H2D dev d_dest h_src bytes GpuApiCallBehavior.Async s

/-- What a call of `cu_free_buffered` leaves behind: how it ended, the integers behind the
pointers `n` and `nalloc` (`none` for a `NULL` pointer) and the runtime calls it made. -/
structure FreeResult where
  outcome : Outcome Unit
  n : Option Int
  nalloc : Option Int
  calls : List DeviceCall
deriving DecidableEq

/-- The function `cu_free_buffered(d_ptr, n, nalloc)`; `n` and `nalloc` are the integers
the two pointers point to, `none` for a `NULL` pointer. -/
def cu_free_buffered (dev : Device) (d_ptr : Nat) (n nalloc : Option Int) : FreeResult :=
  let calls := if d_ptr ≠ 0 then [DeviceCall.hipFree d_ptr] else []
  if d_ptr ≠ 0 ∧ CU_RET_ERR dev (dev.hipFree d_ptr) = false then
    { outcome := Outcome.fatal_error, n := n, nalloc := nalloc, calls := calls }
  else
    { outcome := Outcome.returned (), n := n.map (fun _ => -1),
      nalloc := nalloc.map (fun _ => -1), calls := calls }

/-- What a call of `cu_realloc_buffered` leaves behind: how it ended, the device pointer
`*d_dest` (`none` when `d_dest` is `NULL`), the integers `*curr_size` and
`*curr_alloc_size`, and the runtime calls it made. -/
structure ReallocResult where
  outcome : Outcome Unit
  d_dest : Option Nat
  curr_size : Int
  curr_alloc_size : Int
  calls : List DeviceCall
deriving DecidableEq

/-- The last part of `cu_realloc_buffered`, from `*curr_size = req_size;` on: the size is
set and, if `h_src` is not `NULL`, the data are uploaded; the value returned by the copy
wrapper is ignored. `calls` are the runtime calls made so far. -/
def cu_realloc_buffered_upload (dev : Device) (d_ptr : Nat) (h_src : Nat) (type_size : Int)
    (curr_alloc_size : Int) (req_size : Int) (s : Nat) (bAsync : Bool)
    (calls : List DeviceCall) : ReallocResult :=
  let curr_size := req_size
  if h_src ≠ 0 then
    let c :=
      if bAsync then cu_copy_H2D_async dev d_ptr h_src (curr_size * type_size) s
      else cu_copy_H2D_sync dev d_ptr h_src (curr_size * type_size)
    { outcome := c.outcome.discard, d_dest := some d_ptr, curr_size := curr_size,
      curr_alloc_size := curr_alloc_size, calls := calls ++ c.calls }
  else
    { outcome := Outcome.returned (), d_dest := some d_ptr, curr_size := curr_size,
      curr_alloc_size := curr_alloc_size, calls := calls }

/-- The function `cu_realloc_buffered(d_dest, h_src, type_size, curr_size,
curr_alloc_size, req_size, s, bAsync)`. The argument `d_dest` is `none` for a `NULL`
pointer and `some p` when it points to the device pointer `p`; `curr_size` and
`curr_alloc_size` are the integers behind the two pointers before the call. -/
def cu_realloc_buffered (dev : Device) (d_dest : Option Nat) (h_src : Nat) (type_size : Int)
    (curr_size curr_alloc_size : Int) (req_size : Int) (s : Nat) (bAsync : Bool) :
    ReallocResult :=
  match d_dest with
  | none =>
    { outcome := Outcome.returned (), d_dest := none, curr_size := curr_size,
      curr_alloc_size := curr_alloc_size, calls := [] }
  | some p =>
    if req_size < 0 then
      { outcome := Outcome.returned (), d_dest := some p, curr_size := curr_size,
        curr_alloc_size := curr_alloc_size, calls := [] }
    else if req_size > curr_alloc_size then
      let fr : FreeResult :=
        if curr_alloc_size ≥ 0 then
          cu_free_buffered dev p (some curr_size) (some curr_alloc_size)
        else
          { outcome := Outcome.returned (), n := some curr_size,
            nalloc := some curr_alloc_size, calls := [] }
      match fr.outcome with
      | Outcome.returned _ =>
        let new_alloc_size := dev.over_alloc_large req_size
        let m := dev.hipMalloc p (new_alloc_size * type_size)
        let calls := fr.calls ++ [DeviceCall.hipMalloc (new_alloc_size * type_size)]
        if CU_RET_ERR dev m.1 then
          cu_realloc_buffered_upload dev m.2 h_src type_size new_alloc_size req_size s bAsync
            calls
        else
          { outcome := Outcome.fatal_error, d_dest := some m.2,
            curr_size := fr.n.getD curr_size, curr_alloc_size := new_alloc_size,
            calls := calls }
      | o =>
        { outcome := o, d_dest := some p, curr_size := fr.n.getD curr_size,
          curr_alloc_size := fr.nalloc.getD curr_alloc_size, calls := fr.calls }
    else
      cu_realloc_buffered_upload dev p h_src type_size curr_alloc_size req_size s bAsync []

/-- A debug build with working runtime calls in which no host buffer is pinned. -/
def ex_dev_unpinned : Device :=
  { assertsEnabled := true, checkErrors := true, isHostMemoryPinned := fun _ => false,
    hipMemcpy := fun _ _ _ _ => true, hipMemcpyAsync := fun _ _ _ _ _ => true,
    hipFree := fun _ => true, hipMalloc := fun _ _ => (true, 7),
    over_alloc_large := fun n => n + 1000 }

/-- A build with error checking in which every host buffer is pinned and every runtime
call succeeds. -/
def ex_dev_ok : Device :=
  { assertsEnabled := true, checkErrors := true, isHostMemoryPinned := fun _ => true,
    hipMemcpy := fun _ _ _ _ => true, hipMemcpyAsync := fun _ _ _ _ _ => true,
    hipFree := fun _ => true, hipMalloc := fun _ _ => (true, 7),
    over_alloc_large := fun n => n + 1000 }

/-- A build with error checking on a device that is out of memory: `hipMalloc` fails and
leaves the pointer as it was. -/
def ex_dev_no_memory : Device :=
  { assertsEnabled := true, checkErrors := true, isHostMemoryPinned := fun _ => true,
    hipMemcpy := fun _ _ _ _ => true, hipMemcpyAsync := fun _ _ _ _ _ => true,
    hipFree := fun _ => true, hipMalloc := fun p _ => (false, p),
    over_alloc_large := fun n => n + 1000 }

/-- Reading of the RF-LJ-W3P1 VF kernel in which every outer entry is evaluated with
the parameters of the first entry's particles: the charges `charge[iinr[0]+s]`,
`s = 0, 1, 2` and the vdW type `vdwtype[iinr[0]]`. -/
def rf_VF_first_parameters (invsqrt : ℚ → ℚ) (nlist : t_nblist) (xx : Int → ℚ)
    (fr : t_forcerec) (mdatoms : t_mdatoms) (st : KState) : OuterSt :=
  forLoop nlist.nri
    (fun iidx o =>
      rf_VF_outer invsqrt nlist xx fr.shift_vec mdatoms.chargeA mdatoms.typeA fr.nbfp
        (_mm_set1_pd fr.ic.k_rf) (_mm_set1_pd (fr.ic.k_rf * 2)) (_mm_set1_pd fr.ic.c_rf)
        (_mm_set1_pd (fr.ic.epsfac * mdatoms.chargeA (nlist.iinr 0 + 0)))
        (_mm_set1_pd (fr.ic.epsfac * mdatoms.chargeA (nlist.iinr 0 + 1)))
        (_mm_set1_pd (fr.ic.epsfac * mdatoms.chargeA (nlist.iinr 0 + 2)))
        (2 * fr.ntype * mdatoms.typeA (nlist.iinr 0 + 0)) iidx o)
    0
    { f := st.f, fshift := st.fshift, energygrp_elec := st.energygrp_elec,
      energygrp_vdw := st.energygrp_vdw, inneriter := 0 }

/-- Reading of the RF-LJ-W3P1 F kernel with the first entry's parameters for every
entry. -/
def rf_F_first_parameters (invsqrt : ℚ → ℚ) (nlist : t_nblist) (xx : Int → ℚ)
    (fr : t_forcerec) (mdatoms : t_mdatoms) (st : KState) : OuterSt :=
  forLoop nlist.nri
    (fun iidx o =>
      rf_F_outer invsqrt nlist xx fr.shift_vec mdatoms.chargeA mdatoms.typeA fr.nbfp
        (_mm_set1_pd (fr.ic.k_rf * 2))
        (_mm_set1_pd (fr.ic.epsfac * mdatoms.chargeA (nlist.iinr 0 + 0)))
        (_mm_set1_pd (fr.ic.epsfac * mdatoms.chargeA (nlist.iinr 0 + 1)))
        (_mm_set1_pd (fr.ic.epsfac * mdatoms.chargeA (nlist.iinr 0 + 2)))
        (2 * fr.ntype * mdatoms.typeA (nlist.iinr 0 + 0)) iidx o)
    0
    { f := st.f, fshift := st.fshift, energygrp_elec := st.energygrp_elec,
      energygrp_vdw := st.energygrp_vdw, inneriter := 0 }

/-- Positions of a system of two waters and one partner: the water of the particles 0, 1, 2
on the x axis at 1, 2, 3, the water of the particles 4, 5, 6 on the y axis at 1, 2, 3, the
partner 3 at the origin. -/
def ex_rf_x_same : Int → ℚ :=
  fun k => if k = 0 then 1 else if k = 3 then 2 else if k = 6 then 3 else if k = 13 then 1
    else if k = 16 then 2 else if k = 19 then 3 else 0

/-- Atom data of the system of two identical waters: a single type, unit charge on the
first site of each water (particles 0 and 4) and on the partner 3, none elsewhere. -/
def ex_rf_mdatoms_same : t_mdatoms :=
  { typeA := fun _ => 0
    chargeA := fun k => if k = 0 then 1 else if k = 3 then 1 else if k = 4 then 1 else 0 }

/-- Neighbour list with two entries, the water 0 and the water 4, each with the
partner 3. -/
def ex_rf_nlist_same : t_nblist :=
  { nri := 2, iinr := fun k => if k = 0 then 0 else 4, jindex := fun k => k,
    jjnr := fun _ => 3, shift := fun _ => 0, gid := fun _ => 0 }

theorem forLoop_step {σ : Type} (n : Int) (body : Int → σ → σ) (i : Int) (s : σ)
    (h : i < n) : forLoop n body i s = forLoop n body (i + 1) (body i s) := by
  rw [forLoop, dif_pos h]

theorem forLoop_done {σ : Type} (n : Int) (body : Int → σ → σ) (i : Int) (s : σ)
    (h : n ≤ i) : forLoop n body i s = s := by
  rw [forLoop, dif_neg (by omega)]

theorem jLoop2_step {σ : Type} (e : Int) (body : Int → σ → σ) (j : Int) (s : σ)
    (h : j < e - 1) : jLoop2 e body j s = jLoop2 e body (j + 2) (body j s) := by
  rw [jLoop2, dif_pos h]

theorem jLoop2_done {σ : Type} (e : Int) (body : Int → σ → σ) (j : Int) (s : σ)
    (h : e - 1 ≤ j) : jLoop2 e body j s = (j, s) := by
  rw [jLoop2, dif_neg (by omega)]

theorem innerLoop_step {σ : Type} (b2 b1 : Int → σ → σ) (j e : Int) (s : σ)
    (h : j < e - 1) : innerLoop b2 b1 j e s = innerLoop b2 b1 (j + 2) e (b2 j s) := by
  unfold innerLoop
  rw [jLoop2_step e b2 j s h]

theorem innerLoop_last {σ : Type} (b2 b1 : Int → σ → σ) (j e : Int) (s : σ)
    (h : e = j + 1) : innerLoop b2 b1 j e s = b1 j s := by
  unfold innerLoop
  rw [jLoop2_done e b2 j s (by omega)]
  simp only []
  rw [if_pos (by omega)]

theorem innerLoop_done {σ : Type} (b2 b1 : Int → σ → σ) (j e : Int) (s : σ)
    (h : e ≤ j) : innerLoop b2 b1 j e s = s := by
  unfold innerLoop
  rw [jLoop2_done e b2 j s (by omega)]
  simp only []
  rw [if_neg (by omega)]

/-- Closed form of the unrolled loop over `2n` or `2n+1` slots. -/
theorem jLoop2_unroll {σ : Type} (body : Int → σ → σ) (n : Nat) (r : Int)
    (hr : r = 0 ∨ r = 1) (j : Int) (s : σ) :
    jLoop2 (j + 2 * (n : Int) + r) body j s =
      (j + 2 * (n : Int),
        (List.range n).foldl (fun acc (k : Nat) => body (j + 2 * (k : Int)) acc) s) := by
  induction n generalizing j s with
  | zero =>
    rw [jLoop2_done _ _ _ _ (by omega)]
    simp
  | succ n ih =>
    rw [jLoop2_step _ _ _ _ (by omega)]
    have e : j + 2 * ((n + 1 : Nat) : Int) + r = (j + 2) + 2 * (n : Int) + r := by
      push_cast; ring
    rw [e, ih, List.range_succ_eq_map, List.foldl_cons, List.foldl_map]
    have e2 : (fun acc (k : Nat) => body (j + 2 + 2 * (k : Int)) acc)
        = (fun acc (k : Nat) => body (j + 2 * ((Nat.succ k : Nat) : Int)) acc) := by
      funext acc k
      congr 1
      push_cast; ring
    rw [e2]
    simp
    ring

/-- Slots touched by `n` full blocks starting at `j`: `j, j+1, …, j+2n-1`. -/
theorem block_slots_foldl (j : Int) (n : Nat) :
    (List.range n).foldl
        (fun (t : List Int) (k : Nat) => t ++ [j + 2 * (k : Int), j + 2 * (k : Int) + 1]) []
      = (List.range (2 * n)).map (fun (k : Nat) => j + (k : Int)) := by
  induction n with
  | zero => simp
  | succ n ih =>
    rw [List.range_succ, List.foldl_append, ih]
    have e : 2 * (n + 1) = (2 * n + 1) + 1 := by ring
    rw [e, List.range_succ, List.range_succ]
    simp
    ring

theorem lj_fscal_VF_eq (c6 c12 rsq : ℚ) :
    (c12 * (1 / rsq * (1 / rsq) * (1 / rsq) * (1 / rsq * (1 / rsq) * (1 / rsq)))
      - c6 * (1 / rsq * (1 / rsq) * (1 / rsq))) * (1 / rsq)
      = spec_lj_force_scalar c6 c12 rsq := by
  unfold spec_lj_force_scalar spec_rinvsix
  simp only [one_div, inv_pow, div_eq_mul_inv]
  ring

theorem lj_fscal_F_eq (c6 c12 rsq : ℚ) :
    (c12 * (1 / rsq * (1 / rsq) * (1 / rsq)) - c6)
      * (1 / rsq * (1 / rsq) * (1 / rsq) * (1 / rsq))
      = spec_lj_force_scalar c6 c12 rsq := by
  unfold spec_lj_force_scalar spec_rinvsix
  simp only [one_div, inv_pow, div_eq_mul_inv]
  ring

theorem ljsh_vvdw_eq (c6 c12 sh rsq : ℚ) :
    (-(c12 * (sh * sh)) + c12 * (1 / rsq * (1 / rsq) * (1 / rsq)
        * (1 / rsq * (1 / rsq) * (1 / rsq)))) * (1 / 12)
      - (-(c6 * sh) + c6 * (1 / rsq * (1 / rsq) * (1 / rsq))) * (1 / 6)
      = spec_ljsh_potential c6 c12 sh (sh ^ 2) rsq := by
  unfold spec_ljsh_potential spec_rinvsix
  simp only [one_div, inv_pow, div_eq_mul_inv]
  ring

/-- Masked force scalar of the VF kernel, per lane. -/
theorem ljsh_VF_fscal_core (c6 c12 rsq rc2 sh : M128d) :
    _mm_and_pd (ljsh_VF_lennard_jones c6 c12 (avx128fma_inv_d rsq) sh).fvdw
      (_mm_cmplt_pd rsq rc2)
    = ⟨ljsh_lane_fscal c6.lo c12.lo rsq.lo rc2.lo, ljsh_lane_fscal c6.hi c12.hi rsq.hi rc2.hi⟩ := by
  simp only [ljsh_VF_lennard_jones, _mm_and_pd, _mm_mul_pd, _mm_sub_pd, _mm_cmplt_pd,
    avx128fma_inv_d, ljsh_lane_fscal, lj_fscal_VF_eq, decide_eq_true_eq]

/-- Masked potential of the VF kernel, per lane. -/
theorem ljsh_VF_vvdw_core (c6 c12 rsq rc2 sh : M128d) :
    _mm_and_pd (ljsh_VF_lennard_jones c6 c12 (avx128fma_inv_d rsq) sh).vvdw
      (_mm_cmplt_pd rsq rc2)
    = ⟨ljsh_lane_vvdw c6.lo c12.lo sh.lo rsq.lo rc2.lo,
        ljsh_lane_vvdw c6.hi c12.hi sh.hi rsq.hi rc2.hi⟩ := by
  simp only [ljsh_VF_lennard_jones, _mm_and_pd, _mm_mul_pd, _mm_msub_pd, _mm_nmacc_pd,
    _mm_set1_pd, _mm_cmplt_pd, avx128fma_inv_d, ljsh_lane_vvdw, ljsh_vvdw_eq,
    decide_eq_true_eq]

/-- Masked force scalar of the F kernel, per lane. -/
theorem ljsh_F_fscal_core (c6 c12 rsq rc2 : M128d) :
    _mm_and_pd (ljsh_F_lennard_jones c6 c12 (avx128fma_inv_d rsq)) (_mm_cmplt_pd rsq rc2)
    = ⟨ljsh_lane_fscal c6.lo c12.lo rsq.lo rc2.lo, ljsh_lane_fscal c6.hi c12.hi rsq.hi rc2.hi⟩ := by
  simp only [ljsh_F_lennard_jones, _mm_and_pd, _mm_mul_pd, _mm_msub_pd, _mm_cmplt_pd,
    avx128fma_inv_d, ljsh_lane_fscal, lj_fscal_F_eq, decide_eq_true_eq]

theorem gmx_mm_any_lt_iff (a b : M128d) :
    gmx_mm_any_lt a b = true ↔ (a.lo < b.lo ∨ a.hi < b.hi) := by
  unfold gmx_mm_any_lt _mm_movemask_pd _mm_cmplt_pd
  by_cases h1 : a.lo < b.lo <;> by_cases h2 : a.hi < b.hi <;> simp [h1, h2]

theorem bump_zero (p k : Int) : bump p 0 0 0 k = 0 := by
  unfold bump; split_ifs <;> rfl

theorem store3_eq_bump (f : Int → ℚ) (p : Int) (vx vy vz : ℚ) :
    store (store (store f p (f p - vx)) (p + 1) (f (p + 1) - vy)) (p + 2) (f (p + 2) - vz)
      = fun k => f k - bump p vx vy vz k := by
  funext k
  unfold store bump
  by_cases h2 : k = p + 2
  · subst h2; simp
  · by_cases h1 : k = p + 1
    · subst h1; simp
    · by_cases h0 : k = p
      · subst h0; simp
      · simp [h0, h1, h2]

theorem LJShInner_ext (a b : LJShInner) (hf : a.f = b.f) (h1 : a.fix0 = b.fix0)
    (h2 : a.fiy0 = b.fiy0) (h3 : a.fiz0 = b.fiz0) (h4 : a.vvdwsum = b.vvdwsum) : a = b := by
  cases a; cases b; simp_all

theorem ljsh_lane0_zero (s : LJShInner) (p : Int) (dx dy dz : ℚ) :
    ljsh_lane0 s p dx dy dz 0 0 = s := by
  apply LJShInner_ext <;> simp [ljsh_lane0, bump_zero]

theorem ljsh_lane1_zero (s : LJShInner) (p : Int) (dx dy dz : ℚ) :
    ljsh_lane1 s p dx dy dz 0 0 = s := by
  apply LJShInner_ext <;> simp [ljsh_lane1, bump_zero]

theorem ljsh_lane_fscal_of_not_lt (c6 c12 rsq rc2 : ℚ) (h : ¬ rsq < rc2) :
    ljsh_lane_fscal c6 c12 rsq rc2 = 0 := by
  unfold ljsh_lane_fscal; rw [if_neg h]

theorem ljsh_lane_vvdw_of_not_lt (c6 c12 sh rsq rc2 : ℚ) (h : ¬ rsq < rc2) :
    ljsh_lane_vvdw c6 c12 sh rsq rc2 = 0 := by
  unfold ljsh_lane_vvdw; rw [if_neg h]

theorem ljsh_VF_block1_closed (nlist : t_nblist) (x : Int → ℚ) (vdwtype : Int → Int)
    (vdwparam : Int → ℚ) (rc2 sh ix iy iz : ℚ) (off jidx : Int) (s : LJShInner) :
    ljsh_VF_block1 nlist x vdwtype vdwparam (_mm_set1_pd rc2) (_mm_set1_pd sh)
        (_mm_set1_pd ix) (_mm_set1_pd iy) (_mm_set1_pd iz) off jidx s =
      ljsh_lane0 s (DIM * nlist.jjnr jidx)
        (ix - x (DIM * nlist.jjnr jidx)) (iy - x (DIM * nlist.jjnr jidx + 1))
        (iz - x (DIM * nlist.jjnr jidx + 2))
        (ljsh_lane_fscal (vdwparam (off + 2 * vdwtype (nlist.jjnr jidx)))
          (vdwparam (off + 2 * vdwtype (nlist.jjnr jidx) + 1))
          (lane_rsq ix iy iz x (DIM * nlist.jjnr jidx)) rc2)
        (ljsh_lane_vvdw (vdwparam (off + 2 * vdwtype (nlist.jjnr jidx)))
          (vdwparam (off + 2 * vdwtype (nlist.jjnr jidx) + 1)) sh
          (lane_rsq ix iy iz x (DIM * nlist.jjnr jidx)) rc2) := by
  unfold ljsh_VF_block1
  simp only [ljsh_VF_fscal_core, ljsh_VF_vvdw_core]
  split_ifs with h
  · apply LJShInner_ext <;>
      simp [ljsh_lane0, lane_rsq, _mm_set1_pd, _mm_setzero_pd, _mm_load_sd, _mm_add_pd,
        _mm_sub_pd, _mm_mul_pd, _mm_macc_pd, _mm_unpacklo_pd, gmx_mm_calc_rsq_pd,
        gmx_mm_load_1rvec_1ptr_swizzle_pd, gmx_mm_load_1pair_swizzle_pd,
        gmx_mm_decrement_1rvec_1ptr_swizzle_pd, store3_eq_bump] <;> ring
  · rw [gmx_mm_any_lt_iff] at h
    have h0 : ¬ lane_rsq ix iy iz x (DIM * nlist.jjnr jidx) < rc2 := by
      intro hc
      apply h
      left
      simpa [lane_rsq, _mm_set1_pd, _mm_load_sd, _mm_add_pd, _mm_sub_pd, _mm_mul_pd,
        gmx_mm_calc_rsq_pd, gmx_mm_load_1rvec_1ptr_swizzle_pd] using hc
    rw [ljsh_lane_fscal_of_not_lt _ _ _ _ h0, ljsh_lane_vvdw_of_not_lt _ _ _ _ _ h0,
      ljsh_lane0_zero]

theorem decrement_2ptr_eq_bump (f : Int → ℚ) (A B : Int) (x1 y1 z1 : M128d)
    (h : A + 2 < B ∨ B + 2 < A) :
    gmx_mm_decrement_1rvec_2ptr_swizzle_pd f A B x1 y1 z1
      = fun k => f k - bump A x1.lo y1.lo z1.lo k - bump B x1.hi y1.hi z1.hi k := by
  funext k
  simp only [gmx_mm_decrement_1rvec_2ptr_swizzle_pd, store, bump]
  split_ifs <;> first | omega | (subst_vars; ring)

theorem ljsh_VF_block2_closed (nlist : t_nblist) (x : Int → ℚ) (vdwtype : Int → Int)
    (vdwparam : Int → ℚ) (rc2 sh ix iy iz : ℚ) (off jidx : Int) (s : LJShInner)
    (hne : nlist.jjnr jidx ≠ nlist.jjnr (jidx + 1)) :
    ljsh_VF_block2 nlist x vdwtype vdwparam (_mm_set1_pd rc2) (_mm_set1_pd sh)
        (_mm_set1_pd ix) (_mm_set1_pd iy) (_mm_set1_pd iz) off jidx s =
      ljsh_lane1
        (ljsh_lane0 s (DIM * nlist.jjnr jidx)
          (ix - x (DIM * nlist.jjnr jidx)) (iy - x (DIM * nlist.jjnr jidx + 1))
          (iz - x (DIM * nlist.jjnr jidx + 2))
          (ljsh_lane_fscal (vdwparam (off + 2 * vdwtype (nlist.jjnr jidx)))
            (vdwparam (off + 2 * vdwtype (nlist.jjnr jidx) + 1))
            (lane_rsq ix iy iz x (DIM * nlist.jjnr jidx)) rc2)
          (ljsh_lane_vvdw (vdwparam (off + 2 * vdwtype (nlist.jjnr jidx)))
            (vdwparam (off + 2 * vdwtype (nlist.jjnr jidx) + 1)) sh
            (lane_rsq ix iy iz x (DIM * nlist.jjnr jidx)) rc2))
        (DIM * nlist.jjnr (jidx + 1))
        (ix - x (DIM * nlist.jjnr (jidx + 1))) (iy - x (DIM * nlist.jjnr (jidx + 1) + 1))
        (iz - x (DIM * nlist.jjnr (jidx + 1) + 2))
        (ljsh_lane_fscal (vdwparam (off + 2 * vdwtype (nlist.jjnr (jidx + 1))))
          (vdwparam (off + 2 * vdwtype (nlist.jjnr (jidx + 1)) + 1))
          (lane_rsq ix iy iz x (DIM * nlist.jjnr (jidx + 1))) rc2)
        (ljsh_lane_vvdw (vdwparam (off + 2 * vdwtype (nlist.jjnr (jidx + 1))))
          (vdwparam (off + 2 * vdwtype (nlist.jjnr (jidx + 1)) + 1)) sh
          (lane_rsq ix iy iz x (DIM * nlist.jjnr (jidx + 1))) rc2) := by
  have hd : DIM * nlist.jjnr jidx + 2 < DIM * nlist.jjnr (jidx + 1)
      ∨ DIM * nlist.jjnr (jidx + 1) + 2 < DIM * nlist.jjnr jidx := by
    unfold DIM; omega
  unfold ljsh_VF_block2
  simp only [ljsh_VF_fscal_core, ljsh_VF_vvdw_core]
  split_ifs with h
  · have e : ∀ a b c d : ℚ, (⟨a, b⟩ : M128d) = ⟨c, d⟩ ↔ a = c ∧ b = d := by
      intro a b c d; constructor
      · intro h; cases h; exact ⟨rfl, rfl⟩
      · rintro ⟨rfl, rfl⟩; rfl
    refine LJShInner_ext _ _ ?_ ?_ ?_ ?_ ?_
    all_goals
      simp only [ljsh_lane0, ljsh_lane1, lane_rsq, _mm_set1_pd, _mm_mul_pd, _mm_sub_pd,
        _mm_add_pd, _mm_macc_pd, gmx_mm_calc_rsq_pd, gmx_mm_load_1rvec_2ptr_swizzle_pd,
        gmx_mm_load_2pair_swizzle_pd, decrement_2ptr_eq_bump _ _ _ _ _ _ hd, e, add_zero] <;>
      first | rfl | (constructor <;> ring)
  · rw [gmx_mm_any_lt_iff] at h
    have h0 : ¬ lane_rsq ix iy iz x (DIM * nlist.jjnr jidx) < rc2 := by
      intro hc
      apply h
      left
      simpa [lane_rsq, _mm_set1_pd, _mm_load_sd, _mm_add_pd, _mm_sub_pd, _mm_mul_pd,
        gmx_mm_calc_rsq_pd, gmx_mm_load_1rvec_2ptr_swizzle_pd] using hc
    have h1 : ¬ lane_rsq ix iy iz x (DIM * nlist.jjnr (jidx + 1)) < rc2 := by
      intro hc
      apply h
      right
      simpa [lane_rsq, _mm_set1_pd, _mm_load_sd, _mm_add_pd, _mm_sub_pd, _mm_mul_pd,
        gmx_mm_calc_rsq_pd, gmx_mm_load_1rvec_2ptr_swizzle_pd] using hc
    rw [ljsh_lane_fscal_of_not_lt _ _ _ _ h0, ljsh_lane_vvdw_of_not_lt _ _ _ _ _ h0,
      ljsh_lane_fscal_of_not_lt _ _ _ _ h1, ljsh_lane_vvdw_of_not_lt _ _ _ _ _ h1,
      ljsh_lane0_zero, ljsh_lane1_zero]

theorem decr3_eq_bump (f : Int → ℚ) (p : Int) (vx vy vz : ℚ) :
    decr3 f p vx vy vz = fun k => f k - bump p vx vy vz k := by
  funext k
  simp only [decr3, store, bump]
  split_ifs <;> first | omega | (subst_vars; ring)

theorem incr3_apply (f : Int → ℚ) (p : Int) (vx vy vz : ℚ) :
    incr3 f p vx vy vz = fun k => f k + bump p vx vy vz k := by
  funext k
  simp only [incr3, store, bump]
  split_ifs <;> first | omega | (subst_vars; ring)

theorem RefInner_ext (a b : RefInner) (hf : a.f = b.f) (h1 : a.fix = b.fix)
    (h2 : a.fiy = b.fiy) (h3 : a.fiz = b.fiz) (h4 : a.vvdwsum = b.vvdwsum) : a = b := by
  cases a; cases b; simp_all

theorem ref_ljsh_pair_closed (nlist : t_nblist) (x : Int → ℚ) (vdwtype : Int → Int)
    (vdwparam : Int → ℚ) (rc sh ix iy iz : ℚ) (off jidx : Int) (t : RefInner) :
    ref_ljsh_pair nlist x vdwtype vdwparam rc sh ix iy iz off jidx t =
      { f := fun k => t.f k - bump (DIM * nlist.jjnr jidx)
          ((ix - x (DIM * nlist.jjnr jidx)) *
            ljsh_lane_fscal (vdwparam (off + 2 * vdwtype (nlist.jjnr jidx)))
              (vdwparam (off + 2 * vdwtype (nlist.jjnr jidx) + 1))
              (lane_rsq ix iy iz x (DIM * nlist.jjnr jidx)) (rc * rc))
          ((iy - x (DIM * nlist.jjnr jidx + 1)) *
            ljsh_lane_fscal (vdwparam (off + 2 * vdwtype (nlist.jjnr jidx)))
              (vdwparam (off + 2 * vdwtype (nlist.jjnr jidx) + 1))
              (lane_rsq ix iy iz x (DIM * nlist.jjnr jidx)) (rc * rc))
          ((iz - x (DIM * nlist.jjnr jidx + 2)) *
            ljsh_lane_fscal (vdwparam (off + 2 * vdwtype (nlist.jjnr jidx)))
              (vdwparam (off + 2 * vdwtype (nlist.jjnr jidx) + 1))
              (lane_rsq ix iy iz x (DIM * nlist.jjnr jidx)) (rc * rc)) k
        fix := t.fix + (ix - x (DIM * nlist.jjnr jidx)) *
            ljsh_lane_fscal (vdwparam (off + 2 * vdwtype (nlist.jjnr jidx)))
              (vdwparam (off + 2 * vdwtype (nlist.jjnr jidx) + 1))
              (lane_rsq ix iy iz x (DIM * nlist.jjnr jidx)) (rc * rc)
        fiy := t.fiy + (iy - x (DIM * nlist.jjnr jidx + 1)) *
            ljsh_lane_fscal (vdwparam (off + 2 * vdwtype (nlist.jjnr jidx)))
              (vdwparam (off + 2 * vdwtype (nlist.jjnr jidx) + 1))
              (lane_rsq ix iy iz x (DIM * nlist.jjnr jidx)) (rc * rc)
        fiz := t.fiz + (iz - x (DIM * nlist.jjnr jidx + 2)) *
            ljsh_lane_fscal (vdwparam (off + 2 * vdwtype (nlist.jjnr jidx)))
              (vdwparam (off + 2 * vdwtype (nlist.jjnr jidx) + 1))
              (lane_rsq ix iy iz x (DIM * nlist.jjnr jidx)) (rc * rc)
        vvdwsum := t.vvdwsum +
            ljsh_lane_vvdw (vdwparam (off + 2 * vdwtype (nlist.jjnr jidx)))
              (vdwparam (off + 2 * vdwtype (nlist.jjnr jidx) + 1)) sh
              (lane_rsq ix iy iz x (DIM * nlist.jjnr jidx)) (rc * rc) } := by
  unfold ref_ljsh_pair
  simp only [decr3_eq_bump]
  by_cases h : lane_rsq ix iy iz x (DIM * nlist.jjnr jidx) < rc * rc
  · have h' := h
    unfold lane_rsq at h'
    rw [if_pos h']
    simp only [ljsh_lane_fscal, ljsh_lane_vvdw, if_pos h]
    refine RefInner_ext _ _ ?_ ?_ ?_ ?_ ?_ <;> simp only [lane_rsq, mul_comm]
  · have h' := h
    unfold lane_rsq at h'
    rw [if_neg h']
    simp only [ljsh_lane_fscal, ljsh_lane_vvdw, if_neg h]
    refine RefInner_ext _ _ ?_ ?_ ?_ ?_ ?_ <;> simp [bump_zero]

theorem LaneRel_lane0 (s : LJShInner) (t : RefInner) (h : LaneRel s t)
    (p : Int) (dx dy dz F V : ℚ) :
    LaneRel (ljsh_lane0 s p dx dy dz F V)
      { f := fun k => t.f k - bump p (dx * F) (dy * F) (dz * F) k
        fix := t.fix + dx * F, fiy := t.fiy + dy * F, fiz := t.fiz + dz * F
        vvdwsum := t.vvdwsum + V } := by
  obtain ⟨hf, h1, h2, h3, h4⟩ := h
  refine ⟨?_, ?_, ?_, ?_, ?_⟩
  · simp only [ljsh_lane0, hf]
  all_goals simp only [ljsh_lane0]; linarith

theorem LaneRel_lane1 (s : LJShInner) (t : RefInner) (h : LaneRel s t)
    (p : Int) (dx dy dz F V : ℚ) :
    LaneRel (ljsh_lane1 s p dx dy dz F V)
      { f := fun k => t.f k - bump p (dx * F) (dy * F) (dz * F) k
        fix := t.fix + dx * F, fiy := t.fiy + dy * F, fiz := t.fiz + dz * F
        vvdwsum := t.vvdwsum + V } := by
  obtain ⟨hf, h1, h2, h3, h4⟩ := h
  refine ⟨?_, ?_, ?_, ?_, ?_⟩
  · simp only [ljsh_lane1, hf]
  all_goals simp only [ljsh_lane1]; linarith

theorem LaneRel_block1 (nlist : t_nblist) (x : Int → ℚ) (vdwtype : Int → Int)
    (vdwparam : Int → ℚ) (rc sh ix iy iz : ℚ) (off jidx : Int) (s : LJShInner)
    (t : RefInner) (h : LaneRel s t) :
    LaneRel
      (ljsh_VF_block1 nlist x vdwtype vdwparam (_mm_set1_pd (rc * rc)) (_mm_set1_pd sh)
        (_mm_set1_pd ix) (_mm_set1_pd iy) (_mm_set1_pd iz) off jidx s)
      (ref_ljsh_pair nlist x vdwtype vdwparam rc sh ix iy iz off jidx t) := by
  rw [ljsh_VF_block1_closed, ref_ljsh_pair_closed]
  exact LaneRel_lane0 s t h _ _ _ _ _ _

theorem LaneRel_block2 (nlist : t_nblist) (x : Int → ℚ) (vdwtype : Int → Int)
    (vdwparam : Int → ℚ) (rc sh ix iy iz : ℚ) (off jidx : Int) (s : LJShInner)
    (t : RefInner) (h : LaneRel s t) (hne : nlist.jjnr jidx ≠ nlist.jjnr (jidx + 1)) :
    LaneRel
      (ljsh_VF_block2 nlist x vdwtype vdwparam (_mm_set1_pd (rc * rc)) (_mm_set1_pd sh)
        (_mm_set1_pd ix) (_mm_set1_pd iy) (_mm_set1_pd iz) off jidx s)
      (ref_ljsh_pair nlist x vdwtype vdwparam rc sh ix iy iz off (jidx + 1)
        (ref_ljsh_pair nlist x vdwtype vdwparam rc sh ix iy iz off jidx t)) := by
  rw [ljsh_VF_block2_closed _ _ _ _ _ _ _ _ _ _ _ _ hne, ref_ljsh_pair_closed,
    ref_ljsh_pair_closed]
  exact LaneRel_lane1 _ _ (LaneRel_lane0 s t h _ _ _ _ _ _) _ _ _ _ _ _

theorem LaneRel_innerLoop (nlist : t_nblist) (x : Int → ℚ) (vdwtype : Int → Int)
    (vdwparam : Int → ℚ) (rc sh ix iy iz : ℚ) (off e : Int) (n : Nat) :
    ∀ (j : Int) (s : LJShInner) (t : RefInner), (e - j).toNat ≤ n → LaneRel s t →
      (∀ a b : Int, j ≤ a → a < b → b < e → nlist.jjnr a ≠ nlist.jjnr b) →
      LaneRel
        (innerLoop
          (ljsh_VF_block2 nlist x vdwtype vdwparam (_mm_set1_pd (rc * rc)) (_mm_set1_pd sh)
            (_mm_set1_pd ix) (_mm_set1_pd iy) (_mm_set1_pd iz) off)
          (ljsh_VF_block1 nlist x vdwtype vdwparam (_mm_set1_pd (rc * rc)) (_mm_set1_pd sh)
            (_mm_set1_pd ix) (_mm_set1_pd iy) (_mm_set1_pd iz) off) j e s)
        (forLoop e (ref_ljsh_pair nlist x vdwtype vdwparam rc sh ix iy iz off) j t) := by
  induction n using Nat.strong_induction_on with
  | _ n ih =>
    intro j s t hn hR hd
    by_cases h2 : j < e - 1
    · rw [innerLoop_step _ _ _ _ _ h2, forLoop_step _ _ _ _ (by omega),
        forLoop_step _ _ _ _ (by omega)]
      have e1 : j + 1 + 1 = j + 2 := by ring
      rw [e1]
      refine ih (n - 2) (by omega) (j + 2) _ _ (by omega) ?_ ?_
      · exact LaneRel_block2 _ _ _ _ _ _ _ _ _ _ _ _ _ hR
          (hd j (j + 1) (by omega) (by omega) (by omega))
      · intro a b ha hab hb
        exact hd a b (by omega) hab hb
    · by_cases h1 : j < e
      · rw [innerLoop_last _ _ _ _ _ (by omega), forLoop_step _ _ _ _ h1,
          forLoop_done _ _ _ _ (by omega)]
        exact LaneRel_block1 _ _ _ _ _ _ _ _ _ _ _ _ _ hR
      · rw [innerLoop_done _ _ _ _ _ (by omega), forLoop_done _ _ _ _ (by omega)]
        exact hR

theorem forLoop_congr {σ : Type} (n : Int) (b1 b2 : Int → σ → σ) (m : Nat) :
    ∀ (i : Int) (s : σ), (n - i).toNat ≤ m → (∀ k : Int, i ≤ k → k < n → ∀ t, b1 k t = b2 k t) →
      forLoop n b1 i s = forLoop n b2 i s := by
  induction m with
  | zero =>
    intro i s hm _
    rw [forLoop_done _ _ _ _ (by omega), forLoop_done _ _ _ _ (by omega)]
  | succ m ih =>
    intro i s hm hb
    by_cases h : i < n
    · rw [forLoop_step _ _ _ _ h, forLoop_step _ _ _ _ h, hb i (le_refl i) h]
      exact ih (i + 1) _ (by omega) (fun k hk hkn t => hb k (by omega) hkn t)
    · rw [forLoop_done _ _ _ _ (by omega), forLoop_done _ _ _ _ (by omega)]

theorem ljsh_VF_outer_eq_ref (nlist : t_nblist) (x : Int → ℚ) (fr : t_forcerec)
    (mdatoms : t_mdatoms) (iidx : Int) (o : OuterSt)
    (hd : ∀ a b : Int, nlist.jindex iidx ≤ a → a < b → b < nlist.jindex (iidx + 1) →
      nlist.jjnr a ≠ nlist.jjnr b) :
    ljsh_VF_outer nlist x fr.shift_vec mdatoms.typeA fr.nbfp fr.ntype
        (_mm_mul_pd (_mm_set1_pd fr.ic.rvdw) (_mm_set1_pd fr.ic.rvdw))
        (_mm_set1_pd fr.ic.sh_invrc6) iidx o
      = ref_ljsh_outer nlist x fr mdatoms iidx o := by
  have hrc : _mm_mul_pd (_mm_set1_pd fr.ic.rvdw) (_mm_set1_pd fr.ic.rvdw)
      = _mm_set1_pd (fr.ic.rvdw * fr.ic.rvdw) := rfl
  have hR0 : LaneRel
      { f := o.f, fix0 := _mm_setzero_pd, fiy0 := _mm_setzero_pd, fiz0 := _mm_setzero_pd,
        vvdwsum := _mm_setzero_pd }
      { f := o.f, fix := 0, fiy := 0, fiz := 0, vvdwsum := 0 } := by
    refine ⟨rfl, ?_, ?_, ?_, ?_⟩ <;> simp [_mm_setzero_pd]
  have key := LaneRel_innerLoop nlist x mdatoms.typeA fr.nbfp fr.ic.rvdw fr.ic.sh_invrc6
    (x (DIM * nlist.iinr iidx) + fr.shift_vec (DIM * nlist.shift iidx))
    (x (DIM * nlist.iinr iidx + 1) + fr.shift_vec (DIM * nlist.shift iidx + 1))
    (x (DIM * nlist.iinr iidx + 2) + fr.shift_vec (DIM * nlist.shift iidx + 2))
    (2 * fr.ntype * mdatoms.typeA (nlist.iinr iidx)) (nlist.jindex (iidx + 1))
    (nlist.jindex (iidx + 1) - nlist.jindex iidx).toNat (nlist.jindex iidx) _ _
    (le_refl _) hR0 hd
  obtain ⟨hf, h1, h2, h3, h4⟩ := key
  unfold ljsh_VF_outer ref_ljsh_outer
  simp only [hrc, gmx_mm_load_shift_and_1rvec_broadcast_pd, add_zero,
    gmx_mm_update_iforce_1atom_swizzle_pd, gmx_mm_update_1pot_pd, _mm_hadd_pd]
  simp only [hf, h1, h2, h3, h4]
  simp only [add_comm]

theorem nb_kernel_ljsh_VF_eq_ref (nlist : t_nblist) (xx : Int → ℚ) (fr : t_forcerec)
    (mdatoms : t_mdatoms) (st : KState) (hd : PartnersDistinct nlist) :
    forLoop nlist.nri
        (ljsh_VF_outer nlist xx fr.shift_vec mdatoms.typeA fr.nbfp fr.ntype
          (_mm_mul_pd (_mm_set1_pd fr.ic.rvdw) (_mm_set1_pd fr.ic.rvdw))
          (_mm_set1_pd fr.ic.sh_invrc6)) 0
        { f := st.f, fshift := st.fshift, energygrp_elec := st.energygrp_elec,
          energygrp_vdw := st.energygrp_vdw, inneriter := 0 }
      = ref_ljsh_VF nlist xx fr mdatoms st := by
  unfold ref_ljsh_VF
  apply forLoop_congr _ _ _ (nlist.nri - 0).toNat _ _ (le_refl _)
  intro k hk hkn t
  exact ljsh_VF_outer_eq_ref nlist xx fr mdatoms k t (hd k hk hkn)

theorem M128d_eta (a b c d : ℚ) : (⟨a, b⟩ : M128d) = ⟨c, d⟩ ↔ a = c ∧ b = d := by
  constructor
  · intro h; cases h; exact ⟨rfl, rfl⟩
  · rintro ⟨rfl, rfl⟩; rfl

theorem ljsh_F_block1_closed (nlist : t_nblist) (x : Int → ℚ) (vdwtype : Int → Int)
    (vdwparam : Int → ℚ) (rc2 ix iy iz : ℚ) (off jidx : Int) (s : LJShInner) :
    ljsh_F_block1 nlist x vdwtype vdwparam (_mm_set1_pd rc2)
        (_mm_set1_pd ix) (_mm_set1_pd iy) (_mm_set1_pd iz) off jidx s =
      ljsh_lane0 s (DIM * nlist.jjnr jidx)
        (ix - x (DIM * nlist.jjnr jidx)) (iy - x (DIM * nlist.jjnr jidx + 1))
        (iz - x (DIM * nlist.jjnr jidx + 2))
        (ljsh_lane_fscal (vdwparam (off + 2 * vdwtype (nlist.jjnr jidx)))
          (vdwparam (off + 2 * vdwtype (nlist.jjnr jidx) + 1))
          (lane_rsq ix iy iz x (DIM * nlist.jjnr jidx)) rc2) 0 := by
  unfold ljsh_F_block1
  simp only [ljsh_F_fscal_core]
  split_ifs with h
  · refine LJShInner_ext _ _ ?_ ?_ ?_ ?_ ?_
    all_goals
      simp only [ljsh_lane0, lane_rsq, _mm_set1_pd, _mm_setzero_pd, _mm_load_sd, _mm_add_pd,
        _mm_sub_pd, _mm_mul_pd, _mm_macc_pd, _mm_unpacklo_pd, gmx_mm_calc_rsq_pd,
        gmx_mm_load_1rvec_1ptr_swizzle_pd, gmx_mm_load_1pair_swizzle_pd,
        gmx_mm_decrement_1rvec_1ptr_swizzle_pd, store3_eq_bump, add_zero, sub_zero,
        mul_zero, M128d_eta] <;>
      first | rfl | (constructor <;> ring)
  · rw [gmx_mm_any_lt_iff] at h
    have h0 : ¬ lane_rsq ix iy iz x (DIM * nlist.jjnr jidx) < rc2 := by
      intro hc
      apply h
      left
      simpa [lane_rsq, _mm_set1_pd, _mm_load_sd, _mm_add_pd, _mm_sub_pd, _mm_mul_pd,
        gmx_mm_calc_rsq_pd, gmx_mm_load_1rvec_1ptr_swizzle_pd] using hc
    rw [ljsh_lane_fscal_of_not_lt _ _ _ _ h0, ljsh_lane0_zero]

theorem ljsh_F_block2_closed (nlist : t_nblist) (x : Int → ℚ) (vdwtype : Int → Int)
    (vdwparam : Int → ℚ) (rc2 ix iy iz : ℚ) (off jidx : Int) (s : LJShInner)
    (hne : nlist.jjnr jidx ≠ nlist.jjnr (jidx + 1)) :
    ljsh_F_block2 nlist x vdwtype vdwparam (_mm_set1_pd rc2)
        (_mm_set1_pd ix) (_mm_set1_pd iy) (_mm_set1_pd iz) off jidx s =
      ljsh_lane1
        (ljsh_lane0 s (DIM * nlist.jjnr jidx)
          (ix - x (DIM * nlist.jjnr jidx)) (iy - x (DIM * nlist.jjnr jidx + 1))
          (iz - x (DIM * nlist.jjnr jidx + 2))
          (ljsh_lane_fscal (vdwparam (off + 2 * vdwtype (nlist.jjnr jidx)))
            (vdwparam (off + 2 * vdwtype (nlist.jjnr jidx) + 1))
            (lane_rsq ix iy iz x (DIM * nlist.jjnr jidx)) rc2) 0)
        (DIM * nlist.jjnr (jidx + 1))
        (ix - x (DIM * nlist.jjnr (jidx + 1))) (iy - x (DIM * nlist.jjnr (jidx + 1) + 1))
        (iz - x (DIM * nlist.jjnr (jidx + 1) + 2))
        (ljsh_lane_fscal (vdwparam (off + 2 * vdwtype (nlist.jjnr (jidx + 1))))
          (vdwparam (off + 2 * vdwtype (nlist.jjnr (jidx + 1)) + 1))
          (lane_rsq ix iy iz x (DIM * nlist.jjnr (jidx + 1))) rc2) 0 := by
  have hd : DIM * nlist.jjnr jidx + 2 < DIM * nlist.jjnr (jidx + 1)
      ∨ DIM * nlist.jjnr (jidx + 1) + 2 < DIM * nlist.jjnr jidx := by
    unfold DIM; omega
  unfold ljsh_F_block2
  simp only [ljsh_F_fscal_core]
  split_ifs with h
  · refine LJShInner_ext _ _ ?_ ?_ ?_ ?_ ?_
    all_goals
      simp only [ljsh_lane0, ljsh_lane1, lane_rsq, _mm_set1_pd, _mm_mul_pd, _mm_sub_pd,
        _mm_add_pd, _mm_macc_pd, gmx_mm_calc_rsq_pd, gmx_mm_load_1rvec_2ptr_swizzle_pd,
        gmx_mm_load_2pair_swizzle_pd, decrement_2ptr_eq_bump _ _ _ _ _ _ hd, M128d_eta,
        add_zero] <;>
      first | rfl | (constructor <;> ring)
  · rw [gmx_mm_any_lt_iff] at h
    have h0 : ¬ lane_rsq ix iy iz x (DIM * nlist.jjnr jidx) < rc2 := by
      intro hc
      apply h
      left
      simpa [lane_rsq, _mm_set1_pd, _mm_load_sd, _mm_add_pd, _mm_sub_pd, _mm_mul_pd,
        gmx_mm_calc_rsq_pd, gmx_mm_load_1rvec_2ptr_swizzle_pd] using hc
    have h1 : ¬ lane_rsq ix iy iz x (DIM * nlist.jjnr (jidx + 1)) < rc2 := by
      intro hc
      apply h
      right
      simpa [lane_rsq, _mm_set1_pd, _mm_load_sd, _mm_add_pd, _mm_sub_pd, _mm_mul_pd,
        gmx_mm_calc_rsq_pd, gmx_mm_load_1rvec_2ptr_swizzle_pd] using hc
    rw [ljsh_lane_fscal_of_not_lt _ _ _ _ h0, ljsh_lane_fscal_of_not_lt _ _ _ _ h1,
      ljsh_lane0_zero, ljsh_lane1_zero]

theorem forLoop_one {σ : Type} (body : Int → σ → σ) (s : σ) :
    forLoop 1 body 0 s = body 0 s := by
  rw [forLoop_step _ _ _ _ (by decide), forLoop_done _ _ _ _ (by decide)]

/-- One outer entry with a single partner, VF kernel: closed form. -/
theorem ljsh_VF_outer_single (nlist : t_nblist) (x : Int → ℚ) (shiftvec : Int → ℚ)
    (vdwtype : Int → Int) (vdwparam : Int → ℚ) (nvdwtype : Int) (rc2 sh : ℚ) (iidx : Int)
    (o : OuterSt) (hj : nlist.jindex (iidx + 1) = nlist.jindex iidx + 1)
    (i j : Int) (hi : nlist.iinr iidx = i) (hjj : nlist.jjnr (nlist.jindex iidx) = j)
    (dx dy dz F V : ℚ)
    (hdx : dx = x (DIM * i) + shiftvec (DIM * nlist.shift iidx) - x (DIM * j))
    (hdy : dy = x (DIM * i + 1) + shiftvec (DIM * nlist.shift iidx + 1) - x (DIM * j + 1))
    (hdz : dz = x (DIM * i + 2) + shiftvec (DIM * nlist.shift iidx + 2) - x (DIM * j + 2))
    (hF : F = ljsh_lane_fscal (vdwparam (2 * nvdwtype * vdwtype i + 2 * vdwtype j))
      (vdwparam (2 * nvdwtype * vdwtype i + 2 * vdwtype j + 1))
      (dx * dx + dy * dy + dz * dz) rc2)
    (hV : V = ljsh_lane_vvdw (vdwparam (2 * nvdwtype * vdwtype i + 2 * vdwtype j))
      (vdwparam (2 * nvdwtype * vdwtype i + 2 * vdwtype j + 1)) sh
      (dx * dx + dy * dy + dz * dz) rc2) :
    ljsh_VF_outer nlist x shiftvec vdwtype vdwparam nvdwtype (_mm_set1_pd rc2)
        (_mm_set1_pd sh) iidx o =
      { f := fun k => o.f k - bump (DIM * j) (dx * F) (dy * F) (dz * F) k
          + bump (DIM * i) (dx * F) (dy * F) (dz * F) k
        fshift := fun k => o.fshift k
          + bump (DIM * nlist.shift iidx) (dx * F) (dy * F) (dz * F) k
        energygrp_elec := o.energygrp_elec
        energygrp_vdw := store o.energygrp_vdw (nlist.gid iidx)
          (V + o.energygrp_vdw (nlist.gid iidx))
        inneriter := o.inneriter + 1 } := by
  unfold ljsh_VF_outer
  simp only [gmx_mm_load_shift_and_1rvec_broadcast_pd]
  rw [innerLoop_last _ _ _ _ _ hj, ljsh_VF_block1_closed]
  simp only [hi, hjj, add_zero, lane_rsq, ← hdx, ← hdy, ← hdz, ← hF, ← hV,
    gmx_mm_update_iforce_1atom_swizzle_pd, gmx_mm_update_1pot_pd, _mm_hadd_pd,
    ljsh_lane0, _mm_setzero_pd, zero_add, incr3_apply, hj, add_sub_cancel_left]

/-- One outer entry with a single partner, F kernel: closed form. -/
theorem ljsh_F_outer_single (nlist : t_nblist) (x : Int → ℚ) (shiftvec : Int → ℚ)
    (vdwtype : Int → Int) (vdwparam : Int → ℚ) (nvdwtype : Int) (rc2 : ℚ) (iidx : Int)
    (o : OuterSt) (hj : nlist.jindex (iidx + 1) = nlist.jindex iidx + 1)
    (i j : Int) (hi : nlist.iinr iidx = i) (hjj : nlist.jjnr (nlist.jindex iidx) = j)
    (dx dy dz F : ℚ)
    (hdx : dx = x (DIM * i) + shiftvec (DIM * nlist.shift iidx) - x (DIM * j))
    (hdy : dy = x (DIM * i + 1) + shiftvec (DIM * nlist.shift iidx + 1) - x (DIM * j + 1))
    (hdz : dz = x (DIM * i + 2) + shiftvec (DIM * nlist.shift iidx + 2) - x (DIM * j + 2))
    (hF : F = ljsh_lane_fscal (vdwparam (2 * nvdwtype * vdwtype i + 2 * vdwtype j))
      (vdwparam (2 * nvdwtype * vdwtype i + 2 * vdwtype j + 1))
      (dx * dx + dy * dy + dz * dz) rc2) :
    ljsh_F_outer nlist x shiftvec vdwtype vdwparam nvdwtype (_mm_set1_pd rc2) iidx o =
      { f := fun k => o.f k - bump (DIM * j) (dx * F) (dy * F) (dz * F) k
          + bump (DIM * i) (dx * F) (dy * F) (dz * F) k
        fshift := fun k => o.fshift k
          + bump (DIM * nlist.shift iidx) (dx * F) (dy * F) (dz * F) k
        energygrp_elec := o.energygrp_elec
        energygrp_vdw := o.energygrp_vdw
        inneriter := o.inneriter + 1 } := by
  unfold ljsh_F_outer
  simp only [gmx_mm_load_shift_and_1rvec_broadcast_pd]
  rw [innerLoop_last _ _ _ _ _ hj, ljsh_F_block1_closed]
  simp only [hi, hjj, add_zero, lane_rsq, ← hdx, ← hdy, ← hdz, ← hF,
    gmx_mm_update_iforce_1atom_swizzle_pd, _mm_hadd_pd,
    ljsh_lane0, _mm_setzero_pd, zero_add, incr3_apply, hj, add_sub_cancel_left]

theorem bump_at0 (p : Int) (a b c : ℚ) : bump p a b c p = a := by
  simp [bump]

theorem bump_at1 (p : Int) (a b c : ℚ) : bump p a b c (p + 1) = b := by
  simp [bump]

theorem bump_at2 (p : Int) (a b c : ℚ) : bump p a b c (p + 2) = c := by
  simp [bump]

theorem bump_off (p : Int) (a b c : ℚ) (k : Int) (h : k < p ∨ p + 2 < k) :
    bump p a b c k = 0 := by
  unfold bump
  rw [if_neg (by omega), if_neg (by omega), if_neg (by omega)]

theorem ljsh_VF_kernel_single (nlist : t_nblist) (xx : Int → ℚ) (fr : t_forcerec)
    (mdatoms : t_mdatoms) (st : KState) (hnri : nlist.nri = 1) :
    nb_kernel_ElecNone_VdwLJSh_GeomP1P1_VF_avx_128_fma_double nlist xx fr mdatoms st =
      { f := (ljsh_VF_outer nlist xx fr.shift_vec mdatoms.typeA fr.nbfp fr.ntype
            (_mm_set1_pd (fr.ic.rvdw * fr.ic.rvdw)) (_mm_set1_pd fr.ic.sh_invrc6) 0
            { f := st.f, fshift := st.fshift, energygrp_elec := st.energygrp_elec,
              energygrp_vdw := st.energygrp_vdw, inneriter := 0 }).f
        fshift := (ljsh_VF_outer nlist xx fr.shift_vec mdatoms.typeA fr.nbfp fr.ntype
            (_mm_set1_pd (fr.ic.rvdw * fr.ic.rvdw)) (_mm_set1_pd fr.ic.sh_invrc6) 0
            { f := st.f, fshift := st.fshift, energygrp_elec := st.energygrp_elec,
              energygrp_vdw := st.energygrp_vdw, inneriter := 0 }).fshift
        energygrp_elec := (ljsh_VF_outer nlist xx fr.shift_vec mdatoms.typeA fr.nbfp fr.ntype
            (_mm_set1_pd (fr.ic.rvdw * fr.ic.rvdw)) (_mm_set1_pd fr.ic.sh_invrc6) 0
            { f := st.f, fshift := st.fshift, energygrp_elec := st.energygrp_elec,
              energygrp_vdw := st.energygrp_vdw, inneriter := 0 }).energygrp_elec
        energygrp_vdw := (ljsh_VF_outer nlist xx fr.shift_vec mdatoms.typeA fr.nbfp fr.ntype
            (_mm_set1_pd (fr.ic.rvdw * fr.ic.rvdw)) (_mm_set1_pd fr.ic.sh_invrc6) 0
            { f := st.f, fshift := st.fshift, energygrp_elec := st.energygrp_elec,
              energygrp_vdw := st.energygrp_vdw, inneriter := 0 }).energygrp_vdw
        nrnb := inc_nrnb st.nrnb eNR.NBKERNEL_VDW_VF
          ((0 + 1) * 7 + (ljsh_VF_outer nlist xx fr.shift_vec mdatoms.typeA fr.nbfp fr.ntype
            (_mm_set1_pd (fr.ic.rvdw * fr.ic.rvdw)) (_mm_set1_pd fr.ic.sh_invrc6) 0
            { f := st.f, fshift := st.fshift, energygrp_elec := st.energygrp_elec,
              energygrp_vdw := st.energygrp_vdw, inneriter := 0 }).inneriter * 44) } := by
  unfold nb_kernel_ElecNone_VdwLJSh_GeomP1P1_VF_avx_128_fma_double
  simp only [hnri, forLoop_one]
  rfl

theorem ljsh_F_kernel_single (nlist : t_nblist) (xx : Int → ℚ) (fr : t_forcerec)
    (mdatoms : t_mdatoms) (st : KState) (hnri : nlist.nri = 1) :
    nb_kernel_ElecNone_VdwLJSh_GeomP1P1_F_avx_128_fma_double nlist xx fr mdatoms st =
      { f := (ljsh_F_outer nlist xx fr.shift_vec mdatoms.typeA fr.nbfp fr.ntype
            (_mm_set1_pd (fr.ic.rvdw * fr.ic.rvdw)) 0
            { f := st.f, fshift := st.fshift, energygrp_elec := st.energygrp_elec,
              energygrp_vdw := st.energygrp_vdw, inneriter := 0 }).f
        fshift := (ljsh_F_outer nlist xx fr.shift_vec mdatoms.typeA fr.nbfp fr.ntype
            (_mm_set1_pd (fr.ic.rvdw * fr.ic.rvdw)) 0
            { f := st.f, fshift := st.fshift, energygrp_elec := st.energygrp_elec,
              energygrp_vdw := st.energygrp_vdw, inneriter := 0 }).fshift
        energygrp_elec := (ljsh_F_outer nlist xx fr.shift_vec mdatoms.typeA fr.nbfp fr.ntype
            (_mm_set1_pd (fr.ic.rvdw * fr.ic.rvdw)) 0
            { f := st.f, fshift := st.fshift, energygrp_elec := st.energygrp_elec,
              energygrp_vdw := st.energygrp_vdw, inneriter := 0 }).energygrp_elec
        energygrp_vdw := (ljsh_F_outer nlist xx fr.shift_vec mdatoms.typeA fr.nbfp fr.ntype
            (_mm_set1_pd (fr.ic.rvdw * fr.ic.rvdw)) 0
            { f := st.f, fshift := st.fshift, energygrp_elec := st.energygrp_elec,
              energygrp_vdw := st.energygrp_vdw, inneriter := 0 }).energygrp_vdw
        nrnb := inc_nrnb st.nrnb eNR.NBKERNEL_VDW_F
          ((0 + 1) * 6 + (ljsh_F_outer nlist xx fr.shift_vec mdatoms.typeA fr.nbfp fr.ntype
            (_mm_set1_pd (fr.ic.rvdw * fr.ic.rvdw)) 0
            { f := st.f, fshift := st.fshift, energygrp_elec := st.energygrp_elec,
              energygrp_vdw := st.energygrp_vdw, inneriter := 0 }).inneriter * 33) } := by
  unfold nb_kernel_ElecNone_VdwLJSh_GeomP1P1_F_avx_128_fma_double
  simp only [hnri, forLoop_one]
  rfl

theorem store_self (e : Int → ℚ) (g : Int) : store e g (0 + e g) = e := by
  funext k
  unfold store
  split_ifs with h
  · subst h; ring
  · rfl

theorem RFInner_ext (a b : RFInner) (hf : a.f = b.f)
    (h0x : a.fix0 = b.fix0) (h0y : a.fiy0 = b.fiy0) (h0z : a.fiz0 = b.fiz0)
    (h1x : a.fix1 = b.fix1) (h1y : a.fiy1 = b.fiy1) (h1z : a.fiz1 = b.fiz1)
    (h2x : a.fix2 = b.fix2) (h2y : a.fiy2 = b.fiy2) (h2z : a.fiz2 = b.fiz2)
    (he : a.velecsum = b.velecsum) (hv : a.vvdwsum = b.vvdwsum) : a = b := by
  cases a; cases b; simp_all

/-- Remainder block of the RF VF kernel: closed form in terms of the lane-0 values of
the three site interactions. -/
theorem rf_VF_block1_closed (invsqrt : ℚ → ℚ) (nlist : t_nblist) (x : Int → ℚ)
    (charge : Int → ℚ) (vdwtype : Int → Int) (vdwparam : Int → ℚ) (krf crf : ℚ)
    (q0 q1 q2 : ℚ) (off : Int) (ix0 iy0 iz0 ix1 iy1 iz1 ix2 iy2 iz2 : ℚ) (jidx : Int)
    (s : RFInner) (j : Int) (hjj : nlist.jjnr jidx = j)
    (rsq0 rsq1 rsq2 r0 r1 r2 F0 F1 F2 : ℚ)
    (hrsq0 : rsq0 = lane_rsq ix0 iy0 iz0 x (DIM * j))
    (hrsq1 : rsq1 = lane_rsq ix1 iy1 iz1 x (DIM * j))
    (hrsq2 : rsq2 = lane_rsq ix2 iy2 iz2 x (DIM * j))
    (hr0 : r0 = invsqrt rsq0) (hr1 : r1 = invsqrt rsq1) (hr2 : r2 = invsqrt rsq2)
    (hF0 : F0 = q0 * charge j * (r0 * (r0 * r0) - krf * 2)
      + (vdwparam (off + 2 * vdwtype j + 1) * (r0 * r0 * (r0 * r0) * (r0 * r0)
            * (r0 * r0 * (r0 * r0) * (r0 * r0)))
          - vdwparam (off + 2 * vdwtype j) * (r0 * r0 * (r0 * r0) * (r0 * r0))) * (r0 * r0))
    (hF1 : F1 = q1 * charge j * (r1 * (r1 * r1) - krf * 2))
    (hF2 : F2 = q2 * charge j * (r2 * (r2 * r2) - krf * 2)) :
    rf_VF_block1 invsqrt nlist x charge vdwtype vdwparam (_mm_set1_pd krf)
        (_mm_set1_pd (krf * 2)) (_mm_set1_pd crf) (_mm_set1_pd q0) (_mm_set1_pd q1)
        (_mm_set1_pd q2) off (_mm_set1_pd ix0) (_mm_set1_pd iy0) (_mm_set1_pd iz0)
        (_mm_set1_pd ix1) (_mm_set1_pd iy1) (_mm_set1_pd iz1)
        (_mm_set1_pd ix2) (_mm_set1_pd iy2) (_mm_set1_pd iz2) jidx s =
      { f := fun k => s.f k - bump (DIM * j)
            (F0 * (ix0 - x (DIM * j)) + F1 * (ix1 - x (DIM * j)) + F2 * (ix2 - x (DIM * j)))
            (F0 * (iy0 - x (DIM * j + 1)) + F1 * (iy1 - x (DIM * j + 1))
              + F2 * (iy2 - x (DIM * j + 1)))
            (F0 * (iz0 - x (DIM * j + 2)) + F1 * (iz1 - x (DIM * j + 2))
              + F2 * (iz2 - x (DIM * j + 2))) k
        fix0 := ⟨s.fix0.lo + F0 * (ix0 - x (DIM * j)), s.fix0.hi⟩
        fiy0 := ⟨s.fiy0.lo + F0 * (iy0 - x (DIM * j + 1)), s.fiy0.hi⟩
        fiz0 := ⟨s.fiz0.lo + F0 * (iz0 - x (DIM * j + 2)), s.fiz0.hi⟩
        fix1 := ⟨s.fix1.lo + F1 * (ix1 - x (DIM * j)), s.fix1.hi⟩
        fiy1 := ⟨s.fiy1.lo + F1 * (iy1 - x (DIM * j + 1)), s.fiy1.hi⟩
        fiz1 := ⟨s.fiz1.lo + F1 * (iz1 - x (DIM * j + 2)), s.fiz1.hi⟩
        fix2 := ⟨s.fix2.lo + F2 * (ix2 - x (DIM * j)), s.fix2.hi⟩
        fiy2 := ⟨s.fiy2.lo + F2 * (iy2 - x (DIM * j + 1)), s.fiy2.hi⟩
        fiz2 := ⟨s.fiz2.lo + F2 * (iz2 - x (DIM * j + 2)), s.fiz2.hi⟩
        velecsum := ⟨s.velecsum.lo + q0 * charge j * (r0 + krf * rsq0 - crf)
            + q1 * charge j * (r1 + krf * rsq1 - crf)
            + q2 * charge j * (r2 + krf * rsq2 - crf), s.velecsum.hi⟩
        vvdwsum := ⟨s.vvdwsum.lo
            + (vdwparam (off + 2 * vdwtype j + 1) * (r0 * r0 * (r0 * r0) * (r0 * r0)
                * (r0 * r0 * (r0 * r0) * (r0 * r0))) * (1 / 12)
              - vdwparam (off + 2 * vdwtype j) * (r0 * r0 * (r0 * r0) * (r0 * r0)) * (1 / 6)),
            s.vvdwsum.hi⟩ } := by
  unfold rf_VF_block1
  simp only [_mm_set1_pd, _mm_setzero_pd, _mm_load_sd, _mm_add_pd, _mm_sub_pd, _mm_mul_pd,
    _mm_unpacklo_pd, gmx_mm_calc_rsq_pd, sse2_invsqrt_d, gmx_mm_load_1rvec_1ptr_swizzle_pd,
    gmx_mm_load_1pair_swizzle_pd, gmx_mm_decrement_1rvec_1ptr_swizzle_pd, store3_eq_bump,
    add_zero, zero_add, mul_zero, zero_mul, hjj]
  simp only [lane_rsq] at hrsq0 hrsq1 hrsq2
  simp only [← hrsq0, ← hrsq1, ← hrsq2, ← hr0, ← hr1, ← hr2, ← hF0, ← hF1, ← hF2]

theorem OuterSt_ext (a b : OuterSt) (hf : a.f = b.f) (hs : a.fshift = b.fshift)
    (he : a.energygrp_elec = b.energygrp_elec) (hv : a.energygrp_vdw = b.energygrp_vdw)
    (hi : a.inneriter = b.inneriter) : a = b := by
  cases a; cases b; simp_all

/-- One outer entry (a water at particles `i, i+1, i+2`) with a single partner `j`,
RF VF kernel: closed form in terms of the site displacements `d`, the force scalars
`F` and the potentials `Vel`, `Vvdw`. -/
theorem rf_VF_outer_single (invsqrt : ℚ → ℚ) (nlist : t_nblist) (x : Int → ℚ)
    (shiftvec : Int → ℚ) (charge : Int → ℚ) (vdwtype : Int → Int) (vdwparam : Int → ℚ)
    (krf crf q0 q1 q2 : ℚ) (off iidx : Int) (o : OuterSt)
    (hj : nlist.jindex (iidx + 1) = nlist.jindex iidx + 1)
    (i j : Int) (hi : nlist.iinr iidx = i) (hjj : nlist.jjnr (nlist.jindex iidx) = j)
    (dx0 dy0 dz0 dx1 dy1 dz1 dx2 dy2 dz2 rsq0 rsq1 rsq2 r0 r1 r2 c6 c12 : ℚ)
    (F0 F1 F2 Vel Vvdw : ℚ)
    (hdx0 : dx0 = x (DIM * i) + shiftvec (DIM * nlist.shift iidx) - x (DIM * j))
    (hdy0 : dy0 = x (DIM * i + 1) + shiftvec (DIM * nlist.shift iidx + 1) - x (DIM * j + 1))
    (hdz0 : dz0 = x (DIM * i + 2) + shiftvec (DIM * nlist.shift iidx + 2) - x (DIM * j + 2))
    (hdx1 : dx1 = x (DIM * i + 3) + shiftvec (DIM * nlist.shift iidx) - x (DIM * j))
    (hdy1 : dy1 = x (DIM * i + 4) + shiftvec (DIM * nlist.shift iidx + 1) - x (DIM * j + 1))
    (hdz1 : dz1 = x (DIM * i + 5) + shiftvec (DIM * nlist.shift iidx + 2) - x (DIM * j + 2))
    (hdx2 : dx2 = x (DIM * i + 6) + shiftvec (DIM * nlist.shift iidx) - x (DIM * j))
    (hdy2 : dy2 = x (DIM * i + 7) + shiftvec (DIM * nlist.shift iidx + 1) - x (DIM * j + 1))
    (hdz2 : dz2 = x (DIM * i + 8) + shiftvec (DIM * nlist.shift iidx + 2) - x (DIM * j + 2))
    (hrsq0 : rsq0 = dx0 * dx0 + dy0 * dy0 + dz0 * dz0)
    (hrsq1 : rsq1 = dx1 * dx1 + dy1 * dy1 + dz1 * dz1)
    (hrsq2 : rsq2 = dx2 * dx2 + dy2 * dy2 + dz2 * dz2)
    (hr0 : r0 = invsqrt rsq0) (hr1 : r1 = invsqrt rsq1) (hr2 : r2 = invsqrt rsq2)
    (hc6 : c6 = vdwparam (off + 2 * vdwtype j))
    (hc12 : c12 = vdwparam (off + 2 * vdwtype j + 1))
    (hF0 : F0 = q0 * charge j * (r0 ^ 3 - 2 * krf)
      + (c12 * ((r0 ^ 2) ^ 3) ^ 2 - c6 * (r0 ^ 2) ^ 3) * r0 ^ 2)
    (hF1 : F1 = q1 * charge j * (r1 ^ 3 - 2 * krf))
    (hF2 : F2 = q2 * charge j * (r2 ^ 3 - 2 * krf))
    (hVel : Vel = q0 * charge j * (r0 + krf * rsq0 - crf)
      + q1 * charge j * (r1 + krf * rsq1 - crf) + q2 * charge j * (r2 + krf * rsq2 - crf))
    (hVvdw : Vvdw = c12 * ((r0 ^ 2) ^ 3) ^ 2 / 12 - c6 * (r0 ^ 2) ^ 3 / 6) :
    rf_VF_outer invsqrt nlist x shiftvec charge vdwtype vdwparam (_mm_set1_pd krf)
        (_mm_set1_pd (krf * 2)) (_mm_set1_pd crf) (_mm_set1_pd q0) (_mm_set1_pd q1)
        (_mm_set1_pd q2) off iidx o =
      { f := fun k => o.f k
          - bump (DIM * j) (F0 * dx0 + F1 * dx1 + F2 * dx2) (F0 * dy0 + F1 * dy1 + F2 * dy2)
              (F0 * dz0 + F1 * dz1 + F2 * dz2) k
          + bump (DIM * i) (F0 * dx0) (F0 * dy0) (F0 * dz0) k
          + bump (DIM * i + 3) (F1 * dx1) (F1 * dy1) (F1 * dz1) k
          + bump (DIM * i + 6) (F2 * dx2) (F2 * dy2) (F2 * dz2) k
        fshift := fun k => o.fshift k
          + bump (DIM * nlist.shift iidx) (F0 * dx0 + F1 * dx1 + F2 * dx2)
              (F0 * dy0 + F1 * dy1 + F2 * dy2) (F0 * dz0 + F1 * dz1 + F2 * dz2) k
        energygrp_elec := store o.energygrp_elec (nlist.gid iidx)
          (Vel + o.energygrp_elec (nlist.gid iidx))
        energygrp_vdw := store o.energygrp_vdw (nlist.gid iidx)
          (Vvdw + o.energygrp_vdw (nlist.gid iidx))
        inneriter := o.inneriter + 1 } := by
  have e4 : DIM * i + 3 + 1 = DIM * i + 4 := by ring
  have e5 : DIM * i + 3 + 2 = DIM * i + 5 := by ring
  have e7 : DIM * i + 6 + 1 = DIM * i + 7 := by ring
  have e8 : DIM * i + 6 + 2 = DIM * i + 8 := by ring
  unfold rf_VF_outer
  simp only [gmx_mm_load_shift_and_3rvec_broadcast_pd, gmx_mm_load_shift_and_1rvec_broadcast_pd,
    hi, e4, e5, e7, e8]
  rw [innerLoop_last _ _ _ _ _ hj,
    rf_VF_block1_closed invsqrt nlist x charge vdwtype vdwparam krf crf q0 q1 q2 off
      _ _ _ _ _ _ _ _ _ _ _ j hjj rsq0 rsq1 rsq2 r0 r1 r2 F0 F1 F2
      (by rw [hrsq0, hdx0, hdy0, hdz0]; rfl) (by rw [hrsq1, hdx1, hdy1, hdz1]; rfl)
      (by rw [hrsq2, hdx2, hdy2, hdz2]; rfl) hr0 hr1 hr2
      (by rw [hF0, ← hc6, ← hc12]; ring) (by rw [hF1]; ring) (by rw [hF2]; ring)]
  simp only [← hdx0, ← hdy0, ← hdz0, ← hdx1, ← hdy1, ← hdz1, ← hdx2, ← hdy2, ← hdz2,
    ← hc6, ← hc12]
  refine OuterSt_ext _ _ ?_ ?_ ?_ ?_ ?_
  · funext k
    simp only [gmx_mm_update_iforce_3atom_swizzle_pd, _mm_hadd_pd, _mm_setzero_pd, incr3_apply,
      zero_add, add_zero]
  · funext k
    simp only [gmx_mm_update_iforce_3atom_swizzle_pd, _mm_hadd_pd, _mm_setzero_pd, incr3_apply,
      zero_add, add_zero]
    congr 2 <;> ring
  · simp only [gmx_mm_update_1pot_pd, _mm_hadd_pd, _mm_setzero_pd, zero_add, add_zero, hVel]
  · simp only [gmx_mm_update_1pot_pd, _mm_hadd_pd, _mm_setzero_pd, zero_add, add_zero, hVvdw]
    ring_nf
  · simp only [hj, add_sub_cancel_left]

theorem rf_VF_kernel_f (invsqrt : ℚ → ℚ) (nlist : t_nblist) (xx : Int → ℚ) (fr : t_forcerec)
    (mdatoms : t_mdatoms) (st : KState) :
    nb_kernel_ElecRF_VdwLJ_GeomW3P1_VF_sse2_double invsqrt nlist xx fr mdatoms st =
      { f := (forLoop nlist.nri
            (rf_VF_outer invsqrt nlist xx fr.shift_vec mdatoms.chargeA mdatoms.typeA fr.nbfp
              (_mm_set1_pd fr.ic.k_rf) (_mm_set1_pd (fr.ic.k_rf * 2)) (_mm_set1_pd fr.ic.c_rf)
              (_mm_set1_pd (fr.ic.epsfac * mdatoms.chargeA (nlist.iinr 0 + 0)))
              (_mm_set1_pd (fr.ic.epsfac * mdatoms.chargeA (nlist.iinr 0 + 1)))
              (_mm_set1_pd (fr.ic.epsfac * mdatoms.chargeA (nlist.iinr 0 + 2)))
              (2 * fr.ntype * mdatoms.typeA (nlist.iinr 0 + 0))) 0
            { f := st.f, fshift := st.fshift, energygrp_elec := st.energygrp_elec,
              energygrp_vdw := st.energygrp_vdw, inneriter := 0 }).f
        fshift := (forLoop nlist.nri
            (rf_VF_outer invsqrt nlist xx fr.shift_vec mdatoms.chargeA mdatoms.typeA fr.nbfp
              (_mm_set1_pd fr.ic.k_rf) (_mm_set1_pd (fr.ic.k_rf * 2)) (_mm_set1_pd fr.ic.c_rf)
              (_mm_set1_pd (fr.ic.epsfac * mdatoms.chargeA (nlist.iinr 0 + 0)))
              (_mm_set1_pd (fr.ic.epsfac * mdatoms.chargeA (nlist.iinr 0 + 1)))
              (_mm_set1_pd (fr.ic.epsfac * mdatoms.chargeA (nlist.iinr 0 + 2)))
              (2 * fr.ntype * mdatoms.typeA (nlist.iinr 0 + 0))) 0
            { f := st.f, fshift := st.fshift, energygrp_elec := st.energygrp_elec,
              energygrp_vdw := st.energygrp_vdw, inneriter := 0 }).fshift
        energygrp_elec := (forLoop nlist.nri
            (rf_VF_outer invsqrt nlist xx fr.shift_vec mdatoms.chargeA mdatoms.typeA fr.nbfp
              (_mm_set1_pd fr.ic.k_rf) (_mm_set1_pd (fr.ic.k_rf * 2)) (_mm_set1_pd fr.ic.c_rf)
              (_mm_set1_pd (fr.ic.epsfac * mdatoms.chargeA (nlist.iinr 0 + 0)))
              (_mm_set1_pd (fr.ic.epsfac * mdatoms.chargeA (nlist.iinr 0 + 1)))
              (_mm_set1_pd (fr.ic.epsfac * mdatoms.chargeA (nlist.iinr 0 + 2)))
              (2 * fr.ntype * mdatoms.typeA (nlist.iinr 0 + 0))) 0
            { f := st.f, fshift := st.fshift, energygrp_elec := st.energygrp_elec,
              energygrp_vdw := st.energygrp_vdw, inneriter := 0 }).energygrp_elec
        energygrp_vdw := (forLoop nlist.nri
            (rf_VF_outer invsqrt nlist xx fr.shift_vec mdatoms.chargeA mdatoms.typeA fr.nbfp
              (_mm_set1_pd fr.ic.k_rf) (_mm_set1_pd (fr.ic.k_rf * 2)) (_mm_set1_pd fr.ic.c_rf)
              (_mm_set1_pd (fr.ic.epsfac * mdatoms.chargeA (nlist.iinr 0 + 0)))
              (_mm_set1_pd (fr.ic.epsfac * mdatoms.chargeA (nlist.iinr 0 + 1)))
              (_mm_set1_pd (fr.ic.epsfac * mdatoms.chargeA (nlist.iinr 0 + 2)))
              (2 * fr.ntype * mdatoms.typeA (nlist.iinr 0 + 0))) 0
            { f := st.f, fshift := st.fshift, energygrp_elec := st.energygrp_elec,
              energygrp_vdw := st.energygrp_vdw, inneriter := 0 }).energygrp_vdw
        nrnb := inc_nrnb st.nrnb eNR.NBKERNEL_ELEC_VDW_W3_VF
          ((0 + nlist.nri) * 20 + (forLoop nlist.nri
            (rf_VF_outer invsqrt nlist xx fr.shift_vec mdatoms.chargeA mdatoms.typeA fr.nbfp
              (_mm_set1_pd fr.ic.k_rf) (_mm_set1_pd (fr.ic.k_rf * 2)) (_mm_set1_pd fr.ic.c_rf)
              (_mm_set1_pd (fr.ic.epsfac * mdatoms.chargeA (nlist.iinr 0 + 0)))
              (_mm_set1_pd (fr.ic.epsfac * mdatoms.chargeA (nlist.iinr 0 + 1)))
              (_mm_set1_pd (fr.ic.epsfac * mdatoms.chargeA (nlist.iinr 0 + 2)))
              (2 * fr.ntype * mdatoms.typeA (nlist.iinr 0 + 0))) 0
            { f := st.f, fshift := st.fshift, energygrp_elec := st.energygrp_elec,
              energygrp_vdw := st.energygrp_vdw, inneriter := 0 }).inneriter * 111) } := rfl

theorem forLoop_two {σ : Type} (body : Int → σ → σ) (s : σ) :
    forLoop 2 body 0 s = body 1 (body 0 s) := by
  rw [forLoop_step _ _ _ _ (by decide), forLoop_step _ _ _ _ (by decide),
    forLoop_done _ _ _ _ (by decide)]
  rfl

theorem store_same (e : Int → ℚ) (g : Int) : store e g (e g) = e := by
  funext k
  unfold store
  split_ifs with h
  · rw [h]
  · rfl

theorem incr3_zero (f : Int → ℚ) (p : Int) : incr3 f p 0 0 0 = f := by
  rw [incr3_apply]
  funext k
  rw [bump_zero, add_zero]

/-- An outer entry without partners leaves the state of the RF VF outer loop
unchanged. -/
theorem rf_VF_outer_empty (invsqrt : ℚ → ℚ) (nlist : t_nblist) (x : Int → ℚ)
    (shiftvec : Int → ℚ) (charge : Int → ℚ) (vdwtype : Int → Int) (vdwparam : Int → ℚ)
    (krf krf2 crf iq0 iq1 iq2 : M128d) (off iidx : Int) (o : OuterSt)
    (hj : nlist.jindex (iidx + 1) = nlist.jindex iidx) :
    rf_VF_outer invsqrt nlist x shiftvec charge vdwtype vdwparam krf krf2 crf iq0 iq1 iq2
      off iidx o = o := by
  unfold rf_VF_outer
  simp only []
  rw [innerLoop_done _ _ _ _ _ (le_of_eq hj)]
  refine OuterSt_ext _ _ ?_ ?_ ?_ ?_ ?_
  · simp only [gmx_mm_update_iforce_3atom_swizzle_pd, _mm_hadd_pd, _mm_setzero_pd, add_zero,
      incr3_zero]
  · simp only [gmx_mm_update_iforce_3atom_swizzle_pd, _mm_hadd_pd, _mm_setzero_pd, add_zero,
      incr3_zero]
  · simp only [gmx_mm_update_1pot_pd, _mm_hadd_pd, _mm_setzero_pd, add_zero, store_self]
  · simp only [gmx_mm_update_1pot_pd, _mm_hadd_pd, _mm_setzero_pd, add_zero, store_self]
  · simp only [hj, sub_self, add_zero]

/-- One outer iteration of the RF VF kernel on the water example, for an entry of the
water 0 with the single partner 3 and with the site-0 parameter `q0` (sites 1 and 2
uncharged): the pair at distance 1 adds `q0 * 3/5` to the electrostatic energy and the
force `q0 * 4/5` along x. -/
theorem ex_rf_outer_eval (q0 : ℚ) (iidx : Int) (o : OuterSt) (nlist : t_nblist)
    (hj : nlist.jindex (iidx + 1) = nlist.jindex iidx + 1) (hi : nlist.iinr iidx = 0)
    (hjj : nlist.jjnr (nlist.jindex iidx) = 3) (hs : nlist.shift iidx = 0) :
    rf_VF_outer invsqrt_tab nlist ex_rf_x ex_rf_fr.shift_vec ex_rf_mdatoms.chargeA
        ex_rf_mdatoms.typeA ex_rf_fr.nbfp (_mm_set1_pd ex_rf_fr.ic.k_rf)
        (_mm_set1_pd (ex_rf_fr.ic.k_rf * 2)) (_mm_set1_pd ex_rf_fr.ic.c_rf)
        (_mm_set1_pd q0) (_mm_set1_pd 0) (_mm_set1_pd 0) 0 iidx o =
      { f := fun k => o.f k - bump 9 (q0 * (4 / 5)) 0 0 k + bump 0 (q0 * (4 / 5)) 0 0 k
        fshift := fun k => o.fshift k + bump 0 (q0 * (4 / 5)) 0 0 k
        energygrp_elec := store o.energygrp_elec (nlist.gid iidx)
          (q0 * (3 / 5) + o.energygrp_elec (nlist.gid iidx))
        energygrp_vdw := o.energygrp_vdw
        inneriter := o.inneriter + 1 } := by
  rw [rf_VF_outer_single invsqrt_tab nlist ex_rf_x ex_rf_fr.shift_vec ex_rf_mdatoms.chargeA
    ex_rf_mdatoms.typeA ex_rf_fr.nbfp ex_rf_fr.ic.k_rf ex_rf_fr.ic.c_rf q0 0 0 0 iidx o hj
    0 3 hi hjj 1 0 0 2 0 0 3 0 0 1 4 9 1 (1 / 2) (1 / 3) 0 0 (q0 * (4 / 5)) 0 0 (q0 * (3 / 5)) 0
    (by norm_num [ex_rf_x, ex_rf_fr, DIM, hs]) (by norm_num [ex_rf_x, ex_rf_fr, DIM, hs])
    (by norm_num [ex_rf_x, ex_rf_fr, DIM, hs]) (by norm_num [ex_rf_x, ex_rf_fr, DIM, hs])
    (by norm_num [ex_rf_x, ex_rf_fr, DIM, hs]) (by norm_num [ex_rf_x, ex_rf_fr, DIM, hs])
    (by norm_num [ex_rf_x, ex_rf_fr, DIM, hs]) (by norm_num [ex_rf_x, ex_rf_fr, DIM, hs])
    (by norm_num [ex_rf_x, ex_rf_fr, DIM, hs]) (by norm_num) (by norm_num) (by norm_num)
    (by norm_num [invsqrt_tab]) (by norm_num [invsqrt_tab]) (by norm_num [invsqrt_tab])
    (by norm_num [ex_rf_fr]) (by norm_num [ex_rf_fr])
    (by norm_num [ex_rf_fr, ex_rf_mdatoms]) (by norm_num) (by norm_num)
    (by norm_num [ex_rf_fr, ex_rf_mdatoms]) (by norm_num)]
  refine OuterSt_ext _ _ ?_ ?_ ?_ ?_ ?_
  · funext k
    norm_num [DIM, bump_zero, hs]
  · funext k
    norm_num [DIM, bump_zero, hs]
  · rfl
  · simp only [zero_add, store_same]
  · rfl

theorem forLoop_invariant {σ : Type} (P : σ → Prop) (n : Int) (body : Int → σ → σ)
    (m : Nat) :
    ∀ (i : Int) (s : σ), (n - i).toNat ≤ m →
      (∀ k : Int, i ≤ k → k < n → ∀ t, P t → P (body k t)) → P s → P (forLoop n body i s) := by
  induction m with
  | zero =>
    intro i s hm _ hs
    rw [forLoop_done _ _ _ _ (by omega)]
    exact hs
  | succ m ih =>
    intro i s hm hb hs
    by_cases h : i < n
    · rw [forLoop_step _ _ _ _ h]
      exact ih (i + 1) _ (by omega) (fun k hk hkn t => hb k (by omega) hkn t)
        (hb i (le_refl i) h s hs)
    · rw [forLoop_done _ _ _ _ (by omega)]
      exact hs

/-- The outer loop adds up the lengths of the partner ranges: a body that adds
`jindex (k + 1) - jindex k` to a counter `c` adds `jindex n - jindex i` in total. -/
theorem forLoop_telescope {σ : Type} (c : σ → Int) (jindex : Int → Int) (n : Int)
    (body : Int → σ → σ) (hb : ∀ k t, c (body k t) = c t + (jindex (k + 1) - jindex k))
    (m : Nat) :
    ∀ (i : Int) (s : σ), (n - i).toNat ≤ m → i ≤ n →
      c (forLoop n body i s) = c s + (jindex n - jindex i) := by
  induction m with
  | zero =>
    intro i s hm hin
    rw [forLoop_done _ _ _ _ (by omega)]
    have : i = n := by omega
    rw [this]; ring
  | succ m ih =>
    intro i s hm hin
    by_cases h : i < n
    · rw [forLoop_step _ _ _ _ h, ih (i + 1) _ (by omega) (by omega), hb]
      ring
    · rw [forLoop_done _ _ _ _ (by omega)]
      have : i = n := by omega
      rw [this]; ring

theorem ljsh_VF_outer_empty (nlist : t_nblist) (x : Int → ℚ) (shiftvec : Int → ℚ)
    (vdwtype : Int → Int) (vdwparam : Int → ℚ) (nvdwtype : Int)
    (rcutoff2 sh_vdw_invrcut6 : M128d) (iidx : Int) (o : OuterSt)
    (hj : nlist.jindex (iidx + 1) = nlist.jindex iidx) :
    ljsh_VF_outer nlist x shiftvec vdwtype vdwparam nvdwtype rcutoff2 sh_vdw_invrcut6
      iidx o = o := by
  unfold ljsh_VF_outer
  simp only []
  rw [innerLoop_done _ _ _ _ _ (le_of_eq hj)]
  refine OuterSt_ext _ _ ?_ ?_ ?_ ?_ ?_
  · simp only [gmx_mm_update_iforce_1atom_swizzle_pd, _mm_hadd_pd, _mm_setzero_pd, add_zero,
      incr3_zero]
  · simp only [gmx_mm_update_iforce_1atom_swizzle_pd, _mm_hadd_pd, _mm_setzero_pd, add_zero,
      incr3_zero]
  · rfl
  · simp only [gmx_mm_update_1pot_pd, _mm_hadd_pd, _mm_setzero_pd, add_zero, store_self]
  · simp only [hj, sub_self, add_zero]

theorem ljsh_F_outer_empty (nlist : t_nblist) (x : Int → ℚ) (shiftvec : Int → ℚ)
    (vdwtype : Int → Int) (vdwparam : Int → ℚ) (nvdwtype : Int)
    (rcutoff2 : M128d) (iidx : Int) (o : OuterSt)
    (hj : nlist.jindex (iidx + 1) = nlist.jindex iidx) :
    ljsh_F_outer nlist x shiftvec vdwtype vdwparam nvdwtype rcutoff2 iidx o = o := by
  unfold ljsh_F_outer
  simp only []
  rw [innerLoop_done _ _ _ _ _ (le_of_eq hj)]
  refine OuterSt_ext _ _ ?_ ?_ ?_ ?_ ?_
  · simp only [gmx_mm_update_iforce_1atom_swizzle_pd, _mm_hadd_pd, _mm_setzero_pd, add_zero,
      incr3_zero]
  · simp only [gmx_mm_update_iforce_1atom_swizzle_pd, _mm_hadd_pd, _mm_setzero_pd, add_zero,
      incr3_zero]
  · rfl
  · rfl
  · simp only [hj, sub_self, add_zero]

theorem rf_F_outer_empty (invsqrt : ℚ → ℚ) (nlist : t_nblist) (x : Int → ℚ)
    (shiftvec : Int → ℚ) (charge : Int → ℚ) (vdwtype : Int → Int) (vdwparam : Int → ℚ)
    (krf2 iq0 iq1 iq2 : M128d) (off iidx : Int) (o : OuterSt)
    (hj : nlist.jindex (iidx + 1) = nlist.jindex iidx) :
    rf_F_outer invsqrt nlist x shiftvec charge vdwtype vdwparam krf2 iq0 iq1 iq2
      off iidx o = o := by
  unfold rf_F_outer
  simp only []
  rw [innerLoop_done _ _ _ _ _ (le_of_eq hj)]
  refine OuterSt_ext _ _ ?_ ?_ ?_ ?_ ?_
  · simp only [gmx_mm_update_iforce_3atom_swizzle_pd, _mm_hadd_pd, _mm_setzero_pd, add_zero,
      incr3_zero]
  · simp only [gmx_mm_update_iforce_3atom_swizzle_pd, _mm_hadd_pd, _mm_setzero_pd, add_zero,
      incr3_zero]
  · rfl
  · rfl
  · simp only [hj, sub_self, add_zero]

/-- A loop whose body is the identity on the visited indices returns its input. -/
theorem forLoop_id {σ : Type} (n : Int) (body : Int → σ → σ) (m : Nat) :
    ∀ (i : Int) (s : σ), (n - i).toNat ≤ m → (∀ k : Int, i ≤ k → k < n → ∀ t, body k t = t) →
      forLoop n body i s = s := by
  induction m with
  | zero =>
    intro i s hm _
    rw [forLoop_done _ _ _ _ (by omega)]
  | succ m ih =>
    intro i s hm hb
    by_cases h : i < n
    · rw [forLoop_step _ _ _ _ h, hb i (le_refl i) h]
      exact ih (i + 1) _ (by omega) (fun k hk hkn t => hb k (by omega) hkn t)
    · rw [forLoop_done _ _ _ _ (by omega)]

theorem ljsh_VF_kernel_eq_loop (nlist : t_nblist) (xx : Int → ℚ) (fr : t_forcerec)
    (mdatoms : t_mdatoms) (st : KState) :
    nb_kernel_ElecNone_VdwLJSh_GeomP1P1_VF_avx_128_fma_double nlist xx fr mdatoms st =
      { f := (ljsh_VF_loop nlist xx fr mdatoms st).f
        fshift := (ljsh_VF_loop nlist xx fr mdatoms st).fshift
        energygrp_elec := (ljsh_VF_loop nlist xx fr mdatoms st).energygrp_elec
        energygrp_vdw := (ljsh_VF_loop nlist xx fr mdatoms st).energygrp_vdw
        nrnb := inc_nrnb st.nrnb eNR.NBKERNEL_VDW_VF
          (nlist.nri * 7 + (ljsh_VF_loop nlist xx fr mdatoms st).inneriter * 44) } := by
  unfold nb_kernel_ElecNone_VdwLJSh_GeomP1P1_VF_avx_128_fma_double ljsh_VF_loop outer_init
  simp only [zero_add]

theorem ljsh_F_kernel_eq_loop (nlist : t_nblist) (xx : Int → ℚ) (fr : t_forcerec)
    (mdatoms : t_mdatoms) (st : KState) :
    nb_kernel_ElecNone_VdwLJSh_GeomP1P1_F_avx_128_fma_double nlist xx fr mdatoms st =
      { f := (ljsh_F_loop nlist xx fr mdatoms st).f
        fshift := (ljsh_F_loop nlist xx fr mdatoms st).fshift
        energygrp_elec := (ljsh_F_loop nlist xx fr mdatoms st).energygrp_elec
        energygrp_vdw := (ljsh_F_loop nlist xx fr mdatoms st).energygrp_vdw
        nrnb := inc_nrnb st.nrnb eNR.NBKERNEL_VDW_F
          (nlist.nri * 6 + (ljsh_F_loop nlist xx fr mdatoms st).inneriter * 33) } := by
  unfold nb_kernel_ElecNone_VdwLJSh_GeomP1P1_F_avx_128_fma_double ljsh_F_loop outer_init
  simp only [zero_add]

theorem rf_VF_kernel_eq_loop (invsqrt : ℚ → ℚ) (nlist : t_nblist) (xx : Int → ℚ)
    (fr : t_forcerec) (mdatoms : t_mdatoms) (st : KState) :
    nb_kernel_ElecRF_VdwLJ_GeomW3P1_VF_sse2_double invsqrt nlist xx fr mdatoms st =
      { f := (rf_VF_loop invsqrt nlist xx fr mdatoms st).f
        fshift := (rf_VF_loop invsqrt nlist xx fr mdatoms st).fshift
        energygrp_elec := (rf_VF_loop invsqrt nlist xx fr mdatoms st).energygrp_elec
        energygrp_vdw := (rf_VF_loop invsqrt nlist xx fr mdatoms st).energygrp_vdw
        nrnb := inc_nrnb st.nrnb eNR.NBKERNEL_ELEC_VDW_W3_VF
          (nlist.nri * 20 + (rf_VF_loop invsqrt nlist xx fr mdatoms st).inneriter * 111) } := by
  unfold nb_kernel_ElecRF_VdwLJ_GeomW3P1_VF_sse2_double rf_VF_loop outer_init
  simp only [zero_add]

theorem rf_F_kernel_eq_loop (invsqrt : ℚ → ℚ) (nlist : t_nblist) (xx : Int → ℚ)
    (fr : t_forcerec) (mdatoms : t_mdatoms) (st : KState) :
    nb_kernel_ElecRF_VdwLJ_GeomW3P1_F_sse2_double invsqrt nlist xx fr mdatoms st =
      { f := (rf_F_loop invsqrt nlist xx fr mdatoms st).f
        fshift := (rf_F_loop invsqrt nlist xx fr mdatoms st).fshift
        energygrp_elec := (rf_F_loop invsqrt nlist xx fr mdatoms st).energygrp_elec
        energygrp_vdw := (rf_F_loop invsqrt nlist xx fr mdatoms st).energygrp_vdw
        nrnb := inc_nrnb st.nrnb eNR.NBKERNEL_ELEC_VDW_W3_F
          (nlist.nri * 18 + (rf_F_loop invsqrt nlist xx fr mdatoms st).inneriter * 91) } := by
  unfold nb_kernel_ElecRF_VdwLJ_GeomW3P1_F_sse2_double rf_F_loop outer_init
  simp only [zero_add]

theorem ljsh_F_loop_energy (nlist : t_nblist) (xx : Int → ℚ) (fr : t_forcerec)
    (mdatoms : t_mdatoms) (st : KState) :
    (ljsh_F_loop nlist xx fr mdatoms st).energygrp_elec = st.energygrp_elec
      ∧ (ljsh_F_loop nlist xx fr mdatoms st).energygrp_vdw = st.energygrp_vdw :=
  forLoop_invariant
    (fun o : OuterSt => o.energygrp_elec = st.energygrp_elec ∧ o.energygrp_vdw = st.energygrp_vdw)
    _ _ (nlist.nri - 0).toNat 0 _ (le_refl _) (fun _ _ _ _ h => h) ⟨rfl, rfl⟩

theorem rf_F_loop_energy (invsqrt : ℚ → ℚ) (nlist : t_nblist) (xx : Int → ℚ)
    (fr : t_forcerec) (mdatoms : t_mdatoms) (st : KState) :
    (rf_F_loop invsqrt nlist xx fr mdatoms st).energygrp_elec = st.energygrp_elec
      ∧ (rf_F_loop invsqrt nlist xx fr mdatoms st).energygrp_vdw = st.energygrp_vdw :=
  forLoop_invariant
    (fun o : OuterSt => o.energygrp_elec = st.energygrp_elec ∧ o.energygrp_vdw = st.energygrp_vdw)
    _ _ (nlist.nri - 0).toNat 0 _ (le_refl _) (fun _ _ _ _ h => h) ⟨rfl, rfl⟩

theorem ljsh_VF_loop_inneriter (nlist : t_nblist) (xx : Int → ℚ) (fr : t_forcerec)
    (mdatoms : t_mdatoms) (st : KState) (h : 0 ≤ nlist.nri) :
    (ljsh_VF_loop nlist xx fr mdatoms st).inneriter
      = nlist.jindex nlist.nri - nlist.jindex 0 := by
  unfold ljsh_VF_loop
  rw [forLoop_telescope OuterSt.inneriter nlist.jindex _ _ (fun _ _ => rfl)
    (nlist.nri - 0).toNat 0 _ (le_refl _) h]
  simp only [outer_init, zero_add]

theorem ljsh_F_loop_inneriter (nlist : t_nblist) (xx : Int → ℚ) (fr : t_forcerec)
    (mdatoms : t_mdatoms) (st : KState) (h : 0 ≤ nlist.nri) :
    (ljsh_F_loop nlist xx fr mdatoms st).inneriter
      = nlist.jindex nlist.nri - nlist.jindex 0 := by
  unfold ljsh_F_loop
  rw [forLoop_telescope OuterSt.inneriter nlist.jindex _ _ (fun _ _ => rfl)
    (nlist.nri - 0).toNat 0 _ (le_refl _) h]
  simp only [outer_init, zero_add]

theorem rf_VF_loop_inneriter (invsqrt : ℚ → ℚ) (nlist : t_nblist) (xx : Int → ℚ)
    (fr : t_forcerec) (mdatoms : t_mdatoms) (st : KState) (h : 0 ≤ nlist.nri) :
    (rf_VF_loop invsqrt nlist xx fr mdatoms st).inneriter
      = nlist.jindex nlist.nri - nlist.jindex 0 := by
  unfold rf_VF_loop
  rw [forLoop_telescope OuterSt.inneriter nlist.jindex _ _ (fun _ _ => rfl)
    (nlist.nri - 0).toNat 0 _ (le_refl _) h]
  simp only [outer_init, zero_add]

theorem rf_F_loop_inneriter (invsqrt : ℚ → ℚ) (nlist : t_nblist) (xx : Int → ℚ)
    (fr : t_forcerec) (mdatoms : t_mdatoms) (st : KState) (h : 0 ≤ nlist.nri) :
    (rf_F_loop invsqrt nlist xx fr mdatoms st).inneriter
      = nlist.jindex nlist.nri - nlist.jindex 0 := by
  unfold rf_F_loop
  rw [forLoop_telescope OuterSt.inneriter nlist.jindex _ _ (fun _ _ => rfl)
    (nlist.nri - 0).toNat 0 _ (le_refl _) h]
  simp only [outer_init, zero_add]

/-- Monotone range starts: the last start is at least the first. -/
theorem jindex_mono (jindex : Int → Int) (m : Nat) :
    ∀ n : Int, n.toNat ≤ m → 0 ≤ n →
      (∀ i : Int, 0 ≤ i → i < n → jindex i ≤ jindex (i + 1)) → jindex 0 ≤ jindex n := by
  induction m with
  | zero =>
    intro n hm hn _
    have : n = 0 := by omega
    rw [this]
  | succ m ih =>
    intro n hm hn h
    by_cases h0 : n = 0
    · rw [h0]
    · have h1 := ih (n - 1) (by omega) (by omega) (fun i hi hin => h i hi (by omega))
      have h2 := h (n - 1) (by omega) (by omega)
      rw [sub_add_cancel] at h2
      exact le_trans h1 h2

theorem rf_F_block1_closed (invsqrt : ℚ → ℚ) (nlist : t_nblist) (x : Int → ℚ)
    (charge : Int → ℚ) (vdwtype : Int → Int) (vdwparam : Int → ℚ) (krf : ℚ)
    (q0 q1 q2 : ℚ) (off : Int) (ix0 iy0 iz0 ix1 iy1 iz1 ix2 iy2 iz2 : ℚ) (jidx : Int)
    (s : RFInner) (j : Int) (hjj : nlist.jjnr jidx = j)
    (rsq0 rsq1 rsq2 r0 r1 r2 F0 F1 F2 : ℚ)
    (hrsq0 : rsq0 = lane_rsq ix0 iy0 iz0 x (DIM * j))
    (hrsq1 : rsq1 = lane_rsq ix1 iy1 iz1 x (DIM * j))
    (hrsq2 : rsq2 = lane_rsq ix2 iy2 iz2 x (DIM * j))
    (hr0 : r0 = invsqrt rsq0) (hr1 : r1 = invsqrt rsq1) (hr2 : r2 = invsqrt rsq2)
    (hF0 : F0 = q0 * charge j * (r0 * (r0 * r0) - krf * 2)
      + (vdwparam (off + 2 * vdwtype j + 1) * (r0 * r0 * (r0 * r0) * (r0 * r0))
          - vdwparam (off + 2 * vdwtype j)) * (r0 * r0 * (r0 * r0) * (r0 * r0) * (r0 * r0)))
    (hF1 : F1 = q1 * charge j * (r1 * (r1 * r1) - krf * 2))
    (hF2 : F2 = q2 * charge j * (r2 * (r2 * r2) - krf * 2)) :
    rf_F_block1 invsqrt nlist x charge vdwtype vdwparam
        (_mm_set1_pd (krf * 2)) (_mm_set1_pd q0) (_mm_set1_pd q1)
        (_mm_set1_pd q2) off (_mm_set1_pd ix0) (_mm_set1_pd iy0) (_mm_set1_pd iz0)
        (_mm_set1_pd ix1) (_mm_set1_pd iy1) (_mm_set1_pd iz1)
        (_mm_set1_pd ix2) (_mm_set1_pd iy2) (_mm_set1_pd iz2) jidx s =
      { f := fun k => s.f k - bump (DIM * j)
            (F0 * (ix0 - x (DIM * j)) + F1 * (ix1 - x (DIM * j)) + F2 * (ix2 - x (DIM * j)))
            (F0 * (iy0 - x (DIM * j + 1)) + F1 * (iy1 - x (DIM * j + 1))
              + F2 * (iy2 - x (DIM * j + 1)))
            (F0 * (iz0 - x (DIM * j + 2)) + F1 * (iz1 - x (DIM * j + 2))
              + F2 * (iz2 - x (DIM * j + 2))) k
        fix0 := ⟨s.fix0.lo + F0 * (ix0 - x (DIM * j)), s.fix0.hi⟩
        fiy0 := ⟨s.fiy0.lo + F0 * (iy0 - x (DIM * j + 1)), s.fiy0.hi⟩
        fiz0 := ⟨s.fiz0.lo + F0 * (iz0 - x (DIM * j + 2)), s.fiz0.hi⟩
        fix1 := ⟨s.fix1.lo + F1 * (ix1 - x (DIM * j)), s.fix1.hi⟩
        fiy1 := ⟨s.fiy1.lo + F1 * (iy1 - x (DIM * j + 1)), s.fiy1.hi⟩
        fiz1 := ⟨s.fiz1.lo + F1 * (iz1 - x (DIM * j + 2)), s.fiz1.hi⟩
        fix2 := ⟨s.fix2.lo + F2 * (ix2 - x (DIM * j)), s.fix2.hi⟩
        fiy2 := ⟨s.fiy2.lo + F2 * (iy2 - x (DIM * j + 1)), s.fiy2.hi⟩
        fiz2 := ⟨s.fiz2.lo + F2 * (iz2 - x (DIM * j + 2)), s.fiz2.hi⟩
        velecsum := s.velecsum
        vvdwsum := s.vvdwsum } := by
  unfold rf_F_block1
  simp only [_mm_set1_pd, _mm_setzero_pd, _mm_load_sd, _mm_add_pd, _mm_sub_pd, _mm_mul_pd,
    _mm_unpacklo_pd, gmx_mm_calc_rsq_pd, sse2_invsqrt_d, gmx_mm_load_1rvec_1ptr_swizzle_pd,
    gmx_mm_load_1pair_swizzle_pd, gmx_mm_decrement_1rvec_1ptr_swizzle_pd, store3_eq_bump,
    add_zero, zero_add, mul_zero, zero_mul, hjj]
  simp only [lane_rsq] at hrsq0 hrsq1 hrsq2
  simp only [← hrsq0, ← hrsq1, ← hrsq2, ← hr0, ← hr1, ← hr2, ← hF0, ← hF1, ← hF2]

/-- The branch test of the LJSh remainder block also looks at the unused lane, whose
partner coordinates are zero: it passes when the real pair is within cutoff or when the
outer particle is closer than the cutoff to the origin. -/
theorem ljsh_block1_any_lt (x : Int → ℚ) (rc2 ix iy iz : ℚ) (p : Int) :
    gmx_mm_any_lt
        (gmx_mm_calc_rsq_pd
          (_mm_sub_pd (_mm_set1_pd ix) (gmx_mm_load_1rvec_1ptr_swizzle_pd x p).x)
          (_mm_sub_pd (_mm_set1_pd iy) (gmx_mm_load_1rvec_1ptr_swizzle_pd x p).y)
          (_mm_sub_pd (_mm_set1_pd iz) (gmx_mm_load_1rvec_1ptr_swizzle_pd x p).z))
        (_mm_set1_pd rc2) = true
      ↔ (lane_rsq ix iy iz x p < rc2 ∨ ix * ix + iy * iy + iz * iz < rc2) := by
  rw [gmx_mm_any_lt_iff]
  simp only [lane_rsq, _mm_set1_pd, _mm_load_sd, _mm_add_pd, _mm_sub_pd, _mm_mul_pd,
    gmx_mm_calc_rsq_pd, gmx_mm_load_1rvec_1ptr_swizzle_pd, sub_zero]

theorem cmplt_of_not_any_lt (a b : M128d) (h : ¬ gmx_mm_any_lt a b = true) :
    _mm_cmplt_pd a b = ⟨false, false⟩ := by
  rw [gmx_mm_any_lt_iff] at h
  push_neg at h
  simp only [_mm_cmplt_pd, decide_eq_false (not_lt.mpr h.1), decide_eq_false (not_lt.mpr h.2)]

theorem and_pd_false (v : M128d) : _mm_and_pd v ⟨false, false⟩ = _mm_setzero_pd := by
  simp [_mm_and_pd, _mm_setzero_pd]

theorem mul_pd_zero (d : M128d) : _mm_mul_pd d _mm_setzero_pd = _mm_setzero_pd := by
  simp [_mm_mul_pd, _mm_setzero_pd]

theorem macc_pd_zero (d a : M128d) : _mm_macc_pd d _mm_setzero_pd a = a := by
  simp [_mm_macc_pd, _mm_setzero_pd]

theorem add_pd_zero (a : M128d) : _mm_add_pd a _mm_setzero_pd = a := by
  simp [_mm_add_pd, _mm_setzero_pd]

theorem unpacklo_pd_zero : _mm_unpacklo_pd _mm_setzero_pd _mm_setzero_pd = _mm_setzero_pd := rfl

/-- Subtracting zero from two partners returns the force array, also when both
pointers name the same partner. -/
theorem decrement_2ptr_zero (f : Int → ℚ) (A B : Int) :
    gmx_mm_decrement_1rvec_2ptr_swizzle_pd f A B _mm_setzero_pd _mm_setzero_pd _mm_setzero_pd
      = f := by
  funext k
  simp only [gmx_mm_decrement_1rvec_2ptr_swizzle_pd, store, _mm_setzero_pd, sub_zero]
  split_ifs <;> subst_vars <;> rfl

theorem decrement_1ptr_zero (f : Int → ℚ) (A : Int) :
    gmx_mm_decrement_1rvec_1ptr_swizzle_pd f A _mm_setzero_pd _mm_setzero_pd _mm_setzero_pd
      = f := by
  funext k
  simp only [gmx_mm_decrement_1rvec_1ptr_swizzle_pd, store, _mm_setzero_pd, sub_zero]
  split_ifs <;> subst_vars <;> rfl

theorem ljsh_VF_block2_nobranch_eq (nlist : t_nblist) (x : Int → ℚ) (vdwtype : Int → Int)
    (vdwparam : Int → ℚ) (rcutoff2 sh_vdw_invrcut6 : M128d) (ix0 iy0 iz0 : M128d)
    (vdwioffset0 : Int) (jidx : Int) (s : LJShInner) :
    ljsh_VF_block2 nlist x vdwtype vdwparam rcutoff2 sh_vdw_invrcut6 ix0 iy0 iz0
        vdwioffset0 jidx s
      = ljsh_VF_block2_nobranch nlist x vdwtype vdwparam rcutoff2 sh_vdw_invrcut6 ix0 iy0 iz0
        vdwioffset0 jidx s := by
  unfold ljsh_VF_block2 ljsh_VF_block2_nobranch
  simp only []
  split_ifs with h
  · rfl
  · simp only [cmplt_of_not_any_lt _ _ h, and_pd_false, mul_pd_zero, macc_pd_zero,
      add_pd_zero, decrement_2ptr_zero]

theorem ljsh_VF_block1_nobranch_eq (nlist : t_nblist) (x : Int → ℚ) (vdwtype : Int → Int)
    (vdwparam : Int → ℚ) (rcutoff2 sh_vdw_invrcut6 : M128d) (ix0 iy0 iz0 : M128d)
    (vdwioffset0 : Int) (jidx : Int) (s : LJShInner) :
    ljsh_VF_block1 nlist x vdwtype vdwparam rcutoff2 sh_vdw_invrcut6 ix0 iy0 iz0
        vdwioffset0 jidx s
      = ljsh_VF_block1_nobranch nlist x vdwtype vdwparam rcutoff2 sh_vdw_invrcut6 ix0 iy0 iz0
        vdwioffset0 jidx s := by
  unfold ljsh_VF_block1 ljsh_VF_block1_nobranch
  simp only []
  split_ifs with h
  · rfl
  · simp only [cmplt_of_not_any_lt _ _ h, and_pd_false, unpacklo_pd_zero, mul_pd_zero,
      macc_pd_zero, add_pd_zero, decrement_1ptr_zero]

theorem ljsh_F_block2_nobranch_eq (nlist : t_nblist) (x : Int → ℚ) (vdwtype : Int → Int)
    (vdwparam : Int → ℚ) (rcutoff2 : M128d) (ix0 iy0 iz0 : M128d)
    (vdwioffset0 : Int) (jidx : Int) (s : LJShInner) :
    ljsh_F_block2 nlist x vdwtype vdwparam rcutoff2 ix0 iy0 iz0 vdwioffset0 jidx s
      = ljsh_F_block2_nobranch nlist x vdwtype vdwparam rcutoff2 ix0 iy0 iz0
        vdwioffset0 jidx s := by
  unfold ljsh_F_block2 ljsh_F_block2_nobranch
  simp only []
  split_ifs with h
  · rfl
  · simp only [cmplt_of_not_any_lt _ _ h, and_pd_false, mul_pd_zero, macc_pd_zero,
      add_pd_zero, decrement_2ptr_zero]

theorem ljsh_F_block1_nobranch_eq (nlist : t_nblist) (x : Int → ℚ) (vdwtype : Int → Int)
    (vdwparam : Int → ℚ) (rcutoff2 : M128d) (ix0 iy0 iz0 : M128d)
    (vdwioffset0 : Int) (jidx : Int) (s : LJShInner) :
    ljsh_F_block1 nlist x vdwtype vdwparam rcutoff2 ix0 iy0 iz0 vdwioffset0 jidx s
      = ljsh_F_block1_nobranch nlist x vdwtype vdwparam rcutoff2 ix0 iy0 iz0
        vdwioffset0 jidx s := by
  unfold ljsh_F_block1 ljsh_F_block1_nobranch
  simp only []
  split_ifs with h
  · rfl
  · simp only [cmplt_of_not_any_lt _ _ h, and_pd_false, unpacklo_pd_zero, mul_pd_zero,
      macc_pd_zero, add_pd_zero, decrement_1ptr_zero]

theorem ljsh_VF_outer_nobranch_eq (nlist : t_nblist) (x : Int → ℚ) (shiftvec : Int → ℚ)
    (vdwtype : Int → Int) (vdwparam : Int → ℚ) (nvdwtype : Int)
    (rcutoff2 sh_vdw_invrcut6 : M128d) :
    ljsh_VF_outer nlist x shiftvec vdwtype vdwparam nvdwtype rcutoff2 sh_vdw_invrcut6
      = ljsh_VF_outer_nobranch nlist x shiftvec vdwtype vdwparam nvdwtype rcutoff2
          sh_vdw_invrcut6 := by
  funext iidx o
  unfold ljsh_VF_outer ljsh_VF_outer_nobranch
  have e2 : ∀ a b c d, ljsh_VF_block2 nlist x vdwtype vdwparam rcutoff2 sh_vdw_invrcut6 a b c d
      = ljsh_VF_block2_nobranch nlist x vdwtype vdwparam rcutoff2 sh_vdw_invrcut6 a b c d :=
    fun a b c d => funext fun j => funext fun s => ljsh_VF_block2_nobranch_eq _ _ _ _ _ _ _ _ _ _ _ _
  have e1 : ∀ a b c d, ljsh_VF_block1 nlist x vdwtype vdwparam rcutoff2 sh_vdw_invrcut6 a b c d
      = ljsh_VF_block1_nobranch nlist x vdwtype vdwparam rcutoff2 sh_vdw_invrcut6 a b c d :=
    fun a b c d => funext fun j => funext fun s => ljsh_VF_block1_nobranch_eq _ _ _ _ _ _ _ _ _ _ _ _
  simp only [e2, e1]

theorem ljsh_F_outer_nobranch_eq (nlist : t_nblist) (x : Int → ℚ) (shiftvec : Int → ℚ)
    (vdwtype : Int → Int) (vdwparam : Int → ℚ) (nvdwtype : Int) (rcutoff2 : M128d) :
    ljsh_F_outer nlist x shiftvec vdwtype vdwparam nvdwtype rcutoff2
      = ljsh_F_outer_nobranch nlist x shiftvec vdwtype vdwparam nvdwtype rcutoff2 := by
  funext iidx o
  unfold ljsh_F_outer ljsh_F_outer_nobranch
  have e2 : ∀ a b c d, ljsh_F_block2 nlist x vdwtype vdwparam rcutoff2 a b c d
      = ljsh_F_block2_nobranch nlist x vdwtype vdwparam rcutoff2 a b c d :=
    fun a b c d => funext fun j => funext fun s => ljsh_F_block2_nobranch_eq _ _ _ _ _ _ _ _ _ _ _
  have e1 : ∀ a b c d, ljsh_F_block1 nlist x vdwtype vdwparam rcutoff2 a b c d
      = ljsh_F_block1_nobranch nlist x vdwtype vdwparam rcutoff2 a b c d :=
    fun a b c d => funext fun j => funext fun s => ljsh_F_block1_nobranch_eq _ _ _ _ _ _ _ _ _ _ _
  simp only [e2, e1]

theorem innerLoop_congr {σ : Type} (b2 b1 b2' b1' : Int → σ → σ) (e : Int) (m : Nat) :
    ∀ (j : Int) (s : σ), (e - j).toNat ≤ m →
      (∀ k : Int, j ≤ k → k + 1 < e → ∀ t, b2 k t = b2' k t) →
      (∀ k : Int, j ≤ k → k < e → ∀ t, b1 k t = b1' k t) →
      innerLoop b2 b1 j e s = innerLoop b2' b1' j e s := by
  induction m using Nat.strong_induction_on with
  | _ m ih =>
    intro j s hm h2 h1
    by_cases hlt : j < e - 1
    · rw [innerLoop_step _ _ _ _ _ hlt, innerLoop_step _ _ _ _ _ hlt,
        h2 j (le_refl j) (by omega)]
      exact ih (m - 2) (by omega) (j + 2) _ (by omega)
        (fun k hk hke t => h2 k (by omega) hke t) (fun k hk hke t => h1 k (by omega) hke t)
    · by_cases hl : j < e
      · rw [innerLoop_last _ _ _ _ _ (by omega), innerLoop_last _ _ _ _ _ (by omega),
          h1 j (le_refl j) hl]
      · rw [innerLoop_done _ _ _ _ _ (by omega), innerLoop_done _ _ _ _ _ (by omega)]

theorem shifted_x_off (x : Int → ℚ) (p : Int) (sv : Int → ℚ) (q k : Int)
    (h : k < p ∨ p + 2 < k) : shifted_x x p sv q k = x k := by
  unfold shifted_x
  rw [incr3_apply]
  simp only [bump_off p _ _ _ k h, add_zero]

theorem shifted_x3_off (x : Int → ℚ) (p : Int) (sv : Int → ℚ) (q k : Int)
    (h : k < p ∨ p + 8 < k) : shifted_x3 x p sv q k = x k := by
  unfold shifted_x3
  rw [shifted_x_off _ _ _ _ _ (by omega), shifted_x_off _ _ _ _ _ (by omega),
    shifted_x_off _ _ _ _ _ (by omega)]

theorem load_shift_moved (x : Int → ℚ) (p : Int) (sv : Int → ℚ) (q : Int) :
    gmx_mm_load_shift_and_1rvec_broadcast_pd (fun _ => 0) q (shifted_x x p sv q) p
      = gmx_mm_load_shift_and_1rvec_broadcast_pd sv q x p := by
  unfold gmx_mm_load_shift_and_1rvec_broadcast_pd shifted_x
  rw [incr3_apply]
  simp only [bump_at0, bump_at1, bump_at2, add_zero]

theorem load_shift_moved3 (x : Int → ℚ) (p : Int) (sv : Int → ℚ) (q : Int) :
    gmx_mm_load_shift_and_3rvec_broadcast_pd (fun _ => 0) q (shifted_x3 x p sv q) p
      = gmx_mm_load_shift_and_3rvec_broadcast_pd sv q x p := by
  have h0 : ∀ k, k < p + 3 → shifted_x3 x p sv q k = shifted_x x p sv q k := by
    intro k hk
    unfold shifted_x3
    rw [shifted_x_off _ _ _ _ _ (by omega), shifted_x_off _ _ _ _ _ (by omega)]
  have h1 : ∀ k, p + 3 ≤ k → k < p + 6 →
      shifted_x3 x p sv q k = shifted_x x (p + 3) sv q k := by
    intro k hk hk'
    unfold shifted_x3
    rw [shifted_x_off _ (p + 6) _ _ _ (by omega)]
    unfold shifted_x
    rw [incr3_apply, incr3_apply, incr3_apply]
    simp only [bump_off p _ _ _ k (by omega), add_zero]
  have h2 : ∀ k, p + 6 ≤ k →
      shifted_x3 x p sv q k = shifted_x x (p + 6) sv q k := by
    intro k hk
    unfold shifted_x3 shifted_x
    rw [incr3_apply, incr3_apply, incr3_apply, incr3_apply]
    simp only [bump_off p _ _ _ k (by omega), bump_off (p + 3) _ _ _ k (by omega), add_zero]
  unfold gmx_mm_load_shift_and_3rvec_broadcast_pd
  have e0 := load_shift_moved x p sv q
  have e1 := load_shift_moved x (p + 3) sv q
  have e2 := load_shift_moved x (p + 6) sv q
  unfold gmx_mm_load_shift_and_1rvec_broadcast_pd at e0 e1 e2 ⊢
  rw [h0 p (by omega), h0 (p + 1) (by omega), h0 (p + 2) (by omega),
    h1 (p + 3) (by omega) (by omega), h1 (p + 3 + 1) (by omega) (by omega),
    h1 (p + 3 + 2) (by omega) (by omega), h2 (p + 6) (by omega), h2 (p + 6 + 1) (by omega),
    h2 (p + 6 + 2) (by omega), e0, e1, e2]

theorem load_2ptr_congr (x x' : Int → ℚ) (A B : Int)
    (hA : ∀ k, A ≤ k → k ≤ A + 2 → x' k = x k) (hB : ∀ k, B ≤ k → k ≤ B + 2 → x' k = x k) :
    gmx_mm_load_1rvec_2ptr_swizzle_pd x' A B = gmx_mm_load_1rvec_2ptr_swizzle_pd x A B := by
  unfold gmx_mm_load_1rvec_2ptr_swizzle_pd
  rw [hA A (by omega) (by omega), hA (A + 1) (by omega) (by omega),
    hA (A + 2) (by omega) (by omega), hB B (by omega) (by omega),
    hB (B + 1) (by omega) (by omega), hB (B + 2) (by omega) (by omega)]

theorem load_1ptr_congr (x x' : Int → ℚ) (A : Int)
    (hA : ∀ k, A ≤ k → k ≤ A + 2 → x' k = x k) :
    gmx_mm_load_1rvec_1ptr_swizzle_pd x' A = gmx_mm_load_1rvec_1ptr_swizzle_pd x A := by
  unfold gmx_mm_load_1rvec_1ptr_swizzle_pd
  rw [hA A (by omega) (by omega), hA (A + 1) (by omega) (by omega),
    hA (A + 2) (by omega) (by omega)]

theorem ljsh_VF_block2_congr_x (nlist : t_nblist) (x x' : Int → ℚ) (vdwtype : Int → Int)
    (vdwparam : Int → ℚ) (rcutoff2 sh_vdw_invrcut6 : M128d) (ix0 iy0 iz0 : M128d)
    (vdwioffset0 : Int) (jidx : Int) (s : LJShInner)
    (hA : ∀ k, DIM * nlist.jjnr jidx ≤ k → k ≤ DIM * nlist.jjnr jidx + 2 → x' k = x k)
    (hB : ∀ k, DIM * nlist.jjnr (jidx + 1) ≤ k → k ≤ DIM * nlist.jjnr (jidx + 1) + 2 →
      x' k = x k) :
    ljsh_VF_block2 nlist x' vdwtype vdwparam rcutoff2 sh_vdw_invrcut6 ix0 iy0 iz0 vdwioffset0 jidx s
      = ljsh_VF_block2 nlist x vdwtype vdwparam rcutoff2 sh_vdw_invrcut6 ix0 iy0 iz0 vdwioffset0 jidx s := by
  unfold ljsh_VF_block2
  simp only [load_2ptr_congr x x' _ _ hA hB]

theorem ljsh_VF_block1_congr_x (nlist : t_nblist) (x x' : Int → ℚ) (vdwtype : Int → Int)
    (vdwparam : Int → ℚ) (rcutoff2 sh_vdw_invrcut6 : M128d) (ix0 iy0 iz0 : M128d)
    (vdwioffset0 : Int) (jidx : Int) (s : LJShInner)
    (hA : ∀ k, DIM * nlist.jjnr jidx ≤ k → k ≤ DIM * nlist.jjnr jidx + 2 → x' k = x k) :
    ljsh_VF_block1 nlist x' vdwtype vdwparam rcutoff2 sh_vdw_invrcut6 ix0 iy0 iz0 vdwioffset0 jidx s
      = ljsh_VF_block1 nlist x vdwtype vdwparam rcutoff2 sh_vdw_invrcut6 ix0 iy0 iz0 vdwioffset0 jidx s := by
  unfold ljsh_VF_block1
  simp only [load_1ptr_congr x x' _ hA]

theorem ljsh_F_block2_congr_x (nlist : t_nblist) (x x' : Int → ℚ) (vdwtype : Int → Int)
    (vdwparam : Int → ℚ) (rcutoff2 : M128d) (ix0 iy0 iz0 : M128d)
    (vdwioffset0 : Int) (jidx : Int) (s : LJShInner)
    (hA : ∀ k, DIM * nlist.jjnr jidx ≤ k → k ≤ DIM * nlist.jjnr jidx + 2 → x' k = x k)
    (hB : ∀ k, DIM * nlist.jjnr (jidx + 1) ≤ k → k ≤ DIM * nlist.jjnr (jidx + 1) + 2 →
      x' k = x k) :
    ljsh_F_block2 nlist x' vdwtype vdwparam rcutoff2 ix0 iy0 iz0 vdwioffset0 jidx s
      = ljsh_F_block2 nlist x vdwtype vdwparam rcutoff2 ix0 iy0 iz0 vdwioffset0 jidx s := by
  unfold ljsh_F_block2
  simp only [load_2ptr_congr x x' _ _ hA hB]

theorem ljsh_F_block1_congr_x (nlist : t_nblist) (x x' : Int → ℚ) (vdwtype : Int → Int)
    (vdwparam : Int → ℚ) (rcutoff2 : M128d) (ix0 iy0 iz0 : M128d)
    (vdwioffset0 : Int) (jidx : Int) (s : LJShInner)
    (hA : ∀ k, DIM * nlist.jjnr jidx ≤ k → k ≤ DIM * nlist.jjnr jidx + 2 → x' k = x k) :
    ljsh_F_block1 nlist x' vdwtype vdwparam rcutoff2 ix0 iy0 iz0 vdwioffset0 jidx s
      = ljsh_F_block1 nlist x vdwtype vdwparam rcutoff2 ix0 iy0 iz0 vdwioffset0 jidx s := by
  unfold ljsh_F_block1
  simp only [load_1ptr_congr x x' _ hA]

theorem rf_VF_block2_congr_x (invsqrt : ℚ → ℚ) (nlist : t_nblist) (x x' : Int → ℚ) (charge : Int → ℚ)
    (vdwtype : Int → Int) (vdwparam : Int → ℚ) (krf krf2 crf : M128d) (iq0 iq1 iq2 : M128d)
    (vdwioffset0 : Int) (ix0 iy0 iz0 ix1 iy1 iz1 ix2 iy2 iz2 : M128d) (jidx : Int)
    (s : RFInner)
    (hA : ∀ k, DIM * nlist.jjnr jidx ≤ k → k ≤ DIM * nlist.jjnr jidx + 2 → x' k = x k)
    (hB : ∀ k, DIM * nlist.jjnr (jidx + 1) ≤ k → k ≤ DIM * nlist.jjnr (jidx + 1) + 2 →
      x' k = x k) :
    rf_VF_block2 invsqrt nlist x' charge vdwtype vdwparam krf krf2 crf iq0 iq1 iq2
        vdwioffset0 ix0 iy0 iz0 ix1 iy1 iz1 ix2 iy2 iz2 jidx s
      = rf_VF_block2 invsqrt nlist x charge vdwtype vdwparam krf krf2 crf iq0 iq1 iq2
        vdwioffset0 ix0 iy0 iz0 ix1 iy1 iz1 ix2 iy2 iz2 jidx s := by
  unfold rf_VF_block2
  simp only [load_2ptr_congr x x' _ _ hA hB]

theorem rf_VF_block1_congr_x (invsqrt : ℚ → ℚ) (nlist : t_nblist) (x x' : Int → ℚ) (charge : Int → ℚ)
    (vdwtype : Int → Int) (vdwparam : Int → ℚ) (krf krf2 crf : M128d) (iq0 iq1 iq2 : M128d)
    (vdwioffset0 : Int) (ix0 iy0 iz0 ix1 iy1 iz1 ix2 iy2 iz2 : M128d) (jidx : Int)
    (s : RFInner)
    (hA : ∀ k, DIM * nlist.jjnr jidx ≤ k → k ≤ DIM * nlist.jjnr jidx + 2 → x' k = x k) :
    rf_VF_block1 invsqrt nlist x' charge vdwtype vdwparam krf krf2 crf iq0 iq1 iq2
        vdwioffset0 ix0 iy0 iz0 ix1 iy1 iz1 ix2 iy2 iz2 jidx s
      = rf_VF_block1 invsqrt nlist x charge vdwtype vdwparam krf krf2 crf iq0 iq1 iq2
        vdwioffset0 ix0 iy0 iz0 ix1 iy1 iz1 ix2 iy2 iz2 jidx s := by
  unfold rf_VF_block1
  simp only [load_1ptr_congr x x' _ hA]

theorem rf_F_block2_congr_x (invsqrt : ℚ → ℚ) (nlist : t_nblist) (x x' : Int → ℚ) (charge : Int → ℚ)
    (vdwtype : Int → Int) (vdwparam : Int → ℚ) (krf2 : M128d) (iq0 iq1 iq2 : M128d)
    (vdwioffset0 : Int) (ix0 iy0 iz0 ix1 iy1 iz1 ix2 iy2 iz2 : M128d) (jidx : Int)
    (s : RFInner)
    (hA : ∀ k, DIM * nlist.jjnr jidx ≤ k → k ≤ DIM * nlist.jjnr jidx + 2 → x' k = x k)
    (hB : ∀ k, DIM * nlist.jjnr (jidx + 1) ≤ k → k ≤ DIM * nlist.jjnr (jidx + 1) + 2 →
      x' k = x k) :
    rf_F_block2 invsqrt nlist x' charge vdwtype vdwparam krf2 iq0 iq1 iq2
        vdwioffset0 ix0 iy0 iz0 ix1 iy1 iz1 ix2 iy2 iz2 jidx s
      = rf_F_block2 invsqrt nlist x charge vdwtype vdwparam krf2 iq0 iq1 iq2
        vdwioffset0 ix0 iy0 iz0 ix1 iy1 iz1 ix2 iy2 iz2 jidx s := by
  unfold rf_F_block2
  simp only [load_2ptr_congr x x' _ _ hA hB]

theorem rf_F_block1_congr_x (invsqrt : ℚ → ℚ) (nlist : t_nblist) (x x' : Int → ℚ) (charge : Int → ℚ)
    (vdwtype : Int → Int) (vdwparam : Int → ℚ) (krf2 : M128d) (iq0 iq1 iq2 : M128d)
    (vdwioffset0 : Int) (ix0 iy0 iz0 ix1 iy1 iz1 ix2 iy2 iz2 : M128d) (jidx : Int)
    (s : RFInner)
    (hA : ∀ k, DIM * nlist.jjnr jidx ≤ k → k ≤ DIM * nlist.jjnr jidx + 2 → x' k = x k) :
    rf_F_block1 invsqrt nlist x' charge vdwtype vdwparam krf2 iq0 iq1 iq2
        vdwioffset0 ix0 iy0 iz0 ix1 iy1 iz1 ix2 iy2 iz2 jidx s
      = rf_F_block1 invsqrt nlist x charge vdwtype vdwparam krf2 iq0 iq1 iq2
        vdwioffset0 ix0 iy0 iz0 ix1 iy1 iz1 ix2 iy2 iz2 jidx s := by
  unfold rf_F_block1
  simp only [load_1ptr_congr x x' _ hA]

theorem shifted_x_partner (x : Int → ℚ) (i j : Int) (sv : Int → ℚ) (q : Int) (h : j ≠ i) :
    ∀ k, DIM * j ≤ k → k ≤ DIM * j + 2 → shifted_x x (DIM * i) sv q k = x k := by
  intro k h1 h2
  apply shifted_x_off
  unfold DIM at *
  omega

theorem shifted_x3_partner (x : Int → ℚ) (i j : Int) (sv : Int → ℚ) (q : Int)
    (h : j < i ∨ i + 2 < j) :
    ∀ k, DIM * j ≤ k → k ≤ DIM * j + 2 → shifted_x3 x (DIM * i) sv q k = x k := by
  intro k h1 h2
  apply shifted_x3_off
  unfold DIM at *
  omega

theorem ljsh_VF_outer_shift (nlist : t_nblist) (x : Int → ℚ) (shiftvec : Int → ℚ)
    (vdwtype : Int → Int) (vdwparam : Int → ℚ) (nvdwtype : Int)
    (rcutoff2 sh_vdw_invrcut6 : M128d) (iidx : Int) (o : OuterSt)
    (hself : ∀ jidx : Int, nlist.jindex iidx ≤ jidx → jidx < nlist.jindex (iidx + 1) →
      nlist.jjnr jidx ≠ nlist.iinr iidx) :
    ljsh_VF_outer nlist
        (shifted_x x (DIM * nlist.iinr iidx) shiftvec (DIM * nlist.shift iidx))
        (fun _ => 0) vdwtype vdwparam nvdwtype rcutoff2 sh_vdw_invrcut6 iidx o
      = ljsh_VF_outer nlist x shiftvec vdwtype vdwparam nvdwtype rcutoff2 sh_vdw_invrcut6
          iidx o := by
  have key : ∀ (ix0 iy0 iz0 : M128d) (off : Int) (s0 : LJShInner),
      innerLoop
        (ljsh_VF_block2 nlist
          (shifted_x x (DIM * nlist.iinr iidx) shiftvec (DIM * nlist.shift iidx))
          vdwtype vdwparam rcutoff2 sh_vdw_invrcut6 ix0 iy0 iz0 off)
        (ljsh_VF_block1 nlist
          (shifted_x x (DIM * nlist.iinr iidx) shiftvec (DIM * nlist.shift iidx))
          vdwtype vdwparam rcutoff2 sh_vdw_invrcut6 ix0 iy0 iz0 off)
        (nlist.jindex iidx) (nlist.jindex (iidx + 1)) s0
      = innerLoop
        (ljsh_VF_block2 nlist x vdwtype vdwparam rcutoff2 sh_vdw_invrcut6 ix0 iy0 iz0 off)
        (ljsh_VF_block1 nlist x vdwtype vdwparam rcutoff2 sh_vdw_invrcut6 ix0 iy0 iz0 off)
        (nlist.jindex iidx) (nlist.jindex (iidx + 1)) s0 := by
    intro ix0 iy0 iz0 off s0
    apply innerLoop_congr _ _ _ _ _ (nlist.jindex (iidx + 1) - nlist.jindex iidx).toNat _ _
      (le_refl _)
    · intro k hk hke t
      exact ljsh_VF_block2_congr_x _ _ _ _ _ _ _ _ _ _ _ _ _
        (shifted_x_partner _ _ _ _ _ (hself k hk (by omega)))
        (shifted_x_partner _ _ _ _ _ (hself (k + 1) (by omega) hke))
    · intro k hk hke t
      exact ljsh_VF_block1_congr_x _ _ _ _ _ _ _ _ _ _ _ _ _
        (shifted_x_partner _ _ _ _ _ (hself k hk hke))
  unfold ljsh_VF_outer
  simp only [load_shift_moved, key]

theorem ljsh_F_outer_shift (nlist : t_nblist) (x : Int → ℚ) (shiftvec : Int → ℚ)
    (vdwtype : Int → Int) (vdwparam : Int → ℚ) (nvdwtype : Int)
    (rcutoff2 : M128d) (iidx : Int) (o : OuterSt)
    (hself : ∀ jidx : Int, nlist.jindex iidx ≤ jidx → jidx < nlist.jindex (iidx + 1) →
      nlist.jjnr jidx ≠ nlist.iinr iidx) :
    ljsh_F_outer nlist
        (shifted_x x (DIM * nlist.iinr iidx) shiftvec (DIM * nlist.shift iidx))
        (fun _ => 0) vdwtype vdwparam nvdwtype rcutoff2 iidx o
      = ljsh_F_outer nlist x shiftvec vdwtype vdwparam nvdwtype rcutoff2 iidx o := by
  have key : ∀ (ix0 iy0 iz0 : M128d) (off : Int) (s0 : LJShInner),
      innerLoop
        (ljsh_F_block2 nlist
          (shifted_x x (DIM * nlist.iinr iidx) shiftvec (DIM * nlist.shift iidx))
          vdwtype vdwparam rcutoff2 ix0 iy0 iz0 off)
        (ljsh_F_block1 nlist
          (shifted_x x (DIM * nlist.iinr iidx) shiftvec (DIM * nlist.shift iidx))
          vdwtype vdwparam rcutoff2 ix0 iy0 iz0 off)
        (nlist.jindex iidx) (nlist.jindex (iidx + 1)) s0
      = innerLoop
        (ljsh_F_block2 nlist x vdwtype vdwparam rcutoff2 ix0 iy0 iz0 off)
        (ljsh_F_block1 nlist x vdwtype vdwparam rcutoff2 ix0 iy0 iz0 off)
        (nlist.jindex iidx) (nlist.jindex (iidx + 1)) s0 := by
    intro ix0 iy0 iz0 off s0
    apply innerLoop_congr _ _ _ _ _ (nlist.jindex (iidx + 1) - nlist.jindex iidx).toNat _ _
      (le_refl _)
    · intro k hk hke t
      exact ljsh_F_block2_congr_x _ _ _ _ _ _ _ _ _ _ _ _
        (shifted_x_partner _ _ _ _ _ (hself k hk (by omega)))
        (shifted_x_partner _ _ _ _ _ (hself (k + 1) (by omega) hke))
    · intro k hk hke t
      exact ljsh_F_block1_congr_x _ _ _ _ _ _ _ _ _ _ _ _
        (shifted_x_partner _ _ _ _ _ (hself k hk hke))
  unfold ljsh_F_outer
  simp only [load_shift_moved, key]

theorem rf_VF_outer_shift (invsqrt : ℚ → ℚ) (nlist : t_nblist) (x : Int → ℚ)
    (shiftvec : Int → ℚ) (charge : Int → ℚ) (vdwtype : Int → Int) (vdwparam : Int → ℚ)
    (krf krf2 crf iq0 iq1 iq2 : M128d) (vdwioffset0 : Int) (iidx : Int) (o : OuterSt)
    (hself : ∀ jidx : Int, nlist.jindex iidx ≤ jidx → jidx < nlist.jindex (iidx + 1) →
      nlist.jjnr jidx < nlist.iinr iidx ∨ nlist.iinr iidx + 2 < nlist.jjnr jidx) :
    rf_VF_outer invsqrt nlist
        (shifted_x3 x (DIM * nlist.iinr iidx) shiftvec (DIM * nlist.shift iidx))
        (fun _ => 0) charge vdwtype vdwparam krf krf2 crf iq0 iq1 iq2 vdwioffset0 iidx o
      = rf_VF_outer invsqrt nlist x shiftvec charge vdwtype vdwparam krf krf2 crf iq0 iq1 iq2
          vdwioffset0 iidx o := by
  have key : ∀ (ix0 iy0 iz0 ix1 iy1 iz1 ix2 iy2 iz2 : M128d) (s0 : RFInner),
      innerLoop
        (rf_VF_block2 invsqrt nlist
          (shifted_x3 x (DIM * nlist.iinr iidx) shiftvec (DIM * nlist.shift iidx))
          charge vdwtype vdwparam krf krf2 crf iq0 iq1 iq2 vdwioffset0
          ix0 iy0 iz0 ix1 iy1 iz1 ix2 iy2 iz2)
        (rf_VF_block1 invsqrt nlist
          (shifted_x3 x (DIM * nlist.iinr iidx) shiftvec (DIM * nlist.shift iidx))
          charge vdwtype vdwparam krf krf2 crf iq0 iq1 iq2 vdwioffset0
          ix0 iy0 iz0 ix1 iy1 iz1 ix2 iy2 iz2)
        (nlist.jindex iidx) (nlist.jindex (iidx + 1)) s0
      = innerLoop
        (rf_VF_block2 invsqrt nlist x charge vdwtype vdwparam krf krf2 crf iq0 iq1 iq2
          vdwioffset0 ix0 iy0 iz0 ix1 iy1 iz1 ix2 iy2 iz2)
        (rf_VF_block1 invsqrt nlist x charge vdwtype vdwparam krf krf2 crf iq0 iq1 iq2
          vdwioffset0 ix0 iy0 iz0 ix1 iy1 iz1 ix2 iy2 iz2)
        (nlist.jindex iidx) (nlist.jindex (iidx + 1)) s0 := by
    intro ix0 iy0 iz0 ix1 iy1 iz1 ix2 iy2 iz2 s0
    apply innerLoop_congr _ _ _ _ _ (nlist.jindex (iidx + 1) - nlist.jindex iidx).toNat _ _
      (le_refl _)
    · intro k hk hke t
      exact rf_VF_block2_congr_x _ _ _ _ _ _ _ _ _ _ _ _ _ _ _ _ _ _ _ _ _ _ _ _ _
        (shifted_x3_partner _ _ _ _ _ (hself k hk (by omega)))
        (shifted_x3_partner _ _ _ _ _ (hself (k + 1) (by omega) hke))
    · intro k hk hke t
      exact rf_VF_block1_congr_x _ _ _ _ _ _ _ _ _ _ _ _ _ _ _ _ _ _ _ _ _ _ _ _ _
        (shifted_x3_partner _ _ _ _ _ (hself k hk hke))
  unfold rf_VF_outer
  simp only [load_shift_moved3, key]

theorem rf_F_outer_shift (invsqrt : ℚ → ℚ) (nlist : t_nblist) (x : Int → ℚ)
    (shiftvec : Int → ℚ) (charge : Int → ℚ) (vdwtype : Int → Int) (vdwparam : Int → ℚ)
    (krf2 iq0 iq1 iq2 : M128d) (vdwioffset0 : Int) (iidx : Int) (o : OuterSt)
    (hself : ∀ jidx : Int, nlist.jindex iidx ≤ jidx → jidx < nlist.jindex (iidx + 1) →
      nlist.jjnr jidx < nlist.iinr iidx ∨ nlist.iinr iidx + 2 < nlist.jjnr jidx) :
    rf_F_outer invsqrt nlist
        (shifted_x3 x (DIM * nlist.iinr iidx) shiftvec (DIM * nlist.shift iidx))
        (fun _ => 0) charge vdwtype vdwparam krf2 iq0 iq1 iq2 vdwioffset0 iidx o
      = rf_F_outer invsqrt nlist x shiftvec charge vdwtype vdwparam krf2 iq0 iq1 iq2
          vdwioffset0 iidx o := by
  have key : ∀ (ix0 iy0 iz0 ix1 iy1 iz1 ix2 iy2 iz2 : M128d) (s0 : RFInner),
      innerLoop
        (rf_F_block2 invsqrt nlist
          (shifted_x3 x (DIM * nlist.iinr iidx) shiftvec (DIM * nlist.shift iidx))
          charge vdwtype vdwparam krf2 iq0 iq1 iq2 vdwioffset0
          ix0 iy0 iz0 ix1 iy1 iz1 ix2 iy2 iz2)
        (rf_F_block1 invsqrt nlist
          (shifted_x3 x (DIM * nlist.iinr iidx) shiftvec (DIM * nlist.shift iidx))
          charge vdwtype vdwparam krf2 iq0 iq1 iq2 vdwioffset0
          ix0 iy0 iz0 ix1 iy1 iz1 ix2 iy2 iz2)
        (nlist.jindex iidx) (nlist.jindex (iidx + 1)) s0
      = innerLoop
        (rf_F_block2 invsqrt nlist x charge vdwtype vdwparam krf2 iq0 iq1 iq2
          vdwioffset0 ix0 iy0 iz0 ix1 iy1 iz1 ix2 iy2 iz2)
        (rf_F_block1 invsqrt nlist x charge vdwtype vdwparam krf2 iq0 iq1 iq2
          vdwioffset0 ix0 iy0 iz0 ix1 iy1 iz1 ix2 iy2 iz2)
        (nlist.jindex iidx) (nlist.jindex (iidx + 1)) s0 := by
    intro ix0 iy0 iz0 ix1 iy1 iz1 ix2 iy2 iz2 s0
    apply innerLoop_congr _ _ _ _ _ (nlist.jindex (iidx + 1) - nlist.jindex iidx).toNat _ _
      (le_refl _)
    · intro k hk hke t
      exact rf_F_block2_congr_x _ _ _ _ _ _ _ _ _ _ _ _ _ _ _ _ _ _ _ _ _ _ _
        (shifted_x3_partner _ _ _ _ _ (hself k hk (by omega)))
        (shifted_x3_partner _ _ _ _ _ (hself (k + 1) (by omega) hke))
    · intro k hk hke t
      exact rf_F_block1_congr_x _ _ _ _ _ _ _ _ _ _ _ _ _ _ _ _ _ _ _ _ _ _ _
        (shifted_x3_partner _ _ _ _ _ (hself k hk hke))
  unfold rf_F_outer
  simp only [load_shift_moved3, key]

theorem mul_set1 (a b : ℚ) : _mm_mul_pd (_mm_set1_pd a) (_mm_set1_pd b) = _mm_set1_pd (a * b) :=
  rfl

/-- The force array returned by the RF-LJ-W3P1 VF kernel for a list with one water `i`
and one partner `j`. -/
theorem rf_VF_kernel_single_pair_f (invsqrt : ℚ → ℚ) (nlist : t_nblist)
    (xx : Int → ℚ) (fr : t_forcerec) (mdatoms : t_mdatoms) (st : KState) (i j : Int)
    (qq0 qq1 qq2 c6 c12 : ℚ)
    (dx0 dy0 dz0 dx1 dy1 dz1 dx2 dy2 dz2 rsq0 rsq1 rsq2 rinv0 rinv1 rinv2 F0 F1 F2 : ℚ)
    (hnri : nlist.nri = 1) (hj : nlist.jindex 1 = nlist.jindex 0 + 1)
    (hi : nlist.iinr 0 = i) (hjj : nlist.jjnr (nlist.jindex 0) = j)
    (hqq0 : qq0 = fr.ic.epsfac * mdatoms.chargeA i * mdatoms.chargeA j)
    (hqq1 : qq1 = fr.ic.epsfac * mdatoms.chargeA (i + 1) * mdatoms.chargeA j)
    (hqq2 : qq2 = fr.ic.epsfac * mdatoms.chargeA (i + 2) * mdatoms.chargeA j)
    (hc6 : c6 = fr.nbfp (2 * fr.ntype * mdatoms.typeA i + 2 * mdatoms.typeA j))
    (hc12 : c12 = fr.nbfp (2 * fr.ntype * mdatoms.typeA i + 2 * mdatoms.typeA j + 1))
    (hdx0 : dx0 = xx (DIM * i) + fr.shift_vec (DIM * nlist.shift 0) - xx (DIM * j))
    (hdy0 : dy0 = xx (DIM * i + 1) + fr.shift_vec (DIM * nlist.shift 0 + 1) - xx (DIM * j + 1))
    (hdz0 : dz0 = xx (DIM * i + 2) + fr.shift_vec (DIM * nlist.shift 0 + 2) - xx (DIM * j + 2))
    (hdx1 : dx1 = xx (DIM * i + 3) + fr.shift_vec (DIM * nlist.shift 0) - xx (DIM * j))
    (hdy1 : dy1 = xx (DIM * i + 4) + fr.shift_vec (DIM * nlist.shift 0 + 1) - xx (DIM * j + 1))
    (hdz1 : dz1 = xx (DIM * i + 5) + fr.shift_vec (DIM * nlist.shift 0 + 2) - xx (DIM * j + 2))
    (hdx2 : dx2 = xx (DIM * i + 6) + fr.shift_vec (DIM * nlist.shift 0) - xx (DIM * j))
    (hdy2 : dy2 = xx (DIM * i + 7) + fr.shift_vec (DIM * nlist.shift 0 + 1) - xx (DIM * j + 1))
    (hdz2 : dz2 = xx (DIM * i + 8) + fr.shift_vec (DIM * nlist.shift 0 + 2) - xx (DIM * j + 2))
    (hrsq0 : rsq0 = dx0 * dx0 + dy0 * dy0 + dz0 * dz0)
    (hrsq1 : rsq1 = dx1 * dx1 + dy1 * dy1 + dz1 * dz1)
    (hrsq2 : rsq2 = dx2 * dx2 + dy2 * dy2 + dz2 * dz2)
    (hrinv0 : rinv0 = invsqrt rsq0) (hrinv1 : rinv1 = invsqrt rsq1)
    (hrinv2 : rinv2 = invsqrt rsq2)
    (hF0 : F0 = qq0 * (rinv0 ^ 3 - 2 * fr.ic.k_rf)
      + (c12 * ((rinv0 ^ 2) ^ 3) ^ 2 - c6 * (rinv0 ^ 2) ^ 3) * rinv0 ^ 2)
    (hF1 : F1 = qq1 * (rinv1 ^ 3 - 2 * fr.ic.k_rf))
    (hF2 : F2 = qq2 * (rinv2 ^ 3 - 2 * fr.ic.k_rf)) :
    (nb_kernel_ElecRF_VdwLJ_GeomW3P1_VF_sse2_double invsqrt nlist xx fr mdatoms st).f
      = fun k => st.f k
          - bump (DIM * j) (F0 * dx0 + F1 * dx1 + F2 * dx2) (F0 * dy0 + F1 * dy1 + F2 * dy2)
              (F0 * dz0 + F1 * dz1 + F2 * dz2) k
          + bump (DIM * i) (F0 * dx0) (F0 * dy0) (F0 * dz0) k
          + bump (DIM * i + 3) (F1 * dx1) (F1 * dy1) (F1 * dz1) k
          + bump (DIM * i + 6) (F2 * dx2) (F2 * dy2) (F2 * dz2) k := by
  have hj' : nlist.jindex (0 + 1) = nlist.jindex 0 + 1 := hj
  have hS := rf_VF_outer_single invsqrt nlist xx fr.shift_vec mdatoms.chargeA mdatoms.typeA
    fr.nbfp fr.ic.k_rf fr.ic.c_rf (fr.ic.epsfac * mdatoms.chargeA (i + 0))
    (fr.ic.epsfac * mdatoms.chargeA (i + 1)) (fr.ic.epsfac * mdatoms.chargeA (i + 2))
    (2 * fr.ntype * mdatoms.typeA (i + 0)) 0 (outer_init st) hj' i j hi hjj
    dx0 dy0 dz0 dx1 dy1 dz1 dx2 dy2 dz2 rsq0 rsq1 rsq2 rinv0 rinv1 rinv2 c6 c12
    F0 F1 F2
    (qq0 * (rinv0 + fr.ic.k_rf * rsq0 - fr.ic.c_rf)
      + qq1 * (rinv1 + fr.ic.k_rf * rsq1 - fr.ic.c_rf)
      + qq2 * (rinv2 + fr.ic.k_rf * rsq2 - fr.ic.c_rf))
    (c12 * ((rinv0 ^ 2) ^ 3) ^ 2 / 12 - c6 * (rinv0 ^ 2) ^ 3 / 6)
    hdx0 hdy0 hdz0 hdx1 hdy1 hdz1 hdx2 hdy2 hdz2 hrsq0 hrsq1 hrsq2 hrinv0 hrinv1 hrinv2
    (by rw [hc6, add_zero]) (by rw [hc12, add_zero])
    (by rw [hF0, hqq0, add_zero]) (by rw [hF1, hqq1]) (by rw [hF2, hqq2])
    (by rw [hqq0, hqq1, hqq2, add_zero]) rfl
  rw [rf_VF_kernel_eq_loop]
  unfold rf_VF_loop
  simp only [hnri, forLoop_one, mul_set1, hi]
  rw [hS]
  rfl

/-- Values of a force array that differs from `a` by one subtracted vector at `J` and
three added vectors at `I`, `I + 3`, `I + 6`, at the twelve touched offsets. -/
theorem four_bump_eval (a : Int → ℚ) (I J : Int) (Ax Ay Az B0x B0y B0z B1x B1y B1z B2x B2y B2z : ℚ)
    (h : J + 2 < I ∨ I + 8 < J) (g : Int → ℚ)
    (hg : g = fun k => a k - bump J Ax Ay Az k + bump I B0x B0y B0z k
      + bump (I + 3) B1x B1y B1z k + bump (I + 6) B2x B2y B2z k) :
    (g I = a I + B0x ∧ g (I + 1) = a (I + 1) + B0y ∧ g (I + 2) = a (I + 2) + B0z)
    ∧ (g (I + 3) = a (I + 3) + B1x ∧ g (I + 4) = a (I + 4) + B1y ∧ g (I + 5) = a (I + 5) + B1z)
    ∧ (g (I + 6) = a (I + 6) + B2x ∧ g (I + 7) = a (I + 7) + B2y ∧ g (I + 8) = a (I + 8) + B2z)
    ∧ (g J = a J - Ax ∧ g (J + 1) = a (J + 1) - Ay ∧ g (J + 2) = a (J + 2) - Az) := by
  subst hg
  have e4 : I + 4 = I + 3 + 1 := by ring
  have e5 : I + 5 = I + 3 + 2 := by ring
  have e7 : I + 7 = I + 6 + 1 := by ring
  have e8 : I + 8 = I + 6 + 2 := by ring
  refine ⟨⟨?_, ?_, ?_⟩, ⟨?_, ?_, ?_⟩, ⟨?_, ?_, ?_⟩, ?_, ?_, ?_⟩
  · simp only [bump_at0, bump_off (J) _ _ _ (I) (by omega), bump_off (I + 3) _ _ _ (I) (by omega),
      bump_off (I + 6) _ _ _ (I) (by omega)]
    ring
  · simp only [bump_at1, bump_off (J) _ _ _ (I + 1) (by omega), bump_off (I + 3) _ _ _ (I + 1) (by
      omega), bump_off (I + 6) _ _ _ (I + 1) (by omega)]
    ring
  · simp only [bump_at2, bump_off (J) _ _ _ (I + 2) (by omega), bump_off (I + 3) _ _ _ (I + 2) (by
      omega), bump_off (I + 6) _ _ _ (I + 2) (by omega)]
    ring
  · simp only [bump_at0, bump_off (J) _ _ _ (I + 3) (by omega), bump_off (I) _ _ _ (I + 3) (by
      omega), bump_off (I + 6) _ _ _ (I + 3) (by omega)]
    ring
  · rw [e4]; simp only [bump_at1, bump_off (J) _ _ _ (I + 3 + 1) (by omega), bump_off (I) _ _ _ (I +
      3 + 1) (by omega), bump_off (I + 6) _ _ _ (I + 3 + 1) (by omega)]
    ring
  · rw [e5]; simp only [bump_at2, bump_off (J) _ _ _ (I + 3 + 2) (by omega), bump_off (I) _ _ _ (I +
      3 + 2) (by omega), bump_off (I + 6) _ _ _ (I + 3 + 2) (by omega)]
    ring
  · simp only [bump_at0, bump_off (J) _ _ _ (I + 6) (by omega), bump_off (I) _ _ _ (I + 6) (by
      omega), bump_off (I + 3) _ _ _ (I + 6) (by omega)]
    ring
  · rw [e7]; simp only [bump_at1, bump_off (J) _ _ _ (I + 6 + 1) (by omega), bump_off (I) _ _ _ (I +
      6 + 1) (by omega), bump_off (I + 3) _ _ _ (I + 6 + 1) (by omega)]
    ring
  · rw [e8]; simp only [bump_at2, bump_off (J) _ _ _ (I + 6 + 2) (by omega), bump_off (I) _ _ _ (I +
      6 + 2) (by omega), bump_off (I + 3) _ _ _ (I + 6 + 2) (by omega)]
    ring
  · simp only [bump_at0, bump_off (I) _ _ _ (J) (by omega), bump_off (I + 3) _ _ _ (J) (by omega),
      bump_off (I + 6) _ _ _ (J) (by omega)]
    ring
  · simp only [bump_at1, bump_off (I) _ _ _ (J + 1) (by omega), bump_off (I + 3) _ _ _ (J + 1) (by
      omega), bump_off (I + 6) _ _ _ (J + 1) (by omega)]
    ring
  · simp only [bump_at2, bump_off (I) _ _ _ (J + 2) (by omega), bump_off (I + 3) _ _ _ (J + 2) (by
      omega), bump_off (I + 6) _ _ _ (J + 2) (by omega)]
    ring

theorem sumRange_empty (a b : Int) (g : Int → ℚ) (h : b ≤ a) : sumRange a b g = 0 := by
  unfold sumRange
  have : (b - a).toNat = 0 := by omega
  rw [this, Finset.sum_range_zero]

theorem sumRange_step (a b : Int) (g : Int → ℚ) (h : a < b) :
    sumRange a b g = g a + sumRange (a + 1) b g := by
  unfold sumRange
  have e : (b - a).toNat = (b - (a + 1)).toNat + 1 := by omega
  rw [e, Finset.sum_range_succ']
  simp only [Nat.cast_zero, add_zero, Nat.cast_add, Nat.cast_one]
  rw [add_comm]
  congr 1
  apply Finset.sum_congr rfl
  intro k _
  congr 1
  ring

theorem sumRange_zero (a b : Int) : sumRange a b (fun _ => 0) = 0 := by
  unfold sumRange
  exact Finset.sum_const_zero

/-- The inner loop adds up what its blocks add: if a full block adds `g k + g (k+1)` to
the measure `M` and the remainder block adds `g k`, the loop adds the sum of `g` over
the partner range. -/
theorem innerLoop_sum {σ : Type} (M : σ → ℚ) (g : Int → ℚ) (b2 b1 : Int → σ → σ) (e : Int)
    (m : Nat) :
    ∀ (j : Int) (s : σ), (e - j).toNat ≤ m →
      (∀ k : Int, j ≤ k → k + 1 < e → ∀ t, M (b2 k t) = M t + g k + g (k + 1)) →
      (∀ k : Int, j ≤ k → k < e → ∀ t, M (b1 k t) = M t + g k) →
      M (innerLoop b2 b1 j e s) = M s + sumRange j e g := by
  induction m using Nat.strong_induction_on with
  | _ m ih =>
    intro j s hm h2 h1
    by_cases hlt : j < e - 1
    · rw [innerLoop_step _ _ _ _ _ hlt,
        ih (m - 2) (by omega) (j + 2) _ (by omega)
          (fun k hk hke t => h2 k (by omega) hke t) (fun k hk hke t => h1 k (by omega) hke t),
        h2 j (le_refl j) (by omega), sumRange_step j e g (by omega),
        sumRange_step (j + 1) e g (by omega)]
      have e2 : j + 1 + 1 = j + 2 := by ring
      rw [e2]
      ring
    · by_cases hl : j < e
      · rw [innerLoop_last _ _ _ _ _ (by omega), h1 j (le_refl j) hl,
          sumRange_step j e g hl, sumRange_empty (j + 1) e g (by omega)]
        ring
      · rw [innerLoop_done _ _ _ _ _ (by omega), sumRange_empty j e g (by omega), add_zero]

theorem innerLoop_comm {σ : Type} (T : σ → σ) (b2 b1 : Int → σ → σ) (e : Int)
    (h2 : ∀ k t, b2 k (T t) = T (b2 k t)) (h1 : ∀ k t, b1 k (T t) = T (b1 k t)) (m : Nat) :
    ∀ (j : Int) (s : σ), (e - j).toNat ≤ m →
      innerLoop b2 b1 j e (T s) = T (innerLoop b2 b1 j e s) := by
  induction m using Nat.strong_induction_on with
  | _ m ih =>
    intro j s hm
    by_cases hlt : j < e - 1
    · rw [innerLoop_step _ _ _ _ _ hlt, innerLoop_step _ _ _ _ _ hlt, h2]
      exact ih (m - 2) (by omega) (j + 2) _ (by omega)
    · by_cases hl : j < e
      · rw [innerLoop_last _ _ _ _ _ (by omega), innerLoop_last _ _ _ _ _ (by omega), h1]
      · rw [innerLoop_done _ _ _ _ _ (by omega), innerLoop_done _ _ _ _ _ (by omega)]

theorem forLoop_comm {σ : Type} (T : σ → σ) (body : Int → σ → σ) (n : Int)
    (h : ∀ k t, body k (T t) = T (body k t)) (m : Nat) :
    ∀ (i : Int) (s : σ), (n - i).toNat ≤ m →
      forLoop n body i (T s) = T (forLoop n body i s) := by
  induction m with
  | zero =>
    intro i s hm
    rw [forLoop_done _ _ _ _ (by omega), forLoop_done _ _ _ _ (by omega)]
  | succ m ih =>
    intro i s hm
    by_cases hlt : i < n
    · rw [forLoop_step _ _ _ _ hlt, forLoop_step _ _ _ _ hlt, h]
      exact ih (i + 1) _ (by omega)
    · rw [forLoop_done _ _ _ _ (by omega), forLoop_done _ _ _ _ (by omega)]

/-- The two-partner decrement commutes with adding `d` to the force array, also when
both pointers name the same partner. -/
theorem decrement_2ptr_add (f d : Int → ℚ) (A B : Int) (x1 y1 z1 : M128d) :
    gmx_mm_decrement_1rvec_2ptr_swizzle_pd (fun k => f k + d k) A B x1 y1 z1
      = fun k => gmx_mm_decrement_1rvec_2ptr_swizzle_pd f A B x1 y1 z1 k + d k := by
  funext k
  simp only [gmx_mm_decrement_1rvec_2ptr_swizzle_pd, store]
  split_ifs <;> first | rfl | (subst_vars; ring)

theorem decrement_1ptr_add (f d : Int → ℚ) (A : Int) (x1 y1 z1 : M128d) :
    gmx_mm_decrement_1rvec_1ptr_swizzle_pd (fun k => f k + d k) A x1 y1 z1
      = fun k => gmx_mm_decrement_1rvec_1ptr_swizzle_pd f A x1 y1 z1 k + d k := by
  funext k
  simp only [gmx_mm_decrement_1rvec_1ptr_swizzle_pd, store]
  split_ifs <;> first | rfl | (subst_vars; ring)

theorem incr3_add (f d : Int → ℚ) (p : Int) (vx vy vz : ℚ) :
    incr3 (fun k => f k + d k) p vx vy vz = fun k => incr3 f p vx vy vz k + d k := by
  funext k
  simp only [incr3, store]
  split_ifs <;> first | rfl | (subst_vars; ring)

theorem update_1pot_add (pot : M128d) (e d : Int → ℚ) (g : Int) :
    gmx_mm_update_1pot_pd pot (fun k => e k + d k) g
      = fun k => gmx_mm_update_1pot_pd pot e g k + d k := by
  funext k
  simp only [gmx_mm_update_1pot_pd, store]
  split_ifs <;> first | rfl | (subst_vars; ring)

theorem ljsh_VF_block2_add_f (nlist : t_nblist) (x : Int → ℚ) (vdwtype : Int → Int)
    (vdwparam : Int → ℚ) (rcutoff2 sh_vdw_invrcut6 : M128d) (ix0 iy0 iz0 : M128d)
    (vdwioffset0 : Int) (d : Int → ℚ) (jidx : Int) (s : LJShInner) :
    ljsh_VF_block2 nlist x vdwtype vdwparam rcutoff2 sh_vdw_invrcut6 ix0 iy0 iz0 vdwioffset0 jidx
        (ljsh_add_f d s)
      = ljsh_add_f d (ljsh_VF_block2 nlist x vdwtype vdwparam rcutoff2 sh_vdw_invrcut6 ix0 iy0 iz0
          vdwioffset0 jidx s) := by
  unfold ljsh_VF_block2 ljsh_add_f
  simp only [decrement_2ptr_add]
  split_ifs <;> rfl

theorem ljsh_VF_block1_add_f (nlist : t_nblist) (x : Int → ℚ) (vdwtype : Int → Int)
    (vdwparam : Int → ℚ) (rcutoff2 sh_vdw_invrcut6 : M128d) (ix0 iy0 iz0 : M128d)
    (vdwioffset0 : Int) (d : Int → ℚ) (jidx : Int) (s : LJShInner) :
    ljsh_VF_block1 nlist x vdwtype vdwparam rcutoff2 sh_vdw_invrcut6 ix0 iy0 iz0 vdwioffset0 jidx
        (ljsh_add_f d s)
      = ljsh_add_f d (ljsh_VF_block1 nlist x vdwtype vdwparam rcutoff2 sh_vdw_invrcut6 ix0 iy0 iz0
          vdwioffset0 jidx s) := by
  unfold ljsh_VF_block1 ljsh_add_f
  simp only [decrement_1ptr_add]
  split_ifs <;> rfl

theorem ljsh_F_block2_add_f (nlist : t_nblist) (x : Int → ℚ) (vdwtype : Int → Int)
    (vdwparam : Int → ℚ) (rcutoff2 : M128d) (ix0 iy0 iz0 : M128d)
    (vdwioffset0 : Int) (d : Int → ℚ) (jidx : Int) (s : LJShInner) :
    ljsh_F_block2 nlist x vdwtype vdwparam rcutoff2 ix0 iy0 iz0 vdwioffset0 jidx (ljsh_add_f d s)
      = ljsh_add_f d (ljsh_F_block2 nlist x vdwtype vdwparam rcutoff2 ix0 iy0 iz0 vdwioffset0 jidx
          s) := by
  unfold ljsh_F_block2 ljsh_add_f
  simp only [decrement_2ptr_add]
  split_ifs <;> rfl

theorem ljsh_F_block1_add_f (nlist : t_nblist) (x : Int → ℚ) (vdwtype : Int → Int)
    (vdwparam : Int → ℚ) (rcutoff2 : M128d) (ix0 iy0 iz0 : M128d)
    (vdwioffset0 : Int) (d : Int → ℚ) (jidx : Int) (s : LJShInner) :
    ljsh_F_block1 nlist x vdwtype vdwparam rcutoff2 ix0 iy0 iz0 vdwioffset0 jidx (ljsh_add_f d s)
      = ljsh_add_f d (ljsh_F_block1 nlist x vdwtype vdwparam rcutoff2 ix0 iy0 iz0 vdwioffset0 jidx
          s) := by
  unfold ljsh_F_block1 ljsh_add_f
  simp only [decrement_1ptr_add]
  split_ifs <;> rfl

theorem rf_VF_block2_add_f (invsqrt : ℚ → ℚ) (nlist : t_nblist) (x : Int → ℚ) (charge : Int → ℚ)
    (vdwtype : Int → Int) (vdwparam : Int → ℚ) (krf krf2 crf : M128d) (iq0 iq1 iq2 : M128d)
    (vdwioffset0 : Int) (ix0 iy0 iz0 ix1 iy1 iz1 ix2 iy2 iz2 : M128d) (d : Int → ℚ)
    (jidx : Int) (s : RFInner) :
    rf_VF_block2 invsqrt nlist x charge vdwtype vdwparam krf krf2 crf iq0 iq1 iq2
        vdwioffset0 ix0 iy0 iz0 ix1 iy1 iz1 ix2 iy2 iz2 jidx (rf_add_f d s)
      = rf_add_f d (rf_VF_block2 invsqrt nlist x charge vdwtype vdwparam krf krf2 crf iq0 iq1 iq2
        vdwioffset0 ix0 iy0 iz0 ix1 iy1 iz1 ix2 iy2 iz2 jidx s) := by
  unfold rf_VF_block2 rf_add_f
  simp only [decrement_2ptr_add]

theorem rf_VF_block1_add_f (invsqrt : ℚ → ℚ) (nlist : t_nblist) (x : Int → ℚ) (charge : Int → ℚ)
    (vdwtype : Int → Int) (vdwparam : Int → ℚ) (krf krf2 crf : M128d) (iq0 iq1 iq2 : M128d)
    (vdwioffset0 : Int) (ix0 iy0 iz0 ix1 iy1 iz1 ix2 iy2 iz2 : M128d) (d : Int → ℚ)
    (jidx : Int) (s : RFInner) :
    rf_VF_block1 invsqrt nlist x charge vdwtype vdwparam krf krf2 crf iq0 iq1 iq2
        vdwioffset0 ix0 iy0 iz0 ix1 iy1 iz1 ix2 iy2 iz2 jidx (rf_add_f d s)
      = rf_add_f d (rf_VF_block1 invsqrt nlist x charge vdwtype vdwparam krf krf2 crf iq0 iq1 iq2
        vdwioffset0 ix0 iy0 iz0 ix1 iy1 iz1 ix2 iy2 iz2 jidx s) := by
  unfold rf_VF_block1 rf_add_f
  simp only [decrement_1ptr_add]

theorem rf_F_block2_add_f (invsqrt : ℚ → ℚ) (nlist : t_nblist) (x : Int → ℚ) (charge : Int → ℚ)
    (vdwtype : Int → Int) (vdwparam : Int → ℚ) (krf2 : M128d) (iq0 iq1 iq2 : M128d)
    (vdwioffset0 : Int) (ix0 iy0 iz0 ix1 iy1 iz1 ix2 iy2 iz2 : M128d) (d : Int → ℚ)
    (jidx : Int) (s : RFInner) :
    rf_F_block2 invsqrt nlist x charge vdwtype vdwparam krf2 iq0 iq1 iq2
        vdwioffset0 ix0 iy0 iz0 ix1 iy1 iz1 ix2 iy2 iz2 jidx (rf_add_f d s)
      = rf_add_f d (rf_F_block2 invsqrt nlist x charge vdwtype vdwparam krf2 iq0 iq1 iq2
        vdwioffset0 ix0 iy0 iz0 ix1 iy1 iz1 ix2 iy2 iz2 jidx s) := by
  unfold rf_F_block2 rf_add_f
  simp only [decrement_2ptr_add]

theorem rf_F_block1_add_f (invsqrt : ℚ → ℚ) (nlist : t_nblist) (x : Int → ℚ) (charge : Int → ℚ)
    (vdwtype : Int → Int) (vdwparam : Int → ℚ) (krf2 : M128d) (iq0 iq1 iq2 : M128d)
    (vdwioffset0 : Int) (ix0 iy0 iz0 ix1 iy1 iz1 ix2 iy2 iz2 : M128d) (d : Int → ℚ)
    (jidx : Int) (s : RFInner) :
    rf_F_block1 invsqrt nlist x charge vdwtype vdwparam krf2 iq0 iq1 iq2
        vdwioffset0 ix0 iy0 iz0 ix1 iy1 iz1 ix2 iy2 iz2 jidx (rf_add_f d s)
      = rf_add_f d (rf_F_block1 invsqrt nlist x charge vdwtype vdwparam krf2 iq0 iq1 iq2
        vdwioffset0 ix0 iy0 iz0 ix1 iy1 iz1 ix2 iy2 iz2 jidx s) := by
  unfold rf_F_block1 rf_add_f
  simp only [decrement_1ptr_add]

theorem ljsh_add_f_mk (d f : Int → ℚ) (a b c v : M128d) :
    (⟨fun k => f k + d k, a, b, c, v⟩ : LJShInner) = ljsh_add_f d ⟨f, a, b, c, v⟩ := rfl

theorem rf_add_f_mk (d f : Int → ℚ) (a0 b0 c0 a1 b1 c1 a2 b2 c2 e v : M128d) :
    (⟨fun k => f k + d k, a0, b0, c0, a1, b1, c1, a2, b2, c2, e, v⟩ : RFInner)
      = rf_add_f d ⟨f, a0, b0, c0, a1, b1, c1, a2, b2, c2, e, v⟩ := rfl

theorem ljsh_VF_outer_add (nlist : t_nblist) (x : Int → ℚ) (shiftvec : Int → ℚ)
    (vdwtype : Int → Int) (vdwparam : Int → ℚ) (nvdwtype : Int)
    (rcutoff2 sh_vdw_invrcut6 : M128d) (df ds de dv : Int → ℚ) (iidx : Int) (o : OuterSt) :
    ljsh_VF_outer nlist x shiftvec vdwtype vdwparam nvdwtype rcutoff2 sh_vdw_invrcut6 iidx
        (outer_add df ds de dv o)
      = outer_add df ds de dv
          (ljsh_VF_outer nlist x shiftvec vdwtype vdwparam nvdwtype rcutoff2 sh_vdw_invrcut6
            iidx o) := by
  have key : ∀ (ix0 iy0 iz0 : M128d) (off : Int) (s0 : LJShInner),
      innerLoop
        (ljsh_VF_block2 nlist x vdwtype vdwparam rcutoff2 sh_vdw_invrcut6 ix0 iy0 iz0 off)
        (ljsh_VF_block1 nlist x vdwtype vdwparam rcutoff2 sh_vdw_invrcut6 ix0 iy0 iz0 off)
        (nlist.jindex iidx) (nlist.jindex (iidx + 1)) (ljsh_add_f df s0)
      = ljsh_add_f df (innerLoop
        (ljsh_VF_block2 nlist x vdwtype vdwparam rcutoff2 sh_vdw_invrcut6 ix0 iy0 iz0 off)
        (ljsh_VF_block1 nlist x vdwtype vdwparam rcutoff2 sh_vdw_invrcut6 ix0 iy0 iz0 off)
        (nlist.jindex iidx) (nlist.jindex (iidx + 1)) s0) := by
    intro ix0 iy0 iz0 off s0
    exact innerLoop_comm (ljsh_add_f df) _ _ _
      (fun k t => ljsh_VF_block2_add_f _ _ _ _ _ _ _ _ _ _ _ _ _)
      (fun k t => ljsh_VF_block1_add_f _ _ _ _ _ _ _ _ _ _ _ _ _)
      (nlist.jindex (iidx + 1) - nlist.jindex iidx).toNat _ _ (le_refl _)
  unfold ljsh_VF_outer outer_add
  simp only [ljsh_add_f_mk, rf_add_f_mk, key]
  simp only [ljsh_add_f, gmx_mm_update_iforce_1atom_swizzle_pd, incr3_add, update_1pot_add]

theorem ljsh_F_outer_add (nlist : t_nblist) (x : Int → ℚ) (shiftvec : Int → ℚ)
    (vdwtype : Int → Int) (vdwparam : Int → ℚ) (nvdwtype : Int)
    (rcutoff2 : M128d) (df ds de dv : Int → ℚ) (iidx : Int) (o : OuterSt) :
    ljsh_F_outer nlist x shiftvec vdwtype vdwparam nvdwtype rcutoff2 iidx
        (outer_add df ds de dv o)
      = outer_add df ds de dv
          (ljsh_F_outer nlist x shiftvec vdwtype vdwparam nvdwtype rcutoff2 iidx o) := by
  have key : ∀ (ix0 iy0 iz0 : M128d) (off : Int) (s0 : LJShInner),
      innerLoop
        (ljsh_F_block2 nlist x vdwtype vdwparam rcutoff2 ix0 iy0 iz0 off)
        (ljsh_F_block1 nlist x vdwtype vdwparam rcutoff2 ix0 iy0 iz0 off)
        (nlist.jindex iidx) (nlist.jindex (iidx + 1)) (ljsh_add_f df s0)
      = ljsh_add_f df (innerLoop
        (ljsh_F_block2 nlist x vdwtype vdwparam rcutoff2 ix0 iy0 iz0 off)
        (ljsh_F_block1 nlist x vdwtype vdwparam rcutoff2 ix0 iy0 iz0 off)
        (nlist.jindex iidx) (nlist.jindex (iidx + 1)) s0) := by
    intro ix0 iy0 iz0 off s0
    exact innerLoop_comm (ljsh_add_f df) _ _ _
      (fun k t => ljsh_F_block2_add_f _ _ _ _ _ _ _ _ _ _ _ _)
      (fun k t => ljsh_F_block1_add_f _ _ _ _ _ _ _ _ _ _ _ _)
      (nlist.jindex (iidx + 1) - nlist.jindex iidx).toNat _ _ (le_refl _)
  unfold ljsh_F_outer outer_add
  simp only [ljsh_add_f_mk, rf_add_f_mk, key]
  simp only [ljsh_add_f, gmx_mm_update_iforce_1atom_swizzle_pd, incr3_add]

theorem rf_VF_outer_add (invsqrt : ℚ → ℚ) (nlist : t_nblist) (x : Int → ℚ)
    (shiftvec : Int → ℚ) (charge : Int → ℚ) (vdwtype : Int → Int) (vdwparam : Int → ℚ)
    (krf krf2 crf iq0 iq1 iq2 : M128d) (vdwioffset0 : Int) (df ds de dv : Int → ℚ)
    (iidx : Int) (o : OuterSt) :
    rf_VF_outer invsqrt nlist x shiftvec charge vdwtype vdwparam krf krf2 crf iq0 iq1 iq2
        vdwioffset0 iidx (outer_add df ds de dv o)
      = outer_add df ds de dv
          (rf_VF_outer invsqrt nlist x shiftvec charge vdwtype vdwparam krf krf2 crf
            iq0 iq1 iq2 vdwioffset0 iidx o) := by
  have key : ∀ (ix0 iy0 iz0 ix1 iy1 iz1 ix2 iy2 iz2 : M128d) (s0 : RFInner),
      innerLoop
        (rf_VF_block2 invsqrt nlist x charge vdwtype vdwparam krf krf2 crf iq0 iq1 iq2
          vdwioffset0 ix0 iy0 iz0 ix1 iy1 iz1 ix2 iy2 iz2)
        (rf_VF_block1 invsqrt nlist x charge vdwtype vdwparam krf krf2 crf iq0 iq1 iq2
          vdwioffset0 ix0 iy0 iz0 ix1 iy1 iz1 ix2 iy2 iz2)
        (nlist.jindex iidx) (nlist.jindex (iidx + 1)) (rf_add_f df s0)
      = rf_add_f df (innerLoop
        (rf_VF_block2 invsqrt nlist x charge vdwtype vdwparam krf krf2 crf iq0 iq1 iq2
          vdwioffset0 ix0 iy0 iz0 ix1 iy1 iz1 ix2 iy2 iz2)
        (rf_VF_block1 invsqrt nlist x charge vdwtype vdwparam krf krf2 crf iq0 iq1 iq2
          vdwioffset0 ix0 iy0 iz0 ix1 iy1 iz1 ix2 iy2 iz2)
        (nlist.jindex iidx) (nlist.jindex (iidx + 1)) s0) := by
    intro ix0 iy0 iz0 ix1 iy1 iz1 ix2 iy2 iz2 s0
    exact innerLoop_comm (rf_add_f df) _ _ _
      (fun k t => rf_VF_block2_add_f _ _ _ _ _ _ _ _ _ _ _ _ _ _ _ _ _ _ _ _ _ _ _ _ _)
      (fun k t => rf_VF_block1_add_f _ _ _ _ _ _ _ _ _ _ _ _ _ _ _ _ _ _ _ _ _ _ _ _ _)
      (nlist.jindex (iidx + 1) - nlist.jindex iidx).toNat _ _ (le_refl _)
  unfold rf_VF_outer outer_add
  simp only [ljsh_add_f_mk, rf_add_f_mk, key]
  simp only [rf_add_f, gmx_mm_update_iforce_3atom_swizzle_pd, incr3_add, update_1pot_add]

theorem rf_F_outer_add (invsqrt : ℚ → ℚ) (nlist : t_nblist) (x : Int → ℚ)
    (shiftvec : Int → ℚ) (charge : Int → ℚ) (vdwtype : Int → Int) (vdwparam : Int → ℚ)
    (krf2 iq0 iq1 iq2 : M128d) (vdwioffset0 : Int) (df ds de dv : Int → ℚ)
    (iidx : Int) (o : OuterSt) :
    rf_F_outer invsqrt nlist x shiftvec charge vdwtype vdwparam krf2 iq0 iq1 iq2
        vdwioffset0 iidx (outer_add df ds de dv o)
      = outer_add df ds de dv
          (rf_F_outer invsqrt nlist x shiftvec charge vdwtype vdwparam krf2
            iq0 iq1 iq2 vdwioffset0 iidx o) := by
  have key : ∀ (ix0 iy0 iz0 ix1 iy1 iz1 ix2 iy2 iz2 : M128d) (s0 : RFInner),
      innerLoop
        (rf_F_block2 invsqrt nlist x charge vdwtype vdwparam krf2 iq0 iq1 iq2
          vdwioffset0 ix0 iy0 iz0 ix1 iy1 iz1 ix2 iy2 iz2)
        (rf_F_block1 invsqrt nlist x charge vdwtype vdwparam krf2 iq0 iq1 iq2
          vdwioffset0 ix0 iy0 iz0 ix1 iy1 iz1 ix2 iy2 iz2)
        (nlist.jindex iidx) (nlist.jindex (iidx + 1)) (rf_add_f df s0)
      = rf_add_f df (innerLoop
        (rf_F_block2 invsqrt nlist x charge vdwtype vdwparam krf2 iq0 iq1 iq2
          vdwioffset0 ix0 iy0 iz0 ix1 iy1 iz1 ix2 iy2 iz2)
        (rf_F_block1 invsqrt nlist x charge vdwtype vdwparam krf2 iq0 iq1 iq2
          vdwioffset0 ix0 iy0 iz0 ix1 iy1 iz1 ix2 iy2 iz2)
        (nlist.jindex iidx) (nlist.jindex (iidx + 1)) s0) := by
    intro ix0 iy0 iz0 ix1 iy1 iz1 ix2 iy2 iz2 s0
    exact innerLoop_comm (rf_add_f df) _ _ _
      (fun k t => rf_F_block2_add_f _ _ _ _ _ _ _ _ _ _ _ _ _ _ _ _ _ _ _ _ _ _ _)
      (fun k t => rf_F_block1_add_f _ _ _ _ _ _ _ _ _ _ _ _ _ _ _ _ _ _ _ _ _ _ _)
      (nlist.jindex (iidx + 1) - nlist.jindex iidx).toNat _ _ (le_refl _)
  unfold rf_F_outer outer_add
  simp only [ljsh_add_f_mk, rf_add_f_mk, key]
  simp only [rf_add_f, gmx_mm_update_iforce_3atom_swizzle_pd, incr3_add]

theorem outer_init_add (st : KState) :
    outer_init st = outer_add st.f st.fshift st.energygrp_elec st.energygrp_vdw
      (outer_init (zero_outputs st)) := by
  unfold outer_init outer_add zero_outputs
  simp only [zero_add]

theorem total_sub_bump (N : Nat) (c : Int) (hc : 0 ≤ c ∧ c ≤ 2) (f : Int → ℚ) (j : Int)
    (hj : 0 ≤ j ∧ j < N) (v0 v1 v2 : ℚ) :
    total N c (fun k => f k - bump (DIM * j) v0 v1 v2 k)
      = total N c f - bump (DIM * j) v0 v1 v2 (DIM * j + c) := by
  unfold total
  rw [Finset.sum_sub_distrib]
  congr 1
  have hmem : j.toNat ∈ Finset.range N := by
    rw [Finset.mem_range]; omega
  rw [Finset.sum_eq_single_of_mem j.toNat hmem]
  · have : ((j.toNat : Nat) : Int) = j := by omega
    rw [this]
  · intro p _ hp
    apply bump_off
    unfold DIM
    omega

theorem total_decr2 (N : Nat) (c : Int) (hc : 0 ≤ c ∧ c ≤ 2) (f : Int → ℚ) (a b : Int)
    (ha : 0 ≤ a ∧ a < N) (hb : 0 ≤ b ∧ b < N) (hab : a ≠ b) (x1 y1 z1 : M128d) :
    total N c (gmx_mm_decrement_1rvec_2ptr_swizzle_pd f (DIM * a) (DIM * b) x1 y1 z1)
      = total N c f - bump (DIM * a) x1.lo y1.lo z1.lo (DIM * a + c)
          - bump (DIM * b) x1.hi y1.hi z1.hi (DIM * b + c) := by
  have hd : DIM * a + 2 < DIM * b ∨ DIM * b + 2 < DIM * a := by unfold DIM; omega
  rw [decrement_2ptr_eq_bump f _ _ x1 y1 z1 hd,
    total_sub_bump N c hc (fun k => f k - bump (DIM * a) x1.lo y1.lo z1.lo k) b hb,
    total_sub_bump N c hc f a ha]

theorem decrement_1ptr_eq_bump (f : Int → ℚ) (A : Int) (x1 y1 z1 : M128d) :
    gmx_mm_decrement_1rvec_1ptr_swizzle_pd f A x1 y1 z1
      = fun k => f k - bump A x1.lo y1.lo z1.lo k := by
  unfold gmx_mm_decrement_1rvec_1ptr_swizzle_pd
  exact store3_eq_bump f A x1.lo y1.lo z1.lo

theorem total_decr1 (N : Nat) (c : Int) (hc : 0 ≤ c ∧ c ≤ 2) (f : Int → ℚ) (a : Int)
    (ha : 0 ≤ a ∧ a < N) (x1 y1 z1 : M128d) :
    total N c (gmx_mm_decrement_1rvec_1ptr_swizzle_pd f (DIM * a) x1 y1 z1)
      = total N c f - bump (DIM * a) x1.lo y1.lo z1.lo (DIM * a + c) := by
  rw [decrement_1ptr_eq_bump, total_sub_bump N c hc f a ha]

theorem bump_c0 (p : Int) (a b c : ℚ) : bump p a b c (p + 0) = a := by
  rw [add_zero, bump_at0]

theorem sub_macc (d F a : M128d) : _mm_sub_pd (_mm_macc_pd d F a) a = _mm_mul_pd d F := by
  simp only [_mm_sub_pd, _mm_macc_pd, _mm_mul_pd, M128d_eta]
  constructor <;> ring

theorem sub_add_pd (a t : M128d) : _mm_sub_pd (_mm_add_pd a t) a = t := by
  cases t
  simp only [_mm_sub_pd, _mm_add_pd, M128d_eta]
  constructor <;> ring

theorem sub_self_pd (a : M128d) : _mm_sub_pd a a = _mm_setzero_pd := by
  simp only [_mm_sub_pd, _mm_setzero_pd, sub_self]

theorem zero_add3_pd (t0 t1 t2 : M128d) :
    _mm_add_pd (_mm_add_pd (_mm_add_pd _mm_setzero_pd t0) t1) t2
      = _mm_add_pd (_mm_add_pd t0 t1) t2 := by
  cases t0
  simp only [_mm_add_pd, _mm_setzero_pd, zero_add]

theorem ljsh_VF_block2_decrement (nlist : t_nblist) (x : Int → ℚ) (vdwtype : Int → Int)
    (vdwparam : Int → ℚ) (rcutoff2 sh_vdw_invrcut6 : M128d) (ix0 iy0 iz0 : M128d)
    (vdwioffset0 : Int) (jidx : Int) (s : LJShInner) :
    (ljsh_VF_block2 nlist x vdwtype vdwparam rcutoff2 sh_vdw_invrcut6 ix0 iy0 iz0 vdwioffset0 jidx
        s).f
      = gmx_mm_decrement_1rvec_2ptr_swizzle_pd s.f (DIM * nlist.jjnr jidx)
        (DIM * nlist.jjnr (jidx + 1))
        (_mm_sub_pd (ljsh_VF_block2 nlist x vdwtype vdwparam rcutoff2 sh_vdw_invrcut6 ix0 iy0 iz0
            vdwioffset0 jidx s).fix0 s.fix0)
        (_mm_sub_pd (ljsh_VF_block2 nlist x vdwtype vdwparam rcutoff2 sh_vdw_invrcut6 ix0 iy0 iz0
            vdwioffset0 jidx s).fiy0 s.fiy0)
        (_mm_sub_pd (ljsh_VF_block2 nlist x vdwtype vdwparam rcutoff2 sh_vdw_invrcut6 ix0 iy0 iz0
            vdwioffset0 jidx s).fiz0 s.fiz0) := by
  unfold ljsh_VF_block2
  simp only []
  split_ifs with h
  · simp only [sub_macc]
  · simp only [sub_self_pd, decrement_2ptr_zero]

theorem ljsh_VF_block2_total (nlist : t_nblist) (x : Int → ℚ) (vdwtype : Int → Int)
    (vdwparam : Int → ℚ) (rcutoff2 sh_vdw_invrcut6 : M128d) (ix0 iy0 iz0 : M128d)
    (vdwioffset0 : Int) (jidx : Int) (s : LJShInner) (N : Nat)
    (hA : 0 ≤ nlist.jjnr jidx ∧ nlist.jjnr jidx < N)
    (hB : 0 ≤ nlist.jjnr (jidx + 1) ∧ nlist.jjnr (jidx + 1) < N)
    (hab : nlist.jjnr jidx ≠ nlist.jjnr (jidx + 1)) :
    total N 0 (ljsh_VF_block2 nlist x vdwtype vdwparam rcutoff2 sh_vdw_invrcut6 ix0 iy0 iz0
        vdwioffset0 jidx s).f
        + ((ljsh_VF_block2 nlist x vdwtype vdwparam rcutoff2 sh_vdw_invrcut6 ix0 iy0 iz0 vdwioffset0
            jidx s).fix0.lo + (ljsh_VF_block2 nlist x vdwtype vdwparam rcutoff2 sh_vdw_invrcut6 ix0
            iy0 iz0 vdwioffset0 jidx s).fix0.hi)
      = total N 0 s.f + (s.fix0.lo + s.fix0.hi)
    ∧ total N 1 (ljsh_VF_block2 nlist x vdwtype vdwparam rcutoff2 sh_vdw_invrcut6 ix0 iy0 iz0
        vdwioffset0 jidx s).f
        + ((ljsh_VF_block2 nlist x vdwtype vdwparam rcutoff2 sh_vdw_invrcut6 ix0 iy0 iz0 vdwioffset0
            jidx s).fiy0.lo + (ljsh_VF_block2 nlist x vdwtype vdwparam rcutoff2 sh_vdw_invrcut6 ix0
            iy0 iz0 vdwioffset0 jidx s).fiy0.hi)
      = total N 1 s.f + (s.fiy0.lo + s.fiy0.hi)
    ∧ total N 2 (ljsh_VF_block2 nlist x vdwtype vdwparam rcutoff2 sh_vdw_invrcut6 ix0 iy0 iz0
        vdwioffset0 jidx s).f
        + ((ljsh_VF_block2 nlist x vdwtype vdwparam rcutoff2 sh_vdw_invrcut6 ix0 iy0 iz0 vdwioffset0
            jidx s).fiz0.lo + (ljsh_VF_block2 nlist x vdwtype vdwparam rcutoff2 sh_vdw_invrcut6 ix0
            iy0 iz0 vdwioffset0 jidx s).fiz0.hi)
      = total N 2 s.f + (s.fiz0.lo + s.fiz0.hi) := by
  refine ⟨?_, ?_, ?_⟩ <;>
    (rw [ljsh_VF_block2_decrement, total_decr2 N _ ⟨by norm_num, by norm_num⟩ _ _ _ hA hB hab]
     simp only [bump_c0, bump_at1, bump_at2, _mm_add_pd, _mm_sub_pd]
     ring)

theorem ljsh_VF_block1_decrement (nlist : t_nblist) (x : Int → ℚ) (vdwtype : Int → Int)
    (vdwparam : Int → ℚ) (rcutoff2 sh_vdw_invrcut6 : M128d) (ix0 iy0 iz0 : M128d)
    (vdwioffset0 : Int) (jidx : Int) (s : LJShInner) :
    (ljsh_VF_block1 nlist x vdwtype vdwparam rcutoff2 sh_vdw_invrcut6 ix0 iy0 iz0 vdwioffset0 jidx
        s).f
      = gmx_mm_decrement_1rvec_1ptr_swizzle_pd s.f (DIM * nlist.jjnr jidx)
        (_mm_sub_pd (ljsh_VF_block1 nlist x vdwtype vdwparam rcutoff2 sh_vdw_invrcut6 ix0 iy0 iz0
            vdwioffset0 jidx s).fix0 s.fix0)
        (_mm_sub_pd (ljsh_VF_block1 nlist x vdwtype vdwparam rcutoff2 sh_vdw_invrcut6 ix0 iy0 iz0
            vdwioffset0 jidx s).fiy0 s.fiy0)
        (_mm_sub_pd (ljsh_VF_block1 nlist x vdwtype vdwparam rcutoff2 sh_vdw_invrcut6 ix0 iy0 iz0
            vdwioffset0 jidx s).fiz0 s.fiz0) := by
  unfold ljsh_VF_block1
  simp only []
  split_ifs with h
  · simp only [sub_macc]
  · simp only [sub_self_pd, decrement_1ptr_zero]

theorem ljsh_VF_block1_hi (nlist : t_nblist) (x : Int → ℚ) (vdwtype : Int → Int)
    (vdwparam : Int → ℚ) (rcutoff2 sh_vdw_invrcut6 : M128d) (ix0 iy0 iz0 : M128d)
    (vdwioffset0 : Int) (jidx : Int) (s : LJShInner) :
    (ljsh_VF_block1 nlist x vdwtype vdwparam rcutoff2 sh_vdw_invrcut6 ix0 iy0 iz0 vdwioffset0 jidx
        s).fix0.hi = s.fix0.hi
    ∧ (ljsh_VF_block1 nlist x vdwtype vdwparam rcutoff2 sh_vdw_invrcut6 ix0 iy0 iz0 vdwioffset0 jidx
        s).fiy0.hi = s.fiy0.hi
    ∧ (ljsh_VF_block1 nlist x vdwtype vdwparam rcutoff2 sh_vdw_invrcut6 ix0 iy0 iz0 vdwioffset0 jidx
        s).fiz0.hi = s.fiz0.hi := by
  unfold ljsh_VF_block1
  simp only []
  split_ifs with h
  · simp only [_mm_macc_pd, _mm_unpacklo_pd, _mm_setzero_pd, mul_zero, zero_add, and_self]
  · exact ⟨rfl, rfl, rfl⟩

theorem ljsh_VF_block1_total (nlist : t_nblist) (x : Int → ℚ) (vdwtype : Int → Int)
    (vdwparam : Int → ℚ) (rcutoff2 sh_vdw_invrcut6 : M128d) (ix0 iy0 iz0 : M128d)
    (vdwioffset0 : Int) (jidx : Int) (s : LJShInner) (N : Nat)
    (hA : 0 ≤ nlist.jjnr jidx ∧ nlist.jjnr jidx < N) :
    total N 0 (ljsh_VF_block1 nlist x vdwtype vdwparam rcutoff2 sh_vdw_invrcut6 ix0 iy0 iz0
        vdwioffset0 jidx s).f
        + ((ljsh_VF_block1 nlist x vdwtype vdwparam rcutoff2 sh_vdw_invrcut6 ix0 iy0 iz0 vdwioffset0
            jidx s).fix0.lo + (ljsh_VF_block1 nlist x vdwtype vdwparam rcutoff2 sh_vdw_invrcut6 ix0
            iy0 iz0 vdwioffset0 jidx s).fix0.hi)
      = total N 0 s.f + (s.fix0.lo + s.fix0.hi)
    ∧ total N 1 (ljsh_VF_block1 nlist x vdwtype vdwparam rcutoff2 sh_vdw_invrcut6 ix0 iy0 iz0
        vdwioffset0 jidx s).f
        + ((ljsh_VF_block1 nlist x vdwtype vdwparam rcutoff2 sh_vdw_invrcut6 ix0 iy0 iz0 vdwioffset0
            jidx s).fiy0.lo + (ljsh_VF_block1 nlist x vdwtype vdwparam rcutoff2 sh_vdw_invrcut6 ix0
            iy0 iz0 vdwioffset0 jidx s).fiy0.hi)
      = total N 1 s.f + (s.fiy0.lo + s.fiy0.hi)
    ∧ total N 2 (ljsh_VF_block1 nlist x vdwtype vdwparam rcutoff2 sh_vdw_invrcut6 ix0 iy0 iz0
        vdwioffset0 jidx s).f
        + ((ljsh_VF_block1 nlist x vdwtype vdwparam rcutoff2 sh_vdw_invrcut6 ix0 iy0 iz0 vdwioffset0
            jidx s).fiz0.lo + (ljsh_VF_block1 nlist x vdwtype vdwparam rcutoff2 sh_vdw_invrcut6 ix0
            iy0 iz0 vdwioffset0 jidx s).fiz0.hi)
      = total N 2 s.f + (s.fiz0.lo + s.fiz0.hi) := by
  have hh := ljsh_VF_block1_hi nlist x vdwtype vdwparam rcutoff2 sh_vdw_invrcut6 ix0 iy0 iz0
      vdwioffset0 jidx s
  obtain ⟨h1, h2, h3⟩ := hh
  refine ⟨?_, ?_, ?_⟩ <;>
    (rw [ljsh_VF_block1_decrement, total_decr1 N _ ⟨by norm_num, by norm_num⟩ _ _ hA]
     simp only [bump_c0, bump_at1, bump_at2, _mm_add_pd, _mm_sub_pd, h1, h2, h3]
     ring)

theorem ljsh_F_block2_decrement (nlist : t_nblist) (x : Int → ℚ) (vdwtype : Int → Int)
    (vdwparam : Int → ℚ) (rcutoff2 : M128d) (ix0 iy0 iz0 : M128d)
    (vdwioffset0 : Int) (jidx : Int) (s : LJShInner) :
    (ljsh_F_block2 nlist x vdwtype vdwparam rcutoff2 ix0 iy0 iz0 vdwioffset0 jidx s).f
      = gmx_mm_decrement_1rvec_2ptr_swizzle_pd s.f (DIM * nlist.jjnr jidx)
        (DIM * nlist.jjnr (jidx + 1))
        (_mm_sub_pd (ljsh_F_block2 nlist x vdwtype vdwparam rcutoff2 ix0 iy0 iz0 vdwioffset0 jidx
            s).fix0 s.fix0)
        (_mm_sub_pd (ljsh_F_block2 nlist x vdwtype vdwparam rcutoff2 ix0 iy0 iz0 vdwioffset0 jidx
            s).fiy0 s.fiy0)
        (_mm_sub_pd (ljsh_F_block2 nlist x vdwtype vdwparam rcutoff2 ix0 iy0 iz0 vdwioffset0 jidx
            s).fiz0 s.fiz0) := by
  unfold ljsh_F_block2
  simp only []
  split_ifs with h
  · simp only [sub_macc]
  · simp only [sub_self_pd, decrement_2ptr_zero]

theorem ljsh_F_block2_total (nlist : t_nblist) (x : Int → ℚ) (vdwtype : Int → Int)
    (vdwparam : Int → ℚ) (rcutoff2 : M128d) (ix0 iy0 iz0 : M128d)
    (vdwioffset0 : Int) (jidx : Int) (s : LJShInner) (N : Nat)
    (hA : 0 ≤ nlist.jjnr jidx ∧ nlist.jjnr jidx < N)
    (hB : 0 ≤ nlist.jjnr (jidx + 1) ∧ nlist.jjnr (jidx + 1) < N)
    (hab : nlist.jjnr jidx ≠ nlist.jjnr (jidx + 1)) :
    total N 0 (ljsh_F_block2 nlist x vdwtype vdwparam rcutoff2 ix0 iy0 iz0 vdwioffset0 jidx s).f
        + ((ljsh_F_block2 nlist x vdwtype vdwparam rcutoff2 ix0 iy0 iz0 vdwioffset0 jidx s).fix0.lo
            + (ljsh_F_block2 nlist x vdwtype vdwparam rcutoff2 ix0 iy0 iz0 vdwioffset0 jidx
            s).fix0.hi)
      = total N 0 s.f + (s.fix0.lo + s.fix0.hi)
    ∧ total N 1 (ljsh_F_block2 nlist x vdwtype vdwparam rcutoff2 ix0 iy0 iz0 vdwioffset0 jidx s).f
        + ((ljsh_F_block2 nlist x vdwtype vdwparam rcutoff2 ix0 iy0 iz0 vdwioffset0 jidx s).fiy0.lo
            + (ljsh_F_block2 nlist x vdwtype vdwparam rcutoff2 ix0 iy0 iz0 vdwioffset0 jidx
            s).fiy0.hi)
      = total N 1 s.f + (s.fiy0.lo + s.fiy0.hi)
    ∧ total N 2 (ljsh_F_block2 nlist x vdwtype vdwparam rcutoff2 ix0 iy0 iz0 vdwioffset0 jidx s).f
        + ((ljsh_F_block2 nlist x vdwtype vdwparam rcutoff2 ix0 iy0 iz0 vdwioffset0 jidx s).fiz0.lo
            + (ljsh_F_block2 nlist x vdwtype vdwparam rcutoff2 ix0 iy0 iz0 vdwioffset0 jidx
            s).fiz0.hi)
      = total N 2 s.f + (s.fiz0.lo + s.fiz0.hi) := by
  refine ⟨?_, ?_, ?_⟩ <;>
    (rw [ljsh_F_block2_decrement, total_decr2 N _ ⟨by norm_num, by norm_num⟩ _ _ _ hA hB hab]
     simp only [bump_c0, bump_at1, bump_at2, _mm_add_pd, _mm_sub_pd]
     ring)

theorem ljsh_F_block1_decrement (nlist : t_nblist) (x : Int → ℚ) (vdwtype : Int → Int)
    (vdwparam : Int → ℚ) (rcutoff2 : M128d) (ix0 iy0 iz0 : M128d)
    (vdwioffset0 : Int) (jidx : Int) (s : LJShInner) :
    (ljsh_F_block1 nlist x vdwtype vdwparam rcutoff2 ix0 iy0 iz0 vdwioffset0 jidx s).f
      = gmx_mm_decrement_1rvec_1ptr_swizzle_pd s.f (DIM * nlist.jjnr jidx)
        (_mm_sub_pd (ljsh_F_block1 nlist x vdwtype vdwparam rcutoff2 ix0 iy0 iz0 vdwioffset0 jidx
            s).fix0 s.fix0)
        (_mm_sub_pd (ljsh_F_block1 nlist x vdwtype vdwparam rcutoff2 ix0 iy0 iz0 vdwioffset0 jidx
            s).fiy0 s.fiy0)
        (_mm_sub_pd (ljsh_F_block1 nlist x vdwtype vdwparam rcutoff2 ix0 iy0 iz0 vdwioffset0 jidx
            s).fiz0 s.fiz0) := by
  unfold ljsh_F_block1
  simp only []
  split_ifs with h
  · simp only [sub_macc]
  · simp only [sub_self_pd, decrement_1ptr_zero]

theorem ljsh_F_block1_hi (nlist : t_nblist) (x : Int → ℚ) (vdwtype : Int → Int)
    (vdwparam : Int → ℚ) (rcutoff2 : M128d) (ix0 iy0 iz0 : M128d)
    (vdwioffset0 : Int) (jidx : Int) (s : LJShInner) :
    (ljsh_F_block1 nlist x vdwtype vdwparam rcutoff2 ix0 iy0 iz0 vdwioffset0 jidx s).fix0.hi =
        s.fix0.hi
    ∧ (ljsh_F_block1 nlist x vdwtype vdwparam rcutoff2 ix0 iy0 iz0 vdwioffset0 jidx s).fiy0.hi =
        s.fiy0.hi
    ∧ (ljsh_F_block1 nlist x vdwtype vdwparam rcutoff2 ix0 iy0 iz0 vdwioffset0 jidx s).fiz0.hi =
        s.fiz0.hi := by
  unfold ljsh_F_block1
  simp only []
  split_ifs with h
  · simp only [_mm_macc_pd, _mm_unpacklo_pd, _mm_setzero_pd, mul_zero, zero_add, and_self]
  · exact ⟨rfl, rfl, rfl⟩

theorem ljsh_F_block1_total (nlist : t_nblist) (x : Int → ℚ) (vdwtype : Int → Int)
    (vdwparam : Int → ℚ) (rcutoff2 : M128d) (ix0 iy0 iz0 : M128d)
    (vdwioffset0 : Int) (jidx : Int) (s : LJShInner) (N : Nat)
    (hA : 0 ≤ nlist.jjnr jidx ∧ nlist.jjnr jidx < N) :
    total N 0 (ljsh_F_block1 nlist x vdwtype vdwparam rcutoff2 ix0 iy0 iz0 vdwioffset0 jidx s).f
        + ((ljsh_F_block1 nlist x vdwtype vdwparam rcutoff2 ix0 iy0 iz0 vdwioffset0 jidx s).fix0.lo
            + (ljsh_F_block1 nlist x vdwtype vdwparam rcutoff2 ix0 iy0 iz0 vdwioffset0 jidx
            s).fix0.hi)
      = total N 0 s.f + (s.fix0.lo + s.fix0.hi)
    ∧ total N 1 (ljsh_F_block1 nlist x vdwtype vdwparam rcutoff2 ix0 iy0 iz0 vdwioffset0 jidx s).f
        + ((ljsh_F_block1 nlist x vdwtype vdwparam rcutoff2 ix0 iy0 iz0 vdwioffset0 jidx s).fiy0.lo
            + (ljsh_F_block1 nlist x vdwtype vdwparam rcutoff2 ix0 iy0 iz0 vdwioffset0 jidx
            s).fiy0.hi)
      = total N 1 s.f + (s.fiy0.lo + s.fiy0.hi)
    ∧ total N 2 (ljsh_F_block1 nlist x vdwtype vdwparam rcutoff2 ix0 iy0 iz0 vdwioffset0 jidx s).f
        + ((ljsh_F_block1 nlist x vdwtype vdwparam rcutoff2 ix0 iy0 iz0 vdwioffset0 jidx s).fiz0.lo
            + (ljsh_F_block1 nlist x vdwtype vdwparam rcutoff2 ix0 iy0 iz0 vdwioffset0 jidx
            s).fiz0.hi)
      = total N 2 s.f + (s.fiz0.lo + s.fiz0.hi) := by
  have hh := ljsh_F_block1_hi nlist x vdwtype vdwparam rcutoff2 ix0 iy0 iz0 vdwioffset0 jidx s
  obtain ⟨h1, h2, h3⟩ := hh
  refine ⟨?_, ?_, ?_⟩ <;>
    (rw [ljsh_F_block1_decrement, total_decr1 N _ ⟨by norm_num, by norm_num⟩ _ _ hA]
     simp only [bump_c0, bump_at1, bump_at2, _mm_add_pd, _mm_sub_pd, h1, h2, h3]
     ring)

theorem rf_VF_block2_decrement (invsqrt : ℚ → ℚ) (nlist : t_nblist) (x : Int → ℚ) (charge : Int → ℚ)
    (vdwtype : Int → Int) (vdwparam : Int → ℚ) (krf krf2 crf : M128d) (iq0 iq1 iq2 : M128d)
    (vdwioffset0 : Int) (ix0 iy0 iz0 ix1 iy1 iz1 ix2 iy2 iz2 : M128d)
    (jidx : Int) (s : RFInner) :
    (rf_VF_block2 invsqrt nlist x charge vdwtype vdwparam krf krf2 crf iq0 iq1 iq2
        vdwioffset0 ix0 iy0 iz0 ix1 iy1 iz1 ix2 iy2 iz2 jidx s).f
      = gmx_mm_decrement_1rvec_2ptr_swizzle_pd s.f (DIM * nlist.jjnr jidx)
        (DIM * nlist.jjnr (jidx + 1))
        (_mm_add_pd (_mm_add_pd (_mm_sub_pd (rf_VF_block2 invsqrt nlist x charge vdwtype vdwparam
            krf krf2 crf iq0 iq1 iq2
        vdwioffset0 ix0 iy0 iz0 ix1 iy1 iz1 ix2 iy2 iz2 jidx s).fix0 s.fix0)
          (_mm_sub_pd (rf_VF_block2 invsqrt nlist x charge vdwtype vdwparam krf krf2 crf iq0 iq1 iq2
        vdwioffset0 ix0 iy0 iz0 ix1 iy1 iz1 ix2 iy2 iz2 jidx s).fix1 s.fix1))
          (_mm_sub_pd (rf_VF_block2 invsqrt nlist x charge vdwtype vdwparam krf krf2 crf iq0 iq1 iq2
        vdwioffset0 ix0 iy0 iz0 ix1 iy1 iz1 ix2 iy2 iz2 jidx s).fix2 s.fix2))
        (_mm_add_pd (_mm_add_pd (_mm_sub_pd (rf_VF_block2 invsqrt nlist x charge vdwtype vdwparam
            krf krf2 crf iq0 iq1 iq2
        vdwioffset0 ix0 iy0 iz0 ix1 iy1 iz1 ix2 iy2 iz2 jidx s).fiy0 s.fiy0)
          (_mm_sub_pd (rf_VF_block2 invsqrt nlist x charge vdwtype vdwparam krf krf2 crf iq0 iq1 iq2
        vdwioffset0 ix0 iy0 iz0 ix1 iy1 iz1 ix2 iy2 iz2 jidx s).fiy1 s.fiy1))
          (_mm_sub_pd (rf_VF_block2 invsqrt nlist x charge vdwtype vdwparam krf krf2 crf iq0 iq1 iq2
        vdwioffset0 ix0 iy0 iz0 ix1 iy1 iz1 ix2 iy2 iz2 jidx s).fiy2 s.fiy2))
        (_mm_add_pd (_mm_add_pd (_mm_sub_pd (rf_VF_block2 invsqrt nlist x charge vdwtype vdwparam
            krf krf2 crf iq0 iq1 iq2
        vdwioffset0 ix0 iy0 iz0 ix1 iy1 iz1 ix2 iy2 iz2 jidx s).fiz0 s.fiz0)
          (_mm_sub_pd (rf_VF_block2 invsqrt nlist x charge vdwtype vdwparam krf krf2 crf iq0 iq1 iq2
        vdwioffset0 ix0 iy0 iz0 ix1 iy1 iz1 ix2 iy2 iz2 jidx s).fiz1 s.fiz1))
          (_mm_sub_pd (rf_VF_block2 invsqrt nlist x charge vdwtype vdwparam krf krf2 crf iq0 iq1 iq2
        vdwioffset0 ix0 iy0 iz0 ix1 iy1 iz1 ix2 iy2 iz2 jidx s).fiz2 s.fiz2)) := by
  unfold rf_VF_block2
  simp only [sub_add_pd, zero_add3_pd]

theorem rf_VF_block2_total (invsqrt : ℚ → ℚ) (nlist : t_nblist) (x : Int → ℚ) (charge : Int → ℚ)
    (vdwtype : Int → Int) (vdwparam : Int → ℚ) (krf krf2 crf : M128d) (iq0 iq1 iq2 : M128d)
    (vdwioffset0 : Int) (ix0 iy0 iz0 ix1 iy1 iz1 ix2 iy2 iz2 : M128d)
    (jidx : Int) (s : RFInner) (N : Nat)
    (hA : 0 ≤ nlist.jjnr jidx ∧ nlist.jjnr jidx < N)
    (hB : 0 ≤ nlist.jjnr (jidx + 1) ∧ nlist.jjnr (jidx + 1) < N)
    (hab : nlist.jjnr jidx ≠ nlist.jjnr (jidx + 1)) :
    total N 0 (rf_VF_block2 invsqrt nlist x charge vdwtype vdwparam krf krf2 crf iq0 iq1 iq2
        vdwioffset0 ix0 iy0 iz0 ix1 iy1 iz1 ix2 iy2 iz2 jidx s).f
        + ((rf_VF_block2 invsqrt nlist x charge vdwtype vdwparam krf krf2 crf iq0 iq1 iq2
        vdwioffset0 ix0 iy0 iz0 ix1 iy1 iz1 ix2 iy2 iz2 jidx s).fix0.lo + (rf_VF_block2 invsqrt
            nlist x charge vdwtype vdwparam krf krf2 crf iq0 iq1 iq2
        vdwioffset0 ix0 iy0 iz0 ix1 iy1 iz1 ix2 iy2 iz2 jidx s).fix0.hi + ((rf_VF_block2 invsqrt
            nlist x charge vdwtype vdwparam krf krf2 crf iq0 iq1 iq2
        vdwioffset0 ix0 iy0 iz0 ix1 iy1 iz1 ix2 iy2 iz2 jidx s).fix1.lo + (rf_VF_block2 invsqrt
            nlist x charge vdwtype vdwparam krf krf2 crf iq0 iq1 iq2
        vdwioffset0 ix0 iy0 iz0 ix1 iy1 iz1 ix2 iy2 iz2 jidx s).fix1.hi)
          + ((rf_VF_block2 invsqrt nlist x charge vdwtype vdwparam krf krf2 crf iq0 iq1 iq2
        vdwioffset0 ix0 iy0 iz0 ix1 iy1 iz1 ix2 iy2 iz2 jidx s).fix2.lo + (rf_VF_block2 invsqrt
            nlist x charge vdwtype vdwparam krf krf2 crf iq0 iq1 iq2
        vdwioffset0 ix0 iy0 iz0 ix1 iy1 iz1 ix2 iy2 iz2 jidx s).fix2.hi))
      = total N 0 s.f + (s.fix0.lo + s.fix0.hi + (s.fix1.lo + s.fix1.hi)
          + (s.fix2.lo + s.fix2.hi))
    ∧ total N 1 (rf_VF_block2 invsqrt nlist x charge vdwtype vdwparam krf krf2 crf iq0 iq1 iq2
        vdwioffset0 ix0 iy0 iz0 ix1 iy1 iz1 ix2 iy2 iz2 jidx s).f
        + ((rf_VF_block2 invsqrt nlist x charge vdwtype vdwparam krf krf2 crf iq0 iq1 iq2
        vdwioffset0 ix0 iy0 iz0 ix1 iy1 iz1 ix2 iy2 iz2 jidx s).fiy0.lo + (rf_VF_block2 invsqrt
            nlist x charge vdwtype vdwparam krf krf2 crf iq0 iq1 iq2
        vdwioffset0 ix0 iy0 iz0 ix1 iy1 iz1 ix2 iy2 iz2 jidx s).fiy0.hi + ((rf_VF_block2 invsqrt
            nlist x charge vdwtype vdwparam krf krf2 crf iq0 iq1 iq2
        vdwioffset0 ix0 iy0 iz0 ix1 iy1 iz1 ix2 iy2 iz2 jidx s).fiy1.lo + (rf_VF_block2 invsqrt
            nlist x charge vdwtype vdwparam krf krf2 crf iq0 iq1 iq2
        vdwioffset0 ix0 iy0 iz0 ix1 iy1 iz1 ix2 iy2 iz2 jidx s).fiy1.hi)
          + ((rf_VF_block2 invsqrt nlist x charge vdwtype vdwparam krf krf2 crf iq0 iq1 iq2
        vdwioffset0 ix0 iy0 iz0 ix1 iy1 iz1 ix2 iy2 iz2 jidx s).fiy2.lo + (rf_VF_block2 invsqrt
            nlist x charge vdwtype vdwparam krf krf2 crf iq0 iq1 iq2
        vdwioffset0 ix0 iy0 iz0 ix1 iy1 iz1 ix2 iy2 iz2 jidx s).fiy2.hi))
      = total N 1 s.f + (s.fiy0.lo + s.fiy0.hi + (s.fiy1.lo + s.fiy1.hi)
          + (s.fiy2.lo + s.fiy2.hi))
    ∧ total N 2 (rf_VF_block2 invsqrt nlist x charge vdwtype vdwparam krf krf2 crf iq0 iq1 iq2
        vdwioffset0 ix0 iy0 iz0 ix1 iy1 iz1 ix2 iy2 iz2 jidx s).f
        + ((rf_VF_block2 invsqrt nlist x charge vdwtype vdwparam krf krf2 crf iq0 iq1 iq2
        vdwioffset0 ix0 iy0 iz0 ix1 iy1 iz1 ix2 iy2 iz2 jidx s).fiz0.lo + (rf_VF_block2 invsqrt
            nlist x charge vdwtype vdwparam krf krf2 crf iq0 iq1 iq2
        vdwioffset0 ix0 iy0 iz0 ix1 iy1 iz1 ix2 iy2 iz2 jidx s).fiz0.hi + ((rf_VF_block2 invsqrt
            nlist x charge vdwtype vdwparam krf krf2 crf iq0 iq1 iq2
        vdwioffset0 ix0 iy0 iz0 ix1 iy1 iz1 ix2 iy2 iz2 jidx s).fiz1.lo + (rf_VF_block2 invsqrt
            nlist x charge vdwtype vdwparam krf krf2 crf iq0 iq1 iq2
        vdwioffset0 ix0 iy0 iz0 ix1 iy1 iz1 ix2 iy2 iz2 jidx s).fiz1.hi)
          + ((rf_VF_block2 invsqrt nlist x charge vdwtype vdwparam krf krf2 crf iq0 iq1 iq2
        vdwioffset0 ix0 iy0 iz0 ix1 iy1 iz1 ix2 iy2 iz2 jidx s).fiz2.lo + (rf_VF_block2 invsqrt
            nlist x charge vdwtype vdwparam krf krf2 crf iq0 iq1 iq2
        vdwioffset0 ix0 iy0 iz0 ix1 iy1 iz1 ix2 iy2 iz2 jidx s).fiz2.hi))
      = total N 2 s.f + (s.fiz0.lo + s.fiz0.hi + (s.fiz1.lo + s.fiz1.hi)
          + (s.fiz2.lo + s.fiz2.hi)) := by
  refine ⟨?_, ?_, ?_⟩ <;>
    (rw [rf_VF_block2_decrement, total_decr2 N _ ⟨by norm_num, by norm_num⟩ _ _ _ hA hB hab]
     simp only [bump_c0, bump_at1, bump_at2, _mm_add_pd, _mm_sub_pd]
     ring)

theorem rf_VF_block1_decrement (invsqrt : ℚ → ℚ) (nlist : t_nblist) (x : Int → ℚ) (charge : Int → ℚ)
    (vdwtype : Int → Int) (vdwparam : Int → ℚ) (krf krf2 crf : M128d) (iq0 iq1 iq2 : M128d)
    (vdwioffset0 : Int) (ix0 iy0 iz0 ix1 iy1 iz1 ix2 iy2 iz2 : M128d)
    (jidx : Int) (s : RFInner) :
    (rf_VF_block1 invsqrt nlist x charge vdwtype vdwparam krf krf2 crf iq0 iq1 iq2
        vdwioffset0 ix0 iy0 iz0 ix1 iy1 iz1 ix2 iy2 iz2 jidx s).f
      = gmx_mm_decrement_1rvec_1ptr_swizzle_pd s.f (DIM * nlist.jjnr jidx)
        (_mm_add_pd (_mm_add_pd (_mm_sub_pd (rf_VF_block1 invsqrt nlist x charge vdwtype vdwparam
            krf krf2 crf iq0 iq1 iq2
        vdwioffset0 ix0 iy0 iz0 ix1 iy1 iz1 ix2 iy2 iz2 jidx s).fix0 s.fix0)
          (_mm_sub_pd (rf_VF_block1 invsqrt nlist x charge vdwtype vdwparam krf krf2 crf iq0 iq1 iq2
        vdwioffset0 ix0 iy0 iz0 ix1 iy1 iz1 ix2 iy2 iz2 jidx s).fix1 s.fix1))
          (_mm_sub_pd (rf_VF_block1 invsqrt nlist x charge vdwtype vdwparam krf krf2 crf iq0 iq1 iq2
        vdwioffset0 ix0 iy0 iz0 ix1 iy1 iz1 ix2 iy2 iz2 jidx s).fix2 s.fix2))
        (_mm_add_pd (_mm_add_pd (_mm_sub_pd (rf_VF_block1 invsqrt nlist x charge vdwtype vdwparam
            krf krf2 crf iq0 iq1 iq2
        vdwioffset0 ix0 iy0 iz0 ix1 iy1 iz1 ix2 iy2 iz2 jidx s).fiy0 s.fiy0)
          (_mm_sub_pd (rf_VF_block1 invsqrt nlist x charge vdwtype vdwparam krf krf2 crf iq0 iq1 iq2
        vdwioffset0 ix0 iy0 iz0 ix1 iy1 iz1 ix2 iy2 iz2 jidx s).fiy1 s.fiy1))
          (_mm_sub_pd (rf_VF_block1 invsqrt nlist x charge vdwtype vdwparam krf krf2 crf iq0 iq1 iq2
        vdwioffset0 ix0 iy0 iz0 ix1 iy1 iz1 ix2 iy2 iz2 jidx s).fiy2 s.fiy2))
        (_mm_add_pd (_mm_add_pd (_mm_sub_pd (rf_VF_block1 invsqrt nlist x charge vdwtype vdwparam
            krf krf2 crf iq0 iq1 iq2
        vdwioffset0 ix0 iy0 iz0 ix1 iy1 iz1 ix2 iy2 iz2 jidx s).fiz0 s.fiz0)
          (_mm_sub_pd (rf_VF_block1 invsqrt nlist x charge vdwtype vdwparam krf krf2 crf iq0 iq1 iq2
        vdwioffset0 ix0 iy0 iz0 ix1 iy1 iz1 ix2 iy2 iz2 jidx s).fiz1 s.fiz1))
          (_mm_sub_pd (rf_VF_block1 invsqrt nlist x charge vdwtype vdwparam krf krf2 crf iq0 iq1 iq2
        vdwioffset0 ix0 iy0 iz0 ix1 iy1 iz1 ix2 iy2 iz2 jidx s).fiz2 s.fiz2)) := by
  unfold rf_VF_block1
  simp only [sub_add_pd, zero_add3_pd]

theorem rf_VF_block1_hi (invsqrt : ℚ → ℚ) (nlist : t_nblist) (x : Int → ℚ) (charge : Int → ℚ)
    (vdwtype : Int → Int) (vdwparam : Int → ℚ) (krf krf2 crf : M128d) (iq0 iq1 iq2 : M128d)
    (vdwioffset0 : Int) (ix0 iy0 iz0 ix1 iy1 iz1 ix2 iy2 iz2 : M128d)
    (jidx : Int) (s : RFInner) :
    (rf_VF_block1 invsqrt nlist x charge vdwtype vdwparam krf krf2 crf iq0 iq1 iq2
        vdwioffset0 ix0 iy0 iz0 ix1 iy1 iz1 ix2 iy2 iz2 jidx s).fix0.hi = s.fix0.hi
    ∧ (rf_VF_block1 invsqrt nlist x charge vdwtype vdwparam krf krf2 crf iq0 iq1 iq2
        vdwioffset0 ix0 iy0 iz0 ix1 iy1 iz1 ix2 iy2 iz2 jidx s).fiy0.hi = s.fiy0.hi
    ∧ (rf_VF_block1 invsqrt nlist x charge vdwtype vdwparam krf krf2 crf iq0 iq1 iq2
        vdwioffset0 ix0 iy0 iz0 ix1 iy1 iz1 ix2 iy2 iz2 jidx s).fiz0.hi = s.fiz0.hi
    ∧ (rf_VF_block1 invsqrt nlist x charge vdwtype vdwparam krf krf2 crf iq0 iq1 iq2
        vdwioffset0 ix0 iy0 iz0 ix1 iy1 iz1 ix2 iy2 iz2 jidx s).fix1.hi = s.fix1.hi
    ∧ (rf_VF_block1 invsqrt nlist x charge vdwtype vdwparam krf krf2 crf iq0 iq1 iq2
        vdwioffset0 ix0 iy0 iz0 ix1 iy1 iz1 ix2 iy2 iz2 jidx s).fiy1.hi = s.fiy1.hi
    ∧ (rf_VF_block1 invsqrt nlist x charge vdwtype vdwparam krf krf2 crf iq0 iq1 iq2
        vdwioffset0 ix0 iy0 iz0 ix1 iy1 iz1 ix2 iy2 iz2 jidx s).fiz1.hi = s.fiz1.hi
    ∧ (rf_VF_block1 invsqrt nlist x charge vdwtype vdwparam krf krf2 crf iq0 iq1 iq2
        vdwioffset0 ix0 iy0 iz0 ix1 iy1 iz1 ix2 iy2 iz2 jidx s).fix2.hi = s.fix2.hi
    ∧ (rf_VF_block1 invsqrt nlist x charge vdwtype vdwparam krf krf2 crf iq0 iq1 iq2
        vdwioffset0 ix0 iy0 iz0 ix1 iy1 iz1 ix2 iy2 iz2 jidx s).fiy2.hi = s.fiy2.hi
    ∧ (rf_VF_block1 invsqrt nlist x charge vdwtype vdwparam krf krf2 crf iq0 iq1 iq2
        vdwioffset0 ix0 iy0 iz0 ix1 iy1 iz1 ix2 iy2 iz2 jidx s).fiz2.hi = s.fiz2.hi := by
  unfold rf_VF_block1
  simp only [_mm_add_pd, _mm_mul_pd, _mm_unpacklo_pd, _mm_setzero_pd, zero_mul, add_zero,
    and_self]

theorem rf_VF_block1_total (invsqrt : ℚ → ℚ) (nlist : t_nblist) (x : Int → ℚ) (charge : Int → ℚ)
    (vdwtype : Int → Int) (vdwparam : Int → ℚ) (krf krf2 crf : M128d) (iq0 iq1 iq2 : M128d)
    (vdwioffset0 : Int) (ix0 iy0 iz0 ix1 iy1 iz1 ix2 iy2 iz2 : M128d)
    (jidx : Int) (s : RFInner) (N : Nat)
    (hA : 0 ≤ nlist.jjnr jidx ∧ nlist.jjnr jidx < N) :
    total N 0 (rf_VF_block1 invsqrt nlist x charge vdwtype vdwparam krf krf2 crf iq0 iq1 iq2
        vdwioffset0 ix0 iy0 iz0 ix1 iy1 iz1 ix2 iy2 iz2 jidx s).f
        + ((rf_VF_block1 invsqrt nlist x charge vdwtype vdwparam krf krf2 crf iq0 iq1 iq2
        vdwioffset0 ix0 iy0 iz0 ix1 iy1 iz1 ix2 iy2 iz2 jidx s).fix0.lo + (rf_VF_block1 invsqrt
            nlist x charge vdwtype vdwparam krf krf2 crf iq0 iq1 iq2
        vdwioffset0 ix0 iy0 iz0 ix1 iy1 iz1 ix2 iy2 iz2 jidx s).fix0.hi + ((rf_VF_block1 invsqrt
            nlist x charge vdwtype vdwparam krf krf2 crf iq0 iq1 iq2
        vdwioffset0 ix0 iy0 iz0 ix1 iy1 iz1 ix2 iy2 iz2 jidx s).fix1.lo + (rf_VF_block1 invsqrt
            nlist x charge vdwtype vdwparam krf krf2 crf iq0 iq1 iq2
        vdwioffset0 ix0 iy0 iz0 ix1 iy1 iz1 ix2 iy2 iz2 jidx s).fix1.hi)
          + ((rf_VF_block1 invsqrt nlist x charge vdwtype vdwparam krf krf2 crf iq0 iq1 iq2
        vdwioffset0 ix0 iy0 iz0 ix1 iy1 iz1 ix2 iy2 iz2 jidx s).fix2.lo + (rf_VF_block1 invsqrt
            nlist x charge vdwtype vdwparam krf krf2 crf iq0 iq1 iq2
        vdwioffset0 ix0 iy0 iz0 ix1 iy1 iz1 ix2 iy2 iz2 jidx s).fix2.hi))
      = total N 0 s.f + (s.fix0.lo + s.fix0.hi + (s.fix1.lo + s.fix1.hi)
          + (s.fix2.lo + s.fix2.hi))
    ∧ total N 1 (rf_VF_block1 invsqrt nlist x charge vdwtype vdwparam krf krf2 crf iq0 iq1 iq2
        vdwioffset0 ix0 iy0 iz0 ix1 iy1 iz1 ix2 iy2 iz2 jidx s).f
        + ((rf_VF_block1 invsqrt nlist x charge vdwtype vdwparam krf krf2 crf iq0 iq1 iq2
        vdwioffset0 ix0 iy0 iz0 ix1 iy1 iz1 ix2 iy2 iz2 jidx s).fiy0.lo + (rf_VF_block1 invsqrt
            nlist x charge vdwtype vdwparam krf krf2 crf iq0 iq1 iq2
        vdwioffset0 ix0 iy0 iz0 ix1 iy1 iz1 ix2 iy2 iz2 jidx s).fiy0.hi + ((rf_VF_block1 invsqrt
            nlist x charge vdwtype vdwparam krf krf2 crf iq0 iq1 iq2
        vdwioffset0 ix0 iy0 iz0 ix1 iy1 iz1 ix2 iy2 iz2 jidx s).fiy1.lo + (rf_VF_block1 invsqrt
            nlist x charge vdwtype vdwparam krf krf2 crf iq0 iq1 iq2
        vdwioffset0 ix0 iy0 iz0 ix1 iy1 iz1 ix2 iy2 iz2 jidx s).fiy1.hi)
          + ((rf_VF_block1 invsqrt nlist x charge vdwtype vdwparam krf krf2 crf iq0 iq1 iq2
        vdwioffset0 ix0 iy0 iz0 ix1 iy1 iz1 ix2 iy2 iz2 jidx s).fiy2.lo + (rf_VF_block1 invsqrt
            nlist x charge vdwtype vdwparam krf krf2 crf iq0 iq1 iq2
        vdwioffset0 ix0 iy0 iz0 ix1 iy1 iz1 ix2 iy2 iz2 jidx s).fiy2.hi))
      = total N 1 s.f + (s.fiy0.lo + s.fiy0.hi + (s.fiy1.lo + s.fiy1.hi)
          + (s.fiy2.lo + s.fiy2.hi))
    ∧ total N 2 (rf_VF_block1 invsqrt nlist x charge vdwtype vdwparam krf krf2 crf iq0 iq1 iq2
        vdwioffset0 ix0 iy0 iz0 ix1 iy1 iz1 ix2 iy2 iz2 jidx s).f
        + ((rf_VF_block1 invsqrt nlist x charge vdwtype vdwparam krf krf2 crf iq0 iq1 iq2
        vdwioffset0 ix0 iy0 iz0 ix1 iy1 iz1 ix2 iy2 iz2 jidx s).fiz0.lo + (rf_VF_block1 invsqrt
            nlist x charge vdwtype vdwparam krf krf2 crf iq0 iq1 iq2
        vdwioffset0 ix0 iy0 iz0 ix1 iy1 iz1 ix2 iy2 iz2 jidx s).fiz0.hi + ((rf_VF_block1 invsqrt
            nlist x charge vdwtype vdwparam krf krf2 crf iq0 iq1 iq2
        vdwioffset0 ix0 iy0 iz0 ix1 iy1 iz1 ix2 iy2 iz2 jidx s).fiz1.lo + (rf_VF_block1 invsqrt
            nlist x charge vdwtype vdwparam krf krf2 crf iq0 iq1 iq2
        vdwioffset0 ix0 iy0 iz0 ix1 iy1 iz1 ix2 iy2 iz2 jidx s).fiz1.hi)
          + ((rf_VF_block1 invsqrt nlist x charge vdwtype vdwparam krf krf2 crf iq0 iq1 iq2
        vdwioffset0 ix0 iy0 iz0 ix1 iy1 iz1 ix2 iy2 iz2 jidx s).fiz2.lo + (rf_VF_block1 invsqrt
            nlist x charge vdwtype vdwparam krf krf2 crf iq0 iq1 iq2
        vdwioffset0 ix0 iy0 iz0 ix1 iy1 iz1 ix2 iy2 iz2 jidx s).fiz2.hi))
      = total N 2 s.f + (s.fiz0.lo + s.fiz0.hi + (s.fiz1.lo + s.fiz1.hi)
          + (s.fiz2.lo + s.fiz2.hi)) := by
  have hh := rf_VF_block1_hi invsqrt nlist x charge vdwtype vdwparam krf krf2 crf iq0 iq1 iq2
    vdwioffset0 ix0 iy0 iz0 ix1 iy1 iz1 ix2 iy2 iz2 jidx s
  obtain ⟨h1, h2, h3, h4, h5, h6, h7, h8, h9⟩ := hh
  refine ⟨?_, ?_, ?_⟩ <;>
    (rw [rf_VF_block1_decrement, total_decr1 N _ ⟨by norm_num, by norm_num⟩ _ _ hA]
     simp only [bump_c0, bump_at1, bump_at2, _mm_add_pd, _mm_sub_pd, h1, h2, h3, h4, h5, h6, h7, h8,
         h9]
     ring)

theorem rf_F_block2_decrement (invsqrt : ℚ → ℚ) (nlist : t_nblist) (x : Int → ℚ) (charge : Int → ℚ)
    (vdwtype : Int → Int) (vdwparam : Int → ℚ) (krf2 : M128d) (iq0 iq1 iq2 : M128d)
    (vdwioffset0 : Int) (ix0 iy0 iz0 ix1 iy1 iz1 ix2 iy2 iz2 : M128d)
    (jidx : Int) (s : RFInner) :
    (rf_F_block2 invsqrt nlist x charge vdwtype vdwparam krf2 iq0 iq1 iq2
        vdwioffset0 ix0 iy0 iz0 ix1 iy1 iz1 ix2 iy2 iz2 jidx s).f
      = gmx_mm_decrement_1rvec_2ptr_swizzle_pd s.f (DIM * nlist.jjnr jidx)
        (DIM * nlist.jjnr (jidx + 1))
        (_mm_add_pd (_mm_add_pd (_mm_sub_pd (rf_F_block2 invsqrt nlist x charge vdwtype vdwparam
            krf2 iq0 iq1 iq2
        vdwioffset0 ix0 iy0 iz0 ix1 iy1 iz1 ix2 iy2 iz2 jidx s).fix0 s.fix0)
          (_mm_sub_pd (rf_F_block2 invsqrt nlist x charge vdwtype vdwparam krf2 iq0 iq1 iq2
        vdwioffset0 ix0 iy0 iz0 ix1 iy1 iz1 ix2 iy2 iz2 jidx s).fix1 s.fix1))
          (_mm_sub_pd (rf_F_block2 invsqrt nlist x charge vdwtype vdwparam krf2 iq0 iq1 iq2
        vdwioffset0 ix0 iy0 iz0 ix1 iy1 iz1 ix2 iy2 iz2 jidx s).fix2 s.fix2))
        (_mm_add_pd (_mm_add_pd (_mm_sub_pd (rf_F_block2 invsqrt nlist x charge vdwtype vdwparam
            krf2 iq0 iq1 iq2
        vdwioffset0 ix0 iy0 iz0 ix1 iy1 iz1 ix2 iy2 iz2 jidx s).fiy0 s.fiy0)
          (_mm_sub_pd (rf_F_block2 invsqrt nlist x charge vdwtype vdwparam krf2 iq0 iq1 iq2
        vdwioffset0 ix0 iy0 iz0 ix1 iy1 iz1 ix2 iy2 iz2 jidx s).fiy1 s.fiy1))
          (_mm_sub_pd (rf_F_block2 invsqrt nlist x charge vdwtype vdwparam krf2 iq0 iq1 iq2
        vdwioffset0 ix0 iy0 iz0 ix1 iy1 iz1 ix2 iy2 iz2 jidx s).fiy2 s.fiy2))
        (_mm_add_pd (_mm_add_pd (_mm_sub_pd (rf_F_block2 invsqrt nlist x charge vdwtype vdwparam
            krf2 iq0 iq1 iq2
        vdwioffset0 ix0 iy0 iz0 ix1 iy1 iz1 ix2 iy2 iz2 jidx s).fiz0 s.fiz0)
          (_mm_sub_pd (rf_F_block2 invsqrt nlist x charge vdwtype vdwparam krf2 iq0 iq1 iq2
        vdwioffset0 ix0 iy0 iz0 ix1 iy1 iz1 ix2 iy2 iz2 jidx s).fiz1 s.fiz1))
          (_mm_sub_pd (rf_F_block2 invsqrt nlist x charge vdwtype vdwparam krf2 iq0 iq1 iq2
        vdwioffset0 ix0 iy0 iz0 ix1 iy1 iz1 ix2 iy2 iz2 jidx s).fiz2 s.fiz2)) := by
  unfold rf_F_block2
  simp only [sub_add_pd, zero_add3_pd]

theorem rf_F_block2_total (invsqrt : ℚ → ℚ) (nlist : t_nblist) (x : Int → ℚ) (charge : Int → ℚ)
    (vdwtype : Int → Int) (vdwparam : Int → ℚ) (krf2 : M128d) (iq0 iq1 iq2 : M128d)
    (vdwioffset0 : Int) (ix0 iy0 iz0 ix1 iy1 iz1 ix2 iy2 iz2 : M128d)
    (jidx : Int) (s : RFInner) (N : Nat)
    (hA : 0 ≤ nlist.jjnr jidx ∧ nlist.jjnr jidx < N)
    (hB : 0 ≤ nlist.jjnr (jidx + 1) ∧ nlist.jjnr (jidx + 1) < N)
    (hab : nlist.jjnr jidx ≠ nlist.jjnr (jidx + 1)) :
    total N 0 (rf_F_block2 invsqrt nlist x charge vdwtype vdwparam krf2 iq0 iq1 iq2
        vdwioffset0 ix0 iy0 iz0 ix1 iy1 iz1 ix2 iy2 iz2 jidx s).f
        + ((rf_F_block2 invsqrt nlist x charge vdwtype vdwparam krf2 iq0 iq1 iq2
        vdwioffset0 ix0 iy0 iz0 ix1 iy1 iz1 ix2 iy2 iz2 jidx s).fix0.lo + (rf_F_block2 invsqrt nlist
            x charge vdwtype vdwparam krf2 iq0 iq1 iq2
        vdwioffset0 ix0 iy0 iz0 ix1 iy1 iz1 ix2 iy2 iz2 jidx s).fix0.hi + ((rf_F_block2 invsqrt
            nlist x charge vdwtype vdwparam krf2 iq0 iq1 iq2
        vdwioffset0 ix0 iy0 iz0 ix1 iy1 iz1 ix2 iy2 iz2 jidx s).fix1.lo + (rf_F_block2 invsqrt nlist
            x charge vdwtype vdwparam krf2 iq0 iq1 iq2
        vdwioffset0 ix0 iy0 iz0 ix1 iy1 iz1 ix2 iy2 iz2 jidx s).fix1.hi)
          + ((rf_F_block2 invsqrt nlist x charge vdwtype vdwparam krf2 iq0 iq1 iq2
        vdwioffset0 ix0 iy0 iz0 ix1 iy1 iz1 ix2 iy2 iz2 jidx s).fix2.lo + (rf_F_block2 invsqrt nlist
            x charge vdwtype vdwparam krf2 iq0 iq1 iq2
        vdwioffset0 ix0 iy0 iz0 ix1 iy1 iz1 ix2 iy2 iz2 jidx s).fix2.hi))
      = total N 0 s.f + (s.fix0.lo + s.fix0.hi + (s.fix1.lo + s.fix1.hi)
          + (s.fix2.lo + s.fix2.hi))
    ∧ total N 1 (rf_F_block2 invsqrt nlist x charge vdwtype vdwparam krf2 iq0 iq1 iq2
        vdwioffset0 ix0 iy0 iz0 ix1 iy1 iz1 ix2 iy2 iz2 jidx s).f
        + ((rf_F_block2 invsqrt nlist x charge vdwtype vdwparam krf2 iq0 iq1 iq2
        vdwioffset0 ix0 iy0 iz0 ix1 iy1 iz1 ix2 iy2 iz2 jidx s).fiy0.lo + (rf_F_block2 invsqrt nlist
            x charge vdwtype vdwparam krf2 iq0 iq1 iq2
        vdwioffset0 ix0 iy0 iz0 ix1 iy1 iz1 ix2 iy2 iz2 jidx s).fiy0.hi + ((rf_F_block2 invsqrt
            nlist x charge vdwtype vdwparam krf2 iq0 iq1 iq2
        vdwioffset0 ix0 iy0 iz0 ix1 iy1 iz1 ix2 iy2 iz2 jidx s).fiy1.lo + (rf_F_block2 invsqrt nlist
            x charge vdwtype vdwparam krf2 iq0 iq1 iq2
        vdwioffset0 ix0 iy0 iz0 ix1 iy1 iz1 ix2 iy2 iz2 jidx s).fiy1.hi)
          + ((rf_F_block2 invsqrt nlist x charge vdwtype vdwparam krf2 iq0 iq1 iq2
        vdwioffset0 ix0 iy0 iz0 ix1 iy1 iz1 ix2 iy2 iz2 jidx s).fiy2.lo + (rf_F_block2 invsqrt nlist
            x charge vdwtype vdwparam krf2 iq0 iq1 iq2
        vdwioffset0 ix0 iy0 iz0 ix1 iy1 iz1 ix2 iy2 iz2 jidx s).fiy2.hi))
      = total N 1 s.f + (s.fiy0.lo + s.fiy0.hi + (s.fiy1.lo + s.fiy1.hi)
          + (s.fiy2.lo + s.fiy2.hi))
    ∧ total N 2 (rf_F_block2 invsqrt nlist x charge vdwtype vdwparam krf2 iq0 iq1 iq2
        vdwioffset0 ix0 iy0 iz0 ix1 iy1 iz1 ix2 iy2 iz2 jidx s).f
        + ((rf_F_block2 invsqrt nlist x charge vdwtype vdwparam krf2 iq0 iq1 iq2
        vdwioffset0 ix0 iy0 iz0 ix1 iy1 iz1 ix2 iy2 iz2 jidx s).fiz0.lo + (rf_F_block2 invsqrt nlist
            x charge vdwtype vdwparam krf2 iq0 iq1 iq2
        vdwioffset0 ix0 iy0 iz0 ix1 iy1 iz1 ix2 iy2 iz2 jidx s).fiz0.hi + ((rf_F_block2 invsqrt
            nlist x charge vdwtype vdwparam krf2 iq0 iq1 iq2
        vdwioffset0 ix0 iy0 iz0 ix1 iy1 iz1 ix2 iy2 iz2 jidx s).fiz1.lo + (rf_F_block2 invsqrt nlist
            x charge vdwtype vdwparam krf2 iq0 iq1 iq2
        vdwioffset0 ix0 iy0 iz0 ix1 iy1 iz1 ix2 iy2 iz2 jidx s).fiz1.hi)
          + ((rf_F_block2 invsqrt nlist x charge vdwtype vdwparam krf2 iq0 iq1 iq2
        vdwioffset0 ix0 iy0 iz0 ix1 iy1 iz1 ix2 iy2 iz2 jidx s).fiz2.lo + (rf_F_block2 invsqrt nlist
            x charge vdwtype vdwparam krf2 iq0 iq1 iq2
        vdwioffset0 ix0 iy0 iz0 ix1 iy1 iz1 ix2 iy2 iz2 jidx s).fiz2.hi))
      = total N 2 s.f + (s.fiz0.lo + s.fiz0.hi + (s.fiz1.lo + s.fiz1.hi)
          + (s.fiz2.lo + s.fiz2.hi)) := by
  refine ⟨?_, ?_, ?_⟩ <;>
    (rw [rf_F_block2_decrement, total_decr2 N _ ⟨by norm_num, by norm_num⟩ _ _ _ hA hB hab]
     simp only [bump_c0, bump_at1, bump_at2, _mm_add_pd, _mm_sub_pd]
     ring)

theorem rf_F_block1_decrement (invsqrt : ℚ → ℚ) (nlist : t_nblist) (x : Int → ℚ) (charge : Int → ℚ)
    (vdwtype : Int → Int) (vdwparam : Int → ℚ) (krf2 : M128d) (iq0 iq1 iq2 : M128d)
    (vdwioffset0 : Int) (ix0 iy0 iz0 ix1 iy1 iz1 ix2 iy2 iz2 : M128d)
    (jidx : Int) (s : RFInner) :
    (rf_F_block1 invsqrt nlist x charge vdwtype vdwparam krf2 iq0 iq1 iq2
        vdwioffset0 ix0 iy0 iz0 ix1 iy1 iz1 ix2 iy2 iz2 jidx s).f
      = gmx_mm_decrement_1rvec_1ptr_swizzle_pd s.f (DIM * nlist.jjnr jidx)
        (_mm_add_pd (_mm_add_pd (_mm_sub_pd (rf_F_block1 invsqrt nlist x charge vdwtype vdwparam
            krf2 iq0 iq1 iq2
        vdwioffset0 ix0 iy0 iz0 ix1 iy1 iz1 ix2 iy2 iz2 jidx s).fix0 s.fix0)
          (_mm_sub_pd (rf_F_block1 invsqrt nlist x charge vdwtype vdwparam krf2 iq0 iq1 iq2
        vdwioffset0 ix0 iy0 iz0 ix1 iy1 iz1 ix2 iy2 iz2 jidx s).fix1 s.fix1))
          (_mm_sub_pd (rf_F_block1 invsqrt nlist x charge vdwtype vdwparam krf2 iq0 iq1 iq2
        vdwioffset0 ix0 iy0 iz0 ix1 iy1 iz1 ix2 iy2 iz2 jidx s).fix2 s.fix2))
        (_mm_add_pd (_mm_add_pd (_mm_sub_pd (rf_F_block1 invsqrt nlist x charge vdwtype vdwparam
            krf2 iq0 iq1 iq2
        vdwioffset0 ix0 iy0 iz0 ix1 iy1 iz1 ix2 iy2 iz2 jidx s).fiy0 s.fiy0)
          (_mm_sub_pd (rf_F_block1 invsqrt nlist x charge vdwtype vdwparam krf2 iq0 iq1 iq2
        vdwioffset0 ix0 iy0 iz0 ix1 iy1 iz1 ix2 iy2 iz2 jidx s).fiy1 s.fiy1))
          (_mm_sub_pd (rf_F_block1 invsqrt nlist x charge vdwtype vdwparam krf2 iq0 iq1 iq2
        vdwioffset0 ix0 iy0 iz0 ix1 iy1 iz1 ix2 iy2 iz2 jidx s).fiy2 s.fiy2))
        (_mm_add_pd (_mm_add_pd (_mm_sub_pd (rf_F_block1 invsqrt nlist x charge vdwtype vdwparam
            krf2 iq0 iq1 iq2
        vdwioffset0 ix0 iy0 iz0 ix1 iy1 iz1 ix2 iy2 iz2 jidx s).fiz0 s.fiz0)
          (_mm_sub_pd (rf_F_block1 invsqrt nlist x charge vdwtype vdwparam krf2 iq0 iq1 iq2
        vdwioffset0 ix0 iy0 iz0 ix1 iy1 iz1 ix2 iy2 iz2 jidx s).fiz1 s.fiz1))
          (_mm_sub_pd (rf_F_block1 invsqrt nlist x charge vdwtype vdwparam krf2 iq0 iq1 iq2
        vdwioffset0 ix0 iy0 iz0 ix1 iy1 iz1 ix2 iy2 iz2 jidx s).fiz2 s.fiz2)) := by
  unfold rf_F_block1
  simp only [sub_add_pd, zero_add3_pd]

theorem rf_F_block1_hi (invsqrt : ℚ → ℚ) (nlist : t_nblist) (x : Int → ℚ) (charge : Int → ℚ)
    (vdwtype : Int → Int) (vdwparam : Int → ℚ) (krf2 : M128d) (iq0 iq1 iq2 : M128d)
    (vdwioffset0 : Int) (ix0 iy0 iz0 ix1 iy1 iz1 ix2 iy2 iz2 : M128d)
    (jidx : Int) (s : RFInner) :
    (rf_F_block1 invsqrt nlist x charge vdwtype vdwparam krf2 iq0 iq1 iq2
        vdwioffset0 ix0 iy0 iz0 ix1 iy1 iz1 ix2 iy2 iz2 jidx s).fix0.hi = s.fix0.hi
    ∧ (rf_F_block1 invsqrt nlist x charge vdwtype vdwparam krf2 iq0 iq1 iq2
        vdwioffset0 ix0 iy0 iz0 ix1 iy1 iz1 ix2 iy2 iz2 jidx s).fiy0.hi = s.fiy0.hi
    ∧ (rf_F_block1 invsqrt nlist x charge vdwtype vdwparam krf2 iq0 iq1 iq2
        vdwioffset0 ix0 iy0 iz0 ix1 iy1 iz1 ix2 iy2 iz2 jidx s).fiz0.hi = s.fiz0.hi
    ∧ (rf_F_block1 invsqrt nlist x charge vdwtype vdwparam krf2 iq0 iq1 iq2
        vdwioffset0 ix0 iy0 iz0 ix1 iy1 iz1 ix2 iy2 iz2 jidx s).fix1.hi = s.fix1.hi
    ∧ (rf_F_block1 invsqrt nlist x charge vdwtype vdwparam krf2 iq0 iq1 iq2
        vdwioffset0 ix0 iy0 iz0 ix1 iy1 iz1 ix2 iy2 iz2 jidx s).fiy1.hi = s.fiy1.hi
    ∧ (rf_F_block1 invsqrt nlist x charge vdwtype vdwparam krf2 iq0 iq1 iq2
        vdwioffset0 ix0 iy0 iz0 ix1 iy1 iz1 ix2 iy2 iz2 jidx s).fiz1.hi = s.fiz1.hi
    ∧ (rf_F_block1 invsqrt nlist x charge vdwtype vdwparam krf2 iq0 iq1 iq2
        vdwioffset0 ix0 iy0 iz0 ix1 iy1 iz1 ix2 iy2 iz2 jidx s).fix2.hi = s.fix2.hi
    ∧ (rf_F_block1 invsqrt nlist x charge vdwtype vdwparam krf2 iq0 iq1 iq2
        vdwioffset0 ix0 iy0 iz0 ix1 iy1 iz1 ix2 iy2 iz2 jidx s).fiy2.hi = s.fiy2.hi
    ∧ (rf_F_block1 invsqrt nlist x charge vdwtype vdwparam krf2 iq0 iq1 iq2
        vdwioffset0 ix0 iy0 iz0 ix1 iy1 iz1 ix2 iy2 iz2 jidx s).fiz2.hi = s.fiz2.hi := by
  unfold rf_F_block1
  simp only [_mm_add_pd, _mm_mul_pd, _mm_unpacklo_pd, _mm_setzero_pd, zero_mul, add_zero,
    and_self]

theorem rf_F_block1_total (invsqrt : ℚ → ℚ) (nlist : t_nblist) (x : Int → ℚ) (charge : Int → ℚ)
    (vdwtype : Int → Int) (vdwparam : Int → ℚ) (krf2 : M128d) (iq0 iq1 iq2 : M128d)
    (vdwioffset0 : Int) (ix0 iy0 iz0 ix1 iy1 iz1 ix2 iy2 iz2 : M128d)
    (jidx : Int) (s : RFInner) (N : Nat)
    (hA : 0 ≤ nlist.jjnr jidx ∧ nlist.jjnr jidx < N) :
    total N 0 (rf_F_block1 invsqrt nlist x charge vdwtype vdwparam krf2 iq0 iq1 iq2
        vdwioffset0 ix0 iy0 iz0 ix1 iy1 iz1 ix2 iy2 iz2 jidx s).f
        + ((rf_F_block1 invsqrt nlist x charge vdwtype vdwparam krf2 iq0 iq1 iq2
        vdwioffset0 ix0 iy0 iz0 ix1 iy1 iz1 ix2 iy2 iz2 jidx s).fix0.lo + (rf_F_block1 invsqrt nlist
            x charge vdwtype vdwparam krf2 iq0 iq1 iq2
        vdwioffset0 ix0 iy0 iz0 ix1 iy1 iz1 ix2 iy2 iz2 jidx s).fix0.hi + ((rf_F_block1 invsqrt
            nlist x charge vdwtype vdwparam krf2 iq0 iq1 iq2
        vdwioffset0 ix0 iy0 iz0 ix1 iy1 iz1 ix2 iy2 iz2 jidx s).fix1.lo + (rf_F_block1 invsqrt nlist
            x charge vdwtype vdwparam krf2 iq0 iq1 iq2
        vdwioffset0 ix0 iy0 iz0 ix1 iy1 iz1 ix2 iy2 iz2 jidx s).fix1.hi)
          + ((rf_F_block1 invsqrt nlist x charge vdwtype vdwparam krf2 iq0 iq1 iq2
        vdwioffset0 ix0 iy0 iz0 ix1 iy1 iz1 ix2 iy2 iz2 jidx s).fix2.lo + (rf_F_block1 invsqrt nlist
            x charge vdwtype vdwparam krf2 iq0 iq1 iq2
        vdwioffset0 ix0 iy0 iz0 ix1 iy1 iz1 ix2 iy2 iz2 jidx s).fix2.hi))
      = total N 0 s.f + (s.fix0.lo + s.fix0.hi + (s.fix1.lo + s.fix1.hi)
          + (s.fix2.lo + s.fix2.hi))
    ∧ total N 1 (rf_F_block1 invsqrt nlist x charge vdwtype vdwparam krf2 iq0 iq1 iq2
        vdwioffset0 ix0 iy0 iz0 ix1 iy1 iz1 ix2 iy2 iz2 jidx s).f
        + ((rf_F_block1 invsqrt nlist x charge vdwtype vdwparam krf2 iq0 iq1 iq2
        vdwioffset0 ix0 iy0 iz0 ix1 iy1 iz1 ix2 iy2 iz2 jidx s).fiy0.lo + (rf_F_block1 invsqrt nlist
            x charge vdwtype vdwparam krf2 iq0 iq1 iq2
        vdwioffset0 ix0 iy0 iz0 ix1 iy1 iz1 ix2 iy2 iz2 jidx s).fiy0.hi + ((rf_F_block1 invsqrt
            nlist x charge vdwtype vdwparam krf2 iq0 iq1 iq2
        vdwioffset0 ix0 iy0 iz0 ix1 iy1 iz1 ix2 iy2 iz2 jidx s).fiy1.lo + (rf_F_block1 invsqrt nlist
            x charge vdwtype vdwparam krf2 iq0 iq1 iq2
        vdwioffset0 ix0 iy0 iz0 ix1 iy1 iz1 ix2 iy2 iz2 jidx s).fiy1.hi)
          + ((rf_F_block1 invsqrt nlist x charge vdwtype vdwparam krf2 iq0 iq1 iq2
        vdwioffset0 ix0 iy0 iz0 ix1 iy1 iz1 ix2 iy2 iz2 jidx s).fiy2.lo + (rf_F_block1 invsqrt nlist
            x charge vdwtype vdwparam krf2 iq0 iq1 iq2
        vdwioffset0 ix0 iy0 iz0 ix1 iy1 iz1 ix2 iy2 iz2 jidx s).fiy2.hi))
      = total N 1 s.f + (s.fiy0.lo + s.fiy0.hi + (s.fiy1.lo + s.fiy1.hi)
          + (s.fiy2.lo + s.fiy2.hi))
    ∧ total N 2 (rf_F_block1 invsqrt nlist x charge vdwtype vdwparam krf2 iq0 iq1 iq2
        vdwioffset0 ix0 iy0 iz0 ix1 iy1 iz1 ix2 iy2 iz2 jidx s).f
        + ((rf_F_block1 invsqrt nlist x charge vdwtype vdwparam krf2 iq0 iq1 iq2
        vdwioffset0 ix0 iy0 iz0 ix1 iy1 iz1 ix2 iy2 iz2 jidx s).fiz0.lo + (rf_F_block1 invsqrt nlist
            x charge vdwtype vdwparam krf2 iq0 iq1 iq2
        vdwioffset0 ix0 iy0 iz0 ix1 iy1 iz1 ix2 iy2 iz2 jidx s).fiz0.hi + ((rf_F_block1 invsqrt
            nlist x charge vdwtype vdwparam krf2 iq0 iq1 iq2
        vdwioffset0 ix0 iy0 iz0 ix1 iy1 iz1 ix2 iy2 iz2 jidx s).fiz1.lo + (rf_F_block1 invsqrt nlist
            x charge vdwtype vdwparam krf2 iq0 iq1 iq2
        vdwioffset0 ix0 iy0 iz0 ix1 iy1 iz1 ix2 iy2 iz2 jidx s).fiz1.hi)
          + ((rf_F_block1 invsqrt nlist x charge vdwtype vdwparam krf2 iq0 iq1 iq2
        vdwioffset0 ix0 iy0 iz0 ix1 iy1 iz1 ix2 iy2 iz2 jidx s).fiz2.lo + (rf_F_block1 invsqrt nlist
            x charge vdwtype vdwparam krf2 iq0 iq1 iq2
        vdwioffset0 ix0 iy0 iz0 ix1 iy1 iz1 ix2 iy2 iz2 jidx s).fiz2.hi))
      = total N 2 s.f + (s.fiz0.lo + s.fiz0.hi + (s.fiz1.lo + s.fiz1.hi)
          + (s.fiz2.lo + s.fiz2.hi)) := by
  have hh := rf_F_block1_hi invsqrt nlist x charge vdwtype vdwparam krf2 iq0 iq1 iq2
    vdwioffset0 ix0 iy0 iz0 ix1 iy1 iz1 ix2 iy2 iz2 jidx s
  obtain ⟨h1, h2, h3, h4, h5, h6, h7, h8, h9⟩ := hh
  refine ⟨?_, ?_, ?_⟩ <;>
    (rw [rf_F_block1_decrement, total_decr1 N _ ⟨by norm_num, by norm_num⟩ _ _ hA]
     simp only [bump_c0, bump_at1, bump_at2, _mm_add_pd, _mm_sub_pd, h1, h2, h3, h4, h5, h6, h7, h8,
         h9]
     ring)

theorem ljsh_VF_innerLoop_total (nlist : t_nblist) (x : Int → ℚ) (vdwtype : Int → Int)
    (vdwparam : Int → ℚ) (rcutoff2 sh_vdw_invrcut6 : M128d) (ix0 iy0 iz0 : M128d)
    (vdwioffset0 : Int)
    (N : Nat) (js je : Int) (s0 : LJShInner)
    (hN : ∀ jidx : Int, js ≤ jidx → jidx < je → 0 ≤ nlist.jjnr jidx ∧ nlist.jjnr jidx < N)
    (hd : ∀ a b : Int, js ≤ a → a < b → b < je → nlist.jjnr a ≠ nlist.jjnr b) :
    total N 0 (innerLoop
        (ljsh_VF_block2 nlist x vdwtype vdwparam rcutoff2 sh_vdw_invrcut6 ix0 iy0 iz0 vdwioffset0)
        (ljsh_VF_block1 nlist x vdwtype vdwparam rcutoff2 sh_vdw_invrcut6 ix0 iy0 iz0 vdwioffset0)
        js je s0).f
        + ((innerLoop
        (ljsh_VF_block2 nlist x vdwtype vdwparam rcutoff2 sh_vdw_invrcut6 ix0 iy0 iz0 vdwioffset0)
        (ljsh_VF_block1 nlist x vdwtype vdwparam rcutoff2 sh_vdw_invrcut6 ix0 iy0 iz0 vdwioffset0)
        js je s0).fix0.lo + (innerLoop
        (ljsh_VF_block2 nlist x vdwtype vdwparam rcutoff2 sh_vdw_invrcut6 ix0 iy0 iz0 vdwioffset0)
        (ljsh_VF_block1 nlist x vdwtype vdwparam rcutoff2 sh_vdw_invrcut6 ix0 iy0 iz0 vdwioffset0)
        js je s0).fix0.hi)
      = total N 0 s0.f + (s0.fix0.lo + s0.fix0.hi)
    ∧ total N 1 (innerLoop
        (ljsh_VF_block2 nlist x vdwtype vdwparam rcutoff2 sh_vdw_invrcut6 ix0 iy0 iz0 vdwioffset0)
        (ljsh_VF_block1 nlist x vdwtype vdwparam rcutoff2 sh_vdw_invrcut6 ix0 iy0 iz0 vdwioffset0)
        js je s0).f
        + ((innerLoop
        (ljsh_VF_block2 nlist x vdwtype vdwparam rcutoff2 sh_vdw_invrcut6 ix0 iy0 iz0 vdwioffset0)
        (ljsh_VF_block1 nlist x vdwtype vdwparam rcutoff2 sh_vdw_invrcut6 ix0 iy0 iz0 vdwioffset0)
        js je s0).fiy0.lo + (innerLoop
        (ljsh_VF_block2 nlist x vdwtype vdwparam rcutoff2 sh_vdw_invrcut6 ix0 iy0 iz0 vdwioffset0)
        (ljsh_VF_block1 nlist x vdwtype vdwparam rcutoff2 sh_vdw_invrcut6 ix0 iy0 iz0 vdwioffset0)
        js je s0).fiy0.hi)
      = total N 1 s0.f + (s0.fiy0.lo + s0.fiy0.hi)
    ∧ total N 2 (innerLoop
        (ljsh_VF_block2 nlist x vdwtype vdwparam rcutoff2 sh_vdw_invrcut6 ix0 iy0 iz0 vdwioffset0)
        (ljsh_VF_block1 nlist x vdwtype vdwparam rcutoff2 sh_vdw_invrcut6 ix0 iy0 iz0 vdwioffset0)
        js je s0).f
        + ((innerLoop
        (ljsh_VF_block2 nlist x vdwtype vdwparam rcutoff2 sh_vdw_invrcut6 ix0 iy0 iz0 vdwioffset0)
        (ljsh_VF_block1 nlist x vdwtype vdwparam rcutoff2 sh_vdw_invrcut6 ix0 iy0 iz0 vdwioffset0)
        js je s0).fiz0.lo + (innerLoop
        (ljsh_VF_block2 nlist x vdwtype vdwparam rcutoff2 sh_vdw_invrcut6 ix0 iy0 iz0 vdwioffset0)
        (ljsh_VF_block1 nlist x vdwtype vdwparam rcutoff2 sh_vdw_invrcut6 ix0 iy0 iz0 vdwioffset0)
        js je s0).fiz0.hi)
      = total N 2 s0.f + (s0.fiz0.lo + s0.fiz0.hi) := by
  refine ⟨?_, ?_, ?_⟩
  · have h := innerLoop_sum (fun s : LJShInner => total N 0 s.f
        + (s.fix0.lo + s.fix0.hi))
      (fun _ => 0)
      (ljsh_VF_block2 nlist x vdwtype vdwparam rcutoff2 sh_vdw_invrcut6 ix0 iy0 iz0 vdwioffset0)
      (ljsh_VF_block1 nlist x vdwtype vdwparam rcutoff2 sh_vdw_invrcut6 ix0 iy0 iz0 vdwioffset0)
      je (je - js).toNat js s0 (le_refl _)
      (fun k hk hke t => by
        have e := (ljsh_VF_block2_total nlist x vdwtype vdwparam rcutoff2 sh_vdw_invrcut6 ix0 iy0
            iz0 vdwioffset0 k t N (hN k hk (by omega))
          (hN (k + 1) (by omega) hke) (hd k (k + 1) hk (by omega) hke)).1
        simp only [e, add_zero])
      (fun k hk hke t => by
        have e := (ljsh_VF_block1_total nlist x vdwtype vdwparam rcutoff2 sh_vdw_invrcut6 ix0 iy0
            iz0 vdwioffset0 k t N (hN k hk hke)).1
        simp only [e, add_zero])
    rw [sumRange_zero, add_zero] at h
    exact h
  · have h := innerLoop_sum (fun s : LJShInner => total N 1 s.f
        + (s.fiy0.lo + s.fiy0.hi))
      (fun _ => 0)
      (ljsh_VF_block2 nlist x vdwtype vdwparam rcutoff2 sh_vdw_invrcut6 ix0 iy0 iz0 vdwioffset0)
      (ljsh_VF_block1 nlist x vdwtype vdwparam rcutoff2 sh_vdw_invrcut6 ix0 iy0 iz0 vdwioffset0)
      je (je - js).toNat js s0 (le_refl _)
      (fun k hk hke t => by
        have e := (ljsh_VF_block2_total nlist x vdwtype vdwparam rcutoff2 sh_vdw_invrcut6 ix0 iy0
            iz0 vdwioffset0 k t N (hN k hk (by omega))
          (hN (k + 1) (by omega) hke) (hd k (k + 1) hk (by omega) hke)).2.1
        simp only [e, add_zero])
      (fun k hk hke t => by
        have e := (ljsh_VF_block1_total nlist x vdwtype vdwparam rcutoff2 sh_vdw_invrcut6 ix0 iy0
            iz0 vdwioffset0 k t N (hN k hk hke)).2.1
        simp only [e, add_zero])
    rw [sumRange_zero, add_zero] at h
    exact h
  · have h := innerLoop_sum (fun s : LJShInner => total N 2 s.f
        + (s.fiz0.lo + s.fiz0.hi))
      (fun _ => 0)
      (ljsh_VF_block2 nlist x vdwtype vdwparam rcutoff2 sh_vdw_invrcut6 ix0 iy0 iz0 vdwioffset0)
      (ljsh_VF_block1 nlist x vdwtype vdwparam rcutoff2 sh_vdw_invrcut6 ix0 iy0 iz0 vdwioffset0)
      je (je - js).toNat js s0 (le_refl _)
      (fun k hk hke t => by
        have e := (ljsh_VF_block2_total nlist x vdwtype vdwparam rcutoff2 sh_vdw_invrcut6 ix0 iy0
            iz0 vdwioffset0 k t N (hN k hk (by omega))
          (hN (k + 1) (by omega) hke) (hd k (k + 1) hk (by omega) hke)).2.2
        simp only [e, add_zero])
      (fun k hk hke t => by
        have e := (ljsh_VF_block1_total nlist x vdwtype vdwparam rcutoff2 sh_vdw_invrcut6 ix0 iy0
            iz0 vdwioffset0 k t N (hN k hk hke)).2.2
        simp only [e, add_zero])
    rw [sumRange_zero, add_zero] at h
    exact h

theorem ljsh_VF_inner_total (nlist : t_nblist) (x : Int → ℚ) (shiftvec : Int → ℚ)
    (vdwtype : Int → Int) (vdwparam : Int → ℚ) (nvdwtype : Int)
    (rcutoff2 sh_vdw_invrcut6 : M128d)
    (N : Nat) (iidx : Int) (o : OuterSt)
    (hN : ∀ jidx : Int, nlist.jindex iidx ≤ jidx → jidx < nlist.jindex (iidx + 1) →
      0 ≤ nlist.jjnr jidx ∧ nlist.jjnr jidx < N)
    (hd : ∀ a b : Int, nlist.jindex iidx ≤ a → a < b → b < nlist.jindex (iidx + 1) →
      nlist.jjnr a ≠ nlist.jjnr b) :
    total N 0 o.f - total N 0 (ljsh_VF_inner nlist x shiftvec vdwtype vdwparam nvdwtype rcutoff2
        sh_vdw_invrcut6 iidx o).f
      = ((ljsh_VF_inner nlist x shiftvec vdwtype vdwparam nvdwtype rcutoff2 sh_vdw_invrcut6 iidx
          o).fix0.lo + (ljsh_VF_inner nlist x shiftvec vdwtype vdwparam nvdwtype rcutoff2
          sh_vdw_invrcut6 iidx o).fix0.hi)
    ∧ total N 1 o.f - total N 1 (ljsh_VF_inner nlist x shiftvec vdwtype vdwparam nvdwtype rcutoff2
        sh_vdw_invrcut6 iidx o).f
      = ((ljsh_VF_inner nlist x shiftvec vdwtype vdwparam nvdwtype rcutoff2 sh_vdw_invrcut6 iidx
          o).fiy0.lo + (ljsh_VF_inner nlist x shiftvec vdwtype vdwparam nvdwtype rcutoff2
          sh_vdw_invrcut6 iidx o).fiy0.hi)
    ∧ total N 2 o.f - total N 2 (ljsh_VF_inner nlist x shiftvec vdwtype vdwparam nvdwtype rcutoff2
        sh_vdw_invrcut6 iidx o).f
      = ((ljsh_VF_inner nlist x shiftvec vdwtype vdwparam nvdwtype rcutoff2 sh_vdw_invrcut6 iidx
          o).fiz0.lo + (ljsh_VF_inner nlist x shiftvec vdwtype vdwparam nvdwtype rcutoff2
          sh_vdw_invrcut6 iidx o).fiz0.hi) := by
  unfold ljsh_VF_inner
  obtain ⟨h0, h1, h2⟩ := ljsh_VF_innerLoop_total nlist x vdwtype vdwparam rcutoff2 sh_vdw_invrcut6
    (gmx_mm_load_shift_and_1rvec_broadcast_pd shiftvec (DIM * nlist.shift iidx) x
      (DIM * nlist.iinr iidx)).x
    (gmx_mm_load_shift_and_1rvec_broadcast_pd shiftvec (DIM * nlist.shift iidx) x
      (DIM * nlist.iinr iidx)).y
    (gmx_mm_load_shift_and_1rvec_broadcast_pd shiftvec (DIM * nlist.shift iidx) x
      (DIM * nlist.iinr iidx)).z
    (2 * nvdwtype * vdwtype (nlist.iinr iidx + 0)) N (nlist.jindex iidx) (nlist.jindex (iidx + 1))
    ⟨o.f, _mm_setzero_pd, _mm_setzero_pd, _mm_setzero_pd, _mm_setzero_pd⟩ hN hd
  simp only [_mm_setzero_pd, add_zero] at h0 h1 h2 ⊢
  refine ⟨?_, ?_, ?_⟩
  · linarith [h0]
  · linarith [h1]
  · linarith [h2]

theorem ljsh_F_innerLoop_total (nlist : t_nblist) (x : Int → ℚ) (vdwtype : Int → Int)
    (vdwparam : Int → ℚ) (rcutoff2 : M128d) (ix0 iy0 iz0 : M128d)
    (vdwioffset0 : Int)
    (N : Nat) (js je : Int) (s0 : LJShInner)
    (hN : ∀ jidx : Int, js ≤ jidx → jidx < je → 0 ≤ nlist.jjnr jidx ∧ nlist.jjnr jidx < N)
    (hd : ∀ a b : Int, js ≤ a → a < b → b < je → nlist.jjnr a ≠ nlist.jjnr b) :
    total N 0 (innerLoop
        (ljsh_F_block2 nlist x vdwtype vdwparam rcutoff2 ix0 iy0 iz0 vdwioffset0)
        (ljsh_F_block1 nlist x vdwtype vdwparam rcutoff2 ix0 iy0 iz0 vdwioffset0)
        js je s0).f
        + ((innerLoop
        (ljsh_F_block2 nlist x vdwtype vdwparam rcutoff2 ix0 iy0 iz0 vdwioffset0)
        (ljsh_F_block1 nlist x vdwtype vdwparam rcutoff2 ix0 iy0 iz0 vdwioffset0)
        js je s0).fix0.lo + (innerLoop
        (ljsh_F_block2 nlist x vdwtype vdwparam rcutoff2 ix0 iy0 iz0 vdwioffset0)
        (ljsh_F_block1 nlist x vdwtype vdwparam rcutoff2 ix0 iy0 iz0 vdwioffset0)
        js je s0).fix0.hi)
      = total N 0 s0.f + (s0.fix0.lo + s0.fix0.hi)
    ∧ total N 1 (innerLoop
        (ljsh_F_block2 nlist x vdwtype vdwparam rcutoff2 ix0 iy0 iz0 vdwioffset0)
        (ljsh_F_block1 nlist x vdwtype vdwparam rcutoff2 ix0 iy0 iz0 vdwioffset0)
        js je s0).f
        + ((innerLoop
        (ljsh_F_block2 nlist x vdwtype vdwparam rcutoff2 ix0 iy0 iz0 vdwioffset0)
        (ljsh_F_block1 nlist x vdwtype vdwparam rcutoff2 ix0 iy0 iz0 vdwioffset0)
        js je s0).fiy0.lo + (innerLoop
        (ljsh_F_block2 nlist x vdwtype vdwparam rcutoff2 ix0 iy0 iz0 vdwioffset0)
        (ljsh_F_block1 nlist x vdwtype vdwparam rcutoff2 ix0 iy0 iz0 vdwioffset0)
        js je s0).fiy0.hi)
      = total N 1 s0.f + (s0.fiy0.lo + s0.fiy0.hi)
    ∧ total N 2 (innerLoop
        (ljsh_F_block2 nlist x vdwtype vdwparam rcutoff2 ix0 iy0 iz0 vdwioffset0)
        (ljsh_F_block1 nlist x vdwtype vdwparam rcutoff2 ix0 iy0 iz0 vdwioffset0)
        js je s0).f
        + ((innerLoop
        (ljsh_F_block2 nlist x vdwtype vdwparam rcutoff2 ix0 iy0 iz0 vdwioffset0)
        (ljsh_F_block1 nlist x vdwtype vdwparam rcutoff2 ix0 iy0 iz0 vdwioffset0)
        js je s0).fiz0.lo + (innerLoop
        (ljsh_F_block2 nlist x vdwtype vdwparam rcutoff2 ix0 iy0 iz0 vdwioffset0)
        (ljsh_F_block1 nlist x vdwtype vdwparam rcutoff2 ix0 iy0 iz0 vdwioffset0)
        js je s0).fiz0.hi)
      = total N 2 s0.f + (s0.fiz0.lo + s0.fiz0.hi) := by
  refine ⟨?_, ?_, ?_⟩
  · have h := innerLoop_sum (fun s : LJShInner => total N 0 s.f
        + (s.fix0.lo + s.fix0.hi))
      (fun _ => 0)
      (ljsh_F_block2 nlist x vdwtype vdwparam rcutoff2 ix0 iy0 iz0 vdwioffset0)
      (ljsh_F_block1 nlist x vdwtype vdwparam rcutoff2 ix0 iy0 iz0 vdwioffset0)
      je (je - js).toNat js s0 (le_refl _)
      (fun k hk hke t => by
        have e := (ljsh_F_block2_total nlist x vdwtype vdwparam rcutoff2 ix0 iy0 iz0 vdwioffset0 k t
            N (hN k hk (by omega))
          (hN (k + 1) (by omega) hke) (hd k (k + 1) hk (by omega) hke)).1
        simp only [e, add_zero])
      (fun k hk hke t => by
        have e := (ljsh_F_block1_total nlist x vdwtype vdwparam rcutoff2 ix0 iy0 iz0 vdwioffset0 k t
            N (hN k hk hke)).1
        simp only [e, add_zero])
    rw [sumRange_zero, add_zero] at h
    exact h
  · have h := innerLoop_sum (fun s : LJShInner => total N 1 s.f
        + (s.fiy0.lo + s.fiy0.hi))
      (fun _ => 0)
      (ljsh_F_block2 nlist x vdwtype vdwparam rcutoff2 ix0 iy0 iz0 vdwioffset0)
      (ljsh_F_block1 nlist x vdwtype vdwparam rcutoff2 ix0 iy0 iz0 vdwioffset0)
      je (je - js).toNat js s0 (le_refl _)
      (fun k hk hke t => by
        have e := (ljsh_F_block2_total nlist x vdwtype vdwparam rcutoff2 ix0 iy0 iz0 vdwioffset0 k t
            N (hN k hk (by omega))
          (hN (k + 1) (by omega) hke) (hd k (k + 1) hk (by omega) hke)).2.1
        simp only [e, add_zero])
      (fun k hk hke t => by
        have e := (ljsh_F_block1_total nlist x vdwtype vdwparam rcutoff2 ix0 iy0 iz0 vdwioffset0 k t
            N (hN k hk hke)).2.1
        simp only [e, add_zero])
    rw [sumRange_zero, add_zero] at h
    exact h
  · have h := innerLoop_sum (fun s : LJShInner => total N 2 s.f
        + (s.fiz0.lo + s.fiz0.hi))
      (fun _ => 0)
      (ljsh_F_block2 nlist x vdwtype vdwparam rcutoff2 ix0 iy0 iz0 vdwioffset0)
      (ljsh_F_block1 nlist x vdwtype vdwparam rcutoff2 ix0 iy0 iz0 vdwioffset0)
      je (je - js).toNat js s0 (le_refl _)
      (fun k hk hke t => by
        have e := (ljsh_F_block2_total nlist x vdwtype vdwparam rcutoff2 ix0 iy0 iz0 vdwioffset0 k t
            N (hN k hk (by omega))
          (hN (k + 1) (by omega) hke) (hd k (k + 1) hk (by omega) hke)).2.2
        simp only [e, add_zero])
      (fun k hk hke t => by
        have e := (ljsh_F_block1_total nlist x vdwtype vdwparam rcutoff2 ix0 iy0 iz0 vdwioffset0 k t
            N (hN k hk hke)).2.2
        simp only [e, add_zero])
    rw [sumRange_zero, add_zero] at h
    exact h

theorem ljsh_F_inner_total (nlist : t_nblist) (x : Int → ℚ) (shiftvec : Int → ℚ)
    (vdwtype : Int → Int) (vdwparam : Int → ℚ) (nvdwtype : Int)
    (rcutoff2 : M128d)
    (N : Nat) (iidx : Int) (o : OuterSt)
    (hN : ∀ jidx : Int, nlist.jindex iidx ≤ jidx → jidx < nlist.jindex (iidx + 1) →
      0 ≤ nlist.jjnr jidx ∧ nlist.jjnr jidx < N)
    (hd : ∀ a b : Int, nlist.jindex iidx ≤ a → a < b → b < nlist.jindex (iidx + 1) →
      nlist.jjnr a ≠ nlist.jjnr b) :
    total N 0 o.f - total N 0 (ljsh_F_inner nlist x shiftvec vdwtype vdwparam nvdwtype rcutoff2 iidx
        o).f
      = ((ljsh_F_inner nlist x shiftvec vdwtype vdwparam nvdwtype rcutoff2 iidx o).fix0.lo +
          (ljsh_F_inner nlist x shiftvec vdwtype vdwparam nvdwtype rcutoff2 iidx o).fix0.hi)
    ∧ total N 1 o.f - total N 1 (ljsh_F_inner nlist x shiftvec vdwtype vdwparam nvdwtype rcutoff2
        iidx o).f
      = ((ljsh_F_inner nlist x shiftvec vdwtype vdwparam nvdwtype rcutoff2 iidx o).fiy0.lo +
          (ljsh_F_inner nlist x shiftvec vdwtype vdwparam nvdwtype rcutoff2 iidx o).fiy0.hi)
    ∧ total N 2 o.f - total N 2 (ljsh_F_inner nlist x shiftvec vdwtype vdwparam nvdwtype rcutoff2
        iidx o).f
      = ((ljsh_F_inner nlist x shiftvec vdwtype vdwparam nvdwtype rcutoff2 iidx o).fiz0.lo +
          (ljsh_F_inner nlist x shiftvec vdwtype vdwparam nvdwtype rcutoff2 iidx o).fiz0.hi) := by
  unfold ljsh_F_inner
  obtain ⟨h0, h1, h2⟩ := ljsh_F_innerLoop_total nlist x vdwtype vdwparam rcutoff2
    (gmx_mm_load_shift_and_1rvec_broadcast_pd shiftvec (DIM * nlist.shift iidx) x
      (DIM * nlist.iinr iidx)).x
    (gmx_mm_load_shift_and_1rvec_broadcast_pd shiftvec (DIM * nlist.shift iidx) x
      (DIM * nlist.iinr iidx)).y
    (gmx_mm_load_shift_and_1rvec_broadcast_pd shiftvec (DIM * nlist.shift iidx) x
      (DIM * nlist.iinr iidx)).z
    (2 * nvdwtype * vdwtype (nlist.iinr iidx + 0)) N (nlist.jindex iidx) (nlist.jindex (iidx + 1))
    ⟨o.f, _mm_setzero_pd, _mm_setzero_pd, _mm_setzero_pd, _mm_setzero_pd⟩ hN hd
  simp only [_mm_setzero_pd, add_zero] at h0 h1 h2 ⊢
  refine ⟨?_, ?_, ?_⟩
  · linarith [h0]
  · linarith [h1]
  · linarith [h2]

theorem rf_VF_innerLoop_total (invsqrt : ℚ → ℚ) (nlist : t_nblist) (x : Int → ℚ) (charge : Int → ℚ)
    (vdwtype : Int → Int) (vdwparam : Int → ℚ) (krf krf2 crf : M128d) (iq0 iq1 iq2 : M128d)
    (vdwioffset0 : Int) (ix0 iy0 iz0 ix1 iy1 iz1 ix2 iy2 iz2 : M128d)
    (N : Nat) (js je : Int) (s0 : RFInner)
    (hN : ∀ jidx : Int, js ≤ jidx → jidx < je → 0 ≤ nlist.jjnr jidx ∧ nlist.jjnr jidx < N)
    (hd : ∀ a b : Int, js ≤ a → a < b → b < je → nlist.jjnr a ≠ nlist.jjnr b) :
    total N 0 (innerLoop
        (rf_VF_block2 invsqrt nlist x charge vdwtype vdwparam krf krf2 crf iq0 iq1 iq2
          vdwioffset0 ix0 iy0 iz0 ix1 iy1 iz1 ix2 iy2 iz2)
        (rf_VF_block1 invsqrt nlist x charge vdwtype vdwparam krf krf2 crf iq0 iq1 iq2
          vdwioffset0 ix0 iy0 iz0 ix1 iy1 iz1 ix2 iy2 iz2)
        js je s0).f
        + ((innerLoop
        (rf_VF_block2 invsqrt nlist x charge vdwtype vdwparam krf krf2 crf iq0 iq1 iq2
          vdwioffset0 ix0 iy0 iz0 ix1 iy1 iz1 ix2 iy2 iz2)
        (rf_VF_block1 invsqrt nlist x charge vdwtype vdwparam krf krf2 crf iq0 iq1 iq2
          vdwioffset0 ix0 iy0 iz0 ix1 iy1 iz1 ix2 iy2 iz2)
        js je s0).fix0.lo + (innerLoop
        (rf_VF_block2 invsqrt nlist x charge vdwtype vdwparam krf krf2 crf iq0 iq1 iq2
          vdwioffset0 ix0 iy0 iz0 ix1 iy1 iz1 ix2 iy2 iz2)
        (rf_VF_block1 invsqrt nlist x charge vdwtype vdwparam krf krf2 crf iq0 iq1 iq2
          vdwioffset0 ix0 iy0 iz0 ix1 iy1 iz1 ix2 iy2 iz2)
        js je s0).fix0.hi + ((innerLoop
        (rf_VF_block2 invsqrt nlist x charge vdwtype vdwparam krf krf2 crf iq0 iq1 iq2
          vdwioffset0 ix0 iy0 iz0 ix1 iy1 iz1 ix2 iy2 iz2)
        (rf_VF_block1 invsqrt nlist x charge vdwtype vdwparam krf krf2 crf iq0 iq1 iq2
          vdwioffset0 ix0 iy0 iz0 ix1 iy1 iz1 ix2 iy2 iz2)
        js je s0).fix1.lo + (innerLoop
        (rf_VF_block2 invsqrt nlist x charge vdwtype vdwparam krf krf2 crf iq0 iq1 iq2
          vdwioffset0 ix0 iy0 iz0 ix1 iy1 iz1 ix2 iy2 iz2)
        (rf_VF_block1 invsqrt nlist x charge vdwtype vdwparam krf krf2 crf iq0 iq1 iq2
          vdwioffset0 ix0 iy0 iz0 ix1 iy1 iz1 ix2 iy2 iz2)
        js je s0).fix1.hi)
          + ((innerLoop
        (rf_VF_block2 invsqrt nlist x charge vdwtype vdwparam krf krf2 crf iq0 iq1 iq2
          vdwioffset0 ix0 iy0 iz0 ix1 iy1 iz1 ix2 iy2 iz2)
        (rf_VF_block1 invsqrt nlist x charge vdwtype vdwparam krf krf2 crf iq0 iq1 iq2
          vdwioffset0 ix0 iy0 iz0 ix1 iy1 iz1 ix2 iy2 iz2)
        js je s0).fix2.lo + (innerLoop
        (rf_VF_block2 invsqrt nlist x charge vdwtype vdwparam krf krf2 crf iq0 iq1 iq2
          vdwioffset0 ix0 iy0 iz0 ix1 iy1 iz1 ix2 iy2 iz2)
        (rf_VF_block1 invsqrt nlist x charge vdwtype vdwparam krf krf2 crf iq0 iq1 iq2
          vdwioffset0 ix0 iy0 iz0 ix1 iy1 iz1 ix2 iy2 iz2)
        js je s0).fix2.hi))
      = total N 0 s0.f + (s0.fix0.lo + s0.fix0.hi + (s0.fix1.lo + s0.fix1.hi)
          + (s0.fix2.lo + s0.fix2.hi))
    ∧ total N 1 (innerLoop
        (rf_VF_block2 invsqrt nlist x charge vdwtype vdwparam krf krf2 crf iq0 iq1 iq2
          vdwioffset0 ix0 iy0 iz0 ix1 iy1 iz1 ix2 iy2 iz2)
        (rf_VF_block1 invsqrt nlist x charge vdwtype vdwparam krf krf2 crf iq0 iq1 iq2
          vdwioffset0 ix0 iy0 iz0 ix1 iy1 iz1 ix2 iy2 iz2)
        js je s0).f
        + ((innerLoop
        (rf_VF_block2 invsqrt nlist x charge vdwtype vdwparam krf krf2 crf iq0 iq1 iq2
          vdwioffset0 ix0 iy0 iz0 ix1 iy1 iz1 ix2 iy2 iz2)
        (rf_VF_block1 invsqrt nlist x charge vdwtype vdwparam krf krf2 crf iq0 iq1 iq2
          vdwioffset0 ix0 iy0 iz0 ix1 iy1 iz1 ix2 iy2 iz2)
        js je s0).fiy0.lo + (innerLoop
        (rf_VF_block2 invsqrt nlist x charge vdwtype vdwparam krf krf2 crf iq0 iq1 iq2
          vdwioffset0 ix0 iy0 iz0 ix1 iy1 iz1 ix2 iy2 iz2)
        (rf_VF_block1 invsqrt nlist x charge vdwtype vdwparam krf krf2 crf iq0 iq1 iq2
          vdwioffset0 ix0 iy0 iz0 ix1 iy1 iz1 ix2 iy2 iz2)
        js je s0).fiy0.hi + ((innerLoop
        (rf_VF_block2 invsqrt nlist x charge vdwtype vdwparam krf krf2 crf iq0 iq1 iq2
          vdwioffset0 ix0 iy0 iz0 ix1 iy1 iz1 ix2 iy2 iz2)
        (rf_VF_block1 invsqrt nlist x charge vdwtype vdwparam krf krf2 crf iq0 iq1 iq2
          vdwioffset0 ix0 iy0 iz0 ix1 iy1 iz1 ix2 iy2 iz2)
        js je s0).fiy1.lo + (innerLoop
        (rf_VF_block2 invsqrt nlist x charge vdwtype vdwparam krf krf2 crf iq0 iq1 iq2
          vdwioffset0 ix0 iy0 iz0 ix1 iy1 iz1 ix2 iy2 iz2)
        (rf_VF_block1 invsqrt nlist x charge vdwtype vdwparam krf krf2 crf iq0 iq1 iq2
          vdwioffset0 ix0 iy0 iz0 ix1 iy1 iz1 ix2 iy2 iz2)
        js je s0).fiy1.hi)
          + ((innerLoop
        (rf_VF_block2 invsqrt nlist x charge vdwtype vdwparam krf krf2 crf iq0 iq1 iq2
          vdwioffset0 ix0 iy0 iz0 ix1 iy1 iz1 ix2 iy2 iz2)
        (rf_VF_block1 invsqrt nlist x charge vdwtype vdwparam krf krf2 crf iq0 iq1 iq2
          vdwioffset0 ix0 iy0 iz0 ix1 iy1 iz1 ix2 iy2 iz2)
        js je s0).fiy2.lo + (innerLoop
        (rf_VF_block2 invsqrt nlist x charge vdwtype vdwparam krf krf2 crf iq0 iq1 iq2
          vdwioffset0 ix0 iy0 iz0 ix1 iy1 iz1 ix2 iy2 iz2)
        (rf_VF_block1 invsqrt nlist x charge vdwtype vdwparam krf krf2 crf iq0 iq1 iq2
          vdwioffset0 ix0 iy0 iz0 ix1 iy1 iz1 ix2 iy2 iz2)
        js je s0).fiy2.hi))
      = total N 1 s0.f + (s0.fiy0.lo + s0.fiy0.hi + (s0.fiy1.lo + s0.fiy1.hi)
          + (s0.fiy2.lo + s0.fiy2.hi))
    ∧ total N 2 (innerLoop
        (rf_VF_block2 invsqrt nlist x charge vdwtype vdwparam krf krf2 crf iq0 iq1 iq2
          vdwioffset0 ix0 iy0 iz0 ix1 iy1 iz1 ix2 iy2 iz2)
        (rf_VF_block1 invsqrt nlist x charge vdwtype vdwparam krf krf2 crf iq0 iq1 iq2
          vdwioffset0 ix0 iy0 iz0 ix1 iy1 iz1 ix2 iy2 iz2)
        js je s0).f
        + ((innerLoop
        (rf_VF_block2 invsqrt nlist x charge vdwtype vdwparam krf krf2 crf iq0 iq1 iq2
          vdwioffset0 ix0 iy0 iz0 ix1 iy1 iz1 ix2 iy2 iz2)
        (rf_VF_block1 invsqrt nlist x charge vdwtype vdwparam krf krf2 crf iq0 iq1 iq2
          vdwioffset0 ix0 iy0 iz0 ix1 iy1 iz1 ix2 iy2 iz2)
        js je s0).fiz0.lo + (innerLoop
        (rf_VF_block2 invsqrt nlist x charge vdwtype vdwparam krf krf2 crf iq0 iq1 iq2
          vdwioffset0 ix0 iy0 iz0 ix1 iy1 iz1 ix2 iy2 iz2)
        (rf_VF_block1 invsqrt nlist x charge vdwtype vdwparam krf krf2 crf iq0 iq1 iq2
          vdwioffset0 ix0 iy0 iz0 ix1 iy1 iz1 ix2 iy2 iz2)
        js je s0).fiz0.hi + ((innerLoop
        (rf_VF_block2 invsqrt nlist x charge vdwtype vdwparam krf krf2 crf iq0 iq1 iq2
          vdwioffset0 ix0 iy0 iz0 ix1 iy1 iz1 ix2 iy2 iz2)
        (rf_VF_block1 invsqrt nlist x charge vdwtype vdwparam krf krf2 crf iq0 iq1 iq2
          vdwioffset0 ix0 iy0 iz0 ix1 iy1 iz1 ix2 iy2 iz2)
        js je s0).fiz1.lo + (innerLoop
        (rf_VF_block2 invsqrt nlist x charge vdwtype vdwparam krf krf2 crf iq0 iq1 iq2
          vdwioffset0 ix0 iy0 iz0 ix1 iy1 iz1 ix2 iy2 iz2)
        (rf_VF_block1 invsqrt nlist x charge vdwtype vdwparam krf krf2 crf iq0 iq1 iq2
          vdwioffset0 ix0 iy0 iz0 ix1 iy1 iz1 ix2 iy2 iz2)
        js je s0).fiz1.hi)
          + ((innerLoop
        (rf_VF_block2 invsqrt nlist x charge vdwtype vdwparam krf krf2 crf iq0 iq1 iq2
          vdwioffset0 ix0 iy0 iz0 ix1 iy1 iz1 ix2 iy2 iz2)
        (rf_VF_block1 invsqrt nlist x charge vdwtype vdwparam krf krf2 crf iq0 iq1 iq2
          vdwioffset0 ix0 iy0 iz0 ix1 iy1 iz1 ix2 iy2 iz2)
        js je s0).fiz2.lo + (innerLoop
        (rf_VF_block2 invsqrt nlist x charge vdwtype vdwparam krf krf2 crf iq0 iq1 iq2
          vdwioffset0 ix0 iy0 iz0 ix1 iy1 iz1 ix2 iy2 iz2)
        (rf_VF_block1 invsqrt nlist x charge vdwtype vdwparam krf krf2 crf iq0 iq1 iq2
          vdwioffset0 ix0 iy0 iz0 ix1 iy1 iz1 ix2 iy2 iz2)
        js je s0).fiz2.hi))
      = total N 2 s0.f + (s0.fiz0.lo + s0.fiz0.hi + (s0.fiz1.lo + s0.fiz1.hi)
          + (s0.fiz2.lo + s0.fiz2.hi)) := by
  refine ⟨?_, ?_, ?_⟩
  · have h := innerLoop_sum (fun s : RFInner => total N 0 s.f
        + (s.fix0.lo + s.fix0.hi + (s.fix1.lo + s.fix1.hi)
          + (s.fix2.lo + s.fix2.hi)))
      (fun _ => 0)
      (rf_VF_block2 invsqrt nlist x charge vdwtype vdwparam krf krf2 crf iq0 iq1 iq2
          vdwioffset0 ix0 iy0 iz0 ix1 iy1 iz1 ix2 iy2 iz2)
      (rf_VF_block1 invsqrt nlist x charge vdwtype vdwparam krf krf2 crf iq0 iq1 iq2
          vdwioffset0 ix0 iy0 iz0 ix1 iy1 iz1 ix2 iy2 iz2)
      je (je - js).toNat js s0 (le_refl _)
      (fun k hk hke t => by
        have e := (rf_VF_block2_total invsqrt nlist x charge vdwtype vdwparam krf krf2 crf iq0 iq1
            iq2
          vdwioffset0 ix0 iy0 iz0 ix1 iy1 iz1 ix2 iy2 iz2 k t N (hN k hk (by omega))
          (hN (k + 1) (by omega) hke) (hd k (k + 1) hk (by omega) hke)).1
        simp only [e, add_zero])
      (fun k hk hke t => by
        have e := (rf_VF_block1_total invsqrt nlist x charge vdwtype vdwparam krf krf2 crf iq0 iq1
            iq2
          vdwioffset0 ix0 iy0 iz0 ix1 iy1 iz1 ix2 iy2 iz2 k t N (hN k hk hke)).1
        simp only [e, add_zero])
    rw [sumRange_zero, add_zero] at h
    exact h
  · have h := innerLoop_sum (fun s : RFInner => total N 1 s.f
        + (s.fiy0.lo + s.fiy0.hi + (s.fiy1.lo + s.fiy1.hi)
          + (s.fiy2.lo + s.fiy2.hi)))
      (fun _ => 0)
      (rf_VF_block2 invsqrt nlist x charge vdwtype vdwparam krf krf2 crf iq0 iq1 iq2
          vdwioffset0 ix0 iy0 iz0 ix1 iy1 iz1 ix2 iy2 iz2)
      (rf_VF_block1 invsqrt nlist x charge vdwtype vdwparam krf krf2 crf iq0 iq1 iq2
          vdwioffset0 ix0 iy0 iz0 ix1 iy1 iz1 ix2 iy2 iz2)
      je (je - js).toNat js s0 (le_refl _)
      (fun k hk hke t => by
        have e := (rf_VF_block2_total invsqrt nlist x charge vdwtype vdwparam krf krf2 crf iq0 iq1
            iq2
          vdwioffset0 ix0 iy0 iz0 ix1 iy1 iz1 ix2 iy2 iz2 k t N (hN k hk (by omega))
          (hN (k + 1) (by omega) hke) (hd k (k + 1) hk (by omega) hke)).2.1
        simp only [e, add_zero])
      (fun k hk hke t => by
        have e := (rf_VF_block1_total invsqrt nlist x charge vdwtype vdwparam krf krf2 crf iq0 iq1
            iq2
          vdwioffset0 ix0 iy0 iz0 ix1 iy1 iz1 ix2 iy2 iz2 k t N (hN k hk hke)).2.1
        simp only [e, add_zero])
    rw [sumRange_zero, add_zero] at h
    exact h
  · have h := innerLoop_sum (fun s : RFInner => total N 2 s.f
        + (s.fiz0.lo + s.fiz0.hi + (s.fiz1.lo + s.fiz1.hi)
          + (s.fiz2.lo + s.fiz2.hi)))
      (fun _ => 0)
      (rf_VF_block2 invsqrt nlist x charge vdwtype vdwparam krf krf2 crf iq0 iq1 iq2
          vdwioffset0 ix0 iy0 iz0 ix1 iy1 iz1 ix2 iy2 iz2)
      (rf_VF_block1 invsqrt nlist x charge vdwtype vdwparam krf krf2 crf iq0 iq1 iq2
          vdwioffset0 ix0 iy0 iz0 ix1 iy1 iz1 ix2 iy2 iz2)
      je (je - js).toNat js s0 (le_refl _)
      (fun k hk hke t => by
        have e := (rf_VF_block2_total invsqrt nlist x charge vdwtype vdwparam krf krf2 crf iq0 iq1
            iq2
          vdwioffset0 ix0 iy0 iz0 ix1 iy1 iz1 ix2 iy2 iz2 k t N (hN k hk (by omega))
          (hN (k + 1) (by omega) hke) (hd k (k + 1) hk (by omega) hke)).2.2
        simp only [e, add_zero])
      (fun k hk hke t => by
        have e := (rf_VF_block1_total invsqrt nlist x charge vdwtype vdwparam krf krf2 crf iq0 iq1
            iq2
          vdwioffset0 ix0 iy0 iz0 ix1 iy1 iz1 ix2 iy2 iz2 k t N (hN k hk hke)).2.2
        simp only [e, add_zero])
    rw [sumRange_zero, add_zero] at h
    exact h

theorem rf_VF_inner_total (invsqrt : ℚ → ℚ) (nlist : t_nblist) (x : Int → ℚ) (shiftvec : Int → ℚ)
    (charge : Int → ℚ) (vdwtype : Int → Int) (vdwparam : Int → ℚ) (krf krf2 crf : M128d)
    (iq0 iq1 iq2 : M128d) (vdwioffset0 : Int)
    (N : Nat) (iidx : Int) (o : OuterSt)
    (hN : ∀ jidx : Int, nlist.jindex iidx ≤ jidx → jidx < nlist.jindex (iidx + 1) →
      0 ≤ nlist.jjnr jidx ∧ nlist.jjnr jidx < N)
    (hd : ∀ a b : Int, nlist.jindex iidx ≤ a → a < b → b < nlist.jindex (iidx + 1) →
      nlist.jjnr a ≠ nlist.jjnr b) :
    total N 0 o.f - total N 0 (rf_VF_inner invsqrt nlist x shiftvec charge vdwtype vdwparam krf krf2
        crf iq0 iq1 iq2
        vdwioffset0 iidx o).f
      = ((rf_VF_inner invsqrt nlist x shiftvec charge vdwtype vdwparam krf krf2 crf iq0 iq1 iq2
        vdwioffset0 iidx o).fix0.lo + (rf_VF_inner invsqrt nlist x shiftvec charge vdwtype vdwparam
            krf krf2 crf iq0 iq1 iq2
        vdwioffset0 iidx o).fix0.hi + ((rf_VF_inner invsqrt nlist x shiftvec charge vdwtype vdwparam
            krf krf2 crf iq0 iq1 iq2
        vdwioffset0 iidx o).fix1.lo + (rf_VF_inner invsqrt nlist x shiftvec charge vdwtype vdwparam
            krf krf2 crf iq0 iq1 iq2
        vdwioffset0 iidx o).fix1.hi)
          + ((rf_VF_inner invsqrt nlist x shiftvec charge vdwtype vdwparam krf krf2 crf iq0 iq1 iq2
        vdwioffset0 iidx o).fix2.lo + (rf_VF_inner invsqrt nlist x shiftvec charge vdwtype vdwparam
            krf krf2 crf iq0 iq1 iq2
        vdwioffset0 iidx o).fix2.hi))
    ∧ total N 1 o.f - total N 1 (rf_VF_inner invsqrt nlist x shiftvec charge vdwtype vdwparam krf
        krf2 crf iq0 iq1 iq2
        vdwioffset0 iidx o).f
      = ((rf_VF_inner invsqrt nlist x shiftvec charge vdwtype vdwparam krf krf2 crf iq0 iq1 iq2
        vdwioffset0 iidx o).fiy0.lo + (rf_VF_inner invsqrt nlist x shiftvec charge vdwtype vdwparam
            krf krf2 crf iq0 iq1 iq2
        vdwioffset0 iidx o).fiy0.hi + ((rf_VF_inner invsqrt nlist x shiftvec charge vdwtype vdwparam
            krf krf2 crf iq0 iq1 iq2
        vdwioffset0 iidx o).fiy1.lo + (rf_VF_inner invsqrt nlist x shiftvec charge vdwtype vdwparam
            krf krf2 crf iq0 iq1 iq2
        vdwioffset0 iidx o).fiy1.hi)
          + ((rf_VF_inner invsqrt nlist x shiftvec charge vdwtype vdwparam krf krf2 crf iq0 iq1 iq2
        vdwioffset0 iidx o).fiy2.lo + (rf_VF_inner invsqrt nlist x shiftvec charge vdwtype vdwparam
            krf krf2 crf iq0 iq1 iq2
        vdwioffset0 iidx o).fiy2.hi))
    ∧ total N 2 o.f - total N 2 (rf_VF_inner invsqrt nlist x shiftvec charge vdwtype vdwparam krf
        krf2 crf iq0 iq1 iq2
        vdwioffset0 iidx o).f
      = ((rf_VF_inner invsqrt nlist x shiftvec charge vdwtype vdwparam krf krf2 crf iq0 iq1 iq2
        vdwioffset0 iidx o).fiz0.lo + (rf_VF_inner invsqrt nlist x shiftvec charge vdwtype vdwparam
            krf krf2 crf iq0 iq1 iq2
        vdwioffset0 iidx o).fiz0.hi + ((rf_VF_inner invsqrt nlist x shiftvec charge vdwtype vdwparam
            krf krf2 crf iq0 iq1 iq2
        vdwioffset0 iidx o).fiz1.lo + (rf_VF_inner invsqrt nlist x shiftvec charge vdwtype vdwparam
            krf krf2 crf iq0 iq1 iq2
        vdwioffset0 iidx o).fiz1.hi)
          + ((rf_VF_inner invsqrt nlist x shiftvec charge vdwtype vdwparam krf krf2 crf iq0 iq1 iq2
        vdwioffset0 iidx o).fiz2.lo + (rf_VF_inner invsqrt nlist x shiftvec charge vdwtype vdwparam
            krf krf2 crf iq0 iq1 iq2
        vdwioffset0 iidx o).fiz2.hi)) := by
  unfold rf_VF_inner
  obtain ⟨h0, h1, h2⟩ := rf_VF_innerLoop_total invsqrt nlist x charge vdwtype vdwparam krf krf2 crf
      iq0 iq1 iq2
    vdwioffset0
    (gmx_mm_load_shift_and_3rvec_broadcast_pd shiftvec (DIM * nlist.shift iidx) x
      (DIM * nlist.iinr iidx)).s0.x
    (gmx_mm_load_shift_and_3rvec_broadcast_pd shiftvec (DIM * nlist.shift iidx) x
      (DIM * nlist.iinr iidx)).s0.y
    (gmx_mm_load_shift_and_3rvec_broadcast_pd shiftvec (DIM * nlist.shift iidx) x
      (DIM * nlist.iinr iidx)).s0.z
    (gmx_mm_load_shift_and_3rvec_broadcast_pd shiftvec (DIM * nlist.shift iidx) x
      (DIM * nlist.iinr iidx)).s1.x
    (gmx_mm_load_shift_and_3rvec_broadcast_pd shiftvec (DIM * nlist.shift iidx) x
      (DIM * nlist.iinr iidx)).s1.y
    (gmx_mm_load_shift_and_3rvec_broadcast_pd shiftvec (DIM * nlist.shift iidx) x
      (DIM * nlist.iinr iidx)).s1.z
    (gmx_mm_load_shift_and_3rvec_broadcast_pd shiftvec (DIM * nlist.shift iidx) x
      (DIM * nlist.iinr iidx)).s2.x
    (gmx_mm_load_shift_and_3rvec_broadcast_pd shiftvec (DIM * nlist.shift iidx) x
      (DIM * nlist.iinr iidx)).s2.y
    (gmx_mm_load_shift_and_3rvec_broadcast_pd shiftvec (DIM * nlist.shift iidx) x
      (DIM * nlist.iinr iidx)).s2.z
    N (nlist.jindex iidx) (nlist.jindex (iidx + 1))
    ⟨o.f, _mm_setzero_pd, _mm_setzero_pd, _mm_setzero_pd, _mm_setzero_pd, _mm_setzero_pd,
        _mm_setzero_pd, _mm_setzero_pd, _mm_setzero_pd, _mm_setzero_pd, _mm_setzero_pd,
        _mm_setzero_pd⟩ hN hd
  simp only [_mm_setzero_pd, add_zero] at h0 h1 h2 ⊢
  refine ⟨?_, ?_, ?_⟩
  · linarith [h0]
  · linarith [h1]
  · linarith [h2]

theorem rf_F_innerLoop_total (invsqrt : ℚ → ℚ) (nlist : t_nblist) (x : Int → ℚ) (charge : Int → ℚ)
    (vdwtype : Int → Int) (vdwparam : Int → ℚ) (krf2 : M128d) (iq0 iq1 iq2 : M128d)
    (vdwioffset0 : Int) (ix0 iy0 iz0 ix1 iy1 iz1 ix2 iy2 iz2 : M128d)
    (N : Nat) (js je : Int) (s0 : RFInner)
    (hN : ∀ jidx : Int, js ≤ jidx → jidx < je → 0 ≤ nlist.jjnr jidx ∧ nlist.jjnr jidx < N)
    (hd : ∀ a b : Int, js ≤ a → a < b → b < je → nlist.jjnr a ≠ nlist.jjnr b) :
    total N 0 (innerLoop
        (rf_F_block2 invsqrt nlist x charge vdwtype vdwparam krf2 iq0 iq1 iq2
          vdwioffset0 ix0 iy0 iz0 ix1 iy1 iz1 ix2 iy2 iz2)
        (rf_F_block1 invsqrt nlist x charge vdwtype vdwparam krf2 iq0 iq1 iq2
          vdwioffset0 ix0 iy0 iz0 ix1 iy1 iz1 ix2 iy2 iz2)
        js je s0).f
        + ((innerLoop
        (rf_F_block2 invsqrt nlist x charge vdwtype vdwparam krf2 iq0 iq1 iq2
          vdwioffset0 ix0 iy0 iz0 ix1 iy1 iz1 ix2 iy2 iz2)
        (rf_F_block1 invsqrt nlist x charge vdwtype vdwparam krf2 iq0 iq1 iq2
          vdwioffset0 ix0 iy0 iz0 ix1 iy1 iz1 ix2 iy2 iz2)
        js je s0).fix0.lo + (innerLoop
        (rf_F_block2 invsqrt nlist x charge vdwtype vdwparam krf2 iq0 iq1 iq2
          vdwioffset0 ix0 iy0 iz0 ix1 iy1 iz1 ix2 iy2 iz2)
        (rf_F_block1 invsqrt nlist x charge vdwtype vdwparam krf2 iq0 iq1 iq2
          vdwioffset0 ix0 iy0 iz0 ix1 iy1 iz1 ix2 iy2 iz2)
        js je s0).fix0.hi + ((innerLoop
        (rf_F_block2 invsqrt nlist x charge vdwtype vdwparam krf2 iq0 iq1 iq2
          vdwioffset0 ix0 iy0 iz0 ix1 iy1 iz1 ix2 iy2 iz2)
        (rf_F_block1 invsqrt nlist x charge vdwtype vdwparam krf2 iq0 iq1 iq2
          vdwioffset0 ix0 iy0 iz0 ix1 iy1 iz1 ix2 iy2 iz2)
        js je s0).fix1.lo + (innerLoop
        (rf_F_block2 invsqrt nlist x charge vdwtype vdwparam krf2 iq0 iq1 iq2
          vdwioffset0 ix0 iy0 iz0 ix1 iy1 iz1 ix2 iy2 iz2)
        (rf_F_block1 invsqrt nlist x charge vdwtype vdwparam krf2 iq0 iq1 iq2
          vdwioffset0 ix0 iy0 iz0 ix1 iy1 iz1 ix2 iy2 iz2)
        js je s0).fix1.hi)
          + ((innerLoop
        (rf_F_block2 invsqrt nlist x charge vdwtype vdwparam krf2 iq0 iq1 iq2
          vdwioffset0 ix0 iy0 iz0 ix1 iy1 iz1 ix2 iy2 iz2)
        (rf_F_block1 invsqrt nlist x charge vdwtype vdwparam krf2 iq0 iq1 iq2
          vdwioffset0 ix0 iy0 iz0 ix1 iy1 iz1 ix2 iy2 iz2)
        js je s0).fix2.lo + (innerLoop
        (rf_F_block2 invsqrt nlist x charge vdwtype vdwparam krf2 iq0 iq1 iq2
          vdwioffset0 ix0 iy0 iz0 ix1 iy1 iz1 ix2 iy2 iz2)
        (rf_F_block1 invsqrt nlist x charge vdwtype vdwparam krf2 iq0 iq1 iq2
          vdwioffset0 ix0 iy0 iz0 ix1 iy1 iz1 ix2 iy2 iz2)
        js je s0).fix2.hi))
      = total N 0 s0.f + (s0.fix0.lo + s0.fix0.hi + (s0.fix1.lo + s0.fix1.hi)
          + (s0.fix2.lo + s0.fix2.hi))
    ∧ total N 1 (innerLoop
        (rf_F_block2 invsqrt nlist x charge vdwtype vdwparam krf2 iq0 iq1 iq2
          vdwioffset0 ix0 iy0 iz0 ix1 iy1 iz1 ix2 iy2 iz2)
        (rf_F_block1 invsqrt nlist x charge vdwtype vdwparam krf2 iq0 iq1 iq2
          vdwioffset0 ix0 iy0 iz0 ix1 iy1 iz1 ix2 iy2 iz2)
        js je s0).f
        + ((innerLoop
        (rf_F_block2 invsqrt nlist x charge vdwtype vdwparam krf2 iq0 iq1 iq2
          vdwioffset0 ix0 iy0 iz0 ix1 iy1 iz1 ix2 iy2 iz2)
        (rf_F_block1 invsqrt nlist x charge vdwtype vdwparam krf2 iq0 iq1 iq2
          vdwioffset0 ix0 iy0 iz0 ix1 iy1 iz1 ix2 iy2 iz2)
        js je s0).fiy0.lo + (innerLoop
        (rf_F_block2 invsqrt nlist x charge vdwtype vdwparam krf2 iq0 iq1 iq2
          vdwioffset0 ix0 iy0 iz0 ix1 iy1 iz1 ix2 iy2 iz2)
        (rf_F_block1 invsqrt nlist x charge vdwtype vdwparam krf2 iq0 iq1 iq2
          vdwioffset0 ix0 iy0 iz0 ix1 iy1 iz1 ix2 iy2 iz2)
        js je s0).fiy0.hi + ((innerLoop
        (rf_F_block2 invsqrt nlist x charge vdwtype vdwparam krf2 iq0 iq1 iq2
          vdwioffset0 ix0 iy0 iz0 ix1 iy1 iz1 ix2 iy2 iz2)
        (rf_F_block1 invsqrt nlist x charge vdwtype vdwparam krf2 iq0 iq1 iq2
          vdwioffset0 ix0 iy0 iz0 ix1 iy1 iz1 ix2 iy2 iz2)
        js je s0).fiy1.lo + (innerLoop
        (rf_F_block2 invsqrt nlist x charge vdwtype vdwparam krf2 iq0 iq1 iq2
          vdwioffset0 ix0 iy0 iz0 ix1 iy1 iz1 ix2 iy2 iz2)
        (rf_F_block1 invsqrt nlist x charge vdwtype vdwparam krf2 iq0 iq1 iq2
          vdwioffset0 ix0 iy0 iz0 ix1 iy1 iz1 ix2 iy2 iz2)
        js je s0).fiy1.hi)
          + ((innerLoop
        (rf_F_block2 invsqrt nlist x charge vdwtype vdwparam krf2 iq0 iq1 iq2
          vdwioffset0 ix0 iy0 iz0 ix1 iy1 iz1 ix2 iy2 iz2)
        (rf_F_block1 invsqrt nlist x charge vdwtype vdwparam krf2 iq0 iq1 iq2
          vdwioffset0 ix0 iy0 iz0 ix1 iy1 iz1 ix2 iy2 iz2)
        js je s0).fiy2.lo + (innerLoop
        (rf_F_block2 invsqrt nlist x charge vdwtype vdwparam krf2 iq0 iq1 iq2
          vdwioffset0 ix0 iy0 iz0 ix1 iy1 iz1 ix2 iy2 iz2)
        (rf_F_block1 invsqrt nlist x charge vdwtype vdwparam krf2 iq0 iq1 iq2
          vdwioffset0 ix0 iy0 iz0 ix1 iy1 iz1 ix2 iy2 iz2)
        js je s0).fiy2.hi))
      = total N 1 s0.f + (s0.fiy0.lo + s0.fiy0.hi + (s0.fiy1.lo + s0.fiy1.hi)
          + (s0.fiy2.lo + s0.fiy2.hi))
    ∧ total N 2 (innerLoop
        (rf_F_block2 invsqrt nlist x charge vdwtype vdwparam krf2 iq0 iq1 iq2
          vdwioffset0 ix0 iy0 iz0 ix1 iy1 iz1 ix2 iy2 iz2)
        (rf_F_block1 invsqrt nlist x charge vdwtype vdwparam krf2 iq0 iq1 iq2
          vdwioffset0 ix0 iy0 iz0 ix1 iy1 iz1 ix2 iy2 iz2)
        js je s0).f
        + ((innerLoop
        (rf_F_block2 invsqrt nlist x charge vdwtype vdwparam krf2 iq0 iq1 iq2
          vdwioffset0 ix0 iy0 iz0 ix1 iy1 iz1 ix2 iy2 iz2)
        (rf_F_block1 invsqrt nlist x charge vdwtype vdwparam krf2 iq0 iq1 iq2
          vdwioffset0 ix0 iy0 iz0 ix1 iy1 iz1 ix2 iy2 iz2)
        js je s0).fiz0.lo + (innerLoop
        (rf_F_block2 invsqrt nlist x charge vdwtype vdwparam krf2 iq0 iq1 iq2
          vdwioffset0 ix0 iy0 iz0 ix1 iy1 iz1 ix2 iy2 iz2)
        (rf_F_block1 invsqrt nlist x charge vdwtype vdwparam krf2 iq0 iq1 iq2
          vdwioffset0 ix0 iy0 iz0 ix1 iy1 iz1 ix2 iy2 iz2)
        js je s0).fiz0.hi + ((innerLoop
        (rf_F_block2 invsqrt nlist x charge vdwtype vdwparam krf2 iq0 iq1 iq2
          vdwioffset0 ix0 iy0 iz0 ix1 iy1 iz1 ix2 iy2 iz2)
        (rf_F_block1 invsqrt nlist x charge vdwtype vdwparam krf2 iq0 iq1 iq2
          vdwioffset0 ix0 iy0 iz0 ix1 iy1 iz1 ix2 iy2 iz2)
        js je s0).fiz1.lo + (innerLoop
        (rf_F_block2 invsqrt nlist x charge vdwtype vdwparam krf2 iq0 iq1 iq2
          vdwioffset0 ix0 iy0 iz0 ix1 iy1 iz1 ix2 iy2 iz2)
        (rf_F_block1 invsqrt nlist x charge vdwtype vdwparam krf2 iq0 iq1 iq2
          vdwioffset0 ix0 iy0 iz0 ix1 iy1 iz1 ix2 iy2 iz2)
        js je s0).fiz1.hi)
          + ((innerLoop
        (rf_F_block2 invsqrt nlist x charge vdwtype vdwparam krf2 iq0 iq1 iq2
          vdwioffset0 ix0 iy0 iz0 ix1 iy1 iz1 ix2 iy2 iz2)
        (rf_F_block1 invsqrt nlist x charge vdwtype vdwparam krf2 iq0 iq1 iq2
          vdwioffset0 ix0 iy0 iz0 ix1 iy1 iz1 ix2 iy2 iz2)
        js je s0).fiz2.lo + (innerLoop
        (rf_F_block2 invsqrt nlist x charge vdwtype vdwparam krf2 iq0 iq1 iq2
          vdwioffset0 ix0 iy0 iz0 ix1 iy1 iz1 ix2 iy2 iz2)
        (rf_F_block1 invsqrt nlist x charge vdwtype vdwparam krf2 iq0 iq1 iq2
          vdwioffset0 ix0 iy0 iz0 ix1 iy1 iz1 ix2 iy2 iz2)
        js je s0).fiz2.hi))
      = total N 2 s0.f + (s0.fiz0.lo + s0.fiz0.hi + (s0.fiz1.lo + s0.fiz1.hi)
          + (s0.fiz2.lo + s0.fiz2.hi)) := by
  refine ⟨?_, ?_, ?_⟩
  · have h := innerLoop_sum (fun s : RFInner => total N 0 s.f
        + (s.fix0.lo + s.fix0.hi + (s.fix1.lo + s.fix1.hi)
          + (s.fix2.lo + s.fix2.hi)))
      (fun _ => 0)
      (rf_F_block2 invsqrt nlist x charge vdwtype vdwparam krf2 iq0 iq1 iq2
          vdwioffset0 ix0 iy0 iz0 ix1 iy1 iz1 ix2 iy2 iz2)
      (rf_F_block1 invsqrt nlist x charge vdwtype vdwparam krf2 iq0 iq1 iq2
          vdwioffset0 ix0 iy0 iz0 ix1 iy1 iz1 ix2 iy2 iz2)
      je (je - js).toNat js s0 (le_refl _)
      (fun k hk hke t => by
        have e := (rf_F_block2_total invsqrt nlist x charge vdwtype vdwparam krf2 iq0 iq1 iq2
          vdwioffset0 ix0 iy0 iz0 ix1 iy1 iz1 ix2 iy2 iz2 k t N (hN k hk (by omega))
          (hN (k + 1) (by omega) hke) (hd k (k + 1) hk (by omega) hke)).1
        simp only [e, add_zero])
      (fun k hk hke t => by
        have e := (rf_F_block1_total invsqrt nlist x charge vdwtype vdwparam krf2 iq0 iq1 iq2
          vdwioffset0 ix0 iy0 iz0 ix1 iy1 iz1 ix2 iy2 iz2 k t N (hN k hk hke)).1
        simp only [e, add_zero])
    rw [sumRange_zero, add_zero] at h
    exact h
  · have h := innerLoop_sum (fun s : RFInner => total N 1 s.f
        + (s.fiy0.lo + s.fiy0.hi + (s.fiy1.lo + s.fiy1.hi)
          + (s.fiy2.lo + s.fiy2.hi)))
      (fun _ => 0)
      (rf_F_block2 invsqrt nlist x charge vdwtype vdwparam krf2 iq0 iq1 iq2
          vdwioffset0 ix0 iy0 iz0 ix1 iy1 iz1 ix2 iy2 iz2)
      (rf_F_block1 invsqrt nlist x charge vdwtype vdwparam krf2 iq0 iq1 iq2
          vdwioffset0 ix0 iy0 iz0 ix1 iy1 iz1 ix2 iy2 iz2)
      je (je - js).toNat js s0 (le_refl _)
      (fun k hk hke t => by
        have e := (rf_F_block2_total invsqrt nlist x charge vdwtype vdwparam krf2 iq0 iq1 iq2
          vdwioffset0 ix0 iy0 iz0 ix1 iy1 iz1 ix2 iy2 iz2 k t N (hN k hk (by omega))
          (hN (k + 1) (by omega) hke) (hd k (k + 1) hk (by omega) hke)).2.1
        simp only [e, add_zero])
      (fun k hk hke t => by
        have e := (rf_F_block1_total invsqrt nlist x charge vdwtype vdwparam krf2 iq0 iq1 iq2
          vdwioffset0 ix0 iy0 iz0 ix1 iy1 iz1 ix2 iy2 iz2 k t N (hN k hk hke)).2.1
        simp only [e, add_zero])
    rw [sumRange_zero, add_zero] at h
    exact h
  · have h := innerLoop_sum (fun s : RFInner => total N 2 s.f
        + (s.fiz0.lo + s.fiz0.hi + (s.fiz1.lo + s.fiz1.hi)
          + (s.fiz2.lo + s.fiz2.hi)))
      (fun _ => 0)
      (rf_F_block2 invsqrt nlist x charge vdwtype vdwparam krf2 iq0 iq1 iq2
          vdwioffset0 ix0 iy0 iz0 ix1 iy1 iz1 ix2 iy2 iz2)
      (rf_F_block1 invsqrt nlist x charge vdwtype vdwparam krf2 iq0 iq1 iq2
          vdwioffset0 ix0 iy0 iz0 ix1 iy1 iz1 ix2 iy2 iz2)
      je (je - js).toNat js s0 (le_refl _)
      (fun k hk hke t => by
        have e := (rf_F_block2_total invsqrt nlist x charge vdwtype vdwparam krf2 iq0 iq1 iq2
          vdwioffset0 ix0 iy0 iz0 ix1 iy1 iz1 ix2 iy2 iz2 k t N (hN k hk (by omega))
          (hN (k + 1) (by omega) hke) (hd k (k + 1) hk (by omega) hke)).2.2
        simp only [e, add_zero])
      (fun k hk hke t => by
        have e := (rf_F_block1_total invsqrt nlist x charge vdwtype vdwparam krf2 iq0 iq1 iq2
          vdwioffset0 ix0 iy0 iz0 ix1 iy1 iz1 ix2 iy2 iz2 k t N (hN k hk hke)).2.2
        simp only [e, add_zero])
    rw [sumRange_zero, add_zero] at h
    exact h

theorem rf_F_inner_total (invsqrt : ℚ → ℚ) (nlist : t_nblist) (x : Int → ℚ) (shiftvec : Int → ℚ)
    (charge : Int → ℚ) (vdwtype : Int → Int) (vdwparam : Int → ℚ) (krf2 : M128d)
    (iq0 iq1 iq2 : M128d) (vdwioffset0 : Int)
    (N : Nat) (iidx : Int) (o : OuterSt)
    (hN : ∀ jidx : Int, nlist.jindex iidx ≤ jidx → jidx < nlist.jindex (iidx + 1) →
      0 ≤ nlist.jjnr jidx ∧ nlist.jjnr jidx < N)
    (hd : ∀ a b : Int, nlist.jindex iidx ≤ a → a < b → b < nlist.jindex (iidx + 1) →
      nlist.jjnr a ≠ nlist.jjnr b) :
    total N 0 o.f - total N 0 (rf_F_inner invsqrt nlist x shiftvec charge vdwtype vdwparam krf2 iq0
        iq1 iq2
        vdwioffset0 iidx o).f
      = ((rf_F_inner invsqrt nlist x shiftvec charge vdwtype vdwparam krf2 iq0 iq1 iq2
        vdwioffset0 iidx o).fix0.lo + (rf_F_inner invsqrt nlist x shiftvec charge vdwtype vdwparam
            krf2 iq0 iq1 iq2
        vdwioffset0 iidx o).fix0.hi + ((rf_F_inner invsqrt nlist x shiftvec charge vdwtype vdwparam
            krf2 iq0 iq1 iq2
        vdwioffset0 iidx o).fix1.lo + (rf_F_inner invsqrt nlist x shiftvec charge vdwtype vdwparam
            krf2 iq0 iq1 iq2
        vdwioffset0 iidx o).fix1.hi)
          + ((rf_F_inner invsqrt nlist x shiftvec charge vdwtype vdwparam krf2 iq0 iq1 iq2
        vdwioffset0 iidx o).fix2.lo + (rf_F_inner invsqrt nlist x shiftvec charge vdwtype vdwparam
            krf2 iq0 iq1 iq2
        vdwioffset0 iidx o).fix2.hi))
    ∧ total N 1 o.f - total N 1 (rf_F_inner invsqrt nlist x shiftvec charge vdwtype vdwparam krf2
        iq0 iq1 iq2
        vdwioffset0 iidx o).f
      = ((rf_F_inner invsqrt nlist x shiftvec charge vdwtype vdwparam krf2 iq0 iq1 iq2
        vdwioffset0 iidx o).fiy0.lo + (rf_F_inner invsqrt nlist x shiftvec charge vdwtype vdwparam
            krf2 iq0 iq1 iq2
        vdwioffset0 iidx o).fiy0.hi + ((rf_F_inner invsqrt nlist x shiftvec charge vdwtype vdwparam
            krf2 iq0 iq1 iq2
        vdwioffset0 iidx o).fiy1.lo + (rf_F_inner invsqrt nlist x shiftvec charge vdwtype vdwparam
            krf2 iq0 iq1 iq2
        vdwioffset0 iidx o).fiy1.hi)
          + ((rf_F_inner invsqrt nlist x shiftvec charge vdwtype vdwparam krf2 iq0 iq1 iq2
        vdwioffset0 iidx o).fiy2.lo + (rf_F_inner invsqrt nlist x shiftvec charge vdwtype vdwparam
            krf2 iq0 iq1 iq2
        vdwioffset0 iidx o).fiy2.hi))
    ∧ total N 2 o.f - total N 2 (rf_F_inner invsqrt nlist x shiftvec charge vdwtype vdwparam krf2
        iq0 iq1 iq2
        vdwioffset0 iidx o).f
      = ((rf_F_inner invsqrt nlist x shiftvec charge vdwtype vdwparam krf2 iq0 iq1 iq2
        vdwioffset0 iidx o).fiz0.lo + (rf_F_inner invsqrt nlist x shiftvec charge vdwtype vdwparam
            krf2 iq0 iq1 iq2
        vdwioffset0 iidx o).fiz0.hi + ((rf_F_inner invsqrt nlist x shiftvec charge vdwtype vdwparam
            krf2 iq0 iq1 iq2
        vdwioffset0 iidx o).fiz1.lo + (rf_F_inner invsqrt nlist x shiftvec charge vdwtype vdwparam
            krf2 iq0 iq1 iq2
        vdwioffset0 iidx o).fiz1.hi)
          + ((rf_F_inner invsqrt nlist x shiftvec charge vdwtype vdwparam krf2 iq0 iq1 iq2
        vdwioffset0 iidx o).fiz2.lo + (rf_F_inner invsqrt nlist x shiftvec charge vdwtype vdwparam
            krf2 iq0 iq1 iq2
        vdwioffset0 iidx o).fiz2.hi)) := by
  unfold rf_F_inner
  obtain ⟨h0, h1, h2⟩ := rf_F_innerLoop_total invsqrt nlist x charge vdwtype vdwparam krf2 iq0 iq1
      iq2
    vdwioffset0
    (gmx_mm_load_shift_and_3rvec_broadcast_pd shiftvec (DIM * nlist.shift iidx) x
      (DIM * nlist.iinr iidx)).s0.x
    (gmx_mm_load_shift_and_3rvec_broadcast_pd shiftvec (DIM * nlist.shift iidx) x
      (DIM * nlist.iinr iidx)).s0.y
    (gmx_mm_load_shift_and_3rvec_broadcast_pd shiftvec (DIM * nlist.shift iidx) x
      (DIM * nlist.iinr iidx)).s0.z
    (gmx_mm_load_shift_and_3rvec_broadcast_pd shiftvec (DIM * nlist.shift iidx) x
      (DIM * nlist.iinr iidx)).s1.x
    (gmx_mm_load_shift_and_3rvec_broadcast_pd shiftvec (DIM * nlist.shift iidx) x
      (DIM * nlist.iinr iidx)).s1.y
    (gmx_mm_load_shift_and_3rvec_broadcast_pd shiftvec (DIM * nlist.shift iidx) x
      (DIM * nlist.iinr iidx)).s1.z
    (gmx_mm_load_shift_and_3rvec_broadcast_pd shiftvec (DIM * nlist.shift iidx) x
      (DIM * nlist.iinr iidx)).s2.x
    (gmx_mm_load_shift_and_3rvec_broadcast_pd shiftvec (DIM * nlist.shift iidx) x
      (DIM * nlist.iinr iidx)).s2.y
    (gmx_mm_load_shift_and_3rvec_broadcast_pd shiftvec (DIM * nlist.shift iidx) x
      (DIM * nlist.iinr iidx)).s2.z
    N (nlist.jindex iidx) (nlist.jindex (iidx + 1))
    ⟨o.f, _mm_setzero_pd, _mm_setzero_pd, _mm_setzero_pd, _mm_setzero_pd, _mm_setzero_pd,
        _mm_setzero_pd, _mm_setzero_pd, _mm_setzero_pd, _mm_setzero_pd, _mm_setzero_pd,
        _mm_setzero_pd⟩ hN hd
  simp only [_mm_setzero_pd, add_zero] at h0 h1 h2 ⊢
  refine ⟨?_, ?_, ?_⟩
  · linarith [h0]
  · linarith [h1]
  · linarith [h2]

theorem total_incr3 (N : Nat) (c : Int) (hc : 0 ≤ c ∧ c ≤ 2) (f : Int → ℚ) (j : Int)
    (hj : 0 ≤ j ∧ j < N) (v0 v1 v2 : ℚ) :
    total N c (incr3 f (DIM * j) v0 v1 v2)
      = total N c f + bump (DIM * j) v0 v1 v2 (DIM * j + c) := by
  rw [incr3_apply]
  unfold total
  rw [Finset.sum_add_distrib]
  congr 1
  have hmem : j.toNat ∈ Finset.range N := by
    rw [Finset.mem_range]; omega
  rw [Finset.sum_eq_single_of_mem j.toNat hmem]
  · have : ((j.toNat : Nat) : Int) = j := by omega
    rw [this]
  · intro p _ hp
    apply bump_off
    unfold DIM
    omega

theorem ljsh_VF_outer_entry (nlist : t_nblist) (x shiftvec : Int → ℚ) (vdwtype : Int → Int)
    (vdwparam : Int → ℚ) (nvdwtype : Int) (rcutoff2 sh_vdw_invrcut6 : M128d)
    (N S : Nat) (iidx : Int) (o : OuterSt) :
    ∀ (I : LJShInner) (O : OuterSt),
      I = ljsh_VF_inner nlist x shiftvec vdwtype vdwparam nvdwtype rcutoff2 sh_vdw_invrcut6 iidx o →
      O = ljsh_VF_outer nlist x shiftvec vdwtype vdwparam nvdwtype rcutoff2 sh_vdw_invrcut6 iidx o →
      O.fshift = incr3 o.fshift (DIM * nlist.shift iidx) (I.fix0.lo + I.fix0.hi)
          (I.fiy0.lo + I.fiy0.hi)
          (I.fiz0.lo + I.fiz0.hi)
      ∧ O.f = incr3 I.f (DIM * nlist.iinr iidx) (I.fix0.lo + I.fix0.hi) (I.fiy0.lo + I.fiy0.hi)
            (I.fiz0.lo + I.fiz0.hi)
      ∧ (0 ≤ nlist.shift iidx ∧ nlist.shift iidx < S →
          total S 0 O.fshift - total S 0 o.fshift = (I.fix0.lo + I.fix0.hi)
          ∧ total S 1 O.fshift - total S 1 o.fshift = (I.fiy0.lo + I.fiy0.hi)
          ∧ total S 2 O.fshift - total S 2 o.fshift = (I.fiz0.lo + I.fiz0.hi))
      ∧ ((∀ jidx : Int, nlist.jindex iidx ≤ jidx → jidx < nlist.jindex (iidx + 1) →
            0 ≤ nlist.jjnr jidx ∧ nlist.jjnr jidx < N) →
          (∀ a b : Int, nlist.jindex iidx ≤ a → a < b → b < nlist.jindex (iidx + 1) →
            nlist.jjnr a ≠ nlist.jjnr b) →
          total N 0 o.f - total N 0 I.f = (I.fix0.lo + I.fix0.hi)
          ∧ total N 1 o.f - total N 1 I.f = (I.fiy0.lo + I.fiy0.hi)
          ∧ total N 2 o.f - total N 2 I.f = (I.fiz0.lo + I.fiz0.hi)) := by
  intro I O hI hO
  have hfs : O.fshift = incr3 o.fshift (DIM * nlist.shift iidx) (I.fix0.lo + I.fix0.hi)
      (I.fiy0.lo + I.fiy0.hi) (I.fiz0.lo + I.fiz0.hi) := by rw [hO, hI]; rfl
  refine ⟨hfs, by rw [hO, hI]; rfl, ?_, ?_⟩
  · intro hS
    rw [hfs, total_incr3 S 0 ⟨by norm_num, by norm_num⟩ _ _ hS,
      total_incr3 S 1 ⟨by norm_num, by norm_num⟩ _ _ hS,
      total_incr3 S 2 ⟨by norm_num, by norm_num⟩ _ _ hS, bump_c0, bump_at1, bump_at2]
    refine ⟨?_, ?_, ?_⟩ <;> ring
  · intro hN hd
    rw [hI]
    exact ljsh_VF_inner_total _ _ _ _ _ _ _ _ N iidx o hN hd

theorem ljsh_F_outer_entry (nlist : t_nblist) (x shiftvec : Int → ℚ) (vdwtype : Int → Int)
    (vdwparam : Int → ℚ) (nvdwtype : Int) (rcutoff2 : M128d)
    (N S : Nat) (iidx : Int) (o : OuterSt) :
    ∀ (I : LJShInner) (O : OuterSt),
      I = ljsh_F_inner nlist x shiftvec vdwtype vdwparam nvdwtype rcutoff2 iidx o →
      O = ljsh_F_outer nlist x shiftvec vdwtype vdwparam nvdwtype rcutoff2 iidx o →
      O.fshift = incr3 o.fshift (DIM * nlist.shift iidx) (I.fix0.lo + I.fix0.hi)
          (I.fiy0.lo + I.fiy0.hi)
          (I.fiz0.lo + I.fiz0.hi)
      ∧ O.f = incr3 I.f (DIM * nlist.iinr iidx) (I.fix0.lo + I.fix0.hi) (I.fiy0.lo + I.fiy0.hi)
            (I.fiz0.lo + I.fiz0.hi)
      ∧ (0 ≤ nlist.shift iidx ∧ nlist.shift iidx < S →
          total S 0 O.fshift - total S 0 o.fshift = (I.fix0.lo + I.fix0.hi)
          ∧ total S 1 O.fshift - total S 1 o.fshift = (I.fiy0.lo + I.fiy0.hi)
          ∧ total S 2 O.fshift - total S 2 o.fshift = (I.fiz0.lo + I.fiz0.hi))
      ∧ ((∀ jidx : Int, nlist.jindex iidx ≤ jidx → jidx < nlist.jindex (iidx + 1) →
            0 ≤ nlist.jjnr jidx ∧ nlist.jjnr jidx < N) →
          (∀ a b : Int, nlist.jindex iidx ≤ a → a < b → b < nlist.jindex (iidx + 1) →
            nlist.jjnr a ≠ nlist.jjnr b) →
          total N 0 o.f - total N 0 I.f = (I.fix0.lo + I.fix0.hi)
          ∧ total N 1 o.f - total N 1 I.f = (I.fiy0.lo + I.fiy0.hi)
          ∧ total N 2 o.f - total N 2 I.f = (I.fiz0.lo + I.fiz0.hi)) := by
  intro I O hI hO
  have hfs : O.fshift = incr3 o.fshift (DIM * nlist.shift iidx) (I.fix0.lo + I.fix0.hi)
      (I.fiy0.lo + I.fiy0.hi) (I.fiz0.lo + I.fiz0.hi) := by rw [hO, hI]; rfl
  refine ⟨hfs, by rw [hO, hI]; rfl, ?_, ?_⟩
  · intro hS
    rw [hfs, total_incr3 S 0 ⟨by norm_num, by norm_num⟩ _ _ hS,
      total_incr3 S 1 ⟨by norm_num, by norm_num⟩ _ _ hS,
      total_incr3 S 2 ⟨by norm_num, by norm_num⟩ _ _ hS, bump_c0, bump_at1, bump_at2]
    refine ⟨?_, ?_, ?_⟩ <;> ring
  · intro hN hd
    rw [hI]
    exact ljsh_F_inner_total _ _ _ _ _ _ _ N iidx o hN hd

theorem rf_VF_outer_entry (invsqrt : ℚ → ℚ) (nlist : t_nblist) (x shiftvec charge : Int → ℚ)
    (vdwtype : Int → Int) (vdwparam : Int → ℚ) (krf krf2 crf iq0 iq1 iq2 : M128d)
    (vdwioffset0 : Int)
    (N S : Nat) (iidx : Int) (o : OuterSt) :
    ∀ (I : RFInner) (O : OuterSt),
      I = rf_VF_inner invsqrt nlist x shiftvec charge vdwtype vdwparam krf krf2 crf iq0 iq1 iq2
        vdwioffset0 iidx o →
      O = rf_VF_outer invsqrt nlist x shiftvec charge vdwtype vdwparam krf krf2 crf iq0 iq1 iq2
        vdwioffset0 iidx o →
      O.fshift = incr3 o.fshift (DIM * nlist.shift iidx) ((I.fix0.lo + I.fix0.hi) + (I.fix1.lo +
          I.fix1.hi) + (I.fix2.lo + I.fix2.hi))
          ((I.fiy0.lo + I.fiy0.hi) + (I.fiy1.lo + I.fiy1.hi) + (I.fiy2.lo + I.fiy2.hi))
          ((I.fiz0.lo + I.fiz0.hi) + (I.fiz1.lo + I.fiz1.hi) + (I.fiz2.lo + I.fiz2.hi))
      ∧ O.f = incr3 (incr3 (incr3 I.f (DIM * nlist.iinr iidx) (I.fix0.lo + I.fix0.hi)
                (I.fiy0.lo + I.fiy0.hi) (I.fiz0.lo + I.fiz0.hi))
              (DIM * nlist.iinr iidx + 3) (I.fix1.lo + I.fix1.hi) (I.fiy1.lo + I.fiy1.hi)
                (I.fiz1.lo + I.fiz1.hi))
            (DIM * nlist.iinr iidx + 6) (I.fix2.lo + I.fix2.hi) (I.fiy2.lo + I.fiy2.hi)
              (I.fiz2.lo + I.fiz2.hi)
      ∧ (0 ≤ nlist.shift iidx ∧ nlist.shift iidx < S →
          total S 0 O.fshift - total S 0 o.fshift = ((I.fix0.lo + I.fix0.hi) + (I.fix1.lo +
              I.fix1.hi) + (I.fix2.lo + I.fix2.hi))
          ∧ total S 1 O.fshift - total S 1 o.fshift = ((I.fiy0.lo + I.fiy0.hi) + (I.fiy1.lo +
              I.fiy1.hi) + (I.fiy2.lo + I.fiy2.hi))
          ∧ total S 2 O.fshift - total S 2 o.fshift = ((I.fiz0.lo + I.fiz0.hi) + (I.fiz1.lo +
              I.fiz1.hi) + (I.fiz2.lo + I.fiz2.hi)))
      ∧ ((∀ jidx : Int, nlist.jindex iidx ≤ jidx → jidx < nlist.jindex (iidx + 1) →
            0 ≤ nlist.jjnr jidx ∧ nlist.jjnr jidx < N) →
          (∀ a b : Int, nlist.jindex iidx ≤ a → a < b → b < nlist.jindex (iidx + 1) →
            nlist.jjnr a ≠ nlist.jjnr b) →
          total N 0 o.f - total N 0 I.f = ((I.fix0.lo + I.fix0.hi) + (I.fix1.lo + I.fix1.hi) +
              (I.fix2.lo + I.fix2.hi))
          ∧ total N 1 o.f - total N 1 I.f = ((I.fiy0.lo + I.fiy0.hi) + (I.fiy1.lo + I.fiy1.hi) +
              (I.fiy2.lo + I.fiy2.hi))
          ∧ total N 2 o.f - total N 2 I.f = ((I.fiz0.lo + I.fiz0.hi) + (I.fiz1.lo + I.fiz1.hi) +
              (I.fiz2.lo + I.fiz2.hi))) := by
  intro I O hI hO
  have hfs : O.fshift = incr3 o.fshift (DIM * nlist.shift iidx)
      ((I.fix0.lo + I.fix0.hi) + (I.fix1.lo + I.fix1.hi) + (I.fix2.lo + I.fix2.hi))
      ((I.fiy0.lo + I.fiy0.hi) + (I.fiy1.lo + I.fiy1.hi) + (I.fiy2.lo + I.fiy2.hi))
      ((I.fiz0.lo + I.fiz0.hi) + (I.fiz1.lo + I.fiz1.hi) + (I.fiz2.lo + I.fiz2.hi)) := by
    rw [hO, hI]
    unfold rf_VF_outer rf_VF_inner
    simp only [gmx_mm_update_iforce_3atom_swizzle_pd, _mm_hadd_pd]
    ring_nf
  refine ⟨hfs, by rw [hO, hI]; rfl, ?_, ?_⟩
  · intro hS
    rw [hfs, total_incr3 S 0 ⟨by norm_num, by norm_num⟩ _ _ hS,
      total_incr3 S 1 ⟨by norm_num, by norm_num⟩ _ _ hS,
      total_incr3 S 2 ⟨by norm_num, by norm_num⟩ _ _ hS, bump_c0, bump_at1, bump_at2]
    refine ⟨?_, ?_, ?_⟩ <;> ring
  · intro hN hd
    rw [hI]
    exact rf_VF_inner_total _ _ _ _ _ _ _ _ _ _ _ _ _ _ N iidx o hN hd

theorem rf_F_outer_entry (invsqrt : ℚ → ℚ) (nlist : t_nblist) (x shiftvec charge : Int → ℚ)
    (vdwtype : Int → Int) (vdwparam : Int → ℚ) (krf2 iq0 iq1 iq2 : M128d)
    (vdwioffset0 : Int)
    (N S : Nat) (iidx : Int) (o : OuterSt) :
    ∀ (I : RFInner) (O : OuterSt),
      I = rf_F_inner invsqrt nlist x shiftvec charge vdwtype vdwparam krf2 iq0 iq1 iq2
        vdwioffset0 iidx o →
      O = rf_F_outer invsqrt nlist x shiftvec charge vdwtype vdwparam krf2 iq0 iq1 iq2
        vdwioffset0 iidx o →
      O.fshift = incr3 o.fshift (DIM * nlist.shift iidx) ((I.fix0.lo + I.fix0.hi) + (I.fix1.lo +
          I.fix1.hi) + (I.fix2.lo + I.fix2.hi))
          ((I.fiy0.lo + I.fiy0.hi) + (I.fiy1.lo + I.fiy1.hi) + (I.fiy2.lo + I.fiy2.hi))
          ((I.fiz0.lo + I.fiz0.hi) + (I.fiz1.lo + I.fiz1.hi) + (I.fiz2.lo + I.fiz2.hi))
      ∧ O.f = incr3 (incr3 (incr3 I.f (DIM * nlist.iinr iidx) (I.fix0.lo + I.fix0.hi)
                (I.fiy0.lo + I.fiy0.hi) (I.fiz0.lo + I.fiz0.hi))
              (DIM * nlist.iinr iidx + 3) (I.fix1.lo + I.fix1.hi) (I.fiy1.lo + I.fiy1.hi)
                (I.fiz1.lo + I.fiz1.hi))
            (DIM * nlist.iinr iidx + 6) (I.fix2.lo + I.fix2.hi) (I.fiy2.lo + I.fiy2.hi)
              (I.fiz2.lo + I.fiz2.hi)
      ∧ (0 ≤ nlist.shift iidx ∧ nlist.shift iidx < S →
          total S 0 O.fshift - total S 0 o.fshift = ((I.fix0.lo + I.fix0.hi) + (I.fix1.lo +
              I.fix1.hi) + (I.fix2.lo + I.fix2.hi))
          ∧ total S 1 O.fshift - total S 1 o.fshift = ((I.fiy0.lo + I.fiy0.hi) + (I.fiy1.lo +
              I.fiy1.hi) + (I.fiy2.lo + I.fiy2.hi))
          ∧ total S 2 O.fshift - total S 2 o.fshift = ((I.fiz0.lo + I.fiz0.hi) + (I.fiz1.lo +
              I.fiz1.hi) + (I.fiz2.lo + I.fiz2.hi)))
      ∧ ((∀ jidx : Int, nlist.jindex iidx ≤ jidx → jidx < nlist.jindex (iidx + 1) →
            0 ≤ nlist.jjnr jidx ∧ nlist.jjnr jidx < N) →
          (∀ a b : Int, nlist.jindex iidx ≤ a → a < b → b < nlist.jindex (iidx + 1) →
            nlist.jjnr a ≠ nlist.jjnr b) →
          total N 0 o.f - total N 0 I.f = ((I.fix0.lo + I.fix0.hi) + (I.fix1.lo + I.fix1.hi) +
              (I.fix2.lo + I.fix2.hi))
          ∧ total N 1 o.f - total N 1 I.f = ((I.fiy0.lo + I.fiy0.hi) + (I.fiy1.lo + I.fiy1.hi) +
              (I.fiy2.lo + I.fiy2.hi))
          ∧ total N 2 o.f - total N 2 I.f = ((I.fiz0.lo + I.fiz0.hi) + (I.fiz1.lo + I.fiz1.hi) +
              (I.fiz2.lo + I.fiz2.hi))) := by
  intro I O hI hO
  have hfs : O.fshift = incr3 o.fshift (DIM * nlist.shift iidx)
      ((I.fix0.lo + I.fix0.hi) + (I.fix1.lo + I.fix1.hi) + (I.fix2.lo + I.fix2.hi))
      ((I.fiy0.lo + I.fiy0.hi) + (I.fiy1.lo + I.fiy1.hi) + (I.fiy2.lo + I.fiy2.hi))
      ((I.fiz0.lo + I.fiz0.hi) + (I.fiz1.lo + I.fiz1.hi) + (I.fiz2.lo + I.fiz2.hi)) := by
    rw [hO, hI]
    unfold rf_F_outer rf_F_inner
    simp only [gmx_mm_update_iforce_3atom_swizzle_pd, _mm_hadd_pd]
    ring_nf
  refine ⟨hfs, by rw [hO, hI]; rfl, ?_, ?_⟩
  · intro hS
    rw [hfs, total_incr3 S 0 ⟨by norm_num, by norm_num⟩ _ _ hS,
      total_incr3 S 1 ⟨by norm_num, by norm_num⟩ _ _ hS,
      total_incr3 S 2 ⟨by norm_num, by norm_num⟩ _ _ hS, bump_c0, bump_at1, bump_at2]
    refine ⟨?_, ?_, ?_⟩ <;> ring
  · intro hN hd
    rw [hI]
    exact rf_F_inner_total _ _ _ _ _ _ _ _ _ _ _ _ N iidx o hN hd

theorem ljsh_VF_loop_add (nlist : t_nblist) (xx : Int → ℚ) (fr : t_forcerec)
    (mdatoms : t_mdatoms) (st : KState) :
    ljsh_VF_loop nlist xx fr mdatoms st
      = outer_add st.f st.fshift st.energygrp_elec st.energygrp_vdw
          (ljsh_VF_loop nlist xx fr mdatoms (zero_outputs st)) := by
  unfold ljsh_VF_loop
  rw [outer_init_add st]
  exact forLoop_comm _ _ _ (fun k t => ljsh_VF_outer_add _ _ _ _ _ _ _ _ _ _ _ _ k t)
    (nlist.nri - 0).toNat 0 _ (le_refl _)

theorem ljsh_F_loop_add (nlist : t_nblist) (xx : Int → ℚ) (fr : t_forcerec)
    (mdatoms : t_mdatoms) (st : KState) :
    ljsh_F_loop nlist xx fr mdatoms st
      = outer_add st.f st.fshift st.energygrp_elec st.energygrp_vdw
          (ljsh_F_loop nlist xx fr mdatoms (zero_outputs st)) := by
  unfold ljsh_F_loop
  rw [outer_init_add st]
  exact forLoop_comm _ _ _ (fun k t => ljsh_F_outer_add _ _ _ _ _ _ _ _ _ _ _ k t)
    (nlist.nri - 0).toNat 0 _ (le_refl _)

theorem rf_VF_loop_add (invsqrt : ℚ → ℚ) (nlist : t_nblist) (xx : Int → ℚ)
    (fr : t_forcerec) (mdatoms : t_mdatoms) (st : KState) :
    rf_VF_loop invsqrt nlist xx fr mdatoms st
      = outer_add st.f st.fshift st.energygrp_elec st.energygrp_vdw
          (rf_VF_loop invsqrt nlist xx fr mdatoms (zero_outputs st)) := by
  unfold rf_VF_loop
  rw [outer_init_add st]
  exact forLoop_comm _ _ _
    (fun k t => rf_VF_outer_add _ _ _ _ _ _ _ _ _ _ _ _ _ _ _ _ _ _ k t)
    (nlist.nri - 0).toNat 0 _ (le_refl _)

theorem rf_F_loop_add (invsqrt : ℚ → ℚ) (nlist : t_nblist) (xx : Int → ℚ)
    (fr : t_forcerec) (mdatoms : t_mdatoms) (st : KState) :
    rf_F_loop invsqrt nlist xx fr mdatoms st
      = outer_add st.f st.fshift st.energygrp_elec st.energygrp_vdw
          (rf_F_loop invsqrt nlist xx fr mdatoms (zero_outputs st)) := by
  unfold rf_F_loop
  rw [outer_init_add st]
  exact forLoop_comm _ _ _
    (fun k t => rf_F_outer_add _ _ _ _ _ _ _ _ _ _ _ _ _ _ _ _ k t)
    (nlist.nri - 0).toNat 0 _ (le_refl _)

theorem store_apply (a : Int → ℚ) (p : Int) (v : ℚ) (k : Int) :
    store a p v k = if k = p then v else a k := rfl

theorem rangeArray_loop (size : Int) (m : Nat) :
    ∀ (i : Int) (a : Int → Int), (size - i).toNat ≤ m →
      forLoop size (fun i a => storeInt a i i) i a
        = fun k => if i ≤ k ∧ k < size then k else a k := by
  induction m with
  | zero =>
    intro i a hm
    rw [forLoop_done _ _ _ _ (by omega)]
    funext k
    rw [if_neg (by omega)]
  | succ m ih =>
    intro i a hm
    by_cases h : i < size
    · rw [forLoop_step _ _ _ _ h, ih (i + 1) _ (by omega)]
      funext k
      unfold storeInt
      by_cases hk : k = i
      · subst hk
        rw [if_neg (by omega), if_pos rfl, if_pos ⟨le_refl _, h⟩]
      · rw [if_neg hk]
        by_cases hk2 : i + 1 ≤ k ∧ k < size
        · rw [if_pos hk2, if_pos ⟨by omega, hk2.2⟩]
        · rw [if_neg hk2, if_neg (by omega)]
    · rw [forLoop_done _ _ _ _ (by omega)]
      funext k
      rw [if_neg (by omega)]

theorem storeInt_apply (a : Int → Int) (p : Int) (v : Int) (k : Int) :
    storeInt a p v k = if k = p then v else a k := rfl

theorem Swap_apply (arr : Int → ℚ) (v1 v2 k : Int) :
    Swap arr v1 v2 k = arr (Equiv.swap v1 v2 k) := by
  simp only [Swap, store_apply]
  by_cases h2 : k = v2
  · subst h2
    rw [if_pos rfl, Equiv.swap_apply_right]
  · rw [if_neg h2]
    by_cases h1 : k = v1
    · subst h1
      rw [if_pos rfl, Equiv.swap_apply_left]
    · rw [if_neg h1, Equiv.swap_apply_of_ne_of_ne h1 h2]

theorem pswap_apply (perm : Int → Int) (v1 v2 k : Int) :
    pswap perm v1 v2 k = perm (Equiv.swap v1 v2 k) := by
  simp only [pswap, storeInt_apply]
  by_cases h2 : k = v2
  · subst h2
    rw [if_pos rfl, Equiv.swap_apply_right]
  · rw [if_neg h2]
    by_cases h1 : k = v1
    · subst h1
      rw [if_pos rfl, Equiv.swap_apply_left]
    · rw [if_neg h1, Equiv.swap_apply_of_ne_of_ne h1 h2]

theorem insertWhile_step (ooo : ℚ → ℚ → Bool) (startndx j : Int) (s : SortState)
    (h : j > startndx ∧ ooo (s.arr (j - 1)) (s.arr j) = true) :
    insertWhile ooo startndx j s
      = insertWhile ooo startndx (j - 1)
          { arr := Swap s.arr j (j - 1), perm := pswap s.perm j (j - 1) } := by
  rw [insertWhile, dif_pos h]

theorem insertWhile_done (ooo : ℚ → ℚ → Bool) (startndx j : Int) (s : SortState)
    (h : ¬ (j > startndx ∧ ooo (s.arr (j - 1)) (s.arr j) = true)) :
    insertWhile ooo startndx j s = s := by
  rw [insertWhile, dif_neg h]

theorem Rearranged_refl (lo hi : Int) (s : SortState) : Rearranged lo hi s s :=
  ⟨Equiv.refl Int, fun _ _ => rfl, fun _ => rfl, fun _ => rfl⟩

theorem Rearranged_trans (lo hi : Int) (s0 s1 s2 : SortState)
    (h1 : Rearranged lo hi s0 s1) (h2 : Rearranged lo hi s1 s2) : Rearranged lo hi s0 s2 := by
  obtain ⟨σ1, f1, a1, p1⟩ := h1
  obtain ⟨σ2, f2, a2, p2⟩ := h2
  refine ⟨σ2.trans σ1, ?_, ?_, ?_⟩
  · intro k hk
    show σ1 (σ2 k) = k
    rw [f2 k hk, f1 k hk]
  · intro k
    show s2.arr k = s0.arr (σ1 (σ2 k))
    rw [a2, a1]
  · intro k
    show s2.perm k = s0.perm (σ1 (σ2 k))
    rw [p2, p1]

theorem Rearranged_mono (lo hi lo' hi' : Int) (s0 s : SortState) (hlo : lo' ≤ lo)
    (hhi : hi ≤ hi') (h : Rearranged lo hi s0 s) : Rearranged lo' hi' s0 s := by
  obtain ⟨σ, f, a, p⟩ := h
  exact ⟨σ, fun k hk => f k (by omega), a, p⟩

theorem Rearranged_swap (s : SortState) (j : Int) :
    Rearranged (j - 1) j s { arr := Swap s.arr j (j - 1), perm := pswap s.perm j (j - 1) } := by
  refine ⟨Equiv.swap j (j - 1), ?_, fun k => Swap_apply _ _ _ _, fun k => pswap_apply _ _ _ _⟩
  intro k hk
  exact Equiv.swap_apply_of_ne_of_ne (by omega) (by omega)

/-- The inner loop started at `j` only rearranges the entries `startndx .. j`. -/
theorem insertWhile_rearranged (ooo : ℚ → ℚ → Bool) (startndx : Int) (m : Nat) :
    ∀ (j : Int) (s : SortState), (j - startndx).toNat ≤ m → startndx ≤ j →
      Rearranged startndx j s (insertWhile ooo startndx j s) := by
  induction m with
  | zero =>
    intro j s hm hj
    rw [insertWhile_done _ _ _ _ (by omega)]
    exact Rearranged_refl _ _ _
  | succ m ih =>
    intro j s hm hj
    by_cases h : j > startndx ∧ ooo (s.arr (j - 1)) (s.arr j) = true
    · rw [insertWhile_step _ _ _ _ h]
      refine Rearranged_trans _ _ _ _ _
        (Rearranged_mono _ _ _ _ _ _ (by omega) (le_refl _) (Rearranged_swap s j))
        (Rearranged_mono _ _ _ _ _ _ (le_refl _) (by omega) (ih (j - 1) _ (by omega) (by omega)))
    · rw [insertWhile_done _ _ _ _ h]
      exact Rearranged_refl _ _ _

/-- The inner loop started at `j = i` with the entries `startndx .. i-1` in order leaves
the entries `startndx .. i` in order. The general statement is about the loop at any `j`:
all adjacent pairs up to `i` are in order except possibly `(j-1, j)`, and `arr[j-1]`,
`arr[j+1]` are in order. -/
theorem insertWhile_sorted (ooo : ℚ → ℚ → Bool) (hasym : ∀ a b, ooo a b = true → ooo b a = false)
    (startndx i : Int) (m : Nat) :
    ∀ (j : Int) (s : SortState), (j - startndx).toNat ≤ m → startndx ≤ j → j ≤ i →
      (∀ k : Int, startndx ≤ k → k < i → k + 1 ≠ j → ooo (s.arr k) (s.arr (k + 1)) = false) →
      (startndx < j → j < i → ooo (s.arr (j - 1)) (s.arr (j + 1)) = false) →
      AdjSorted ooo (insertWhile ooo startndx j s).arr startndx i := by
  induction m with
  | zero =>
    intro j s hm hj hji hadj _
    rw [insertWhile_done _ _ _ _ (by omega)]
    intro k hk1 hk2
    exact hadj k hk1 hk2 (by omega)
  | succ m ih =>
    intro j s hm hj hji hadj hgap
    by_cases h : j > startndx ∧ ooo (s.arr (j - 1)) (s.arr j) = true
    · rw [insertWhile_step _ _ _ _ h]
      apply ih (j - 1) _ (by omega) (by omega) (by omega)
      · intro k hk1 hk2 hk3
        show ooo (Swap s.arr j (j - 1) k) (Swap s.arr j (j - 1) (k + 1)) = false
        rw [Swap_apply, Swap_apply]
        by_cases e1 : k = j - 1
        · have e2 : k + 1 = j := by omega
          rw [e2, e1, Equiv.swap_apply_right, Equiv.swap_apply_left]
          exact hasym _ _ h.2
        · by_cases e3 : k = j
          · subst e3
            rw [Equiv.swap_apply_left, Equiv.swap_apply_of_ne_of_ne (by omega) (by omega)]
            exact hgap h.1 hk2
          · rw [Equiv.swap_apply_of_ne_of_ne e3 e1,
              Equiv.swap_apply_of_ne_of_ne (by omega) (by omega)]
            exact hadj k hk1 hk2 (by omega)
      · intro h1 h2
        show ooo (Swap s.arr j (j - 1) (j - 1 - 1)) (Swap s.arr j (j - 1) (j - 1 + 1)) = false
        rw [Swap_apply, Swap_apply]
        have e : j - 1 + 1 = j := by omega
        rw [e, Equiv.swap_apply_left, Equiv.swap_apply_of_ne_of_ne (by omega) (by omega)]
        have := hadj (j - 1 - 1) (by omega) (by omega) (by omega)
        have e' : j - 1 - 1 + 1 = j - 1 := by omega
        rw [e'] at this
        exact this
    · rw [insertWhile_done _ _ _ _ h]
      intro k hk1 hk2
      by_cases e : k + 1 = j
      · have hk : j > startndx := by omega
        have : ¬ ooo (s.arr (j - 1)) (s.arr j) = true := fun hh => h ⟨hk, hh⟩
        have ek : k = j - 1 := by omega
        rw [ek, show j - 1 + 1 = j by omega]
        exact Bool.eq_false_iff.mpr this
      · exact hadj k hk1 hk2 e

/-- Invariant rule for the counting loop with an invariant that depends on the counter. -/
theorem forLoop_invariant_idx {σ : Type} (P : Int → σ → Prop) (n : Int) (body : Int → σ → σ)
    (m : Nat) :
    ∀ (i : Int) (s : σ), (n - i).toNat ≤ m → i ≤ n → P i s →
      (∀ k : Int, i ≤ k → k < n → ∀ t, P k t → P (k + 1) (body k t)) →
      P n (forLoop n body i s) := by
  induction m with
  | zero =>
    intro i s hm hin hs _
    rw [forLoop_done _ _ _ _ (by omega)]
    have e : i = n := by omega
    rw [← e]
    exact hs
  | succ m ih =>
    intro i s hm hin hs hstep
    by_cases h : i < n
    · rw [forLoop_step _ _ _ _ h]
      exact ih (i + 1) (body i s) (by omega) (by omega) (hstep i (le_refl _) h s hs)
        (fun k hk1 hk2 t ht => hstep k (by omega) hk2 t ht)
    · rw [forLoop_done _ _ _ _ (by omega)]
      have e : i = n := by omega
      rw [← e]
      exact hs

theorem perm_maps_segment (lo hi : Int) (σ : Equiv.Perm Int)
    (hσ : ∀ k : Int, k < lo ∨ hi < k → σ k = k) (k : Int) (hk : lo ≤ k ∧ k ≤ hi) :
    lo ≤ σ k ∧ σ k ≤ hi := by
  by_contra hc
  have h1 : σ k < lo ∨ hi < σ k := by omega
  have h2 := hσ (σ k) h1
  have h3 : σ k = k := σ.injective h2
  omega

/-- One pass of insertion sort in one direction: the entries `startndx .. endndx` end up
with all adjacent pairs in order, and the arrays are only rearranged inside the segment. -/
theorem insertion_pass (ooo : ℚ → ℚ → Bool) (hasym : ∀ a b, ooo a b = true → ooo b a = false)
    (startndx endndx : Int) (s0 : SortState) :
    AdjSorted ooo (forLoop (endndx + 1) (fun i s => insertWhile ooo startndx i s)
        startndx s0).arr startndx endndx
    ∧ Rearranged startndx endndx s0
        (forLoop (endndx + 1) (fun i s => insertWhile ooo startndx i s) startndx s0) := by
  by_cases hse : startndx ≤ endndx + 1
  · have key := forLoop_invariant_idx
      (fun (i : Int) (t : SortState) =>
        AdjSorted ooo t.arr startndx (i - 1) ∧ Rearranged startndx endndx s0 t)
      (endndx + 1) (fun i s => insertWhile ooo startndx i s) (endndx + 1 - startndx).toNat
      startndx s0 (le_refl _) hse
      ⟨fun k hk1 hk2 => by omega, Rearranged_refl _ _ _⟩
      (by
        intro k hk1 hk2 t ht
        refine ⟨?_, ?_⟩
        · have e : k + 1 - 1 = k := by omega
          rw [e]
          exact insertWhile_sorted ooo hasym startndx k (k - startndx).toNat k t (le_refl _) hk1
            (le_refl _) (fun k' h1 h2 h3 => ht.1 k' h1 (by omega)) (fun _ h => by omega)
        · exact Rearranged_trans _ _ _ _ _ ht.2
            (Rearranged_mono _ _ _ _ _ _ (le_refl _) (by omega)
              (insertWhile_rearranged ooo startndx (k - startndx).toNat k t (le_refl _) hk1)))
    have key2 : AdjSorted ooo (forLoop (endndx + 1) (fun i s => insertWhile ooo startndx i s)
          startndx s0).arr startndx (endndx + 1 - 1)
        ∧ Rearranged startndx endndx s0
          (forLoop (endndx + 1) (fun i s => insertWhile ooo startndx i s) startndx s0) := key
    have e : endndx + 1 - 1 = endndx := by omega
    rw [e] at key2
    exact key2
  · rw [forLoop_done _ _ _ _ (by omega)]
    exact ⟨fun k hk1 hk2 => by omega, Rearranged_refl _ _ _⟩

theorem insertionSort_up (arr : Int → ℚ) (perm : Int → Int) (startndx endndx direction : Int)
    (h : direction ≥ 0) :
    insertionSort arr perm startndx endndx direction
      = forLoop (endndx + 1) (fun i s => insertWhile (fun a b => decide (a > b)) startndx i s)
          startndx { arr := arr, perm := perm } := by
  unfold insertionSort
  simp only []
  rw [if_pos h, if_neg (by omega)]

theorem insertionSort_down (arr : Int → ℚ) (perm : Int → Int)
    (startndx endndx direction : Int) (h : direction < 0) :
    insertionSort arr perm startndx endndx direction
      = forLoop (endndx + 1) (fun i s => insertWhile (fun a b => decide (a < b)) startndx i s)
          startndx { arr := arr, perm := perm } := by
  unfold insertionSort
  simp only []
  have h2 : ¬ direction ≥ 0 := by omega
  rw [if_pos h, if_neg h2]

theorem gt_asymm_bool (a b : ℚ) (h : decide (a > b) = true) : decide (b > a) = false := by
  rw [decide_eq_true_eq] at h
  rw [decide_eq_false_iff_not]
  exact not_lt.mpr (le_of_lt h)

theorem lt_asymm_bool (a b : ℚ) (h : decide (a < b) = true) : decide (b < a) = false := by
  rw [decide_eq_true_eq] at h
  rw [decide_eq_false_iff_not]
  exact not_lt.mpr (le_of_lt h)

theorem AdjSorted_up (arr : Int → ℚ) (lo hi : Int)
    (h : AdjSorted (fun a b => decide (a > b)) arr lo hi) (m : Nat) :
    ∀ a b : Int, (b - a).toNat ≤ m → lo ≤ a → a ≤ b → b ≤ hi → arr a ≤ arr b := by
  induction m with
  | zero =>
    intro a b hm _ hab _
    have e : a = b := by omega
    rw [e]
  | succ m ih =>
    intro a b hm hlo hab hhi
    by_cases e : a = b
    · rw [e]
    · have h1 := h a hlo (by omega)
      simp only [decide_eq_false_iff_not, not_lt] at h1
      exact le_trans h1 (ih (a + 1) b (by omega) (by omega) (by omega) hhi)

theorem AdjSorted_down (arr : Int → ℚ) (lo hi : Int)
    (h : AdjSorted (fun a b => decide (a < b)) arr lo hi) (m : Nat) :
    ∀ a b : Int, (b - a).toNat ≤ m → lo ≤ a → a ≤ b → b ≤ hi → arr b ≤ arr a := by
  induction m with
  | zero =>
    intro a b hm _ hab _
    have e : a = b := by omega
    rw [e]
  | succ m ih =>
    intro a b hm hlo hab hhi
    by_cases e : a = b
    · rw [e]
    · have h1 := h a hlo (by omega)
      simp only [decide_eq_false_iff_not, not_lt] at h1
      exact le_trans (ih (a + 1) b (by omega) (by omega) (by omega) hhi) h1

/-- The call `insertionSort` only rearranges inside the segment, in either direction. -/
theorem insertionSort_rearranged (arr : Int → ℚ) (perm : Int → Int)
    (startndx endndx direction : Int) :
    Rearranged startndx endndx { arr := arr, perm := perm }
      (insertionSort arr perm startndx endndx direction) := by
  by_cases h : direction ≥ 0
  · rw [insertionSort_up _ _ _ _ _ h]
    exact (insertion_pass _ gt_asymm_bool startndx endndx _).2
  · rw [insertionSort_down _ _ _ _ _ (by omega)]
    exact (insertion_pass _ lt_asymm_bool startndx endndx _).2

theorem rangeArray_apply (ar : Int → Int) (size i : Int) (h0 : 0 ≤ i) (h1 : i < size) :
    rangeArray ar size i = i := by
  unfold rangeArray
  rw [rangeArray_loop size (size - 0).toNat 0 ar (le_refl _)]
  show (if 0 ≤ i ∧ i < size then i else ar i) = i
  rw [if_pos ⟨h0, h1⟩]

theorem segment_multiset_perm (lo hi : Int) (σ : Equiv.Perm Int)
    (hσ : ∀ k : Int, k < lo ∨ hi < k → σ k = k) (a : Int → ℚ) :
    Multiset.map (fun k => a (σ k)) (Finset.Icc lo hi).val
      = Multiset.map a (Finset.Icc lo hi).val := by
  have h : (Finset.Icc lo hi).map (Equiv.toEmbedding σ) = Finset.Icc lo hi := by
    apply Finset.map_perm
    intro k hk
    have hk' : σ k ≠ k := hk
    rw [Finset.coe_Icc, Set.mem_Icc]
    by_contra hc
    exact hk' (hσ k (by omega))
  have h2 := congrArg Finset.val h
  rw [Finset.map_val] at h2
  have h3 : Multiset.map (fun k => a (σ k)) (Finset.Icc lo hi).val
      = Multiset.map a (Multiset.map (Equiv.toEmbedding σ) (Finset.Icc lo hi).val) := by
    rw [Multiset.map_map]
    rfl
  rw [h3, h2]

theorem total_sub (N : Nat) (c : Int) (a b : Int → ℚ) :
    total N c (fun k => a k - b k) = total N c a - total N c b := by
  unfold total
  rw [Finset.sum_sub_distrib]

theorem site_offset1 (i : Int) : DIM * i + 3 = DIM * (i + 1) := by
  unfold DIM
  ring

theorem site_offset2 (i : Int) : DIM * i + 6 = DIM * (i + 2) := by
  unfold DIM
  ring

theorem ljsh_VF_outer_total_f (nlist : t_nblist) (x shiftvec : Int → ℚ) (vdwtype : Int → Int)
    (vdwparam : Int → ℚ) (nvdwtype : Int) (rcutoff2 sh_vdw_invrcut6 : M128d)
    (N : Nat) (iidx : Int) (o : OuterSt)
    (hi : 0 ≤ nlist.iinr iidx ∧ nlist.iinr iidx < N)
    (hN : ∀ jidx : Int, nlist.jindex iidx ≤ jidx → jidx < nlist.jindex (iidx + 1) →
      0 ≤ nlist.jjnr jidx ∧ nlist.jjnr jidx < N)
    (hd : ∀ a b : Int, nlist.jindex iidx ≤ a → a < b → b < nlist.jindex (iidx + 1) →
      nlist.jjnr a ≠ nlist.jjnr b) :
    total N 0 (ljsh_VF_outer nlist x shiftvec vdwtype vdwparam nvdwtype rcutoff2 sh_vdw_invrcut6
        iidx o).f = total N 0 o.f
    ∧ total N 1 (ljsh_VF_outer nlist x shiftvec vdwtype vdwparam nvdwtype rcutoff2 sh_vdw_invrcut6
        iidx o).f = total N 1 o.f
    ∧ total N 2 (ljsh_VF_outer nlist x shiftvec vdwtype vdwparam nvdwtype rcutoff2 sh_vdw_invrcut6
        iidx o).f = total N 2 o.f := by
  obtain ⟨_, hf, _, hB⟩ := ljsh_VF_outer_entry nlist x shiftvec vdwtype vdwparam nvdwtype rcutoff2
      sh_vdw_invrcut6 N 0 iidx o _ _ rfl rfl
  obtain ⟨b0, b1, b2⟩ := hB hN hd
  rw [hf, total_incr3 N 0 ⟨by norm_num, by norm_num⟩ _ _ hi,
    total_incr3 N 1 ⟨by norm_num, by norm_num⟩ _ _ hi,
    total_incr3 N 2 ⟨by norm_num, by norm_num⟩ _ _ hi, bump_c0, bump_at1, bump_at2]
  refine ⟨?_, ?_, ?_⟩ <;> linarith

theorem ljsh_VF_kernel_momentum (nlist : t_nblist) (xx : Int → ℚ) (fr : t_forcerec)
    (mdatoms : t_mdatoms) (st : KState)
    (N : Nat)
    (hi : ∀ iidx : Int, 0 ≤ iidx → iidx < nlist.nri →
      0 ≤ nlist.iinr iidx ∧ nlist.iinr iidx < N)
    (hN : ∀ iidx : Int, 0 ≤ iidx → iidx < nlist.nri → ∀ jidx : Int,
      nlist.jindex iidx ≤ jidx → jidx < nlist.jindex (iidx + 1) →
      0 ≤ nlist.jjnr jidx ∧ nlist.jjnr jidx < N)
    (hd : PartnersDistinct nlist) (c : Int) (hc0 : 0 ≤ c) (hc2 : c ≤ 2) :
    total N c (fun k => (nb_kernel_ElecNone_VdwLJSh_GeomP1P1_VF_avx_128_fma_double nlist xx fr
        mdatoms st).f k
        - st.f k) = 0 := by
  rw [total_sub, ljsh_VF_kernel_eq_loop]
  show total N c (ljsh_VF_loop nlist xx fr mdatoms st).f - total N c (outer_init st).f = 0
  have key : total N c (ljsh_VF_loop nlist xx fr mdatoms st).f = total N c (outer_init st).f :=
    forLoop_invariant (fun o : OuterSt => total N c o.f = total N c (outer_init st).f)
      nlist.nri
      (ljsh_VF_outer nlist xx fr.shift_vec mdatoms.typeA fr.nbfp fr.ntype
          (_mm_mul_pd (_mm_set1_pd fr.ic.rvdw) (_mm_set1_pd fr.ic.rvdw))
          (_mm_set1_pd fr.ic.sh_invrc6))
      (nlist.nri - 0).toNat 0 (outer_init st) (le_refl _) (by
        intro k hk0 hk t ht
        obtain ⟨a0, a1, a2⟩ := ljsh_VF_outer_total_f
          nlist xx fr.shift_vec mdatoms.typeA fr.nbfp fr.ntype
          (_mm_mul_pd (_mm_set1_pd fr.ic.rvdw) (_mm_set1_pd fr.ic.rvdw))
          (_mm_set1_pd fr.ic.sh_invrc6) N k t
          (hi k hk0 hk) (hN k hk0 hk) (hd k hk0 hk)
        have hc : c = 0 ∨ c = 1 ∨ c = 2 := by omega
        rcases hc with h | h | h <;> subst h
        · exact a0.trans ht
        · exact a1.trans ht
        · exact a2.trans ht) rfl
  rw [key, sub_self]

theorem ljsh_F_outer_total_f (nlist : t_nblist) (x shiftvec : Int → ℚ) (vdwtype : Int → Int)
    (vdwparam : Int → ℚ) (nvdwtype : Int) (rcutoff2 : M128d)
    (N : Nat) (iidx : Int) (o : OuterSt)
    (hi : 0 ≤ nlist.iinr iidx ∧ nlist.iinr iidx < N)
    (hN : ∀ jidx : Int, nlist.jindex iidx ≤ jidx → jidx < nlist.jindex (iidx + 1) →
      0 ≤ nlist.jjnr jidx ∧ nlist.jjnr jidx < N)
    (hd : ∀ a b : Int, nlist.jindex iidx ≤ a → a < b → b < nlist.jindex (iidx + 1) →
      nlist.jjnr a ≠ nlist.jjnr b) :
    total N 0 (ljsh_F_outer nlist x shiftvec vdwtype vdwparam nvdwtype rcutoff2 iidx o).f = total N
        0 o.f
    ∧ total N 1 (ljsh_F_outer nlist x shiftvec vdwtype vdwparam nvdwtype rcutoff2 iidx o).f = total
        N 1 o.f
    ∧ total N 2 (ljsh_F_outer nlist x shiftvec vdwtype vdwparam nvdwtype rcutoff2 iidx o).f = total
        N 2 o.f := by
  obtain ⟨_, hf, _, hB⟩ := ljsh_F_outer_entry nlist x shiftvec vdwtype vdwparam nvdwtype rcutoff2 N
      0 iidx o _ _ rfl rfl
  obtain ⟨b0, b1, b2⟩ := hB hN hd
  rw [hf, total_incr3 N 0 ⟨by norm_num, by norm_num⟩ _ _ hi,
    total_incr3 N 1 ⟨by norm_num, by norm_num⟩ _ _ hi,
    total_incr3 N 2 ⟨by norm_num, by norm_num⟩ _ _ hi, bump_c0, bump_at1, bump_at2]
  refine ⟨?_, ?_, ?_⟩ <;> linarith

theorem ljsh_F_kernel_momentum (nlist : t_nblist) (xx : Int → ℚ) (fr : t_forcerec)
    (mdatoms : t_mdatoms) (st : KState)
    (N : Nat)
    (hi : ∀ iidx : Int, 0 ≤ iidx → iidx < nlist.nri →
      0 ≤ nlist.iinr iidx ∧ nlist.iinr iidx < N)
    (hN : ∀ iidx : Int, 0 ≤ iidx → iidx < nlist.nri → ∀ jidx : Int,
      nlist.jindex iidx ≤ jidx → jidx < nlist.jindex (iidx + 1) →
      0 ≤ nlist.jjnr jidx ∧ nlist.jjnr jidx < N)
    (hd : PartnersDistinct nlist) (c : Int) (hc0 : 0 ≤ c) (hc2 : c ≤ 2) :
    total N c (fun k => (nb_kernel_ElecNone_VdwLJSh_GeomP1P1_F_avx_128_fma_double nlist xx fr
        mdatoms st).f k
        - st.f k) = 0 := by
  rw [total_sub, ljsh_F_kernel_eq_loop]
  show total N c (ljsh_F_loop nlist xx fr mdatoms st).f - total N c (outer_init st).f = 0
  have key : total N c (ljsh_F_loop nlist xx fr mdatoms st).f = total N c (outer_init st).f :=
    forLoop_invariant (fun o : OuterSt => total N c o.f = total N c (outer_init st).f)
      nlist.nri
      (ljsh_F_outer nlist xx fr.shift_vec mdatoms.typeA fr.nbfp fr.ntype
          (_mm_mul_pd (_mm_set1_pd fr.ic.rvdw) (_mm_set1_pd fr.ic.rvdw)))
      (nlist.nri - 0).toNat 0 (outer_init st) (le_refl _) (by
        intro k hk0 hk t ht
        obtain ⟨a0, a1, a2⟩ := ljsh_F_outer_total_f
          nlist xx fr.shift_vec mdatoms.typeA fr.nbfp fr.ntype
          (_mm_mul_pd (_mm_set1_pd fr.ic.rvdw) (_mm_set1_pd fr.ic.rvdw)) N k t
          (hi k hk0 hk) (hN k hk0 hk) (hd k hk0 hk)
        have hc : c = 0 ∨ c = 1 ∨ c = 2 := by omega
        rcases hc with h | h | h <;> subst h
        · exact a0.trans ht
        · exact a1.trans ht
        · exact a2.trans ht) rfl
  rw [key, sub_self]

theorem rf_VF_outer_total_f (invsqrt : ℚ → ℚ) (nlist : t_nblist) (x shiftvec charge : Int → ℚ)
    (vdwtype : Int → Int) (vdwparam : Int → ℚ) (krf krf2 crf iq0 iq1 iq2 : M128d)
    (vdwioffset0 : Int)
    (N : Nat) (iidx : Int) (o : OuterSt)
    (hi : 0 ≤ nlist.iinr iidx ∧ nlist.iinr iidx + 2 < N)
    (hN : ∀ jidx : Int, nlist.jindex iidx ≤ jidx → jidx < nlist.jindex (iidx + 1) →
      0 ≤ nlist.jjnr jidx ∧ nlist.jjnr jidx < N)
    (hd : ∀ a b : Int, nlist.jindex iidx ≤ a → a < b → b < nlist.jindex (iidx + 1) →
      nlist.jjnr a ≠ nlist.jjnr b) :
    total N 0 (rf_VF_outer invsqrt nlist x shiftvec charge vdwtype vdwparam krf krf2 crf iq0 iq1 iq2
        vdwioffset0 iidx o).f = total N 0 o.f
    ∧ total N 1 (rf_VF_outer invsqrt nlist x shiftvec charge vdwtype vdwparam krf krf2 crf iq0 iq1
        iq2 vdwioffset0 iidx o).f = total N 1 o.f
    ∧ total N 2 (rf_VF_outer invsqrt nlist x shiftvec charge vdwtype vdwparam krf krf2 crf iq0 iq1
        iq2 vdwioffset0 iidx o).f = total N 2 o.f := by
  obtain ⟨_, hf, _, hB⟩ := rf_VF_outer_entry invsqrt nlist x shiftvec charge vdwtype vdwparam krf
      krf2 crf iq0 iq1 iq2 vdwioffset0 N 0 iidx o _ _ rfl rfl
  obtain ⟨b0, b1, b2⟩ := hB hN hd
  have h0 : 0 ≤ nlist.iinr iidx ∧ nlist.iinr iidx < N := by omega
  have h1 : 0 ≤ nlist.iinr iidx + 1 ∧ nlist.iinr iidx + 1 < N := by omega
  have h2 : 0 ≤ nlist.iinr iidx + 2 ∧ nlist.iinr iidx + 2 < N := by omega
  rw [hf, site_offset1, site_offset2]
  rw [total_incr3 N 0 ⟨by norm_num, by norm_num⟩ _ _ h2,
    total_incr3 N 1 ⟨by norm_num, by norm_num⟩ _ _ h2,
    total_incr3 N 2 ⟨by norm_num, by norm_num⟩ _ _ h2,
    total_incr3 N 0 ⟨by norm_num, by norm_num⟩ _ _ h1,
    total_incr3 N 1 ⟨by norm_num, by norm_num⟩ _ _ h1,
    total_incr3 N 2 ⟨by norm_num, by norm_num⟩ _ _ h1,
    total_incr3 N 0 ⟨by norm_num, by norm_num⟩ _ _ h0,
    total_incr3 N 1 ⟨by norm_num, by norm_num⟩ _ _ h0,
    total_incr3 N 2 ⟨by norm_num, by norm_num⟩ _ _ h0, bump_c0, bump_at1, bump_at2,
    bump_c0, bump_at1, bump_at2, bump_c0, bump_at1, bump_at2]
  refine ⟨?_, ?_, ?_⟩ <;> linarith

theorem rf_VF_kernel_momentum (invsqrt : ℚ → ℚ) (nlist : t_nblist) (xx : Int → ℚ) (fr : t_forcerec)
    (mdatoms : t_mdatoms) (st : KState)
    (N : Nat)
    (hi : ∀ iidx : Int, 0 ≤ iidx → iidx < nlist.nri →
      0 ≤ nlist.iinr iidx ∧ nlist.iinr iidx + 2 < N)
    (hN : ∀ iidx : Int, 0 ≤ iidx → iidx < nlist.nri → ∀ jidx : Int,
      nlist.jindex iidx ≤ jidx → jidx < nlist.jindex (iidx + 1) →
      0 ≤ nlist.jjnr jidx ∧ nlist.jjnr jidx < N)
    (hd : PartnersDistinct nlist) (c : Int) (hc0 : 0 ≤ c) (hc2 : c ≤ 2) :
    total N c (fun k => (nb_kernel_ElecRF_VdwLJ_GeomW3P1_VF_sse2_double invsqrt nlist xx fr mdatoms
        st).f k
        - st.f k) = 0 := by
  rw [total_sub, rf_VF_kernel_eq_loop]
  show total N c (rf_VF_loop invsqrt nlist xx fr mdatoms st).f - total N c (outer_init st).f = 0
  have key : total N c (rf_VF_loop invsqrt nlist xx fr mdatoms st).f = total N c (outer_init st).f
      :=
    forLoop_invariant (fun o : OuterSt => total N c o.f = total N c (outer_init st).f)
      nlist.nri
      (rf_VF_outer invsqrt nlist xx fr.shift_vec mdatoms.chargeA mdatoms.typeA fr.nbfp
          (_mm_set1_pd fr.ic.k_rf) (_mm_set1_pd (fr.ic.k_rf * 2)) (_mm_set1_pd fr.ic.c_rf)
          (_mm_mul_pd (_mm_set1_pd fr.ic.epsfac) (_mm_set1_pd (mdatoms.chargeA (nlist.iinr 0 + 0))))
          (_mm_mul_pd (_mm_set1_pd fr.ic.epsfac) (_mm_set1_pd (mdatoms.chargeA (nlist.iinr 0 + 1))))
          (_mm_mul_pd (_mm_set1_pd fr.ic.epsfac) (_mm_set1_pd (mdatoms.chargeA (nlist.iinr 0 + 2))))
          (2 * fr.ntype * mdatoms.typeA (nlist.iinr 0 + 0)))
      (nlist.nri - 0).toNat 0 (outer_init st) (le_refl _) (by
        intro k hk0 hk t ht
        obtain ⟨a0, a1, a2⟩ := rf_VF_outer_total_f
          invsqrt nlist xx fr.shift_vec mdatoms.chargeA mdatoms.typeA fr.nbfp
          (_mm_set1_pd fr.ic.k_rf) (_mm_set1_pd (fr.ic.k_rf * 2)) (_mm_set1_pd fr.ic.c_rf)
          (_mm_mul_pd (_mm_set1_pd fr.ic.epsfac) (_mm_set1_pd (mdatoms.chargeA (nlist.iinr 0 + 0))))
          (_mm_mul_pd (_mm_set1_pd fr.ic.epsfac) (_mm_set1_pd (mdatoms.chargeA (nlist.iinr 0 + 1))))
          (_mm_mul_pd (_mm_set1_pd fr.ic.epsfac) (_mm_set1_pd (mdatoms.chargeA (nlist.iinr 0 + 2))))
          (2 * fr.ntype * mdatoms.typeA (nlist.iinr 0 + 0)) N k t
          (hi k hk0 hk) (hN k hk0 hk) (hd k hk0 hk)
        have hc : c = 0 ∨ c = 1 ∨ c = 2 := by omega
        rcases hc with h | h | h <;> subst h
        · exact a0.trans ht
        · exact a1.trans ht
        · exact a2.trans ht) rfl
  rw [key, sub_self]

theorem rf_F_outer_total_f (invsqrt : ℚ → ℚ) (nlist : t_nblist) (x shiftvec charge : Int → ℚ)
    (vdwtype : Int → Int) (vdwparam : Int → ℚ) (krf2 iq0 iq1 iq2 : M128d)
    (vdwioffset0 : Int)
    (N : Nat) (iidx : Int) (o : OuterSt)
    (hi : 0 ≤ nlist.iinr iidx ∧ nlist.iinr iidx + 2 < N)
    (hN : ∀ jidx : Int, nlist.jindex iidx ≤ jidx → jidx < nlist.jindex (iidx + 1) →
      0 ≤ nlist.jjnr jidx ∧ nlist.jjnr jidx < N)
    (hd : ∀ a b : Int, nlist.jindex iidx ≤ a → a < b → b < nlist.jindex (iidx + 1) →
      nlist.jjnr a ≠ nlist.jjnr b) :
    total N 0 (rf_F_outer invsqrt nlist x shiftvec charge vdwtype vdwparam krf2 iq0 iq1 iq2
        vdwioffset0 iidx o).f = total N 0 o.f
    ∧ total N 1 (rf_F_outer invsqrt nlist x shiftvec charge vdwtype vdwparam krf2 iq0 iq1 iq2
        vdwioffset0 iidx o).f = total N 1 o.f
    ∧ total N 2 (rf_F_outer invsqrt nlist x shiftvec charge vdwtype vdwparam krf2 iq0 iq1 iq2
        vdwioffset0 iidx o).f = total N 2 o.f := by
  obtain ⟨_, hf, _, hB⟩ := rf_F_outer_entry invsqrt nlist x shiftvec charge vdwtype vdwparam krf2
      iq0 iq1 iq2 vdwioffset0 N 0 iidx o _ _ rfl rfl
  obtain ⟨b0, b1, b2⟩ := hB hN hd
  have h0 : 0 ≤ nlist.iinr iidx ∧ nlist.iinr iidx < N := by omega
  have h1 : 0 ≤ nlist.iinr iidx + 1 ∧ nlist.iinr iidx + 1 < N := by omega
  have h2 : 0 ≤ nlist.iinr iidx + 2 ∧ nlist.iinr iidx + 2 < N := by omega
  rw [hf, site_offset1, site_offset2]
  rw [total_incr3 N 0 ⟨by norm_num, by norm_num⟩ _ _ h2,
    total_incr3 N 1 ⟨by norm_num, by norm_num⟩ _ _ h2,
    total_incr3 N 2 ⟨by norm_num, by norm_num⟩ _ _ h2,
    total_incr3 N 0 ⟨by norm_num, by norm_num⟩ _ _ h1,
    total_incr3 N 1 ⟨by norm_num, by norm_num⟩ _ _ h1,
    total_incr3 N 2 ⟨by norm_num, by norm_num⟩ _ _ h1,
    total_incr3 N 0 ⟨by norm_num, by norm_num⟩ _ _ h0,
    total_incr3 N 1 ⟨by norm_num, by norm_num⟩ _ _ h0,
    total_incr3 N 2 ⟨by norm_num, by norm_num⟩ _ _ h0, bump_c0, bump_at1, bump_at2,
    bump_c0, bump_at1, bump_at2, bump_c0, bump_at1, bump_at2]
  refine ⟨?_, ?_, ?_⟩ <;> linarith

theorem rf_F_kernel_momentum (invsqrt : ℚ → ℚ) (nlist : t_nblist) (xx : Int → ℚ) (fr : t_forcerec)
    (mdatoms : t_mdatoms) (st : KState)
    (N : Nat)
    (hi : ∀ iidx : Int, 0 ≤ iidx → iidx < nlist.nri →
      0 ≤ nlist.iinr iidx ∧ nlist.iinr iidx + 2 < N)
    (hN : ∀ iidx : Int, 0 ≤ iidx → iidx < nlist.nri → ∀ jidx : Int,
      nlist.jindex iidx ≤ jidx → jidx < nlist.jindex (iidx + 1) →
      0 ≤ nlist.jjnr jidx ∧ nlist.jjnr jidx < N)
    (hd : PartnersDistinct nlist) (c : Int) (hc0 : 0 ≤ c) (hc2 : c ≤ 2) :
    total N c (fun k => (nb_kernel_ElecRF_VdwLJ_GeomW3P1_F_sse2_double invsqrt nlist xx fr mdatoms
        st).f k
        - st.f k) = 0 := by
  rw [total_sub, rf_F_kernel_eq_loop]
  show total N c (rf_F_loop invsqrt nlist xx fr mdatoms st).f - total N c (outer_init st).f = 0
  have key : total N c (rf_F_loop invsqrt nlist xx fr mdatoms st).f = total N c (outer_init st).f :=
    forLoop_invariant (fun o : OuterSt => total N c o.f = total N c (outer_init st).f)
      nlist.nri
      (rf_F_outer invsqrt nlist xx fr.shift_vec mdatoms.chargeA mdatoms.typeA fr.nbfp
          (_mm_set1_pd (fr.ic.k_rf * 2))
          (_mm_mul_pd (_mm_set1_pd fr.ic.epsfac) (_mm_set1_pd (mdatoms.chargeA (nlist.iinr 0 + 0))))
          (_mm_mul_pd (_mm_set1_pd fr.ic.epsfac) (_mm_set1_pd (mdatoms.chargeA (nlist.iinr 0 + 1))))
          (_mm_mul_pd (_mm_set1_pd fr.ic.epsfac) (_mm_set1_pd (mdatoms.chargeA (nlist.iinr 0 + 2))))
          (2 * fr.ntype * mdatoms.typeA (nlist.iinr 0 + 0)))
      (nlist.nri - 0).toNat 0 (outer_init st) (le_refl _) (by
        intro k hk0 hk t ht
        obtain ⟨a0, a1, a2⟩ := rf_F_outer_total_f
          invsqrt nlist xx fr.shift_vec mdatoms.chargeA mdatoms.typeA fr.nbfp
          (_mm_set1_pd (fr.ic.k_rf * 2))
          (_mm_mul_pd (_mm_set1_pd fr.ic.epsfac) (_mm_set1_pd (mdatoms.chargeA (nlist.iinr 0 + 0))))
          (_mm_mul_pd (_mm_set1_pd fr.ic.epsfac) (_mm_set1_pd (mdatoms.chargeA (nlist.iinr 0 + 1))))
          (_mm_mul_pd (_mm_set1_pd fr.ic.epsfac) (_mm_set1_pd (mdatoms.chargeA (nlist.iinr 0 + 2))))
          (2 * fr.ntype * mdatoms.typeA (nlist.iinr 0 + 0)) N k t
          (hi k hk0 hk) (hN k hk0 hk) (hd k hk0 hk)
        have hc : c = 0 ∨ c = 1 ∨ c = 2 := by omega
        rcases hc with h | h | h <;> subst h
        · exact a0.trans ht
        · exact a1.trans ht
        · exact a2.trans ht) rfl
  rw [key, sub_self]

/-- Invariant rule for the partner loop. -/
theorem innerLoop_invariant {σ : Type} (P : σ → Prop) (b2 b1 : Int → σ → σ) (e : Int)
    (m : Nat) :
    ∀ (j : Int) (s : σ), (e - j).toNat ≤ m →
      (∀ k : Int, j ≤ k → k + 1 < e → ∀ t, P t → P (b2 k t)) →
      (∀ k : Int, j ≤ k → k < e → ∀ t, P t → P (b1 k t)) →
      P s → P (innerLoop b2 b1 j e s) := by
  induction m using Nat.strong_induction_on with
  | _ m ih =>
    intro j s hm h2 h1 hs
    by_cases hlt : j < e - 1
    · rw [innerLoop_step _ _ _ _ _ hlt]
      exact ih (m - 2) (by omega) (j + 2) _ (by omega)
        (fun k hk hke t => h2 k (by omega) hke t) (fun k hk hke t => h1 k (by omega) hke t)
        (h2 j (le_refl j) (by omega) s hs)
    · by_cases hlast : e = j + 1
      · rw [innerLoop_last _ _ _ _ _ hlast]
        exact h1 j (le_refl j) (by omega) s hs
      · rw [innerLoop_done _ _ _ _ _ (by omega)]
        exact hs

theorem decrement_2ptr_frame (f : Int → ℚ) (A B : Int) (x1 y1 z1 : M128d) (k : Int)
    (hA : k < A ∨ A + 2 < k) (hB : k < B ∨ B + 2 < k) :
    gmx_mm_decrement_1rvec_2ptr_swizzle_pd f A B x1 y1 z1 k = f k := by
  simp only [gmx_mm_decrement_1rvec_2ptr_swizzle_pd, store]
  rw [if_neg (by omega), if_neg (by omega), if_neg (by omega), if_neg (by omega),
    if_neg (by omega), if_neg (by omega)]

theorem decrement_1ptr_frame (f : Int → ℚ) (A : Int) (x1 y1 z1 : M128d) (k : Int)
    (hA : k < A ∨ A + 2 < k) :
    gmx_mm_decrement_1rvec_1ptr_swizzle_pd f A x1 y1 z1 k = f k := by
  rw [decrement_1ptr_eq_bump]
  show f k - bump A x1.lo y1.lo z1.lo k = f k
  rw [bump_off _ _ _ _ _ hA, sub_zero]

theorem incr3_frame (f : Int → ℚ) (p : Int) (vx vy vz : ℚ) (k : Int)
    (h : k < p ∨ p + 2 < k) : incr3 f p vx vy vz k = f k := by
  rw [incr3_apply]
  show f k + bump p vx vy vz k = f k
  rw [bump_off _ _ _ _ _ h, add_zero]

/-- The flat offsets of particle `p` are off the three offsets of any other particle. -/
theorem flat_off (p j c : Int) (hc0 : 0 ≤ c) (hc2 : c ≤ 2) (h : j ≠ p) :
    DIM * p + c < DIM * j ∨ DIM * j + 2 < DIM * p + c := by
  unfold DIM
  omega

theorem ljsh_VF_block2_frame (nlist : t_nblist) (x : Int → ℚ) (vdwtype : Int → Int)
    (vdwparam : Int → ℚ) (rcutoff2 sh_vdw_invrcut6 : M128d) (ix0 iy0 iz0 : M128d)
    (vdwioffset0 : Int)
    (jidx : Int) (s : LJShInner) (k : Int)
    (hA : k < DIM * nlist.jjnr jidx ∨ DIM * nlist.jjnr jidx + 2 < k)
    (hB : k < DIM * nlist.jjnr (jidx + 1) ∨ DIM * nlist.jjnr (jidx + 1) + 2 < k) :
    (ljsh_VF_block2 nlist x vdwtype vdwparam rcutoff2 sh_vdw_invrcut6 ix0 iy0 iz0 vdwioffset0 jidx
        s).f k = s.f k := by
  rw [ljsh_VF_block2_decrement]
  exact decrement_2ptr_frame _ _ _ _ _ _ k hA hB

theorem ljsh_VF_block1_frame (nlist : t_nblist) (x : Int → ℚ) (vdwtype : Int → Int)
    (vdwparam : Int → ℚ) (rcutoff2 sh_vdw_invrcut6 : M128d) (ix0 iy0 iz0 : M128d)
    (vdwioffset0 : Int)
    (jidx : Int) (s : LJShInner) (k : Int)
    (hA : k < DIM * nlist.jjnr jidx ∨ DIM * nlist.jjnr jidx + 2 < k) :
    (ljsh_VF_block1 nlist x vdwtype vdwparam rcutoff2 sh_vdw_invrcut6 ix0 iy0 iz0 vdwioffset0 jidx
        s).f k = s.f k := by
  rw [ljsh_VF_block1_decrement]
  exact decrement_1ptr_frame _ _ _ _ _ k hA

theorem ljsh_F_block2_frame (nlist : t_nblist) (x : Int → ℚ) (vdwtype : Int → Int)
    (vdwparam : Int → ℚ) (rcutoff2 : M128d) (ix0 iy0 iz0 : M128d)
    (vdwioffset0 : Int)
    (jidx : Int) (s : LJShInner) (k : Int)
    (hA : k < DIM * nlist.jjnr jidx ∨ DIM * nlist.jjnr jidx + 2 < k)
    (hB : k < DIM * nlist.jjnr (jidx + 1) ∨ DIM * nlist.jjnr (jidx + 1) + 2 < k) :
    (ljsh_F_block2 nlist x vdwtype vdwparam rcutoff2 ix0 iy0 iz0 vdwioffset0 jidx s).f k = s.f k :=
        by
  rw [ljsh_F_block2_decrement]
  exact decrement_2ptr_frame _ _ _ _ _ _ k hA hB

theorem ljsh_F_block1_frame (nlist : t_nblist) (x : Int → ℚ) (vdwtype : Int → Int)
    (vdwparam : Int → ℚ) (rcutoff2 : M128d) (ix0 iy0 iz0 : M128d)
    (vdwioffset0 : Int)
    (jidx : Int) (s : LJShInner) (k : Int)
    (hA : k < DIM * nlist.jjnr jidx ∨ DIM * nlist.jjnr jidx + 2 < k) :
    (ljsh_F_block1 nlist x vdwtype vdwparam rcutoff2 ix0 iy0 iz0 vdwioffset0 jidx s).f k = s.f k :=
        by
  rw [ljsh_F_block1_decrement]
  exact decrement_1ptr_frame _ _ _ _ _ k hA

theorem rf_VF_block2_frame (invsqrt : ℚ → ℚ) (nlist : t_nblist) (x : Int → ℚ) (charge : Int → ℚ)
    (vdwtype : Int → Int) (vdwparam : Int → ℚ) (krf krf2 crf : M128d) (iq0 iq1 iq2 : M128d)
    (vdwioffset0 : Int) (ix0 iy0 iz0 ix1 iy1 iz1 ix2 iy2 iz2 : M128d)
    (jidx : Int) (s : RFInner) (k : Int)
    (hA : k < DIM * nlist.jjnr jidx ∨ DIM * nlist.jjnr jidx + 2 < k)
    (hB : k < DIM * nlist.jjnr (jidx + 1) ∨ DIM * nlist.jjnr (jidx + 1) + 2 < k) :
    (rf_VF_block2 invsqrt nlist x charge vdwtype vdwparam krf krf2 crf iq0 iq1 iq2
        vdwioffset0 ix0 iy0 iz0 ix1 iy1 iz1 ix2 iy2 iz2 jidx s).f k = s.f k := by
  rw [rf_VF_block2_decrement]
  exact decrement_2ptr_frame _ _ _ _ _ _ k hA hB

theorem rf_VF_block1_frame (invsqrt : ℚ → ℚ) (nlist : t_nblist) (x : Int → ℚ) (charge : Int → ℚ)
    (vdwtype : Int → Int) (vdwparam : Int → ℚ) (krf krf2 crf : M128d) (iq0 iq1 iq2 : M128d)
    (vdwioffset0 : Int) (ix0 iy0 iz0 ix1 iy1 iz1 ix2 iy2 iz2 : M128d)
    (jidx : Int) (s : RFInner) (k : Int)
    (hA : k < DIM * nlist.jjnr jidx ∨ DIM * nlist.jjnr jidx + 2 < k) :
    (rf_VF_block1 invsqrt nlist x charge vdwtype vdwparam krf krf2 crf iq0 iq1 iq2
        vdwioffset0 ix0 iy0 iz0 ix1 iy1 iz1 ix2 iy2 iz2 jidx s).f k = s.f k := by
  rw [rf_VF_block1_decrement]
  exact decrement_1ptr_frame _ _ _ _ _ k hA

theorem rf_F_block2_frame (invsqrt : ℚ → ℚ) (nlist : t_nblist) (x : Int → ℚ) (charge : Int → ℚ)
    (vdwtype : Int → Int) (vdwparam : Int → ℚ) (krf2 : M128d) (iq0 iq1 iq2 : M128d)
    (vdwioffset0 : Int) (ix0 iy0 iz0 ix1 iy1 iz1 ix2 iy2 iz2 : M128d)
    (jidx : Int) (s : RFInner) (k : Int)
    (hA : k < DIM * nlist.jjnr jidx ∨ DIM * nlist.jjnr jidx + 2 < k)
    (hB : k < DIM * nlist.jjnr (jidx + 1) ∨ DIM * nlist.jjnr (jidx + 1) + 2 < k) :
    (rf_F_block2 invsqrt nlist x charge vdwtype vdwparam krf2 iq0 iq1 iq2
        vdwioffset0 ix0 iy0 iz0 ix1 iy1 iz1 ix2 iy2 iz2 jidx s).f k = s.f k := by
  rw [rf_F_block2_decrement]
  exact decrement_2ptr_frame _ _ _ _ _ _ k hA hB

theorem rf_F_block1_frame (invsqrt : ℚ → ℚ) (nlist : t_nblist) (x : Int → ℚ) (charge : Int → ℚ)
    (vdwtype : Int → Int) (vdwparam : Int → ℚ) (krf2 : M128d) (iq0 iq1 iq2 : M128d)
    (vdwioffset0 : Int) (ix0 iy0 iz0 ix1 iy1 iz1 ix2 iy2 iz2 : M128d)
    (jidx : Int) (s : RFInner) (k : Int)
    (hA : k < DIM * nlist.jjnr jidx ∨ DIM * nlist.jjnr jidx + 2 < k) :
    (rf_F_block1 invsqrt nlist x charge vdwtype vdwparam krf2 iq0 iq1 iq2
        vdwioffset0 ix0 iy0 iz0 ix1 iy1 iz1 ix2 iy2 iz2 jidx s).f k = s.f k := by
  rw [rf_F_block1_decrement]
  exact decrement_1ptr_frame _ _ _ _ _ k hA

theorem ljsh_VF_inner_frame (nlist : t_nblist) (x shiftvec : Int → ℚ) (vdwtype : Int → Int)
    (vdwparam : Int → ℚ) (nvdwtype : Int) (rcutoff2 sh_vdw_invrcut6 : M128d)
    (iidx : Int) (o : OuterSt) (k : Int)
    (hj : ∀ jidx : Int, nlist.jindex iidx ≤ jidx → jidx < nlist.jindex (iidx + 1) →
      k < DIM * nlist.jjnr jidx ∨ DIM * nlist.jjnr jidx + 2 < k) :
    (ljsh_VF_inner nlist x shiftvec vdwtype vdwparam nvdwtype rcutoff2 sh_vdw_invrcut6 iidx o).f k =
        o.f k := by
  unfold ljsh_VF_inner
  exact innerLoop_invariant (fun t : LJShInner => t.f k = o.f k) _ _ _ _ _ _ (le_refl _)
    (fun j h1 h2 t ht => (ljsh_VF_block2_frame _ _ _ _ _ _ _ _ _ _ j t k
      (hj j h1 (by omega)) (hj (j + 1) (by omega) h2)).trans ht)
    (fun j h1 h2 t ht => (ljsh_VF_block1_frame _ _ _ _ _ _ _ _ _ _ j t k
      (hj j h1 h2)).trans ht) rfl

theorem ljsh_VF_outer_frame (nlist : t_nblist) (x shiftvec : Int → ℚ) (vdwtype : Int → Int)
    (vdwparam : Int → ℚ) (nvdwtype : Int) (rcutoff2 sh_vdw_invrcut6 : M128d)
    (iidx : Int) (o : OuterSt) (k : Int) :
    ((k < DIM * nlist.iinr iidx ∨ DIM * nlist.iinr iidx + 2 < k) →
      (∀ jidx : Int, nlist.jindex iidx ≤ jidx → jidx < nlist.jindex (iidx + 1) →
        k < DIM * nlist.jjnr jidx ∨ DIM * nlist.jjnr jidx + 2 < k) →
      (ljsh_VF_outer nlist x shiftvec vdwtype vdwparam nvdwtype rcutoff2 sh_vdw_invrcut6 iidx o).f k
          = o.f k)
    ∧ ((k < DIM * nlist.shift iidx ∨ DIM * nlist.shift iidx + 2 < k) →
      (ljsh_VF_outer nlist x shiftvec vdwtype vdwparam nvdwtype rcutoff2 sh_vdw_invrcut6 iidx
          o).fshift k = o.fshift k) := by
  obtain ⟨hfs, hf, _, _⟩ := ljsh_VF_outer_entry nlist x shiftvec vdwtype vdwparam nvdwtype rcutoff2
      sh_vdw_invrcut6 0 0 iidx o _ _ rfl rfl
  refine ⟨?_, ?_⟩
  · intro hi hj
    rw [hf, incr3_frame _ _ _ _ _ k hi]
    exact ljsh_VF_inner_frame _ _ _ _ _ _ _ _ iidx o k hj
  · intro hs
    rw [hfs, incr3_frame _ _ _ _ _ k hs]

theorem ljsh_VF_kernel_frame (nlist : t_nblist) (xx : Int → ℚ) (fr : t_forcerec)
    (mdatoms : t_mdatoms) (st : KState)
    (k : Int) :
    ((∀ iidx : Int, 0 ≤ iidx → iidx < nlist.nri →
        k < DIM * nlist.iinr iidx ∨ DIM * nlist.iinr iidx + 2 < k) →
      (∀ iidx : Int, 0 ≤ iidx → iidx < nlist.nri → ∀ jidx : Int,
        nlist.jindex iidx ≤ jidx → jidx < nlist.jindex (iidx + 1) →
        k < DIM * nlist.jjnr jidx ∨ DIM * nlist.jjnr jidx + 2 < k) →
      (nb_kernel_ElecNone_VdwLJSh_GeomP1P1_VF_avx_128_fma_double nlist xx fr mdatoms st).f k = st.f
          k)
    ∧ ((∀ iidx : Int, 0 ≤ iidx → iidx < nlist.nri →
        k < DIM * nlist.shift iidx ∨ DIM * nlist.shift iidx + 2 < k) →
      (nb_kernel_ElecNone_VdwLJSh_GeomP1P1_VF_avx_128_fma_double nlist xx fr mdatoms st).fshift k =
          st.fshift k) := by
  rw [ljsh_VF_kernel_eq_loop]
  refine ⟨?_, ?_⟩
  · intro hi hj
    exact forLoop_invariant (fun o : OuterSt => o.f k = st.f k) nlist.nri
      (ljsh_VF_outer nlist xx fr.shift_vec mdatoms.typeA fr.nbfp fr.ntype
          (_mm_mul_pd (_mm_set1_pd fr.ic.rvdw) (_mm_set1_pd fr.ic.rvdw))
          (_mm_set1_pd fr.ic.sh_invrc6))
      (nlist.nri - 0).toNat 0 (outer_init st) (le_refl _)
      (fun i h0 h1 t ht => ((ljsh_VF_outer_frame _ _ _ _ _ _ _ _ i t k).1 (hi i h0 h1)
        (hj i h0 h1)).trans ht) rfl
  · intro hs
    exact forLoop_invariant (fun o : OuterSt => o.fshift k = st.fshift k) nlist.nri
      (ljsh_VF_outer nlist xx fr.shift_vec mdatoms.typeA fr.nbfp fr.ntype
          (_mm_mul_pd (_mm_set1_pd fr.ic.rvdw) (_mm_set1_pd fr.ic.rvdw))
          (_mm_set1_pd fr.ic.sh_invrc6))
      (nlist.nri - 0).toNat 0 (outer_init st) (le_refl _)
      (fun i h0 h1 t ht => ((ljsh_VF_outer_frame _ _ _ _ _ _ _ _ i t k).2 (hs i h0 h1)).trans ht)
      rfl

theorem ljsh_F_inner_frame (nlist : t_nblist) (x shiftvec : Int → ℚ) (vdwtype : Int → Int)
    (vdwparam : Int → ℚ) (nvdwtype : Int) (rcutoff2 : M128d)
    (iidx : Int) (o : OuterSt) (k : Int)
    (hj : ∀ jidx : Int, nlist.jindex iidx ≤ jidx → jidx < nlist.jindex (iidx + 1) →
      k < DIM * nlist.jjnr jidx ∨ DIM * nlist.jjnr jidx + 2 < k) :
    (ljsh_F_inner nlist x shiftvec vdwtype vdwparam nvdwtype rcutoff2 iidx o).f k = o.f k := by
  unfold ljsh_F_inner
  exact innerLoop_invariant (fun t : LJShInner => t.f k = o.f k) _ _ _ _ _ _ (le_refl _)
    (fun j h1 h2 t ht => (ljsh_F_block2_frame _ _ _ _ _ _ _ _ _ j t k
      (hj j h1 (by omega)) (hj (j + 1) (by omega) h2)).trans ht)
    (fun j h1 h2 t ht => (ljsh_F_block1_frame _ _ _ _ _ _ _ _ _ j t k
      (hj j h1 h2)).trans ht) rfl

theorem ljsh_F_outer_frame (nlist : t_nblist) (x shiftvec : Int → ℚ) (vdwtype : Int → Int)
    (vdwparam : Int → ℚ) (nvdwtype : Int) (rcutoff2 : M128d)
    (iidx : Int) (o : OuterSt) (k : Int) :
    ((k < DIM * nlist.iinr iidx ∨ DIM * nlist.iinr iidx + 2 < k) →
      (∀ jidx : Int, nlist.jindex iidx ≤ jidx → jidx < nlist.jindex (iidx + 1) →
        k < DIM * nlist.jjnr jidx ∨ DIM * nlist.jjnr jidx + 2 < k) →
      (ljsh_F_outer nlist x shiftvec vdwtype vdwparam nvdwtype rcutoff2 iidx o).f k = o.f k)
    ∧ ((k < DIM * nlist.shift iidx ∨ DIM * nlist.shift iidx + 2 < k) →
      (ljsh_F_outer nlist x shiftvec vdwtype vdwparam nvdwtype rcutoff2 iidx o).fshift k = o.fshift
          k) := by
  obtain ⟨hfs, hf, _, _⟩ := ljsh_F_outer_entry nlist x shiftvec vdwtype vdwparam nvdwtype rcutoff2 0
      0 iidx o _ _ rfl rfl
  refine ⟨?_, ?_⟩
  · intro hi hj
    rw [hf, incr3_frame _ _ _ _ _ k hi]
    exact ljsh_F_inner_frame _ _ _ _ _ _ _ iidx o k hj
  · intro hs
    rw [hfs, incr3_frame _ _ _ _ _ k hs]

theorem ljsh_F_kernel_frame (nlist : t_nblist) (xx : Int → ℚ) (fr : t_forcerec)
    (mdatoms : t_mdatoms) (st : KState)
    (k : Int) :
    ((∀ iidx : Int, 0 ≤ iidx → iidx < nlist.nri →
        k < DIM * nlist.iinr iidx ∨ DIM * nlist.iinr iidx + 2 < k) →
      (∀ iidx : Int, 0 ≤ iidx → iidx < nlist.nri → ∀ jidx : Int,
        nlist.jindex iidx ≤ jidx → jidx < nlist.jindex (iidx + 1) →
        k < DIM * nlist.jjnr jidx ∨ DIM * nlist.jjnr jidx + 2 < k) →
      (nb_kernel_ElecNone_VdwLJSh_GeomP1P1_F_avx_128_fma_double nlist xx fr mdatoms st).f k = st.f
          k)
    ∧ ((∀ iidx : Int, 0 ≤ iidx → iidx < nlist.nri →
        k < DIM * nlist.shift iidx ∨ DIM * nlist.shift iidx + 2 < k) →
      (nb_kernel_ElecNone_VdwLJSh_GeomP1P1_F_avx_128_fma_double nlist xx fr mdatoms st).fshift k =
          st.fshift k) := by
  rw [ljsh_F_kernel_eq_loop]
  refine ⟨?_, ?_⟩
  · intro hi hj
    exact forLoop_invariant (fun o : OuterSt => o.f k = st.f k) nlist.nri
      (ljsh_F_outer nlist xx fr.shift_vec mdatoms.typeA fr.nbfp fr.ntype
          (_mm_mul_pd (_mm_set1_pd fr.ic.rvdw) (_mm_set1_pd fr.ic.rvdw)))
      (nlist.nri - 0).toNat 0 (outer_init st) (le_refl _)
      (fun i h0 h1 t ht => ((ljsh_F_outer_frame _ _ _ _ _ _ _ i t k).1 (hi i h0 h1)
        (hj i h0 h1)).trans ht) rfl
  · intro hs
    exact forLoop_invariant (fun o : OuterSt => o.fshift k = st.fshift k) nlist.nri
      (ljsh_F_outer nlist xx fr.shift_vec mdatoms.typeA fr.nbfp fr.ntype
          (_mm_mul_pd (_mm_set1_pd fr.ic.rvdw) (_mm_set1_pd fr.ic.rvdw)))
      (nlist.nri - 0).toNat 0 (outer_init st) (le_refl _)
      (fun i h0 h1 t ht => ((ljsh_F_outer_frame _ _ _ _ _ _ _ i t k).2 (hs i h0 h1)).trans ht)
      rfl

theorem rf_VF_inner_frame (invsqrt : ℚ → ℚ) (nlist : t_nblist) (x shiftvec charge : Int → ℚ)
    (vdwtype : Int → Int) (vdwparam : Int → ℚ) (krf krf2 crf iq0 iq1 iq2 : M128d)
    (vdwioffset0 : Int)
    (iidx : Int) (o : OuterSt) (k : Int)
    (hj : ∀ jidx : Int, nlist.jindex iidx ≤ jidx → jidx < nlist.jindex (iidx + 1) →
      k < DIM * nlist.jjnr jidx ∨ DIM * nlist.jjnr jidx + 2 < k) :
    (rf_VF_inner invsqrt nlist x shiftvec charge vdwtype vdwparam krf krf2 crf iq0 iq1 iq2
        vdwioffset0 iidx o).f k = o.f k := by
  unfold rf_VF_inner
  exact innerLoop_invariant (fun t : RFInner => t.f k = o.f k) _ _ _ _ _ _ (le_refl _)
    (fun j h1 h2 t ht => (rf_VF_block2_frame _ _ _ _ _ _ _ _ _ _ _ _ _ _ _ _ _ _ _ _ _ _ j t k
      (hj j h1 (by omega)) (hj (j + 1) (by omega) h2)).trans ht)
    (fun j h1 h2 t ht => (rf_VF_block1_frame _ _ _ _ _ _ _ _ _ _ _ _ _ _ _ _ _ _ _ _ _ _ j t k
      (hj j h1 h2)).trans ht) rfl

theorem rf_VF_outer_frame (invsqrt : ℚ → ℚ) (nlist : t_nblist) (x shiftvec charge : Int → ℚ)
    (vdwtype : Int → Int) (vdwparam : Int → ℚ) (krf krf2 crf iq0 iq1 iq2 : M128d)
    (vdwioffset0 : Int)
    (iidx : Int) (o : OuterSt) (k : Int) :
    ((k < DIM * nlist.iinr iidx ∨ DIM * nlist.iinr iidx + 8 < k) →
      (∀ jidx : Int, nlist.jindex iidx ≤ jidx → jidx < nlist.jindex (iidx + 1) →
        k < DIM * nlist.jjnr jidx ∨ DIM * nlist.jjnr jidx + 2 < k) →
      (rf_VF_outer invsqrt nlist x shiftvec charge vdwtype vdwparam krf krf2 crf iq0 iq1 iq2
          vdwioffset0 iidx o).f k = o.f k)
    ∧ ((k < DIM * nlist.shift iidx ∨ DIM * nlist.shift iidx + 2 < k) →
      (rf_VF_outer invsqrt nlist x shiftvec charge vdwtype vdwparam krf krf2 crf iq0 iq1 iq2
          vdwioffset0 iidx o).fshift k = o.fshift k) := by
  obtain ⟨hfs, hf, _, _⟩ := rf_VF_outer_entry invsqrt nlist x shiftvec charge vdwtype vdwparam krf
      krf2 crf iq0 iq1 iq2 vdwioffset0 0 0 iidx o _ _ rfl rfl
  refine ⟨?_, ?_⟩
  · intro hi hj
    rw [hf, incr3_frame _ _ _ _ _ k (by omega), incr3_frame _ _ _ _ _ k (by omega),
      incr3_frame _ _ _ _ _ k (by omega)]
    exact rf_VF_inner_frame _ _ _ _ _ _ _ _ _ _ _ _ _ _ iidx o k hj
  · intro hs
    rw [hfs, incr3_frame _ _ _ _ _ k hs]

theorem rf_VF_kernel_frame (invsqrt : ℚ → ℚ) (nlist : t_nblist) (xx : Int → ℚ) (fr : t_forcerec)
    (mdatoms : t_mdatoms) (st : KState)
    (k : Int) :
    ((∀ iidx : Int, 0 ≤ iidx → iidx < nlist.nri →
        k < DIM * nlist.iinr iidx ∨ DIM * nlist.iinr iidx + 8 < k) →
      (∀ iidx : Int, 0 ≤ iidx → iidx < nlist.nri → ∀ jidx : Int,
        nlist.jindex iidx ≤ jidx → jidx < nlist.jindex (iidx + 1) →
        k < DIM * nlist.jjnr jidx ∨ DIM * nlist.jjnr jidx + 2 < k) →
      (nb_kernel_ElecRF_VdwLJ_GeomW3P1_VF_sse2_double invsqrt nlist xx fr mdatoms st).f k = st.f k)
    ∧ ((∀ iidx : Int, 0 ≤ iidx → iidx < nlist.nri →
        k < DIM * nlist.shift iidx ∨ DIM * nlist.shift iidx + 2 < k) →
      (nb_kernel_ElecRF_VdwLJ_GeomW3P1_VF_sse2_double invsqrt nlist xx fr mdatoms st).fshift k =
          st.fshift k) := by
  rw [rf_VF_kernel_eq_loop]
  refine ⟨?_, ?_⟩
  · intro hi hj
    exact forLoop_invariant (fun o : OuterSt => o.f k = st.f k) nlist.nri
      (rf_VF_outer invsqrt nlist xx fr.shift_vec mdatoms.chargeA mdatoms.typeA fr.nbfp
          (_mm_set1_pd fr.ic.k_rf) (_mm_set1_pd (fr.ic.k_rf * 2)) (_mm_set1_pd fr.ic.c_rf)
          (_mm_mul_pd (_mm_set1_pd fr.ic.epsfac) (_mm_set1_pd (mdatoms.chargeA (nlist.iinr 0 + 0))))
          (_mm_mul_pd (_mm_set1_pd fr.ic.epsfac) (_mm_set1_pd (mdatoms.chargeA (nlist.iinr 0 + 1))))
          (_mm_mul_pd (_mm_set1_pd fr.ic.epsfac) (_mm_set1_pd (mdatoms.chargeA (nlist.iinr 0 + 2))))
          (2 * fr.ntype * mdatoms.typeA (nlist.iinr 0 + 0)))
      (nlist.nri - 0).toNat 0 (outer_init st) (le_refl _)
      (fun i h0 h1 t ht => ((rf_VF_outer_frame _ _ _ _ _ _ _ _ _ _ _ _ _ _ i t k).1 (hi i h0 h1)
        (hj i h0 h1)).trans ht) rfl
  · intro hs
    exact forLoop_invariant (fun o : OuterSt => o.fshift k = st.fshift k) nlist.nri
      (rf_VF_outer invsqrt nlist xx fr.shift_vec mdatoms.chargeA mdatoms.typeA fr.nbfp
          (_mm_set1_pd fr.ic.k_rf) (_mm_set1_pd (fr.ic.k_rf * 2)) (_mm_set1_pd fr.ic.c_rf)
          (_mm_mul_pd (_mm_set1_pd fr.ic.epsfac) (_mm_set1_pd (mdatoms.chargeA (nlist.iinr 0 + 0))))
          (_mm_mul_pd (_mm_set1_pd fr.ic.epsfac) (_mm_set1_pd (mdatoms.chargeA (nlist.iinr 0 + 1))))
          (_mm_mul_pd (_mm_set1_pd fr.ic.epsfac) (_mm_set1_pd (mdatoms.chargeA (nlist.iinr 0 + 2))))
          (2 * fr.ntype * mdatoms.typeA (nlist.iinr 0 + 0)))
      (nlist.nri - 0).toNat 0 (outer_init st) (le_refl _)
      (fun i h0 h1 t ht => ((rf_VF_outer_frame _ _ _ _ _ _ _ _ _ _ _ _ _ _ i t k).2 (hs i h0
          h1)).trans ht)
      rfl

theorem rf_F_inner_frame (invsqrt : ℚ → ℚ) (nlist : t_nblist) (x shiftvec charge : Int → ℚ)
    (vdwtype : Int → Int) (vdwparam : Int → ℚ) (krf2 iq0 iq1 iq2 : M128d)
    (vdwioffset0 : Int)
    (iidx : Int) (o : OuterSt) (k : Int)
    (hj : ∀ jidx : Int, nlist.jindex iidx ≤ jidx → jidx < nlist.jindex (iidx + 1) →
      k < DIM * nlist.jjnr jidx ∨ DIM * nlist.jjnr jidx + 2 < k) :
    (rf_F_inner invsqrt nlist x shiftvec charge vdwtype vdwparam krf2 iq0 iq1 iq2 vdwioffset0 iidx
        o).f k = o.f k := by
  unfold rf_F_inner
  exact innerLoop_invariant (fun t : RFInner => t.f k = o.f k) _ _ _ _ _ _ (le_refl _)
    (fun j h1 h2 t ht => (rf_F_block2_frame _ _ _ _ _ _ _ _ _ _ _ _ _ _ _ _ _ _ _ _ j t k
      (hj j h1 (by omega)) (hj (j + 1) (by omega) h2)).trans ht)
    (fun j h1 h2 t ht => (rf_F_block1_frame _ _ _ _ _ _ _ _ _ _ _ _ _ _ _ _ _ _ _ _ j t k
      (hj j h1 h2)).trans ht) rfl

theorem rf_F_outer_frame (invsqrt : ℚ → ℚ) (nlist : t_nblist) (x shiftvec charge : Int → ℚ)
    (vdwtype : Int → Int) (vdwparam : Int → ℚ) (krf2 iq0 iq1 iq2 : M128d)
    (vdwioffset0 : Int)
    (iidx : Int) (o : OuterSt) (k : Int) :
    ((k < DIM * nlist.iinr iidx ∨ DIM * nlist.iinr iidx + 8 < k) →
      (∀ jidx : Int, nlist.jindex iidx ≤ jidx → jidx < nlist.jindex (iidx + 1) →
        k < DIM * nlist.jjnr jidx ∨ DIM * nlist.jjnr jidx + 2 < k) →
      (rf_F_outer invsqrt nlist x shiftvec charge vdwtype vdwparam krf2 iq0 iq1 iq2 vdwioffset0 iidx
          o).f k = o.f k)
    ∧ ((k < DIM * nlist.shift iidx ∨ DIM * nlist.shift iidx + 2 < k) →
      (rf_F_outer invsqrt nlist x shiftvec charge vdwtype vdwparam krf2 iq0 iq1 iq2 vdwioffset0 iidx
          o).fshift k = o.fshift k) := by
  obtain ⟨hfs, hf, _, _⟩ := rf_F_outer_entry invsqrt nlist x shiftvec charge vdwtype vdwparam krf2
      iq0 iq1 iq2 vdwioffset0 0 0 iidx o _ _ rfl rfl
  refine ⟨?_, ?_⟩
  · intro hi hj
    rw [hf, incr3_frame _ _ _ _ _ k (by omega), incr3_frame _ _ _ _ _ k (by omega),
      incr3_frame _ _ _ _ _ k (by omega)]
    exact rf_F_inner_frame _ _ _ _ _ _ _ _ _ _ _ _ iidx o k hj
  · intro hs
    rw [hfs, incr3_frame _ _ _ _ _ k hs]

theorem rf_F_kernel_frame (invsqrt : ℚ → ℚ) (nlist : t_nblist) (xx : Int → ℚ) (fr : t_forcerec)
    (mdatoms : t_mdatoms) (st : KState)
    (k : Int) :
    ((∀ iidx : Int, 0 ≤ iidx → iidx < nlist.nri →
        k < DIM * nlist.iinr iidx ∨ DIM * nlist.iinr iidx + 8 < k) →
      (∀ iidx : Int, 0 ≤ iidx → iidx < nlist.nri → ∀ jidx : Int,
        nlist.jindex iidx ≤ jidx → jidx < nlist.jindex (iidx + 1) →
        k < DIM * nlist.jjnr jidx ∨ DIM * nlist.jjnr jidx + 2 < k) →
      (nb_kernel_ElecRF_VdwLJ_GeomW3P1_F_sse2_double invsqrt nlist xx fr mdatoms st).f k = st.f k)
    ∧ ((∀ iidx : Int, 0 ≤ iidx → iidx < nlist.nri →
        k < DIM * nlist.shift iidx ∨ DIM * nlist.shift iidx + 2 < k) →
      (nb_kernel_ElecRF_VdwLJ_GeomW3P1_F_sse2_double invsqrt nlist xx fr mdatoms st).fshift k =
          st.fshift k) := by
  rw [rf_F_kernel_eq_loop]
  refine ⟨?_, ?_⟩
  · intro hi hj
    exact forLoop_invariant (fun o : OuterSt => o.f k = st.f k) nlist.nri
      (rf_F_outer invsqrt nlist xx fr.shift_vec mdatoms.chargeA mdatoms.typeA fr.nbfp
          (_mm_set1_pd (fr.ic.k_rf * 2))
          (_mm_mul_pd (_mm_set1_pd fr.ic.epsfac) (_mm_set1_pd (mdatoms.chargeA (nlist.iinr 0 + 0))))
          (_mm_mul_pd (_mm_set1_pd fr.ic.epsfac) (_mm_set1_pd (mdatoms.chargeA (nlist.iinr 0 + 1))))
          (_mm_mul_pd (_mm_set1_pd fr.ic.epsfac) (_mm_set1_pd (mdatoms.chargeA (nlist.iinr 0 + 2))))
          (2 * fr.ntype * mdatoms.typeA (nlist.iinr 0 + 0)))
      (nlist.nri - 0).toNat 0 (outer_init st) (le_refl _)
      (fun i h0 h1 t ht => ((rf_F_outer_frame _ _ _ _ _ _ _ _ _ _ _ _ i t k).1 (hi i h0 h1)
        (hj i h0 h1)).trans ht) rfl
  · intro hs
    exact forLoop_invariant (fun o : OuterSt => o.fshift k = st.fshift k) nlist.nri
      (rf_F_outer invsqrt nlist xx fr.shift_vec mdatoms.chargeA mdatoms.typeA fr.nbfp
          (_mm_set1_pd (fr.ic.k_rf * 2))
          (_mm_mul_pd (_mm_set1_pd fr.ic.epsfac) (_mm_set1_pd (mdatoms.chargeA (nlist.iinr 0 + 0))))
          (_mm_mul_pd (_mm_set1_pd fr.ic.epsfac) (_mm_set1_pd (mdatoms.chargeA (nlist.iinr 0 + 1))))
          (_mm_mul_pd (_mm_set1_pd fr.ic.epsfac) (_mm_set1_pd (mdatoms.chargeA (nlist.iinr 0 + 2))))
          (2 * fr.ntype * mdatoms.typeA (nlist.iinr 0 + 0)))
      (nlist.nri - 0).toNat 0 (outer_init st) (le_refl _)
      (fun i h0 h1 t ht => ((rf_F_outer_frame _ _ _ _ _ _ _ _ _ _ _ _ i t k).2 (hs i h0 h1)).trans
          ht)
      rfl

/-- Two partner loops whose blocks preserve a relation between their states preserve it. -/
theorem innerLoop_rel {σ τ : Type} (R : σ → τ → Prop) (b2 b1 : Int → σ → σ)
    (c2 c1 : Int → τ → τ) (e : Int)
    (h2 : ∀ k s t, R s t → R (b2 k s) (c2 k t)) (h1 : ∀ k s t, R s t → R (b1 k s) (c1 k t))
    (m : Nat) :
    ∀ (j : Int) (s : σ) (t : τ), (e - j).toNat ≤ m → R s t →
      R (innerLoop b2 b1 j e s) (innerLoop c2 c1 j e t) := by
  induction m using Nat.strong_induction_on with
  | _ m ih =>
    intro j s t hm hR
    by_cases hlt : j < e - 1
    · rw [innerLoop_step _ _ _ _ _ hlt, innerLoop_step _ _ _ _ _ hlt]
      exact ih (m - 2) (by omega) (j + 2) _ _ (by omega) (h2 j s t hR)
    · by_cases hl : j < e
      · rw [innerLoop_last _ _ _ _ _ (by omega), innerLoop_last _ _ _ _ _ (by omega)]
        exact h1 j s t hR
      · rw [innerLoop_done _ _ _ _ _ (by omega), innerLoop_done _ _ _ _ _ (by omega)]
        exact hR

/-- Two counting loops whose bodies preserve a relation between their states preserve it. -/
theorem forLoop_rel {σ τ : Type} (R : σ → τ → Prop) (b : Int → σ → σ) (c : Int → τ → τ)
    (n : Int) (h : ∀ k s t, R s t → R (b k s) (c k t)) (m : Nat) :
    ∀ (i : Int) (s : σ) (t : τ), (n - i).toNat ≤ m → R s t →
      R (forLoop n b i s) (forLoop n c i t) := by
  induction m with
  | zero =>
    intro i s t hm hR
    rw [forLoop_done _ _ _ _ (by omega), forLoop_done _ _ _ _ (by omega)]
    exact hR
  | succ m ih =>
    intro i s t hm hR
    by_cases hlt : i < n
    · rw [forLoop_step _ _ _ _ hlt, forLoop_step _ _ _ _ hlt]
      exact ih (i + 1) _ _ (by omega) (h i s t hR)
    · rw [forLoop_done _ _ _ _ (by omega), forLoop_done _ _ _ _ (by omega)]
      exact hR

/-- The factored force scalar of the F kernels equals the force scalar of the VF kernels:
`(c12*rinvsix^2 - c6*rinvsix)*rinvsq = (c12*rinvsix - c6)*(rinvsix*rinvsq)`, per lane. -/
theorem fvdw_VF_eq_F (c6 c12 rinvsix rinvsq : M128d) :
    _mm_mul_pd (_mm_sub_pd (_mm_mul_pd c12 (_mm_mul_pd rinvsix rinvsix))
        (_mm_mul_pd c6 rinvsix)) rinvsq
      = _mm_mul_pd (_mm_sub_pd (_mm_mul_pd c12 rinvsix) c6) (_mm_mul_pd rinvsix rinvsq) := by
  simp only [_mm_mul_pd, _mm_sub_pd, M128d_eta]
  constructor <;> ring

theorem ljsh_fvdw_VF_eq_F (c6 c12 rinvsq sh : M128d) :
    (ljsh_VF_lennard_jones c6 c12 rinvsq sh).fvdw = ljsh_F_lennard_jones c6 c12 rinvsq := by
  simp only [ljsh_VF_lennard_jones, ljsh_F_lennard_jones, _mm_mul_pd, _mm_sub_pd, _mm_msub_pd,
    M128d_eta]
  constructor <;> ring

theorem ljsh_block2_same_forces (nlist : t_nblist) (x : Int → ℚ) (vdwtype : Int → Int)
    (vdwparam : Int → ℚ) (rcutoff2 sh_vdw_invrcut6 : M128d) (ix0 iy0 iz0 : M128d)
    (vdwioffset0 : Int) (jidx : Int) (s t : LJShInner) (h : LJShSameForces s t) :
    LJShSameForces
      (ljsh_VF_block2 nlist x vdwtype vdwparam rcutoff2 sh_vdw_invrcut6 ix0 iy0 iz0 vdwioffset0
        jidx s)
      (ljsh_F_block2 nlist x vdwtype vdwparam rcutoff2 ix0 iy0 iz0 vdwioffset0 jidx t) := by
  obtain ⟨hf, hx, hy, hz⟩ := h
  unfold ljsh_VF_block2 ljsh_F_block2
  simp only []
  split_ifs
  · simp only [LJShSameForces, hf, hx, hy, hz, ljsh_fvdw_VF_eq_F, and_self]
  · exact ⟨hf, hx, hy, hz⟩

theorem ljsh_block1_same_forces (nlist : t_nblist) (x : Int → ℚ) (vdwtype : Int → Int)
    (vdwparam : Int → ℚ) (rcutoff2 sh_vdw_invrcut6 : M128d) (ix0 iy0 iz0 : M128d)
    (vdwioffset0 : Int) (jidx : Int) (s t : LJShInner) (h : LJShSameForces s t) :
    LJShSameForces
      (ljsh_VF_block1 nlist x vdwtype vdwparam rcutoff2 sh_vdw_invrcut6 ix0 iy0 iz0 vdwioffset0
        jidx s)
      (ljsh_F_block1 nlist x vdwtype vdwparam rcutoff2 ix0 iy0 iz0 vdwioffset0 jidx t) := by
  obtain ⟨hf, hx, hy, hz⟩ := h
  unfold ljsh_VF_block1 ljsh_F_block1
  simp only []
  split_ifs
  · simp only [LJShSameForces, hf, hx, hy, hz, ljsh_fvdw_VF_eq_F, and_self]
  · exact ⟨hf, hx, hy, hz⟩

theorem rf_block2_same_forces (invsqrt : ℚ → ℚ) (nlist : t_nblist) (x : Int → ℚ)
    (charge : Int → ℚ) (vdwtype : Int → Int) (vdwparam : Int → ℚ) (krf krf2 crf : M128d)
    (iq0 iq1 iq2 : M128d) (vdwioffset0 : Int) (ix0 iy0 iz0 ix1 iy1 iz1 ix2 iy2 iz2 : M128d)
    (jidx : Int) (s t : RFInner) (h : RFSameForces s t) :
    RFSameForces
      (rf_VF_block2 invsqrt nlist x charge vdwtype vdwparam krf krf2 crf iq0 iq1 iq2
        vdwioffset0 ix0 iy0 iz0 ix1 iy1 iz1 ix2 iy2 iz2 jidx s)
      (rf_F_block2 invsqrt nlist x charge vdwtype vdwparam krf2 iq0 iq1 iq2
        vdwioffset0 ix0 iy0 iz0 ix1 iy1 iz1 ix2 iy2 iz2 jidx t) := by
  obtain ⟨hf, h0x, h0y, h0z, h1x, h1y, h1z, h2x, h2y, h2z⟩ := h
  unfold rf_VF_block2 rf_F_block2
  simp only [RFSameForces, hf, h0x, h0y, h0z, h1x, h1y, h1z, h2x, h2y, h2z, fvdw_VF_eq_F,
    and_self]

theorem rf_block1_same_forces (invsqrt : ℚ → ℚ) (nlist : t_nblist) (x : Int → ℚ)
    (charge : Int → ℚ) (vdwtype : Int → Int) (vdwparam : Int → ℚ) (krf krf2 crf : M128d)
    (iq0 iq1 iq2 : M128d) (vdwioffset0 : Int) (ix0 iy0 iz0 ix1 iy1 iz1 ix2 iy2 iz2 : M128d)
    (jidx : Int) (s t : RFInner) (h : RFSameForces s t) :
    RFSameForces
      (rf_VF_block1 invsqrt nlist x charge vdwtype vdwparam krf krf2 crf iq0 iq1 iq2
        vdwioffset0 ix0 iy0 iz0 ix1 iy1 iz1 ix2 iy2 iz2 jidx s)
      (rf_F_block1 invsqrt nlist x charge vdwtype vdwparam krf2 iq0 iq1 iq2
        vdwioffset0 ix0 iy0 iz0 ix1 iy1 iz1 ix2 iy2 iz2 jidx t) := by
  obtain ⟨hf, h0x, h0y, h0z, h1x, h1y, h1z, h2x, h2y, h2z⟩ := h
  unfold rf_VF_block1 rf_F_block1
  simp only [RFSameForces, hf, h0x, h0y, h0z, h1x, h1y, h1z, h2x, h2y, h2z, fvdw_VF_eq_F,
    and_self]

theorem ljsh_inner_same_forces (nlist : t_nblist) (x shiftvec : Int → ℚ) (vdwtype : Int → Int)
    (vdwparam : Int → ℚ) (nvdwtype : Int) (rcutoff2 sh_vdw_invrcut6 : M128d)
    (iidx : Int) (o p : OuterSt) (h : o.f = p.f) :
    LJShSameForces (ljsh_VF_inner nlist x shiftvec vdwtype vdwparam nvdwtype rcutoff2
        sh_vdw_invrcut6 iidx o)
      (ljsh_F_inner nlist x shiftvec vdwtype vdwparam nvdwtype rcutoff2 iidx p) := by
  unfold ljsh_VF_inner ljsh_F_inner
  exact innerLoop_rel LJShSameForces _ _ _ _ _
    (fun k s t hR => ljsh_block2_same_forces _ _ _ _ _ _ _ _ _ _ k s t hR)
    (fun k s t hR => ljsh_block1_same_forces _ _ _ _ _ _ _ _ _ _ k s t hR)
    _ _ _ _ (le_refl _) ⟨h, rfl, rfl, rfl⟩

theorem ljsh_outer_same_forces (nlist : t_nblist) (x shiftvec : Int → ℚ) (vdwtype : Int → Int)
    (vdwparam : Int → ℚ) (nvdwtype : Int) (rcutoff2 sh_vdw_invrcut6 : M128d)
    (iidx : Int) (o p : OuterSt) (h : OuterSameForces o p) :
    OuterSameForces (ljsh_VF_outer nlist x shiftvec vdwtype vdwparam nvdwtype rcutoff2
        sh_vdw_invrcut6 iidx o)
      (ljsh_F_outer nlist x shiftvec vdwtype vdwparam nvdwtype rcutoff2 iidx p) := by
  obtain ⟨hVs, hVf, _, _⟩ := ljsh_VF_outer_entry nlist x shiftvec vdwtype vdwparam nvdwtype rcutoff2
      sh_vdw_invrcut6 0 0 iidx o _ _ rfl rfl
  obtain ⟨hFs, hFf, _, _⟩ := ljsh_F_outer_entry nlist x shiftvec vdwtype vdwparam nvdwtype rcutoff2
      0 0 iidx p _ _ rfl rfl
  obtain ⟨hf, hx, hy, hz⟩ := ljsh_inner_same_forces nlist x shiftvec vdwtype vdwparam nvdwtype
      rcutoff2 sh_vdw_invrcut6 iidx o p h.1
  refine ⟨?_, ?_⟩
  · rw [hVf, hFf, hf, hx, hy, hz]
  · rw [hVs, hFs, h.2, hx, hy, hz]

theorem ljsh_kernel_same_forces (nlist : t_nblist) (xx : Int → ℚ) (fr : t_forcerec)
    (mdatoms : t_mdatoms) (st : KState) :
    (nb_kernel_ElecNone_VdwLJSh_GeomP1P1_VF_avx_128_fma_double nlist xx fr mdatoms st).f
        = (nb_kernel_ElecNone_VdwLJSh_GeomP1P1_F_avx_128_fma_double nlist xx fr mdatoms st).f
    ∧ (nb_kernel_ElecNone_VdwLJSh_GeomP1P1_VF_avx_128_fma_double nlist xx fr mdatoms st).fshift
        = (nb_kernel_ElecNone_VdwLJSh_GeomP1P1_F_avx_128_fma_double nlist xx fr mdatoms st).fshift
            := by
  rw [ljsh_VF_kernel_eq_loop, ljsh_F_kernel_eq_loop]
  exact forLoop_rel OuterSameForces
    (ljsh_VF_outer nlist xx fr.shift_vec mdatoms.typeA fr.nbfp fr.ntype
        (_mm_mul_pd (_mm_set1_pd fr.ic.rvdw) (_mm_set1_pd fr.ic.rvdw))
        (_mm_set1_pd fr.ic.sh_invrc6))
    (ljsh_F_outer nlist xx fr.shift_vec mdatoms.typeA fr.nbfp fr.ntype
        (_mm_mul_pd (_mm_set1_pd fr.ic.rvdw) (_mm_set1_pd fr.ic.rvdw)))
    nlist.nri (fun k s t hR => ljsh_outer_same_forces _ _ _ _ _ _ _ _ k s t hR)
    (nlist.nri - 0).toNat 0 (outer_init st) (outer_init st) (le_refl _) ⟨rfl, rfl⟩

theorem rf_inner_same_forces (invsqrt : ℚ → ℚ) (nlist : t_nblist) (x shiftvec charge : Int → ℚ)
    (vdwtype : Int → Int) (vdwparam : Int → ℚ) (krf krf2 crf iq0 iq1 iq2 : M128d)
    (vdwioffset0 : Int)
    (iidx : Int) (o p : OuterSt) (h : o.f = p.f) :
    RFSameForces (rf_VF_inner invsqrt nlist x shiftvec charge vdwtype vdwparam krf krf2 crf iq0 iq1
        iq2 vdwioffset0 iidx o)
      (rf_F_inner invsqrt nlist x shiftvec charge vdwtype vdwparam krf2 iq0 iq1 iq2 vdwioffset0 iidx
          p) := by
  unfold rf_VF_inner rf_F_inner
  exact innerLoop_rel RFSameForces _ _ _ _ _
    (fun k s t hR => rf_block2_same_forces _ _ _ _ _ _ _ _ _ _ _ _ _ _ _ _ _ _ _ _ _ _ k s t hR)
    (fun k s t hR => rf_block1_same_forces _ _ _ _ _ _ _ _ _ _ _ _ _ _ _ _ _ _ _ _ _ _ k s t hR)
    _ _ _ _ (le_refl _) ⟨h, rfl, rfl, rfl, rfl, rfl, rfl, rfl, rfl, rfl⟩

theorem rf_outer_same_forces (invsqrt : ℚ → ℚ) (nlist : t_nblist) (x shiftvec charge : Int → ℚ)
    (vdwtype : Int → Int) (vdwparam : Int → ℚ) (krf krf2 crf iq0 iq1 iq2 : M128d)
    (vdwioffset0 : Int)
    (iidx : Int) (o p : OuterSt) (h : OuterSameForces o p) :
    OuterSameForces (rf_VF_outer invsqrt nlist x shiftvec charge vdwtype vdwparam krf krf2 crf iq0
        iq1 iq2 vdwioffset0 iidx o)
      (rf_F_outer invsqrt nlist x shiftvec charge vdwtype vdwparam krf2 iq0 iq1 iq2 vdwioffset0 iidx
          p) := by
  obtain ⟨hVs, hVf, _, _⟩ := rf_VF_outer_entry invsqrt nlist x shiftvec charge vdwtype vdwparam krf
      krf2 crf iq0 iq1 iq2 vdwioffset0 0 0 iidx o _ _ rfl rfl
  obtain ⟨hFs, hFf, _, _⟩ := rf_F_outer_entry invsqrt nlist x shiftvec charge vdwtype vdwparam krf2
      iq0 iq1 iq2 vdwioffset0 0 0 iidx p _ _ rfl rfl
  obtain ⟨hf, h0x, h0y, h0z, h1x, h1y, h1z, h2x, h2y, h2z⟩ := rf_inner_same_forces invsqrt nlist x
      shiftvec charge vdwtype vdwparam krf krf2 crf iq0 iq1 iq2 vdwioffset0 iidx o p h.1
  refine ⟨?_, ?_⟩
  · rw [hVf, hFf, hf, h0x, h0y, h0z, h1x, h1y, h1z, h2x, h2y, h2z]
  · rw [hVs, hFs, h.2, h0x, h0y, h0z, h1x, h1y, h1z, h2x, h2y, h2z]

theorem rf_kernel_same_forces (invsqrt : ℚ → ℚ) (nlist : t_nblist) (xx : Int → ℚ) (fr : t_forcerec)
    (mdatoms : t_mdatoms) (st : KState) :
    (nb_kernel_ElecRF_VdwLJ_GeomW3P1_VF_sse2_double invsqrt nlist xx fr mdatoms st).f
        = (nb_kernel_ElecRF_VdwLJ_GeomW3P1_F_sse2_double invsqrt nlist xx fr mdatoms st).f
    ∧ (nb_kernel_ElecRF_VdwLJ_GeomW3P1_VF_sse2_double invsqrt nlist xx fr mdatoms st).fshift
        = (nb_kernel_ElecRF_VdwLJ_GeomW3P1_F_sse2_double invsqrt nlist xx fr mdatoms st).fshift :=
            by
  rw [rf_VF_kernel_eq_loop, rf_F_kernel_eq_loop]
  exact forLoop_rel OuterSameForces
    (rf_VF_outer invsqrt nlist xx fr.shift_vec mdatoms.chargeA mdatoms.typeA fr.nbfp
        (_mm_set1_pd fr.ic.k_rf) (_mm_set1_pd (fr.ic.k_rf * 2)) (_mm_set1_pd fr.ic.c_rf)
        (_mm_mul_pd (_mm_set1_pd fr.ic.epsfac) (_mm_set1_pd (mdatoms.chargeA (nlist.iinr 0 + 0))))
        (_mm_mul_pd (_mm_set1_pd fr.ic.epsfac) (_mm_set1_pd (mdatoms.chargeA (nlist.iinr 0 + 1))))
        (_mm_mul_pd (_mm_set1_pd fr.ic.epsfac) (_mm_set1_pd (mdatoms.chargeA (nlist.iinr 0 + 2))))
        (2 * fr.ntype * mdatoms.typeA (nlist.iinr 0 + 0)))
    (rf_F_outer invsqrt nlist xx fr.shift_vec mdatoms.chargeA mdatoms.typeA fr.nbfp
        (_mm_set1_pd (fr.ic.k_rf * 2))
        (_mm_mul_pd (_mm_set1_pd fr.ic.epsfac) (_mm_set1_pd (mdatoms.chargeA (nlist.iinr 0 + 0))))
        (_mm_mul_pd (_mm_set1_pd fr.ic.epsfac) (_mm_set1_pd (mdatoms.chargeA (nlist.iinr 0 + 1))))
        (_mm_mul_pd (_mm_set1_pd fr.ic.epsfac) (_mm_set1_pd (mdatoms.chargeA (nlist.iinr 0 + 2))))
        (2 * fr.ntype * mdatoms.typeA (nlist.iinr 0 + 0)))
    nlist.nri (fun k s t hR => rf_outer_same_forces _ _ _ _ _ _ _ _ _ _ _ _ _ _ k s t hR)
    (nlist.nri - 0).toNat 0 (outer_init st) (outer_init st) (le_refl _) ⟨rfl, rfl⟩

theorem AllInBounds_append (sz : ArraySizes) (l1 l2 : List Access) :
    AllInBounds sz (l1 ++ l2) ↔ AllInBounds sz l1 ∧ AllInBounds sz l2 := by
  unfold AllInBounds
  exact List.forall_mem_append

theorem AllInBounds_cons (sz : ArraySizes) (a : Access) (l : List Access) :
    AllInBounds sz (a :: l) ↔ InBounds sz a ∧ AllInBounds sz l := by
  unfold AllInBounds
  exact List.forall_mem_cons

theorem AllInBounds_nil (sz : ArraySizes) : AllInBounds sz [] := by
  intro a ha
  cases ha

theorem rvec_in_bounds (sz : ArraySizes) (a : Arr) (p : Int) (h0 : 0 ≤ p)
    (h1 : p + 2 < sz.size a) : AllInBounds sz (rvec_accesses a p) := by
  unfold rvec_accesses
  simp only [AllInBounds_cons, InBounds]
  exact ⟨⟨by omega, by omega⟩, ⟨by omega, by omega⟩, ⟨by omega, by omega⟩, AllInBounds_nil sz⟩

theorem vdwparam_index_bound (ntype t0 tj : Int) (h0 : 0 ≤ t0) (h0' : t0 < ntype)
    (hj : 0 ≤ tj) (hj' : tj < ntype) :
    0 ≤ 2 * ntype * t0 + 2 * tj ∧ 2 * ntype * t0 + 2 * tj + 1 < 2 * ntype * ntype := by
  have hn : 0 ≤ ntype := by omega
  have h1 : 0 ≤ ntype * t0 := mul_nonneg hn h0
  have h2 : ntype * t0 ≤ ntype * (ntype - 1) := mul_le_mul_of_nonneg_left (by omega) hn
  constructor
  · nlinarith
  · nlinarith

theorem rf_block2_in_bounds (nlist : t_nblist) (fr : t_forcerec) (mdatoms : t_mdatoms)
    (natoms nshifts ngroups : Int) (sz : ArraySizes)
    (hv : ValidInput nlist fr mdatoms natoms nshifts ngroups sz) (t0 : Int)
    (ht0 : 0 ≤ t0 ∧ t0 < fr.ntype) (jidx : Int) (hj0 : 0 ≤ jidx)
    (hj1 : jidx + 1 < nlist.jindex nlist.nri) :
    AllInBounds sz (rf_block2_accesses nlist mdatoms.typeA (2 * fr.ntype * t0) jidx) := by
  obtain ⟨_, _, _, _, _, sjj, sx, sf, sc, sv, _, _, sp, _, _, _, _, hjj, hty⟩ := hv
  obtain ⟨a0, a1⟩ := hjj jidx hj0 (by omega)
  obtain ⟨b0, b1⟩ := hjj (jidx + 1) (by omega) hj1
  obtain ⟨ta0, ta1⟩ := hty _ a0 a1
  obtain ⟨tb0, tb1⟩ := hty _ b0 b1
  obtain ⟨pa0, pa1⟩ := vdwparam_index_bound fr.ntype t0 _ ht0.1 ht0.2 ta0 ta1
  obtain ⟨pb0, pb1⟩ := vdwparam_index_bound fr.ntype t0 _ ht0.1 ht0.2 tb0 tb1
  have d : DIM = 3 := rfl
  simp only [rf_block2_accesses, rvec_accesses, List.cons_append, List.nil_append,
    AllInBounds_cons, InBounds, add_zero, sjj, sx, sf, sc, sv, sp, d]
  refine ⟨?_, ?_, ?_, ?_, ?_, ?_, ?_, ?_, ?_, ?_, ?_, ?_, ?_, ?_, ?_, ?_, ?_, ?_, ?_, ?_,
    ?_, ?_, AllInBounds_nil sz⟩ <;> constructor <;> omega

theorem rf_block1_in_bounds (nlist : t_nblist) (fr : t_forcerec) (mdatoms : t_mdatoms)
    (natoms nshifts ngroups : Int) (sz : ArraySizes)
    (hv : ValidInput nlist fr mdatoms natoms nshifts ngroups sz) (t0 : Int)
    (ht0 : 0 ≤ t0 ∧ t0 < fr.ntype) (jidx : Int) (hj0 : 0 ≤ jidx)
    (hj1 : jidx < nlist.jindex nlist.nri) :
    AllInBounds sz (rf_block1_accesses nlist mdatoms.typeA (2 * fr.ntype * t0) jidx) := by
  obtain ⟨_, _, _, _, _, sjj, sx, sf, sc, sv, _, _, sp, _, _, _, _, hjj, hty⟩ := hv
  obtain ⟨a0, a1⟩ := hjj jidx hj0 hj1
  obtain ⟨ta0, ta1⟩ := hty _ a0 a1
  obtain ⟨pa0, pa1⟩ := vdwparam_index_bound fr.ntype t0 _ ht0.1 ht0.2 ta0 ta1
  have d : DIM = 3 := rfl
  simp only [rf_block1_accesses, rvec_accesses, List.cons_append, List.nil_append,
    AllInBounds_cons, InBounds, add_zero, sjj, sx, sf, sc, sv, sp, d]
  refine ⟨?_, ?_, ?_, ?_, ?_, ?_, ?_, ?_, ?_, ?_, ?_, AllInBounds_nil sz⟩
    <;> constructor <;> omega

/-- Range starts are ordered along the list: `jindex[0] <= jindex[a] <= jindex[b]` for
`0 <= a <= b <= nri`. -/
theorem jindex_le (jindex : Int → Int) (nri : Int)
    (h : ∀ i : Int, 0 ≤ i → i < nri → jindex i ≤ jindex (i + 1)) (m : Nat) :
    ∀ a b : Int, (b - a).toNat ≤ m → 0 ≤ a → a ≤ b → b ≤ nri → jindex a ≤ jindex b := by
  induction m with
  | zero =>
    intro a b hm _ hab _
    have e : a = b := by omega
    rw [e]
  | succ m ih =>
    intro a b hm ha hab hb
    by_cases e : a = b
    · rw [e]
    · exact le_trans (h a ha (by omega)) (ih (a + 1) b (by omega) (by omega) (by omega) hb)

theorem rf_outer_in_bounds (nlist : t_nblist) (fr : t_forcerec) (mdatoms : t_mdatoms)
    (natoms nshifts ngroups : Int) (sz : ArraySizes)
    (hv : ValidInput nlist fr mdatoms natoms nshifts ngroups sz) (t0 : Int)
    (ht0 : 0 ≤ t0 ∧ t0 < fr.ntype) (iidx : Int) (hi0 : 0 ≤ iidx) (hi1 : iidx < nlist.nri)
    (acc : List Access) (hacc : AllInBounds sz acc) :
    AllInBounds sz (rf_outer_accesses nlist mdatoms.typeA (2 * fr.ntype * t0) iidx acc) := by
  have hv' := hv
  obtain ⟨_, si, ss, sg, sj, sjj, sx, sf, sc, sv, ssv, sfs, sp, _, _, hj0, hent, hjj, hty⟩ := hv'
  obtain ⟨i0, i1, s0, s1, _, _, _⟩ := hent iidx hi0 hi1
  have hmono : ∀ i : Int, 0 ≤ i → i < nlist.nri → nlist.jindex i ≤ nlist.jindex (i + 1) :=
    fun i h0 h1 => (hent i h0 h1).2.2.2.2.2.2
  have hlo : nlist.jindex 0 ≤ nlist.jindex iidx :=
    jindex_le nlist.jindex nlist.nri hmono (iidx - 0).toNat 0 iidx (le_refl _) (le_refl _) hi0
      (by omega)
  have hhi : nlist.jindex (iidx + 1) ≤ nlist.jindex nlist.nri :=
    jindex_le nlist.jindex nlist.nri hmono (nlist.nri - (iidx + 1)).toNat (iidx + 1) nlist.nri
      (le_refl _) (by omega) (by omega) (le_refl _)
  have d : DIM = 3 := rfl
  unfold rf_outer_accesses
  simp only [AllInBounds_append]
  refine ⟨⟨⟨⟨?_, ?_⟩, ?_⟩, ?_⟩, ?_⟩
  · apply innerLoop_invariant (AllInBounds sz) _ _ _ _ _ _ (le_refl _)
    · intro j h1 h2 t ht
      exact (AllInBounds_append sz _ _).mpr ⟨ht,
        rf_block2_in_bounds nlist fr mdatoms natoms nshifts ngroups sz hv t0 ht0 j (by omega)
          (by omega)⟩
    · intro j h1 h2 t ht
      exact (AllInBounds_append sz _ _).mpr ⟨ht,
        rf_block1_in_bounds nlist fr mdatoms natoms nshifts ngroups sz hv t0 ht0 j (by omega)
          (by omega)⟩
    · simp only [AllInBounds_append]
      refine ⟨⟨⟨⟨⟨hacc, ?_⟩, ?_⟩, ?_⟩, ?_⟩, ?_⟩
      · simp only [AllInBounds_cons, InBounds, si, ss, sj]
        exact ⟨⟨by omega, by omega⟩, ⟨by omega, by omega⟩, ⟨by omega, by omega⟩,
          ⟨by omega, by omega⟩, AllInBounds_nil sz⟩
      · exact rvec_in_bounds sz _ _ (by rw [d]; omega) (by rw [ssv, d]; omega)
      · exact rvec_in_bounds sz _ _ (by rw [d]; omega) (by rw [sx, d]; omega)
      · exact rvec_in_bounds sz _ _ (by rw [d]; omega) (by rw [sx, d]; omega)
      · exact rvec_in_bounds sz _ _ (by rw [d]; omega) (by rw [sx, d]; omega)
  · exact rvec_in_bounds sz _ _ (by rw [d]; omega) (by rw [sf, d]; omega)
  · exact rvec_in_bounds sz _ _ (by rw [d]; omega) (by rw [sf, d]; omega)
  · exact rvec_in_bounds sz _ _ (by rw [d]; omega) (by rw [sf, d]; omega)
  · exact rvec_in_bounds sz _ _ (by rw [d]; omega) (by rw [sfs, d]; omega)

theorem rf_VF_outer_in_bounds (nlist : t_nblist) (fr : t_forcerec) (mdatoms : t_mdatoms)
    (natoms nshifts ngroups : Int) (sz : ArraySizes)
    (hv : ValidInput nlist fr mdatoms natoms nshifts ngroups sz) (t0 : Int)
    (ht0 : 0 ≤ t0 ∧ t0 < fr.ntype) (iidx : Int) (hi0 : 0 ≤ iidx) (hi1 : iidx < nlist.nri)
    (acc : List Access) (hacc : AllInBounds sz acc) :
    AllInBounds sz (rf_VF_outer_accesses nlist mdatoms.typeA (2 * fr.ntype * t0) iidx acc) := by
  have hv' := hv
  obtain ⟨_, _, _, sg, _, _, _, _, _, _, _, _, _, se, sw, _, hent, _, _⟩ := hv'
  obtain ⟨_, _, _, _, g0, g1, _⟩ := hent iidx hi0 hi1
  unfold rf_VF_outer_accesses
  simp only [AllInBounds_append]
  refine ⟨rf_outer_in_bounds nlist fr mdatoms natoms nshifts ngroups sz hv t0 ht0 iidx hi0 hi1
    acc hacc, ?_⟩
  simp only [AllInBounds_cons, InBounds, sg, se, sw]
  exact ⟨⟨by omega, by omega⟩, ⟨by omega, by omega⟩, ⟨by omega, by omega⟩, AllInBounds_nil sz⟩

theorem rf_setup_in_bounds (nlist : t_nblist) (fr : t_forcerec) (mdatoms : t_mdatoms)
    (natoms nshifts ngroups : Int) (sz : ArraySizes)
    (hv : ValidInput nlist fr mdatoms natoms nshifts ngroups sz) (hnri : 1 ≤ nlist.nri) :
    AllInBounds sz (rf_setup_accesses nlist) := by
  obtain ⟨_, si, _, _, _, _, _, _, sc, sv, _, _, _, _, _, _, hent, _, _⟩ := hv
  obtain ⟨i0, i1, _⟩ := hent 0 (le_refl _) (by omega)
  unfold rf_setup_accesses
  simp only [AllInBounds_cons, InBounds, si, sc, sv]
  exact ⟨⟨by omega, by omega⟩, ⟨by omega, by omega⟩, ⟨by omega, by omega⟩,
    ⟨by omega, by omega⟩, ⟨by omega, by omega⟩, AllInBounds_nil sz⟩

theorem rf_kernels_in_bounds (nlist : t_nblist) (fr : t_forcerec) (mdatoms : t_mdatoms)
    (natoms nshifts ngroups : Int) (sz : ArraySizes)
    (hv : ValidInput nlist fr mdatoms natoms nshifts ngroups sz) (hnri : 1 ≤ nlist.nri) :
    AllInBounds sz (rf_VF_accesses nlist fr mdatoms)
    ∧ AllInBounds sz (rf_F_accesses nlist fr mdatoms) := by
  have hv' := hv
  obtain ⟨_, _, _, _, _, _, _, _, _, _, _, _, _, _, _, _, hent, _, hty⟩ := hv'
  obtain ⟨i0, i1, _⟩ := hent 0 (le_refl _) (by omega)
  have ht0 : 0 ≤ mdatoms.typeA (nlist.iinr 0 + 0)
      ∧ mdatoms.typeA (nlist.iinr 0 + 0) < fr.ntype := hty _ (by omega) (by omega)
  have hs := rf_setup_in_bounds nlist fr mdatoms natoms nshifts ngroups sz hv hnri
  refine ⟨?_, ?_⟩
  · unfold rf_VF_accesses
    exact forLoop_invariant (AllInBounds sz) nlist.nri _ (nlist.nri - 0).toNat 0 _ (le_refl _)
      (fun k h0 h1 t ht => rf_VF_outer_in_bounds nlist fr mdatoms natoms nshifts ngroups sz hv
        _ ht0 k h0 h1 t ht) hs
  · unfold rf_F_accesses
    exact forLoop_invariant (AllInBounds sz) nlist.nri _ (nlist.nri - 0).toNat 0 _ (le_refl _)
      (fun k h0 h1 t ht => rf_outer_in_bounds nlist fr mdatoms natoms nshifts ngroups sz hv
        _ ht0 k h0 h1 t ht) hs

theorem KState_ext (a b : KState) (h1 : a.f = b.f) (h2 : a.fshift = b.fshift)
    (h3 : a.energygrp_elec = b.energygrp_elec) (h4 : a.energygrp_vdw = b.energygrp_vdw)
    (h5 : a.nrnb = b.nrnb) : a = b := by
  cases a; cases b; simp_all

theorem inc_nrnb_zero (nrnb : eNR → Int) (e : eNR) : inc_nrnb nrnb e 0 = nrnb := by
  funext k
  unfold inc_nrnb
  split_ifs <;> simp

theorem rf_kernels_empty_list (invsqrt : ℚ → ℚ) (nlist : t_nblist) (xx : Int → ℚ)
    (fr : t_forcerec) (mdatoms : t_mdatoms) (st : KState) (h : nlist.nri = 0) :
    nb_kernel_ElecRF_VdwLJ_GeomW3P1_VF_sse2_double invsqrt nlist xx fr mdatoms st = st
    ∧ nb_kernel_ElecRF_VdwLJ_GeomW3P1_F_sse2_double invsqrt nlist xx fr mdatoms st = st := by
  refine ⟨?_, ?_⟩
  · rw [rf_VF_kernel_eq_loop]
    unfold rf_VF_loop
    rw [h, forLoop_done _ _ _ _ (le_refl _)]
    exact KState_ext _ _ rfl rfl rfl rfl (inc_nrnb_zero _ _)
  · rw [rf_F_kernel_eq_loop]
    unfold rf_F_loop
    rw [h, forLoop_done _ _ _ _ (le_refl _)]
    exact KState_ext _ _ rfl rfl rfl rfl (inc_nrnb_zero _ _)

theorem rf_accesses_empty_list (nlist : t_nblist) (fr : t_forcerec) (mdatoms : t_mdatoms)
    (h : nlist.nri = 0) :
    rf_VF_accesses nlist fr mdatoms = rf_setup_accesses nlist
    ∧ rf_F_accesses nlist fr mdatoms = rf_setup_accesses nlist := by
  unfold rf_VF_accesses rf_F_accesses
  simp only []
  rw [h, forLoop_done _ _ _ _ (le_refl _), forLoop_done _ _ _ _ (le_refl _)]
  exact ⟨rfl, rfl⟩

theorem ex_valid_none : ValidInput ex_nlist_none ex_rf_fr ex_rf_mdatoms 7 1 1 ex_sizes_none := by
  refine ⟨le_refl _, rfl, rfl, rfl, rfl, rfl, rfl, rfl, rfl, rfl, rfl, rfl, rfl, rfl, rfl,
    le_refl _, ?_, ?_, ?_⟩
  · intro iidx h0 h1
    have h1' : iidx < 0 := h1
    omega
  · intro jidx h0 h1
    have h1' : jidx < 0 := h1
    omega
  · intro p _ _
    exact ⟨le_refl _, show (0 : Int) < 1 by decide⟩

theorem ex_valid_rf : ValidInput ex_rf_nlist ex_rf_fr ex_rf_mdatoms 7 1 1 ex_sizes_rf := by
  refine ⟨show (0 : Int) ≤ 1 by decide, rfl, rfl, rfl, rfl, rfl, rfl, rfl, rfl, rfl, rfl, rfl,
    rfl, rfl, rfl, le_refl _, ?_, ?_, ?_⟩
  · intro iidx h0 h1
    refine ⟨le_refl _, show (0 : Int) + 2 < 7 by decide, le_refl _,
      show (0 : Int) < 1 by decide, le_refl _, show (0 : Int) < 1 by decide, ?_⟩
    show iidx ≤ iidx + 1
    omega
  · intro jidx _ _
    exact ⟨show (0 : Int) ≤ 3 by decide, show (3 : Int) < 7 by decide⟩
  · intro p _ _
    exact ⟨le_refl _, show (0 : Int) < 1 by decide⟩

theorem shr1_eq (a : Int) : a >>> (1 : Nat) = a / 2 := by
  rw [Int.shiftRight_eq_div_pow]
  norm_num

theorem BinarySearch_loop_unfold (go_left : ℚ → ℚ → Bool) (array : Int → ℚ) (key : ℚ)
    (s : BSState) :
    BinarySearch_loop go_left array key s
      = if s.iMax - s.iMin > 1 then
          BinarySearch_loop go_left array key (BinarySearch_step go_left array key s)
        else s := by
  rw [BinarySearch_loop]
  unfold BinarySearch_step
  by_cases h : s.iMax - s.iMin > 1
  · rw [dif_pos h, if_pos h]
    simp only []
    split_ifs <;> rfl
  · rw [dif_neg h, if_neg h]

theorem BinarySearch_step_bounds (go_left : ℚ → ℚ → Bool) (array : Int → ℚ) (key : ℚ)
    (s : BSState) (h : s.iMax - s.iMin > 1) :
    s.iMin ≤ (BinarySearch_step go_left array key s).iMin
    ∧ (BinarySearch_step go_left array key s).iMax ≤ s.iMax
    ∧ 0 < (BinarySearch_step go_left array key s).iMax
          - (BinarySearch_step go_left array key s).iMin
    ∧ (BinarySearch_step go_left array key s).iMax
          - (BinarySearch_step go_left array key s).iMin < s.iMax - s.iMin := by
  unfold BinarySearch_step
  simp only [shr1_eq]
  split_ifs <;> simp only [] <;> refine ⟨?_, ?_, ?_, ?_⟩ <;> omega

theorem BinarySearch_step_reads (go_left : ℚ → ℚ → Bool) (array : Int → ℚ) (key : ℚ)
    (s : BSState) :
    (BinarySearch_step go_left array key s).reads
      = s.reads ++ [(s.iMin + s.iMax) >>> (1 : Nat) - 1] := by
  unfold BinarySearch_step
  simp only []
  split_ifs <;> rfl

/-- The loop of `BinarySearch` ends with `iMax = iMin + 1` inside the initial interval and
keeps the bracketing property: the test fails at `iMin - 1` unless `iMin` is still the
initial lower end `lo`, and succeeds at `iMax - 1` unless `iMax` is still the initial
upper end `hi`. -/
theorem BinarySearch_loop_spec (go_left : ℚ → ℚ → Bool) (array : Int → ℚ) (key : ℚ)
    (lo hi : Int) (m : Nat) :
    ∀ s : BSState, (s.iMax - s.iMin).toNat ≤ m → lo ≤ s.iMin → s.iMin < s.iMax → s.iMax ≤ hi →
      (lo < s.iMin → go_left key (array (s.iMin - 1)) = false) →
      (s.iMax < hi → go_left key (array (s.iMax - 1)) = true) →
      (BinarySearch_loop go_left array key s).iMax
          = (BinarySearch_loop go_left array key s).iMin + 1
      ∧ lo ≤ (BinarySearch_loop go_left array key s).iMin
      ∧ (BinarySearch_loop go_left array key s).iMax ≤ hi
      ∧ (lo < (BinarySearch_loop go_left array key s).iMin →
          go_left key (array ((BinarySearch_loop go_left array key s).iMin - 1)) = false)
      ∧ ((BinarySearch_loop go_left array key s).iMax < hi →
          go_left key (array ((BinarySearch_loop go_left array key s).iMax - 1)) = true) := by
  induction m with
  | zero =>
    intro s hm _ hlt _ _ _
    omega
  | succ m ih =>
    intro s hm hlo hlt hhi hL hR
    rw [BinarySearch_loop_unfold]
    by_cases h : s.iMax - s.iMin > 1
    · rw [if_pos h]
      obtain ⟨b1, b2, b3, b4⟩ := BinarySearch_step_bounds go_left array key s h
      apply ih _ (by omega) (by omega) (by omega) (by omega)
      · intro hl
        unfold BinarySearch_step at hl ⊢
        simp only [] at hl ⊢
        split_ifs with hg
        · rw [if_pos hg] at hl
          exact hL hl
        · exact Bool.eq_false_iff.mpr hg
      · intro hr
        unfold BinarySearch_step at hr ⊢
        simp only [] at hr ⊢
        split_ifs with hg
        · exact hg
        · rw [if_neg hg] at hr
          exact hR hr
    · rw [if_neg h]
      exact ⟨by omega, hlo, hhi, hL, hR⟩

/-- The loop of `BinarySearch` reads `array` only at indices between `iMin` and
`iMax - 2` of its initial state, and not at all when `iMax - iMin <= 1`. -/
theorem BinarySearch_loop_reads (go_left : ℚ → ℚ → Bool) (array : Int → ℚ) (key : ℚ)
    (lo hi : Int) (m : Nat) :
    ∀ s : BSState, (s.iMax - s.iMin).toNat ≤ m → lo ≤ s.iMin → s.iMax ≤ hi →
      (∀ k ∈ s.reads, lo ≤ k ∧ k ≤ hi - 2) →
      (∀ k ∈ (BinarySearch_loop go_left array key s).reads, lo ≤ k ∧ k ≤ hi - 2)
      ∧ (s.iMax - s.iMin ≤ 1 → (BinarySearch_loop go_left array key s).reads = s.reads) := by
  induction m with
  | zero =>
    intro s hm _ _ hr
    rw [BinarySearch_loop_unfold, if_neg (by omega)]
    exact ⟨hr, fun _ => rfl⟩
  | succ m ih =>
    intro s hm hlo hhi hr
    rw [BinarySearch_loop_unfold]
    by_cases h : s.iMax - s.iMin > 1
    · rw [if_pos h]
      obtain ⟨b1, b2, b3, b4⟩ := BinarySearch_step_bounds go_left array key s h
      refine ⟨(ih _ (by omega) (by omega) (by omega) ?_).1, fun h1 => by omega⟩
      intro k hk
      rw [BinarySearch_step_reads, List.mem_append, List.mem_singleton] at hk
      rcases hk with hk | hk
      · exact hr k hk
      · rw [hk, shr1_eq]
        constructor <;> omega
    · rw [if_neg h]
      exact ⟨hr, fun _ => rfl⟩

theorem BinarySearch_loop_congr (g1 g2 : ℚ → ℚ → Bool) (a1 a2 : Int → ℚ) (k1 k2 : ℚ)
    (h : ∀ i : Int, g1 k1 (a1 i) = g2 k2 (a2 i)) (m : Nat) :
    ∀ s : BSState, (s.iMax - s.iMin).toNat ≤ m →
      BinarySearch_loop g1 a1 k1 s = BinarySearch_loop g2 a2 k2 s := by
  have hstep : ∀ s : BSState, BinarySearch_step g1 a1 k1 s = BinarySearch_step g2 a2 k2 s := by
    intro s
    unfold BinarySearch_step
    simp only [h]
  induction m with
  | zero =>
    intro s hm
    rw [BinarySearch_loop_unfold, BinarySearch_loop_unfold g2, if_neg (by omega),
      if_neg (by omega)]
  | succ m ih =>
    intro s hm
    rw [BinarySearch_loop_unfold, BinarySearch_loop_unfold g2]
    by_cases hgt : s.iMax - s.iMin > 1
    · rw [if_pos hgt, if_pos hgt, hstep]
      obtain ⟨b1, b2, b3, b4⟩ := BinarySearch_step_bounds g2 a2 k2 s hgt
      exact ih _ (by omega)
    · rw [if_neg hgt, if_neg hgt]

theorem BinarySearch_loop_exit (go_left : ℚ → ℚ → Bool) (array : Int → ℚ) (key : ℚ) (m : Nat) :
    ∀ s : BSState, (s.iMax - s.iMin).toNat ≤ m →
      (BinarySearch_loop go_left array key s).iMax
        - (BinarySearch_loop go_left array key s).iMin ≤ 1 := by
  induction m with
  | zero =>
    intro s hm
    rw [BinarySearch_loop_unfold, if_neg (by omega)]
    omega
  | succ m ih =>
    intro s hm
    rw [BinarySearch_loop_unfold]
    by_cases h : s.iMax - s.iMin > 1
    · rw [if_pos h]
      obtain ⟨b1, b2, b3, b4⟩ := BinarySearch_step_bounds go_left array key s h
      exact ih _ (by omega)
    · rw [if_neg h]
      omega

theorem BinarySearch_ret_up (array : Int → ℚ) (low high : Int) (key : ℚ) (direction : Int)
    (h : direction ≥ 0) :
    BinarySearch array low high key direction
      = { ret := (BinarySearch_loop (fun key a => decide (key < a)) array key
            { iMin := low + 1, iMax := high + 2, reads := [] }).iMin
          reads := (BinarySearch_loop (fun key a => decide (key < a)) array key
            { iMin := low + 1, iMax := high + 2, reads := [] }).reads } := by
  unfold BinarySearch
  simp only []
  rw [if_pos h]

theorem BinarySearch_ret_down (array : Int → ℚ) (low high : Int) (key : ℚ) (direction : Int)
    (h : direction < 0) :
    BinarySearch array low high key direction
      = { ret := (BinarySearch_loop (fun key a => decide (key > a)) array key
            { iMin := low + 1, iMax := high + 2, reads := [] }).iMin - 1
          reads := (BinarySearch_loop (fun key a => decide (key > a)) array key
            { iMin := low + 1, iMax := high + 2, reads := [] }).reads } := by
  unfold BinarySearch
  simp only []
  rw [if_neg (by omega)]

theorem ex_search_up_sorted :
    ∀ a b : Int, 0 ≤ a → a ≤ b → b ≤ 3 → ex_search_up a ≤ ex_search_up b := by
  intro a b h0 hab h3
  have ha : a = 0 ∨ a = 1 ∨ a = 2 ∨ a = 3 := by omega
  have hb : b = 0 ∨ b = 1 ∨ b = 2 ∨ b = 3 := by omega
  rcases ha with rfl | rfl | rfl | rfl <;> rcases hb with rfl | rfl | rfl | rfl <;>
    first | omega | norm_num [ex_search_up]

theorem ex_search_down_sorted :
    ∀ a b : Int, 0 ≤ a → a ≤ b → b ≤ 3 → ex_search_down b ≤ ex_search_down a := by
  intro a b h0 hab h3
  have ha : a = 0 ∨ a = 1 ∨ a = 2 ∨ a = 3 := by omega
  have hb : b = 0 ∨ b = 1 ∨ b = 2 ∨ b = 3 := by omega
  rcases ha with rfl | rfl | rfl | rfl <;> rcases hb with rfl | rfl | rfl | rfl <;>
    first | omega | norm_num [ex_search_down]

theorem LinearSearch_up_unfold (array : Int → ℚ) (stopindx : Int) (key : ℚ) (i count : Int) :
    LinearSearch_up array stopindx key i count
      = if i ≤ stopindx then
          (if array i > key then { ret := i - 1, count := count + 1, array := array }
           else LinearSearch_up array stopindx key (i + 1) (count + 1))
        else { ret := -1, count := count, array := array } := by
  rw [LinearSearch_up]
  by_cases h : i ≤ stopindx
  · simp only [dif_pos h, if_pos h]
  · simp only [dif_neg h, if_neg h]

theorem LinearSearch_up_hit (array : Int → ℚ) (stopindx : Int) (key : ℚ) (i : Int)
    (hi : i ≤ stopindx) (hgt : array i > key) (n : Nat) :
    ∀ j count : Int, (i - j).toNat ≤ n → j ≤ i → (∀ k : Int, j ≤ k → k < i → ¬ array k > key) →
      (LinearSearch_up array stopindx key j count).ret = i - 1
      ∧ (LinearSearch_up array stopindx key j count).count = count + (i - j + 1)
      ∧ (LinearSearch_up array stopindx key j count).array = array := by
  induction n with
  | zero =>
    intro j count hn hj hk
    have hij : j = i := by omega
    subst hij
    rw [LinearSearch_up_unfold, if_pos hi, if_pos hgt]
    refine ⟨rfl, ?_, rfl⟩
    show count + 1 = count + (j - j + 1)
    omega
  | succ n ih =>
    intro j count hn hj hk
    by_cases hij : j = i
    · subst hij
      rw [LinearSearch_up_unfold, if_pos hi, if_pos hgt]
      refine ⟨rfl, ?_, rfl⟩
      show count + 1 = count + (j - j + 1)
      omega
    · have hlt : j < i := by omega
      rw [LinearSearch_up_unfold, if_pos (show j ≤ stopindx by omega), if_neg (hk j (le_refl _) hlt)]
      obtain ⟨r1, r2, r3⟩ := ih (j + 1) (count + 1) (by omega) (by omega)
        (fun k hk1 hk2 => hk k (by omega) hk2)
      refine ⟨r1, ?_, r3⟩
      rw [r2]
      omega

theorem LinearSearch_up_miss (array : Int → ℚ) (stopindx : Int) (key : ℚ) (n : Nat) :
    ∀ j count : Int, (stopindx + 1 - j).toNat ≤ n →
      (∀ k : Int, j ≤ k → k ≤ stopindx → ¬ array k > key) →
      (LinearSearch_up array stopindx key j count).ret = -1
      ∧ (LinearSearch_up array stopindx key j count).count = count + max 0 (stopindx - j + 1)
      ∧ (LinearSearch_up array stopindx key j count).array = array := by
  induction n with
  | zero =>
    intro j count hn hk
    rw [LinearSearch_up_unfold, if_neg (show ¬ j ≤ stopindx by omega)]
    refine ⟨rfl, ?_, rfl⟩
    show count = count + max 0 (stopindx - j + 1)
    rw [max_eq_left (by omega)]
    omega
  | succ n ih =>
    intro j count hn hk
    by_cases hj : j ≤ stopindx
    · rw [LinearSearch_up_unfold, if_pos hj, if_neg (hk j (le_refl _) hj)]
      obtain ⟨r1, r2, r3⟩ := ih (j + 1) (count + 1) (by omega)
        (fun k hk1 hk2 => hk k (by omega) hk2)
      refine ⟨r1, ?_, r3⟩
      rw [r2, max_eq_right (show (0 : Int) ≤ stopindx - j + 1 by omega)]
      by_cases hl : j + 1 ≤ stopindx + 1 - 0
      · rw [max_eq_right (show (0 : Int) ≤ stopindx - (j + 1) + 1 by omega)]
        omega
      · omega
    · rw [LinearSearch_up_unfold, if_neg hj]
      refine ⟨rfl, ?_, rfl⟩
      show count = count + max 0 (stopindx - j + 1)
      rw [max_eq_left (by omega)]
      omega

theorem LinearSearch_up_array (array : Int → ℚ) (stopindx : Int) (key : ℚ) (n : Nat) :
    ∀ j count : Int, (stopindx + 1 - j).toNat ≤ n →
      (LinearSearch_up array stopindx key j count).array = array := by
  induction n with
  | zero =>
    intro j count hn
    rw [LinearSearch_up_unfold, if_neg (show ¬ j ≤ stopindx by omega)]
  | succ n ih =>
    intro j count hn
    rw [LinearSearch_up_unfold]
    by_cases hj : j ≤ stopindx
    · rw [if_pos hj]
      by_cases hg : array j > key
      · rw [if_pos hg]
      · rw [if_neg hg]
        exact ih (j + 1) (count + 1) (by omega)
    · rw [if_neg hj]

/-- The inner loop keeps equal keys in their original order. The statement is about the
loop at any `j`, where `arr[j]` is the entry being inserted: the other entries up to `i`
are stable among themselves, no entry to the right of `j` equals `arr[j]`, and every
equal entry to the left of `j` has a smaller entry of `perm`. -/
theorem insertWhile_stable (ooo : ℚ → ℚ → Bool) (hirr : ∀ a, ooo a a = false)
    (startndx i : Int) (m : Nat) :
    ∀ (j : Int) (s : SortState), (j - startndx).toNat ≤ m → startndx ≤ j → j ≤ i →
      (∀ k l : Int, startndx ≤ k → k < l → l ≤ i → k ≠ j → l ≠ j → s.arr k = s.arr l →
        s.perm k < s.perm l) →
      (∀ l : Int, j < l → l ≤ i → s.arr l ≠ s.arr j) →
      (∀ k : Int, startndx ≤ k → k < j → s.arr k = s.arr j → s.perm k < s.perm j) →
      StableOn (insertWhile ooo startndx j s) startndx i := by
  induction m with
  | zero =>
    intro j s hm hj hji h1 h2 h3
    rw [insertWhile_done _ _ _ _ (by omega)]
    intro k l hk hkl hl e
    have ej : j = startndx := by omega
    by_cases ek : k = j
    · subst ek
      exact absurd e.symm (h2 l hkl hl)
    · exact h1 k l hk hkl hl ek (by omega) e
  | succ m ih =>
    intro j s hm hj hji h1 h2 h3
    by_cases h : j > startndx ∧ ooo (s.arr (j - 1)) (s.arr j) = true
    · rw [insertWhile_step _ _ _ _ h]
      have hne : s.arr (j - 1) ≠ s.arr j := by
        intro e
        have h4 := h.2
        rw [e, hirr] at h4
        exact Bool.false_ne_true h4
      apply ih (j - 1) _ (by omega) (by omega) (by omega)
      · intro k l hk hkl hl ek el e
        show pswap s.perm j (j - 1) k < pswap s.perm j (j - 1) l
        have e2 : Swap s.arr j (j - 1) k = Swap s.arr j (j - 1) l := e
        rw [Swap_apply, Swap_apply] at e2
        rw [pswap_apply, pswap_apply]
        by_cases ekj : k = j
        · subst ekj
          rw [Equiv.swap_apply_left] at e2 ⊢
          rw [Equiv.swap_apply_of_ne_of_ne (by omega) (by omega)] at e2 ⊢
          exact h1 (k - 1) l (by omega) (by omega) hl (by omega) (by omega) e2
        · by_cases elj : l = j
          · subst elj
            rw [Equiv.swap_apply_left] at e2 ⊢
            rw [Equiv.swap_apply_of_ne_of_ne ekj ek] at e2 ⊢
            exact h1 k (l - 1) hk (by omega) (by omega) ekj (by omega) e2
          · rw [Equiv.swap_apply_of_ne_of_ne ekj ek,
              Equiv.swap_apply_of_ne_of_ne elj el] at e2 ⊢
            exact h1 k l hk hkl hl ekj elj e2
      · intro l hl1 hl2
        show Swap s.arr j (j - 1) l ≠ Swap s.arr j (j - 1) (j - 1)
        rw [Swap_apply, Swap_apply, Equiv.swap_apply_right]
        by_cases elj : l = j
        · subst elj
          rw [Equiv.swap_apply_left]
          exact hne
        · rw [Equiv.swap_apply_of_ne_of_ne elj (by omega)]
          exact h2 l (by omega) hl2
      · intro k hk1 hk2 e
        show pswap s.perm j (j - 1) k < pswap s.perm j (j - 1) (j - 1)
        have e2 : Swap s.arr j (j - 1) k = Swap s.arr j (j - 1) (j - 1) := e
        rw [Swap_apply, Swap_apply, Equiv.swap_apply_right,
          Equiv.swap_apply_of_ne_of_ne (by omega) (by omega)] at e2
        rw [pswap_apply, pswap_apply, Equiv.swap_apply_right,
          Equiv.swap_apply_of_ne_of_ne (by omega) (by omega)]
        exact h3 k hk1 (by omega) e2
    · rw [insertWhile_done _ _ _ _ h]
      intro k l hk hkl hl e
      by_cases ek : k = j
      · subst ek
        exact absurd e.symm (h2 l hkl hl)
      · by_cases el : l = j
        · subst el
          exact h3 k hk hkl e
        · exact h1 k l hk hkl hl ek el e

/-- One pass of insertion sort in one direction, started with `perm` the identity on the
segment, keeps equal keys in their original order. -/
theorem insertion_pass_stable (ooo : ℚ → ℚ → Bool) (hirr : ∀ a, ooo a a = false)
    (startndx endndx : Int) (s0 : SortState)
    (hid : ∀ k : Int, startndx ≤ k → k ≤ endndx → s0.perm k = k) :
    StableOn (forLoop (endndx + 1) (fun i s => insertWhile ooo startndx i s) startndx s0)
      startndx endndx := by
  by_cases hse : startndx ≤ endndx + 1
  · have key := forLoop_invariant_idx
      (fun (i : Int) (t : SortState) =>
        StableOn t startndx (i - 1)
        ∧ (∀ k : Int, startndx ≤ k → k ≤ i - 1 → t.perm k < i)
        ∧ (∀ p : Int, i ≤ p → p ≤ endndx → t.perm p = p))
      (endndx + 1) (fun i s => insertWhile ooo startndx i s) (endndx + 1 - startndx).toNat
      startndx s0 (le_refl _) hse
      ⟨fun k l hk hkl hl => by omega, fun k hk1 hk2 => by omega,
        fun p hp1 hp2 => hid p hp1 hp2⟩
      (by
        intro k hk1 hk2 t ht
        obtain ⟨hst, hlt, hfix⟩ := ht
        obtain ⟨σ, hσ, ha, hp⟩ :=
          insertWhile_rearranged ooo startndx (k - startndx).toNat k t (le_refl _) hk1
        have hkk : t.perm k = k := hfix k (le_refl _) (by omega)
        refine ⟨?_, ?_, ?_⟩
        · have e : k + 1 - 1 = k := by omega
          rw [e]
          apply insertWhile_stable ooo hirr startndx k (k - startndx).toNat k t (le_refl _) hk1
            (le_refl _)
          · intro a b ha1 hab hb hak hbk e2
            exact hst a b ha1 hab (by omega) e2
          · intro l hl1 hl2
            omega
          · intro a ha1 ha2 _
            rw [hkk]
            exact hlt a ha1 (by omega)
        · intro a ha1 ha2
          have hseg := perm_maps_segment startndx k σ hσ a ⟨ha1, by omega⟩
          have e2 : (insertWhile ooo startndx k t).perm a = t.perm (σ a) := hp a
          rw [e2]
          by_cases hs : σ a = k
          · rw [hs, hkk]
            omega
          · have := hlt (σ a) hseg.1 (by omega)
            omega
        · intro p hp1 hp2
          have e2 : (insertWhile ooo startndx k t).perm p = t.perm (σ p) := hp p
          rw [e2, hσ p (Or.inr (by omega))]
          exact hfix p (by omega) hp2)
    have key2 : StableOn
        (forLoop (endndx + 1) (fun i s => insertWhile ooo startndx i s) startndx s0)
        startndx (endndx + 1 - 1) := key.1
    have e : endndx + 1 - 1 = endndx := by omega
    rw [e] at key2
    exact key2
  · intro k l hk hkl hl
    omega

theorem gt_irrefl_bool (a : ℚ) : decide (a > a) = false := by
  rw [decide_eq_false_iff_not]
  exact lt_irrefl a

theorem lt_irrefl_bool (a : ℚ) : decide (a < a) = false := by
  rw [decide_eq_false_iff_not]
  exact lt_irrefl a

theorem gen_temp_of_le (r : Int) (h : r ≤ 29) : gen_temp r = 298 - 10 * (r : ℚ) := by
  unfold gen_temp baseTemperature
  have hr : (r : ℚ) ≤ 29 := by exact_mod_cast h
  rw [max_eq_left (by push_cast; linarith)]
  push_cast
  ring

theorem gen_temp_of_ge (r : Int) (h : 30 ≤ r) : gen_temp r = 0 := by
  unfold gen_temp baseTemperature
  have hr : (30 : ℚ) ≤ (r : ℚ) := by exact_mod_cast h
  exact max_eq_right (by push_cast; linarith)

theorem gen_temp_nonneg (r : Int) : 0 ≤ gen_temp r := le_max_right _ _

theorem cu_copy_D2H_null (dev : Device) (h_dest d_src : Nat) (bytes : Int)
    (transferKind : GpuApiCallBehavior) (s : Nat) (h : h_dest = 0 ∨ d_src = 0 ∨ bytes = 0) :
    cu_copy_D2H dev h_dest d_src bytes transferKind s
      = { outcome := Outcome.returned (-1), calls := [] } := by
  unfold cu_copy_D2H
  rw [if_pos h]

theorem cu_copy_H2D_null (dev : Device) (d_dest h_src : Nat) (bytes : Int)
    (transferKind : GpuApiCallBehavior) (s : Nat) (h : d_dest = 0 ∨ h_src = 0 ∨ bytes = 0) :
    cu_copy_H2D dev d_dest h_src bytes transferKind s
      = { outcome := Outcome.returned (-1), calls := [] } := by
  unfold cu_copy_H2D
  rw [if_pos h]

theorem cu_copy_D2H_outcome (dev : Device) (h_dest d_src : Nat) (bytes : Int)
    (transferKind : GpuApiCallBehavior) (s : Nat) (h : ¬ (h_dest = 0 ∨ d_src = 0 ∨ bytes = 0)) :
    (cu_copy_D2H dev h_dest d_src bytes transferKind s).outcome ≠ Outcome.returned (-1) := by
  unfold cu_copy_D2H
  rw [if_neg h]
  cases transferKind <;> simp only [] <;> first | (split_ifs <;> simp) | simp

theorem cu_copy_H2D_outcome (dev : Device) (d_dest h_src : Nat) (bytes : Int)
    (transferKind : GpuApiCallBehavior) (s : Nat) (h : ¬ (d_dest = 0 ∨ h_src = 0 ∨ bytes = 0)) :
    (cu_copy_H2D dev d_dest h_src bytes transferKind s).outcome ≠ Outcome.returned (-1) := by
  unfold cu_copy_H2D
  rw [if_neg h]
  cases transferKind <;> simp only [] <;> first | (split_ifs <;> simp) | simp

theorem cu_copy_D2H_sync_ok (dev : Device) (h_dest d_src : Nat) (bytes : Int) (s : Nat)
    (h : ¬ (h_dest = 0 ∨ d_src = 0 ∨ bytes = 0))
    (hok : dev.hipMemcpy h_dest d_src bytes hipMemcpyKind.hipMemcpyDeviceToHost = true) :
    cu_copy_D2H dev h_dest d_src bytes GpuApiCallBehavior.Sync s
      = { outcome := Outcome.returned 0,
          calls := [DeviceCall.hipMemcpy h_dest d_src bytes
            hipMemcpyKind.hipMemcpyDeviceToHost] } := by
  unfold cu_copy_D2H
  rw [if_neg h]
  simp only [CU_RET_ERR, hok, Bool.or_true, if_true]

theorem cu_copy_D2H_async_ok (dev : Device) (h_dest d_src : Nat) (bytes : Int) (s : Nat)
    (h : ¬ (h_dest = 0 ∨ d_src = 0 ∨ bytes = 0))
    (hpin : dev.assertsEnabled = false ∨ dev.isHostMemoryPinned h_dest = true)
    (hok : dev.hipMemcpyAsync h_dest d_src bytes hipMemcpyKind.hipMemcpyDeviceToHost s = true) :
    cu_copy_D2H dev h_dest d_src bytes GpuApiCallBehavior.Async s
      = { outcome := Outcome.returned 0,
          calls := [DeviceCall.hipMemcpyAsync h_dest d_src bytes
            hipMemcpyKind.hipMemcpyDeviceToHost s] } := by
  unfold cu_copy_D2H
  rw [if_neg h]
  have ha : GMX_ASSERT dev (dev.isHostMemoryPinned h_dest) = true := by
    unfold GMX_ASSERT
    rcases hpin with e | e <;> simp [e]
  simp only [ha, CU_RET_ERR, hok, Bool.or_true, if_true]

theorem cu_copy_H2D_sync_ok (dev : Device) (d_dest h_src : Nat) (bytes : Int) (s : Nat)
    (h : ¬ (d_dest = 0 ∨ h_src = 0 ∨ bytes = 0))
    (hok : dev.hipMemcpy d_dest h_src bytes hipMemcpyKind.hipMemcpyHostToDevice = true) :
    cu_copy_H2D dev d_dest h_src bytes GpuApiCallBehavior.Sync s
      = { outcome := Outcome.returned 0,
          calls := [DeviceCall.hipMemcpy d_dest h_src bytes
            hipMemcpyKind.hipMemcpyHostToDevice] } := by
  unfold cu_copy_H2D
  rw [if_neg h]
  simp only [CU_RET_ERR, hok, Bool.or_true, if_true]

theorem cu_copy_H2D_async_ok (dev : Device) (d_dest h_src : Nat) (bytes : Int) (s : Nat)
    (h : ¬ (d_dest = 0 ∨ h_src = 0 ∨ bytes = 0))
    (hpin : dev.assertsEnabled = false ∨ dev.isHostMemoryPinned h_src = true)
    (hok : dev.hipMemcpyAsync d_dest h_src bytes hipMemcpyKind.hipMemcpyHostToDevice s = true) :
    cu_copy_H2D dev d_dest h_src bytes GpuApiCallBehavior.Async s
      = { outcome := Outcome.returned 0,
          calls := [DeviceCall.hipMemcpyAsync d_dest h_src bytes
            hipMemcpyKind.hipMemcpyHostToDevice s] } := by
  unfold cu_copy_H2D
  rw [if_neg h]
  have ha : GMX_ASSERT dev (dev.isHostMemoryPinned h_src) = true := by
    unfold GMX_ASSERT
    rcases hpin with e | e <;> simp [e]
  simp only [ha, CU_RET_ERR, hok, Bool.or_true, if_true]

theorem cu_copy_H2D_calls_not_alloc (dev : Device) (d_dest h_src : Nat) (bytes : Int)
    (transferKind : GpuApiCallBehavior) (s : Nat) :
    ∀ c ∈ (cu_copy_H2D dev d_dest h_src bytes transferKind s).calls, c.isAlloc = false := by
  unfold cu_copy_H2D
  by_cases h : d_dest = 0 ∨ h_src = 0 ∨ bytes = 0
  · rw [if_pos h]
    intro c hc
    exact absurd hc (List.not_mem_nil c)
  · rw [if_neg h]
    cases transferKind
    · simp only []
      split_ifs <;> intro c hc <;> simp only [List.mem_singleton] at hc <;> subst hc <;> rfl
    · simp only []
      split_ifs <;> intro c hc <;>
        first
          | exact absurd hc (List.not_mem_nil c)
          | (simp only [List.mem_singleton] at hc; subst hc; rfl)
    · intro c hc
      exact absurd hc (List.not_mem_nil c)

theorem cu_realloc_buffered_upload_src (dev : Device) (d_ptr h_src : Nat) (type_size : Int)
    (curr_alloc_size req_size : Int) (s : Nat) (bAsync : Bool) (calls : List DeviceCall)
    (h : h_src ≠ 0) :
    cu_realloc_buffered_upload dev d_ptr h_src type_size curr_alloc_size req_size s bAsync
        calls
      = { outcome := Outcome.discard
            (if bAsync then cu_copy_H2D_async dev d_ptr h_src (req_size * type_size) s
              else cu_copy_H2D_sync dev d_ptr h_src (req_size * type_size)).outcome
          d_dest := some d_ptr, curr_size := req_size, curr_alloc_size := curr_alloc_size
          calls := calls ++
            (if bAsync then cu_copy_H2D_async dev d_ptr h_src (req_size * type_size) s
              else cu_copy_H2D_sync dev d_ptr h_src (req_size * type_size)).calls } := by
  unfold cu_realloc_buffered_upload
  simp only [if_pos h]

theorem cu_realloc_buffered_upload_nosrc (dev : Device) (d_ptr h_src : Nat) (type_size : Int)
    (curr_alloc_size req_size : Int) (s : Nat) (bAsync : Bool) (calls : List DeviceCall)
    (h : ¬ h_src ≠ 0) :
    cu_realloc_buffered_upload dev d_ptr h_src type_size curr_alloc_size req_size s bAsync
        calls
      = { outcome := Outcome.returned (), d_dest := some d_ptr, curr_size := req_size,
          curr_alloc_size := curr_alloc_size, calls := calls } := by
  unfold cu_realloc_buffered_upload
  simp only [if_neg h]

/-- The last part of `cu_realloc_buffered` sets the size, keeps the allocation and adds
only copies to the runtime calls; without a host source it returns. -/
theorem cu_realloc_buffered_upload_spec (dev : Device) (d_ptr h_src : Nat) (type_size : Int)
    (curr_alloc_size req_size : Int) (s : Nat) (bAsync : Bool) (calls : List DeviceCall) :
    (cu_realloc_buffered_upload dev d_ptr h_src type_size curr_alloc_size req_size s bAsync
        calls).curr_size = req_size
    ∧ (cu_realloc_buffered_upload dev d_ptr h_src type_size curr_alloc_size req_size s bAsync
        calls).curr_alloc_size = curr_alloc_size
    ∧ (cu_realloc_buffered_upload dev d_ptr h_src type_size curr_alloc_size req_size s bAsync
        calls).d_dest = some d_ptr
    ∧ (∃ extra : List DeviceCall,
        (cu_realloc_buffered_upload dev d_ptr h_src type_size curr_alloc_size req_size s bAsync
          calls).calls = calls ++ extra ∧ ∀ c ∈ extra, c.isAlloc = false)
    ∧ (h_src = 0 →
        (cu_realloc_buffered_upload dev d_ptr h_src type_size curr_alloc_size req_size s bAsync
          calls).outcome = Outcome.returned ()) := by
  by_cases h : h_src ≠ 0
  · rw [cu_realloc_buffered_upload_src dev d_ptr h_src type_size curr_alloc_size req_size s
      bAsync calls h]
    refine ⟨rfl, rfl, rfl, ⟨_, rfl, ?_⟩, fun h0 => absurd h0 h⟩
    cases bAsync
    · simp only [Bool.false_eq_true, if_false]
      exact cu_copy_H2D_calls_not_alloc dev d_ptr h_src _ _ _
    · simp only [if_true]
      exact cu_copy_H2D_calls_not_alloc dev d_ptr h_src _ _ _
  · rw [cu_realloc_buffered_upload_nosrc dev d_ptr h_src type_size curr_alloc_size req_size s
      bAsync calls h]
    exact ⟨rfl, rfl, rfl,
      ⟨[], (List.append_nil _).symm, fun c hc => absurd hc (List.not_mem_nil c)⟩, fun _ => rfl⟩

theorem cu_realloc_buffered_skip (dev : Device) (d_dest : Option Nat) (h_src : Nat)
    (type_size curr_size curr_alloc_size req_size : Int) (s : Nat) (bAsync : Bool)
    (h : d_dest = none ∨ req_size < 0) :
    cu_realloc_buffered dev d_dest h_src type_size curr_size curr_alloc_size req_size s bAsync
      = { outcome := Outcome.returned (), d_dest := d_dest, curr_size := curr_size,
          curr_alloc_size := curr_alloc_size, calls := [] } := by
  unfold cu_realloc_buffered
  cases d_dest with
  | none => rfl
  | some p =>
    have h2 : req_size < 0 := by
      rcases h with h | h
      · exact absurd h (Option.some_ne_none p)
      · exact h
    simp only [if_pos h2]

theorem cu_realloc_buffered_fits (dev : Device) (p h_src : Nat)
    (type_size curr_size curr_alloc_size req_size : Int) (s : Nat) (bAsync : Bool)
    (hreq : req_size ≥ 0) (h : ¬ req_size > curr_alloc_size) :
    cu_realloc_buffered dev (some p) h_src type_size curr_size curr_alloc_size req_size s
        bAsync
      = cu_realloc_buffered_upload dev p h_src type_size curr_alloc_size req_size s bAsync
          [] := by
  unfold cu_realloc_buffered
  have h2 : ¬ req_size < 0 := by omega
  simp only [if_neg h2, if_neg h]

/-- The branch of `cu_realloc_buffered` that reallocates, when the calls it makes succeed
or are not checked: the old buffer is freed if there was one, a new one is allocated and
the last part runs on the new pointer. -/
theorem cu_realloc_buffered_grows (dev : Device) (p h_src : Nat)
    (type_size curr_size curr_alloc_size req_size : Int) (s : Nat) (bAsync : Bool)
    (hreq : req_size ≥ 0) (h : req_size > curr_alloc_size)
    (hfree : dev.checkErrors = true → curr_alloc_size ≥ 0 → p ≠ 0 → dev.hipFree p = true)
    (hmalloc : dev.checkErrors = true →
      (dev.hipMalloc p (dev.over_alloc_large req_size * type_size)).1 = true) :
    ∃ calls : List DeviceCall,
      cu_realloc_buffered dev (some p) h_src type_size curr_size curr_alloc_size req_size s
          bAsync
        = cu_realloc_buffered_upload dev
            (dev.hipMalloc p (dev.over_alloc_large req_size * type_size)).2 h_src type_size
            (dev.over_alloc_large req_size) req_size s bAsync calls := by
  unfold cu_realloc_buffered
  have h2 : ¬ req_size < 0 := by omega
  have hm : CU_RET_ERR dev (dev.hipMalloc p (dev.over_alloc_large req_size * type_size)).1
      = true := by
    unfold CU_RET_ERR
    cases hc : dev.checkErrors
    · rfl
    · rw [hmalloc hc]
      rfl
  simp only [if_neg h2, if_pos h]
  by_cases ha : curr_alloc_size ≥ 0
  · simp only [if_pos ha]
    have hf : ¬ (p ≠ 0 ∧ CU_RET_ERR dev (dev.hipFree p) = false) := by
      rintro ⟨hp, hfalse⟩
      unfold CU_RET_ERR at hfalse
      cases hc : dev.checkErrors
      · rw [hc] at hfalse
        exact Bool.noConfusion hfalse
      · rw [hc, hfree hc ha hp] at hfalse
        exact Bool.noConfusion hfalse
    unfold cu_free_buffered
    simp only [if_neg hf, hm, if_true]
    exact ⟨_, rfl⟩
  · simp only [if_neg ha, hm, if_true]
    exact ⟨_, rfl⟩

/-- Every path of `cu_realloc_buffered` that frees or allocates has passed the test
`req_size > *curr_alloc_size`. -/
theorem cu_realloc_buffered_alloc_only_when_needed (dev : Device) (p h_src : Nat)
    (type_size curr_size curr_alloc_size req_size : Int) (s : Nat) (bAsync : Bool)
    (hreq : req_size ≥ 0) (h : ¬ req_size > curr_alloc_size) :
    (cu_realloc_buffered dev (some p) h_src type_size curr_size curr_alloc_size req_size s
        bAsync).d_dest = some p
    ∧ (cu_realloc_buffered dev (some p) h_src type_size curr_size curr_alloc_size req_size s
        bAsync).curr_alloc_size = curr_alloc_size
    ∧ ∀ c ∈ (cu_realloc_buffered dev (some p) h_src type_size curr_size curr_alloc_size
        req_size s bAsync).calls, c.isAlloc = false := by
  rw [cu_realloc_buffered_fits dev p h_src type_size curr_size curr_alloc_size req_size s
    bAsync hreq h]
  obtain ⟨_, h2, h3, ⟨extra, h4, h5⟩, _⟩ := cu_realloc_buffered_upload_spec dev p h_src
    type_size curr_alloc_size req_size s bAsync []
  refine ⟨h3, h2, ?_⟩
  rw [h4]
  intro c hc
  rw [List.nil_append] at hc
  exact h5 c hc

theorem rf_kernel_eq_first_parameters (invsqrt : ℚ → ℚ) (nlist : t_nblist)
    (xx : Int → ℚ) (fr : t_forcerec) (mdatoms : t_mdatoms) (st : KState) :
    ((nb_kernel_ElecRF_VdwLJ_GeomW3P1_VF_sse2_double invsqrt nlist xx fr mdatoms st).f
        = (rf_VF_first_parameters invsqrt nlist xx fr mdatoms st).f
      ∧ (nb_kernel_ElecRF_VdwLJ_GeomW3P1_VF_sse2_double invsqrt nlist xx fr mdatoms st).fshift
        = (rf_VF_first_parameters invsqrt nlist xx fr mdatoms st).fshift
      ∧ (nb_kernel_ElecRF_VdwLJ_GeomW3P1_VF_sse2_double invsqrt nlist xx fr mdatoms
          st).energygrp_elec
        = (rf_VF_first_parameters invsqrt nlist xx fr mdatoms st).energygrp_elec
      ∧ (nb_kernel_ElecRF_VdwLJ_GeomW3P1_VF_sse2_double invsqrt nlist xx fr mdatoms
          st).energygrp_vdw
        = (rf_VF_first_parameters invsqrt nlist xx fr mdatoms st).energygrp_vdw)
    ∧ ((nb_kernel_ElecRF_VdwLJ_GeomW3P1_F_sse2_double invsqrt nlist xx fr mdatoms st).f
        = (rf_F_first_parameters invsqrt nlist xx fr mdatoms st).f
      ∧ (nb_kernel_ElecRF_VdwLJ_GeomW3P1_F_sse2_double invsqrt nlist xx fr mdatoms st).fshift
        = (rf_F_first_parameters invsqrt nlist xx fr mdatoms st).fshift) := by
  unfold rf_VF_first_parameters rf_F_first_parameters
  exact ⟨⟨rfl, rfl, rfl, rfl⟩, rfl, rfl⟩

theorem rf_first_eq_own_parameters (invsqrt : ℚ → ℚ) (nlist : t_nblist)
    (xx : Int → ℚ) (fr : t_forcerec) (mdatoms : t_mdatoms) (st : KState)
    (h : ∀ iidx : Int, 0 ≤ iidx → iidx < nlist.nri →
      mdatoms.chargeA (nlist.iinr iidx + 0) = mdatoms.chargeA (nlist.iinr 0 + 0)
      ∧ mdatoms.chargeA (nlist.iinr iidx + 1) = mdatoms.chargeA (nlist.iinr 0 + 1)
      ∧ mdatoms.chargeA (nlist.iinr iidx + 2) = mdatoms.chargeA (nlist.iinr 0 + 2)
      ∧ mdatoms.typeA (nlist.iinr iidx) = mdatoms.typeA (nlist.iinr 0)) :
    rf_VF_first_parameters invsqrt nlist xx fr mdatoms st
        = rf_VF_own_parameters invsqrt nlist xx fr mdatoms st
    ∧ rf_F_first_parameters invsqrt nlist xx fr mdatoms st
        = rf_F_own_parameters invsqrt nlist xx fr mdatoms st := by
  unfold rf_VF_first_parameters rf_F_first_parameters rf_VF_own_parameters
    rf_F_own_parameters
  constructor
  · apply forLoop_congr _ _ _ (nlist.nri - 0).toNat _ _ (le_refl _)
    intro k hk hkn t
    obtain ⟨e0, e1, e2, e3⟩ := h k hk hkn
    simp only [add_zero] at e0 ⊢
    rw [e0, e1, e2, e3]
  · apply forLoop_congr _ _ _ (nlist.nri - 0).toNat _ _ (le_refl _)
    intro k hk hkn t
    obtain ⟨e0, e1, e2, e3⟩ := h k hk hkn
    simp only [add_zero] at e0 ⊢
    rw [e0, e1, e2, e3]

theorem ex_rf_same_uniform :
    ∀ iidx : Int, 0 ≤ iidx → iidx < ex_rf_nlist_same.nri →
      ex_rf_mdatoms_same.chargeA (ex_rf_nlist_same.iinr iidx + 0)
          = ex_rf_mdatoms_same.chargeA (ex_rf_nlist_same.iinr 0 + 0)
      ∧ ex_rf_mdatoms_same.chargeA (ex_rf_nlist_same.iinr iidx + 1)
          = ex_rf_mdatoms_same.chargeA (ex_rf_nlist_same.iinr 0 + 1)
      ∧ ex_rf_mdatoms_same.chargeA (ex_rf_nlist_same.iinr iidx + 2)
          = ex_rf_mdatoms_same.chargeA (ex_rf_nlist_same.iinr 0 + 2)
      ∧ ex_rf_mdatoms_same.typeA (ex_rf_nlist_same.iinr iidx)
          = ex_rf_mdatoms_same.typeA (ex_rf_nlist_same.iinr 0) := by
  intro iidx h0 h1
  have h2 : iidx < 2 := h1
  have h3 : iidx = 0 ∨ iidx = 1 := by omega
  rcases h3 with rfl | rfl <;>
    norm_num [ex_rf_mdatoms_same, ex_rf_nlist_same]

/-- C1: for a partner range `[j_index_start, j_index_end)` of length `N ≥ 0`, the inner
loop shared by the kernels runs exactly `N / 2` full blocks, the `k`-th at slot
`j_index_start + 2k` (a full block handles that slot and the next), followed by the
remainder block at slot `j_index_end - 1` exactly when `N` is odd; the slots handled,
in order, are `j_index_start, …, j_index_end - 1`, each once and none outside. -/
theorem innerLoop_blocks_cover_range {σ : Type} (block2 block1 : Int → σ → σ)
    (j_index_start j_index_end : Int) (s : σ) (h : j_index_start ≤ j_index_end) :
    innerLoop block2 block1 j_index_start j_index_end s =
      (if (j_index_end - j_index_start).toNat % 2 = 1 then
        block1 (j_index_end - 1)
          ((List.range ((j_index_end - j_index_start).toNat / 2)).foldl
            (fun acc (k : Nat) => block2 (j_index_start + 2 * (k : Int)) acc) s)
      else
        (List.range ((j_index_end - j_index_start).toNat / 2)).foldl
            (fun acc (k : Nat) => block2 (j_index_start + 2 * (k : Int)) acc) s)
    ∧ innerLoop (fun jidx (t : List Int) => t ++ [jidx, jidx + 1])
        (fun jidx (t : List Int) => t ++ [jidx]) j_index_start j_index_end []
      = (List.range (j_index_end - j_index_start).toNat).map
          (fun (k : Nat) => j_index_start + (k : Int)) := by
  obtain ⟨N, hN⟩ : ∃ N : Nat, j_index_end = j_index_start + N :=
    ⟨(j_index_end - j_index_start).toNat, by omega⟩
  subst hN
  have hN2 : (j_index_start + (N : Int) - j_index_start).toNat = N := by omega
  rw [hN2]
  have hr : ((N % 2 : Nat) : Int) = 0 ∨ ((N % 2 : Nat) : Int) = 1 := by omega
  have e : j_index_start + (N : Int)
      = j_index_start + 2 * ((N / 2 : Nat) : Int) + ((N % 2 : Nat) : Int) := by omega
  have key : ∀ (τ : Type) (b2 b1 : Int → τ → τ) (t : τ),
      innerLoop b2 b1 j_index_start (j_index_start + (N : Int)) t =
        (if N % 2 = 1 then
          b1 (j_index_start + (N : Int) - 1)
            ((List.range (N / 2)).foldl
              (fun acc (k : Nat) => b2 (j_index_start + 2 * (k : Int)) acc) t)
        else
          (List.range (N / 2)).foldl
            (fun acc (k : Nat) => b2 (j_index_start + 2 * (k : Int)) acc) t) := by
    intro τ b2 b1 t
    unfold innerLoop
    simp only []
    by_cases hodd : N % 2 = 1
    · rw [if_pos hodd]
      conv_lhs => rw [e]
      rw [jLoop2_unroll _ _ _ hr]
      simp only []
      rw [if_pos (by omega)]
      congr 1
      omega
    · rw [if_neg hodd]
      conv_lhs => rw [e]
      rw [jLoop2_unroll _ _ _ hr]
      simp only []
      rw [if_neg (by omega)]
  refine ⟨key σ block2 block1 s, ?_⟩
  rw [key, block_slots_foldl]
  by_cases hodd : N % 2 = 1
  · rw [if_pos hodd]
    have e3 : N = 2 * (N / 2) + 1 := by omega
    conv_rhs => rw [e3, List.range_succ]
    simp
    omega
  · rw [if_neg hodd]
    have e3 : N = 2 * (N / 2) := by omega
    conv_rhs => rw [e3]

/-- A range of five slots starting at 3: two full blocks (slots 3,4 and 5,6) and the
remainder block at slot 7. -/
theorem innerLoop_blocks_cover_range_witness :
    (3 : Int) ≤ 8 ∧
    innerLoop (fun jidx (t : List Int) => t ++ [jidx, jidx + 1])
        (fun jidx (t : List Int) => t ++ [jidx]) 3 8 [] = [3, 4, 5, 6, 7] :=
  ⟨by decide, by
    have h := (innerLoop_blocks_cover_range (fun jidx (t : List Int) => t ++ [jidx, jidx + 1])
      (fun jidx (t : List Int) => t ++ [jidx]) 3 8 [] (by decide)).2
    rw [h]
    decide⟩

/-- C2: in exact arithmetic, for a neighbour list whose partner indices are pairwise
distinct within each outer entry, the force array, the shift-force table and the vdW
energy-group sums produced by the two-lane kernel
`nb_kernel_ElecNone_VdwLJSh_GeomP1P1_VF` equal those of the scalar reference that
visits the partners one at a time in list order. -/
theorem ljsh_VF_kernel_refines_scalar_reference (nlist : t_nblist) (xx : Int → ℚ)
    (fr : t_forcerec) (mdatoms : t_mdatoms) (st : KState) (hd : PartnersDistinct nlist) :
    (nb_kernel_ElecNone_VdwLJSh_GeomP1P1_VF_avx_128_fma_double nlist xx fr mdatoms st).f
        = (ref_ljsh_VF nlist xx fr mdatoms st).f
    ∧ (nb_kernel_ElecNone_VdwLJSh_GeomP1P1_VF_avx_128_fma_double nlist xx fr mdatoms st).fshift
        = (ref_ljsh_VF nlist xx fr mdatoms st).fshift
    ∧ (nb_kernel_ElecNone_VdwLJSh_GeomP1P1_VF_avx_128_fma_double nlist xx fr mdatoms
          st).energygrp_vdw
        = (ref_ljsh_VF nlist xx fr mdatoms st).energygrp_vdw := by
  have h := nb_kernel_ljsh_VF_eq_ref nlist xx fr mdatoms st hd
  unfold nb_kernel_ElecNone_VdwLJSh_GeomP1P1_VF_avx_128_fma_double
  simp only [h, and_self]

/-- The two-partner example list has distinct partners, and on it the two-lane kernel
agrees with the scalar reference. -/
theorem ljsh_VF_kernel_refines_scalar_reference_witness :
    PartnersDistinct ex_nlist_two
    ∧ (nb_kernel_ElecNone_VdwLJSh_GeomP1P1_VF_avx_128_fma_double ex_nlist_two ex_x ex_fr
        ex_mdatoms ex_st).f = (ref_ljsh_VF ex_nlist_two ex_x ex_fr ex_mdatoms ex_st).f :=
  have hd : PartnersDistinct ex_nlist_two := by
    intro iidx _ _ a b _ hab _
    show a + 1 ≠ b + 1
    omega
  ⟨hd, (ljsh_VF_kernel_refines_scalar_reference ex_nlist_two ex_x ex_fr ex_mdatoms ex_st hd).1⟩

/-- C3: for a neighbour list holding the single pair `(i, j)`, `i ≠ j`, whose squared
distance `rsq` is below the squared cutoff, the LJSh-P1P1 kernel (VF and F) adds
`fscal * d` to the force on `i` and subtracts the same vector from the force on `j`,
where `d = (x[i] + shift) - x[j]` and `fscal` is the Lennard-Jones force scalar:
the change of `f[j]` is the exact negation of the change of `f[i]`. -/
theorem ljsh_single_pair_newton_third_law (nlist : t_nblist) (xx : Int → ℚ)
    (fr : t_forcerec) (mdatoms : t_mdatoms) (st : KState) (i j : Int)
    (dx dy dz rsq c6 c12 : ℚ)
    (hnri : nlist.nri = 1) (hj : nlist.jindex 1 = nlist.jindex 0 + 1)
    (hi : nlist.iinr 0 = i) (hjj : nlist.jjnr (nlist.jindex 0) = j) (hij : i ≠ j)
    (hdx : dx = xx (DIM * i) + fr.shift_vec (DIM * nlist.shift 0) - xx (DIM * j))
    (hdy : dy = xx (DIM * i + 1) + fr.shift_vec (DIM * nlist.shift 0 + 1) - xx (DIM * j + 1))
    (hdz : dz = xx (DIM * i + 2) + fr.shift_vec (DIM * nlist.shift 0 + 2) - xx (DIM * j + 2))
    (hrsq : rsq = dx * dx + dy * dy + dz * dz)
    (hcut : rsq < fr.ic.rvdw * fr.ic.rvdw)
    (hc6 : c6 = fr.nbfp (2 * fr.ntype * mdatoms.typeA i + 2 * mdatoms.typeA j))
    (hc12 : c12 = fr.nbfp (2 * fr.ntype * mdatoms.typeA i + 2 * mdatoms.typeA j + 1)) :
    (∀ K : KState,
      (K = nb_kernel_ElecNone_VdwLJSh_GeomP1P1_VF_avx_128_fma_double nlist xx fr mdatoms st
        ∨ K = nb_kernel_ElecNone_VdwLJSh_GeomP1P1_F_avx_128_fma_double nlist xx fr mdatoms st) →
      (K.f (DIM * i) - st.f (DIM * i) = spec_lj_force_scalar c6 c12 rsq * dx
        ∧ K.f (DIM * i + 1) - st.f (DIM * i + 1) = spec_lj_force_scalar c6 c12 rsq * dy
        ∧ K.f (DIM * i + 2) - st.f (DIM * i + 2) = spec_lj_force_scalar c6 c12 rsq * dz)
      ∧ (K.f (DIM * j) - st.f (DIM * j) = -(K.f (DIM * i) - st.f (DIM * i))
        ∧ K.f (DIM * j + 1) - st.f (DIM * j + 1) = -(K.f (DIM * i + 1) - st.f (DIM * i + 1))
        ∧ K.f (DIM * j + 2) - st.f (DIM * j + 2)
            = -(K.f (DIM * i + 2) - st.f (DIM * i + 2)))) := by
  have hF : spec_lj_force_scalar c6 c12 rsq
      = ljsh_lane_fscal (fr.nbfp (2 * fr.ntype * mdatoms.typeA i + 2 * mdatoms.typeA j))
          (fr.nbfp (2 * fr.ntype * mdatoms.typeA i + 2 * mdatoms.typeA j + 1))
          (dx * dx + dy * dy + dz * dz) (fr.ic.rvdw * fr.ic.rvdw) := by
    rw [← hrsq, ← hc6, ← hc12, ljsh_lane_fscal, if_pos hcut]
  have hj' : nlist.jindex (0 + 1) = nlist.jindex 0 + 1 := hj
  have hji : DIM * i < DIM * j ∨ DIM * j + 2 < DIM * i := by unfold DIM; omega
  have hij' : DIM * j < DIM * i ∨ DIM * i + 2 < DIM * j := by unfold DIM; omega
  intro K hK
  rcases hK with hK | hK
  · rw [hK, ljsh_VF_kernel_single _ _ _ _ _ hnri,
      ljsh_VF_outer_single nlist xx fr.shift_vec mdatoms.typeA fr.nbfp fr.ntype _ _ 0 _ hj' i j
        hi hjj dx dy dz _ _ hdx hdy hdz hF rfl]
    simp only [bump_at0, bump_at1, bump_at2, bump_off (DIM * j) _ _ _ (DIM * i) (by omega),
      bump_off (DIM * j) _ _ _ (DIM * i + 1) (by omega),
      bump_off (DIM * j) _ _ _ (DIM * i + 2) (by omega),
      bump_off (DIM * i) _ _ _ (DIM * j) (by omega),
      bump_off (DIM * i) _ _ _ (DIM * j + 1) (by omega),
      bump_off (DIM * i) _ _ _ (DIM * j + 2) (by omega)]
    refine ⟨⟨?_, ?_, ?_⟩, ?_, ?_, ?_⟩ <;> ring
  · rw [hK, ljsh_F_kernel_single _ _ _ _ _ hnri,
      ljsh_F_outer_single nlist xx fr.shift_vec mdatoms.typeA fr.nbfp fr.ntype _ 0 _ hj' i j
        hi hjj dx dy dz _ hdx hdy hdz hF]
    simp only [bump_at0, bump_at1, bump_at2, bump_off (DIM * j) _ _ _ (DIM * i) (by omega),
      bump_off (DIM * j) _ _ _ (DIM * i + 1) (by omega),
      bump_off (DIM * j) _ _ _ (DIM * i + 2) (by omega),
      bump_off (DIM * i) _ _ _ (DIM * j) (by omega),
      bump_off (DIM * i) _ _ _ (DIM * j + 1) (by omega),
      bump_off (DIM * i) _ _ _ (DIM * j + 2) (by omega)]
    refine ⟨⟨?_, ?_, ?_⟩, ?_, ?_, ?_⟩ <;> ring

/-- On the single-pair example (particles 0 and 1 at distance 1, `c6 = 0`, `c12 = 1`,
cutoff 2) the VF kernel changes the x-force of particle 0 by `-1` and that of particle 1
by `+1`. -/
theorem ljsh_single_pair_newton_third_law_witness :
    (nb_kernel_ElecNone_VdwLJSh_GeomP1P1_VF_avx_128_fma_double ex_nlist_pair ex_x ex_fr
        ex_mdatoms ex_st).f (DIM * 0) - ex_st.f (DIM * 0) = -1
    ∧ (nb_kernel_ElecNone_VdwLJSh_GeomP1P1_VF_avx_128_fma_double ex_nlist_pair ex_x ex_fr
        ex_mdatoms ex_st).f (DIM * 1) - ex_st.f (DIM * 1) = 1 := by
  have h := ljsh_single_pair_newton_third_law ex_nlist_pair ex_x ex_fr ex_mdatoms ex_st 0 1
    (-1) 0 0 1 0 1 rfl rfl rfl rfl (by decide)
    (by norm_num [ex_x, ex_fr, ex_nlist_pair, DIM]) (by norm_num [ex_x, ex_fr, ex_nlist_pair, DIM])
    (by norm_num [ex_x, ex_fr, ex_nlist_pair, DIM]) (by norm_num) (by norm_num [ex_fr])
    (by norm_num [ex_fr, ex_mdatoms]) (by norm_num [ex_fr, ex_mdatoms]) _ (Or.inl rfl)
  obtain ⟨⟨h0, _, _⟩, h3, _, _⟩ := h
  rw [h3, h0]
  norm_num [spec_lj_force_scalar, spec_rinvsix]

/-- C4: the cutoff test of the LJSh-P1P1 kernel (VF and F) is the strict comparison
`rsq < rvdw * rvdw`. For a neighbour list holding the single pair `(i, j)`: when
`rvdw * rvdw ≤ rsq` (in particular at equality) the call leaves the whole force
array, the shift-force table and the vdW energy sums unchanged; when
`rsq < rvdw * rvdw` it adds the unmasked Lennard-Jones force `fscal * d` to `i`,
subtracts it from `j` and (VF) adds the unmasked shifted potential to the energy
group. In a full two-lane block each lane is masked by its own comparison: a lane
with `rvdw * rvdw ≤ rsq` adds nothing, whatever the other lane does. -/
theorem ljsh_cutoff_test_is_strict (nlist : t_nblist) (xx : Int → ℚ)
    (fr : t_forcerec) (mdatoms : t_mdatoms) (st : KState) (i j : Int)
    (dx dy dz rsq c6 c12 : ℚ)
    (hnri : nlist.nri = 1) (hj : nlist.jindex 1 = nlist.jindex 0 + 1)
    (hi : nlist.iinr 0 = i) (hjj : nlist.jjnr (nlist.jindex 0) = j) (hij : i ≠ j)
    (hdx : dx = xx (DIM * i) + fr.shift_vec (DIM * nlist.shift 0) - xx (DIM * j))
    (hdy : dy = xx (DIM * i + 1) + fr.shift_vec (DIM * nlist.shift 0 + 1) - xx (DIM * j + 1))
    (hdz : dz = xx (DIM * i + 2) + fr.shift_vec (DIM * nlist.shift 0 + 2) - xx (DIM * j + 2))
    (hrsq : rsq = dx * dx + dy * dy + dz * dz)
    (hc6 : c6 = fr.nbfp (2 * fr.ntype * mdatoms.typeA i + 2 * mdatoms.typeA j))
    (hc12 : c12 = fr.nbfp (2 * fr.ntype * mdatoms.typeA i + 2 * mdatoms.typeA j + 1)) :
    (∀ K : KState,
      (K = nb_kernel_ElecNone_VdwLJSh_GeomP1P1_VF_avx_128_fma_double nlist xx fr mdatoms st
        ∨ K = nb_kernel_ElecNone_VdwLJSh_GeomP1P1_F_avx_128_fma_double nlist xx fr mdatoms st) →
      (fr.ic.rvdw * fr.ic.rvdw ≤ rsq →
        K.f = st.f ∧ K.fshift = st.fshift ∧ K.energygrp_vdw = st.energygrp_vdw)
      ∧ (rsq < fr.ic.rvdw * fr.ic.rvdw →
        K.f (DIM * i) - st.f (DIM * i) = spec_lj_force_scalar c6 c12 rsq * dx
        ∧ K.f (DIM * i + 1) - st.f (DIM * i + 1) = spec_lj_force_scalar c6 c12 rsq * dy
        ∧ K.f (DIM * i + 2) - st.f (DIM * i + 2) = spec_lj_force_scalar c6 c12 rsq * dz
        ∧ K.f (DIM * j) - st.f (DIM * j) = -(spec_lj_force_scalar c6 c12 rsq * dx)
        ∧ K.f (DIM * j + 1) - st.f (DIM * j + 1) = -(spec_lj_force_scalar c6 c12 rsq * dy)
        ∧ K.f (DIM * j + 2) - st.f (DIM * j + 2) = -(spec_lj_force_scalar c6 c12 rsq * dz)))
    ∧ (rsq < fr.ic.rvdw * fr.ic.rvdw →
        (nb_kernel_ElecNone_VdwLJSh_GeomP1P1_VF_avx_128_fma_double nlist xx fr mdatoms
            st).energygrp_vdw (nlist.gid 0) - st.energygrp_vdw (nlist.gid 0)
          = spec_ljsh_potential c6 c12 fr.ic.sh_invrc6 (fr.ic.sh_invrc6 ^ 2) rsq)
    ∧ (∀ (ix iy iz : ℚ) (off jidx : Int) (s : LJShInner),
        nlist.jjnr jidx ≠ nlist.jjnr (jidx + 1) →
        (fr.ic.rvdw * fr.ic.rvdw ≤ lane_rsq ix iy iz xx (DIM * nlist.jjnr jidx) →
          ljsh_VF_block2 nlist xx mdatoms.typeA fr.nbfp
              (_mm_mul_pd (_mm_set1_pd fr.ic.rvdw) (_mm_set1_pd fr.ic.rvdw))
              (_mm_set1_pd fr.ic.sh_invrc6) (_mm_set1_pd ix) (_mm_set1_pd iy) (_mm_set1_pd iz)
              off jidx s
            = ljsh_lane1 s (DIM * nlist.jjnr (jidx + 1))
                (ix - xx (DIM * nlist.jjnr (jidx + 1))) (iy - xx (DIM * nlist.jjnr (jidx + 1) + 1)) (iz - xx (DIM * nlist.jjnr (jidx + 1) + 2))
                (if lane_rsq ix iy iz xx (DIM * nlist.jjnr (jidx + 1)) < fr.ic.rvdw * fr.ic.rvdw then
                  spec_lj_force_scalar (fr.nbfp (off + 2 * mdatoms.typeA (nlist.jjnr (jidx + 1))))
                    (fr.nbfp (off + 2 * mdatoms.typeA (nlist.jjnr (jidx + 1)) + 1))
                    (lane_rsq ix iy iz xx (DIM * nlist.jjnr (jidx + 1)))
                else 0)
                (if lane_rsq ix iy iz xx (DIM * nlist.jjnr (jidx + 1)) < fr.ic.rvdw * fr.ic.rvdw then
                  spec_ljsh_potential (fr.nbfp (off + 2 * mdatoms.typeA (nlist.jjnr (jidx + 1))))
                    (fr.nbfp (off + 2 * mdatoms.typeA (nlist.jjnr (jidx + 1)) + 1))
                    fr.ic.sh_invrc6 (fr.ic.sh_invrc6 ^ 2) (lane_rsq ix iy iz xx (DIM * nlist.jjnr (jidx + 1)))
                else 0))
        ∧ (fr.ic.rvdw * fr.ic.rvdw ≤ lane_rsq ix iy iz xx (DIM * nlist.jjnr (jidx + 1)) →
          ljsh_VF_block2 nlist xx mdatoms.typeA fr.nbfp
              (_mm_mul_pd (_mm_set1_pd fr.ic.rvdw) (_mm_set1_pd fr.ic.rvdw))
              (_mm_set1_pd fr.ic.sh_invrc6) (_mm_set1_pd ix) (_mm_set1_pd iy) (_mm_set1_pd iz)
              off jidx s
            = ljsh_lane0 s (DIM * nlist.jjnr jidx)
                (ix - xx (DIM * nlist.jjnr jidx)) (iy - xx (DIM * nlist.jjnr jidx + 1)) (iz - xx (DIM * nlist.jjnr jidx + 2))
                (if lane_rsq ix iy iz xx (DIM * nlist.jjnr jidx) < fr.ic.rvdw * fr.ic.rvdw then
                  spec_lj_force_scalar (fr.nbfp (off + 2 * mdatoms.typeA (nlist.jjnr jidx)))
                    (fr.nbfp (off + 2 * mdatoms.typeA (nlist.jjnr jidx) + 1))
                    (lane_rsq ix iy iz xx (DIM * nlist.jjnr jidx))
                else 0)
                (if lane_rsq ix iy iz xx (DIM * nlist.jjnr jidx) < fr.ic.rvdw * fr.ic.rvdw then
                  spec_ljsh_potential (fr.nbfp (off + 2 * mdatoms.typeA (nlist.jjnr jidx)))
                    (fr.nbfp (off + 2 * mdatoms.typeA (nlist.jjnr jidx) + 1))
                    fr.ic.sh_invrc6 (fr.ic.sh_invrc6 ^ 2) (lane_rsq ix iy iz xx (DIM * nlist.jjnr jidx))
                else 0))
        ∧ (fr.ic.rvdw * fr.ic.rvdw ≤ lane_rsq ix iy iz xx (DIM * nlist.jjnr jidx) →
          ljsh_F_block2 nlist xx mdatoms.typeA fr.nbfp
              (_mm_mul_pd (_mm_set1_pd fr.ic.rvdw) (_mm_set1_pd fr.ic.rvdw))
              (_mm_set1_pd ix) (_mm_set1_pd iy) (_mm_set1_pd iz) off jidx s
            = ljsh_lane1 s (DIM * nlist.jjnr (jidx + 1))
                (ix - xx (DIM * nlist.jjnr (jidx + 1))) (iy - xx (DIM * nlist.jjnr (jidx + 1) + 1)) (iz - xx (DIM * nlist.jjnr (jidx + 1) + 2))
                (if lane_rsq ix iy iz xx (DIM * nlist.jjnr (jidx + 1)) < fr.ic.rvdw * fr.ic.rvdw then
                  spec_lj_force_scalar (fr.nbfp (off + 2 * mdatoms.typeA (nlist.jjnr (jidx + 1))))
                    (fr.nbfp (off + 2 * mdatoms.typeA (nlist.jjnr (jidx + 1)) + 1))
                    (lane_rsq ix iy iz xx (DIM * nlist.jjnr (jidx + 1)))
                else 0) 0)
        ∧ (fr.ic.rvdw * fr.ic.rvdw ≤ lane_rsq ix iy iz xx (DIM * nlist.jjnr (jidx + 1)) →
          ljsh_F_block2 nlist xx mdatoms.typeA fr.nbfp
              (_mm_mul_pd (_mm_set1_pd fr.ic.rvdw) (_mm_set1_pd fr.ic.rvdw))
              (_mm_set1_pd ix) (_mm_set1_pd iy) (_mm_set1_pd iz) off jidx s
            = ljsh_lane0 s (DIM * nlist.jjnr jidx)
                (ix - xx (DIM * nlist.jjnr jidx)) (iy - xx (DIM * nlist.jjnr jidx + 1)) (iz - xx (DIM * nlist.jjnr jidx + 2))
                (if lane_rsq ix iy iz xx (DIM * nlist.jjnr jidx) < fr.ic.rvdw * fr.ic.rvdw then
                  spec_lj_force_scalar (fr.nbfp (off + 2 * mdatoms.typeA (nlist.jjnr jidx)))
                    (fr.nbfp (off + 2 * mdatoms.typeA (nlist.jjnr jidx) + 1))
                    (lane_rsq ix iy iz xx (DIM * nlist.jjnr jidx))
                else 0) 0)) := by
  have hrc : _mm_mul_pd (_mm_set1_pd fr.ic.rvdw) (_mm_set1_pd fr.ic.rvdw)
      = _mm_set1_pd (fr.ic.rvdw * fr.ic.rvdw) := rfl
  have hj' : nlist.jindex (0 + 1) = nlist.jindex 0 + 1 := hj
  have hji : DIM * i < DIM * j ∨ DIM * j + 2 < DIM * i := by unfold DIM; omega
  have hij' : DIM * j < DIM * i ∨ DIM * i + 2 < DIM * j := by unfold DIM; omega
  have hVF := ljsh_VF_outer_single nlist xx fr.shift_vec mdatoms.typeA fr.nbfp fr.ntype
    (fr.ic.rvdw * fr.ic.rvdw) fr.ic.sh_invrc6 0
    { f := st.f, fshift := st.fshift, energygrp_elec := st.energygrp_elec,
      energygrp_vdw := st.energygrp_vdw, inneriter := 0 } hj' i j hi hjj dx dy dz _ _
    hdx hdy hdz rfl rfl
  have hFk := ljsh_F_outer_single nlist xx fr.shift_vec mdatoms.typeA fr.nbfp fr.ntype
    (fr.ic.rvdw * fr.ic.rvdw) 0
    { f := st.f, fshift := st.fshift, energygrp_elec := st.energygrp_elec,
      energygrp_vdw := st.energygrp_vdw, inneriter := 0 } hj' i j hi hjj dx dy dz _
    hdx hdy hdz rfl
  rw [← hrsq, ← hc6, ← hc12] at hVF hFk
  refine ⟨?_, ?_, ?_⟩
  · intro K hK
    constructor
    · intro hge
      have hn : ¬ rsq < fr.ic.rvdw * fr.ic.rvdw := not_lt.mpr hge
      rw [ljsh_lane_fscal_of_not_lt _ _ _ _ hn] at hVF hFk
      rw [ljsh_lane_vvdw_of_not_lt _ _ _ _ _ hn] at hVF
      rcases hK with hK | hK
      · rw [hK, ljsh_VF_kernel_single _ _ _ _ _ hnri, hVF]
        simp only [mul_zero, bump_zero, sub_zero, add_zero, store_self, and_self]
      · rw [hK, ljsh_F_kernel_single _ _ _ _ _ hnri, hFk]
        simp only [mul_zero, bump_zero, sub_zero, add_zero, and_self]
    · intro hlt
      simp only [ljsh_lane_fscal, if_pos hlt] at hVF hFk
      rcases hK with hK | hK
      · rw [hK, ljsh_VF_kernel_single _ _ _ _ _ hnri, hVF]
        simp only [bump_at0, bump_at1, bump_at2,
          bump_off (DIM * j) _ _ _ (DIM * i) (by omega),
          bump_off (DIM * j) _ _ _ (DIM * i + 1) (by omega),
          bump_off (DIM * j) _ _ _ (DIM * i + 2) (by omega),
          bump_off (DIM * i) _ _ _ (DIM * j) (by omega),
          bump_off (DIM * i) _ _ _ (DIM * j + 1) (by omega),
          bump_off (DIM * i) _ _ _ (DIM * j + 2) (by omega)]
        refine ⟨?_, ?_, ?_, ?_, ?_, ?_⟩ <;> ring
      · rw [hK, ljsh_F_kernel_single _ _ _ _ _ hnri, hFk]
        simp only [bump_at0, bump_at1, bump_at2,
          bump_off (DIM * j) _ _ _ (DIM * i) (by omega),
          bump_off (DIM * j) _ _ _ (DIM * i + 1) (by omega),
          bump_off (DIM * j) _ _ _ (DIM * i + 2) (by omega),
          bump_off (DIM * i) _ _ _ (DIM * j) (by omega),
          bump_off (DIM * i) _ _ _ (DIM * j + 1) (by omega),
          bump_off (DIM * i) _ _ _ (DIM * j + 2) (by omega)]
        refine ⟨?_, ?_, ?_, ?_, ?_, ?_⟩ <;> ring
  · intro hlt
    simp only [ljsh_lane_vvdw, if_pos hlt] at hVF
    rw [ljsh_VF_kernel_single _ _ _ _ _ hnri, hVF]
    simp only [store, if_true]
    ring
  · intro ix iy iz off jidx s hne
    refine ⟨?_, ?_, ?_, ?_⟩
    · intro hge
      have hn := not_lt.mpr hge
      rw [hrc, ljsh_VF_block2_closed _ _ _ _ _ _ _ _ _ _ _ _ hne,
        ljsh_lane_fscal_of_not_lt _ _ _ _ hn, ljsh_lane_vvdw_of_not_lt _ _ _ _ _ hn,
        ljsh_lane0_zero]
      rfl
    · intro hge
      have hn := not_lt.mpr hge
      rw [hrc, ljsh_VF_block2_closed _ _ _ _ _ _ _ _ _ _ _ _ hne,
        ljsh_lane_fscal_of_not_lt _ _ _ _ hn, ljsh_lane_vvdw_of_not_lt _ _ _ _ _ hn,
        ljsh_lane1_zero]
      rfl
    · intro hge
      have hn := not_lt.mpr hge
      rw [hrc, ljsh_F_block2_closed _ _ _ _ _ _ _ _ _ _ _ hne,
        ljsh_lane_fscal_of_not_lt _ _ _ _ hn, ljsh_lane0_zero]
      rfl
    · intro hge
      have hn := not_lt.mpr hge
      rw [hrc, ljsh_F_block2_closed _ _ _ _ _ _ _ _ _ _ _ hne,
        ljsh_lane_fscal_of_not_lt _ _ _ _ hn, ljsh_lane1_zero]
      rfl

/-- On the single-pair example with the cutoff radius lowered to 1, equal to the pair
distance, the VF kernel leaves the force array unchanged. -/
theorem ljsh_cutoff_test_is_strict_witness :
    ((1 : ℚ) * 1 ≤ 1)
    ∧ (nb_kernel_ElecNone_VdwLJSh_GeomP1P1_VF_avx_128_fma_double ex_nlist_pair ex_x
        { ex_fr with ic := { ex_fr.ic with rvdw := 1 } } ex_mdatoms ex_st).f = ex_st.f := by
  have h := ljsh_cutoff_test_is_strict ex_nlist_pair ex_x
    { ex_fr with ic := { ex_fr.ic with rvdw := 1 } } ex_mdatoms ex_st 0 1
    (-1) 0 0 1 0 1 rfl rfl rfl rfl (by decide)
    (by norm_num [ex_x, ex_fr, ex_nlist_pair, DIM]) (by norm_num [ex_x, ex_fr, ex_nlist_pair, DIM])
    (by norm_num [ex_x, ex_fr, ex_nlist_pair, DIM]) (by norm_num)
    (by norm_num [ex_fr, ex_mdatoms]) (by norm_num [ex_fr, ex_mdatoms])
  exact ⟨by norm_num, ((h.1 _ (Or.inl rfl)).1 (by norm_num)).1⟩

/-- C5 as stated fails: in the water example the cutoff radii are 1 and the pair
(site 0, partner) has squared distance exactly `1 = 1 * 1`, yet the VF kernel adds
`3/5` to the electrostatic energy group, `4/5` to the x-force of site 0 and `-4/5` to the
x-force of the partner. -/
theorem rf_pair_at_cutoff_contributes :
    lane_rsq (ex_rf_x 0) (ex_rf_x 1) (ex_rf_x 2) ex_rf_x (DIM * 3)
        = ex_rf_fr.ic.rcoulomb * ex_rf_fr.ic.rcoulomb
    ∧ ex_rf_fr.ic.rvdw = ex_rf_fr.ic.rcoulomb
    ∧ (nb_kernel_ElecRF_VdwLJ_GeomW3P1_VF_sse2_double invsqrt_tab ex_rf_nlist ex_rf_x ex_rf_fr
        ex_rf_mdatoms ex_st).energygrp_elec 0 = 3 / 5
    ∧ (nb_kernel_ElecRF_VdwLJ_GeomW3P1_VF_sse2_double invsqrt_tab ex_rf_nlist ex_rf_x ex_rf_fr
        ex_rf_mdatoms ex_st).f 0 = 4 / 5
    ∧ (nb_kernel_ElecRF_VdwLJ_GeomW3P1_VF_sse2_double invsqrt_tab ex_rf_nlist ex_rf_x ex_rf_fr
        ex_rf_mdatoms ex_st).f 9 = -(4 / 5) := by
  have hK := rf_VF_kernel_f invsqrt_tab ex_rf_nlist ex_rf_x ex_rf_fr ex_rf_mdatoms ex_st
  have h1 : ex_rf_nlist.nri = 1 := rfl
  have hq0 : ex_rf_fr.ic.epsfac * ex_rf_mdatoms.chargeA (ex_rf_nlist.iinr 0 + 0) = 1 := by
    norm_num [ex_rf_fr, ex_rf_mdatoms, ex_rf_nlist]
  have hq1 : ex_rf_fr.ic.epsfac * ex_rf_mdatoms.chargeA (ex_rf_nlist.iinr 0 + 1) = 0 := by
    norm_num [ex_rf_fr, ex_rf_mdatoms, ex_rf_nlist]
  have hq2 : ex_rf_fr.ic.epsfac * ex_rf_mdatoms.chargeA (ex_rf_nlist.iinr 0 + 2) = 0 := by
    norm_num [ex_rf_fr, ex_rf_mdatoms, ex_rf_nlist]
  have hoff : 2 * ex_rf_fr.ntype * ex_rf_mdatoms.typeA (ex_rf_nlist.iinr 0 + 0) = 0 := by
    norm_num [ex_rf_fr, ex_rf_mdatoms, ex_rf_nlist]
  rw [h1, forLoop_one, hq0, hq1, hq2, hoff,
    ex_rf_outer_eval 1 0 _ ex_rf_nlist rfl rfl rfl rfl] at hK
  rw [hK]
  refine ⟨?_, rfl, ?_, ?_, ?_⟩
  · norm_num [lane_rsq, ex_rf_x, ex_rf_fr, DIM]
  · norm_num [store, ex_rf_nlist, ex_st]
  · norm_num [bump, ex_st]
  · norm_num [bump, ex_st]

/-- C5, amended: the RF-LJ-W3P1 kernel (VF and F) has no cutoff test. Its outputs do
not depend on the cutoff radii `rvdw` and `rcoulomb` of the force record, so a pair
whose squared distance equals the squared cutoff radius contributes exactly what it
contributes under any other cutoff radius. -/
theorem rf_kernel_has_no_cutoff_test (invsqrt : ℚ → ℚ) (nlist : t_nblist) (xx : Int → ℚ)
    (fr : t_forcerec) (mdatoms : t_mdatoms) (st : KState) (rvdw' rcoulomb' : ℚ) :
    nb_kernel_ElecRF_VdwLJ_GeomW3P1_VF_sse2_double invsqrt nlist xx
        { fr with ic := { fr.ic with rvdw := rvdw', rcoulomb := rcoulomb' } } mdatoms st
      = nb_kernel_ElecRF_VdwLJ_GeomW3P1_VF_sse2_double invsqrt nlist xx fr mdatoms st
    ∧ nb_kernel_ElecRF_VdwLJ_GeomW3P1_F_sse2_double invsqrt nlist xx
        { fr with ic := { fr.ic with rvdw := rvdw', rcoulomb := rcoulomb' } } mdatoms st
      = nb_kernel_ElecRF_VdwLJ_GeomW3P1_F_sse2_double invsqrt nlist xx fr mdatoms st :=
  ⟨rfl, rfl⟩

/-- C7: for a pair `(i, j)` within cutoff (single-pair neighbour list) the VF kernel
adds to the vdW energy group the potential
`c12/12 * (rinvsix^2 - sh_invrc6^2) - c6/6 * (rinvsix - sh_invrc6)` and uses the
force scalar `(c12 * rinvsix - c6) * rinvsix / rsq`, where `rinvsix = 1/rsq^3 = 1/r^6`
and `(c6, c12) = nbfp[2*ntype*type_i + 2*type_j], nbfp[2*ntype*type_i + 2*type_j + 1]`;
with `c6 = 0`, `c12 = 1`, `sh_invrc6 = 0`, `rsq = 1` the potential is `1/12` and the
force scalar is `1`. In a full two-lane block whose lanes are both within cutoff each
lane receives the same two values for its own partner. -/
theorem ljsh_VF_pair_potential_and_force (nlist : t_nblist) (xx : Int → ℚ)
    (fr : t_forcerec) (mdatoms : t_mdatoms) (st : KState) (i j : Int)
    (dx dy dz rsq c6 c12 : ℚ)
    (hnri : nlist.nri = 1) (hj : nlist.jindex 1 = nlist.jindex 0 + 1)
    (hi : nlist.iinr 0 = i) (hjj : nlist.jjnr (nlist.jindex 0) = j) (hij : i ≠ j)
    (hdx : dx = xx (DIM * i) + fr.shift_vec (DIM * nlist.shift 0) - xx (DIM * j))
    (hdy : dy = xx (DIM * i + 1) + fr.shift_vec (DIM * nlist.shift 0 + 1) - xx (DIM * j + 1))
    (hdz : dz = xx (DIM * i + 2) + fr.shift_vec (DIM * nlist.shift 0 + 2) - xx (DIM * j + 2))
    (hrsq : rsq = dx * dx + dy * dy + dz * dz)
    (hcut : rsq < fr.ic.rvdw * fr.ic.rvdw)
    (hc6 : c6 = fr.nbfp (2 * fr.ntype * mdatoms.typeA i + 2 * mdatoms.typeA j))
    (hc12 : c12 = fr.nbfp (2 * fr.ntype * mdatoms.typeA i + 2 * mdatoms.typeA j + 1)) :
    ((nb_kernel_ElecNone_VdwLJSh_GeomP1P1_VF_avx_128_fma_double nlist xx fr mdatoms
          st).energygrp_vdw (nlist.gid 0) - st.energygrp_vdw (nlist.gid 0)
        = c12 / 12 * ((1 / rsq ^ 3) ^ 2 - fr.ic.sh_invrc6 ^ 2)
            - c6 / 6 * (1 / rsq ^ 3 - fr.ic.sh_invrc6))
    ∧ ((nb_kernel_ElecNone_VdwLJSh_GeomP1P1_VF_avx_128_fma_double nlist xx fr mdatoms st).f
          (DIM * i) - st.f (DIM * i)
        = (c12 * (1 / rsq ^ 3) - c6) * (1 / rsq ^ 3) / rsq * dx)
    ∧ ((nb_kernel_ElecNone_VdwLJSh_GeomP1P1_VF_avx_128_fma_double nlist xx fr mdatoms st).f
          (DIM * i + 1) - st.f (DIM * i + 1)
        = (c12 * (1 / rsq ^ 3) - c6) * (1 / rsq ^ 3) / rsq * dy)
    ∧ ((nb_kernel_ElecNone_VdwLJSh_GeomP1P1_VF_avx_128_fma_double nlist xx fr mdatoms st).f
          (DIM * i + 2) - st.f (DIM * i + 2)
        = (c12 * (1 / rsq ^ 3) - c6) * (1 / rsq ^ 3) / rsq * dz)
    ∧ (c6 = 0 → c12 = 1 → fr.ic.sh_invrc6 = 0 → rsq = 1 →
        (nb_kernel_ElecNone_VdwLJSh_GeomP1P1_VF_avx_128_fma_double nlist xx fr mdatoms
            st).energygrp_vdw (nlist.gid 0) - st.energygrp_vdw (nlist.gid 0) = 1 / 12
        ∧ (nb_kernel_ElecNone_VdwLJSh_GeomP1P1_VF_avx_128_fma_double nlist xx fr mdatoms st).f
            (DIM * i) - st.f (DIM * i) = 1 * dx
        ∧ (nb_kernel_ElecNone_VdwLJSh_GeomP1P1_VF_avx_128_fma_double nlist xx fr mdatoms st).f
            (DIM * i + 1) - st.f (DIM * i + 1) = 1 * dy
        ∧ (nb_kernel_ElecNone_VdwLJSh_GeomP1P1_VF_avx_128_fma_double nlist xx fr mdatoms st).f
            (DIM * i + 2) - st.f (DIM * i + 2) = 1 * dz)
    ∧ (∀ (ix iy iz : ℚ) (jidx : Int) (s : LJShInner),
        nlist.jjnr jidx ≠ nlist.jjnr (jidx + 1) →
        lane_rsq ix iy iz xx (DIM * nlist.jjnr jidx) < fr.ic.rvdw * fr.ic.rvdw →
        lane_rsq ix iy iz xx (DIM * nlist.jjnr (jidx + 1)) < fr.ic.rvdw * fr.ic.rvdw →
        ljsh_VF_block2 nlist xx mdatoms.typeA fr.nbfp
            (_mm_mul_pd (_mm_set1_pd fr.ic.rvdw) (_mm_set1_pd fr.ic.rvdw))
            (_mm_set1_pd fr.ic.sh_invrc6) (_mm_set1_pd ix) (_mm_set1_pd iy) (_mm_set1_pd iz)
            (2 * fr.ntype * mdatoms.typeA i) jidx s
          = ljsh_lane1
              (ljsh_lane0 s (DIM * nlist.jjnr jidx)
                (ix - xx (DIM * nlist.jjnr jidx))
                (iy - xx (DIM * nlist.jjnr jidx + 1))
                (iz - xx (DIM * nlist.jjnr jidx + 2))
                (spec_lj_force_scalar
                  (fr.nbfp (2 * fr.ntype * mdatoms.typeA i + 2 * mdatoms.typeA (nlist.jjnr jidx)))
                  (fr.nbfp
                    (2 * fr.ntype * mdatoms.typeA i + 2 * mdatoms.typeA (nlist.jjnr jidx) + 1))
                  (lane_rsq ix iy iz xx (DIM * nlist.jjnr jidx)))
                (spec_ljsh_potential
                  (fr.nbfp (2 * fr.ntype * mdatoms.typeA i + 2 * mdatoms.typeA (nlist.jjnr jidx)))
                  (fr.nbfp
                    (2 * fr.ntype * mdatoms.typeA i + 2 * mdatoms.typeA (nlist.jjnr jidx) + 1))
                  fr.ic.sh_invrc6 (fr.ic.sh_invrc6 ^ 2)
                  (lane_rsq ix iy iz xx (DIM * nlist.jjnr jidx))))
              (DIM * nlist.jjnr (jidx + 1))
              (ix - xx (DIM * nlist.jjnr (jidx + 1)))
              (iy - xx (DIM * nlist.jjnr (jidx + 1) + 1))
              (iz - xx (DIM * nlist.jjnr (jidx + 1) + 2))
              (spec_lj_force_scalar
                (fr.nbfp
                  (2 * fr.ntype * mdatoms.typeA i + 2 * mdatoms.typeA (nlist.jjnr (jidx + 1))))
                (fr.nbfp
                  (2 * fr.ntype * mdatoms.typeA i + 2 * mdatoms.typeA (nlist.jjnr (jidx + 1)) + 1))
                (lane_rsq ix iy iz xx (DIM * nlist.jjnr (jidx + 1))))
              (spec_ljsh_potential
                (fr.nbfp
                  (2 * fr.ntype * mdatoms.typeA i + 2 * mdatoms.typeA (nlist.jjnr (jidx + 1))))
                (fr.nbfp
                  (2 * fr.ntype * mdatoms.typeA i + 2 * mdatoms.typeA (nlist.jjnr (jidx + 1)) + 1))
                fr.ic.sh_invrc6 (fr.ic.sh_invrc6 ^ 2)
                (lane_rsq ix iy iz xx (DIM * nlist.jjnr (jidx + 1))))) := by
  have hrc : _mm_mul_pd (_mm_set1_pd fr.ic.rvdw) (_mm_set1_pd fr.ic.rvdw)
      = _mm_set1_pd (fr.ic.rvdw * fr.ic.rvdw) := rfl
  have hj' : nlist.jindex (0 + 1) = nlist.jindex 0 + 1 := hj
  have hji : DIM * i + 2 < DIM * j ∨ DIM * j + 2 < DIM * i := by unfold DIM; omega
  have hVF := ljsh_VF_outer_single nlist xx fr.shift_vec mdatoms.typeA fr.nbfp fr.ntype
    (fr.ic.rvdw * fr.ic.rvdw) fr.ic.sh_invrc6 0
    { f := st.f, fshift := st.fshift, energygrp_elec := st.energygrp_elec,
      energygrp_vdw := st.energygrp_vdw, inneriter := 0 } hj' i j hi hjj dx dy dz _ _
    hdx hdy hdz rfl rfl
  rw [← hrsq, ← hc6, ← hc12] at hVF
  simp only [ljsh_lane_fscal, ljsh_lane_vvdw, if_pos hcut] at hVF
  have hE : (nb_kernel_ElecNone_VdwLJSh_GeomP1P1_VF_avx_128_fma_double nlist xx fr mdatoms
          st).energygrp_vdw (nlist.gid 0) - st.energygrp_vdw (nlist.gid 0)
        = c12 / 12 * ((1 / rsq ^ 3) ^ 2 - fr.ic.sh_invrc6 ^ 2)
            - c6 / 6 * (1 / rsq ^ 3 - fr.ic.sh_invrc6) := by
    rw [ljsh_VF_kernel_single _ _ _ _ _ hnri, hVF]
    simp only [store, if_true, spec_ljsh_potential, spec_rinvsix]
    ring
  have hF : ∀ (k : Int) (d : ℚ), bump (DIM * i) (dx * spec_lj_force_scalar c6 c12 rsq)
        (dy * spec_lj_force_scalar c6 c12 rsq) (dz * spec_lj_force_scalar c6 c12 rsq)
        (DIM * i + k) = d * spec_lj_force_scalar c6 c12 rsq → (k = 0 ∨ k = 1 ∨ k = 2) →
      (nb_kernel_ElecNone_VdwLJSh_GeomP1P1_VF_avx_128_fma_double nlist xx fr mdatoms st).f
          (DIM * i + k) - st.f (DIM * i + k)
        = (c12 * (1 / rsq ^ 3) - c6) * (1 / rsq ^ 3) / rsq * d := by
    intro k d hb hk
    rw [ljsh_VF_kernel_single _ _ _ _ _ hnri, hVF]
    simp only [bump_off (DIM * j) _ _ _ (DIM * i + k) (by omega)]
    rw [hb]
    simp only [spec_lj_force_scalar, spec_rinvsix]
    ring
  have h0 := hF 0 dx (by rw [add_zero, bump_at0]) (Or.inl rfl)
  have h1 := hF 1 dy (by rw [bump_at1]) (Or.inr (Or.inl rfl))
  have h2 := hF 2 dz (by rw [bump_at2]) (Or.inr (Or.inr rfl))
  rw [add_zero] at h0
  refine ⟨hE, h0, h1, h2, ?_, ?_⟩
  · intro e6 e12 esh ersq
    rw [hE, h0, h1, h2, e6, e12, esh, ersq]
    norm_num
  · intro ix iy iz jidx s hne hA hB
    rw [hrc, ljsh_VF_block2_closed _ _ _ _ _ _ _ _ _ _ _ _ hne]
    simp only [ljsh_lane_fscal, ljsh_lane_vvdw, if_pos hA, if_pos hB]

/-- On the single-pair example the VF kernel adds `1/12 * (1 - 1/64^2)` to the vdW
energy group, the shifted potential at distance 1 for cutoff 2. -/
theorem ljsh_VF_pair_potential_and_force_witness :
    (nb_kernel_ElecNone_VdwLJSh_GeomP1P1_VF_avx_128_fma_double ex_nlist_pair ex_x ex_fr
        ex_mdatoms ex_st).energygrp_vdw (ex_nlist_pair.gid 0)
      - ex_st.energygrp_vdw (ex_nlist_pair.gid 0) = 1365 / 16384 := by
  have h := ljsh_VF_pair_potential_and_force ex_nlist_pair ex_x ex_fr ex_mdatoms ex_st 0 1
    (-1) 0 0 1 0 1 rfl rfl rfl rfl (by decide)
    (by norm_num [ex_x, ex_fr, ex_nlist_pair, DIM]) (by norm_num [ex_x, ex_fr, ex_nlist_pair, DIM])
    (by norm_num [ex_x, ex_fr, ex_nlist_pair, DIM]) (by norm_num) (by norm_num [ex_fr])
    (by norm_num [ex_fr, ex_mdatoms]) (by norm_num [ex_fr, ex_mdatoms])
  rw [h.1]
  norm_num [ex_fr]

/-- C8: with the shift constant `sh_invrc6 = 1/rvdw⁶`, the unmasked cutoff-shifted
Lennard-Jones potential computed by the VF kernel is exactly zero at `r = rvdw`
(`rsq = rvdw * rvdw`), in both lanes and for every `c6` and `c12`. -/
theorem ljsh_VF_potential_vanishes_at_cutoff (fr : t_forcerec) (c6_00 c12_00 : M128d)
    (hsh : fr.ic.sh_invrc6 = 1 / fr.ic.rvdw ^ 6) :
    (ljsh_VF_lennard_jones c6_00 c12_00
        (avx128fma_inv_d (_mm_mul_pd (_mm_set1_pd fr.ic.rvdw) (_mm_set1_pd fr.ic.rvdw)))
        (_mm_set1_pd fr.ic.sh_invrc6)).vvdw = _mm_setzero_pd := by
  simp only [ljsh_VF_lennard_jones, avx128fma_inv_d, _mm_mul_pd, _mm_set1_pd, _mm_msub_pd,
    _mm_nmacc_pd, _mm_setzero_pd, hsh, M128d_eta, one_div, mul_inv, inv_pow]
  constructor <;> ring

/-- At cutoff radius 2 the shift constant is `1/64` and the unmasked potential of the
example force record is zero whatever the coefficients. -/
theorem ljsh_VF_potential_vanishes_at_cutoff_witness :
    (ljsh_VF_lennard_jones ⟨3, 5⟩ ⟨7, 11⟩
        (avx128fma_inv_d (_mm_mul_pd (_mm_set1_pd ex_fr.ic.rvdw) (_mm_set1_pd ex_fr.ic.rvdw)))
        (_mm_set1_pd ex_fr.ic.sh_invrc6)).vvdw = _mm_setzero_pd :=
  ljsh_VF_potential_vanishes_at_cutoff ex_fr ⟨3, 5⟩ ⟨7, 11⟩ (by norm_num [ex_fr])

/-- C9 as stated fails: with `c6 = 0`, `c12 = 1`, cutoff radius 1 and
`sh_invrc6 = 1/1⁶`, the unmasked force scalar at `r = 1` is 1 in both lanes, for the VF
and for the F kernel. -/
theorem ljsh_force_scalar_nonzero_at_cutoff :
    (1 : ℚ) = 1 / 1 ^ 6
    ∧ (ljsh_VF_lennard_jones (_mm_set1_pd 0) (_mm_set1_pd 1)
        (avx128fma_inv_d (_mm_mul_pd (_mm_set1_pd 1) (_mm_set1_pd 1)))
        (_mm_set1_pd 1)).fvdw = _mm_set1_pd 1
    ∧ ljsh_F_lennard_jones (_mm_set1_pd 0) (_mm_set1_pd 1)
        (avx128fma_inv_d (_mm_mul_pd (_mm_set1_pd 1) (_mm_set1_pd 1))) = _mm_set1_pd 1
    ∧ _mm_set1_pd 1 ≠ _mm_setzero_pd := by
  refine ⟨by norm_num, ?_, ?_, ?_⟩
  · simp only [ljsh_VF_lennard_jones, avx128fma_inv_d, _mm_mul_pd, _mm_set1_pd, _mm_sub_pd,
      M128d_eta]
    norm_num
  · simp only [ljsh_F_lennard_jones, avx128fma_inv_d, _mm_mul_pd, _mm_set1_pd, _mm_msub_pd,
      M128d_eta]
    norm_num
  · simp only [_mm_set1_pd, _mm_setzero_pd, ne_eq, M128d_eta]
    norm_num

/-- C9, amended: the force is not shifted. At `r = rvdw ≠ 0` the unmasked force scalar
of the VF and of the F kernel is the plain Lennard-Jones value
`(c12 / rvdw¹² - c6 / rvdw⁶) / rvdw²` in each lane, whatever `sh_invrc6` is; a lane
is zero exactly when `c12 = c6 * rvdw⁶`. -/
theorem ljsh_force_scalar_at_cutoff (rvdw : ℚ) (c6_00 c12_00 sh_vdw_invrcut6 : M128d)
    (hrc : rvdw ≠ 0) :
    (ljsh_VF_lennard_jones c6_00 c12_00
        (avx128fma_inv_d (_mm_mul_pd (_mm_set1_pd rvdw) (_mm_set1_pd rvdw)))
        sh_vdw_invrcut6).fvdw
      = ⟨(c12_00.lo / rvdw ^ 12 - c6_00.lo / rvdw ^ 6) / rvdw ^ 2,
          (c12_00.hi / rvdw ^ 12 - c6_00.hi / rvdw ^ 6) / rvdw ^ 2⟩
    ∧ ljsh_F_lennard_jones c6_00 c12_00
        (avx128fma_inv_d (_mm_mul_pd (_mm_set1_pd rvdw) (_mm_set1_pd rvdw)))
      = ⟨(c12_00.lo / rvdw ^ 12 - c6_00.lo / rvdw ^ 6) / rvdw ^ 2,
          (c12_00.hi / rvdw ^ 12 - c6_00.hi / rvdw ^ 6) / rvdw ^ 2⟩
    ∧ ((c12_00.lo / rvdw ^ 12 - c6_00.lo / rvdw ^ 6) / rvdw ^ 2 = 0
        ↔ c12_00.lo = c6_00.lo * rvdw ^ 6)
    ∧ ((c12_00.hi / rvdw ^ 12 - c6_00.hi / rvdw ^ 6) / rvdw ^ 2 = 0
        ↔ c12_00.hi = c6_00.hi * rvdw ^ 6) := by
  have key : ∀ a b : ℚ, ((a / rvdw ^ 12 - b / rvdw ^ 6) / rvdw ^ 2 = 0 ↔ a = b * rvdw ^ 6) := by
    intro a b
    have h2 : rvdw ^ 2 ≠ 0 := pow_ne_zero 2 hrc
    have h6 : rvdw ^ 6 ≠ 0 := pow_ne_zero 6 hrc
    have h12 : rvdw ^ 12 ≠ 0 := pow_ne_zero 12 hrc
    rw [div_eq_zero_iff]
    constructor
    · intro h
      rcases h with h | h
      · field_simp at h
        have : rvdw ^ 6 * (a - b * rvdw ^ 6) = 0 := by linear_combination h
        rcases mul_eq_zero.mp this with h' | h'
        · exact absurd h' h6
        · linarith
      · exact absurd h h2
    · intro h
      left
      rw [h]
      field_simp
      ring
  refine ⟨?_, ?_, key _ _, key _ _⟩
  · simp only [ljsh_VF_lennard_jones, avx128fma_inv_d, _mm_mul_pd, _mm_set1_pd, _mm_sub_pd,
      M128d_eta]
    constructor <;> (field_simp; ring)
  · simp only [ljsh_F_lennard_jones, avx128fma_inv_d, _mm_mul_pd, _mm_set1_pd, _mm_msub_pd,
      M128d_eta]
    constructor <;> (field_simp; ring)

/-- At cutoff radius 2 with `c6 = 0`, `c12 = 1` the unmasked force scalar is
`1 / 2¹⁴`, not zero. -/
theorem ljsh_force_scalar_at_cutoff_witness :
    (2 : ℚ) ≠ 0
    ∧ (ljsh_VF_lennard_jones (_mm_set1_pd 0) (_mm_set1_pd 1)
        (avx128fma_inv_d (_mm_mul_pd (_mm_set1_pd 2) (_mm_set1_pd 2)))
        (_mm_set1_pd (1 / 64))).fvdw
      = ⟨(1 / 2 ^ 12 - 0 / 2 ^ 6) / 2 ^ 2, (1 / 2 ^ 12 - 0 / 2 ^ 6) / 2 ^ 2⟩ :=
  ⟨by norm_num,
    (ljsh_force_scalar_at_cutoff 2 (_mm_set1_pd 0) (_mm_set1_pd 1) (_mm_set1_pd (1 / 64))
      (by norm_num)).1⟩

/-- C10 as stated fails: in the two-entry water example the second entry (water 0,
charged) is evaluated with the charges of the first entry's water 4 (uncharged), so the
VF kernel adds nothing to the electrostatic energy, whereas evaluating each entry with
its own parameters adds `3/5`. -/
theorem rf_kernel_not_own_parameters :
    (nb_kernel_ElecRF_VdwLJ_GeomW3P1_VF_sse2_double invsqrt_tab ex_rf_nlist2 ex_rf_x ex_rf_fr
        ex_rf_mdatoms ex_st).energygrp_elec 0 = 0
    ∧ (rf_VF_own_parameters invsqrt_tab ex_rf_nlist2 ex_rf_x ex_rf_fr ex_rf_mdatoms
        ex_st).energygrp_elec 0 = 3 / 5 := by
  have hK := rf_VF_kernel_f invsqrt_tab ex_rf_nlist2 ex_rf_x ex_rf_fr ex_rf_mdatoms ex_st
  have h2 : ex_rf_nlist2.nri = 2 := rfl
  have hq0 : ex_rf_fr.ic.epsfac * ex_rf_mdatoms.chargeA (ex_rf_nlist2.iinr 0 + 0) = 0 := by
    norm_num [ex_rf_fr, ex_rf_mdatoms, ex_rf_nlist2]
  have hq1 : ex_rf_fr.ic.epsfac * ex_rf_mdatoms.chargeA (ex_rf_nlist2.iinr 0 + 1) = 0 := by
    norm_num [ex_rf_fr, ex_rf_mdatoms, ex_rf_nlist2]
  have hq2 : ex_rf_fr.ic.epsfac * ex_rf_mdatoms.chargeA (ex_rf_nlist2.iinr 0 + 2) = 0 := by
    norm_num [ex_rf_fr, ex_rf_mdatoms, ex_rf_nlist2]
  have hoff : 2 * ex_rf_fr.ntype * ex_rf_mdatoms.typeA (ex_rf_nlist2.iinr 0 + 0) = 0 := by
    norm_num [ex_rf_fr, ex_rf_mdatoms, ex_rf_nlist2]
  have hp0 : ex_rf_fr.ic.epsfac * ex_rf_mdatoms.chargeA (ex_rf_nlist2.iinr 1 + 0) = 1 := by
    norm_num [ex_rf_fr, ex_rf_mdatoms, ex_rf_nlist2]
  have hp1 : ex_rf_fr.ic.epsfac * ex_rf_mdatoms.chargeA (ex_rf_nlist2.iinr 1 + 1) = 0 := by
    norm_num [ex_rf_fr, ex_rf_mdatoms, ex_rf_nlist2]
  have hp2 : ex_rf_fr.ic.epsfac * ex_rf_mdatoms.chargeA (ex_rf_nlist2.iinr 1 + 2) = 0 := by
    norm_num [ex_rf_fr, ex_rf_mdatoms, ex_rf_nlist2]
  have hpoff : 2 * ex_rf_fr.ntype * ex_rf_mdatoms.typeA (ex_rf_nlist2.iinr 1) = 0 := by
    norm_num [ex_rf_fr, ex_rf_mdatoms, ex_rf_nlist2]
  constructor
  · rw [h2, forLoop_two, hq0, hq1, hq2, hoff,
      rf_VF_outer_empty _ _ _ _ _ _ _ _ _ _ _ _ _ _ 0 _ (by decide),
      ex_rf_outer_eval 0 1 _ ex_rf_nlist2 (by decide) (by decide) (by decide) rfl] at hK
    rw [hK]
    norm_num [store, ex_rf_nlist2, ex_st]
  · unfold rf_VF_own_parameters
    rw [h2, forLoop_two]
    rw [rf_VF_outer_empty _ _ _ _ _ _ _ _ _ _ _ _ _ _ 0 _ (by decide), hp0, hp1, hp2, hpoff,
      ex_rf_outer_eval 1 1 _ ex_rf_nlist2 (by decide) (by decide) (by decide) rfl]
    norm_num [store, ex_rf_nlist2, ex_st]

/-- C10, amended: the RF-LJ-W3P1 kernel (VF and F) evaluates every outer entry with the
parameters of the first entry's particles, `charge[iinr[0]+s]` for `s = 0, 1, 2` and
`vdwtype[iinr[0]]`, set up once before the outer loop: for every input its forces, shift
forces and energy sums are those of the reading in which each entry is evaluated with
the first entry's parameters. When every outer entry has the same three site charges and
vdW type as the first, this coincides with evaluating each entry with its own
parameters. -/
theorem rf_kernel_first_entry_parameters (invsqrt : ℚ → ℚ) (nlist : t_nblist)
    (xx : Int → ℚ) (fr : t_forcerec) (mdatoms : t_mdatoms) (st : KState) :
    (((nb_kernel_ElecRF_VdwLJ_GeomW3P1_VF_sse2_double invsqrt nlist xx fr mdatoms st).f
        = (rf_VF_first_parameters invsqrt nlist xx fr mdatoms st).f
      ∧ (nb_kernel_ElecRF_VdwLJ_GeomW3P1_VF_sse2_double invsqrt nlist xx fr mdatoms st).fshift
        = (rf_VF_first_parameters invsqrt nlist xx fr mdatoms st).fshift
      ∧ (nb_kernel_ElecRF_VdwLJ_GeomW3P1_VF_sse2_double invsqrt nlist xx fr mdatoms
          st).energygrp_elec
        = (rf_VF_first_parameters invsqrt nlist xx fr mdatoms st).energygrp_elec
      ∧ (nb_kernel_ElecRF_VdwLJ_GeomW3P1_VF_sse2_double invsqrt nlist xx fr mdatoms
          st).energygrp_vdw
        = (rf_VF_first_parameters invsqrt nlist xx fr mdatoms st).energygrp_vdw)
      ∧ ((nb_kernel_ElecRF_VdwLJ_GeomW3P1_F_sse2_double invsqrt nlist xx fr mdatoms st).f
          = (rf_F_first_parameters invsqrt nlist xx fr mdatoms st).f
        ∧ (nb_kernel_ElecRF_VdwLJ_GeomW3P1_F_sse2_double invsqrt nlist xx fr mdatoms st).fshift
          = (rf_F_first_parameters invsqrt nlist xx fr mdatoms st).fshift))
    ∧ ((∀ iidx : Int, 0 ≤ iidx → iidx < nlist.nri →
        mdatoms.chargeA (nlist.iinr iidx + 0) = mdatoms.chargeA (nlist.iinr 0 + 0)
        ∧ mdatoms.chargeA (nlist.iinr iidx + 1) = mdatoms.chargeA (nlist.iinr 0 + 1)
        ∧ mdatoms.chargeA (nlist.iinr iidx + 2) = mdatoms.chargeA (nlist.iinr 0 + 2)
        ∧ mdatoms.typeA (nlist.iinr iidx) = mdatoms.typeA (nlist.iinr 0)) →
      ((nb_kernel_ElecRF_VdwLJ_GeomW3P1_VF_sse2_double invsqrt nlist xx fr mdatoms st).f
          = (rf_VF_own_parameters invsqrt nlist xx fr mdatoms st).f
        ∧ (nb_kernel_ElecRF_VdwLJ_GeomW3P1_VF_sse2_double invsqrt nlist xx fr mdatoms
            st).fshift
          = (rf_VF_own_parameters invsqrt nlist xx fr mdatoms st).fshift
        ∧ (nb_kernel_ElecRF_VdwLJ_GeomW3P1_VF_sse2_double invsqrt nlist xx fr mdatoms
            st).energygrp_elec
          = (rf_VF_own_parameters invsqrt nlist xx fr mdatoms st).energygrp_elec
        ∧ (nb_kernel_ElecRF_VdwLJ_GeomW3P1_VF_sse2_double invsqrt nlist xx fr mdatoms
            st).energygrp_vdw
          = (rf_VF_own_parameters invsqrt nlist xx fr mdatoms st).energygrp_vdw)
      ∧ ((nb_kernel_ElecRF_VdwLJ_GeomW3P1_F_sse2_double invsqrt nlist xx fr mdatoms st).f
          = (rf_F_own_parameters invsqrt nlist xx fr mdatoms st).f
        ∧ (nb_kernel_ElecRF_VdwLJ_GeomW3P1_F_sse2_double invsqrt nlist xx fr mdatoms
            st).fshift
          = (rf_F_own_parameters invsqrt nlist xx fr mdatoms st).fshift)) := by
  have hfirst := rf_kernel_eq_first_parameters invsqrt nlist xx fr mdatoms st
  refine ⟨hfirst, ?_⟩
  intro h
  obtain ⟨eVF, eF⟩ := rf_first_eq_own_parameters invsqrt nlist xx fr mdatoms st h
  rw [← eVF, ← eF]
  exact hfirst

/-- On the list of two identical waters the second entry's own particles (4, 5, 6) are
not the first entry's (0, 1, 2) but carry the same charges and vdW type, so the kernel
agrees with the reading in which each entry is evaluated with its own parameters. -/
theorem rf_kernel_first_entry_parameters_witness :
    (∀ iidx : Int, 0 ≤ iidx → iidx < ex_rf_nlist_same.nri →
      ex_rf_mdatoms_same.chargeA (ex_rf_nlist_same.iinr iidx + 0)
          = ex_rf_mdatoms_same.chargeA (ex_rf_nlist_same.iinr 0 + 0)
      ∧ ex_rf_mdatoms_same.chargeA (ex_rf_nlist_same.iinr iidx + 1)
          = ex_rf_mdatoms_same.chargeA (ex_rf_nlist_same.iinr 0 + 1)
      ∧ ex_rf_mdatoms_same.chargeA (ex_rf_nlist_same.iinr iidx + 2)
          = ex_rf_mdatoms_same.chargeA (ex_rf_nlist_same.iinr 0 + 2)
      ∧ ex_rf_mdatoms_same.typeA (ex_rf_nlist_same.iinr iidx)
          = ex_rf_mdatoms_same.typeA (ex_rf_nlist_same.iinr 0))
    ∧ ex_rf_nlist_same.nri = 2
    ∧ ex_rf_nlist_same.iinr 1 ≠ ex_rf_nlist_same.iinr 0
    ∧ (nb_kernel_ElecRF_VdwLJ_GeomW3P1_VF_sse2_double invsqrt_tab ex_rf_nlist_same ex_rf_x_same
        ex_rf_fr ex_rf_mdatoms_same ex_st).f
      = (rf_VF_own_parameters invsqrt_tab ex_rf_nlist_same ex_rf_x_same ex_rf_fr
          ex_rf_mdatoms_same ex_st).f
    ∧ (nb_kernel_ElecRF_VdwLJ_GeomW3P1_VF_sse2_double invsqrt_tab ex_rf_nlist_same ex_rf_x_same
        ex_rf_fr ex_rf_mdatoms_same ex_st).energygrp_elec
      = (rf_VF_own_parameters invsqrt_tab ex_rf_nlist_same ex_rf_x_same ex_rf_fr
          ex_rf_mdatoms_same ex_st).energygrp_elec :=
  ⟨ex_rf_same_uniform, rfl, by decide,
    ((rf_kernel_first_entry_parameters invsqrt_tab ex_rf_nlist_same ex_rf_x_same ex_rf_fr
      ex_rf_mdatoms_same ex_st).2 ex_rf_same_uniform).1.1,
    ((rf_kernel_first_entry_parameters invsqrt_tab ex_rf_nlist_same ex_rf_x_same ex_rf_fr
      ex_rf_mdatoms_same ex_st).2 ex_rf_same_uniform).1.2.2.1⟩

/-- C11 as stated fails: in the water example with two vdW types, site 1 (particle 1,
vdW type 1, uncharged) and the partner (particle 3, vdW type 0) at distance 2 have the
Lennard-Jones coefficients `c6 = 0`, `c12 = 1`, so a single-particle reaction-field plus
Lennard-Jones pair between site 1 and the partner produces the x-force `1/8192`, yet the
VF kernel adds nothing to the force of site 1: it evaluates no Lennard-Jones term for
sites 1 and 2. -/
theorem rf_site1_has_no_lennard_jones :
    (nb_kernel_ElecRF_VdwLJ_GeomW3P1_VF_sse2_double invsqrt_tab ex_rf_nlist ex_rf_x ex_rf_fr2
        ex_rf_mdatoms2 ex_st).f (DIM * 1) - ex_st.f (DIM * 1) = 0
    ∧ spec_rf_lj_force_scalar
        (ex_rf_fr2.ic.epsfac * ex_rf_mdatoms2.chargeA 1 * ex_rf_mdatoms2.chargeA 3)
        (ex_rf_fr2.nbfp (2 * ex_rf_fr2.ntype * ex_rf_mdatoms2.typeA 1
          + 2 * ex_rf_mdatoms2.typeA 3))
        (ex_rf_fr2.nbfp (2 * ex_rf_fr2.ntype * ex_rf_mdatoms2.typeA 1
          + 2 * ex_rf_mdatoms2.typeA 3 + 1))
        (invsqrt_tab 4) 4 ex_rf_fr2.ic.k_rf
        * (ex_rf_x (DIM * 1) + ex_rf_fr2.shift_vec (DIM * ex_rf_nlist.shift 0)
            - ex_rf_x (DIM * 3)) = 1 / 8192 := by
  have hf := rf_VF_kernel_single_pair_f invsqrt_tab ex_rf_nlist ex_rf_x ex_rf_fr2
    ex_rf_mdatoms2 ex_st 0 3 1 0 0 0 0 1 0 0 2 0 0 3 0 0 1 4 9 1 (1 / 2) (1 / 3)
    (4 / 5) 0 0 rfl rfl rfl rfl
    (by norm_num [ex_rf_fr2, ex_rf_fr, ex_rf_mdatoms2, ex_rf_mdatoms])
    (by norm_num [ex_rf_fr2, ex_rf_fr, ex_rf_mdatoms2, ex_rf_mdatoms])
    (by norm_num [ex_rf_fr2, ex_rf_fr, ex_rf_mdatoms2, ex_rf_mdatoms])
    (by norm_num [ex_rf_fr2, ex_rf_fr, ex_rf_mdatoms2, ex_rf_mdatoms])
    (by norm_num [ex_rf_fr2, ex_rf_fr, ex_rf_mdatoms2, ex_rf_mdatoms])
    (by norm_num [ex_rf_x, ex_rf_fr2, ex_rf_fr, ex_rf_nlist, DIM])
    (by norm_num [ex_rf_x, ex_rf_fr2, ex_rf_fr, ex_rf_nlist, DIM])
    (by norm_num [ex_rf_x, ex_rf_fr2, ex_rf_fr, ex_rf_nlist, DIM])
    (by norm_num [ex_rf_x, ex_rf_fr2, ex_rf_fr, ex_rf_nlist, DIM])
    (by norm_num [ex_rf_x, ex_rf_fr2, ex_rf_fr, ex_rf_nlist, DIM])
    (by norm_num [ex_rf_x, ex_rf_fr2, ex_rf_fr, ex_rf_nlist, DIM])
    (by norm_num [ex_rf_x, ex_rf_fr2, ex_rf_fr, ex_rf_nlist, DIM])
    (by norm_num [ex_rf_x, ex_rf_fr2, ex_rf_fr, ex_rf_nlist, DIM])
    (by norm_num [ex_rf_x, ex_rf_fr2, ex_rf_fr, ex_rf_nlist, DIM])
    (by norm_num) (by norm_num) (by norm_num)
    (by norm_num [invsqrt_tab]) (by norm_num [invsqrt_tab]) (by norm_num [invsqrt_tab])
    (by norm_num [ex_rf_fr2, ex_rf_fr]) (by norm_num) (by norm_num)
  constructor
  · rw [hf]
    norm_num [bump, DIM, ex_st]
  · norm_num [spec_rf_lj_force_scalar, spec_rf_force_scalar, spec_lj_force_scalar,
      spec_rinvsix, ex_rf_fr2, ex_rf_fr, ex_rf_mdatoms2, ex_rf_mdatoms, ex_rf_x, ex_rf_nlist,
      invsqrt_tab, DIM]

/-- C11, amended: for a neighbour list holding one water (sites `i, i+1, i+2`) and one
partner `j`, the RF-LJ-W3P1 VF kernel adds the force `F_s * d_s` to site `s` and subtracts
the sum of the three per-site increments from the force of `j`. The increment of site 0
is the force of a single-particle reaction-field plus Lennard-Jones pair between site 0
(its own charge and vdW type) and `j` (where the inverse square root is exact). The
increments of sites 1 and 2 are the forces of reaction-field-only pairs with the sites'
own charges: no Lennard-Jones term is evaluated for them, so they equal the
reaction-field plus Lennard-Jones pair forces whenever the Lennard-Jones coefficients
of the site's own vdW type with `j` are zero. -/
theorem rf_three_site_additivity (invsqrt : ℚ → ℚ) (nlist : t_nblist)
    (xx : Int → ℚ) (fr : t_forcerec) (mdatoms : t_mdatoms) (st : KState) (i j : Int)
    (qq0 qq1 qq2 c6 c12 : ℚ)
    (dx0 dy0 dz0 dx1 dy1 dz1 dx2 dy2 dz2 rsq0 rsq1 rsq2 rinv0 rinv1 rinv2 F0 F1 F2 : ℚ)
    (hnri : nlist.nri = 1) (hj : nlist.jindex 1 = nlist.jindex 0 + 1)
    (hi : nlist.iinr 0 = i) (hjj : nlist.jjnr (nlist.jindex 0) = j)
    (hij : j < i ∨ i + 2 < j)
    (hqq0 : qq0 = fr.ic.epsfac * mdatoms.chargeA i * mdatoms.chargeA j)
    (hqq1 : qq1 = fr.ic.epsfac * mdatoms.chargeA (i + 1) * mdatoms.chargeA j)
    (hqq2 : qq2 = fr.ic.epsfac * mdatoms.chargeA (i + 2) * mdatoms.chargeA j)
    (hc6 : c6 = fr.nbfp (2 * fr.ntype * mdatoms.typeA i + 2 * mdatoms.typeA j))
    (hc12 : c12 = fr.nbfp (2 * fr.ntype * mdatoms.typeA i + 2 * mdatoms.typeA j + 1))
    (hdx0 : dx0 = xx (DIM * i) + fr.shift_vec (DIM * nlist.shift 0) - xx (DIM * j))
    (hdy0 : dy0 = xx (DIM * i + 1) + fr.shift_vec (DIM * nlist.shift 0 + 1) - xx (DIM * j + 1))
    (hdz0 : dz0 = xx (DIM * i + 2) + fr.shift_vec (DIM * nlist.shift 0 + 2) - xx (DIM * j + 2))
    (hdx1 : dx1 = xx (DIM * i + 3) + fr.shift_vec (DIM * nlist.shift 0) - xx (DIM * j))
    (hdy1 : dy1 = xx (DIM * i + 4) + fr.shift_vec (DIM * nlist.shift 0 + 1) - xx (DIM * j + 1))
    (hdz1 : dz1 = xx (DIM * i + 5) + fr.shift_vec (DIM * nlist.shift 0 + 2) - xx (DIM * j + 2))
    (hdx2 : dx2 = xx (DIM * i + 6) + fr.shift_vec (DIM * nlist.shift 0) - xx (DIM * j))
    (hdy2 : dy2 = xx (DIM * i + 7) + fr.shift_vec (DIM * nlist.shift 0 + 1) - xx (DIM * j + 1))
    (hdz2 : dz2 = xx (DIM * i + 8) + fr.shift_vec (DIM * nlist.shift 0 + 2) - xx (DIM * j + 2))
    (hrsq0 : rsq0 = dx0 * dx0 + dy0 * dy0 + dz0 * dz0)
    (hrsq1 : rsq1 = dx1 * dx1 + dy1 * dy1 + dz1 * dz1)
    (hrsq2 : rsq2 = dx2 * dx2 + dy2 * dy2 + dz2 * dz2)
    (hrinv0 : rinv0 = invsqrt rsq0) (hrinv1 : rinv1 = invsqrt rsq1)
    (hrinv2 : rinv2 = invsqrt rsq2)
    (hF0 : F0 = spec_rf_force_scalar qq0 rinv0 fr.ic.k_rf
      + (c12 * ((rinv0 ^ 2) ^ 3) ^ 2 - c6 * (rinv0 ^ 2) ^ 3) * rinv0 ^ 2)
    (hF1 : F1 = spec_rf_force_scalar qq1 rinv1 fr.ic.k_rf)
    (hF2 : F2 = spec_rf_force_scalar qq2 rinv2 fr.ic.k_rf) :
    ∀ K : KState,
      K = nb_kernel_ElecRF_VdwLJ_GeomW3P1_VF_sse2_double invsqrt nlist xx fr mdatoms st →
      (K.f (DIM * i) - st.f (DIM * i) = F0 * dx0
        ∧ K.f (DIM * i + 1) - st.f (DIM * i + 1) = F0 * dy0
        ∧ K.f (DIM * i + 2) - st.f (DIM * i + 2) = F0 * dz0)
      ∧ (K.f (DIM * i + 3) - st.f (DIM * i + 3) = F1 * dx1
        ∧ K.f (DIM * i + 4) - st.f (DIM * i + 4) = F1 * dy1
        ∧ K.f (DIM * i + 5) - st.f (DIM * i + 5) = F1 * dz1)
      ∧ (K.f (DIM * i + 6) - st.f (DIM * i + 6) = F2 * dx2
        ∧ K.f (DIM * i + 7) - st.f (DIM * i + 7) = F2 * dy2
        ∧ K.f (DIM * i + 8) - st.f (DIM * i + 8) = F2 * dz2)
      ∧ (st.f (DIM * j) - K.f (DIM * j)
          = (K.f (DIM * i) - st.f (DIM * i)) + (K.f (DIM * i + 3) - st.f (DIM * i + 3))
            + (K.f (DIM * i + 6) - st.f (DIM * i + 6))
        ∧ st.f (DIM * j + 1) - K.f (DIM * j + 1)
          = (K.f (DIM * i + 1) - st.f (DIM * i + 1))
            + (K.f (DIM * i + 4) - st.f (DIM * i + 4))
            + (K.f (DIM * i + 7) - st.f (DIM * i + 7))
        ∧ st.f (DIM * j + 2) - K.f (DIM * j + 2)
          = (K.f (DIM * i + 2) - st.f (DIM * i + 2))
            + (K.f (DIM * i + 5) - st.f (DIM * i + 5))
            + (K.f (DIM * i + 8) - st.f (DIM * i + 8)))
      ∧ (rinv0 * rinv0 * rsq0 = 1 →
          F0 = spec_rf_lj_force_scalar qq0 c6 c12 rinv0 rsq0 fr.ic.k_rf)
      ∧ (fr.nbfp (2 * fr.ntype * mdatoms.typeA (i + 1) + 2 * mdatoms.typeA j) = 0 →
          fr.nbfp (2 * fr.ntype * mdatoms.typeA (i + 1) + 2 * mdatoms.typeA j + 1) = 0 →
          F1 = spec_rf_lj_force_scalar qq1
            (fr.nbfp (2 * fr.ntype * mdatoms.typeA (i + 1) + 2 * mdatoms.typeA j))
            (fr.nbfp (2 * fr.ntype * mdatoms.typeA (i + 1) + 2 * mdatoms.typeA j + 1))
            rinv1 rsq1 fr.ic.k_rf)
      ∧ (fr.nbfp (2 * fr.ntype * mdatoms.typeA (i + 2) + 2 * mdatoms.typeA j) = 0 →
          fr.nbfp (2 * fr.ntype * mdatoms.typeA (i + 2) + 2 * mdatoms.typeA j + 1) = 0 →
          F2 = spec_rf_lj_force_scalar qq2
            (fr.nbfp (2 * fr.ntype * mdatoms.typeA (i + 2) + 2 * mdatoms.typeA j))
            (fr.nbfp (2 * fr.ntype * mdatoms.typeA (i + 2) + 2 * mdatoms.typeA j + 1))
            rinv2 rsq2 fr.ic.k_rf) := by
  intro K hK
  have hd : DIM * j + 2 < DIM * i ∨ DIM * i + 8 < DIM * j := by unfold DIM; omega
  have hf := rf_VF_kernel_single_pair_f invsqrt nlist xx fr mdatoms st i j qq0 qq1 qq2 c6 c12
    dx0 dy0 dz0 dx1 dy1 dz1 dx2 dy2 dz2 rsq0 rsq1 rsq2 rinv0 rinv1 rinv2 F0 F1 F2
    hnri hj hi hjj hqq0 hqq1 hqq2 hc6 hc12 hdx0 hdy0 hdz0 hdx1 hdy1 hdz1 hdx2 hdy2 hdz2
    hrsq0 hrsq1 hrsq2 hrinv0 hrinv1 hrinv2 (by rw [hF0, spec_rf_force_scalar])
    (by rw [hF1, spec_rf_force_scalar]) (by rw [hF2, spec_rf_force_scalar])
  rw [← hK] at hf
  obtain ⟨⟨a0, a1, a2⟩, ⟨b0, b1, b2⟩, ⟨c0, c1, c2⟩, p0, p1, p2⟩ :=
    four_bump_eval st.f (DIM * i) (DIM * j) _ _ _ _ _ _ _ _ _ _ _ _ hd K.f hf
  refine ⟨⟨?_, ?_, ?_⟩, ⟨?_, ?_, ?_⟩, ⟨?_, ?_, ?_⟩, ⟨?_, ?_, ?_⟩, ?_, ?_, ?_⟩
  · rw [a0]; ring
  · rw [a1]; ring
  · rw [a2]; ring
  · rw [b0]; ring
  · rw [b1]; ring
  · rw [b2]; ring
  · rw [c0]; ring
  · rw [c1]; ring
  · rw [c2]; ring
  · rw [p0, a0, b0, c0]; ring
  · rw [p1, a1, b1, c1]; ring
  · rw [p2, a2, b2, c2]; ring
  · intro hex
    have hne : rsq0 ≠ 0 := by
      intro h0
      rw [h0, mul_zero] at hex
      exact zero_ne_one hex
    have hu : rinv0 ^ 2 = 1 / rsq0 := by
      field_simp
      rw [← hex]; ring
    rw [hF0, spec_rf_lj_force_scalar, spec_lj_force_scalar, spec_rinvsix, hu]
    field_simp
    ring
  · intro e6 e12
    rw [hF1, e6, e12, spec_rf_lj_force_scalar, spec_lj_force_scalar]
    ring
  · intro e6 e12
    rw [hF2, e6, e12, spec_rf_lj_force_scalar, spec_lj_force_scalar]
    ring

/-- On the water example with two vdW types the force subtracted from the partner equals
the sum of the three per-site increments, and site 0 receives `4/5` along x. -/
theorem rf_three_site_additivity_witness :
    (ex_st.f (DIM * 3)
        - (nb_kernel_ElecRF_VdwLJ_GeomW3P1_VF_sse2_double invsqrt_tab ex_rf_nlist ex_rf_x
            ex_rf_fr2 ex_rf_mdatoms2 ex_st).f (DIM * 3)
      = ((nb_kernel_ElecRF_VdwLJ_GeomW3P1_VF_sse2_double invsqrt_tab ex_rf_nlist ex_rf_x
            ex_rf_fr2 ex_rf_mdatoms2 ex_st).f (DIM * 0) - ex_st.f (DIM * 0))
        + ((nb_kernel_ElecRF_VdwLJ_GeomW3P1_VF_sse2_double invsqrt_tab ex_rf_nlist ex_rf_x
            ex_rf_fr2 ex_rf_mdatoms2 ex_st).f (DIM * 0 + 3) - ex_st.f (DIM * 0 + 3))
        + ((nb_kernel_ElecRF_VdwLJ_GeomW3P1_VF_sse2_double invsqrt_tab ex_rf_nlist ex_rf_x
            ex_rf_fr2 ex_rf_mdatoms2 ex_st).f (DIM * 0 + 6) - ex_st.f (DIM * 0 + 6)))
    ∧ (nb_kernel_ElecRF_VdwLJ_GeomW3P1_VF_sse2_double invsqrt_tab ex_rf_nlist ex_rf_x
            ex_rf_fr2 ex_rf_mdatoms2 ex_st).f (DIM * 0) - ex_st.f (DIM * 0) = 4 / 5 * 1 := by
  have h := rf_three_site_additivity invsqrt_tab ex_rf_nlist ex_rf_x ex_rf_fr2
    ex_rf_mdatoms2 ex_st 0 3 1 0 0 0 0 1 0 0 2 0 0 3 0 0 1 4 9 1 (1 / 2) (1 / 3)
    (4 / 5) 0 0 rfl rfl rfl rfl (by decide)
    (by norm_num [ex_rf_fr2, ex_rf_fr, ex_rf_mdatoms2, ex_rf_mdatoms])
    (by norm_num [ex_rf_fr2, ex_rf_fr, ex_rf_mdatoms2, ex_rf_mdatoms])
    (by norm_num [ex_rf_fr2, ex_rf_fr, ex_rf_mdatoms2, ex_rf_mdatoms])
    (by norm_num [ex_rf_fr2, ex_rf_fr, ex_rf_mdatoms2, ex_rf_mdatoms])
    (by norm_num [ex_rf_fr2, ex_rf_fr, ex_rf_mdatoms2, ex_rf_mdatoms])
    (by norm_num [ex_rf_x, ex_rf_fr2, ex_rf_fr, ex_rf_nlist, DIM])
    (by norm_num [ex_rf_x, ex_rf_fr2, ex_rf_fr, ex_rf_nlist, DIM])
    (by norm_num [ex_rf_x, ex_rf_fr2, ex_rf_fr, ex_rf_nlist, DIM])
    (by norm_num [ex_rf_x, ex_rf_fr2, ex_rf_fr, ex_rf_nlist, DIM])
    (by norm_num [ex_rf_x, ex_rf_fr2, ex_rf_fr, ex_rf_nlist, DIM])
    (by norm_num [ex_rf_x, ex_rf_fr2, ex_rf_fr, ex_rf_nlist, DIM])
    (by norm_num [ex_rf_x, ex_rf_fr2, ex_rf_fr, ex_rf_nlist, DIM])
    (by norm_num [ex_rf_x, ex_rf_fr2, ex_rf_fr, ex_rf_nlist, DIM])
    (by norm_num [ex_rf_x, ex_rf_fr2, ex_rf_fr, ex_rf_nlist, DIM])
    (by norm_num) (by norm_num) (by norm_num)
    (by norm_num [invsqrt_tab]) (by norm_num [invsqrt_tab]) (by norm_num [invsqrt_tab])
    (by norm_num [spec_rf_force_scalar, ex_rf_fr2, ex_rf_fr])
    (by norm_num [spec_rf_force_scalar]) (by norm_num [spec_rf_force_scalar]) _ rfl
  exact ⟨h.2.2.2.1.1, h.1.1⟩

/-- C12: an outer entry whose partner range is empty (`jindex[iidx] = jindex[iidx+1]`)
leaves the whole outer-loop state unchanged in all four kernels: the force array (so
the force of its outer particle or sites), the shift-force table (so the slot of its
shift index), both energy-group arrays (so the sums of its group) and `inneriter`
(zero inner-iteration weight). The flop counter still receives the outer-iteration
weight of every entry: for a list whose entries are all empty the kernel returns the
outputs unchanged and adds `7 * nri` (LJSh-P1P1 VF), `6 * nri` (LJSh-P1P1 F), `20 * nri`
(RF-LJ-W3P1 VF) or `18 * nri` (RF-LJ-W3P1 F) to its counter. -/
theorem empty_outer_entry_is_noop (invsqrt : ℚ → ℚ) (nlist : t_nblist) (xx : Int → ℚ)
    (fr : t_forcerec) (mdatoms : t_mdatoms) (st : KState) :
    (∀ (iidx : Int) (o : OuterSt), nlist.jindex iidx = nlist.jindex (iidx + 1) →
      (∀ (shiftvec : Int → ℚ) (vdwtype : Int → Int) (vdwparam : Int → ℚ) (nvdwtype : Int)
          (rcutoff2 sh_vdw_invrcut6 : M128d),
        ljsh_VF_outer nlist xx shiftvec vdwtype vdwparam nvdwtype rcutoff2 sh_vdw_invrcut6
            iidx o = o
        ∧ ljsh_F_outer nlist xx shiftvec vdwtype vdwparam nvdwtype rcutoff2 iidx o = o)
      ∧ (∀ (shiftvec charge : Int → ℚ) (vdwtype : Int → Int) (vdwparam : Int → ℚ)
          (krf krf2 crf iq0 iq1 iq2 : M128d) (vdwioffset0 : Int),
        rf_VF_outer invsqrt nlist xx shiftvec charge vdwtype vdwparam krf krf2 crf iq0 iq1 iq2
            vdwioffset0 iidx o = o
        ∧ rf_F_outer invsqrt nlist xx shiftvec charge vdwtype vdwparam krf2 iq0 iq1 iq2
            vdwioffset0 iidx o = o))
    ∧ ((∀ iidx : Int, 0 ≤ iidx → iidx < nlist.nri →
          nlist.jindex iidx = nlist.jindex (iidx + 1)) →
      nb_kernel_ElecNone_VdwLJSh_GeomP1P1_VF_avx_128_fma_double nlist xx fr mdatoms st
          = { st with nrnb := inc_nrnb st.nrnb eNR.NBKERNEL_VDW_VF (nlist.nri * 7 + 0 * 44) }
      ∧ nb_kernel_ElecNone_VdwLJSh_GeomP1P1_F_avx_128_fma_double nlist xx fr mdatoms st
          = { st with nrnb := inc_nrnb st.nrnb eNR.NBKERNEL_VDW_F (nlist.nri * 6 + 0 * 33) }
      ∧ nb_kernel_ElecRF_VdwLJ_GeomW3P1_VF_sse2_double invsqrt nlist xx fr mdatoms st
          = { st with
              nrnb := inc_nrnb st.nrnb eNR.NBKERNEL_ELEC_VDW_W3_VF (nlist.nri * 20 + 0 * 111) }
      ∧ nb_kernel_ElecRF_VdwLJ_GeomW3P1_F_sse2_double invsqrt nlist xx fr mdatoms st
          = { st with
              nrnb := inc_nrnb st.nrnb eNR.NBKERNEL_ELEC_VDW_W3_F (nlist.nri * 18 + 0 * 91) }) := by
  refine ⟨?_, ?_⟩
  · intro iidx o hj
    refine ⟨?_, ?_⟩
    · intro shiftvec vdwtype vdwparam nvdwtype rcutoff2 sh
      exact ⟨ljsh_VF_outer_empty _ _ _ _ _ _ _ _ _ _ hj.symm,
        ljsh_F_outer_empty _ _ _ _ _ _ _ _ _ hj.symm⟩
    · intro shiftvec charge vdwtype vdwparam krf krf2 crf iq0 iq1 iq2 off
      exact ⟨rf_VF_outer_empty _ _ _ _ _ _ _ _ _ _ _ _ _ _ _ _ hj.symm,
        rf_F_outer_empty _ _ _ _ _ _ _ _ _ _ _ _ _ _ hj.symm⟩
  · intro hall
    have h1 : ljsh_VF_loop nlist xx fr mdatoms st = outer_init st :=
      forLoop_id _ _ (nlist.nri - 0).toNat 0 _ (le_refl _)
        (fun k hk hkn t => ljsh_VF_outer_empty _ _ _ _ _ _ _ _ _ _ (hall k hk hkn).symm)
    have h2 : ljsh_F_loop nlist xx fr mdatoms st = outer_init st :=
      forLoop_id _ _ (nlist.nri - 0).toNat 0 _ (le_refl _)
        (fun k hk hkn t => ljsh_F_outer_empty _ _ _ _ _ _ _ _ _ (hall k hk hkn).symm)
    have h3 : rf_VF_loop invsqrt nlist xx fr mdatoms st = outer_init st :=
      forLoop_id _ _ (nlist.nri - 0).toNat 0 _ (le_refl _)
        (fun k hk hkn t =>
          rf_VF_outer_empty _ _ _ _ _ _ _ _ _ _ _ _ _ _ _ _ (hall k hk hkn).symm)
    have h4 : rf_F_loop invsqrt nlist xx fr mdatoms st = outer_init st :=
      forLoop_id _ _ (nlist.nri - 0).toNat 0 _ (le_refl _)
        (fun k hk hkn t => rf_F_outer_empty _ _ _ _ _ _ _ _ _ _ _ _ _ _ (hall k hk hkn).symm)
    rw [ljsh_VF_kernel_eq_loop, ljsh_F_kernel_eq_loop, rf_VF_kernel_eq_loop,
      rf_F_kernel_eq_loop, h1, h2, h3, h4]
    exact ⟨rfl, rfl, rfl, rfl⟩

/-- On the list with one outer entry and no partners the LJSh-P1P1 VF kernel leaves the
forces, shift forces and energies at their initial values and adds `7` to its flop
counter; the RF-LJ-W3P1 F kernel adds `18`. -/
theorem empty_outer_entry_is_noop_witness :
    (nb_kernel_ElecNone_VdwLJSh_GeomP1P1_VF_avx_128_fma_double ex_nlist_empty ex_x ex_fr
        ex_mdatoms ex_st).f = ex_st.f
    ∧ (nb_kernel_ElecNone_VdwLJSh_GeomP1P1_VF_avx_128_fma_double ex_nlist_empty ex_x ex_fr
        ex_mdatoms ex_st).nrnb eNR.NBKERNEL_VDW_VF = 7
    ∧ (nb_kernel_ElecRF_VdwLJ_GeomW3P1_F_sse2_double invsqrt_tab ex_nlist_empty ex_x ex_fr
        ex_mdatoms ex_st).nrnb eNR.NBKERNEL_ELEC_VDW_W3_F = 18 := by
  have h := (empty_outer_entry_is_noop invsqrt_tab ex_nlist_empty ex_x ex_fr ex_mdatoms
    ex_st).2 (fun _ _ _ => rfl)
  rw [h.1, h.2.2.2]
  exact ⟨rfl, by decide, by decide⟩

/-- C13: for a neighbour list with `nri ≥ 0` outer entries each kernel call adds to its
own flop counter exactly `W_outer * nri + W_inner * (jindex[nri] - jindex[0])` and leaves
the other counters alone, with `(W_outer, W_inner) = (7, 44)` for LJSh-P1P1 VF, `(6, 33)`
for LJSh-P1P1 F, `(20, 111)` for RF-LJ-W3P1 VF and `(18, 91)` for RF-LJ-W3P1 F. The amount
is a function of the neighbour list alone (positions, parameters and the cutoff do not
enter, so pairs failing the cutoff test are counted), and it is non-negative whenever
every range has start `≤` end. -/
theorem flop_counter_increment (invsqrt : ℚ → ℚ) (nlist : t_nblist) (xx : Int → ℚ)
    (fr : t_forcerec) (mdatoms : t_mdatoms) (st : KState) (hnri : 0 ≤ nlist.nri) :
    ((nb_kernel_ElecNone_VdwLJSh_GeomP1P1_VF_avx_128_fma_double nlist xx fr mdatoms st).nrnb
        = inc_nrnb st.nrnb eNR.NBKERNEL_VDW_VF
            (7 * nlist.nri + 44 * (nlist.jindex nlist.nri - nlist.jindex 0))
      ∧ (nb_kernel_ElecNone_VdwLJSh_GeomP1P1_F_avx_128_fma_double nlist xx fr mdatoms st).nrnb
        = inc_nrnb st.nrnb eNR.NBKERNEL_VDW_F
            (6 * nlist.nri + 33 * (nlist.jindex nlist.nri - nlist.jindex 0))
      ∧ (nb_kernel_ElecRF_VdwLJ_GeomW3P1_VF_sse2_double invsqrt nlist xx fr mdatoms st).nrnb
        = inc_nrnb st.nrnb eNR.NBKERNEL_ELEC_VDW_W3_VF
            (20 * nlist.nri + 111 * (nlist.jindex nlist.nri - nlist.jindex 0))
      ∧ (nb_kernel_ElecRF_VdwLJ_GeomW3P1_F_sse2_double invsqrt nlist xx fr mdatoms st).nrnb
        = inc_nrnb st.nrnb eNR.NBKERNEL_ELEC_VDW_W3_F
            (18 * nlist.nri + 91 * (nlist.jindex nlist.nri - nlist.jindex 0)))
    ∧ ((∀ iidx : Int, 0 ≤ iidx → iidx < nlist.nri →
          nlist.jindex iidx ≤ nlist.jindex (iidx + 1)) →
        0 ≤ nlist.jindex nlist.nri - nlist.jindex 0
        ∧ 0 ≤ 7 * nlist.nri + 44 * (nlist.jindex nlist.nri - nlist.jindex 0)
        ∧ 0 ≤ 6 * nlist.nri + 33 * (nlist.jindex nlist.nri - nlist.jindex 0)
        ∧ 0 ≤ 20 * nlist.nri + 111 * (nlist.jindex nlist.nri - nlist.jindex 0)
        ∧ 0 ≤ 18 * nlist.nri + 91 * (nlist.jindex nlist.nri - nlist.jindex 0)) := by
  refine ⟨⟨?_, ?_, ?_, ?_⟩, ?_⟩
  · rw [ljsh_VF_kernel_eq_loop, ljsh_VF_loop_inneriter _ _ _ _ _ hnri]
    simp only [mul_comm]
  · rw [ljsh_F_kernel_eq_loop, ljsh_F_loop_inneriter _ _ _ _ _ hnri]
    simp only [mul_comm]
  · rw [rf_VF_kernel_eq_loop, rf_VF_loop_inneriter _ _ _ _ _ _ hnri]
    simp only [mul_comm]
  · rw [rf_F_kernel_eq_loop, rf_F_loop_inneriter _ _ _ _ _ _ hnri]
    simp only [mul_comm]
  · intro hmono
    have h := jindex_mono nlist.jindex nlist.nri.toNat nlist.nri (le_refl _) hnri hmono
    refine ⟨?_, ?_, ?_, ?_, ?_⟩ <;> omega

/-- On the list with one outer entry and the partners 1 and 2 (particle 2 lies at the
cutoff distance and fails the cutoff test) the LJSh-P1P1 VF kernel adds
`7 * 1 + 44 * 2 = 95` to its flop counter. -/
theorem flop_counter_increment_witness :
    (nb_kernel_ElecNone_VdwLJSh_GeomP1P1_VF_avx_128_fma_double ex_nlist_two ex_x ex_fr
        ex_mdatoms ex_st).nrnb eNR.NBKERNEL_VDW_VF = 95
    ∧ ¬ lane_rsq 0 0 0 ex_x (DIM * 2) < ex_fr.ic.rvdw * ex_fr.ic.rvdw := by
  have h := (flop_counter_increment invsqrt_tab ex_nlist_two ex_x ex_fr ex_mdatoms ex_st
    (by decide)).1.1
  rw [h]
  refine ⟨by decide, ?_⟩
  norm_num [lane_rsq, ex_x, ex_fr, DIM]

/-- C14: in the LJSh-P1P1 kernel (VF and F) the branch `if (gmx_mm_any_lt(rsq00,rcutoff2))`
can be removed: the kernel that skips a block when no lane passes the cutoff test and
the kernel that always runs the block with the per-lane cutoff mask applied return the
same forces, shift forces, energy sums and counters, for every input. In exact
arithmetic a masked lane contributes exactly zero to every sum and subtracts zero from
its partner. -/
theorem ljsh_branch_equals_mask (nlist : t_nblist) (xx : Int → ℚ) (fr : t_forcerec)
    (mdatoms : t_mdatoms) (st : KState) :
    nb_kernel_ElecNone_VdwLJSh_GeomP1P1_VF_avx_128_fma_double nlist xx fr mdatoms st
      = ljsh_VF_kernel_nobranch nlist xx fr mdatoms st
    ∧ nb_kernel_ElecNone_VdwLJSh_GeomP1P1_F_avx_128_fma_double nlist xx fr mdatoms st
      = ljsh_F_kernel_nobranch nlist xx fr mdatoms st := by
  unfold nb_kernel_ElecNone_VdwLJSh_GeomP1P1_VF_avx_128_fma_double ljsh_VF_kernel_nobranch
    nb_kernel_ElecNone_VdwLJSh_GeomP1P1_F_avx_128_fma_double ljsh_F_kernel_nobranch
  simp only [ljsh_VF_outer_nobranch_eq, ljsh_F_outer_nobranch_eq, and_self]

/-- C15: the remainder block handles the single real partner `j = jjnr[jidx]` in lane 0
and its unused lane 1 contributes nothing, whatever the (shifted) outer position
`(ix0, iy0, iz0)` (and, for the water kernel, the positions of sites 1 and 2). In the
LJSh-P1P1 kernels (VF and F) the block subtracts `fscal * d` from the force of `j`, adds
it to lane 0 of the outer accumulators and adds the potential to lane 0 of `vvdwsum`,
where `fscal` and the potential are the scalar masked values of the real pair; lane 1
of every accumulator is unchanged. This holds although the branch test
`gmx_mm_any_lt` also passes when the outer particle is within the cutoff of the origin
(the zero-filled lane). In the RF-LJ-W3P1 kernels (VF and F) the block subtracts the sum
of the three site forces from the force of `j`, adds each site force to lane 0 of that
site's accumulator and the potentials to lane 0 of the sums; lane 1 is unchanged. -/
theorem remainder_block_is_scalar_pair (invsqrt : ℚ → ℚ) (nlist : t_nblist) (x : Int → ℚ)
    (charge : Int → ℚ) (vdwtype : Int → Int) (vdwparam : Int → ℚ)
    (rc2 sh krf crf q0 q1 q2 : ℚ) (off : Int) (ix0 iy0 iz0 ix1 iy1 iz1 ix2 iy2 iz2 : ℚ)
    (jidx : Int) (s : LJShInner) (t : RFInner) (j : Int)
    (rsq0 rsq1 rsq2 r0 r1 r2 c6 c12 F0 F1 F2 Vel Vvdw : ℚ)
    (hjj : nlist.jjnr jidx = j)
    (hrsq0 : rsq0 = lane_rsq ix0 iy0 iz0 x (DIM * j))
    (hrsq1 : rsq1 = lane_rsq ix1 iy1 iz1 x (DIM * j))
    (hrsq2 : rsq2 = lane_rsq ix2 iy2 iz2 x (DIM * j))
    (hr0 : r0 = invsqrt rsq0) (hr1 : r1 = invsqrt rsq1) (hr2 : r2 = invsqrt rsq2)
    (hc6 : c6 = vdwparam (off + 2 * vdwtype j))
    (hc12 : c12 = vdwparam (off + 2 * vdwtype j + 1))
    (hF0 : F0 = q0 * charge j * (r0 ^ 3 - 2 * krf)
      + (c12 * ((r0 ^ 2) ^ 3) ^ 2 - c6 * (r0 ^ 2) ^ 3) * r0 ^ 2)
    (hF1 : F1 = q1 * charge j * (r1 ^ 3 - 2 * krf))
    (hF2 : F2 = q2 * charge j * (r2 ^ 3 - 2 * krf))
    (hVel : Vel = q0 * charge j * (r0 + krf * rsq0 - crf)
      + q1 * charge j * (r1 + krf * rsq1 - crf) + q2 * charge j * (r2 + krf * rsq2 - crf))
    (hVvdw : Vvdw = c12 * ((r0 ^ 2) ^ 3) ^ 2 / 12 - c6 * (r0 ^ 2) ^ 3 / 6) :
    ljsh_VF_block1 nlist x vdwtype vdwparam (_mm_set1_pd rc2) (_mm_set1_pd sh)
        (_mm_set1_pd ix0) (_mm_set1_pd iy0) (_mm_set1_pd iz0) off jidx s
      = ljsh_lane0 s (DIM * j) (ix0 - x (DIM * j)) (iy0 - x (DIM * j + 1))
          (iz0 - x (DIM * j + 2)) (ljsh_lane_fscal c6 c12 rsq0 rc2)
          (ljsh_lane_vvdw c6 c12 sh rsq0 rc2)
    ∧ ljsh_F_block1 nlist x vdwtype vdwparam (_mm_set1_pd rc2)
        (_mm_set1_pd ix0) (_mm_set1_pd iy0) (_mm_set1_pd iz0) off jidx s
      = ljsh_lane0 s (DIM * j) (ix0 - x (DIM * j)) (iy0 - x (DIM * j + 1))
          (iz0 - x (DIM * j + 2)) (ljsh_lane_fscal c6 c12 rsq0 rc2) 0
    ∧ (gmx_mm_any_lt
          (gmx_mm_calc_rsq_pd
            (_mm_sub_pd (_mm_set1_pd ix0) (gmx_mm_load_1rvec_1ptr_swizzle_pd x (DIM * j)).x)
            (_mm_sub_pd (_mm_set1_pd iy0) (gmx_mm_load_1rvec_1ptr_swizzle_pd x (DIM * j)).y)
            (_mm_sub_pd (_mm_set1_pd iz0) (gmx_mm_load_1rvec_1ptr_swizzle_pd x (DIM * j)).z))
          (_mm_set1_pd rc2) = true
        ↔ (rsq0 < rc2 ∨ ix0 * ix0 + iy0 * iy0 + iz0 * iz0 < rc2))
    ∧ rf_VF_block1 invsqrt nlist x charge vdwtype vdwparam (_mm_set1_pd krf)
        (_mm_set1_pd (krf * 2)) (_mm_set1_pd crf) (_mm_set1_pd q0) (_mm_set1_pd q1)
        (_mm_set1_pd q2) off (_mm_set1_pd ix0) (_mm_set1_pd iy0) (_mm_set1_pd iz0)
        (_mm_set1_pd ix1) (_mm_set1_pd iy1) (_mm_set1_pd iz1)
        (_mm_set1_pd ix2) (_mm_set1_pd iy2) (_mm_set1_pd iz2) jidx t
      = { f := fun k => t.f k - bump (DIM * j)
            (F0 * (ix0 - x (DIM * j)) + F1 * (ix1 - x (DIM * j)) + F2 * (ix2 - x (DIM * j)))
            (F0 * (iy0 - x (DIM * j + 1)) + F1 * (iy1 - x (DIM * j + 1))
              + F2 * (iy2 - x (DIM * j + 1)))
            (F0 * (iz0 - x (DIM * j + 2)) + F1 * (iz1 - x (DIM * j + 2))
              + F2 * (iz2 - x (DIM * j + 2))) k
          fix0 := ⟨t.fix0.lo + F0 * (ix0 - x (DIM * j)), t.fix0.hi⟩
          fiy0 := ⟨t.fiy0.lo + F0 * (iy0 - x (DIM * j + 1)), t.fiy0.hi⟩
          fiz0 := ⟨t.fiz0.lo + F0 * (iz0 - x (DIM * j + 2)), t.fiz0.hi⟩
          fix1 := ⟨t.fix1.lo + F1 * (ix1 - x (DIM * j)), t.fix1.hi⟩
          fiy1 := ⟨t.fiy1.lo + F1 * (iy1 - x (DIM * j + 1)), t.fiy1.hi⟩
          fiz1 := ⟨t.fiz1.lo + F1 * (iz1 - x (DIM * j + 2)), t.fiz1.hi⟩
          fix2 := ⟨t.fix2.lo + F2 * (ix2 - x (DIM * j)), t.fix2.hi⟩
          fiy2 := ⟨t.fiy2.lo + F2 * (iy2 - x (DIM * j + 1)), t.fiy2.hi⟩
          fiz2 := ⟨t.fiz2.lo + F2 * (iz2 - x (DIM * j + 2)), t.fiz2.hi⟩
          velecsum := ⟨t.velecsum.lo + Vel, t.velecsum.hi⟩
          vvdwsum := ⟨t.vvdwsum.lo + Vvdw, t.vvdwsum.hi⟩ }
    ∧ rf_F_block1 invsqrt nlist x charge vdwtype vdwparam
        (_mm_set1_pd (krf * 2)) (_mm_set1_pd q0) (_mm_set1_pd q1)
        (_mm_set1_pd q2) off (_mm_set1_pd ix0) (_mm_set1_pd iy0) (_mm_set1_pd iz0)
        (_mm_set1_pd ix1) (_mm_set1_pd iy1) (_mm_set1_pd iz1)
        (_mm_set1_pd ix2) (_mm_set1_pd iy2) (_mm_set1_pd iz2) jidx t
      = { f := fun k => t.f k - bump (DIM * j)
            (F0 * (ix0 - x (DIM * j)) + F1 * (ix1 - x (DIM * j)) + F2 * (ix2 - x (DIM * j)))
            (F0 * (iy0 - x (DIM * j + 1)) + F1 * (iy1 - x (DIM * j + 1))
              + F2 * (iy2 - x (DIM * j + 1)))
            (F0 * (iz0 - x (DIM * j + 2)) + F1 * (iz1 - x (DIM * j + 2))
              + F2 * (iz2 - x (DIM * j + 2))) k
          fix0 := ⟨t.fix0.lo + F0 * (ix0 - x (DIM * j)), t.fix0.hi⟩
          fiy0 := ⟨t.fiy0.lo + F0 * (iy0 - x (DIM * j + 1)), t.fiy0.hi⟩
          fiz0 := ⟨t.fiz0.lo + F0 * (iz0 - x (DIM * j + 2)), t.fiz0.hi⟩
          fix1 := ⟨t.fix1.lo + F1 * (ix1 - x (DIM * j)), t.fix1.hi⟩
          fiy1 := ⟨t.fiy1.lo + F1 * (iy1 - x (DIM * j + 1)), t.fiy1.hi⟩
          fiz1 := ⟨t.fiz1.lo + F1 * (iz1 - x (DIM * j + 2)), t.fiz1.hi⟩
          fix2 := ⟨t.fix2.lo + F2 * (ix2 - x (DIM * j)), t.fix2.hi⟩
          fiy2 := ⟨t.fiy2.lo + F2 * (iy2 - x (DIM * j + 1)), t.fiy2.hi⟩
          fiz2 := ⟨t.fiz2.lo + F2 * (iz2 - x (DIM * j + 2)), t.fiz2.hi⟩
          velecsum := t.velecsum
          vvdwsum := t.vvdwsum } := by
  refine ⟨?_, ?_, ?_, ?_, ?_⟩
  · rw [ljsh_VF_block1_closed, hjj, ← hrsq0, ← hc6, ← hc12]
  · rw [ljsh_F_block1_closed, hjj, ← hrsq0, ← hc6, ← hc12]
  · rw [ljsh_block1_any_lt, ← hrsq0]
  · rw [rf_VF_block1_closed invsqrt nlist x charge vdwtype vdwparam krf crf q0 q1 q2 off
      ix0 iy0 iz0 ix1 iy1 iz1 ix2 iy2 iz2 jidx t j hjj rsq0 rsq1 rsq2 r0 r1 r2 F0 F1 F2
      hrsq0 hrsq1 hrsq2 hr0 hr1 hr2 (by rw [hF0, hc6, hc12]; ring) (by rw [hF1]; ring)
      (by rw [hF2]; ring)]
    refine RFInner_ext _ _ rfl rfl rfl rfl rfl rfl rfl rfl rfl rfl ?_ ?_
    · simp only [M128d_eta, and_true]
      rw [hVel]; ring
    · simp only [M128d_eta, and_true]
      rw [hVvdw, hc6, hc12]; ring
  · rw [rf_F_block1_closed invsqrt nlist x charge vdwtype vdwparam krf q0 q1 q2 off
      ix0 iy0 iz0 ix1 iy1 iz1 ix2 iy2 iz2 jidx t j hjj rsq0 rsq1 rsq2 r0 r1 r2 F0 F1 F2
      hrsq0 hrsq1 hrsq2 hr0 hr1 hr2 (by rw [hF0, hc6, hc12]; ring) (by rw [hF1]; ring)
      (by rw [hF2]; ring)]

/-- On the water example (partner 3 at the origin, outer position `(1, 0, 0)`, which is
within the cutoff 2 of the origin, `c6 = 0`, `c12 = 1`) the remainder blocks add the
scalar pair force to lane 0 of the x accumulator and leave lane 1 at zero. -/
theorem remainder_block_is_scalar_pair_witness :
    (ljsh_VF_block1 ex_rf_nlist ex_rf_x ex_mdatoms.typeA ex_fr.nbfp (_mm_set1_pd 4)
        (_mm_set1_pd (1 / 64)) (_mm_set1_pd 1) (_mm_set1_pd 0) (_mm_set1_pd 0) 0 0
        ex_ljsh_inner).fix0 = ⟨1, 0⟩
    ∧ (rf_VF_block1 invsqrt_tab ex_rf_nlist ex_rf_x ex_rf_mdatoms.chargeA ex_mdatoms.typeA
        ex_fr.nbfp (_mm_set1_pd (1 / 10)) (_mm_set1_pd (1 / 10 * 2)) (_mm_set1_pd (1 / 2))
        (_mm_set1_pd 1) (_mm_set1_pd 0) (_mm_set1_pd 0) 0
        (_mm_set1_pd 1) (_mm_set1_pd 0) (_mm_set1_pd 0)
        (_mm_set1_pd 2) (_mm_set1_pd 0) (_mm_set1_pd 0)
        (_mm_set1_pd 3) (_mm_set1_pd 0) (_mm_set1_pd 0) 0 ex_rf_inner).fix0 = ⟨9 / 5, 0⟩ := by
  have h := remainder_block_is_scalar_pair invsqrt_tab ex_rf_nlist ex_rf_x
    ex_rf_mdatoms.chargeA ex_mdatoms.typeA ex_fr.nbfp 4 (1 / 64) (1 / 10) (1 / 2) 1 0 0 0
    1 0 0 2 0 0 3 0 0 0 ex_ljsh_inner ex_rf_inner 3 1 4 9 1 (1 / 2) (1 / 3) 0 1 (9 / 5) 0 0
    (3 / 5) (1 / 12) rfl
    (by norm_num [lane_rsq, ex_rf_x, DIM]) (by norm_num [lane_rsq, ex_rf_x, DIM])
    (by norm_num [lane_rsq, ex_rf_x, DIM])
    (by norm_num [invsqrt_tab]) (by norm_num [invsqrt_tab]) (by norm_num [invsqrt_tab])
    (by norm_num [ex_fr, ex_mdatoms]) (by norm_num [ex_fr, ex_mdatoms])
    (by norm_num [ex_rf_mdatoms]) (by norm_num) (by norm_num)
    (by norm_num [ex_rf_mdatoms]) (by norm_num)
  rw [h.1, h.2.2.2.1]
  constructor
  · norm_num [ljsh_lane0, ex_ljsh_inner, _mm_setzero_pd, ex_rf_x, DIM, ljsh_lane_fscal,
      spec_lj_force_scalar, spec_rinvsix]
  · norm_num [ex_rf_inner, _mm_setzero_pd, ex_rf_x, DIM]

/-- C18: the kernels accumulate and never overwrite. For every input and every initial
force array, shift-force table and energy-group arrays, each output array of each of
the four kernels equals the initial array plus, entry by entry, the output array
obtained from all-zero initial arrays; the flop counters are the same in both runs. In
the exact model this holds for every neighbour list, in particular for the lists whose
partner indices are pairwise distinct within each outer entry. -/
theorem kernels_accumulate_on_outputs (invsqrt : ℚ → ℚ) (nlist : t_nblist) (xx : Int → ℚ)
    (fr : t_forcerec) (mdatoms : t_mdatoms) (st : KState) :
    (nb_kernel_ElecNone_VdwLJSh_GeomP1P1_VF_avx_128_fma_double nlist xx fr mdatoms st
      = { f := fun k => (nb_kernel_ElecNone_VdwLJSh_GeomP1P1_VF_avx_128_fma_double nlist xx
              fr mdatoms (zero_outputs st)).f k + st.f k
          fshift := fun k => (nb_kernel_ElecNone_VdwLJSh_GeomP1P1_VF_avx_128_fma_double nlist
              xx fr mdatoms (zero_outputs st)).fshift k + st.fshift k
          energygrp_elec := fun k =>
            (nb_kernel_ElecNone_VdwLJSh_GeomP1P1_VF_avx_128_fma_double nlist xx fr mdatoms
              (zero_outputs st)).energygrp_elec k + st.energygrp_elec k
          energygrp_vdw := fun k =>
            (nb_kernel_ElecNone_VdwLJSh_GeomP1P1_VF_avx_128_fma_double nlist xx fr mdatoms
              (zero_outputs st)).energygrp_vdw k + st.energygrp_vdw k
          nrnb := (nb_kernel_ElecNone_VdwLJSh_GeomP1P1_VF_avx_128_fma_double nlist xx fr
              mdatoms (zero_outputs st)).nrnb })
    ∧ (nb_kernel_ElecNone_VdwLJSh_GeomP1P1_F_avx_128_fma_double nlist xx fr mdatoms st
      = { f := fun k => (nb_kernel_ElecNone_VdwLJSh_GeomP1P1_F_avx_128_fma_double nlist xx
              fr mdatoms (zero_outputs st)).f k + st.f k
          fshift := fun k => (nb_kernel_ElecNone_VdwLJSh_GeomP1P1_F_avx_128_fma_double nlist
              xx fr mdatoms (zero_outputs st)).fshift k + st.fshift k
          energygrp_elec := fun k =>
            (nb_kernel_ElecNone_VdwLJSh_GeomP1P1_F_avx_128_fma_double nlist xx fr mdatoms
              (zero_outputs st)).energygrp_elec k + st.energygrp_elec k
          energygrp_vdw := fun k =>
            (nb_kernel_ElecNone_VdwLJSh_GeomP1P1_F_avx_128_fma_double nlist xx fr mdatoms
              (zero_outputs st)).energygrp_vdw k + st.energygrp_vdw k
          nrnb := (nb_kernel_ElecNone_VdwLJSh_GeomP1P1_F_avx_128_fma_double nlist xx fr
              mdatoms (zero_outputs st)).nrnb })
    ∧ (nb_kernel_ElecRF_VdwLJ_GeomW3P1_VF_sse2_double invsqrt nlist xx fr mdatoms st
      = { f := fun k => (nb_kernel_ElecRF_VdwLJ_GeomW3P1_VF_sse2_double invsqrt nlist xx
              fr mdatoms (zero_outputs st)).f k + st.f k
          fshift := fun k => (nb_kernel_ElecRF_VdwLJ_GeomW3P1_VF_sse2_double invsqrt nlist
              xx fr mdatoms (zero_outputs st)).fshift k + st.fshift k
          energygrp_elec := fun k =>
            (nb_kernel_ElecRF_VdwLJ_GeomW3P1_VF_sse2_double invsqrt nlist xx fr mdatoms
              (zero_outputs st)).energygrp_elec k + st.energygrp_elec k
          energygrp_vdw := fun k =>
            (nb_kernel_ElecRF_VdwLJ_GeomW3P1_VF_sse2_double invsqrt nlist xx fr mdatoms
              (zero_outputs st)).energygrp_vdw k + st.energygrp_vdw k
          nrnb := (nb_kernel_ElecRF_VdwLJ_GeomW3P1_VF_sse2_double invsqrt nlist xx fr
              mdatoms (zero_outputs st)).nrnb })
    ∧ (nb_kernel_ElecRF_VdwLJ_GeomW3P1_F_sse2_double invsqrt nlist xx fr mdatoms st
      = { f := fun k => (nb_kernel_ElecRF_VdwLJ_GeomW3P1_F_sse2_double invsqrt nlist xx
              fr mdatoms (zero_outputs st)).f k + st.f k
          fshift := fun k => (nb_kernel_ElecRF_VdwLJ_GeomW3P1_F_sse2_double invsqrt nlist
              xx fr mdatoms (zero_outputs st)).fshift k + st.fshift k
          energygrp_elec := fun k =>
            (nb_kernel_ElecRF_VdwLJ_GeomW3P1_F_sse2_double invsqrt nlist xx fr mdatoms
              (zero_outputs st)).energygrp_elec k + st.energygrp_elec k
          energygrp_vdw := fun k =>
            (nb_kernel_ElecRF_VdwLJ_GeomW3P1_F_sse2_double invsqrt nlist xx fr mdatoms
              (zero_outputs st)).energygrp_vdw k + st.energygrp_vdw k
          nrnb := (nb_kernel_ElecRF_VdwLJ_GeomW3P1_F_sse2_double invsqrt nlist xx fr
              mdatoms (zero_outputs st)).nrnb }) := by
  refine ⟨?_, ?_, ?_, ?_⟩
  · rw [ljsh_VF_kernel_eq_loop, ljsh_VF_kernel_eq_loop, ljsh_VF_loop_add nlist xx fr mdatoms st]
    rfl
  · rw [ljsh_F_kernel_eq_loop, ljsh_F_kernel_eq_loop, ljsh_F_loop_add nlist xx fr mdatoms st]
    rfl
  · rw [rf_VF_kernel_eq_loop, rf_VF_kernel_eq_loop,
      rf_VF_loop_add invsqrt nlist xx fr mdatoms st]
    rfl
  · rw [rf_F_kernel_eq_loop, rf_F_kernel_eq_loop,
      rf_F_loop_add invsqrt nlist xx fr mdatoms st]
    rfl

/-- C19: the periodic shift enters only through the shifted outer coordinate
`x[i] + shiftvec[shift[iidx]]`. For every outer entry whose outer particle is not among
its own partners, one outer iteration with shift vector `s` and outer position `p` equals
one outer iteration with the zero shift vector and outer position `p + s` (for the water
kernel all three sites are displaced and none of them is a partner); the partner
coordinates are read unshifted. Consequently, on a neighbour list with a single outer
entry each of the four kernels returns the same forces, shift forces, energies and
counters for (shift `s`, position `p`) as for (shift `0`, position `p + s`). -/
theorem shift_enters_through_outer_coordinate (invsqrt : ℚ → ℚ) (nlist : t_nblist)
    (xx : Int → ℚ) (fr : t_forcerec) (mdatoms : t_mdatoms) (st : KState) :
    (∀ (iidx : Int) (o : OuterSt),
      (∀ jidx : Int, nlist.jindex iidx ≤ jidx → jidx < nlist.jindex (iidx + 1) →
        nlist.jjnr jidx ≠ nlist.iinr iidx) →
      ∀ (vdwtype : Int → Int) (vdwparam : Int → ℚ) (nvdwtype : Int)
        (rcutoff2 sh_vdw_invrcut6 : M128d),
        ljsh_VF_outer nlist
            (shifted_x xx (DIM * nlist.iinr iidx) fr.shift_vec (DIM * nlist.shift iidx))
            (fun _ => 0) vdwtype vdwparam nvdwtype rcutoff2 sh_vdw_invrcut6 iidx o
          = ljsh_VF_outer nlist xx fr.shift_vec vdwtype vdwparam nvdwtype rcutoff2
              sh_vdw_invrcut6 iidx o
        ∧ ljsh_F_outer nlist
            (shifted_x xx (DIM * nlist.iinr iidx) fr.shift_vec (DIM * nlist.shift iidx))
            (fun _ => 0) vdwtype vdwparam nvdwtype rcutoff2 iidx o
          = ljsh_F_outer nlist xx fr.shift_vec vdwtype vdwparam nvdwtype rcutoff2 iidx o)
    ∧ (∀ (iidx : Int) (o : OuterSt),
      (∀ jidx : Int, nlist.jindex iidx ≤ jidx → jidx < nlist.jindex (iidx + 1) →
        nlist.jjnr jidx < nlist.iinr iidx ∨ nlist.iinr iidx + 2 < nlist.jjnr jidx) →
      ∀ (charge : Int → ℚ) (vdwtype : Int → Int) (vdwparam : Int → ℚ)
        (krf krf2 crf iq0 iq1 iq2 : M128d) (vdwioffset0 : Int),
        rf_VF_outer invsqrt nlist
            (shifted_x3 xx (DIM * nlist.iinr iidx) fr.shift_vec (DIM * nlist.shift iidx))
            (fun _ => 0) charge vdwtype vdwparam krf krf2 crf iq0 iq1 iq2 vdwioffset0 iidx o
          = rf_VF_outer invsqrt nlist xx fr.shift_vec charge vdwtype vdwparam krf krf2 crf
              iq0 iq1 iq2 vdwioffset0 iidx o
        ∧ rf_F_outer invsqrt nlist
            (shifted_x3 xx (DIM * nlist.iinr iidx) fr.shift_vec (DIM * nlist.shift iidx))
            (fun _ => 0) charge vdwtype vdwparam krf2 iq0 iq1 iq2 vdwioffset0 iidx o
          = rf_F_outer invsqrt nlist xx fr.shift_vec charge vdwtype vdwparam krf2
              iq0 iq1 iq2 vdwioffset0 iidx o)
    ∧ (nlist.nri = 1 →
      (∀ jidx : Int, nlist.jindex 0 ≤ jidx → jidx < nlist.jindex (0 + 1) →
        nlist.jjnr jidx ≠ nlist.iinr 0) →
      nb_kernel_ElecNone_VdwLJSh_GeomP1P1_VF_avx_128_fma_double nlist
          (shifted_x xx (DIM * nlist.iinr 0) fr.shift_vec (DIM * nlist.shift 0))
          { fr with shift_vec := fun _ => 0 } mdatoms st
        = nb_kernel_ElecNone_VdwLJSh_GeomP1P1_VF_avx_128_fma_double nlist xx fr mdatoms st
      ∧ nb_kernel_ElecNone_VdwLJSh_GeomP1P1_F_avx_128_fma_double nlist
          (shifted_x xx (DIM * nlist.iinr 0) fr.shift_vec (DIM * nlist.shift 0))
          { fr with shift_vec := fun _ => 0 } mdatoms st
        = nb_kernel_ElecNone_VdwLJSh_GeomP1P1_F_avx_128_fma_double nlist xx fr mdatoms st)
    ∧ (nlist.nri = 1 →
      (∀ jidx : Int, nlist.jindex 0 ≤ jidx → jidx < nlist.jindex (0 + 1) →
        nlist.jjnr jidx < nlist.iinr 0 ∨ nlist.iinr 0 + 2 < nlist.jjnr jidx) →
      nb_kernel_ElecRF_VdwLJ_GeomW3P1_VF_sse2_double invsqrt nlist
          (shifted_x3 xx (DIM * nlist.iinr 0) fr.shift_vec (DIM * nlist.shift 0))
          { fr with shift_vec := fun _ => 0 } mdatoms st
        = nb_kernel_ElecRF_VdwLJ_GeomW3P1_VF_sse2_double invsqrt nlist xx fr mdatoms st
      ∧ nb_kernel_ElecRF_VdwLJ_GeomW3P1_F_sse2_double invsqrt nlist
          (shifted_x3 xx (DIM * nlist.iinr 0) fr.shift_vec (DIM * nlist.shift 0))
          { fr with shift_vec := fun _ => 0 } mdatoms st
        = nb_kernel_ElecRF_VdwLJ_GeomW3P1_F_sse2_double invsqrt nlist xx fr mdatoms st) := by
  refine ⟨?_, ?_, ?_, ?_⟩
  · intro iidx o hself vdwtype vdwparam nvdwtype rcutoff2 sh
    exact ⟨ljsh_VF_outer_shift _ _ _ _ _ _ _ _ _ _ hself,
      ljsh_F_outer_shift _ _ _ _ _ _ _ _ _ hself⟩
  · intro iidx o hself charge vdwtype vdwparam krf krf2 crf iq0 iq1 iq2 off
    exact ⟨rf_VF_outer_shift _ _ _ _ _ _ _ _ _ _ _ _ _ _ _ _ hself,
      rf_F_outer_shift _ _ _ _ _ _ _ _ _ _ _ _ _ _ hself⟩
  · intro hnri hself
    constructor
    · rw [ljsh_VF_kernel_eq_loop, ljsh_VF_kernel_eq_loop]
      unfold ljsh_VF_loop
      simp only [hnri, forLoop_one]
      rw [ljsh_VF_outer_shift _ _ _ _ _ _ _ _ _ _ hself]
    · rw [ljsh_F_kernel_eq_loop, ljsh_F_kernel_eq_loop]
      unfold ljsh_F_loop
      simp only [hnri, forLoop_one]
      rw [ljsh_F_outer_shift _ _ _ _ _ _ _ _ _ hself]
  · intro hnri hself
    constructor
    · rw [rf_VF_kernel_eq_loop, rf_VF_kernel_eq_loop]
      unfold rf_VF_loop
      simp only [hnri, forLoop_one]
      rw [rf_VF_outer_shift _ _ _ _ _ _ _ _ _ _ _ _ _ _ _ _ hself]
    · rw [rf_F_kernel_eq_loop, rf_F_kernel_eq_loop]
      unfold rf_F_loop
      simp only [hnri, forLoop_one]
      rw [rf_F_outer_shift _ _ _ _ _ _ _ _ _ _ _ _ _ _ hself]

/-- On the single-pair example with the shift vector `(0, 1, 0)`: running the VF kernel
with the shift equals running it without shift on the coordinates in which particle 0
is displaced by `(0, 1, 0)`. -/
theorem shift_enters_through_outer_coordinate_witness :
    nb_kernel_ElecNone_VdwLJSh_GeomP1P1_VF_avx_128_fma_double ex_nlist_pair
        (shifted_x ex_x (DIM * ex_nlist_pair.iinr 0) ex_fr_shift.shift_vec
          (DIM * ex_nlist_pair.shift 0))
        { ex_fr_shift with shift_vec := fun _ => 0 } ex_mdatoms ex_st
      = nb_kernel_ElecNone_VdwLJSh_GeomP1P1_VF_avx_128_fma_double ex_nlist_pair ex_x
          ex_fr_shift ex_mdatoms ex_st :=
  ((shift_enters_through_outer_coordinate invsqrt_tab ex_nlist_pair ex_x ex_fr_shift
    ex_mdatoms ex_st).2.2.1 rfl (fun _ _ _ => show (1 : Int) ≠ 0 by decide)).1

/-- C20: the force-only kernels `nb_kernel_ElecNone_VdwLJSh_GeomP1P1_F` and
`nb_kernel_ElecRF_VdwLJ_GeomW3P1_F` return the electrostatic and the vdW energy-group
accumulators exactly as they received them, for every input. -/
theorem force_only_kernels_keep_energy_groups (invsqrt : ℚ → ℚ) (nlist : t_nblist)
    (xx : Int → ℚ) (fr : t_forcerec) (mdatoms : t_mdatoms) (st : KState) :
    (nb_kernel_ElecNone_VdwLJSh_GeomP1P1_F_avx_128_fma_double nlist xx fr mdatoms
        st).energygrp_elec = st.energygrp_elec
    ∧ (nb_kernel_ElecNone_VdwLJSh_GeomP1P1_F_avx_128_fma_double nlist xx fr mdatoms
        st).energygrp_vdw = st.energygrp_vdw
    ∧ (nb_kernel_ElecRF_VdwLJ_GeomW3P1_F_sse2_double invsqrt nlist xx fr mdatoms
        st).energygrp_elec = st.energygrp_elec
    ∧ (nb_kernel_ElecRF_VdwLJ_GeomW3P1_F_sse2_double invsqrt nlist xx fr mdatoms
        st).energygrp_vdw = st.energygrp_vdw := by
  rw [ljsh_F_kernel_eq_loop, rf_F_kernel_eq_loop]
  exact ⟨(ljsh_F_loop_energy nlist xx fr mdatoms st).1,
    (ljsh_F_loop_energy nlist xx fr mdatoms st).2,
    (rf_F_loop_energy invsqrt nlist xx fr mdatoms st).1,
    (rf_F_loop_energy invsqrt nlist xx fr mdatoms st).2⟩

/-- C21: `transposeScatterIncrU<align>(base, &offset, v0, v1, v2)` adds `v0, v1, v2` to
`base[align*offset + 0..2]` and `transposeScatterDecrU<align>` subtracts them there, and
each leaves every other element of `base` unchanged; hence applying Incr and then Decr
(or Decr and then Incr) with the same arguments restores the array. On the data of the
two tests (`{10, .., 90}`, `align = 3`, `offset = 1`) the nine elements are the ones the
tests expect. -/
theorem transposeScatter_incr_decr (align : Int) (base : Int → ℚ) (offset : Int)
    (v0 v1 v2 : ℚ) :
    (∀ k : Int, transposeScatterIncrU align base offset v0 v1 v2 k
        = base k + bump (align * offset) v0 v1 v2 k)
    ∧ (∀ k : Int, transposeScatterDecrU align base offset v0 v1 v2 k
        = base k - bump (align * offset) v0 v1 v2 k)
    ∧ transposeScatterDecrU align (transposeScatterIncrU align base offset v0 v1 v2) offset
        v0 v1 v2 = base
    ∧ transposeScatterIncrU align (transposeScatterDecrU align base offset v0 v1 v2) offset
        v0 v1 v2 = base
    ∧ (List.range 9).map (fun k : Nat =>
          transposeScatterIncrU 3 test_scatter_data 1 v0 v1 v2 (k : Int))
        = [10, 20, 30, 40 + v0, 50 + v1, 60 + v2, 70, 80, 90]
    ∧ (List.range 9).map (fun k : Nat =>
          transposeScatterDecrU 3 test_scatter_data 1 v0 v1 v2 (k : Int))
        = [10, 20, 30, 40 - v0, 50 - v1, 60 - v2, 70, 80, 90] := by
  have hI : ∀ (b : Int → ℚ) (k : Int), transposeScatterIncrU align b offset v0 v1 v2 k
      = b k + bump (align * offset) v0 v1 v2 k := by
    intro b k
    simp only [transposeScatterIncrU, store_apply, bump]
    split_ifs <;> first | omega | (subst_vars; ring)
  have hD : ∀ (b : Int → ℚ) (k : Int), transposeScatterDecrU align b offset v0 v1 v2 k
      = b k - bump (align * offset) v0 v1 v2 k := by
    intro b k
    simp only [transposeScatterDecrU, store_apply, bump]
    split_ifs <;> first | omega | (subst_vars; ring)
  refine ⟨hI base, hD base, ?_, ?_, ?_, ?_⟩
  · funext k
    rw [hD, hI]
    ring
  · funext k
    rw [hI, hD]
    ring
  · simp only [List.range, List.range.loop, List.map]
    norm_num [transposeScatterIncrU, store_apply, test_scatter_data]
  · simp only [List.range, List.range.loop, List.map]
    norm_num [transposeScatterDecrU, store_apply, test_scatter_data]

/-- C22: `reduceIncr4ReturnSum(m, v0, v1, v2, v3)` adds `v_k` to `m[k]` for `k = 0..3`,
leaves every element outside `m[0..3]` unchanged, and returns `v0 + v1 + v2 + v3`. On the
data of the test (six zeros, `m = data + 1`) the six elements are `0, v0, v1, v2, v3, 0`. -/
theorem reduceIncr4ReturnSum_effect (data : Int → ℚ) (m : Int) (v0 v1 v2 v3 : ℚ) :
    (reduceIncr4ReturnSum data m v0 v1 v2 v3).data m = data m + v0
    ∧ (reduceIncr4ReturnSum data m v0 v1 v2 v3).data (m + 1) = data (m + 1) + v1
    ∧ (reduceIncr4ReturnSum data m v0 v1 v2 v3).data (m + 2) = data (m + 2) + v2
    ∧ (reduceIncr4ReturnSum data m v0 v1 v2 v3).data (m + 3) = data (m + 3) + v3
    ∧ (∀ k : Int, k < m ∨ m + 3 < k →
        (reduceIncr4ReturnSum data m v0 v1 v2 v3).data k = data k)
    ∧ (reduceIncr4ReturnSum data m v0 v1 v2 v3).sum = v0 + v1 + v2 + v3
    ∧ (List.range 6).map (fun k : Nat =>
          (reduceIncr4ReturnSum (fun _ => 0) 1 v0 v1 v2 v3).data (k : Int))
        = [0, v0, v1, v2, v3, 0] := by
  refine ⟨?_, ?_, ?_, ?_, ?_, rfl, ?_⟩
  · simp only [reduceIncr4ReturnSum, store_apply]
    split_ifs <;> first | omega | rfl
  · simp only [reduceIncr4ReturnSum, store_apply]
    split_ifs <;> first | omega | rfl
  · simp only [reduceIncr4ReturnSum, store_apply]
    split_ifs <;> first | omega | rfl
  · simp only [reduceIncr4ReturnSum, store_apply]
    split_ifs <;> first | omega | rfl
  · intro k hk
    simp only [reduceIncr4ReturnSum, store_apply]
    split_ifs <;> first | omega | rfl
  · simp only [List.range, List.range.loop, List.map]
    norm_num [reduceIncr4ReturnSum, store_apply]

theorem reduceIncr4ReturnSum_effect_witness :
    ((-1 : Int) < 1 ∨ (1 : Int) + 3 < -1)
    ∧ (reduceIncr4ReturnSum (fun _ => 0) 1 1 2 3 4).data (-1) = 0 :=
  have h : (-1 : Int) < 1 ∨ (1 : Int) + 3 < -1 := Or.inl (by decide)
  ⟨h, (reduceIncr4ReturnSum_effect (fun _ => 0) 1 1 2 3 4).2.2.2.2.1 (-1) h⟩

/-- C23: `rangeArray(ar, size)` writes the identity permutation: afterwards `ar[i] = i` for
every `i` with `0 <= i < size`, and no element at an index `>= size` (or below 0) is
written. For `size <= 0` nothing is written at all. -/
theorem rangeArray_identity (ar : Int → Int) (size : Int) :
    (∀ i : Int, 0 ≤ i → i < size → rangeArray ar size i = i)
    ∧ (∀ i : Int, size ≤ i → rangeArray ar size i = ar i)
    ∧ (∀ i : Int, i < 0 → rangeArray ar size i = ar i)
    ∧ (size ≤ 0 → rangeArray ar size = ar) := by
  have e := rangeArray_loop size (size - 0).toNat 0 ar (le_refl _)
  unfold rangeArray
  rw [e]
  refine ⟨?_, ?_, ?_, ?_⟩
  · intro i h0 h1
    show (if 0 ≤ i ∧ i < size then i else ar i) = i
    rw [if_pos ⟨h0, h1⟩]
  · intro i h
    show (if 0 ≤ i ∧ i < size then i else ar i) = ar i
    rw [if_neg (by omega)]
  · intro i h
    show (if 0 ≤ i ∧ i < size then i else ar i) = ar i
    rw [if_neg (by omega)]
  · intro h
    funext i
    rw [if_neg (by omega)]

theorem rangeArray_identity_witness :
    ((0 : Int) ≤ 2 ∧ (2 : Int) < 3 ∧ rangeArray (fun _ => 7) 3 2 = 2)
    ∧ ((3 : Int) ≤ 3 ∧ rangeArray (fun _ => 7) 3 3 = 7)
    ∧ ((-1 : Int) < 0 ∧ rangeArray (fun _ => 7) 3 (-1) = 7)
    ∧ ((0 : Int) ≤ 0 ∧ rangeArray (fun _ => 7) 0 = fun _ => 7) :=
  ⟨⟨by decide, by decide, (rangeArray_identity (fun _ => 7) 3).1 2 (by decide) (by decide)⟩,
    ⟨by decide, (rangeArray_identity (fun _ => 7) 3).2.1 3 (by decide)⟩,
    ⟨by decide, (rangeArray_identity (fun _ => 7) 3).2.2.1 (-1) (by decide)⟩,
    ⟨by decide, (rangeArray_identity (fun _ => 7) 0).2.2.2 (by decide)⟩⟩

/-- C24: momentum conservation. For every neighbour list whose particle indices lie in
`0 .. N-1` (outer particles, for the RF-LJ-W3P1 kernels the three sites of every water,
and partners) and whose partner indices are pairwise distinct within each outer entry,
the sum over all `N` particles of the force change made by one kernel call is zero in
each of the three components, for both kernels and both output modes. -/
theorem momentum_conservation (invsqrt : ℚ → ℚ) (nlist : t_nblist) (xx : Int → ℚ)
    (fr : t_forcerec) (mdatoms : t_mdatoms) (st : KState) (N : Nat)
    (hN : ∀ iidx : Int, 0 ≤ iidx → iidx < nlist.nri → ∀ jidx : Int,
      nlist.jindex iidx ≤ jidx → jidx < nlist.jindex (iidx + 1) →
      0 ≤ nlist.jjnr jidx ∧ nlist.jjnr jidx < N)
    (hd : PartnersDistinct nlist) (c : Int) (hc0 : 0 ≤ c) (hc2 : c ≤ 2) :
    ((∀ iidx : Int, 0 ≤ iidx → iidx < nlist.nri →
        0 ≤ nlist.iinr iidx ∧ nlist.iinr iidx < N) →
      total N c (fun k =>
          (nb_kernel_ElecNone_VdwLJSh_GeomP1P1_VF_avx_128_fma_double nlist xx fr mdatoms st).f k
            - st.f k) = 0
      ∧ total N c (fun k =>
          (nb_kernel_ElecNone_VdwLJSh_GeomP1P1_F_avx_128_fma_double nlist xx fr mdatoms st).f k
            - st.f k) = 0)
    ∧ ((∀ iidx : Int, 0 ≤ iidx → iidx < nlist.nri →
        0 ≤ nlist.iinr iidx ∧ nlist.iinr iidx + 2 < N) →
      total N c (fun k =>
          (nb_kernel_ElecRF_VdwLJ_GeomW3P1_VF_sse2_double invsqrt nlist xx fr mdatoms st).f k
            - st.f k) = 0
      ∧ total N c (fun k =>
          (nb_kernel_ElecRF_VdwLJ_GeomW3P1_F_sse2_double invsqrt nlist xx fr mdatoms st).f k
            - st.f k) = 0) :=
  ⟨fun hi => ⟨ljsh_VF_kernel_momentum nlist xx fr mdatoms st N hi hN hd c hc0 hc2,
      ljsh_F_kernel_momentum nlist xx fr mdatoms st N hi hN hd c hc0 hc2⟩,
    fun hi => ⟨rf_VF_kernel_momentum invsqrt nlist xx fr mdatoms st N hi hN hd c hc0 hc2,
      rf_F_kernel_momentum invsqrt nlist xx fr mdatoms st N hi hN hd c hc0 hc2⟩⟩

theorem momentum_conservation_witness :
    (∀ iidx : Int, 0 ≤ iidx → iidx < ex_nlist_two.nri → ∀ jidx : Int,
      ex_nlist_two.jindex iidx ≤ jidx → jidx < ex_nlist_two.jindex (iidx + 1) →
      0 ≤ ex_nlist_two.jjnr jidx ∧ ex_nlist_two.jjnr jidx < ((3 : Nat) : Int))
    ∧ PartnersDistinct ex_nlist_two
    ∧ (∀ iidx : Int, 0 ≤ iidx → iidx < ex_nlist_two.nri →
        0 ≤ ex_nlist_two.iinr iidx ∧ ex_nlist_two.iinr iidx < ((3 : Nat) : Int))
    ∧ total 3 0 (fun k =>
        (nb_kernel_ElecNone_VdwLJSh_GeomP1P1_VF_avx_128_fma_double ex_nlist_two ex_x ex_fr
          ex_mdatoms ex_st).f k - ex_st.f k) = 0
    ∧ (∀ iidx : Int, 0 ≤ iidx → iidx < ex_rf_nlist.nri → ∀ jidx : Int,
      ex_rf_nlist.jindex iidx ≤ jidx → jidx < ex_rf_nlist.jindex (iidx + 1) →
      0 ≤ ex_rf_nlist.jjnr jidx ∧ ex_rf_nlist.jjnr jidx < ((4 : Nat) : Int))
    ∧ PartnersDistinct ex_rf_nlist
    ∧ (∀ iidx : Int, 0 ≤ iidx → iidx < ex_rf_nlist.nri →
        0 ≤ ex_rf_nlist.iinr iidx ∧ ex_rf_nlist.iinr iidx + 2 < ((4 : Nat) : Int))
    ∧ total 4 0 (fun k =>
        (nb_kernel_ElecRF_VdwLJ_GeomW3P1_VF_sse2_double invsqrt_tab ex_rf_nlist ex_rf_x ex_rf_fr
          ex_rf_mdatoms ex_st).f k - ex_st.f k) = 0 := by
  have hN1 : ∀ iidx : Int, 0 ≤ iidx → iidx < ex_nlist_two.nri → ∀ jidx : Int,
      ex_nlist_two.jindex iidx ≤ jidx → jidx < ex_nlist_two.jindex (iidx + 1) →
      0 ≤ ex_nlist_two.jjnr jidx ∧ ex_nlist_two.jjnr jidx < ((3 : Nat) : Int) := by
    intro iidx h0 h1 jidx hj0 hj1
    have h1' : iidx < 1 := h1
    have hj0' : 2 * iidx ≤ jidx := hj0
    have hj1' : jidx < 2 * (iidx + 1) := hj1
    show 0 ≤ jidx + 1 ∧ jidx + 1 < ((3 : Nat) : Int)
    omega
  have hd1 : PartnersDistinct ex_nlist_two := by
    intro iidx _ _ a b _ hab _
    show a + 1 ≠ b + 1
    omega
  have hi1 : ∀ iidx : Int, 0 ≤ iidx → iidx < ex_nlist_two.nri →
      0 ≤ ex_nlist_two.iinr iidx ∧ ex_nlist_two.iinr iidx < ((3 : Nat) : Int) :=
    fun _ _ _ => ⟨show (0 : Int) ≤ 0 by decide, show (0 : Int) < ((3 : Nat) : Int) by decide⟩
  have hN2 : ∀ iidx : Int, 0 ≤ iidx → iidx < ex_rf_nlist.nri → ∀ jidx : Int,
      ex_rf_nlist.jindex iidx ≤ jidx → jidx < ex_rf_nlist.jindex (iidx + 1) →
      0 ≤ ex_rf_nlist.jjnr jidx ∧ ex_rf_nlist.jjnr jidx < ((4 : Nat) : Int) :=
    fun _ _ _ _ _ _ =>
      ⟨show (0 : Int) ≤ 3 by decide, show (3 : Int) < ((4 : Nat) : Int) by decide⟩
  have hd2 : PartnersDistinct ex_rf_nlist := by
    intro iidx _ _ a b ha hab hb
    have ha' : iidx ≤ a := ha
    have hb' : b < iidx + 1 := hb
    omega
  have hi2 : ∀ iidx : Int, 0 ≤ iidx → iidx < ex_rf_nlist.nri →
      0 ≤ ex_rf_nlist.iinr iidx ∧ ex_rf_nlist.iinr iidx + 2 < ((4 : Nat) : Int) :=
    fun _ _ _ =>
      ⟨show (0 : Int) ≤ 0 by decide, show (0 : Int) + 2 < ((4 : Nat) : Int) by decide⟩
  exact ⟨hN1, hd1, hi1,
    ((momentum_conservation invsqrt_tab ex_nlist_two ex_x ex_fr ex_mdatoms ex_st 3 hN1 hd1 0
      (le_refl _) (by decide)).1 hi1).1,
    hN2, hd2, hi2,
    ((momentum_conservation invsqrt_tab ex_rf_nlist ex_rf_x ex_rf_fr ex_rf_mdatoms ex_st 4 hN2
      hd2 0 (le_refl _) (by decide)).2 hi2).1⟩

/-- C25: a kernel call changes only the force slots of particles named by the neighbour
list. The three force components of every particle `p` that is neither an outer particle
(for the RF-LJ-W3P1 kernels: none of the sites `iinr[k]`, `iinr[k]+1`, `iinr[k]+2`) nor a
listed partner `jjnr[m]`, `m` in the partner range of some outer entry, are unchanged, and
the three components of every shift-force slot `q` that does not occur in
`shift[0..nri)` are unchanged; for both kernels and both output modes. -/
theorem kernel_changes_only_listed_particles (invsqrt : ℚ → ℚ) (nlist : t_nblist)
    (xx : Int → ℚ) (fr : t_forcerec) (mdatoms : t_mdatoms) (st : KState) :
    (∀ p c : Int, 0 ≤ c → c ≤ 2 →
      (∀ iidx : Int, 0 ≤ iidx → iidx < nlist.nri → nlist.iinr iidx ≠ p) →
      (∀ iidx : Int, 0 ≤ iidx → iidx < nlist.nri → ∀ jidx : Int,
        nlist.jindex iidx ≤ jidx → jidx < nlist.jindex (iidx + 1) → nlist.jjnr jidx ≠ p) →
      (nb_kernel_ElecNone_VdwLJSh_GeomP1P1_VF_avx_128_fma_double nlist xx fr mdatoms st).f
          (DIM * p + c) = st.f (DIM * p + c)
      ∧ (nb_kernel_ElecNone_VdwLJSh_GeomP1P1_F_avx_128_fma_double nlist xx fr mdatoms st).f
          (DIM * p + c) = st.f (DIM * p + c))
    ∧ (∀ p c : Int, 0 ≤ c → c ≤ 2 →
      (∀ iidx : Int, 0 ≤ iidx → iidx < nlist.nri →
        nlist.iinr iidx ≠ p ∧ nlist.iinr iidx + 1 ≠ p ∧ nlist.iinr iidx + 2 ≠ p) →
      (∀ iidx : Int, 0 ≤ iidx → iidx < nlist.nri → ∀ jidx : Int,
        nlist.jindex iidx ≤ jidx → jidx < nlist.jindex (iidx + 1) → nlist.jjnr jidx ≠ p) →
      (nb_kernel_ElecRF_VdwLJ_GeomW3P1_VF_sse2_double invsqrt nlist xx fr mdatoms st).f
          (DIM * p + c) = st.f (DIM * p + c)
      ∧ (nb_kernel_ElecRF_VdwLJ_GeomW3P1_F_sse2_double invsqrt nlist xx fr mdatoms st).f
          (DIM * p + c) = st.f (DIM * p + c))
    ∧ (∀ q c : Int, 0 ≤ c → c ≤ 2 →
      (∀ iidx : Int, 0 ≤ iidx → iidx < nlist.nri → nlist.shift iidx ≠ q) →
      (nb_kernel_ElecNone_VdwLJSh_GeomP1P1_VF_avx_128_fma_double nlist xx fr mdatoms
          st).fshift (DIM * q + c) = st.fshift (DIM * q + c)
      ∧ (nb_kernel_ElecNone_VdwLJSh_GeomP1P1_F_avx_128_fma_double nlist xx fr mdatoms
          st).fshift (DIM * q + c) = st.fshift (DIM * q + c)
      ∧ (nb_kernel_ElecRF_VdwLJ_GeomW3P1_VF_sse2_double invsqrt nlist xx fr mdatoms
          st).fshift (DIM * q + c) = st.fshift (DIM * q + c)
      ∧ (nb_kernel_ElecRF_VdwLJ_GeomW3P1_F_sse2_double invsqrt nlist xx fr mdatoms
          st).fshift (DIM * q + c) = st.fshift (DIM * q + c)) := by
  refine ⟨?_, ?_, ?_⟩
  · intro p c hc0 hc2 hi hj
    have hi' : ∀ iidx : Int, 0 ≤ iidx → iidx < nlist.nri →
        DIM * p + c < DIM * nlist.iinr iidx ∨ DIM * nlist.iinr iidx + 2 < DIM * p + c :=
      fun i h0 h1 => flat_off p _ c hc0 hc2 (hi i h0 h1)
    have hj' : ∀ iidx : Int, 0 ≤ iidx → iidx < nlist.nri → ∀ jidx : Int,
        nlist.jindex iidx ≤ jidx → jidx < nlist.jindex (iidx + 1) →
        DIM * p + c < DIM * nlist.jjnr jidx ∨ DIM * nlist.jjnr jidx + 2 < DIM * p + c :=
      fun i h0 h1 j g0 g1 => flat_off p _ c hc0 hc2 (hj i h0 h1 j g0 g1)
    exact ⟨(ljsh_VF_kernel_frame nlist xx fr mdatoms st _).1 hi' hj',
      (ljsh_F_kernel_frame nlist xx fr mdatoms st _).1 hi' hj'⟩
  · intro p c hc0 hc2 hi hj
    have hi' : ∀ iidx : Int, 0 ≤ iidx → iidx < nlist.nri →
        DIM * p + c < DIM * nlist.iinr iidx ∨ DIM * nlist.iinr iidx + 8 < DIM * p + c := by
      intro i h0 h1
      obtain ⟨a0, a1, a2⟩ := hi i h0 h1
      unfold DIM
      omega
    have hj' : ∀ iidx : Int, 0 ≤ iidx → iidx < nlist.nri → ∀ jidx : Int,
        nlist.jindex iidx ≤ jidx → jidx < nlist.jindex (iidx + 1) →
        DIM * p + c < DIM * nlist.jjnr jidx ∨ DIM * nlist.jjnr jidx + 2 < DIM * p + c :=
      fun i h0 h1 j g0 g1 => flat_off p _ c hc0 hc2 (hj i h0 h1 j g0 g1)
    exact ⟨(rf_VF_kernel_frame invsqrt nlist xx fr mdatoms st _).1 hi' hj',
      (rf_F_kernel_frame invsqrt nlist xx fr mdatoms st _).1 hi' hj'⟩
  · intro q c hc0 hc2 hs
    have hs' : ∀ iidx : Int, 0 ≤ iidx → iidx < nlist.nri →
        DIM * q + c < DIM * nlist.shift iidx ∨ DIM * nlist.shift iidx + 2 < DIM * q + c :=
      fun i h0 h1 => flat_off q _ c hc0 hc2 (hs i h0 h1)
    exact ⟨(ljsh_VF_kernel_frame nlist xx fr mdatoms st _).2 hs',
      (ljsh_F_kernel_frame nlist xx fr mdatoms st _).2 hs',
      (rf_VF_kernel_frame invsqrt nlist xx fr mdatoms st _).2 hs',
      (rf_F_kernel_frame invsqrt nlist xx fr mdatoms st _).2 hs'⟩

theorem kernel_changes_only_listed_particles_witness :
    ((0 : Int) ≤ 1 ∧ (1 : Int) ≤ 2
      ∧ (∀ iidx : Int, 0 ≤ iidx → iidx < ex_nlist_pair.nri → ex_nlist_pair.iinr iidx ≠ 2)
      ∧ (∀ iidx : Int, 0 ≤ iidx → iidx < ex_nlist_pair.nri → ∀ jidx : Int,
          ex_nlist_pair.jindex iidx ≤ jidx → jidx < ex_nlist_pair.jindex (iidx + 1) →
          ex_nlist_pair.jjnr jidx ≠ 2)
      ∧ (nb_kernel_ElecNone_VdwLJSh_GeomP1P1_VF_avx_128_fma_double ex_nlist_pair ex_x ex_fr
          ex_mdatoms ex_st).f (DIM * 2 + 1) = ex_st.f (DIM * 2 + 1))
    ∧ ((∀ iidx : Int, 0 ≤ iidx → iidx < ex_rf_nlist.nri →
          ex_rf_nlist.iinr iidx ≠ 4 ∧ ex_rf_nlist.iinr iidx + 1 ≠ 4
            ∧ ex_rf_nlist.iinr iidx + 2 ≠ 4)
      ∧ (∀ iidx : Int, 0 ≤ iidx → iidx < ex_rf_nlist.nri → ∀ jidx : Int,
          ex_rf_nlist.jindex iidx ≤ jidx → jidx < ex_rf_nlist.jindex (iidx + 1) →
          ex_rf_nlist.jjnr jidx ≠ 4)
      ∧ (nb_kernel_ElecRF_VdwLJ_GeomW3P1_VF_sse2_double invsqrt_tab ex_rf_nlist ex_rf_x
          ex_rf_fr ex_rf_mdatoms ex_st).f (DIM * 4 + 1) = ex_st.f (DIM * 4 + 1))
    ∧ ((∀ iidx : Int, 0 ≤ iidx → iidx < ex_nlist_pair.nri → ex_nlist_pair.shift iidx ≠ 1)
      ∧ (nb_kernel_ElecNone_VdwLJSh_GeomP1P1_VF_avx_128_fma_double ex_nlist_pair ex_x ex_fr
          ex_mdatoms ex_st).fshift (DIM * 1 + 1) = ex_st.fshift (DIM * 1 + 1)) := by
  have hi1 : ∀ iidx : Int, 0 ≤ iidx → iidx < ex_nlist_pair.nri → ex_nlist_pair.iinr iidx ≠ 2 :=
    fun _ _ _ => show (0 : Int) ≠ 2 by decide
  have hj1 : ∀ iidx : Int, 0 ≤ iidx → iidx < ex_nlist_pair.nri → ∀ jidx : Int,
      ex_nlist_pair.jindex iidx ≤ jidx → jidx < ex_nlist_pair.jindex (iidx + 1) →
      ex_nlist_pair.jjnr jidx ≠ 2 :=
    fun _ _ _ _ _ _ => show (1 : Int) ≠ 2 by decide
  have hi2 : ∀ iidx : Int, 0 ≤ iidx → iidx < ex_rf_nlist.nri →
      ex_rf_nlist.iinr iidx ≠ 4 ∧ ex_rf_nlist.iinr iidx + 1 ≠ 4
        ∧ ex_rf_nlist.iinr iidx + 2 ≠ 4 :=
    fun _ _ _ => ⟨show (0 : Int) ≠ 4 by decide, show (0 : Int) + 1 ≠ 4 by decide,
      show (0 : Int) + 2 ≠ 4 by decide⟩
  have hj2 : ∀ iidx : Int, 0 ≤ iidx → iidx < ex_rf_nlist.nri → ∀ jidx : Int,
      ex_rf_nlist.jindex iidx ≤ jidx → jidx < ex_rf_nlist.jindex (iidx + 1) →
      ex_rf_nlist.jjnr jidx ≠ 4 :=
    fun _ _ _ _ _ _ => show (3 : Int) ≠ 4 by decide
  have hs1 : ∀ iidx : Int, 0 ≤ iidx → iidx < ex_nlist_pair.nri →
      ex_nlist_pair.shift iidx ≠ 1 :=
    fun _ _ _ => show (0 : Int) ≠ 1 by decide
  exact ⟨⟨by decide, by decide, hi1, hj1,
      ((kernel_changes_only_listed_particles invsqrt_tab ex_nlist_pair ex_x ex_fr ex_mdatoms
        ex_st).1 2 1 (by decide) (by decide) hi1 hj1).1⟩,
    ⟨hi2, hj2,
      ((kernel_changes_only_listed_particles invsqrt_tab ex_rf_nlist ex_rf_x ex_rf_fr
        ex_rf_mdatoms ex_st).2.1 4 1 (by decide) (by decide) hi2 hj2).1⟩,
    ⟨hs1,
      ((kernel_changes_only_listed_particles invsqrt_tab ex_nlist_pair ex_x ex_fr ex_mdatoms
        ex_st).2.2 1 1 (by decide) (by decide) hs1).1⟩⟩

/-- C26: for every input, the force-only variant of each kernel produces exactly the same
force array and shift-force table as the force-and-potential variant. The factored
Lennard-Jones force scalar of the F variants, `(c12*rinvsix - c6)*(rinvsix*rinvsq)`, equals
the one of the VF variants, `(c12*rinvsix^2 - c6*rinvsix)*rinvsq`, lane by lane, and the
electrostatic force scalar `qq*(rinv*rinvsq - krf2)` is the same expression in both. -/
theorem force_only_equals_force_and_potential (invsqrt : ℚ → ℚ) (nlist : t_nblist)
    (xx : Int → ℚ) (fr : t_forcerec) (mdatoms : t_mdatoms) (st : KState) :
    (nb_kernel_ElecNone_VdwLJSh_GeomP1P1_F_avx_128_fma_double nlist xx fr mdatoms st).f
        = (nb_kernel_ElecNone_VdwLJSh_GeomP1P1_VF_avx_128_fma_double nlist xx fr mdatoms st).f
    ∧ (nb_kernel_ElecNone_VdwLJSh_GeomP1P1_F_avx_128_fma_double nlist xx fr mdatoms st).fshift
        = (nb_kernel_ElecNone_VdwLJSh_GeomP1P1_VF_avx_128_fma_double nlist xx fr mdatoms
            st).fshift
    ∧ (nb_kernel_ElecRF_VdwLJ_GeomW3P1_F_sse2_double invsqrt nlist xx fr mdatoms st).f
        = (nb_kernel_ElecRF_VdwLJ_GeomW3P1_VF_sse2_double invsqrt nlist xx fr mdatoms st).f
    ∧ (nb_kernel_ElecRF_VdwLJ_GeomW3P1_F_sse2_double invsqrt nlist xx fr mdatoms st).fshift
        = (nb_kernel_ElecRF_VdwLJ_GeomW3P1_VF_sse2_double invsqrt nlist xx fr mdatoms
            st).fshift
    ∧ (∀ c6 c12 rinvsq sh : M128d,
        ljsh_F_lennard_jones c6 c12 rinvsq = (ljsh_VF_lennard_jones c6 c12 rinvsq sh).fvdw)
    ∧ (∀ c6 c12 rinvsix rinvsq : M128d,
        _mm_mul_pd (_mm_sub_pd (_mm_mul_pd c12 rinvsix) c6) (_mm_mul_pd rinvsix rinvsq)
          = _mm_mul_pd (_mm_sub_pd (_mm_mul_pd c12 (_mm_mul_pd rinvsix rinvsix))
              (_mm_mul_pd c6 rinvsix)) rinvsq) :=
  ⟨(ljsh_kernel_same_forces nlist xx fr mdatoms st).1.symm,
    (ljsh_kernel_same_forces nlist xx fr mdatoms st).2.symm,
    (rf_kernel_same_forces invsqrt nlist xx fr mdatoms st).1.symm,
    (rf_kernel_same_forces invsqrt nlist xx fr mdatoms st).2.symm,
    fun c6 c12 rinvsq sh => (ljsh_fvdw_VF_eq_F c6 c12 rinvsq sh).symm,
    fun c6 c12 rinvsix rinvsq => (fvdw_VF_eq_F c6 c12 rinvsix rinvsq).symm⟩

/-- C27, failing input: the empty neighbour list (`nri = 0`, `iinr` without entries) on the
water system satisfies the spec's preconditions, yet both RF-LJ-W3P1 kernels read
`iinr[0]` in their set-up before the outer loop, and that index is outside the array: not
every access of the kernels is in bounds. -/
theorem rf_kernel_reads_iinr0_of_empty_list :
    ValidInput ex_nlist_none ex_rf_fr ex_rf_mdatoms 7 1 1 ex_sizes_none
    ∧ ex_nlist_none.nri = 0
    ∧ (⟨Arr.iinr, 0⟩ : Access) ∈ rf_VF_accesses ex_nlist_none ex_rf_fr ex_rf_mdatoms
    ∧ (⟨Arr.iinr, 0⟩ : Access) ∈ rf_F_accesses ex_nlist_none ex_rf_fr ex_rf_mdatoms
    ∧ ¬ InBounds ex_sizes_none ⟨Arr.iinr, 0⟩
    ∧ ¬ AllInBounds ex_sizes_none (rf_VF_accesses ex_nlist_none ex_rf_fr ex_rf_mdatoms)
    ∧ ¬ AllInBounds ex_sizes_none (rf_F_accesses ex_nlist_none ex_rf_fr ex_rf_mdatoms) := by
  have e := rf_accesses_empty_list ex_nlist_none ex_rf_fr ex_rf_mdatoms rfl
  have hm : (⟨Arr.iinr, 0⟩ : Access) ∈ rf_setup_accesses ex_nlist_none :=
    List.mem_cons_self _ _
  have hn : ¬ InBounds ex_sizes_none ⟨Arr.iinr, 0⟩ := by
    intro h
    have h2 : (0 : Int) < 0 := h.2
    omega
  refine ⟨ex_valid_none, rfl, ?_, ?_, hn, ?_, ?_⟩
  · rw [e.1]; exact hm
  · rw [e.2]; exact hm
  · intro h
    exact hn (h _ (by rw [e.1]; exact hm))
  · intro h
    exact hn (h _ (by rw [e.2]; exact hm))

/-- C28: after `insertionSort(arr, perm, startndx, endndx, direction)` the segment
`arr[startndx..endndx]` is sorted in the requested direction: non-decreasing when
`direction >= 0` and non-increasing when `direction < 0`. The keys are rationals (totally
ordered); for `startndx > endndx` the segment is empty and the statement is void. -/
theorem insertionSort_sorted (arr : Int → ℚ) (perm : Int → Int)
    (startndx endndx direction : Int) :
    (direction ≥ 0 → ∀ a b : Int, startndx ≤ a → a ≤ b → b ≤ endndx →
      (insertionSort arr perm startndx endndx direction).arr a
        ≤ (insertionSort arr perm startndx endndx direction).arr b)
    ∧ (direction < 0 → ∀ a b : Int, startndx ≤ a → a ≤ b → b ≤ endndx →
      (insertionSort arr perm startndx endndx direction).arr b
        ≤ (insertionSort arr perm startndx endndx direction).arr a) := by
  refine ⟨?_, ?_⟩
  · intro h a b h1 h2 h3
    rw [insertionSort_up _ _ _ _ _ h]
    exact AdjSorted_up _ startndx endndx
      (insertion_pass _ gt_asymm_bool startndx endndx _).1 (b - a).toNat a b (le_refl _) h1 h2 h3
  · intro h a b h1 h2 h3
    rw [insertionSort_down _ _ _ _ _ h]
    exact AdjSorted_down _ startndx endndx
      (insertion_pass _ lt_asymm_bool startndx endndx _).1 (b - a).toNat a b (le_refl _) h1 h2 h3

theorem insertionSort_sorted_witness :
    ((1 : Int) ≥ 0 ∧ (0 : Int) ≤ 0 ∧ (0 : Int) ≤ 3 ∧ (3 : Int) ≤ 3
      ∧ (insertionSort ex_sort_arr (rangeArray (fun _ => 0) 4) 0 3 1).arr 0
          ≤ (insertionSort ex_sort_arr (rangeArray (fun _ => 0) 4) 0 3 1).arr 3)
    ∧ ((-1 : Int) < 0 ∧ (1 : Int) ≤ 1 ∧ (1 : Int) ≤ 2 ∧ (2 : Int) ≤ 3
      ∧ (insertionSort ex_sort_arr (rangeArray (fun _ => 0) 4) 1 3 (-1)).arr 2
          ≤ (insertionSort ex_sort_arr (rangeArray (fun _ => 0) 4) 1 3 (-1)).arr 1) :=
  ⟨⟨by decide, by decide, by decide, by decide,
      (insertionSort_sorted ex_sort_arr (rangeArray (fun _ => 0) 4) 0 3 1).1 (by decide) 0 3
        (by decide) (by decide) (by decide)⟩,
    ⟨by decide, by decide, by decide, by decide,
      (insertionSort_sorted ex_sort_arr (rangeArray (fun _ => 0) 4) 1 3 (-1)).2 (by decide) 1 2
        (by decide) (by decide) (by decide)⟩⟩

/-- C29: `insertionSort` only rearranges: the multiset of the values in
`arr[startndx..endndx]` after the call equals the multiset before, and every element of
`arr` and of `perm` at an index outside `[startndx, endndx]` is unchanged. -/
theorem insertionSort_only_rearranges (arr : Int → ℚ) (perm : Int → Int)
    (startndx endndx direction : Int) :
    Multiset.map (insertionSort arr perm startndx endndx direction).arr
        (Finset.Icc startndx endndx).val
      = Multiset.map arr (Finset.Icc startndx endndx).val
    ∧ (∀ k : Int, k < startndx ∨ endndx < k →
        (insertionSort arr perm startndx endndx direction).arr k = arr k
        ∧ (insertionSort arr perm startndx endndx direction).perm k = perm k) := by
  obtain ⟨σ, hσ, ha, hp⟩ := insertionSort_rearranged arr perm startndx endndx direction
  refine ⟨?_, ?_⟩
  · rw [← segment_multiset_perm startndx endndx σ hσ arr]
    exact Multiset.map_congr rfl (fun k _ => ha k)
  · intro k hk
    have e1 := ha k
    have e2 := hp k
    rw [hσ k hk] at e1 e2
    exact ⟨e1, e2⟩

theorem insertionSort_only_rearranges_witness :
    ((4 : Int) < 0 ∨ (3 : Int) < 4)
    ∧ (insertionSort ex_sort_arr (rangeArray (fun _ => 0) 4) 0 3 1).arr 4 = ex_sort_arr 4
    ∧ (insertionSort ex_sort_arr (rangeArray (fun _ => 0) 4) 0 3 1).perm 4
        = rangeArray (fun _ => 0) 4 4 :=
  have h : (4 : Int) < 0 ∨ (3 : Int) < 4 := Or.inr (by decide)
  ⟨h, (insertionSort_only_rearranges ex_sort_arr (rangeArray (fun _ => 0) 4) 0 3 1).2 4 h⟩

/-- C30: `insertionSort` applies the same swaps to `perm` as to `arr`: if `perm` is the
identity on `[startndx, endndx]` before the call (as produced by `rangeArray`), then
afterwards `perm` restricted to the segment is a permutation of `startndx..endndx` (it
maps the segment into itself, injectively and onto) and
`arr_after[k] = arr_before[perm_after[k]]` for every `k` in the segment. -/
theorem insertionSort_tracks_permutation (arr : Int → ℚ) (perm : Int → Int)
    (startndx endndx direction : Int)
    (hid : ∀ k : Int, startndx ≤ k → k ≤ endndx → perm k = k) :
    (∀ k : Int, startndx ≤ k → k ≤ endndx →
      startndx ≤ (insertionSort arr perm startndx endndx direction).perm k
      ∧ (insertionSort arr perm startndx endndx direction).perm k ≤ endndx)
    ∧ (∀ k l : Int, startndx ≤ k → k ≤ endndx → startndx ≤ l → l ≤ endndx →
      (insertionSort arr perm startndx endndx direction).perm k
        = (insertionSort arr perm startndx endndx direction).perm l → k = l)
    ∧ (∀ v : Int, startndx ≤ v → v ≤ endndx → ∃ k : Int, startndx ≤ k ∧ k ≤ endndx
      ∧ (insertionSort arr perm startndx endndx direction).perm k = v)
    ∧ (∀ k : Int, startndx ≤ k → k ≤ endndx →
      (insertionSort arr perm startndx endndx direction).arr k
        = arr ((insertionSort arr perm startndx endndx direction).perm k)) := by
  obtain ⟨σ, hσ, ha, hp⟩ := insertionSort_rearranged arr perm startndx endndx direction
  have hseg : ∀ k : Int, startndx ≤ k → k ≤ endndx → startndx ≤ σ k ∧ σ k ≤ endndx :=
    fun k h1 h2 => perm_maps_segment startndx endndx σ hσ k ⟨h1, h2⟩
  have hperm : ∀ k : Int, startndx ≤ k → k ≤ endndx →
      (insertionSort arr perm startndx endndx direction).perm k = σ k := by
    intro k h1 h2
    have e : (insertionSort arr perm startndx endndx direction).perm k = perm (σ k) := hp k
    rw [e]
    exact hid (σ k) (hseg k h1 h2).1 (hseg k h1 h2).2
  refine ⟨?_, ?_, ?_, ?_⟩
  · intro k h1 h2
    rw [hperm k h1 h2]
    exact hseg k h1 h2
  · intro k l h1 h2 h3 h4 e
    rw [hperm k h1 h2, hperm l h3 h4] at e
    exact σ.injective e
  · intro v h1 h2
    have hv : startndx ≤ σ.symm v ∧ σ.symm v ≤ endndx := by
      by_contra hc
      have h := hσ (σ.symm v) (by omega)
      rw [Equiv.apply_symm_apply] at h
      rw [← h] at hc
      exact hc ⟨h1, h2⟩
    refine ⟨σ.symm v, hv.1, hv.2, ?_⟩
    rw [hperm _ hv.1 hv.2, Equiv.apply_symm_apply]
  · intro k h1 h2
    rw [hperm k h1 h2]
    exact ha k

theorem insertionSort_tracks_permutation_witness :
    (∀ k : Int, 0 ≤ k → k ≤ 3 → rangeArray (fun _ => 0) 4 k = k)
    ∧ (insertionSort ex_sort_arr (rangeArray (fun _ => 0) 4) 0 3 1).arr 0
        = ex_sort_arr ((insertionSort ex_sort_arr (rangeArray (fun _ => 0) 4) 0 3 1).perm 0) :=
  have hid : ∀ k : Int, 0 ≤ k → k ≤ 3 → rangeArray (fun _ => 0) 4 k = k :=
    fun k h0 h1 => rangeArray_apply _ 4 k h0 (by omega)
  ⟨hid, (insertionSort_tracks_permutation ex_sort_arr (rangeArray (fun _ => 0) 4) 0 3 1
    hid).2.2.2 0 (by decide) (by decide)⟩

/-- C31: `insertionSort` is stable in both directions: if `perm` is the identity on the
segment before the call, then for any two positions `k < l` of the sorted segment with
`arr_after[k] = arr_after[l]` we have `perm_after[k] < perm_after[l]`, that is, equal keys
keep their original relative order. -/
theorem insertionSort_stable (arr : Int → ℚ) (perm : Int → Int)
    (startndx endndx direction : Int)
    (hid : ∀ k : Int, startndx ≤ k → k ≤ endndx → perm k = k) :
    ∀ k l : Int, startndx ≤ k → k < l → l ≤ endndx →
      (insertionSort arr perm startndx endndx direction).arr k
        = (insertionSort arr perm startndx endndx direction).arr l →
      (insertionSort arr perm startndx endndx direction).perm k
        < (insertionSort arr perm startndx endndx direction).perm l := by
  by_cases h : direction ≥ 0
  · rw [insertionSort_up _ _ _ _ _ h]
    exact insertion_pass_stable _ gt_irrefl_bool startndx endndx { arr := arr, perm := perm }
      hid
  · rw [insertionSort_down _ _ _ _ _ (by omega)]
    exact insertion_pass_stable _ lt_irrefl_bool startndx endndx { arr := arr, perm := perm }
      hid

theorem insertionSort_stable_witness :
    (∀ k : Int, 0 ≤ k → k ≤ 3 → rangeArray (fun _ => 0) 4 k = k)
    ∧ (insertionSort ex_tie_arr (rangeArray (fun _ => 0) 4) 0 3 1).arr 0
        = (insertionSort ex_tie_arr (rangeArray (fun _ => 0) 4) 0 3 1).arr 1
    ∧ (insertionSort ex_tie_arr (rangeArray (fun _ => 0) 4) 0 3 1).perm 0
        < (insertionSort ex_tie_arr (rangeArray (fun _ => 0) 4) 0 3 1).perm 1 :=
  have hid : ∀ k : Int, 0 ≤ k → k ≤ 3 → rangeArray (fun _ => 0) 4 k = k :=
    fun k h0 h1 => rangeArray_apply _ 4 k h0 (by omega)
  have hconst : ∀ k : Int,
      (insertionSort ex_tie_arr (rangeArray (fun _ => 0) 4) 0 3 1).arr k = 5 := by
    intro k
    obtain ⟨σ, _, ha, _⟩ :=
      insertionSort_rearranged ex_tie_arr (rangeArray (fun _ => 0) 4) 0 3 1
    rw [ha k]
    rfl
  ⟨hid, (hconst 0).trans (hconst 1).symm,
    insertionSort_stable ex_tie_arr (rangeArray (fun _ => 0) 4) 0 3 1 hid 0 1 (by decide)
      (by decide) (by decide) ((hconst 0).trans (hconst 1).symm)⟩

/-- C32: for `direction >= 0`, `low <= high` and `array` non-decreasing on `[low, high]`,
`BinarySearch(array, low, high, key, direction)` returns `r` with
`low+1 <= r <= high+1` such that `array[k] <= key` for every `k` with
`low+1 <= k <= r-1` and `array[k] > key` for every `k` with `r <= k <= high`. So `r` is the
one-based position of the last element not greater than `key` among `array[low+1..high]`
(every such element has a one-based position `k+1 <= r`, and the element at position `r`
is one of them when `r > low+1`), or `low+1` if there is none. -/
theorem BinarySearch_nondecreasing (array : Int → ℚ) (low high : Int) (key : ℚ)
    (direction : Int) (hd : direction ≥ 0) (hlh : low ≤ high)
    (hs : ∀ a b : Int, low ≤ a → a ≤ b → b ≤ high → array a ≤ array b) :
    low + 1 ≤ (BinarySearch array low high key direction).ret
    ∧ (BinarySearch array low high key direction).ret ≤ high + 1
    ∧ (∀ k : Int, low + 1 ≤ k → k ≤ (BinarySearch array low high key direction).ret - 1 →
        array k ≤ key)
    ∧ (∀ k : Int, (BinarySearch array low high key direction).ret ≤ k → k ≤ high →
        array k > key)
    ∧ (∀ k : Int, low + 1 ≤ k → k ≤ high → array k ≤ key →
        k + 1 ≤ (BinarySearch array low high key direction).ret)
    ∧ (low + 1 < (BinarySearch array low high key direction).ret →
        array ((BinarySearch array low high key direction).ret - 1) ≤ key)
    ∧ ((∀ k : Int, low + 1 ≤ k → k ≤ high → ¬ array k ≤ key) →
        (BinarySearch array low high key direction).ret = low + 1) := by
  rw [BinarySearch_ret_up _ _ _ _ _ hd]
  obtain ⟨e, h1, h2, hL, hR⟩ := BinarySearch_loop_spec (fun key a => decide (key < a)) array
    key (low + 1) (high + 2) (high + 2 - (low + 1)).toNat
    { iMin := low + 1, iMax := high + 2, reads := [] } (le_refl _) (le_refl _)
    (show low + 1 < high + 2 by omega) (le_refl _) (fun h => absurd h (lt_irrefl _))
    (fun h => absurd h (lt_irrefl _))
  simp only [] at e h1 h2 hL hR ⊢
  have hle : ∀ k : Int, low + 1 ≤ k →
      k ≤ (BinarySearch_loop (fun key a => decide (key < a)) array key
        { iMin := low + 1, iMax := high + 2, reads := [] }).iMin - 1 → array k ≤ key := by
    intro k hk1 hk2
    have h3 := hL (by omega)
    simp only [decide_eq_false_iff_not, not_lt] at h3
    exact le_trans (hs k _ (by omega) hk2 (by omega)) h3
  have hgt : ∀ k : Int, (BinarySearch_loop (fun key a => decide (key < a)) array key
        { iMin := low + 1, iMax := high + 2, reads := [] }).iMin ≤ k → k ≤ high →
      array k > key := by
    intro k hk1 hk2
    have h3 := hR (by omega)
    rw [e] at h3
    simp only [decide_eq_true_eq, add_sub_cancel_right] at h3
    exact lt_of_lt_of_le h3 (hs _ k (by omega) hk1 hk2)
  refine ⟨h1, by omega, hle, hgt, ?_, ?_, ?_⟩
  · intro k hk1 hk2 hk3
    by_contra hc
    exact absurd hk3 (not_le.mpr (hgt k (by omega) hk2))
  · intro h
    exact hle _ (by omega) (le_refl _)
  · intro hnone
    by_contra hc
    exact hnone _ (by omega) (by omega) (hle _ (by omega) (le_refl _))

theorem BinarySearch_nondecreasing_witness :
    (1 : Int) ≥ 0 ∧ (0 : Int) ≤ 3
    ∧ (∀ a b : Int, 0 ≤ a → a ≤ b → b ≤ 3 → ex_search_up a ≤ ex_search_up b)
    ∧ (0 : Int) + 1 ≤ (BinarySearch ex_search_up 0 3 4 1).ret
    ∧ (BinarySearch ex_search_up 0 3 4 1).ret ≤ 3 + 1 :=
  ⟨by decide, by decide, ex_search_up_sorted,
    (BinarySearch_nondecreasing ex_search_up 0 3 4 1 (by decide) (by decide)
      ex_search_up_sorted).1,
    (BinarySearch_nondecreasing ex_search_up 0 3 4 1 (by decide) (by decide)
      ex_search_up_sorted).2.1⟩

/-- C33: for `direction < 0`, `low <= high` and `array` non-increasing on `[low, high]`,
`BinarySearch` returns `r` with `low <= r <= high` such that `array[k] >= key` for every
`k` with `low+1 <= k <= r` and `array[k] < key` for every `k` with `r+1 <= k <= high`. The
result is a zero-based index: one less than the value the `direction >= 0` branch returns
for the negated array and the negated key. -/
theorem BinarySearch_nonincreasing (array : Int → ℚ) (low high : Int) (key : ℚ)
    (direction : Int) (hd : direction < 0) (hlh : low ≤ high)
    (hs : ∀ a b : Int, low ≤ a → a ≤ b → b ≤ high → array b ≤ array a) :
    low ≤ (BinarySearch array low high key direction).ret
    ∧ (BinarySearch array low high key direction).ret ≤ high
    ∧ (∀ k : Int, low + 1 ≤ k → k ≤ (BinarySearch array low high key direction).ret →
        array k ≥ key)
    ∧ (∀ k : Int, (BinarySearch array low high key direction).ret + 1 ≤ k → k ≤ high →
        array k < key)
    ∧ (∀ d : Int, d ≥ 0 →
        (BinarySearch array low high key direction).ret
          = (BinarySearch (fun k => - array k) low high (- key) d).ret - 1) := by
  rw [BinarySearch_ret_down _ _ _ _ _ hd]
  obtain ⟨e, h1, h2, hL, hR⟩ := BinarySearch_loop_spec (fun key a => decide (key > a)) array
    key (low + 1) (high + 2) (high + 2 - (low + 1)).toNat
    { iMin := low + 1, iMax := high + 2, reads := [] } (le_refl _) (le_refl _)
    (show low + 1 < high + 2 by omega) (le_refl _) (fun h => absurd h (lt_irrefl _))
    (fun h => absurd h (lt_irrefl _))
  simp only [] at e h1 h2 hL hR ⊢
  refine ⟨by omega, by omega, ?_, ?_, ?_⟩
  · intro k hk1 hk2
    have h3 := hL (by omega)
    have h4 : key ≤ array ((BinarySearch_loop (fun key a => decide (key > a)) array key
        { iMin := low + 1, iMax := high + 2, reads := [] }).iMin - 1) :=
      not_lt.mp (of_decide_eq_false h3)
    exact le_trans h4 (hs k _ (by omega) (by omega) (by omega))
  · intro k hk1 hk2
    have h3 := hR (by omega)
    rw [e] at h3
    have h4 : array ((BinarySearch_loop (fun key a => decide (key > a)) array key
        { iMin := low + 1, iMax := high + 2, reads := [] }).iMin + 1 - 1) < key :=
      of_decide_eq_true h3
    rw [show (BinarySearch_loop (fun key a => decide (key > a)) array key
        { iMin := low + 1, iMax := high + 2, reads := [] }).iMin + 1 - 1
        = (BinarySearch_loop (fun key a => decide (key > a)) array key
        { iMin := low + 1, iMax := high + 2, reads := [] }).iMin by omega] at h4
    exact lt_of_le_of_lt (hs _ k (by omega) (by omega) hk2) h4
  · intro d hd2
    rw [BinarySearch_ret_up _ _ _ _ _ hd2]
    simp only []
    rw [BinarySearch_loop_congr (fun key a => decide (key > a)) (fun key a => decide (key < a))
      array (fun k => - array k) key (- key)
      (fun i => by simp only [gt_iff_lt, neg_lt_neg_iff]) (high + 2 - (low + 1)).toNat _
      (le_refl _)]

theorem BinarySearch_nonincreasing_witness :
    (-1 : Int) < 0 ∧ (0 : Int) ≤ 3
    ∧ (∀ a b : Int, 0 ≤ a → a ≤ b → b ≤ 3 → ex_search_down b ≤ ex_search_down a)
    ∧ (0 : Int) ≤ (BinarySearch ex_search_down 0 3 4 (-1)).ret
    ∧ (BinarySearch ex_search_down 0 3 4 (-1)).ret ≤ 3 :=
  ⟨by decide, by decide, ex_search_down_sorted,
    (BinarySearch_nonincreasing ex_search_down 0 3 4 (-1) (by decide) (by decide)
      ex_search_down_sorted).1,
    (BinarySearch_nonincreasing ex_search_down 0 3 4 (-1) (by decide) (by decide)
      ex_search_down_sorted).2.1⟩

/-- C34: for every `low`, `high`, `key` and `direction`, `BinarySearch` terminates and
reads `array` only at zero-based indices `k` with `low+1 <= k <= high`; in particular it
never reads `array[low]` and performs no read when `high <= low`. Termination: the model
is a total function; while `iMax - iMin > 1` one iteration (`BinarySearch_step`) keeps
`iMax - iMin` positive and makes it strictly smaller, in both copies of the loop, and the
loop ends with `iMax - iMin <= 1`. -/
theorem BinarySearch_terminates_and_reads_inside (array : Int → ℚ) (low high : Int) (key : ℚ)
    (direction : Int) :
    (∀ k ∈ (BinarySearch array low high key direction).reads, low + 1 ≤ k ∧ k ≤ high)
    ∧ low ∉ (BinarySearch array low high key direction).reads
    ∧ (high ≤ low → (BinarySearch array low high key direction).reads = [])
    ∧ (∀ (go_left : ℚ → ℚ → Bool) (s : BSState), s.iMax - s.iMin > 1 →
        BinarySearch_loop go_left array key s
          = BinarySearch_loop go_left array key (BinarySearch_step go_left array key s)
        ∧ 0 < (BinarySearch_step go_left array key s).iMax
              - (BinarySearch_step go_left array key s).iMin
        ∧ (BinarySearch_step go_left array key s).iMax
              - (BinarySearch_step go_left array key s).iMin < s.iMax - s.iMin)
    ∧ (∀ (go_left : ℚ → ℚ → Bool) (s : BSState),
        (BinarySearch_loop go_left array key s).iMax
          - (BinarySearch_loop go_left array key s).iMin ≤ 1) := by
  have hreads : (∀ k ∈ (BinarySearch array low high key direction).reads,
        low + 1 ≤ k ∧ k ≤ high)
      ∧ (high ≤ low → (BinarySearch array low high key direction).reads = []) := by
    by_cases hd : direction ≥ 0
    · rw [BinarySearch_ret_up _ _ _ _ _ hd]
      obtain ⟨r1, r2⟩ := BinarySearch_loop_reads (fun key a => decide (key < a)) array key
        (low + 1) (high + 2) (high + 2 - (low + 1)).toNat
        { iMin := low + 1, iMax := high + 2, reads := [] } (le_refl _) (le_refl _) (le_refl _)
        (fun k hk => absurd hk (List.not_mem_nil k))
      exact ⟨fun k hk => ⟨(r1 k hk).1, by have := (r1 k hk).2; omega⟩,
        fun h => r2 (show high + 2 - (low + 1) ≤ 1 by omega)⟩
    · rw [BinarySearch_ret_down _ _ _ _ _ (by omega)]
      obtain ⟨r1, r2⟩ := BinarySearch_loop_reads (fun key a => decide (key > a)) array key
        (low + 1) (high + 2) (high + 2 - (low + 1)).toNat
        { iMin := low + 1, iMax := high + 2, reads := [] } (le_refl _) (le_refl _) (le_refl _)
        (fun k hk => absurd hk (List.not_mem_nil k))
      exact ⟨fun k hk => ⟨(r1 k hk).1, by have := (r1 k hk).2; omega⟩,
        fun h => r2 (show high + 2 - (low + 1) ≤ 1 by omega)⟩
  refine ⟨hreads.1, ?_, hreads.2, ?_, ?_⟩
  · intro hmem
    have := (hreads.1 low hmem).1
    omega
  · intro go_left s h
    obtain ⟨_, _, b3, b4⟩ := BinarySearch_step_bounds go_left array key s h
    refine ⟨?_, b3, b4⟩
    rw [BinarySearch_loop_unfold go_left array key s, if_pos h]
  · intro go_left s
    exact BinarySearch_loop_exit go_left array key (s.iMax - s.iMin).toNat s (le_refl _)

theorem BinarySearch_terminates_and_reads_inside_witness :
    (3 : Int) ≤ 3 ∧ (BinarySearch ex_search_up 3 3 4 1).reads = []
    ∧ (0 : Int) ∉ (BinarySearch ex_search_up 0 3 4 1).reads :=
  ⟨le_refl _,
    (BinarySearch_terminates_and_reads_inside ex_search_up 3 3 4 1).2.2.1 (le_refl _),
    (BinarySearch_terminates_and_reads_inside ex_search_up 0 3 4 1).2.1⟩

/-- C35: for `direction >= 0`, `LinearSearch(array, startindx, stopindx, key, count,
direction)` returns `i-1` where `i` is the least index in `[startindx, stopindx]` with
`array[i] > key`, and `-1` if no such index exists; it increases `*count` by exactly the
number of elements examined (`i - startindx + 1` on a hit,
`max(0, stopindx - startindx + 1)` on a miss) and does not modify `array`. -/
theorem LinearSearch_forward (array : Int → ℚ) (startindx stopindx : Int) (key : ℚ)
    (count : Int) (direction : Int) (hd : direction ≥ 0) :
    (∀ i : Int, startindx ≤ i → i ≤ stopindx → array i > key →
        (∀ k : Int, startindx ≤ k → k < i → ¬ array k > key) →
        (LinearSearch array startindx stopindx key count direction).ret = i - 1
        ∧ (LinearSearch array startindx stopindx key count direction).count
            = count + (i - startindx + 1))
    ∧ ((∀ k : Int, startindx ≤ k → k ≤ stopindx → ¬ array k > key) →
        (LinearSearch array startindx stopindx key count direction).ret = -1
        ∧ (LinearSearch array startindx stopindx key count direction).count
            = count + max 0 (stopindx - startindx + 1))
    ∧ (LinearSearch array startindx stopindx key count direction).array = array := by
  have hL : LinearSearch array startindx stopindx key count direction
      = LinearSearch_up array stopindx key startindx count := by
    unfold LinearSearch
    rw [if_pos hd]
  rw [hL]
  refine ⟨?_, ?_, ?_⟩
  · intro i h1 h2 hgt hleast
    obtain ⟨r1, r2, _⟩ := LinearSearch_up_hit array stopindx key i h2 hgt
      (i - startindx).toNat startindx count (le_refl _) h1 hleast
    exact ⟨r1, r2⟩
  · intro hnone
    obtain ⟨r1, r2, _⟩ := LinearSearch_up_miss array stopindx key
      (stopindx + 1 - startindx).toNat startindx count (le_refl _) hnone
    exact ⟨r1, r2⟩
  · exact LinearSearch_up_array array stopindx key (stopindx + 1 - startindx).toNat
      startindx count (le_refl _)

theorem LinearSearch_forward_witness :
    (1 : Int) ≥ 0
    ∧ (LinearSearch ex_search_up 0 3 4 10 1).ret = 2 - 1
    ∧ (LinearSearch ex_search_up 0 3 4 10 1).count = 10 + (2 - 0 + 1)
    ∧ (LinearSearch ex_search_up 0 3 4 10 1).array = ex_search_up :=
  ⟨by decide,
    ((LinearSearch_forward ex_search_up 0 3 4 10 1 (by decide)).1 2 (by decide) (by decide)
      (by norm_num [ex_search_up])
      (fun k h1 h2 => by
        have hk : k = 0 ∨ k = 1 := by omega
        rcases hk with rfl | rfl <;> norm_num [ex_search_up])).1,
    ((LinearSearch_forward ex_search_up 0 3 4 10 1 (by decide)).1 2 (by decide) (by decide)
      (by norm_num [ex_search_up])
      (fun k h1 h2 => by
        have hk : k = 0 ∨ k = 1 := by omega
        rcases hk with rfl | rfl <;> norm_num [ex_search_up])).2,
    (LinearSearch_forward ex_search_up 0 3 4 10 1 (by decide)).2.2⟩

/-- C36, in a build with assertions where the host buffer is not pinned: the pointers are
not `NULL`, `bytes` is 8, the transfer kind is `Async` and the device call would succeed,
yet `cu_copy_D2H` and `cu_copy_H2D` are stopped by the `GMX_ASSERT` on
`isHostMemoryPinned` before any copy: no transfer is made and 0 is not returned. -/
theorem cu_copy_async_unpinned_stops_at_assertion :
    ¬ ((1 : Nat) = 0 ∨ (2 : Nat) = 0 ∨ (8 : Int) = 0)
    ∧ ex_dev_unpinned.hipMemcpyAsync 1 2 8 hipMemcpyKind.hipMemcpyDeviceToHost 0 = true
    ∧ ex_dev_unpinned.hipMemcpyAsync 1 2 8 hipMemcpyKind.hipMemcpyHostToDevice 0 = true
    ∧ (cu_copy_D2H ex_dev_unpinned 1 2 8 GpuApiCallBehavior.Async 0).outcome
        = Outcome.assertion_failed
    ∧ (cu_copy_D2H ex_dev_unpinned 1 2 8 GpuApiCallBehavior.Async 0).calls = []
    ∧ (cu_copy_D2H ex_dev_unpinned 1 2 8 GpuApiCallBehavior.Async 0).outcome
        ≠ Outcome.returned 0
    ∧ (cu_copy_H2D ex_dev_unpinned 1 2 8 GpuApiCallBehavior.Async 0).outcome
        = Outcome.assertion_failed
    ∧ (cu_copy_H2D ex_dev_unpinned 1 2 8 GpuApiCallBehavior.Async 0).calls = []
    ∧ (cu_copy_H2D ex_dev_unpinned 1 2 8 GpuApiCallBehavior.Async 0).outcome
        ≠ Outcome.returned 0 := by
  refine ⟨by decide, rfl, rfl, by decide, by decide, by decide, by decide, by decide,
    by decide⟩

/-- C36, amended: `cu_copy_D2H` and `cu_copy_H2D` return -1 and perform no transfer exactly
when the destination pointer is `NULL`, the source pointer is `NULL` or `bytes` is 0; for
every other input with `transferKind` `Sync`, or with `transferKind` `Async` and a pinned
host buffer (or assertions compiled out), and a successful device call they perform one
copy of `bytes` bytes in the stated direction and return 0. -/
theorem cu_copy_result (dev : Device) (dest src : Nat) (bytes : Int)
    (transferKind : GpuApiCallBehavior) (s : Nat) :
    (((cu_copy_D2H dev dest src bytes transferKind s).outcome = Outcome.returned (-1)
        ∧ (cu_copy_D2H dev dest src bytes transferKind s).calls = [])
      ↔ (dest = 0 ∨ src = 0 ∨ bytes = 0))
    ∧ (((cu_copy_H2D dev dest src bytes transferKind s).outcome = Outcome.returned (-1)
        ∧ (cu_copy_H2D dev dest src bytes transferKind s).calls = [])
      ↔ (dest = 0 ∨ src = 0 ∨ bytes = 0))
    ∧ (¬ (dest = 0 ∨ src = 0 ∨ bytes = 0) → transferKind = GpuApiCallBehavior.Sync →
        dev.hipMemcpy dest src bytes hipMemcpyKind.hipMemcpyDeviceToHost = true →
        (cu_copy_D2H dev dest src bytes transferKind s).calls
            = [DeviceCall.hipMemcpy dest src bytes hipMemcpyKind.hipMemcpyDeviceToHost]
        ∧ (cu_copy_D2H dev dest src bytes transferKind s).outcome = Outcome.returned 0)
    ∧ (¬ (dest = 0 ∨ src = 0 ∨ bytes = 0) → transferKind = GpuApiCallBehavior.Async →
        (dev.assertsEnabled = false ∨ dev.isHostMemoryPinned dest = true) →
        dev.hipMemcpyAsync dest src bytes hipMemcpyKind.hipMemcpyDeviceToHost s = true →
        (cu_copy_D2H dev dest src bytes transferKind s).calls
            = [DeviceCall.hipMemcpyAsync dest src bytes hipMemcpyKind.hipMemcpyDeviceToHost s]
        ∧ (cu_copy_D2H dev dest src bytes transferKind s).outcome = Outcome.returned 0)
    ∧ (¬ (dest = 0 ∨ src = 0 ∨ bytes = 0) → transferKind = GpuApiCallBehavior.Sync →
        dev.hipMemcpy dest src bytes hipMemcpyKind.hipMemcpyHostToDevice = true →
        (cu_copy_H2D dev dest src bytes transferKind s).calls
            = [DeviceCall.hipMemcpy dest src bytes hipMemcpyKind.hipMemcpyHostToDevice]
        ∧ (cu_copy_H2D dev dest src bytes transferKind s).outcome = Outcome.returned 0)
    ∧ (¬ (dest = 0 ∨ src = 0 ∨ bytes = 0) → transferKind = GpuApiCallBehavior.Async →
        (dev.assertsEnabled = false ∨ dev.isHostMemoryPinned src = true) →
        dev.hipMemcpyAsync dest src bytes hipMemcpyKind.hipMemcpyHostToDevice s = true →
        (cu_copy_H2D dev dest src bytes transferKind s).calls
            = [DeviceCall.hipMemcpyAsync dest src bytes hipMemcpyKind.hipMemcpyHostToDevice s]
        ∧ (cu_copy_H2D dev dest src bytes transferKind s).outcome = Outcome.returned 0) := by
  refine ⟨⟨?_, ?_⟩, ⟨?_, ?_⟩, ?_, ?_, ?_, ?_⟩
  · intro h
    by_contra hc
    exact cu_copy_D2H_outcome dev dest src bytes transferKind s hc h.1
  · intro h
    rw [cu_copy_D2H_null dev dest src bytes transferKind s h]
    exact ⟨rfl, rfl⟩
  · intro h
    by_contra hc
    exact cu_copy_H2D_outcome dev dest src bytes transferKind s hc h.1
  · intro h
    rw [cu_copy_H2D_null dev dest src bytes transferKind s h]
    exact ⟨rfl, rfl⟩
  · intro h hk hok
    rw [hk, cu_copy_D2H_sync_ok dev dest src bytes s h hok]
    exact ⟨rfl, rfl⟩
  · intro h hk hpin hok
    rw [hk, cu_copy_D2H_async_ok dev dest src bytes s h hpin hok]
    exact ⟨rfl, rfl⟩
  · intro h hk hok
    rw [hk, cu_copy_H2D_sync_ok dev dest src bytes s h hok]
    exact ⟨rfl, rfl⟩
  · intro h hk hpin hok
    rw [hk, cu_copy_H2D_async_ok dev dest src bytes s h hpin hok]
    exact ⟨rfl, rfl⟩

theorem cu_copy_result_witness :
    ¬ ((1 : Nat) = 0 ∨ (2 : Nat) = 0 ∨ (8 : Int) = 0)
    ∧ (ex_dev_ok.assertsEnabled = false ∨ ex_dev_ok.isHostMemoryPinned 1 = true)
    ∧ ex_dev_ok.hipMemcpyAsync 1 2 8 hipMemcpyKind.hipMemcpyDeviceToHost 0 = true
    ∧ (cu_copy_D2H ex_dev_ok 1 2 8 GpuApiCallBehavior.Async 0).calls
        = [DeviceCall.hipMemcpyAsync 1 2 8 hipMemcpyKind.hipMemcpyDeviceToHost 0]
    ∧ (cu_copy_D2H ex_dev_ok 1 2 8 GpuApiCallBehavior.Async 0).outcome = Outcome.returned 0 :=
  ⟨by decide, Or.inr rfl, rfl,
    (cu_copy_result ex_dev_ok 1 2 8 GpuApiCallBehavior.Async 0).2.2.2.1 (by decide) rfl
      (Or.inr rfl) rfl⟩

/-- C37, on a device that is out of memory, in a build that checks the status of the
runtime calls: `d_dest` is not `NULL`, `req_size = 10` exceeds `*curr_alloc_size = 4` and
`over_alloc_large(n) >= n`, the old buffer is freed (which sets `*curr_size` to -1),
`hipMalloc` fails and `CU_RET_ERR` ends the call with a fatal error before
`*curr_size = req_size` is reached: the call ends with `*curr_size = -1`, not 10. -/
theorem cu_realloc_buffered_stopped_by_failed_malloc :
    (∀ n : Int, ex_dev_no_memory.over_alloc_large n ≥ n)
    ∧ (some 1 : Option Nat) ≠ none ∧ (10 : Int) ≥ 0
    ∧ (cu_realloc_buffered ex_dev_no_memory (some 1) 0 8 4 4 10 0 true).outcome
        = Outcome.fatal_error
    ∧ (cu_realloc_buffered ex_dev_no_memory (some 1) 0 8 4 4 10 0 true).calls
        = [DeviceCall.hipFree 1, DeviceCall.hipMalloc (1010 * 8)]
    ∧ (cu_realloc_buffered ex_dev_no_memory (some 1) 0 8 4 4 10 0 true).curr_size = -1
    ∧ (cu_realloc_buffered ex_dev_no_memory (some 1) 0 8 4 4 10 0 true).curr_size ≠ 10 := by
  refine ⟨?_, by decide, by decide, by decide, by decide, by decide, by decide⟩
  intro n
  show n + 1000 ≥ n
  omega

/-- C37, amended: `cu_realloc_buffered` with `d_dest != NULL` and `req_size >= 0`, when the
`hipFree` and `hipMalloc` calls it makes succeed or their status is not checked, ends with
`*curr_size = req_size` and `*curr_alloc_size >= req_size` (given
`over_alloc_large(n) >= n`), and it returns when there is no host source to upload; it
frees and reallocates only when `req_size` exceeds the previous `*curr_alloc_size` and
otherwise leaves the allocation and `*curr_alloc_size` unchanged; with `d_dest == NULL`
or `req_size < 0` it changes nothing. -/
theorem cu_realloc_buffered_sizes (dev : Device) (p h_src : Nat)
    (type_size curr_size curr_alloc_size req_size : Int) (s : Nat) (bAsync : Bool)
    (hreq : req_size ≥ 0) :
    ((∀ n : Int, dev.over_alloc_large n ≥ n) →
      (dev.checkErrors = true → req_size > curr_alloc_size → curr_alloc_size ≥ 0 → p ≠ 0 →
        dev.hipFree p = true) →
      (dev.checkErrors = true → req_size > curr_alloc_size →
        (dev.hipMalloc p (dev.over_alloc_large req_size * type_size)).1 = true) →
      (cu_realloc_buffered dev (some p) h_src type_size curr_size curr_alloc_size req_size s
          bAsync).curr_size = req_size
      ∧ (cu_realloc_buffered dev (some p) h_src type_size curr_size curr_alloc_size req_size s
          bAsync).curr_alloc_size ≥ req_size
      ∧ (h_src = 0 →
          (cu_realloc_buffered dev (some p) h_src type_size curr_size curr_alloc_size req_size
            s bAsync).outcome = Outcome.returned ()))
    ∧ ((∃ c ∈ (cu_realloc_buffered dev (some p) h_src type_size curr_size curr_alloc_size
          req_size s bAsync).calls, c.isAlloc = true) → req_size > curr_alloc_size)
    ∧ (¬ req_size > curr_alloc_size →
        (cu_realloc_buffered dev (some p) h_src type_size curr_size curr_alloc_size req_size s
          bAsync).d_dest = some p
        ∧ (cu_realloc_buffered dev (some p) h_src type_size curr_size curr_alloc_size req_size
          s bAsync).curr_alloc_size = curr_alloc_size
        ∧ ∀ c ∈ (cu_realloc_buffered dev (some p) h_src type_size curr_size curr_alloc_size
          req_size s bAsync).calls, c.isAlloc = false)
    ∧ (∀ (d_dest : Option Nat) (req : Int), d_dest = none ∨ req < 0 →
        cu_realloc_buffered dev d_dest h_src type_size curr_size curr_alloc_size req s bAsync
          = { outcome := Outcome.returned (), d_dest := d_dest, curr_size := curr_size,
              curr_alloc_size := curr_alloc_size, calls := [] }) := by
  refine ⟨?_, ?_, ?_, ?_⟩
  · intro hover hfree hmalloc
    by_cases h : req_size > curr_alloc_size
    · obtain ⟨calls, e⟩ := cu_realloc_buffered_grows dev p h_src type_size curr_size
        curr_alloc_size req_size s bAsync hreq h (fun hc => hfree hc h)
        (fun hc => hmalloc hc h)
      rw [e]
      obtain ⟨h1, h2, _, _, h5⟩ := cu_realloc_buffered_upload_spec dev
        (dev.hipMalloc p (dev.over_alloc_large req_size * type_size)).2 h_src type_size
        (dev.over_alloc_large req_size) req_size s bAsync calls
      refine ⟨h1, ?_, h5⟩
      rw [h2]
      exact hover req_size
    · rw [cu_realloc_buffered_fits dev p h_src type_size curr_size curr_alloc_size req_size s
        bAsync hreq h]
      obtain ⟨h1, h2, _, _, h5⟩ := cu_realloc_buffered_upload_spec dev p h_src type_size
        curr_alloc_size req_size s bAsync []
      refine ⟨h1, ?_, h5⟩
      rw [h2]
      omega
  · rintro ⟨c, hc, hca⟩
    by_contra h
    have h3 := (cu_realloc_buffered_alloc_only_when_needed dev p h_src type_size curr_size
      curr_alloc_size req_size s bAsync hreq h).2.2 c hc
    rw [h3] at hca
    exact Bool.noConfusion hca
  · intro h
    exact cu_realloc_buffered_alloc_only_when_needed dev p h_src type_size curr_size
      curr_alloc_size req_size s bAsync hreq h
  · intro d_dest req h
    exact cu_realloc_buffered_skip dev d_dest h_src type_size curr_size curr_alloc_size req s
      bAsync h

theorem cu_realloc_buffered_sizes_witness :
    (10 : Int) ≥ 0 ∧ (∀ n : Int, ex_dev_ok.over_alloc_large n ≥ n)
    ∧ (cu_realloc_buffered ex_dev_ok (some 1) 3 8 4 4 10 0 true).curr_size = 10
    ∧ (cu_realloc_buffered ex_dev_ok (some 1) 3 8 4 4 10 0 true).curr_alloc_size ≥ 10 :=
  have hover : ∀ n : Int, ex_dev_ok.over_alloc_large n ≥ n := fun n => by
    show n + 1000 ≥ n
    omega
  ⟨by decide, hover,
    ((cu_realloc_buffered_sizes ex_dev_ok 1 3 8 4 4 10 0 true (by decide)).1 hover
      (fun _ _ _ _ => rfl) (fun _ _ => rfl)).1,
    ((cu_realloc_buffered_sizes ex_dev_ok 1 3 8 4 4 10 0 true (by decide)).1 hover
      (fun _ _ _ _ => rfl) (fun _ _ => rfl)).2.1⟩

/-- C38, at the ranks 30 and 31: `gen-temp` is 0 on both replicas, so it does not strictly
decrease from rank 30 to rank 31. -/
theorem gen_temp_not_strictly_decreasing :
    (0 : Int) ≤ 30 ∧ (30 : Int) < 31 ∧ gen_temp 30 = 0 ∧ gen_temp 31 = 0
    ∧ ¬ (gen_temp 31 < gen_temp 30) := by
  refine ⟨by decide, by decide, gen_temp_of_ge 30 (by decide), gen_temp_of_ge 31 (by decide),
    ?_⟩
  rw [gen_temp_of_ge 30 (by decide), gen_temp_of_ge 31 (by decide)]
  exact lt_irrefl 0

/-- C38, amended: in `MultiSimTest::organizeMdpFile` the velocity-generation temperature
`gen-temp = max(298 - 10*rank, 0)` is non-negative for every rank, never increases
with increasing replica rank, and strictly decreases from a rank `r1` to a higher rank
`r2` whenever `r1 <= 29`; from rank 30 on it is 0. -/
theorem gen_temp_decreasing_until_clamped (r1 r2 : Int) (h : r1 < r2) :
    0 ≤ gen_temp r1 ∧ 0 ≤ gen_temp r2
    ∧ gen_temp r2 ≤ gen_temp r1
    ∧ (r1 ≤ 29 → gen_temp r2 < gen_temp r1)
    ∧ (30 ≤ r1 → gen_temp r1 = 0 ∧ gen_temp r2 = 0) := by
  have hstrict : r1 ≤ 29 → gen_temp r2 < gen_temp r1 := by
    intro h1
    have hq : (r1 : ℚ) < (r2 : ℚ) := by exact_mod_cast h
    have hq1 : (r1 : ℚ) ≤ 29 := by exact_mod_cast h1
    rw [gen_temp_of_le r1 h1]
    by_cases h2 : r2 ≤ 29
    · rw [gen_temp_of_le r2 h2]
      linarith
    · rw [gen_temp_of_ge r2 (by omega)]
      linarith
  refine ⟨gen_temp_nonneg r1, gen_temp_nonneg r2, ?_, hstrict, ?_⟩
  · by_cases h1 : r1 ≤ 29
    · exact le_of_lt (hstrict h1)
    · rw [gen_temp_of_ge r1 (by omega), gen_temp_of_ge r2 (by omega)]
  · intro h1
    exact ⟨gen_temp_of_ge r1 h1, gen_temp_of_ge r2 (by omega)⟩

theorem gen_temp_decreasing_until_clamped_witness :
    (0 : Int) < 1 ∧ (0 : Int) ≤ 29 ∧ gen_temp 1 < gen_temp 0 :=
  ⟨by decide, by decide,
    (gen_temp_decreasing_until_clamped 0 1 (by decide)).2.2.2.1 (by decide)⟩

end Gromacs
